import Mathlib

/-!
# CppGB: a shallow embedding of the emulator core

The C++ sources (`Cpu.cpp`, `Memory.cpp`, `DisplayController.cpp`, `SoundController.cpp`,
`EventHandler.cpp`) are transcribed function by function.  Machine integers are natural
numbers (or integers where the source computes with signed values); every place where the
source truncates to `u8` or `u16` carries an explicit `% 256` or `% 65536`.
-/

namespace CppGB

/-! ## Integer conversions of `Types.h` -/

/-- The conversion `(u8)x` of a signed intermediate value. -/
def u8 (x : Int) : Nat := (x % 256).toNat

/-- The conversion `(u16)x` of a signed intermediate value. -/
def u16 (x : Int) : Nat := (x % 65536).toNat

/-- The conversion `(s8)x` of a byte: the two's-complement reading of its low eight bits. -/
def s8 (x : Nat) : Int :=
  if x % 256 < 128 then ((x % 256 : Nat) : Int) else ((x % 256 : Nat) : Int) - 256

/-! ## Registers (`Cpu.h`) -/

/-- The flag register `struct { u8 : 4, C : 1, H : 1, N : 1, Z : 1 } F`.  It is kept as the
byte it occupies in the register union (the low byte of `AF`): four unnamed low bits, then
`C` at bit 4, `H` at bit 5, `N` at bit 6 and `Z` at bit 7. -/
structure Flags where
  byte : Nat

namespace Flags

/-- Reading the bit-field `F.C`. -/
def C (f : Flags) : Nat := (f.byte >>> 4) &&& 1

/-- Reading the bit-field `F.H`. -/
def H (f : Flags) : Nat := (f.byte >>> 5) &&& 1

/-- Reading the bit-field `F.N`. -/
def N (f : Flags) : Nat := (f.byte >>> 6) &&& 1

/-- Reading the bit-field `F.Z`. -/
def Z (f : Flags) : Nat := (f.byte >>> 7) &&& 1

/-- The assignment `F.C = x`: a one-bit field keeps `x` modulo 2 and leaves the other bits. -/
def setC (f : Flags) (x : Nat) : Flags := ⟨(f.byte &&& 0xEF) ||| ((x % 2) <<< 4)⟩

/-- The assignment `F.H = x`. -/
def setH (f : Flags) (x : Nat) : Flags := ⟨(f.byte &&& 0xDF) ||| ((x % 2) <<< 5)⟩

/-- The assignment `F.N = x`. -/
def setN (f : Flags) (x : Nat) : Flags := ⟨(f.byte &&& 0xBF) ||| ((x % 2) <<< 6)⟩

/-- The assignment `F.Z = x`. -/
def setZ (f : Flags) (x : Nat) : Flags := ⟨(f.byte &&& 0x7F) ||| ((x % 2) <<< 7)⟩

end Flags

/-- The register union `m_registers`: the bytes `F, A, C, B, E, D, L, H` in the order of the
source, which makes `AF`, `BC`, `DE`, `HL` the little-endian pairs, and the 16-bit `SP`, `PC`. -/
structure Registers where
  F : Flags
  A : Nat
  C : Nat
  B : Nat
  E : Nat
  D : Nat
  L : Nat
  H : Nat
  SP : Nat
  PC : Nat

namespace Registers

/-- Reading the 16-bit view `AF`. -/
def AF (r : Registers) : Nat := (r.A <<< 8) ||| r.F.byte

/-- Reading the 16-bit view `BC`. -/
def BC (r : Registers) : Nat := (r.B <<< 8) ||| r.C

/-- Reading the 16-bit view `DE`. -/
def DE (r : Registers) : Nat := (r.D <<< 8) ||| r.E

/-- Reading the 16-bit view `HL`. -/
def HL (r : Registers) : Nat := (r.H <<< 8) ||| r.L

/-- Reading the byte view `SP_lowbyte`. -/
def SP_lowbyte (r : Registers) : Nat := r.SP &&& 0xFF

/-- Reading the byte view `SP_highbyte`. -/
def SP_highbyte (r : Registers) : Nat := (r.SP >>> 8) &&& 0xFF

/-- The assignment `AF = v` of a 16-bit value: the low byte lands in `F`, the high byte in `A`. -/
def setAF (r : Registers) (v : Nat) : Registers :=
  { r with F := ⟨v % 256⟩, A := (v >>> 8) % 256 }

/-- The assignment `BC = v`. -/
def setBC (r : Registers) (v : Nat) : Registers :=
  { r with C := v % 256, B := (v >>> 8) % 256 }

/-- The assignment `DE = v`. -/
def setDE (r : Registers) (v : Nat) : Registers :=
  { r with E := v % 256, D := (v >>> 8) % 256 }

/-- The assignment `HL = v`. -/
def setHL (r : Registers) (v : Nat) : Registers :=
  { r with L := v % 256, H := (v >>> 8) % 256 }

end Registers

/-! ## Arithmetic helpers of `Cpu.cpp`

The helpers below touch `m_registers` only, so they are functions on `Registers`.  A helper
taking `u8& value` returns the new value together with the registers; the caller stores it
back where the reference pointed. -/

namespace Cpu

/-- `Cpu::add_A`. -/
def add_A (value : Nat) (r : Registers) : Registers :=
  let result := (r.A + value) % 65536
  let r := { r with F := r.F.setC (if result > 0xFF then 1 else 0) }
  let r := { r with F := r.F.setH (if (r.A &&& 0x0F) + (value &&& 0x0F) > 0x0F then 1 else 0) }
  let r := { r with A := result % 256 }
  let r := { r with F := r.F.setZ (if r.A = 0 then 1 else 0) }
  { r with F := r.F.setN 0 }

/-- `Cpu::adc`. -/
def adc (value : Nat) (r : Registers) : Registers :=
  let result := (r.A + value + r.F.C) % 65536
  let h := if (r.A &&& 0x0F) + (value &&& 0x0F) + r.F.C > 0x0F then 1 else 0
  let r := { r with F := r.F.setH h }
  let r := { r with F := r.F.setC (if result > 0xFF then 1 else 0) }
  let r := { r with A := result % 256 }
  let r := { r with F := r.F.setZ (if r.A = 0 then 1 else 0) }
  { r with F := r.F.setN 0 }

/-- `Cpu::cp`. -/
def cp (value : Nat) (r : Registers) : Registers :=
  let r := { r with F := r.F.setZ (if r.A = value then 1 else 0) }
  let r := { r with F := r.F.setC (if r.A < value then 1 else 0) }
  let r := { r with F := r.F.setH (if (r.A &&& 0x0F) < (value &&& 0x0F) then 1 else 0) }
  { r with F := r.F.setN 1 }

/-- `Cpu::sub`. -/
def sub (value : Nat) (r : Registers) : Registers :=
  let r := cp value r
  { r with A := u8 ((r.A : Int) - (value : Int)) }

/-- `Cpu::sbc`. -/
def sbc (value : Nat) (r : Registers) : Registers :=
  let result : Int := (r.A : Int) - (value : Int) - (r.F.C : Int)
  let h := if (r.A &&& 0x0F) < (value &&& 0x0F) + r.F.C then 1 else 0
  let r := { r with F := r.F.setH h }
  let r := { r with F := r.F.setC (if result < 0 then 1 else 0) }
  let r := { r with A := u8 result }
  let r := { r with F := r.F.setZ (if r.A = 0 then 1 else 0) }
  { r with F := r.F.setN 1 }

/-- `Cpu::and_`. -/
def and_ (value : Nat) (r : Registers) : Registers :=
  let r := { r with A := r.A &&& value }
  let r := { r with F := r.F.setZ (if r.A = 0 then 1 else 0) }
  let r := { r with F := r.F.setN 0 }
  let r := { r with F := r.F.setH 1 }
  { r with F := r.F.setC 0 }

/-- `Cpu::or_`. -/
def or_ (value : Nat) (r : Registers) : Registers :=
  let r := { r with A := r.A ||| value }
  let r := { r with F := r.F.setZ (if r.A = 0 then 1 else 0) }
  let r := { r with F := r.F.setN 0 }
  let r := { r with F := r.F.setH 0 }
  { r with F := r.F.setC 0 }

/-- `Cpu::xor_`. -/
def xor_ (value : Nat) (r : Registers) : Registers :=
  let r := { r with A := r.A ^^^ value }
  let r := { r with F := r.F.setZ (if r.A = 0 then 1 else 0) }
  let r := { r with F := r.F.setN 0 }
  let r := { r with F := r.F.setH 0 }
  { r with F := r.F.setC 0 }

/-- `Cpu::inc`. -/
def inc (value : Nat) (r : Registers) : Nat × Registers :=
  let r := { r with F := r.F.setH (if (value &&& 0x0F) = 0x0F then 1 else 0) }
  let value := (value + 1) % 256
  let r := { r with F := r.F.setZ (if value = 0 then 1 else 0) }
  (value, { r with F := r.F.setN 0 })

/-- `Cpu::dec`. -/
def dec (value : Nat) (r : Registers) : Nat × Registers :=
  let r := { r with F := r.F.setH (if (value &&& 0x0F) = 0 then 1 else 0) }
  let value := u8 ((value : Int) - 1)
  let r := { r with F := r.F.setZ (if value = 0 then 1 else 0) }
  (value, { r with F := r.F.setN 1 })

/-- `Cpu::swap`. -/
def swap (value : Nat) (r : Registers) : Nat × Registers :=
  let value := ((value >>> 4) ||| (value <<< 4)) % 256
  let r := { r with F := r.F.setZ (if value = 0 then 1 else 0) }
  let r := { r with F := r.F.setN 0 }
  let r := { r with F := r.F.setH 0 }
  (value, { r with F := r.F.setC 0 })

/-- `Cpu::rlc`. -/
def rlc (value : Nat) (r : Registers) : Nat × Registers :=
  let r := { r with F := r.F.setC (value >>> 7) }
  let value := ((value <<< 1) ||| r.F.C) % 256
  let r := { r with F := r.F.setZ (if value = 0 then 1 else 0) }
  let r := { r with F := r.F.setN 0 }
  (value, { r with F := r.F.setH 0 })

/-- `Cpu::rl`. -/
def rl (value : Nat) (r : Registers) : Nat × Registers :=
  let oldCarry := r.F.C
  let r := { r with F := r.F.setC (value >>> 7) }
  let value := ((value <<< 1) ||| oldCarry) % 256
  let r := { r with F := r.F.setZ (if value = 0 then 1 else 0) }
  let r := { r with F := r.F.setN 0 }
  (value, { r with F := r.F.setH 0 })

/-- `Cpu::rrc`. -/
def rrc (value : Nat) (r : Registers) : Nat × Registers :=
  let r := { r with F := r.F.setC (value &&& 1) }
  let value := ((value >>> 1) ||| (r.F.C <<< 7)) % 256
  let r := { r with F := r.F.setZ (if value = 0 then 1 else 0) }
  let r := { r with F := r.F.setN 0 }
  (value, { r with F := r.F.setH 0 })

/-- `Cpu::rr`. -/
def rr (value : Nat) (r : Registers) : Nat × Registers :=
  let oldCarry := r.F.C
  let r := { r with F := r.F.setC (value &&& 1) }
  let value := ((value >>> 1) ||| (oldCarry <<< 7)) % 256
  let r := { r with F := r.F.setZ (if value = 0 then 1 else 0) }
  let r := { r with F := r.F.setN 0 }
  (value, { r with F := r.F.setH 0 })

/-- `Cpu::sla`. -/
def sla (value : Nat) (r : Registers) : Nat × Registers :=
  let r := { r with F := r.F.setC (value >>> 7) }
  let value := (value <<< 1) % 256
  let r := { r with F := r.F.setZ (if value = 0 then 1 else 0) }
  let r := { r with F := r.F.setN 0 }
  (value, { r with F := r.F.setH 0 })

/-- `Cpu::sra`. -/
def sra (value : Nat) (r : Registers) : Nat × Registers :=
  let r := { r with F := r.F.setC (value &&& 1) }
  let value := ((value >>> 1) ||| (value &&& 0x80)) % 256
  let r := { r with F := r.F.setZ (if value = 0 then 1 else 0) }
  let r := { r with F := r.F.setN 0 }
  (value, { r with F := r.F.setH 0 })

/-- `Cpu::srl`. -/
def srl (value : Nat) (r : Registers) : Nat × Registers :=
  let r := { r with F := r.F.setC (value &&& 1) }
  let value := (value >>> 1) % 256
  let r := { r with F := r.F.setZ (if value = 0 then 1 else 0) }
  let r := { r with F := r.F.setN 0 }
  (value, { r with F := r.F.setH 0 })

/-- `Cpu::bit`.  The operand `~value` is a 32-bit `int`; bit `n` of it is read. -/
def bit (value : Nat) (n : Nat) (r : Registers) : Registers :=
  let r := { r with F := r.F.setZ (((0xFFFFFFFF - value) >>> n) &&& 1) }
  let r := { r with F := r.F.setN 0 }
  { r with F := r.F.setH 1 }

/-- `Cpu::set`. -/
def set (value : Nat) (n : Nat) : Nat := (value ||| (1 <<< n)) % 256

/-- `Cpu::res`.  The mask `~(1 << n)` is a 32-bit `int`. -/
def res (value : Nat) (n : Nat) : Nat := (value &&& (0xFFFFFFFF - (1 <<< n))) % 256

/-- `Cpu::daa`.  The local `A` is a `u16`, so the subtractions wrap modulo 65536.  The pair
`p` carries the local `A` and the registers out of the two branches. -/
def daa (r : Registers) : Registers :=
  let A := r.A
  let p : Nat × Registers :=
    if r.F.N ≠ 0 then
      let A := if r.F.C ≠ 0 then u16 ((A : Int) - 0x60) else A
      let A := if r.F.H ≠ 0 then u16 ((A : Int) - 0x06) else A
      (A, r)
    else
      let A := if r.F.H ≠ 0 ∨ (A &&& 0x0F) > 0x09 then (A + 0x06) % 65536 else A
      let A := if r.F.C ≠ 0 ∨ A > 0x9F then (A + 0x60) % 65536 else A
      (A, if A > 0xFF then { r with F := r.F.setC 1 } else r)
  let r := { p.2 with A := p.1 % 256 }
  let r := { r with F := r.F.setZ (if r.A = 0 then 1 else 0) }
  { r with F := r.F.setH 0 }

end Cpu

/-! ## Memory (`Memory.h`, `Memory.cpp`)

The byte arrays (`std::array`, `std::vector`) are total maps from index to byte; a vector
also records its size.  An index outside the declared length is undefined behaviour in C++;
here it simply addresses the map at that index, and the declared lengths are kept as
constants so that bounds can be stated. -/

/-- A `std::vector<u8>`: its size and its contents. -/
structure ByteVector where
  size : Nat
  data : Nat → Nat

/-- The element assignment `a[i] = v` on a byte array. -/
def store (a : Nat → Nat) (i v : Nat) : Nat → Nat := fun j => if j = i then v else a j

/-- The enumeration `Memory::Mbc`. -/
inductive Mbc where
  | NONE
  | MBC1
  | MBC2
  | MBC3
  | MBC5
  deriving DecidableEq, Repr

/-- The class `Memory`: the memory-mapped registers in declaration order, the bank
controller state and the byte arrays.  The save-file name is not part of the state. -/
structure Memory where
  P1 : Nat
  SB : Nat
  SC : Nat
  DIV : Nat
  TIMA : Nat
  TMA : Nat
  TAC : Nat
  IF : Nat
  IE : Nat
  NR10 : Nat
  NR11 : Nat
  NR12 : Nat
  NR13 : Nat
  NR14 : Nat
  NR21 : Nat
  NR22 : Nat
  NR23 : Nat
  NR24 : Nat
  NR30 : Nat
  NR31 : Nat
  NR32 : Nat
  NR33 : Nat
  NR34 : Nat
  NR41 : Nat
  NR42 : Nat
  NR43 : Nat
  NR44 : Nat
  NR50 : Nat
  NR51 : Nat
  NR52 : Nat
  LCDC : Nat
  STAT : Nat
  SCY : Nat
  SCX : Nat
  LY : Nat
  LYC : Nat
  DMA : Nat
  HDMA1 : Nat
  HDMA2 : Nat
  HDMA3 : Nat
  HDMA4 : Nat
  HDMA5 : Nat
  BGP : Nat
  OBP0 : Nat
  OBP1 : Nat
  WY : Nat
  WX : Nat
  KEY1 : Nat
  VBK : Nat
  SVBK : Nat
  BCPS : Nat
  BCPD : Nat
  OCPS : Nat
  OCPD : Nat
  m_mbc : Mbc
  m_saveEnabled : Bool
  m_romBankNumber : Nat
  m_externalRamBankNumber : Nat
  m_rom : ByteVector
  m_externalRam : ByteVector
  m_displayRam : Nat → Nat
  m_workRam : Nat → Nat
  m_oam : Nat → Nat
  m_stackRam : Nat → Nat
  m_waveformRam : Nat → Nat

namespace Memory

/-- The constant `ROM_START_ADDRESS` of `Memory.cpp`. -/
@[reducible, simp] def ROM_START_ADDRESS : Nat := 0x0000

/-- The constant `ROM_END_ADDRESS` of `Memory.cpp`. -/
@[reducible, simp] def ROM_END_ADDRESS : Nat := 0x7FFF

/-- The constant `DISPLAYRAM_START_ADDRESS` of `Memory.cpp`. -/
@[reducible, simp] def DISPLAYRAM_START_ADDRESS : Nat := 0x8000

/-- The constant `DISPLAYRAM_END_ADDRESS` of `Memory.cpp`. -/
@[reducible, simp] def DISPLAYRAM_END_ADDRESS : Nat := 0x9FFF

/-- The constant `EXTERNALRAM_START_ADDRESS` of `Memory.cpp`. -/
@[reducible, simp] def EXTERNALRAM_START_ADDRESS : Nat := 0xA000

/-- The constant `EXTERNALRAM_END_ADDRESS` of `Memory.cpp`. -/
@[reducible, simp] def EXTERNALRAM_END_ADDRESS : Nat := 0xBFFF

/-- The constant `WORKRAM_START_ADDRESS` of `Memory.cpp`. -/
@[reducible, simp] def WORKRAM_START_ADDRESS : Nat := 0xC000

/-- The constant `WORKRAM_END_ADDRESS` of `Memory.cpp`. -/
@[reducible, simp] def WORKRAM_END_ADDRESS : Nat := 0xDFFF

/-- The constant `ECHORAM_START_ADDRESS` of `Memory.cpp`. -/
@[reducible, simp] def ECHORAM_START_ADDRESS : Nat := 0xE000

/-- The constant `ECHORAM_END_ADDRESS` of `Memory.cpp`. -/
@[reducible, simp] def ECHORAM_END_ADDRESS : Nat := 0xFDFF

/-- The constant `OAM_START_ADDRESS` of `Memory.cpp`. -/
@[reducible, simp] def OAM_START_ADDRESS : Nat := 0xFE00

/-- The constant `OAM_END_ADDRESS` of `Memory.cpp`. -/
@[reducible, simp] def OAM_END_ADDRESS : Nat := 0xFE9F

/-- The constant `WAVEFORMRAM_START_ADDRESS` of `Memory.cpp`. -/
@[reducible, simp] def WAVEFORMRAM_START_ADDRESS : Nat := 0xFF30

/-- The constant `WAVEFORMRAM_END_ADDRESS` of `Memory.cpp`. -/
@[reducible, simp] def WAVEFORMRAM_END_ADDRESS : Nat := 0xFF3F

/-- The constant `STACKRAM_START_ADDRESS` of `Memory.cpp`. -/
@[reducible, simp] def STACKRAM_START_ADDRESS : Nat := 0xFF80

/-- The constant `STACKRAM_END_ADDRESS` of `Memory.cpp`. -/
@[reducible, simp] def STACKRAM_END_ADDRESS : Nat := 0xFFFE

/-- The constant `ROM_BANK_SIZE` of `Memory.cpp`. -/
@[reducible, simp] def ROM_BANK_SIZE : Nat := 0x4000

/-- The constant `DISPLAYRAM_BANK_SIZE` of `Memory.cpp`. -/
@[reducible, simp] def DISPLAYRAM_BANK_SIZE : Nat := 0x2000

/-- The constant `EXTERNALRAM_BANK_SIZE` of `Memory.cpp`. -/
@[reducible, simp] def EXTERNALRAM_BANK_SIZE : Nat := 0x2000

/-- The constant `WORKRAM_BANK_SIZE` of `Memory.cpp`. -/
@[reducible, simp] def WORKRAM_BANK_SIZE : Nat := 0x1000

/-- The constant `Memory::P1_ADDRESS`. -/
@[reducible, simp] def P1_ADDRESS : Nat := 0xFF00

/-- The constant `Memory::SB_ADDRESS`. -/
@[reducible, simp] def SB_ADDRESS : Nat := 0xFF01

/-- The constant `Memory::SC_ADDRESS`. -/
@[reducible, simp] def SC_ADDRESS : Nat := 0xFF02

/-- The constant `Memory::DIV_ADDRESS`. -/
@[reducible, simp] def DIV_ADDRESS : Nat := 0xFF04

/-- The constant `Memory::TIMA_ADDRESS`. -/
@[reducible, simp] def TIMA_ADDRESS : Nat := 0xFF05

/-- The constant `Memory::TMA_ADDRESS`. -/
@[reducible, simp] def TMA_ADDRESS : Nat := 0xFF06

/-- The constant `Memory::TAC_ADDRESS`. -/
@[reducible, simp] def TAC_ADDRESS : Nat := 0xFF07

/-- The constant `Memory::IF_ADDRESS`. -/
@[reducible, simp] def IF_ADDRESS : Nat := 0xFF0F

/-- The constant `Memory::NR10_ADDRESS`. -/
@[reducible, simp] def NR10_ADDRESS : Nat := 0xFF10

/-- The constant `Memory::NR11_ADDRESS`. -/
@[reducible, simp] def NR11_ADDRESS : Nat := 0xFF11

/-- The constant `Memory::NR12_ADDRESS`. -/
@[reducible, simp] def NR12_ADDRESS : Nat := 0xFF12

/-- The constant `Memory::NR13_ADDRESS`. -/
@[reducible, simp] def NR13_ADDRESS : Nat := 0xFF13

/-- The constant `Memory::NR14_ADDRESS`. -/
@[reducible, simp] def NR14_ADDRESS : Nat := 0xFF14

/-- The constant `Memory::NR21_ADDRESS`. -/
@[reducible, simp] def NR21_ADDRESS : Nat := 0xFF16

/-- The constant `Memory::NR22_ADDRESS`. -/
@[reducible, simp] def NR22_ADDRESS : Nat := 0xFF17

/-- The constant `Memory::NR23_ADDRESS`. -/
@[reducible, simp] def NR23_ADDRESS : Nat := 0xFF18

/-- The constant `Memory::NR24_ADDRESS`. -/
@[reducible, simp] def NR24_ADDRESS : Nat := 0xFF19

/-- The constant `Memory::NR30_ADDRESS`. -/
@[reducible, simp] def NR30_ADDRESS : Nat := 0xFF1A

/-- The constant `Memory::NR31_ADDRESS`. -/
@[reducible, simp] def NR31_ADDRESS : Nat := 0xFF1B

/-- The constant `Memory::NR32_ADDRESS`. -/
@[reducible, simp] def NR32_ADDRESS : Nat := 0xFF1C

/-- The constant `Memory::NR33_ADDRESS`. -/
@[reducible, simp] def NR33_ADDRESS : Nat := 0xFF1D

/-- The constant `Memory::NR34_ADDRESS`. -/
@[reducible, simp] def NR34_ADDRESS : Nat := 0xFF1E

/-- The constant `Memory::NR41_ADDRESS`. -/
@[reducible, simp] def NR41_ADDRESS : Nat := 0xFF20

/-- The constant `Memory::NR42_ADDRESS`. -/
@[reducible, simp] def NR42_ADDRESS : Nat := 0xFF21

/-- The constant `Memory::NR43_ADDRESS`. -/
@[reducible, simp] def NR43_ADDRESS : Nat := 0xFF22

/-- The constant `Memory::NR44_ADDRESS`. -/
@[reducible, simp] def NR44_ADDRESS : Nat := 0xFF23

/-- The constant `Memory::NR50_ADDRESS`. -/
@[reducible, simp] def NR50_ADDRESS : Nat := 0xFF24

/-- The constant `Memory::NR51_ADDRESS`. -/
@[reducible, simp] def NR51_ADDRESS : Nat := 0xFF25

/-- The constant `Memory::NR52_ADDRESS`. -/
@[reducible, simp] def NR52_ADDRESS : Nat := 0xFF26

/-- The constant `Memory::LCDC_ADDRESS`. -/
@[reducible, simp] def LCDC_ADDRESS : Nat := 0xFF40

/-- The constant `Memory::STAT_ADDRESS`. -/
@[reducible, simp] def STAT_ADDRESS : Nat := 0xFF41

/-- The constant `Memory::SCY_ADDRESS`. -/
@[reducible, simp] def SCY_ADDRESS : Nat := 0xFF42

/-- The constant `Memory::SCX_ADDRESS`. -/
@[reducible, simp] def SCX_ADDRESS : Nat := 0xFF43

/-- The constant `Memory::LY_ADDRESS`. -/
@[reducible, simp] def LY_ADDRESS : Nat := 0xFF44

/-- The constant `Memory::LYC_ADDRESS`. -/
@[reducible, simp] def LYC_ADDRESS : Nat := 0xFF45

/-- The constant `Memory::DMA_ADDRESS`. -/
@[reducible, simp] def DMA_ADDRESS : Nat := 0xFF46

/-- The constant `Memory::BGP_ADDRESS`. -/
@[reducible, simp] def BGP_ADDRESS : Nat := 0xFF47

/-- The constant `Memory::OBP0_ADDRESS`. -/
@[reducible, simp] def OBP0_ADDRESS : Nat := 0xFF48

/-- The constant `Memory::OBP1_ADDRESS`. -/
@[reducible, simp] def OBP1_ADDRESS : Nat := 0xFF49

/-- The constant `Memory::WY_ADDRESS`. -/
@[reducible, simp] def WY_ADDRESS : Nat := 0xFF4A

/-- The constant `Memory::WX_ADDRESS`. -/
@[reducible, simp] def WX_ADDRESS : Nat := 0xFF4B

/-- The constant `Memory::KEY1_ADDRESS`. -/
@[reducible, simp] def KEY1_ADDRESS : Nat := 0xFF4D

/-- The constant `Memory::VBK_ADDRESS`. -/
@[reducible, simp] def VBK_ADDRESS : Nat := 0xFF4F

/-- The constant `Memory::HDMA1_ADDRESS`. -/
@[reducible, simp] def HDMA1_ADDRESS : Nat := 0xFF51

/-- The constant `Memory::HDMA2_ADDRESS`. -/
@[reducible, simp] def HDMA2_ADDRESS : Nat := 0xFF52

/-- The constant `Memory::HDMA3_ADDRESS`. -/
@[reducible, simp] def HDMA3_ADDRESS : Nat := 0xFF53

/-- The constant `Memory::HDMA4_ADDRESS`. -/
@[reducible, simp] def HDMA4_ADDRESS : Nat := 0xFF54

/-- The constant `Memory::HDMA5_ADDRESS`. -/
@[reducible, simp] def HDMA5_ADDRESS : Nat := 0xFF55

/-- The constant `Memory::BCPS_ADDRESS`. -/
@[reducible, simp] def BCPS_ADDRESS : Nat := 0xFF68

/-- The constant `Memory::BCPD_ADDRESS`. -/
@[reducible, simp] def BCPD_ADDRESS : Nat := 0xFF69

/-- The constant `Memory::OCPS_ADDRESS`. -/
@[reducible, simp] def OCPS_ADDRESS : Nat := 0xFF6A

/-- The constant `Memory::OCPD_ADDRESS`. -/
@[reducible, simp] def OCPD_ADDRESS : Nat := 0xFF6B

/-- The constant `Memory::SVBK_ADDRESS`. -/
@[reducible, simp] def SVBK_ADDRESS : Nat := 0xFF70

/-- The constant `Memory::IE_ADDRESS`. -/
@[reducible, simp] def IE_ADDRESS : Nat := 0xFFFF

/-- The constant `Memory::VBLANK_INTERRUPT_ADDRESS`. -/
@[reducible, simp] def VBLANK_INTERRUPT_ADDRESS : Nat := 0x40

/-- The constant `Memory::LCDSTAT_INTERRUPT_ADDRESS`. -/
@[reducible, simp] def LCDSTAT_INTERRUPT_ADDRESS : Nat := 0x48

/-- The constant `Memory::TIMER_INTERRUPT_ADDRESS`. -/
@[reducible, simp] def TIMER_INTERRUPT_ADDRESS : Nat := 0x50

/-- The constant `Memory::SERIALTRANSFER_INTERRUPT_ADDRESS`. -/
@[reducible, simp] def SERIALTRANSFER_INTERRUPT_ADDRESS : Nat := 0x58

/-- The constant `Memory::JOYPAD_INTERRUPT_ADDRESS`. -/
@[reducible, simp] def JOYPAD_INTERRUPT_ADDRESS : Nat := 0x60

/-- The constant `Memory::OAM_ADDRESS`. -/
@[reducible, simp] def OAM_ADDRESS : Nat := 0xFE00

/-- The declared length of `m_displayRam`. -/
@[reducible, simp] def displayRamLength : Nat := 0x4000

/-- The declared length of `m_workRam`. -/
@[reducible, simp] def workRamLength : Nat := 0x8000

/-- The declared length of `m_oam`. -/
@[reducible, simp] def oamLength : Nat := 160

/-- The declared length of `m_stackRam`. -/
@[reducible, simp] def stackRamLength : Nat := 127

/-- The declared length of `m_waveformRam`. -/
@[reducible, simp] def waveformRamLength : Nat := 32

/-- `Memory::readDisplayRam`. -/
def readDisplayRam (m : Memory) (address bankNumber : Nat) : Nat :=
  m.m_displayRam (address - DISPLAYRAM_START_ADDRESS + bankNumber * DISPLAYRAM_BANK_SIZE)

/-- The index `address + (m_romBankNumber - 1) * ROM_BANK_SIZE` used by `Memory::read` in the
switchable ROM window; the arithmetic is done in `int`. -/
def romIndex (m : Memory) (address : Nat) : Nat :=
  ((address : Int) + ((m.m_romBankNumber : Int) - 1) * (ROM_BANK_SIZE : Int)).toNat

/-- The `u16 position` computed by `Memory::read` and `Memory::write` for external RAM. -/
def externalRamPosition (m : Memory) (address : Nat) : Nat :=
  (address - EXTERNALRAM_START_ADDRESS + m.m_externalRamBankNumber * EXTERNALRAM_BANK_SIZE)
    % 65536

/-- The index into `m_workRam` computed by `Memory::read` and `Memory::write` for an address
in the work-RAM range. -/
def workRamIndex (m : Memory) (address : Nat) : Nat :=
  let position := address - WORKRAM_START_ADDRESS
  if position < WORKRAM_BANK_SIZE then position
  else
    let bankNumber := if m.SVBK = 0 then 1 else m.SVBK
    position + (bankNumber - 1) * WORKRAM_BANK_SIZE

/-- The register `switch` at the end of `Memory::read`. -/
def readRegister (m : Memory) (address : Nat) : Nat :=
  if address = P1_ADDRESS then m.P1
  else if address = SB_ADDRESS then m.SB
  else if address = SC_ADDRESS then m.SC
  else if address = DIV_ADDRESS then m.DIV
  else if address = TIMA_ADDRESS then m.TIMA
  else if address = TMA_ADDRESS then m.TMA
  else if address = TAC_ADDRESS then m.TAC
  else if address = IF_ADDRESS then m.IF
  else if address = NR10_ADDRESS then m.NR10
  else if address = NR11_ADDRESS then m.NR11
  else if address = NR12_ADDRESS then m.NR12
  else if address = NR13_ADDRESS then m.NR13
  else if address = NR14_ADDRESS then m.NR14
  else if address = NR21_ADDRESS then m.NR21
  else if address = NR22_ADDRESS then m.NR22
  else if address = NR23_ADDRESS then m.NR23
  else if address = NR24_ADDRESS then m.NR24
  else if address = NR30_ADDRESS then m.NR30
  else if address = NR31_ADDRESS then m.NR31
  else if address = NR32_ADDRESS then m.NR32
  else if address = NR33_ADDRESS then m.NR33
  else if address = NR34_ADDRESS then m.NR34
  else if address = NR41_ADDRESS then m.NR41
  else if address = NR42_ADDRESS then m.NR42
  else if address = NR43_ADDRESS then m.NR43
  else if address = NR44_ADDRESS then m.NR44
  else if address = NR50_ADDRESS then m.NR50
  else if address = NR51_ADDRESS then m.NR51
  else if address = NR52_ADDRESS then m.NR52
  else if address = LCDC_ADDRESS then m.LCDC
  else if address = STAT_ADDRESS then m.STAT
  else if address = SCY_ADDRESS then m.SCY
  else if address = SCX_ADDRESS then m.SCX
  else if address = LY_ADDRESS then m.LY
  else if address = LYC_ADDRESS then m.LYC
  else if address = DMA_ADDRESS then m.DMA
  else if address = BGP_ADDRESS then m.BGP
  else if address = OBP0_ADDRESS then m.OBP0
  else if address = OBP1_ADDRESS then m.OBP1
  else if address = WY_ADDRESS then m.WY
  else if address = WX_ADDRESS then m.WX
  else if address = KEY1_ADDRESS then m.KEY1
  else if address = VBK_ADDRESS then m.VBK
  else if address = HDMA1_ADDRESS then m.HDMA1
  else if address = HDMA2_ADDRESS then m.HDMA2
  else if address = HDMA3_ADDRESS then m.HDMA3
  else if address = HDMA4_ADDRESS then m.HDMA4
  else if address = HDMA5_ADDRESS then m.HDMA5
  else if address = BCPS_ADDRESS then m.BCPS
  else if address = BCPD_ADDRESS then m.BCPD
  else if address = OCPS_ADDRESS then m.OCPS
  else if address = OCPD_ADDRESS then m.OCPD
  else if address = SVBK_ADDRESS then m.SVBK
  else if address = IE_ADDRESS then m.IE
  else 0xFF

/-- `Memory::read`.  The echo-RAM branch calls `read(address - 0x2000)`, which lands in the
work-RAM branch; that branch is written out in its place. -/
def read (m : Memory) (address : Nat) : Nat :=
  if ROM_START_ADDRESS ≤ address ∧ address ≤ ROM_END_ADDRESS then
    if address < ROM_BANK_SIZE then m.m_rom.data address
    else m.m_rom.data (m.romIndex address)
  else if DISPLAYRAM_START_ADDRESS ≤ address ∧ address ≤ DISPLAYRAM_END_ADDRESS then
    m.readDisplayRam address m.VBK
  else if EXTERNALRAM_START_ADDRESS ≤ address ∧ address ≤ EXTERNALRAM_END_ADDRESS then
    let position := m.externalRamPosition address
    if position < m.m_externalRam.size then m.m_externalRam.data position else 0xFF
  else if WORKRAM_START_ADDRESS ≤ address ∧ address ≤ WORKRAM_END_ADDRESS then
    m.m_workRam (m.workRamIndex address)
  else if ECHORAM_START_ADDRESS ≤ address ∧ address ≤ ECHORAM_END_ADDRESS then
    m.m_workRam (m.workRamIndex (address - 0x2000))
  else if OAM_START_ADDRESS ≤ address ∧ address ≤ OAM_END_ADDRESS then
    m.m_oam (address - OAM_START_ADDRESS)
  else if WAVEFORMRAM_START_ADDRESS ≤ address ∧ address ≤ WAVEFORMRAM_END_ADDRESS then
    m.m_waveformRam (address - WAVEFORMRAM_START_ADDRESS)
  else if STACKRAM_START_ADDRESS ≤ address ∧ address ≤ STACKRAM_END_ADDRESS then
    m.m_stackRam (address - STACKRAM_START_ADDRESS)
  else m.readRegister address

/-- `Memory::writeToRom_mbc1`. -/
def writeToRom_mbc1 (m : Memory) (address value : Nat) : Memory :=
  if address < 0x2000 then m
  else if address < 0x4000 then
    if value = 0 then { m with m_romBankNumber := 1 }
    else { m with m_romBankNumber := value }
  else if address < 0x6000 then { m with m_externalRamBankNumber := value }
  else m

/-- `Memory::writeToRom_mbc2`. -/
def writeToRom_mbc2 (m : Memory) (address value : Nat) : Memory :=
  if address < 0x1000 then m
  else if 0x2100 ≤ address ∧ address < 0x2200 then { m with m_romBankNumber := value }
  else m

/-- `Memory::writeToRom_mbc3`. -/
def writeToRom_mbc3 (m : Memory) (address value : Nat) : Memory :=
  if address < 0x2000 then m
  else if address < 0x4000 then { m with m_romBankNumber := value }
  else if address < 0x6000 then { m with m_externalRamBankNumber := value }
  else m

/-- `Memory::writeToRom_mbc5`. -/
def writeToRom_mbc5 (m : Memory) (address value : Nat) : Memory :=
  if address < 0x2000 then m
  else if address < 0x3000 then { m with m_romBankNumber := value }
  else if address < 0x4000 then m
  else if address < 0x6000 then { m with m_externalRamBankNumber := value }
  else m

/-- `Memory::writeToRom`. -/
def writeToRom (m : Memory) (address value : Nat) : Memory :=
  match m.m_mbc with
  | Mbc.MBC1 => m.writeToRom_mbc1 address value
  | Mbc.MBC2 => m.writeToRom_mbc2 address value
  | Mbc.MBC3 => m.writeToRom_mbc3 address value
  | Mbc.MBC5 => m.writeToRom_mbc5 address value
  | Mbc.NONE => m

/-- The register `switch` at the end of `Memory::write`. -/
def writeRegister (m : Memory) (address value : Nat) : Memory :=
  if address = P1_ADDRESS then { m with P1 := value }
  else if address = SB_ADDRESS then { m with SB := value }
  else if address = SC_ADDRESS then { m with SC := value }
  else if address = DIV_ADDRESS then { m with DIV := value }
  else if address = TIMA_ADDRESS then { m with TIMA := value }
  else if address = TMA_ADDRESS then { m with TMA := value }
  else if address = TAC_ADDRESS then { m with TAC := value }
  else if address = IF_ADDRESS then { m with IF := value }
  else if address = NR10_ADDRESS then { m with NR10 := value }
  else if address = NR11_ADDRESS then { m with NR11 := value }
  else if address = NR12_ADDRESS then { m with NR12 := value }
  else if address = NR13_ADDRESS then { m with NR13 := value }
  else if address = NR14_ADDRESS then { m with NR14 := value }
  else if address = NR21_ADDRESS then { m with NR21 := value }
  else if address = NR22_ADDRESS then { m with NR22 := value }
  else if address = NR23_ADDRESS then { m with NR23 := value }
  else if address = NR24_ADDRESS then { m with NR24 := value }
  else if address = NR30_ADDRESS then { m with NR30 := value }
  else if address = NR31_ADDRESS then { m with NR31 := value }
  else if address = NR32_ADDRESS then { m with NR32 := value }
  else if address = NR33_ADDRESS then { m with NR33 := value }
  else if address = NR34_ADDRESS then { m with NR34 := value }
  else if address = NR41_ADDRESS then { m with NR41 := value }
  else if address = NR42_ADDRESS then { m with NR42 := value }
  else if address = NR43_ADDRESS then { m with NR43 := value }
  else if address = NR44_ADDRESS then { m with NR44 := value }
  else if address = NR50_ADDRESS then { m with NR50 := value }
  else if address = NR51_ADDRESS then { m with NR51 := value }
  else if address = NR52_ADDRESS then { m with NR52 := value }
  else if address = LCDC_ADDRESS then { m with LCDC := value }
  else if address = STAT_ADDRESS then { m with STAT := value }
  else if address = SCY_ADDRESS then { m with SCY := value }
  else if address = SCX_ADDRESS then { m with SCX := value }
  else if address = LY_ADDRESS then { m with LY := value }
  else if address = LYC_ADDRESS then { m with LYC := value }
  else if address = DMA_ADDRESS then { m with DMA := value }
  else if address = BGP_ADDRESS then { m with BGP := value }
  else if address = OBP0_ADDRESS then { m with OBP0 := value }
  else if address = OBP1_ADDRESS then { m with OBP1 := value }
  else if address = WY_ADDRESS then { m with WY := value }
  else if address = WX_ADDRESS then { m with WX := value }
  else if address = KEY1_ADDRESS then { m with KEY1 := value }
  else if address = VBK_ADDRESS then { m with VBK := value }
  else if address = HDMA1_ADDRESS then { m with HDMA1 := value }
  else if address = HDMA2_ADDRESS then { m with HDMA2 := value }
  else if address = HDMA3_ADDRESS then { m with HDMA3 := value }
  else if address = HDMA4_ADDRESS then { m with HDMA4 := value }
  else if address = HDMA5_ADDRESS then { m with HDMA5 := value }
  else if address = BCPS_ADDRESS then { m with BCPS := value }
  else if address = BCPD_ADDRESS then { m with BCPD := value }
  else if address = OCPS_ADDRESS then { m with OCPS := value }
  else if address = OCPD_ADDRESS then { m with OCPD := value }
  else if address = SVBK_ADDRESS then { m with SVBK := value }
  else if address = IE_ADDRESS then { m with IE := value }
  else m

/-- `Memory::write`.  The echo-RAM branch calls `write(address - 0x2000, value)`, which lands
in the work-RAM branch; that branch is written out in its place. -/
def write (m : Memory) (address value : Nat) : Memory :=
  if ROM_START_ADDRESS ≤ address ∧ address ≤ ROM_END_ADDRESS then
    m.writeToRom address value
  else if DISPLAYRAM_START_ADDRESS ≤ address ∧ address ≤ DISPLAYRAM_END_ADDRESS then
    let index := address - DISPLAYRAM_START_ADDRESS + m.VBK * DISPLAYRAM_BANK_SIZE
    { m with m_displayRam := store m.m_displayRam index value }
  else if EXTERNALRAM_START_ADDRESS ≤ address ∧ address ≤ EXTERNALRAM_END_ADDRESS then
    let position := m.externalRamPosition address
    if position < m.m_externalRam.size then
      { m with m_externalRam := { m.m_externalRam with
          data := store m.m_externalRam.data position value } }
    else m
  else if WORKRAM_START_ADDRESS ≤ address ∧ address ≤ WORKRAM_END_ADDRESS then
    { m with m_workRam := store m.m_workRam (m.workRamIndex address) value }
  else if ECHORAM_START_ADDRESS ≤ address ∧ address ≤ ECHORAM_END_ADDRESS then
    { m with m_workRam := store m.m_workRam (m.workRamIndex (address - 0x2000)) value }
  else if OAM_START_ADDRESS ≤ address ∧ address ≤ OAM_END_ADDRESS then
    { m with m_oam := store m.m_oam (address - OAM_START_ADDRESS) value }
  else if WAVEFORMRAM_START_ADDRESS ≤ address ∧ address ≤ WAVEFORMRAM_END_ADDRESS then
    { m with m_waveformRam := store m.m_waveformRam (address - WAVEFORMRAM_START_ADDRESS) value }
  else if STACKRAM_START_ADDRESS ≤ address ∧ address ≤ STACKRAM_END_ADDRESS then
    { m with m_stackRam := store m.m_stackRam (address - STACKRAM_START_ADDRESS) value }
  else m.writeRegister address value

/-- The loop of `Memory::performDmaTransfer`, iteration `i` onwards for `n` more bytes: OAM
entry `i` receives `read(dmaAddress)`, and `dmaAddress` is a `u16` that is incremented. -/
def performDmaTransferLoop : Nat → Nat → Nat → Memory → Memory
  | 0, _, _, m => m
  | n + 1, i, dmaAddress, m =>
    performDmaTransferLoop n (i + 1) ((dmaAddress + 1) % 65536)
      { m with m_oam := store m.m_oam i (m.read dmaAddress) }

/-- `Memory::performDmaTransfer`. -/
def performDmaTransfer (m : Memory) : Memory :=
  let dmaAddress := (m.DMA * 0x100) % 65536
  performDmaTransferLoop oamLength 0 dmaAddress m

/-- The loop of `Memory::performHdmaTransfer` for `n` more bytes; it returns the memory and
the final `u16` source and destination addresses. -/
def performHdmaTransferLoop : Nat → Nat → Nat → Memory → Memory × Nat × Nat
  | 0, sourceAddress, destinationAddress, m => (m, sourceAddress, destinationAddress)
  | n + 1, sourceAddress, destinationAddress, m =>
    let index := destinationAddress + m.VBK * DISPLAYRAM_BANK_SIZE
    performHdmaTransferLoop n ((sourceAddress + 1) % 65536) ((destinationAddress + 1) % 65536)
      { m with m_displayRam := store m.m_displayRam index (m.read sourceAddress) }

/-- `Memory::performHdmaTransfer`. -/
def performHdmaTransfer (m : Memory) (n : Nat) : Memory :=
  let transferSize := (16 * (n + 1)) % 65536
  let sourceAddress := ((m.HDMA1 <<< 8) ||| (m.HDMA2 &&& 0xF0)) % 65536
  let destinationAddress := (((m.HDMA3 &&& 0x1F) <<< 8) ||| (m.HDMA4 &&& 0xF0)) % 65536
  let p := performHdmaTransferLoop transferSize sourceAddress destinationAddress m
  let m := p.1
  let sourceAddress := p.2.1
  let destinationAddress := p.2.2
  let m := { m with HDMA1 := (sourceAddress >>> 8) % 256 }
  let m := { m with HDMA2 := sourceAddress &&& 0x00FF }
  let m := { m with HDMA3 := (destinationAddress >>> 8) % 256 }
  let m := { m with HDMA4 := destinationAddress &&& 0x00FF }
  { m with HDMA5 := u8 ((m.HDMA5 : Int) - ((n : Int) + 1)) }

end Memory


namespace Memory

/-- The default member initialisers of `Memory` (`Memory.h`) around a loaded ROM image: every
register zero apart from `LCDC` and `HDMA5`, no bank controller, ROM bank 1, empty external
RAM and zeroed arrays.  The constructor body then decodes the cartridge header. -/
def defaults (rom : ByteVector) : Memory :=
  { P1 := 0, SB := 0, SC := 0, DIV := 0, TIMA := 0, TMA := 0, TAC := 0, IF := 0, IE := 0,
    NR10 := 0, NR11 := 0, NR12 := 0, NR13 := 0, NR14 := 0,
    NR21 := 0, NR22 := 0, NR23 := 0, NR24 := 0,
    NR30 := 0, NR31 := 0, NR32 := 0, NR33 := 0, NR34 := 0,
    NR41 := 0, NR42 := 0, NR43 := 0, NR44 := 0,
    NR50 := 0, NR51 := 0, NR52 := 0,
    LCDC := 0x91, STAT := 0, SCY := 0, SCX := 0, LY := 0, LYC := 0, DMA := 0,
    HDMA1 := 0, HDMA2 := 0, HDMA3 := 0, HDMA4 := 0, HDMA5 := 0x80,
    BGP := 0, OBP0 := 0, OBP1 := 0, WY := 0, WX := 0, KEY1 := 0, VBK := 0, SVBK := 0,
    BCPS := 0, BCPD := 0, OCPS := 0, OCPD := 0,
    m_mbc := Mbc.NONE, m_saveEnabled := false, m_romBankNumber := 1,
    m_externalRamBankNumber := 0,
    m_rom := rom, m_externalRam := { size := 0, data := fun _ => 0 },
    m_displayRam := fun _ => 0, m_workRam := fun _ => 0, m_oam := fun _ => 0,
    m_stackRam := fun _ => 0, m_waveformRam := fun _ => 0 }

end Memory

/-! ## Display and sound controller state (`DisplayController.h`, `SoundController.h`)

Only the state that the CPU and the memory-mapped registers can observe is kept: the frame
buffer, the host window and the floating-point phase accumulators of the sound channels are
written by the controllers but never read back by the emulated machine. -/

/-- The union `DisplayController::Color`, through its byte view `struct { u8 L, H; }`. -/
structure Color where
  L : Nat
  H : Nat

/-- `DisplayController::ColorPalette`: four colours. -/
structure ColorPalette where
  color : Nat → Color

/-- The state of `DisplayController`. -/
structure DisplayController where
  m_cycleCounter : Nat
  m_bgColorPalettes : Nat → ColorPalette
  m_objColorPalettes : Nat → ColorPalette

/-- The integer state of `SoundController`: the sample counters of the four channels, the
sweep state of channel 1 and the shift register of channel 4. -/
structure SoundController where
  m_channel1_sampleCounter : Nat
  m_channel1_sweepShiftCounter : Nat
  m_channel1_xShadowRegister : Nat
  m_channel2_sampleCounter : Nat
  m_channel3_sampleCounter : Nat
  m_channel4_sampleCounter : Nat
  m_channel4_lfsr : Nat

/-! ## The CPU (`Cpu.h`, `Cpu.cpp`) -/

/-- The fatal error raised by `throwError("Unknown opcode 0x", ...)`. -/
inductive Error where
  | unknownOpcode (opcode : Nat)
  deriving DecidableEq, Repr

/-- The class `Cpu` with the objects it owns or refers to, and the function-local `static`
variables of `doCycle`, `incrementDIV` and `incrementTIMA`. -/
structure Cpu where
  m_registers : Registers
  m_memory : Memory
  m_displayController : DisplayController
  m_soundController : SoundController
  m_ime : Bool
  m_haltMode : Bool
  doCycle_displaySwitch : Bool
  incrementDIV_cycleCounter : Nat
  incrementTIMA_cycleCounter : Nat

namespace Cpu

/-- `Cpu::VBLANK_INTERRUPT_FLAG`. -/
@[reducible, simp] def VBLANK_INTERRUPT_FLAG : Nat := 0x01

/-- `Cpu::LCDSTAT_INTERRUPT_FLAG`. -/
@[reducible, simp] def LCDSTAT_INTERRUPT_FLAG : Nat := 0x02

/-- `Cpu::TIMER_INTERRUPT_FLAG`. -/
@[reducible, simp] def TIMER_INTERRUPT_FLAG : Nat := 0x04

/-- `Cpu::SERIALTRANSFER_INTERRUPT_FLAG`. -/
@[reducible, simp] def SERIALTRANSFER_INTERRUPT_FLAG : Nat := 0x08

/-- `Cpu::JOYPAD_INTERRUPT_FLAG`. -/
@[reducible, simp] def JOYPAD_INTERRUPT_FLAG : Nat := 0x10

/-- `Cpu::requestInterrupt`. -/
def requestInterrupt (flag : Nat) (s : Cpu) : Cpu :=
  { s with m_memory := { s.m_memory with IF := s.m_memory.IF ||| flag } }

end Cpu

namespace DisplayController

/-- `DisplayController::HBLANK_MODE_FLAG`. -/
@[reducible, simp] def HBLANK_MODE_FLAG : Nat := 0

/-- `DisplayController::VBLANK_MODE_FLAG`. -/
@[reducible, simp] def VBLANK_MODE_FLAG : Nat := 1

/-- `DisplayController::OAMSEARCH_MODE_FLAG`. -/
@[reducible, simp] def OAMSEARCH_MODE_FLAG : Nat := 2

/-- `DisplayController::PIXELTRANSFER_MODE_FLAG`. -/
@[reducible, simp] def PIXELTRANSFER_MODE_FLAG : Nat := 3

/-- `DisplayController::updateLY`. -/
def updateLY (value : Nat) (s : Cpu) : Cpu :=
  let s := { s with m_memory := { s.m_memory with LY := value } }
  if s.m_memory.LY = s.m_memory.LYC ∧ s.m_memory.STAT &&& 0x40 ≠ 0 then
    Cpu.requestInterrupt Cpu.LCDSTAT_INTERRUPT_FLAG s
  else s

/-- `DisplayController::changeMode`. -/
def changeMode (flag : Nat) (s : Cpu) : Cpu :=
  let s := { s with m_displayController := { s.m_displayController with m_cycleCounter := 0 } }
  { s with m_memory := { s.m_memory with STAT := (s.m_memory.STAT &&& 0xFC) ||| flag } }

/-- The `switch (m_memory.STAT & 0x03)` of `DisplayController::doCycle`, entered after the
cycle counter has been incremented.  The calls `transferPixelLine()` and `drawFrame()` write
the frame buffer and the host window only, so they leave this state as it is. -/
def doCycleSwitch (s : Cpu) : Cpu :=
  let mode := s.m_memory.STAT &&& 0x03
  if mode = HBLANK_MODE_FLAG then
    if s.m_displayController.m_cycleCounter = 51 then
      let s := updateLY ((s.m_memory.LY + 1) % 256) s
      if s.m_memory.LY < 144 then changeMode OAMSEARCH_MODE_FLAG s
      else
        let s := changeMode VBLANK_MODE_FLAG s
        Cpu.requestInterrupt Cpu.VBLANK_INTERRUPT_FLAG s
    else s
  else if mode = VBLANK_MODE_FLAG then
    if s.m_displayController.m_cycleCounter = 1 ∧ s.m_memory.LY = 153 then updateLY 0 s
    else if s.m_displayController.m_cycleCounter = 114 then
      if s.m_memory.LY = 0 then changeMode OAMSEARCH_MODE_FLAG s
      else
        let s := { s with m_displayController := { s.m_displayController with
          m_cycleCounter := 0 } }
        updateLY ((s.m_memory.LY + 1) % 256) s
    else s
  else if mode = OAMSEARCH_MODE_FLAG then
    if s.m_displayController.m_cycleCounter = 20 then changeMode PIXELTRANSFER_MODE_FLAG s
    else s
  else if mode = PIXELTRANSFER_MODE_FLAG then
    if s.m_displayController.m_cycleCounter = 43 then
      let s := changeMode HBLANK_MODE_FLAG s
      let s :=
        if s.m_memory.HDMA5 &&& 0x80 = 0 then
          { s with m_memory := s.m_memory.performHdmaTransfer 0 }
        else s
      if s.m_memory.STAT &&& 0x08 ≠ 0 then
        Cpu.requestInterrupt Cpu.LCDSTAT_INTERRUPT_FLAG s
      else s
    else s
  else s

/-- `DisplayController::doCycle`. -/
def doCycle (s : Cpu) : Cpu :=
  if s.m_memory.LCDC &&& 0x80 = 0 then s
  else
    doCycleSwitch { s with m_displayController := { s.m_displayController with
      m_cycleCounter := (s.m_displayController.m_cycleCounter + 1) % 256 } }

/-- `DisplayController::writeToLCDC`. -/
def writeToLCDC (value : Nat) (s : Cpu) : Cpu :=
  let oldValue := s.m_memory.LCDC
  let s := { s with m_memory := { s.m_memory with LCDC := value } }
  if value &&& 0x80 = 0 ∧ oldValue &&& 0x80 ≠ 0 then
    let s := { s with m_memory := { s.m_memory with LY := 0 } }
    changeMode HBLANK_MODE_FLAG s
  else s

/-- `DisplayController::readBgPaletteColor`. -/
def readBgPaletteColor (s : Cpu) : Nat :=
  let paletteNumber := (s.m_memory.BCPS >>> 3) &&& 0x07
  let colorNumber := (s.m_memory.BCPS >>> 1) &&& 0x03
  if s.m_memory.BCPS &&& 1 ≠ 0 then
    ((s.m_displayController.m_bgColorPalettes paletteNumber).color colorNumber).H
  else
    ((s.m_displayController.m_bgColorPalettes paletteNumber).color colorNumber).L

/-- `DisplayController::readObjPaletteColor`. -/
def readObjPaletteColor (s : Cpu) : Nat :=
  let paletteNumber := (s.m_memory.OCPS >>> 3) &&& 0x07
  let colorNumber := (s.m_memory.OCPS >>> 1) &&& 0x03
  if s.m_memory.OCPS &&& 1 ≠ 0 then
    ((s.m_displayController.m_objColorPalettes paletteNumber).color colorNumber).H
  else
    ((s.m_displayController.m_objColorPalettes paletteNumber).color colorNumber).L

/-- The assignment `palettes[paletteNumber].color[colorNumber].H = value` (`high` true) or
`... .L = value` (`high` false). -/
def storeColorByte (palettes : Nat → ColorPalette) (paletteNumber colorNumber : Nat)
    (high : Bool) (value : Nat) : Nat → ColorPalette :=
  fun p =>
    if p = paletteNumber then
      { color := fun c =>
          if c = colorNumber then
            if high then { (palettes p).color c with H := value }
            else { (palettes p).color c with L := value }
          else (palettes p).color c }
    else palettes p

/-- `DisplayController::updateBgPaletteColor`. -/
def updateBgPaletteColor (s : Cpu) : Cpu :=
  let paletteNumber := (s.m_memory.BCPS >>> 3) &&& 0x07
  let colorNumber := (s.m_memory.BCPS >>> 1) &&& 0x03
  let palettes := storeColorByte s.m_displayController.m_bgColorPalettes
    paletteNumber colorNumber (decide (s.m_memory.BCPS &&& 1 ≠ 0)) s.m_memory.BCPD
  let s := { s with m_displayController := { s.m_displayController with
    m_bgColorPalettes := palettes } }
  if s.m_memory.BCPS &&& 0x80 ≠ 0 then
    { s with m_memory := { s.m_memory with BCPS := ((s.m_memory.BCPS &&& 0xBF) + 1) % 256 } }
  else s

/-- `DisplayController::updateObjPaletteColor`. -/
def updateObjPaletteColor (s : Cpu) : Cpu :=
  let paletteNumber := (s.m_memory.OCPS >>> 3) &&& 0x07
  let colorNumber := (s.m_memory.OCPS >>> 1) &&& 0x03
  let palettes := storeColorByte s.m_displayController.m_objColorPalettes
    paletteNumber colorNumber (decide (s.m_memory.OCPS &&& 1 ≠ 0)) s.m_memory.OCPD
  let s := { s with m_displayController := { s.m_displayController with
    m_objColorPalettes := palettes } }
  if s.m_memory.OCPS &&& 0x80 ≠ 0 then
    { s with m_memory := { s.m_memory with OCPS := ((s.m_memory.OCPS &&& 0xBF) + 1) % 256 } }
  else s

end DisplayController

namespace SoundController

/-- `SoundController::writeToNR13`, without the floating-point phase bookkeeping. -/
def writeToNR13 (value : Nat) (s : Cpu) : Cpu :=
  let s := { s with m_memory := { s.m_memory with NR13 := value } }
  { s with m_soundController := { s.m_soundController with m_channel1_sampleCounter := 0 } }

/-- `SoundController::writeToNR14`, without the floating-point phase bookkeeping. -/
def writeToNR14 (value : Nat) (s : Cpu) : Cpu :=
  let s := { s with m_memory := { s.m_memory with NR14 := value } }
  let s :=
    if s.m_memory.NR14 &&& 0x80 ≠ 0 then
      let s := { s with m_soundController := { s.m_soundController with
        m_channel1_sweepShiftCounter := 0 } }
      let s := { s with m_soundController := { s.m_soundController with
        m_channel1_xShadowRegister := ((s.m_memory.NR14 &&& 0x07) <<< 8) ||| s.m_memory.NR13 } }
      { s with m_memory := { s.m_memory with NR52 := s.m_memory.NR52 ||| 0x01 } }
    else s
  { s with m_soundController := { s.m_soundController with m_channel1_sampleCounter := 0 } }

/-- `SoundController::writeToNR23`, without the floating-point phase bookkeeping. -/
def writeToNR23 (value : Nat) (s : Cpu) : Cpu :=
  let s := { s with m_memory := { s.m_memory with NR23 := value } }
  { s with m_soundController := { s.m_soundController with m_channel2_sampleCounter := 0 } }

/-- `SoundController::writeToNR24`, without the floating-point phase bookkeeping. -/
def writeToNR24 (value : Nat) (s : Cpu) : Cpu :=
  let s := { s with m_memory := { s.m_memory with NR24 := value } }
  let s :=
    if s.m_memory.NR24 &&& 0x80 ≠ 0 then
      { s with m_memory := { s.m_memory with NR52 := s.m_memory.NR52 ||| 0x02 } }
    else s
  { s with m_soundController := { s.m_soundController with m_channel2_sampleCounter := 0 } }

/-- `SoundController::writeToNR33`, without the floating-point phase bookkeeping. -/
def writeToNR33 (value : Nat) (s : Cpu) : Cpu :=
  let s := { s with m_memory := { s.m_memory with NR33 := value } }
  { s with m_soundController := { s.m_soundController with m_channel3_sampleCounter := 0 } }

/-- `SoundController::writeToNR34`, without the floating-point phase bookkeeping. -/
def writeToNR34 (value : Nat) (s : Cpu) : Cpu :=
  let s := { s with m_memory := { s.m_memory with NR34 := value } }
  let s :=
    if s.m_memory.NR30 &&& 0x80 ≠ 0 ∧ s.m_memory.NR34 &&& 0x80 ≠ 0 then
      { s with m_memory := { s.m_memory with NR52 := s.m_memory.NR52 ||| 0x04 } }
    else s
  { s with m_soundController := { s.m_soundController with m_channel3_sampleCounter := 0 } }

/-- `SoundController::writeToNR44`. -/
def writeToNR44 (value : Nat) (s : Cpu) : Cpu :=
  let s := { s with m_memory := { s.m_memory with NR44 := value } }
  if s.m_memory.NR44 &&& 0x80 ≠ 0 then
    let s := { s with m_soundController := { s.m_soundController with m_channel4_lfsr := 0x7FFF } }
    let s := { s with m_memory := { s.m_memory with NR52 := s.m_memory.NR52 ||| 0x08 } }
    { s with m_soundController := { s.m_soundController with m_channel4_sampleCounter := 0 } }
  else s

end SoundController

namespace Cpu

/-- The constructor `Cpu::Cpu`: zeroed registers apart from `SP`, `PC` and `A`, both
controllers in their initial state, and the `static` locals at their initial values. -/
def init (memory : Memory) : Cpu :=
  { m_registers := { F := ⟨0⟩, A := 0x11, C := 0, B := 0, E := 0, D := 0, L := 0, H := 0,
                     SP := 0xFFFE, PC := 0x100 }
    m_memory := memory
    m_displayController :=
      { m_cycleCounter := 0
        m_bgColorPalettes := fun _ => { color := fun _ => { L := 0, H := 0 } }
        m_objColorPalettes := fun _ => { color := fun _ => { L := 0, H := 0 } } }
    m_soundController :=
      { m_channel1_sampleCounter := 0, m_channel1_sweepShiftCounter := 0,
        m_channel1_xShadowRegister := 0, m_channel2_sampleCounter := 0,
        m_channel3_sampleCounter := 0, m_channel4_sampleCounter := 0,
        m_channel4_lfsr := 0x7FFF }
    m_ime := false
    m_haltMode := false
    doCycle_displaySwitch := false
    incrementDIV_cycleCounter := 0
    incrementTIMA_cycleCounter := 0 }

/-- `Cpu::incrementDIV`. -/
def incrementDIV (s : Cpu) : Cpu :=
  let s := { s with incrementDIV_cycleCounter := (s.incrementDIV_cycleCounter + 1) % 256 }
  if s.incrementDIV_cycleCounter = 128 then
    let s := { s with incrementDIV_cycleCounter := 0 }
    { s with m_memory := { s.m_memory with DIV := (s.m_memory.DIV + 1) % 256 } }
  else s

/-- The period selected by `TAC & 0x03` in `Cpu::incrementTIMA`. -/
def timaPeriod (tac : Nat) : Nat :=
  if tac &&& 0x03 = 0 then 256
  else if tac &&& 0x03 = 1 then 4
  else if tac &&& 0x03 = 2 then 16
  else if tac &&& 0x03 = 3 then 64
  else 0

/-- `Cpu::incrementTIMA`. -/
def incrementTIMA (s : Cpu) : Cpu :=
  if s.m_memory.TAC &&& 0x04 ≠ 0 then
    let s := { s with incrementTIMA_cycleCounter := (s.incrementTIMA_cycleCounter + 1) % 65536 }
    let period := timaPeriod s.m_memory.TAC
    if s.incrementTIMA_cycleCounter = period then
      let s := { s with incrementTIMA_cycleCounter := 0 }
      if s.m_memory.TIMA = 0xFF then
        let s := { s with m_memory := { s.m_memory with TIMA := s.m_memory.TMA } }
        requestInterrupt TIMER_INTERRUPT_FLAG s
      else
        { s with m_memory := { s.m_memory with TIMA := (s.m_memory.TIMA + 1) % 256 } }
    else s
  else s

/-- One iteration of the loop of `Cpu::doCycle`.  The call `regulateFps()` only paces the
host and has no effect on the emulated state. -/
def doCycleStep (s : Cpu) : Cpu :=
  let s := incrementDIV s
  let s := incrementTIMA s
  if s.m_memory.KEY1 &&& 0x80 ≠ 0 then
    let s := { s with doCycle_displaySwitch := !s.doCycle_displaySwitch }
    if s.doCycle_displaySwitch then s
    else DisplayController.doCycle s
  else DisplayController.doCycle s

/-- `Cpu::doCycle(cycleCount)`. -/
def doCycle : Nat → Cpu → Cpu
  | 0, s => s
  | cycleCount + 1, s => doCycle cycleCount (doCycleStep s)

/-- `Cpu::readMemory_u8`: the value read and the state after the cycle. -/
def readMemory_u8 (address : Nat) (s : Cpu) : Nat × Cpu :=
  let value :=
    if address = Memory.BCPD_ADDRESS then DisplayController.readBgPaletteColor s
    else if address = Memory.OCPD_ADDRESS then DisplayController.readObjPaletteColor s
    else s.m_memory.read address
  (value, doCycle 1 s)

/-- `Cpu::readMemory_u16`. -/
def readMemory_u16 (address : Nat) (s : Cpu) : Nat × Cpu :=
  let p := readMemory_u8 address s
  let lowByte := p.1
  let q := readMemory_u8 ((address + 1) % 65536) p.2
  let highByte := q.1
  (((highByte <<< 8) ||| lowByte) % 65536, q.2)

/-- `Cpu::writeToMemory`. -/
def writeToMemory (address value : Nat) (s : Cpu) : Cpu :=
  let s :=
    if address = Memory.SC_ADDRESS then
      if value &&& 0x81 = 0x81 then
        let s := { s with m_memory := { s.m_memory with SB := 0xFF } }
        requestInterrupt SERIALTRANSFER_INTERRUPT_FLAG s
      else s
    else if address = Memory.NR13_ADDRESS then SoundController.writeToNR13 value s
    else if address = Memory.NR14_ADDRESS then SoundController.writeToNR14 value s
    else if address = Memory.NR23_ADDRESS then SoundController.writeToNR23 value s
    else if address = Memory.NR24_ADDRESS then SoundController.writeToNR24 value s
    else if address = Memory.NR30_ADDRESS then
      let s :=
        if value &&& 0x80 = 0 then
          { s with m_memory := { s.m_memory with NR52 := s.m_memory.NR52 &&& 0xFB } }
        else s
      { s with m_memory := { s.m_memory with NR30 := value } }
    else if address = Memory.NR33_ADDRESS then SoundController.writeToNR33 value s
    else if address = Memory.NR34_ADDRESS then SoundController.writeToNR34 value s
    else if address = Memory.NR44_ADDRESS then SoundController.writeToNR44 value s
    else if address = Memory.NR52_ADDRESS then
      { s with m_memory := { s.m_memory with
          NR52 := (s.m_memory.NR52 &&& 0x0F) ||| (value &&& 0x80) } }
    else if address = Memory.LCDC_ADDRESS then DisplayController.writeToLCDC value s
    else if address = Memory.STAT_ADDRESS then
      { s with m_memory := { s.m_memory with
          STAT := (value &&& 0xF8) ||| (s.m_memory.STAT &&& 0x07) } }
    else if address = Memory.DMA_ADDRESS then
      let s := { s with m_memory := { s.m_memory with DMA := value } }
      { s with m_memory := s.m_memory.performDmaTransfer }
    else if address = Memory.KEY1_ADDRESS then
      { s with m_memory := { s.m_memory with
          KEY1 := (s.m_memory.KEY1 &&& 0x80) ||| (value &&& 0x01) } }
    else if address = Memory.VBK_ADDRESS then
      { s with m_memory := { s.m_memory with VBK := value &&& 0x01 } }
    else if address = Memory.HDMA5_ADDRESS then
      let oldValue := s.m_memory.HDMA5
      let s := { s with m_memory := { s.m_memory with HDMA5 := value &&& 0x7F } }
      if value &&& 0x80 = 0 then
        if oldValue &&& 0x80 ≠ 0 then
          { s with m_memory := s.m_memory.performHdmaTransfer s.m_memory.HDMA5 }
        else
          { s with m_memory := { s.m_memory with HDMA5 := s.m_memory.HDMA5 ||| 0x80 } }
      else s
    else if address = Memory.BCPD_ADDRESS then
      let s := { s with m_memory := { s.m_memory with BCPD := value } }
      DisplayController.updateBgPaletteColor s
    else if address = Memory.OCPD_ADDRESS then
      let s := { s with m_memory := { s.m_memory with OCPD := value } }
      DisplayController.updateObjPaletteColor s
    else { s with m_memory := s.m_memory.write address value }
  doCycle 1 s

/-- `Cpu::fetch_u8`. -/
def fetch_u8 (s : Cpu) : Nat × Cpu :=
  let p := readMemory_u8 s.m_registers.PC s
  let s := p.2
  (p.1, { s with m_registers := { s.m_registers with PC := (s.m_registers.PC + 1) % 65536 } })

/-- `Cpu::fetch_u16`. -/
def fetch_u16 (s : Cpu) : Nat × Cpu :=
  let p := readMemory_u16 s.m_registers.PC s
  let s := p.2
  (p.1, { s with m_registers := { s.m_registers with PC := (s.m_registers.PC + 2) % 65536 } })

/-- `Cpu::push`. -/
def push (value : Nat) (s : Cpu) : Cpu :=
  let s := doCycle 1 s
  let s := { s with m_registers := { s.m_registers with SP := u16 ((s.m_registers.SP : Int) - 1) } }
  let s := writeToMemory s.m_registers.SP ((value >>> 8) % 256) s
  let s := { s with m_registers := { s.m_registers with SP := u16 ((s.m_registers.SP : Int) - 1) } }
  writeToMemory s.m_registers.SP (value &&& 0x00FF) s

/-- `Cpu::pop`. -/
def pop (s : Cpu) : Nat × Cpu :=
  let p := readMemory_u8 s.m_registers.SP s
  let lowByte := p.1
  let s := p.2
  let s := { s with m_registers := { s.m_registers with SP := (s.m_registers.SP + 1) % 65536 } }
  let q := readMemory_u8 s.m_registers.SP s
  let highByte := q.1
  let s := q.2
  let s := { s with m_registers := { s.m_registers with SP := (s.m_registers.SP + 1) % 65536 } }
  (((highByte <<< 8) ||| lowByte) % 65536, s)

/-- `Cpu::add_HL`. -/
def add_HL (value : Nat) (s : Cpu) : Cpu :=
  let r := s.m_registers
  let result := r.HL + value
  let r := { r with F := r.F.setC (if result > 0xFFFF then 1 else 0) }
  let h := if (r.HL &&& 0x0FFF) + (value &&& 0x0FFF) > 0x0FFF then 1 else 0
  let r := { r with F := r.F.setH h }
  let r := r.setHL (result % 65536)
  let r := { r with F := r.F.setN 0 }
  doCycle 1 { s with m_registers := r }

/-- `Cpu::call`. -/
def call (cc : Bool) (s : Cpu) : Cpu :=
  if cc then
    let s := push ((s.m_registers.PC + 2) % 65536) s
    let p := readMemory_u16 s.m_registers.PC s
    let s := p.2
    { s with m_registers := { s.m_registers with PC := p.1 } }
  else
    let s := { s with m_registers := { s.m_registers with
      PC := (s.m_registers.PC + 2) % 65536 } }
    doCycle 2 s

/-- `Cpu::rst`. -/
def rst (address : Nat) (s : Cpu) : Cpu :=
  let s := push s.m_registers.PC s
  { s with m_registers := { s.m_registers with PC := address } }

/-- `Cpu::add_SP_e`: the returned `u16` and the state. -/
def add_SP_e (s : Cpu) : Nat × Cpu :=
  let p := fetch_u8 s
  let value := p.1
  let s := p.2
  let r := s.m_registers
  let h := if (r.SP &&& 0x000F) + (value &&& 0x0F) > 0x0F then 1 else 0
  let r := { r with F := r.F.setH h }
  let r := { r with F := r.F.setC (if (r.SP &&& 0x00FF) + value > 0xFF then 1 else 0) }
  let r := { r with F := r.F.setZ 0 }
  let r := { r with F := r.F.setN 0 }
  let s := doCycle 1 { s with m_registers := r }
  let result : Int := (s.m_registers.SP : Int) + s8 value
  (u16 result, s)

/-- `Cpu::jr`. -/
def jr (cc : Bool) (s : Cpu) : Cpu :=
  if cc then
    let p := fetch_u8 s
    let value := s8 p.1
    let s := p.2
    let s := { s with m_registers := { s.m_registers with
      PC := u16 ((s.m_registers.PC : Int) + value) } }
    doCycle 1 s
  else
    let s := { s with m_registers := { s.m_registers with
      PC := (s.m_registers.PC + 1) % 65536 } }
    doCycle 1 s

/-- `Cpu::ret`. -/
def ret (cc : Bool) (s : Cpu) : Cpu :=
  if cc then
    let p := pop s
    let s := p.2
    let s := { s with m_registers := { s.m_registers with PC := p.1 } }
    doCycle 2 s
  else doCycle 1 s

/-- `Cpu::jp`. -/
def jp (cc : Bool) (s : Cpu) : Cpu :=
  if cc then
    let p := readMemory_u16 s.m_registers.PC s
    let s := p.2
    let s := { s with m_registers := { s.m_registers with PC := p.1 } }
    doCycle 1 s
  else
    let s := { s with m_registers := { s.m_registers with
      PC := (s.m_registers.PC + 2) % 65536 } }
    doCycle 2 s

/-- `Cpu::performInterrupt`. -/
def performInterrupt (flag address : Nat) (s : Cpu) : Cpu :=
  let s := { s with m_haltMode := false }
  if s.m_ime then
    let s := { s with m_ime := false }
    let s := rst address s
    { s with m_memory := { s.m_memory with IF := s.m_memory.IF ^^^ flag } }
  else s

/-- `Cpu::handleInterrupts`. -/
def handleInterrupts (s : Cpu) : Cpu :=
  if s.m_memory.IF &&& s.m_memory.IE &&& VBLANK_INTERRUPT_FLAG ≠ 0 then
    performInterrupt VBLANK_INTERRUPT_FLAG Memory.VBLANK_INTERRUPT_ADDRESS s
  else if s.m_memory.IF &&& s.m_memory.IE &&& LCDSTAT_INTERRUPT_FLAG ≠ 0 then
    performInterrupt LCDSTAT_INTERRUPT_FLAG Memory.LCDSTAT_INTERRUPT_ADDRESS s
  else if s.m_memory.IF &&& s.m_memory.IE &&& TIMER_INTERRUPT_FLAG ≠ 0 then
    performInterrupt TIMER_INTERRUPT_FLAG Memory.TIMER_INTERRUPT_ADDRESS s
  else if s.m_memory.IF &&& s.m_memory.IE &&& SERIALTRANSFER_INTERRUPT_FLAG ≠ 0 then
    performInterrupt SERIALTRANSFER_INTERRUPT_FLAG Memory.SERIALTRANSFER_INTERRUPT_ADDRESS s
  else if s.m_memory.IF &&& s.m_memory.IE &&& JOYPAD_INTERRUPT_FLAG ≠ 0 then
    performInterrupt JOYPAD_INTERRUPT_FLAG Memory.JOYPAD_INTERRUPT_ADDRESS s
  else s

set_option maxRecDepth 100000 in
/-- The inner `switch (opcode)` of `Cpu::executeNextInstruction`, reached through the prefix
`0xCB`; it has no `default` label. -/
def executeOpcodeCB (opcode : Nat) (s : Cpu) : Cpu :=
  -- RLC B
  if opcode = 0x00 then
    let p := rlc s.m_registers.B s.m_registers
    { s with m_registers := { p.2 with B := p.1 } }
  -- RLC C
  else if opcode = 0x01 then
    let p := rlc s.m_registers.C s.m_registers
    { s with m_registers := { p.2 with C := p.1 } }
  -- RLC D
  else if opcode = 0x02 then
    let p := rlc s.m_registers.D s.m_registers
    { s with m_registers := { p.2 with D := p.1 } }
  -- RLC E
  else if opcode = 0x03 then
    let p := rlc s.m_registers.E s.m_registers
    { s with m_registers := { p.2 with E := p.1 } }
  -- RLC H
  else if opcode = 0x04 then
    let p := rlc s.m_registers.H s.m_registers
    { s with m_registers := { p.2 with H := p.1 } }
  -- RLC L
  else if opcode = 0x05 then
    let p := rlc s.m_registers.L s.m_registers
    { s with m_registers := { p.2 with L := p.1 } }
  -- RLC (HL)
  else if opcode = 0x06 then
    let p := readMemory_u8 s.m_registers.HL s
    let value := p.1
    let s := p.2
    let p := rlc value s.m_registers
    let value := p.1
    let s := { s with m_registers := p.2 }
    writeToMemory s.m_registers.HL value s
  -- RLC A
  else if opcode = 0x07 then
    let p := rlc s.m_registers.A s.m_registers
    { s with m_registers := { p.2 with A := p.1 } }
  -- RRC B
  else if opcode = 0x08 then
    let p := rrc s.m_registers.B s.m_registers
    { s with m_registers := { p.2 with B := p.1 } }
  -- RRC C
  else if opcode = 0x09 then
    let p := rrc s.m_registers.C s.m_registers
    { s with m_registers := { p.2 with C := p.1 } }
  -- RRC D
  else if opcode = 0x0A then
    let p := rrc s.m_registers.D s.m_registers
    { s with m_registers := { p.2 with D := p.1 } }
  -- RRC E
  else if opcode = 0x0B then
    let p := rrc s.m_registers.E s.m_registers
    { s with m_registers := { p.2 with E := p.1 } }
  -- RRC H
  else if opcode = 0x0C then
    let p := rrc s.m_registers.H s.m_registers
    { s with m_registers := { p.2 with H := p.1 } }
  -- RRC L
  else if opcode = 0x0D then
    let p := rrc s.m_registers.L s.m_registers
    { s with m_registers := { p.2 with L := p.1 } }
  -- RRC (HL)
  else if opcode = 0x0E then
    let p := readMemory_u8 s.m_registers.HL s
    let value := p.1
    let s := p.2
    let p := rrc value s.m_registers
    let value := p.1
    let s := { s with m_registers := p.2 }
    writeToMemory s.m_registers.HL value s
  -- RRC A
  else if opcode = 0x0F then
    let p := rrc s.m_registers.A s.m_registers
    { s with m_registers := { p.2 with A := p.1 } }
  -- RL B
  else if opcode = 0x10 then
    let p := rl s.m_registers.B s.m_registers
    { s with m_registers := { p.2 with B := p.1 } }
  -- RL C
  else if opcode = 0x11 then
    let p := rl s.m_registers.C s.m_registers
    { s with m_registers := { p.2 with C := p.1 } }
  -- RL D
  else if opcode = 0x12 then
    let p := rl s.m_registers.D s.m_registers
    { s with m_registers := { p.2 with D := p.1 } }
  -- RL E
  else if opcode = 0x13 then
    let p := rl s.m_registers.E s.m_registers
    { s with m_registers := { p.2 with E := p.1 } }
  -- RL H
  else if opcode = 0x14 then
    let p := rl s.m_registers.H s.m_registers
    { s with m_registers := { p.2 with H := p.1 } }
  -- RL L
  else if opcode = 0x15 then
    let p := rl s.m_registers.L s.m_registers
    { s with m_registers := { p.2 with L := p.1 } }
  -- RL (HL)
  else if opcode = 0x16 then
    let p := readMemory_u8 s.m_registers.HL s
    let value := p.1
    let s := p.2
    let p := rl value s.m_registers
    let value := p.1
    let s := { s with m_registers := p.2 }
    writeToMemory s.m_registers.HL value s
  -- RL A
  else if opcode = 0x17 then
    let p := rl s.m_registers.A s.m_registers
    { s with m_registers := { p.2 with A := p.1 } }
  -- RR B
  else if opcode = 0x18 then
    let p := rr s.m_registers.B s.m_registers
    { s with m_registers := { p.2 with B := p.1 } }
  -- RR C
  else if opcode = 0x19 then
    let p := rr s.m_registers.C s.m_registers
    { s with m_registers := { p.2 with C := p.1 } }
  -- RR D
  else if opcode = 0x1A then
    let p := rr s.m_registers.D s.m_registers
    { s with m_registers := { p.2 with D := p.1 } }
  -- RR E
  else if opcode = 0x1B then
    let p := rr s.m_registers.E s.m_registers
    { s with m_registers := { p.2 with E := p.1 } }
  -- RR H
  else if opcode = 0x1C then
    let p := rr s.m_registers.H s.m_registers
    { s with m_registers := { p.2 with H := p.1 } }
  -- RR L
  else if opcode = 0x1D then
    let p := rr s.m_registers.L s.m_registers
    { s with m_registers := { p.2 with L := p.1 } }
  -- RR (HL)
  else if opcode = 0x1E then
    let p := readMemory_u8 s.m_registers.HL s
    let value := p.1
    let s := p.2
    let p := rr value s.m_registers
    let value := p.1
    let s := { s with m_registers := p.2 }
    writeToMemory s.m_registers.HL value s
  -- RR A
  else if opcode = 0x1F then
    let p := rr s.m_registers.A s.m_registers
    { s with m_registers := { p.2 with A := p.1 } }
  -- SLA B
  else if opcode = 0x20 then
    let p := sla s.m_registers.B s.m_registers
    { s with m_registers := { p.2 with B := p.1 } }
  -- SLA C
  else if opcode = 0x21 then
    let p := sla s.m_registers.C s.m_registers
    { s with m_registers := { p.2 with C := p.1 } }
  -- SLA D
  else if opcode = 0x22 then
    let p := sla s.m_registers.D s.m_registers
    { s with m_registers := { p.2 with D := p.1 } }
  -- SLA E
  else if opcode = 0x23 then
    let p := sla s.m_registers.E s.m_registers
    { s with m_registers := { p.2 with E := p.1 } }
  -- SLA H
  else if opcode = 0x24 then
    let p := sla s.m_registers.H s.m_registers
    { s with m_registers := { p.2 with H := p.1 } }
  -- SLA L
  else if opcode = 0x25 then
    let p := sla s.m_registers.L s.m_registers
    { s with m_registers := { p.2 with L := p.1 } }
  -- SLA (HL)
  else if opcode = 0x26 then
    let p := readMemory_u8 s.m_registers.HL s
    let value := p.1
    let s := p.2
    let p := sla value s.m_registers
    let value := p.1
    let s := { s with m_registers := p.2 }
    writeToMemory s.m_registers.HL value s
  -- SLA A
  else if opcode = 0x27 then
    let p := sla s.m_registers.A s.m_registers
    { s with m_registers := { p.2 with A := p.1 } }
  -- SRA B
  else if opcode = 0x28 then
    let p := sra s.m_registers.B s.m_registers
    { s with m_registers := { p.2 with B := p.1 } }
  -- SRA C
  else if opcode = 0x29 then
    let p := sra s.m_registers.C s.m_registers
    { s with m_registers := { p.2 with C := p.1 } }
  -- SRA D
  else if opcode = 0x2A then
    let p := sra s.m_registers.D s.m_registers
    { s with m_registers := { p.2 with D := p.1 } }
  -- SRA E
  else if opcode = 0x2B then
    let p := sra s.m_registers.E s.m_registers
    { s with m_registers := { p.2 with E := p.1 } }
  -- SRA H
  else if opcode = 0x2C then
    let p := sra s.m_registers.H s.m_registers
    { s with m_registers := { p.2 with H := p.1 } }
  -- SRA L
  else if opcode = 0x2D then
    let p := sra s.m_registers.L s.m_registers
    { s with m_registers := { p.2 with L := p.1 } }
  -- SRA (HL)
  else if opcode = 0x2E then
    let p := readMemory_u8 s.m_registers.HL s
    let value := p.1
    let s := p.2
    let p := sra value s.m_registers
    let value := p.1
    let s := { s with m_registers := p.2 }
    writeToMemory s.m_registers.HL value s
  -- SRA A
  else if opcode = 0x2F then
    let p := sra s.m_registers.A s.m_registers
    { s with m_registers := { p.2 with A := p.1 } }
  -- SWAP B
  else if opcode = 0x30 then
    let p := swap s.m_registers.B s.m_registers
    { s with m_registers := { p.2 with B := p.1 } }
  -- SWAP C
  else if opcode = 0x31 then
    let p := swap s.m_registers.C s.m_registers
    { s with m_registers := { p.2 with C := p.1 } }
  -- SWAP D
  else if opcode = 0x32 then
    let p := swap s.m_registers.D s.m_registers
    { s with m_registers := { p.2 with D := p.1 } }
  -- SWAP E
  else if opcode = 0x33 then
    let p := swap s.m_registers.E s.m_registers
    { s with m_registers := { p.2 with E := p.1 } }
  -- SWAP H
  else if opcode = 0x34 then
    let p := swap s.m_registers.H s.m_registers
    { s with m_registers := { p.2 with H := p.1 } }
  -- SWAP L
  else if opcode = 0x35 then
    let p := swap s.m_registers.L s.m_registers
    { s with m_registers := { p.2 with L := p.1 } }
  -- SWAP (HL)
  else if opcode = 0x36 then
    let p := readMemory_u8 s.m_registers.HL s
    let value := p.1
    let s := p.2
    let p := swap value s.m_registers
    let value := p.1
    let s := { s with m_registers := p.2 }
    writeToMemory s.m_registers.HL value s
  -- SWAP A
  else if opcode = 0x37 then
    let p := swap s.m_registers.A s.m_registers
    { s with m_registers := { p.2 with A := p.1 } }
  -- SRL B
  else if opcode = 0x38 then
    let p := srl s.m_registers.B s.m_registers
    { s with m_registers := { p.2 with B := p.1 } }
  -- SRL C
  else if opcode = 0x39 then
    let p := srl s.m_registers.C s.m_registers
    { s with m_registers := { p.2 with C := p.1 } }
  -- SRL D
  else if opcode = 0x3A then
    let p := srl s.m_registers.D s.m_registers
    { s with m_registers := { p.2 with D := p.1 } }
  -- SRL E
  else if opcode = 0x3B then
    let p := srl s.m_registers.E s.m_registers
    { s with m_registers := { p.2 with E := p.1 } }
  -- SRL H
  else if opcode = 0x3C then
    let p := srl s.m_registers.H s.m_registers
    { s with m_registers := { p.2 with H := p.1 } }
  -- SRL L
  else if opcode = 0x3D then
    let p := srl s.m_registers.L s.m_registers
    { s with m_registers := { p.2 with L := p.1 } }
  -- SRL (HL)
  else if opcode = 0x3E then
    let p := readMemory_u8 s.m_registers.HL s
    let value := p.1
    let s := p.2
    let p := srl value s.m_registers
    let value := p.1
    let s := { s with m_registers := p.2 }
    writeToMemory s.m_registers.HL value s
  -- SRL A
  else if opcode = 0x3F then
    let p := srl s.m_registers.A s.m_registers
    { s with m_registers := { p.2 with A := p.1 } }
  -- BIT 0,B
  else if opcode = 0x40 then
    { s with m_registers := bit s.m_registers.B 0 s.m_registers }
  -- BIT 0,C
  else if opcode = 0x41 then
    { s with m_registers := bit s.m_registers.C 0 s.m_registers }
  -- BIT 0,D
  else if opcode = 0x42 then
    { s with m_registers := bit s.m_registers.D 0 s.m_registers }
  -- BIT 0,E
  else if opcode = 0x43 then
    { s with m_registers := bit s.m_registers.E 0 s.m_registers }
  -- BIT 0,H
  else if opcode = 0x44 then
    { s with m_registers := bit s.m_registers.H 0 s.m_registers }
  -- BIT 0,L
  else if opcode = 0x45 then
    { s with m_registers := bit s.m_registers.L 0 s.m_registers }
  -- BIT 0,(HL)
  else if opcode = 0x46 then
    let p := readMemory_u8 s.m_registers.HL s
    let value := p.1
    let s := p.2
    { s with m_registers := bit value 0 s.m_registers }
  -- BIT 0,A
  else if opcode = 0x47 then
    { s with m_registers := bit s.m_registers.A 0 s.m_registers }
  -- BIT 1,B
  else if opcode = 0x48 then
    { s with m_registers := bit s.m_registers.B 1 s.m_registers }
  -- BIT 1,C
  else if opcode = 0x49 then
    { s with m_registers := bit s.m_registers.C 1 s.m_registers }
  -- BIT 1,D
  else if opcode = 0x4A then
    { s with m_registers := bit s.m_registers.D 1 s.m_registers }
  -- BIT 1,E
  else if opcode = 0x4B then
    { s with m_registers := bit s.m_registers.E 1 s.m_registers }
  -- BIT 1,H
  else if opcode = 0x4C then
    { s with m_registers := bit s.m_registers.H 1 s.m_registers }
  -- BIT 1,L
  else if opcode = 0x4D then
    { s with m_registers := bit s.m_registers.L 1 s.m_registers }
  -- BIT 1,(HL)
  else if opcode = 0x4E then
    let p := readMemory_u8 s.m_registers.HL s
    let value := p.1
    let s := p.2
    { s with m_registers := bit value 1 s.m_registers }
  -- BIT 1,A
  else if opcode = 0x4F then
    { s with m_registers := bit s.m_registers.A 1 s.m_registers }
  -- BIT 2,B
  else if opcode = 0x50 then
    { s with m_registers := bit s.m_registers.B 2 s.m_registers }
  -- BIT 2,C
  else if opcode = 0x51 then
    { s with m_registers := bit s.m_registers.C 2 s.m_registers }
  -- BIT 2,D
  else if opcode = 0x52 then
    { s with m_registers := bit s.m_registers.D 2 s.m_registers }
  -- BIT 2,E
  else if opcode = 0x53 then
    { s with m_registers := bit s.m_registers.E 2 s.m_registers }
  -- BIT 2,H
  else if opcode = 0x54 then
    { s with m_registers := bit s.m_registers.H 2 s.m_registers }
  -- BIT 2,L
  else if opcode = 0x55 then
    { s with m_registers := bit s.m_registers.L 2 s.m_registers }
  -- BIT 2,(HL)
  else if opcode = 0x56 then
    let p := readMemory_u8 s.m_registers.HL s
    let value := p.1
    let s := p.2
    { s with m_registers := bit value 2 s.m_registers }
  -- BIT 2,A
  else if opcode = 0x57 then
    { s with m_registers := bit s.m_registers.A 2 s.m_registers }
  -- BIT 3,B
  else if opcode = 0x58 then
    { s with m_registers := bit s.m_registers.B 3 s.m_registers }
  -- BIT 3,C
  else if opcode = 0x59 then
    { s with m_registers := bit s.m_registers.C 3 s.m_registers }
  -- BIT 3,D
  else if opcode = 0x5A then
    { s with m_registers := bit s.m_registers.D 3 s.m_registers }
  -- BIT 3,E
  else if opcode = 0x5B then
    { s with m_registers := bit s.m_registers.E 3 s.m_registers }
  -- BIT 3,H
  else if opcode = 0x5C then
    { s with m_registers := bit s.m_registers.H 3 s.m_registers }
  -- BIT 3,L
  else if opcode = 0x5D then
    { s with m_registers := bit s.m_registers.L 3 s.m_registers }
  -- BIT 3,(HL)
  else if opcode = 0x5E then
    let p := readMemory_u8 s.m_registers.HL s
    let value := p.1
    let s := p.2
    { s with m_registers := bit value 3 s.m_registers }
  -- BIT 3,A
  else if opcode = 0x5F then
    { s with m_registers := bit s.m_registers.A 3 s.m_registers }
  -- BIT 4,B
  else if opcode = 0x60 then
    { s with m_registers := bit s.m_registers.B 4 s.m_registers }
  -- BIT 4,C
  else if opcode = 0x61 then
    { s with m_registers := bit s.m_registers.C 4 s.m_registers }
  -- BIT 4,D
  else if opcode = 0x62 then
    { s with m_registers := bit s.m_registers.D 4 s.m_registers }
  -- BIT 4,E
  else if opcode = 0x63 then
    { s with m_registers := bit s.m_registers.E 4 s.m_registers }
  -- BIT 4,H
  else if opcode = 0x64 then
    { s with m_registers := bit s.m_registers.H 4 s.m_registers }
  -- BIT 4,L
  else if opcode = 0x65 then
    { s with m_registers := bit s.m_registers.L 4 s.m_registers }
  -- BIT 4,(HL)
  else if opcode = 0x66 then
    let p := readMemory_u8 s.m_registers.HL s
    let value := p.1
    let s := p.2
    { s with m_registers := bit value 4 s.m_registers }
  -- BIT 4,A
  else if opcode = 0x67 then
    { s with m_registers := bit s.m_registers.A 4 s.m_registers }
  -- BIT 5,B
  else if opcode = 0x68 then
    { s with m_registers := bit s.m_registers.B 5 s.m_registers }
  -- BIT 5,C
  else if opcode = 0x69 then
    { s with m_registers := bit s.m_registers.C 5 s.m_registers }
  -- BIT 5,D
  else if opcode = 0x6A then
    { s with m_registers := bit s.m_registers.D 5 s.m_registers }
  -- BIT 5,E
  else if opcode = 0x6B then
    { s with m_registers := bit s.m_registers.E 5 s.m_registers }
  -- BIT 5,H
  else if opcode = 0x6C then
    { s with m_registers := bit s.m_registers.H 5 s.m_registers }
  -- BIT 5,L
  else if opcode = 0x6D then
    { s with m_registers := bit s.m_registers.L 5 s.m_registers }
  -- BIT 5,(HL)
  else if opcode = 0x6E then
    let p := readMemory_u8 s.m_registers.HL s
    let value := p.1
    let s := p.2
    { s with m_registers := bit value 5 s.m_registers }
  -- BIT 5,A
  else if opcode = 0x6F then
    { s with m_registers := bit s.m_registers.A 5 s.m_registers }
  -- BIT 6,B
  else if opcode = 0x70 then
    { s with m_registers := bit s.m_registers.B 6 s.m_registers }
  -- BIT 6,C
  else if opcode = 0x71 then
    { s with m_registers := bit s.m_registers.C 6 s.m_registers }
  -- BIT 6,D
  else if opcode = 0x72 then
    { s with m_registers := bit s.m_registers.D 6 s.m_registers }
  -- BIT 6,E
  else if opcode = 0x73 then
    { s with m_registers := bit s.m_registers.E 6 s.m_registers }
  -- BIT 6,H
  else if opcode = 0x74 then
    { s with m_registers := bit s.m_registers.H 6 s.m_registers }
  -- BIT 6,L
  else if opcode = 0x75 then
    { s with m_registers := bit s.m_registers.L 6 s.m_registers }
  -- BIT 6,(HL)
  else if opcode = 0x76 then
    let p := readMemory_u8 s.m_registers.HL s
    let value := p.1
    let s := p.2
    { s with m_registers := bit value 6 s.m_registers }
  -- BIT 6,A
  else if opcode = 0x77 then
    { s with m_registers := bit s.m_registers.A 6 s.m_registers }
  -- BIT 7,B
  else if opcode = 0x78 then
    { s with m_registers := bit s.m_registers.B 7 s.m_registers }
  -- BIT 7,C
  else if opcode = 0x79 then
    { s with m_registers := bit s.m_registers.C 7 s.m_registers }
  -- BIT 7,D
  else if opcode = 0x7A then
    { s with m_registers := bit s.m_registers.D 7 s.m_registers }
  -- BIT 7,E
  else if opcode = 0x7B then
    { s with m_registers := bit s.m_registers.E 7 s.m_registers }
  -- BIT 7,H
  else if opcode = 0x7C then
    { s with m_registers := bit s.m_registers.H 7 s.m_registers }
  -- BIT 7,L
  else if opcode = 0x7D then
    { s with m_registers := bit s.m_registers.L 7 s.m_registers }
  -- BIT 7,(HL)
  else if opcode = 0x7E then
    let p := readMemory_u8 s.m_registers.HL s
    let value := p.1
    let s := p.2
    { s with m_registers := bit value 7 s.m_registers }
  -- BIT 7,A
  else if opcode = 0x7F then
    { s with m_registers := bit s.m_registers.A 7 s.m_registers }
  -- RES 0,B
  else if opcode = 0x80 then
    { s with m_registers := { s.m_registers with B := res s.m_registers.B 0 } }
  -- RES 0,C
  else if opcode = 0x81 then
    { s with m_registers := { s.m_registers with C := res s.m_registers.C 0 } }
  -- RES 0,D
  else if opcode = 0x82 then
    { s with m_registers := { s.m_registers with D := res s.m_registers.D 0 } }
  -- RES 0,E
  else if opcode = 0x83 then
    { s with m_registers := { s.m_registers with E := res s.m_registers.E 0 } }
  -- RES 0,H
  else if opcode = 0x84 then
    { s with m_registers := { s.m_registers with H := res s.m_registers.H 0 } }
  -- RES 0,L
  else if opcode = 0x85 then
    { s with m_registers := { s.m_registers with L := res s.m_registers.L 0 } }
  -- RES 0,(HL)
  else if opcode = 0x86 then
    let p := readMemory_u8 s.m_registers.HL s
    let value := p.1
    let s := p.2
    let value := res value 0
    writeToMemory s.m_registers.HL value s
  -- RES 0,A
  else if opcode = 0x87 then
    { s with m_registers := { s.m_registers with A := res s.m_registers.A 0 } }
  -- RES 1,B
  else if opcode = 0x88 then
    { s with m_registers := { s.m_registers with B := res s.m_registers.B 1 } }
  -- RES 1,C
  else if opcode = 0x89 then
    { s with m_registers := { s.m_registers with C := res s.m_registers.C 1 } }
  -- RES 1,D
  else if opcode = 0x8A then
    { s with m_registers := { s.m_registers with D := res s.m_registers.D 1 } }
  -- RES 1,E
  else if opcode = 0x8B then
    { s with m_registers := { s.m_registers with E := res s.m_registers.E 1 } }
  -- RES 1,H
  else if opcode = 0x8C then
    { s with m_registers := { s.m_registers with H := res s.m_registers.H 1 } }
  -- RES 1,L
  else if opcode = 0x8D then
    { s with m_registers := { s.m_registers with L := res s.m_registers.L 1 } }
  -- RES 1,(HL)
  else if opcode = 0x8E then
    let p := readMemory_u8 s.m_registers.HL s
    let value := p.1
    let s := p.2
    let value := res value 1
    writeToMemory s.m_registers.HL value s
  -- RES 1,A
  else if opcode = 0x8F then
    { s with m_registers := { s.m_registers with A := res s.m_registers.A 1 } }
  -- RES 2,B
  else if opcode = 0x90 then
    { s with m_registers := { s.m_registers with B := res s.m_registers.B 2 } }
  -- RES 2,C
  else if opcode = 0x91 then
    { s with m_registers := { s.m_registers with C := res s.m_registers.C 2 } }
  -- RES 2,D
  else if opcode = 0x92 then
    { s with m_registers := { s.m_registers with D := res s.m_registers.D 2 } }
  -- RES 2,E
  else if opcode = 0x93 then
    { s with m_registers := { s.m_registers with E := res s.m_registers.E 2 } }
  -- RES 2,H
  else if opcode = 0x94 then
    { s with m_registers := { s.m_registers with H := res s.m_registers.H 2 } }
  -- RES 2,L
  else if opcode = 0x95 then
    { s with m_registers := { s.m_registers with L := res s.m_registers.L 2 } }
  -- RES 2,(HL)
  else if opcode = 0x96 then
    let p := readMemory_u8 s.m_registers.HL s
    let value := p.1
    let s := p.2
    let value := res value 2
    writeToMemory s.m_registers.HL value s
  -- RES 2,A
  else if opcode = 0x97 then
    { s with m_registers := { s.m_registers with A := res s.m_registers.A 2 } }
  -- RES 3,B
  else if opcode = 0x98 then
    { s with m_registers := { s.m_registers with B := res s.m_registers.B 3 } }
  -- RES 3,C
  else if opcode = 0x99 then
    { s with m_registers := { s.m_registers with C := res s.m_registers.C 3 } }
  -- RES 3,D
  else if opcode = 0x9A then
    { s with m_registers := { s.m_registers with D := res s.m_registers.D 3 } }
  -- RES 3,E
  else if opcode = 0x9B then
    { s with m_registers := { s.m_registers with E := res s.m_registers.E 3 } }
  -- RES 3,H
  else if opcode = 0x9C then
    { s with m_registers := { s.m_registers with H := res s.m_registers.H 3 } }
  -- RES 3,L
  else if opcode = 0x9D then
    { s with m_registers := { s.m_registers with L := res s.m_registers.L 3 } }
  -- RES 3,(HL)
  else if opcode = 0x9E then
    let p := readMemory_u8 s.m_registers.HL s
    let value := p.1
    let s := p.2
    let value := res value 3
    writeToMemory s.m_registers.HL value s
  -- RES 3,A
  else if opcode = 0x9F then
    { s with m_registers := { s.m_registers with A := res s.m_registers.A 3 } }
  -- RES 4,B
  else if opcode = 0xA0 then
    { s with m_registers := { s.m_registers with B := res s.m_registers.B 4 } }
  -- RES 4,C
  else if opcode = 0xA1 then
    { s with m_registers := { s.m_registers with C := res s.m_registers.C 4 } }
  -- RES 4,D
  else if opcode = 0xA2 then
    { s with m_registers := { s.m_registers with D := res s.m_registers.D 4 } }
  -- RES 4,E
  else if opcode = 0xA3 then
    { s with m_registers := { s.m_registers with E := res s.m_registers.E 4 } }
  -- RES 4,H
  else if opcode = 0xA4 then
    { s with m_registers := { s.m_registers with H := res s.m_registers.H 4 } }
  -- RES 4,L
  else if opcode = 0xA5 then
    { s with m_registers := { s.m_registers with L := res s.m_registers.L 4 } }
  -- RES 4,(HL)
  else if opcode = 0xA6 then
    let p := readMemory_u8 s.m_registers.HL s
    let value := p.1
    let s := p.2
    let value := res value 4
    writeToMemory s.m_registers.HL value s
  -- RES 4,A
  else if opcode = 0xA7 then
    { s with m_registers := { s.m_registers with A := res s.m_registers.A 4 } }
  -- RES 5,B
  else if opcode = 0xA8 then
    { s with m_registers := { s.m_registers with B := res s.m_registers.B 5 } }
  -- RES 5,C
  else if opcode = 0xA9 then
    { s with m_registers := { s.m_registers with C := res s.m_registers.C 5 } }
  -- RES 5,D
  else if opcode = 0xAA then
    { s with m_registers := { s.m_registers with D := res s.m_registers.D 5 } }
  -- RES 5,E
  else if opcode = 0xAB then
    { s with m_registers := { s.m_registers with E := res s.m_registers.E 5 } }
  -- RES 5,H
  else if opcode = 0xAC then
    { s with m_registers := { s.m_registers with H := res s.m_registers.H 5 } }
  -- RES 5,L
  else if opcode = 0xAD then
    { s with m_registers := { s.m_registers with L := res s.m_registers.L 5 } }
  -- RES 5,(HL)
  else if opcode = 0xAE then
    let p := readMemory_u8 s.m_registers.HL s
    let value := p.1
    let s := p.2
    let value := res value 5
    writeToMemory s.m_registers.HL value s
  -- RES 5,A
  else if opcode = 0xAF then
    { s with m_registers := { s.m_registers with A := res s.m_registers.A 5 } }
  -- RES 6,B
  else if opcode = 0xB0 then
    { s with m_registers := { s.m_registers with B := res s.m_registers.B 6 } }
  -- RES 6,C
  else if opcode = 0xB1 then
    { s with m_registers := { s.m_registers with C := res s.m_registers.C 6 } }
  -- RES 6,D
  else if opcode = 0xB2 then
    { s with m_registers := { s.m_registers with D := res s.m_registers.D 6 } }
  -- RES 6,E
  else if opcode = 0xB3 then
    { s with m_registers := { s.m_registers with E := res s.m_registers.E 6 } }
  -- RES 6,H
  else if opcode = 0xB4 then
    { s with m_registers := { s.m_registers with H := res s.m_registers.H 6 } }
  -- RES 6,L
  else if opcode = 0xB5 then
    { s with m_registers := { s.m_registers with L := res s.m_registers.L 6 } }
  -- RES 6,(HL)
  else if opcode = 0xB6 then
    let p := readMemory_u8 s.m_registers.HL s
    let value := p.1
    let s := p.2
    let value := res value 6
    writeToMemory s.m_registers.HL value s
  -- RES 6,A
  else if opcode = 0xB7 then
    { s with m_registers := { s.m_registers with A := res s.m_registers.A 6 } }
  -- RES 7,B
  else if opcode = 0xB8 then
    { s with m_registers := { s.m_registers with B := res s.m_registers.B 7 } }
  -- RES 7,C
  else if opcode = 0xB9 then
    { s with m_registers := { s.m_registers with C := res s.m_registers.C 7 } }
  -- RES 7,D
  else if opcode = 0xBA then
    { s with m_registers := { s.m_registers with D := res s.m_registers.D 7 } }
  -- RES 7,E
  else if opcode = 0xBB then
    { s with m_registers := { s.m_registers with E := res s.m_registers.E 7 } }
  -- RES 7,H
  else if opcode = 0xBC then
    { s with m_registers := { s.m_registers with H := res s.m_registers.H 7 } }
  -- RES 7,L
  else if opcode = 0xBD then
    { s with m_registers := { s.m_registers with L := res s.m_registers.L 7 } }
  -- RES 7,(HL)
  else if opcode = 0xBE then
    let p := readMemory_u8 s.m_registers.HL s
    let value := p.1
    let s := p.2
    let value := res value 7
    writeToMemory s.m_registers.HL value s
  -- RES 7,A
  else if opcode = 0xBF then
    { s with m_registers := { s.m_registers with A := res s.m_registers.A 7 } }
  -- SET 0,B
  else if opcode = 0xC0 then
    { s with m_registers := { s.m_registers with B := set s.m_registers.B 0 } }
  -- SET 0,C
  else if opcode = 0xC1 then
    { s with m_registers := { s.m_registers with C := set s.m_registers.C 0 } }
  -- SET 0,D
  else if opcode = 0xC2 then
    { s with m_registers := { s.m_registers with D := set s.m_registers.D 0 } }
  -- SET 0,E
  else if opcode = 0xC3 then
    { s with m_registers := { s.m_registers with E := set s.m_registers.E 0 } }
  -- SET 0,H
  else if opcode = 0xC4 then
    { s with m_registers := { s.m_registers with H := set s.m_registers.H 0 } }
  -- SET 0,L
  else if opcode = 0xC5 then
    { s with m_registers := { s.m_registers with L := set s.m_registers.L 0 } }
  -- SET 0,(HL)
  else if opcode = 0xC6 then
    let p := readMemory_u8 s.m_registers.HL s
    let value := p.1
    let s := p.2
    let value := set value 0
    writeToMemory s.m_registers.HL value s
  -- SET 0,A
  else if opcode = 0xC7 then
    { s with m_registers := { s.m_registers with A := set s.m_registers.A 0 } }
  -- SET 1,B
  else if opcode = 0xC8 then
    { s with m_registers := { s.m_registers with B := set s.m_registers.B 1 } }
  -- SET 1,C
  else if opcode = 0xC9 then
    { s with m_registers := { s.m_registers with C := set s.m_registers.C 1 } }
  -- SET 1,D
  else if opcode = 0xCA then
    { s with m_registers := { s.m_registers with D := set s.m_registers.D 1 } }
  -- SET 1,E
  else if opcode = 0xCB then
    { s with m_registers := { s.m_registers with E := set s.m_registers.E 1 } }
  -- SET 1,H
  else if opcode = 0xCC then
    { s with m_registers := { s.m_registers with H := set s.m_registers.H 1 } }
  -- SET 1,L
  else if opcode = 0xCD then
    { s with m_registers := { s.m_registers with L := set s.m_registers.L 1 } }
  -- SET 1,(HL)
  else if opcode = 0xCE then
    let p := readMemory_u8 s.m_registers.HL s
    let value := p.1
    let s := p.2
    let value := set value 1
    writeToMemory s.m_registers.HL value s
  -- SET 1,A
  else if opcode = 0xCF then
    { s with m_registers := { s.m_registers with A := set s.m_registers.A 1 } }
  -- SET 2,B
  else if opcode = 0xD0 then
    { s with m_registers := { s.m_registers with B := set s.m_registers.B 2 } }
  -- SET 2,C
  else if opcode = 0xD1 then
    { s with m_registers := { s.m_registers with C := set s.m_registers.C 2 } }
  -- SET 2,D
  else if opcode = 0xD2 then
    { s with m_registers := { s.m_registers with D := set s.m_registers.D 2 } }
  -- SET 2,E
  else if opcode = 0xD3 then
    { s with m_registers := { s.m_registers with E := set s.m_registers.E 2 } }
  -- SET 2,H
  else if opcode = 0xD4 then
    { s with m_registers := { s.m_registers with H := set s.m_registers.H 2 } }
  -- SET 2,L
  else if opcode = 0xD5 then
    { s with m_registers := { s.m_registers with L := set s.m_registers.L 2 } }
  -- SET 2,(HL)
  else if opcode = 0xD6 then
    let p := readMemory_u8 s.m_registers.HL s
    let value := p.1
    let s := p.2
    let value := set value 2
    writeToMemory s.m_registers.HL value s
  -- SET 2,A
  else if opcode = 0xD7 then
    { s with m_registers := { s.m_registers with A := set s.m_registers.A 2 } }
  -- SET 3,B
  else if opcode = 0xD8 then
    { s with m_registers := { s.m_registers with B := set s.m_registers.B 3 } }
  -- SET 3,C
  else if opcode = 0xD9 then
    { s with m_registers := { s.m_registers with C := set s.m_registers.C 3 } }
  -- SET 3,D
  else if opcode = 0xDA then
    { s with m_registers := { s.m_registers with D := set s.m_registers.D 3 } }
  -- SET 3,E
  else if opcode = 0xDB then
    { s with m_registers := { s.m_registers with E := set s.m_registers.E 3 } }
  -- SET 3,H
  else if opcode = 0xDC then
    { s with m_registers := { s.m_registers with H := set s.m_registers.H 3 } }
  -- SET 3,L
  else if opcode = 0xDD then
    { s with m_registers := { s.m_registers with L := set s.m_registers.L 3 } }
  -- SET 3,(HL)
  else if opcode = 0xDE then
    let p := readMemory_u8 s.m_registers.HL s
    let value := p.1
    let s := p.2
    let value := set value 3
    writeToMemory s.m_registers.HL value s
  -- SET 3,A
  else if opcode = 0xDF then
    { s with m_registers := { s.m_registers with A := set s.m_registers.A 3 } }
  -- SET 4,B
  else if opcode = 0xE0 then
    { s with m_registers := { s.m_registers with B := set s.m_registers.B 4 } }
  -- SET 4,C
  else if opcode = 0xE1 then
    { s with m_registers := { s.m_registers with C := set s.m_registers.C 4 } }
  -- SET 4,D
  else if opcode = 0xE2 then
    { s with m_registers := { s.m_registers with D := set s.m_registers.D 4 } }
  -- SET 4,E
  else if opcode = 0xE3 then
    { s with m_registers := { s.m_registers with E := set s.m_registers.E 4 } }
  -- SET 4,H
  else if opcode = 0xE4 then
    { s with m_registers := { s.m_registers with H := set s.m_registers.H 4 } }
  -- SET 4,L
  else if opcode = 0xE5 then
    { s with m_registers := { s.m_registers with L := set s.m_registers.L 4 } }
  -- SET 4,(HL)
  else if opcode = 0xE6 then
    let p := readMemory_u8 s.m_registers.HL s
    let value := p.1
    let s := p.2
    let value := set value 4
    writeToMemory s.m_registers.HL value s
  -- SET 4,A
  else if opcode = 0xE7 then
    { s with m_registers := { s.m_registers with A := set s.m_registers.A 4 } }
  -- SET 5,B
  else if opcode = 0xE8 then
    { s with m_registers := { s.m_registers with B := set s.m_registers.B 5 } }
  -- SET 5,C
  else if opcode = 0xE9 then
    { s with m_registers := { s.m_registers with C := set s.m_registers.C 5 } }
  -- SET 5,D
  else if opcode = 0xEA then
    { s with m_registers := { s.m_registers with D := set s.m_registers.D 5 } }
  -- SET 5,E
  else if opcode = 0xEB then
    { s with m_registers := { s.m_registers with E := set s.m_registers.E 5 } }
  -- SET 5,H
  else if opcode = 0xEC then
    { s with m_registers := { s.m_registers with H := set s.m_registers.H 5 } }
  -- SET 5,L
  else if opcode = 0xED then
    { s with m_registers := { s.m_registers with L := set s.m_registers.L 5 } }
  -- SET 5,(HL)
  else if opcode = 0xEE then
    let p := readMemory_u8 s.m_registers.HL s
    let value := p.1
    let s := p.2
    let value := set value 5
    writeToMemory s.m_registers.HL value s
  -- SET 5,A
  else if opcode = 0xEF then
    { s with m_registers := { s.m_registers with A := set s.m_registers.A 5 } }
  -- SET 6,B
  else if opcode = 0xF0 then
    { s with m_registers := { s.m_registers with B := set s.m_registers.B 6 } }
  -- SET 6,C
  else if opcode = 0xF1 then
    { s with m_registers := { s.m_registers with C := set s.m_registers.C 6 } }
  -- SET 6,D
  else if opcode = 0xF2 then
    { s with m_registers := { s.m_registers with D := set s.m_registers.D 6 } }
  -- SET 6,E
  else if opcode = 0xF3 then
    { s with m_registers := { s.m_registers with E := set s.m_registers.E 6 } }
  -- SET 6,H
  else if opcode = 0xF4 then
    { s with m_registers := { s.m_registers with H := set s.m_registers.H 6 } }
  -- SET 6,L
  else if opcode = 0xF5 then
    { s with m_registers := { s.m_registers with L := set s.m_registers.L 6 } }
  -- SET 6,(HL)
  else if opcode = 0xF6 then
    let p := readMemory_u8 s.m_registers.HL s
    let value := p.1
    let s := p.2
    let value := set value 6
    writeToMemory s.m_registers.HL value s
  -- SET 6,A
  else if opcode = 0xF7 then
    { s with m_registers := { s.m_registers with A := set s.m_registers.A 6 } }
  -- SET 7,B
  else if opcode = 0xF8 then
    { s with m_registers := { s.m_registers with B := set s.m_registers.B 7 } }
  -- SET 7,C
  else if opcode = 0xF9 then
    { s with m_registers := { s.m_registers with C := set s.m_registers.C 7 } }
  -- SET 7,D
  else if opcode = 0xFA then
    { s with m_registers := { s.m_registers with D := set s.m_registers.D 7 } }
  -- SET 7,E
  else if opcode = 0xFB then
    { s with m_registers := { s.m_registers with E := set s.m_registers.E 7 } }
  -- SET 7,H
  else if opcode = 0xFC then
    { s with m_registers := { s.m_registers with H := set s.m_registers.H 7 } }
  -- SET 7,L
  else if opcode = 0xFD then
    { s with m_registers := { s.m_registers with L := set s.m_registers.L 7 } }
  -- SET 7,(HL)
  else if opcode = 0xFE then
    let p := readMemory_u8 s.m_registers.HL s
    let value := p.1
    let s := p.2
    let value := set value 7
    writeToMemory s.m_registers.HL value s
  -- SET 7,A
  else if opcode = 0xFF then
    { s with m_registers := { s.m_registers with A := set s.m_registers.A 7 } }
  else s

set_option maxRecDepth 100000 in
/-- The outer `switch (opcode)` of `Cpu::executeNextInstruction`; its `default` label raises
the unknown-opcode error. -/
def executeOpcode (opcode : Nat) (s : Cpu) : Except Error Cpu :=
  -- NOP
  if opcode = 0x00 then
    Except.ok s
  -- LD BC,nn
  else if opcode = 0x01 then
    let p := fetch_u16 s
    let s := p.2
    Except.ok { s with m_registers := s.m_registers.setBC (p.1) }
  -- LD (BC),A
  else if opcode = 0x02 then
    Except.ok (writeToMemory s.m_registers.BC s.m_registers.A s)
  -- INC BC
  else if opcode = 0x03 then
    let s := { s with m_registers := s.m_registers.setBC ((s.m_registers.BC + 1) % 65536) }
    Except.ok (doCycle 1 s)
  -- INC B
  else if opcode = 0x04 then
    let p := inc s.m_registers.B s.m_registers
    Except.ok { s with m_registers := { p.2 with B := p.1 } }
  -- DEC B
  else if opcode = 0x05 then
    let p := dec s.m_registers.B s.m_registers
    Except.ok { s with m_registers := { p.2 with B := p.1 } }
  -- LD B,n
  else if opcode = 0x06 then
    let p := fetch_u8 s
    let s := p.2
    Except.ok { s with m_registers := { s.m_registers with B := p.1 } }
  -- RLCA
  else if opcode = 0x07 then
    let s := { s with m_registers := { s.m_registers with F := s.m_registers.F.setC (s.m_registers.A >>> 7) } }
    let s := { s with m_registers := { s.m_registers with A := ((s.m_registers.A <<< 1) ||| s.m_registers.F.C) % 256 } }
    let s := { s with m_registers := { s.m_registers with F := s.m_registers.F.setZ 0 } }
    let s := { s with m_registers := { s.m_registers with F := s.m_registers.F.setN 0 } }
    Except.ok { s with m_registers := { s.m_registers with F := s.m_registers.F.setH 0 } }
  -- LD (nn),SP
  else if opcode = 0x08 then
    let p := fetch_u16 s
    let address := p.1
    let s := p.2
    let s := writeToMemory address s.m_registers.SP_lowbyte s
    Except.ok (writeToMemory ((address + 1) % 65536) s.m_registers.SP_highbyte s)
  -- ADD HL,BC
  else if opcode = 0x09 then
    Except.ok (add_HL s.m_registers.BC s)
  -- LD A,(BC)
  else if opcode = 0x0A then
    let p := readMemory_u8 s.m_registers.BC s
    let s := p.2
    Except.ok { s with m_registers := { s.m_registers with A := p.1 } }
  -- DEC BC
  else if opcode = 0x0B then
    let s := { s with m_registers := s.m_registers.setBC (u16 ((s.m_registers.BC : Int) - 1)) }
    Except.ok (doCycle 1 s)
  -- INC C
  else if opcode = 0x0C then
    let p := inc s.m_registers.C s.m_registers
    Except.ok { s with m_registers := { p.2 with C := p.1 } }
  -- DEC C
  else if opcode = 0x0D then
    let p := dec s.m_registers.C s.m_registers
    Except.ok { s with m_registers := { p.2 with C := p.1 } }
  -- LD C,n
  else if opcode = 0x0E then
    let p := fetch_u8 s
    let s := p.2
    Except.ok { s with m_registers := { s.m_registers with C := p.1 } }
  -- RRCA
  else if opcode = 0x0F then
    let s := { s with m_registers := { s.m_registers with F := s.m_registers.F.setC (s.m_registers.A &&& 1) } }
    let s := { s with m_registers := { s.m_registers with A := ((s.m_registers.A >>> 1) ||| (s.m_registers.F.C <<< 7)) % 256 } }
    let s := { s with m_registers := { s.m_registers with F := s.m_registers.F.setZ 0 } }
    let s := { s with m_registers := { s.m_registers with F := s.m_registers.F.setN 0 } }
    Except.ok { s with m_registers := { s.m_registers with F := s.m_registers.F.setH 0 } }
  -- STOP (not implemented)
  else if opcode = 0x10 then
    let s :=
      if s.m_memory.KEY1 &&& 0x01 ≠ 0 then
        { s with m_memory := { s.m_memory with KEY1 := s.m_memory.KEY1 ^^^ 0x81 } }
      else s
    Except.ok { s with m_registers := { s.m_registers with PC := (s.m_registers.PC + 1) % 65536 } }
  -- LD DE,nn
  else if opcode = 0x11 then
    let p := fetch_u16 s
    let s := p.2
    Except.ok { s with m_registers := s.m_registers.setDE (p.1) }
  -- LD (DE),A
  else if opcode = 0x12 then
    Except.ok (writeToMemory s.m_registers.DE s.m_registers.A s)
  -- INC DE
  else if opcode = 0x13 then
    let s := { s with m_registers := s.m_registers.setDE ((s.m_registers.DE + 1) % 65536) }
    Except.ok (doCycle 1 s)
  -- INC D
  else if opcode = 0x14 then
    let p := inc s.m_registers.D s.m_registers
    Except.ok { s with m_registers := { p.2 with D := p.1 } }
  -- DEC D
  else if opcode = 0x15 then
    let p := dec s.m_registers.D s.m_registers
    Except.ok { s with m_registers := { p.2 with D := p.1 } }
  -- LD D,n
  else if opcode = 0x16 then
    let p := fetch_u8 s
    let s := p.2
    Except.ok { s with m_registers := { s.m_registers with D := p.1 } }
  -- RLA
  else if opcode = 0x17 then
    let oldCarry := s.m_registers.F.C
    let s := { s with m_registers := { s.m_registers with F := s.m_registers.F.setC (s.m_registers.A >>> 7) } }
    let s := { s with m_registers := { s.m_registers with A := ((s.m_registers.A <<< 1) ||| oldCarry) % 256 } }
    let s := { s with m_registers := { s.m_registers with F := s.m_registers.F.setZ 0 } }
    let s := { s with m_registers := { s.m_registers with F := s.m_registers.F.setN 0 } }
    Except.ok { s with m_registers := { s.m_registers with F := s.m_registers.F.setH 0 } }
  -- JR e
  else if opcode = 0x18 then
    let p := fetch_u8 s
    let value := s8 p.1
    let s := p.2
    let s := { s with m_registers := { s.m_registers with PC := u16 ((s.m_registers.PC : Int) + value) } }
    Except.ok (doCycle 1 s)
  -- ADD HL,DE
  else if opcode = 0x19 then
    Except.ok (add_HL s.m_registers.DE s)
  -- LD A,(DE)
  else if opcode = 0x1A then
    let p := readMemory_u8 s.m_registers.DE s
    let s := p.2
    Except.ok { s with m_registers := { s.m_registers with A := p.1 } }
  -- DEC DE
  else if opcode = 0x1B then
    let s := { s with m_registers := s.m_registers.setDE (u16 ((s.m_registers.DE : Int) - 1)) }
    Except.ok (doCycle 1 s)
  -- INC E
  else if opcode = 0x1C then
    let p := inc s.m_registers.E s.m_registers
    Except.ok { s with m_registers := { p.2 with E := p.1 } }
  -- DEC E
  else if opcode = 0x1D then
    let p := dec s.m_registers.E s.m_registers
    Except.ok { s with m_registers := { p.2 with E := p.1 } }
  -- LD E,n
  else if opcode = 0x1E then
    let p := fetch_u8 s
    let s := p.2
    Except.ok { s with m_registers := { s.m_registers with E := p.1 } }
  -- RRA
  else if opcode = 0x1F then
    let oldCarry := s.m_registers.F.C
    let s := { s with m_registers := { s.m_registers with F := s.m_registers.F.setC (s.m_registers.A &&& 1) } }
    let s := { s with m_registers := { s.m_registers with A := ((s.m_registers.A >>> 1) ||| (oldCarry <<< 7)) % 256 } }
    let s := { s with m_registers := { s.m_registers with F := s.m_registers.F.setZ 0 } }
    let s := { s with m_registers := { s.m_registers with F := s.m_registers.F.setN 0 } }
    Except.ok { s with m_registers := { s.m_registers with F := s.m_registers.F.setH 0 } }
  -- JR NZ,e
  else if opcode = 0x20 then
    Except.ok (jr (s.m_registers.F.Z == 0) s)
  -- LD HL,nn
  else if opcode = 0x21 then
    let p := fetch_u16 s
    let s := p.2
    Except.ok { s with m_registers := s.m_registers.setHL (p.1) }
  -- LD (HLI),A
  else if opcode = 0x22 then
    let s := writeToMemory s.m_registers.HL s.m_registers.A s
    Except.ok { s with m_registers := s.m_registers.setHL ((s.m_registers.HL + 1) % 65536) }
  -- INC HL
  else if opcode = 0x23 then
    let s := { s with m_registers := s.m_registers.setHL ((s.m_registers.HL + 1) % 65536) }
    Except.ok (doCycle 1 s)
  -- INC H
  else if opcode = 0x24 then
    let p := inc s.m_registers.H s.m_registers
    Except.ok { s with m_registers := { p.2 with H := p.1 } }
  -- DEC H
  else if opcode = 0x25 then
    let p := dec s.m_registers.H s.m_registers
    Except.ok { s with m_registers := { p.2 with H := p.1 } }
  -- LD H,n
  else if opcode = 0x26 then
    let p := fetch_u8 s
    let s := p.2
    Except.ok { s with m_registers := { s.m_registers with H := p.1 } }
  -- DAA
  else if opcode = 0x27 then
    Except.ok { s with m_registers := daa s.m_registers }
  -- JR Z,e
  else if opcode = 0x28 then
    Except.ok (jr (s.m_registers.F.Z != 0) s)
  -- ADD HL,HL
  else if opcode = 0x29 then
    Except.ok (add_HL s.m_registers.HL s)
  -- LD A,(HLI)
  else if opcode = 0x2A then
    let p := readMemory_u8 s.m_registers.HL s
    let s := p.2
    let s := { s with m_registers := { s.m_registers with A := p.1 } }
    Except.ok { s with m_registers := s.m_registers.setHL ((s.m_registers.HL + 1) % 65536) }
  -- DEC HL
  else if opcode = 0x2B then
    let s := { s with m_registers := s.m_registers.setHL (u16 ((s.m_registers.HL : Int) - 1)) }
    Except.ok (doCycle 1 s)
  -- INC L
  else if opcode = 0x2C then
    let p := inc s.m_registers.L s.m_registers
    Except.ok { s with m_registers := { p.2 with L := p.1 } }
  -- DEC L
  else if opcode = 0x2D then
    let p := dec s.m_registers.L s.m_registers
    Except.ok { s with m_registers := { p.2 with L := p.1 } }
  -- LD L,n
  else if opcode = 0x2E then
    let p := fetch_u8 s
    let s := p.2
    Except.ok { s with m_registers := { s.m_registers with L := p.1 } }
  -- CPL
  else if opcode = 0x2F then
    let s := { s with m_registers := { s.m_registers with A := (0xFFFFFFFF - s.m_registers.A) % 256 } }
    let s := { s with m_registers := { s.m_registers with F := s.m_registers.F.setN 1 } }
    Except.ok { s with m_registers := { s.m_registers with F := s.m_registers.F.setH 1 } }
  -- JR NC,e
  else if opcode = 0x30 then
    Except.ok (jr (s.m_registers.F.C == 0) s)
  -- LD SP,nn
  else if opcode = 0x31 then
    let p := fetch_u16 s
    let s := p.2
    Except.ok { s with m_registers := { s.m_registers with SP := p.1 } }
  -- LD (HLD),A
  else if opcode = 0x32 then
    let s := writeToMemory s.m_registers.HL s.m_registers.A s
    Except.ok { s with m_registers := s.m_registers.setHL (u16 ((s.m_registers.HL : Int) - 1)) }
  -- INC SP
  else if opcode = 0x33 then
    let s := { s with m_registers := { s.m_registers with SP := (s.m_registers.SP + 1) % 65536 } }
    Except.ok (doCycle 1 s)
  -- INC (HL)
  else if opcode = 0x34 then
    let p := readMemory_u8 s.m_registers.HL s
    let value := p.1
    let s := p.2
    let p := inc value s.m_registers
    let value := p.1
    let s := { s with m_registers := p.2 }
    Except.ok (writeToMemory s.m_registers.HL value s)
  -- DEC (HL)
  else if opcode = 0x35 then
    let p := readMemory_u8 s.m_registers.HL s
    let value := p.1
    let s := p.2
    let p := dec value s.m_registers
    let value := p.1
    let s := { s with m_registers := p.2 }
    Except.ok (writeToMemory s.m_registers.HL value s)
  -- LD (HL),n
  else if opcode = 0x36 then
    let p := fetch_u8 s
    let value := p.1
    let s := p.2
    Except.ok (writeToMemory s.m_registers.HL value s)
  -- SCF
  else if opcode = 0x37 then
    let s := { s with m_registers := { s.m_registers with F := s.m_registers.F.setC 1 } }
    let s := { s with m_registers := { s.m_registers with F := s.m_registers.F.setN 0 } }
    Except.ok { s with m_registers := { s.m_registers with F := s.m_registers.F.setH 0 } }
  -- JR C,e
  else if opcode = 0x38 then
    Except.ok (jr (s.m_registers.F.C != 0) s)
  -- ADD HL,SP
  else if opcode = 0x39 then
    Except.ok (add_HL s.m_registers.SP s)
  -- LD A,(HLD)
  else if opcode = 0x3A then
    let p := readMemory_u8 s.m_registers.HL s
    let s := p.2
    let s := { s with m_registers := { s.m_registers with A := p.1 } }
    Except.ok { s with m_registers := s.m_registers.setHL (u16 ((s.m_registers.HL : Int) - 1)) }
  -- DEC SP
  else if opcode = 0x3B then
    let s := { s with m_registers := { s.m_registers with SP := u16 ((s.m_registers.SP : Int) - 1) } }
    Except.ok (doCycle 1 s)
  -- INC A
  else if opcode = 0x3C then
    let p := inc s.m_registers.A s.m_registers
    Except.ok { s with m_registers := { p.2 with A := p.1 } }
  -- DEC A
  else if opcode = 0x3D then
    let p := dec s.m_registers.A s.m_registers
    Except.ok { s with m_registers := { p.2 with A := p.1 } }
  -- LD A,n
  else if opcode = 0x3E then
    let p := fetch_u8 s
    let s := p.2
    Except.ok { s with m_registers := { s.m_registers with A := p.1 } }
  -- CCF
  else if opcode = 0x3F then
    let s := { s with m_registers := { s.m_registers with F := s.m_registers.F.setC (0xFFFFFFFF - s.m_registers.F.C) } }
    let s := { s with m_registers := { s.m_registers with F := s.m_registers.F.setN 0 } }
    Except.ok { s with m_registers := { s.m_registers with F := s.m_registers.F.setH 0 } }
  -- LD B,B
  else if opcode = 0x40 then
    Except.ok s
  -- LD B,C
  else if opcode = 0x41 then
    Except.ok { s with m_registers := { s.m_registers with B := s.m_registers.C } }
  -- LD B,D
  else if opcode = 0x42 then
    Except.ok { s with m_registers := { s.m_registers with B := s.m_registers.D } }
  -- LD B,E
  else if opcode = 0x43 then
    Except.ok { s with m_registers := { s.m_registers with B := s.m_registers.E } }
  -- LD B,H
  else if opcode = 0x44 then
    Except.ok { s with m_registers := { s.m_registers with B := s.m_registers.H } }
  -- LD B,L
  else if opcode = 0x45 then
    Except.ok { s with m_registers := { s.m_registers with B := s.m_registers.L } }
  -- LD B,(HL)
  else if opcode = 0x46 then
    let p := readMemory_u8 s.m_registers.HL s
    let s := p.2
    Except.ok { s with m_registers := { s.m_registers with B := p.1 } }
  -- LD B,A
  else if opcode = 0x47 then
    Except.ok { s with m_registers := { s.m_registers with B := s.m_registers.A } }
  -- LD C,B
  else if opcode = 0x48 then
    Except.ok { s with m_registers := { s.m_registers with C := s.m_registers.B } }
  -- LD C,C
  else if opcode = 0x49 then
    Except.ok s
  -- LD C,D
  else if opcode = 0x4A then
    Except.ok { s with m_registers := { s.m_registers with C := s.m_registers.D } }
  -- LD C,E
  else if opcode = 0x4B then
    Except.ok { s with m_registers := { s.m_registers with C := s.m_registers.E } }
  -- LD C,H
  else if opcode = 0x4C then
    Except.ok { s with m_registers := { s.m_registers with C := s.m_registers.H } }
  -- LD C,L
  else if opcode = 0x4D then
    Except.ok { s with m_registers := { s.m_registers with C := s.m_registers.L } }
  -- LD C,(HL)
  else if opcode = 0x4E then
    let p := readMemory_u8 s.m_registers.HL s
    let s := p.2
    Except.ok { s with m_registers := { s.m_registers with C := p.1 } }
  -- LD C,A
  else if opcode = 0x4F then
    Except.ok { s with m_registers := { s.m_registers with C := s.m_registers.A } }
  -- LD D,B
  else if opcode = 0x50 then
    Except.ok { s with m_registers := { s.m_registers with D := s.m_registers.B } }
  -- LD D,C
  else if opcode = 0x51 then
    Except.ok { s with m_registers := { s.m_registers with D := s.m_registers.C } }
  -- LD D,D
  else if opcode = 0x52 then
    Except.ok s
  -- LD D,E
  else if opcode = 0x53 then
    Except.ok { s with m_registers := { s.m_registers with D := s.m_registers.E } }
  -- LD D,H
  else if opcode = 0x54 then
    Except.ok { s with m_registers := { s.m_registers with D := s.m_registers.H } }
  -- LD D,L
  else if opcode = 0x55 then
    Except.ok { s with m_registers := { s.m_registers with D := s.m_registers.L } }
  -- LD D,(HL)
  else if opcode = 0x56 then
    let p := readMemory_u8 s.m_registers.HL s
    let s := p.2
    Except.ok { s with m_registers := { s.m_registers with D := p.1 } }
  -- LD D,A
  else if opcode = 0x57 then
    Except.ok { s with m_registers := { s.m_registers with D := s.m_registers.A } }
  -- LD E,B
  else if opcode = 0x58 then
    Except.ok { s with m_registers := { s.m_registers with E := s.m_registers.B } }
  -- LD E,C
  else if opcode = 0x59 then
    Except.ok { s with m_registers := { s.m_registers with E := s.m_registers.C } }
  -- LD E,D
  else if opcode = 0x5A then
    Except.ok { s with m_registers := { s.m_registers with E := s.m_registers.D } }
  -- LD E,E
  else if opcode = 0x5B then
    Except.ok s
  -- LD E,H
  else if opcode = 0x5C then
    Except.ok { s with m_registers := { s.m_registers with E := s.m_registers.H } }
  -- LD E,L
  else if opcode = 0x5D then
    Except.ok { s with m_registers := { s.m_registers with E := s.m_registers.L } }
  -- LD E,(HL)
  else if opcode = 0x5E then
    let p := readMemory_u8 s.m_registers.HL s
    let s := p.2
    Except.ok { s with m_registers := { s.m_registers with E := p.1 } }
  -- LD E,A
  else if opcode = 0x5F then
    Except.ok { s with m_registers := { s.m_registers with E := s.m_registers.A } }
  -- LD H,B
  else if opcode = 0x60 then
    Except.ok { s with m_registers := { s.m_registers with H := s.m_registers.B } }
  -- LD H,C
  else if opcode = 0x61 then
    Except.ok { s with m_registers := { s.m_registers with H := s.m_registers.C } }
  -- LD H,D
  else if opcode = 0x62 then
    Except.ok { s with m_registers := { s.m_registers with H := s.m_registers.D } }
  -- LD H,E
  else if opcode = 0x63 then
    Except.ok { s with m_registers := { s.m_registers with H := s.m_registers.E } }
  -- LD H,H
  else if opcode = 0x64 then
    Except.ok s
  -- LD H,L
  else if opcode = 0x65 then
    Except.ok { s with m_registers := { s.m_registers with H := s.m_registers.L } }
  -- LD H,(HL)
  else if opcode = 0x66 then
    let p := readMemory_u8 s.m_registers.HL s
    let s := p.2
    Except.ok { s with m_registers := { s.m_registers with H := p.1 } }
  -- LD H,A
  else if opcode = 0x67 then
    Except.ok { s with m_registers := { s.m_registers with H := s.m_registers.A } }
  -- LD L,B
  else if opcode = 0x68 then
    Except.ok { s with m_registers := { s.m_registers with L := s.m_registers.B } }
  -- LD L,C
  else if opcode = 0x69 then
    Except.ok { s with m_registers := { s.m_registers with L := s.m_registers.C } }
  -- LD L,D
  else if opcode = 0x6A then
    Except.ok { s with m_registers := { s.m_registers with L := s.m_registers.D } }
  -- LD L,E
  else if opcode = 0x6B then
    Except.ok { s with m_registers := { s.m_registers with L := s.m_registers.E } }
  -- LD L,H
  else if opcode = 0x6C then
    Except.ok { s with m_registers := { s.m_registers with L := s.m_registers.H } }
  -- LD L,L
  else if opcode = 0x6D then
    Except.ok s
  -- LD L,(HL)
  else if opcode = 0x6E then
    let p := readMemory_u8 s.m_registers.HL s
    let s := p.2
    Except.ok { s with m_registers := { s.m_registers with L := p.1 } }
  -- LD L,A
  else if opcode = 0x6F then
    Except.ok { s with m_registers := { s.m_registers with L := s.m_registers.A } }
  -- LD (HL),B
  else if opcode = 0x70 then
    Except.ok (writeToMemory s.m_registers.HL s.m_registers.B s)
  -- LD (HL),C
  else if opcode = 0x71 then
    Except.ok (writeToMemory s.m_registers.HL s.m_registers.C s)
  -- LD (HL),D
  else if opcode = 0x72 then
    Except.ok (writeToMemory s.m_registers.HL s.m_registers.D s)
  -- LD (HL),E
  else if opcode = 0x73 then
    Except.ok (writeToMemory s.m_registers.HL s.m_registers.E s)
  -- LD (HL),H
  else if opcode = 0x74 then
    Except.ok (writeToMemory s.m_registers.HL s.m_registers.H s)
  -- LD (HL),L
  else if opcode = 0x75 then
    Except.ok (writeToMemory s.m_registers.HL s.m_registers.L s)
  -- HALT
  else if opcode = 0x76 then
    Except.ok { s with m_haltMode := true }
  -- LD (HL),A
  else if opcode = 0x77 then
    Except.ok (writeToMemory s.m_registers.HL s.m_registers.A s)
  -- LD A,B
  else if opcode = 0x78 then
    Except.ok { s with m_registers := { s.m_registers with A := s.m_registers.B } }
  -- LD A,C
  else if opcode = 0x79 then
    Except.ok { s with m_registers := { s.m_registers with A := s.m_registers.C } }
  -- LD A,D
  else if opcode = 0x7A then
    Except.ok { s with m_registers := { s.m_registers with A := s.m_registers.D } }
  -- LD A,E
  else if opcode = 0x7B then
    Except.ok { s with m_registers := { s.m_registers with A := s.m_registers.E } }
  -- LD A,H
  else if opcode = 0x7C then
    Except.ok { s with m_registers := { s.m_registers with A := s.m_registers.H } }
  -- LD A,L
  else if opcode = 0x7D then
    Except.ok { s with m_registers := { s.m_registers with A := s.m_registers.L } }
  -- LD A,(HL)
  else if opcode = 0x7E then
    let p := readMemory_u8 s.m_registers.HL s
    let s := p.2
    Except.ok { s with m_registers := { s.m_registers with A := p.1 } }
  -- LD A,A
  else if opcode = 0x7F then
    Except.ok s
  -- ADD A,B
  else if opcode = 0x80 then
    Except.ok { s with m_registers := add_A s.m_registers.B s.m_registers }
  -- ADD A,C
  else if opcode = 0x81 then
    Except.ok { s with m_registers := add_A s.m_registers.C s.m_registers }
  -- ADD A,D
  else if opcode = 0x82 then
    Except.ok { s with m_registers := add_A s.m_registers.D s.m_registers }
  -- ADD A,E
  else if opcode = 0x83 then
    Except.ok { s with m_registers := add_A s.m_registers.E s.m_registers }
  -- ADD A,H
  else if opcode = 0x84 then
    Except.ok { s with m_registers := add_A s.m_registers.H s.m_registers }
  -- ADD A,L
  else if opcode = 0x85 then
    Except.ok { s with m_registers := add_A s.m_registers.L s.m_registers }
  -- ADD A,(HL)
  else if opcode = 0x86 then
    let p := readMemory_u8 s.m_registers.HL s
    let value := p.1
    let s := p.2
    Except.ok { s with m_registers := add_A value s.m_registers }
  -- ADD A,A
  else if opcode = 0x87 then
    Except.ok { s with m_registers := add_A s.m_registers.A s.m_registers }
  -- ADC A,B
  else if opcode = 0x88 then
    Except.ok { s with m_registers := adc s.m_registers.B s.m_registers }
  -- ADC A,C
  else if opcode = 0x89 then
    Except.ok { s with m_registers := adc s.m_registers.C s.m_registers }
  -- ADC A,D
  else if opcode = 0x8A then
    Except.ok { s with m_registers := adc s.m_registers.D s.m_registers }
  -- ADC A,E
  else if opcode = 0x8B then
    Except.ok { s with m_registers := adc s.m_registers.E s.m_registers }
  -- ADC A,H
  else if opcode = 0x8C then
    Except.ok { s with m_registers := adc s.m_registers.H s.m_registers }
  -- ADC A,L
  else if opcode = 0x8D then
    Except.ok { s with m_registers := adc s.m_registers.L s.m_registers }
  -- ADC A,(HL)
  else if opcode = 0x8E then
    let p := readMemory_u8 s.m_registers.HL s
    let value := p.1
    let s := p.2
    Except.ok { s with m_registers := adc value s.m_registers }
  -- ADC A,A
  else if opcode = 0x8F then
    Except.ok { s with m_registers := adc s.m_registers.A s.m_registers }
  -- SUB A,B
  else if opcode = 0x90 then
    Except.ok { s with m_registers := sub s.m_registers.B s.m_registers }
  -- SUB C
  else if opcode = 0x91 then
    Except.ok { s with m_registers := sub s.m_registers.C s.m_registers }
  -- SUB A,D
  else if opcode = 0x92 then
    Except.ok { s with m_registers := sub s.m_registers.D s.m_registers }
  -- SUB A,E
  else if opcode = 0x93 then
    Except.ok { s with m_registers := sub s.m_registers.E s.m_registers }
  -- SUB A,H
  else if opcode = 0x94 then
    Except.ok { s with m_registers := sub s.m_registers.H s.m_registers }
  -- SUB A,L
  else if opcode = 0x95 then
    Except.ok { s with m_registers := sub s.m_registers.L s.m_registers }
  -- SUB A,(HL)
  else if opcode = 0x96 then
    let p := readMemory_u8 s.m_registers.HL s
    let value := p.1
    let s := p.2
    Except.ok { s with m_registers := sub value s.m_registers }
  -- SUB A,A
  else if opcode = 0x97 then
    Except.ok { s with m_registers := sub s.m_registers.A s.m_registers }
  -- SBC A,B
  else if opcode = 0x98 then
    Except.ok { s with m_registers := sbc s.m_registers.B s.m_registers }
  -- SBC A,C
  else if opcode = 0x99 then
    Except.ok { s with m_registers := sbc s.m_registers.C s.m_registers }
  -- SBC A,D
  else if opcode = 0x9A then
    Except.ok { s with m_registers := sbc s.m_registers.D s.m_registers }
  -- SBC A,E
  else if opcode = 0x9B then
    Except.ok { s with m_registers := sbc s.m_registers.E s.m_registers }
  -- SBC A,H
  else if opcode = 0x9C then
    Except.ok { s with m_registers := sbc s.m_registers.H s.m_registers }
  -- SBC A,L
  else if opcode = 0x9D then
    Except.ok { s with m_registers := sbc s.m_registers.L s.m_registers }
  -- SBC A,(HL)
  else if opcode = 0x9E then
    let p := readMemory_u8 s.m_registers.HL s
    let value := p.1
    let s := p.2
    Except.ok { s with m_registers := sbc value s.m_registers }
  -- SBC A,A
  else if opcode = 0x9F then
    Except.ok { s with m_registers := sbc s.m_registers.A s.m_registers }
  -- AND B
  else if opcode = 0xA0 then
    Except.ok { s with m_registers := and_ s.m_registers.B s.m_registers }
  -- AND C
  else if opcode = 0xA1 then
    Except.ok { s with m_registers := and_ s.m_registers.C s.m_registers }
  -- AND D
  else if opcode = 0xA2 then
    Except.ok { s with m_registers := and_ s.m_registers.D s.m_registers }
  -- AND E
  else if opcode = 0xA3 then
    Except.ok { s with m_registers := and_ s.m_registers.E s.m_registers }
  -- AND H
  else if opcode = 0xA4 then
    Except.ok { s with m_registers := and_ s.m_registers.H s.m_registers }
  -- AND L
  else if opcode = 0xA5 then
    Except.ok { s with m_registers := and_ s.m_registers.L s.m_registers }
  -- AND (HL)
  else if opcode = 0xA6 then
    let p := readMemory_u8 s.m_registers.HL s
    let value := p.1
    let s := p.2
    Except.ok { s with m_registers := and_ value s.m_registers }
  -- AND A
  else if opcode = 0xA7 then
    Except.ok { s with m_registers := and_ s.m_registers.A s.m_registers }
  -- XOR B
  else if opcode = 0xA8 then
    Except.ok { s with m_registers := xor_ s.m_registers.B s.m_registers }
  -- XOR C
  else if opcode = 0xA9 then
    Except.ok { s with m_registers := xor_ s.m_registers.C s.m_registers }
  -- XOR D
  else if opcode = 0xAA then
    Except.ok { s with m_registers := xor_ s.m_registers.D s.m_registers }
  -- XOR E
  else if opcode = 0xAB then
    Except.ok { s with m_registers := xor_ s.m_registers.E s.m_registers }
  -- XOR H
  else if opcode = 0xAC then
    Except.ok { s with m_registers := xor_ s.m_registers.H s.m_registers }
  -- XOR L
  else if opcode = 0xAD then
    Except.ok { s with m_registers := xor_ s.m_registers.L s.m_registers }
  -- XOR (HL)
  else if opcode = 0xAE then
    let p := readMemory_u8 s.m_registers.HL s
    let value := p.1
    let s := p.2
    Except.ok { s with m_registers := xor_ value s.m_registers }
  -- XOR A
  else if opcode = 0xAF then
    Except.ok { s with m_registers := xor_ s.m_registers.A s.m_registers }
  -- OR B
  else if opcode = 0xB0 then
    Except.ok { s with m_registers := or_ s.m_registers.B s.m_registers }
  -- OR C
  else if opcode = 0xB1 then
    Except.ok { s with m_registers := or_ s.m_registers.C s.m_registers }
  -- OR D
  else if opcode = 0xB2 then
    Except.ok { s with m_registers := or_ s.m_registers.D s.m_registers }
  -- OR E
  else if opcode = 0xB3 then
    Except.ok { s with m_registers := or_ s.m_registers.E s.m_registers }
  -- OR H
  else if opcode = 0xB4 then
    Except.ok { s with m_registers := or_ s.m_registers.H s.m_registers }
  -- OR L
  else if opcode = 0xB5 then
    Except.ok { s with m_registers := or_ s.m_registers.L s.m_registers }
  -- OR (HL)
  else if opcode = 0xB6 then
    let p := readMemory_u8 s.m_registers.HL s
    let value := p.1
    let s := p.2
    Except.ok { s with m_registers := or_ value s.m_registers }
  -- OR A
  else if opcode = 0xB7 then
    Except.ok { s with m_registers := or_ s.m_registers.A s.m_registers }
  -- CP B
  else if opcode = 0xB8 then
    Except.ok { s with m_registers := cp s.m_registers.B s.m_registers }
  -- CP C
  else if opcode = 0xB9 then
    Except.ok { s with m_registers := cp s.m_registers.C s.m_registers }
  -- CP D
  else if opcode = 0xBA then
    Except.ok { s with m_registers := cp s.m_registers.D s.m_registers }
  -- CP E
  else if opcode = 0xBB then
    Except.ok { s with m_registers := cp s.m_registers.E s.m_registers }
  -- CP H
  else if opcode = 0xBC then
    Except.ok { s with m_registers := cp s.m_registers.H s.m_registers }
  -- CP L
  else if opcode = 0xBD then
    Except.ok { s with m_registers := cp s.m_registers.L s.m_registers }
  -- CP (HL)
  else if opcode = 0xBE then
    let p := readMemory_u8 s.m_registers.HL s
    let value := p.1
    let s := p.2
    Except.ok { s with m_registers := cp value s.m_registers }
  -- CP A
  else if opcode = 0xBF then
    Except.ok { s with m_registers := cp s.m_registers.A s.m_registers }
  -- RET NZ
  else if opcode = 0xC0 then
    Except.ok (ret (s.m_registers.F.Z == 0) s)
  -- POP BC
  else if opcode = 0xC1 then
    let p := pop s
    let s := p.2
    Except.ok { s with m_registers := s.m_registers.setBC (p.1) }
  -- JP NZ,nn
  else if opcode = 0xC2 then
    Except.ok (jp (s.m_registers.F.Z == 0) s)
  -- JP nn
  else if opcode = 0xC3 then
    let p := readMemory_u16 s.m_registers.PC s
    let s := p.2
    let s := { s with m_registers := { s.m_registers with PC := p.1 } }
    Except.ok (doCycle 1 s)
  -- CALL NZ,nn
  else if opcode = 0xC4 then
    Except.ok (call (s.m_registers.F.Z == 0) s)
  -- PUSH BC
  else if opcode = 0xC5 then
    Except.ok (push s.m_registers.BC s)
  -- ADD A,n
  else if opcode = 0xC6 then
    let p := fetch_u8 s
    let value := p.1
    let s := p.2
    Except.ok { s with m_registers := add_A value s.m_registers }
  -- RST 0
  else if opcode = 0xC7 then
    Except.ok (rst 0x00 s)
  -- RET Z
  else if opcode = 0xC8 then
    Except.ok (ret (s.m_registers.F.Z != 0) s)
  -- RET
  else if opcode = 0xC9 then
    let p := pop s
    let s := p.2
    let s := { s with m_registers := { s.m_registers with PC := p.1 } }
    Except.ok (doCycle 1 s)
  -- JP Z,nn
  else if opcode = 0xCA then
    Except.ok (jp (s.m_registers.F.Z != 0) s)
  else if opcode = 0xCB then
    let p := fetch_u8 s
    Except.ok (executeOpcodeCB p.1 p.2)
  -- CALL Z,nn
  else if opcode = 0xCC then
    Except.ok (call (s.m_registers.F.Z != 0) s)
  -- CALL nn
  else if opcode = 0xCD then
    let s := push ((s.m_registers.PC + 2) % 65536) s
    let p := readMemory_u16 s.m_registers.PC s
    let s := p.2
    Except.ok { s with m_registers := { s.m_registers with PC := p.1 } }
  -- ADC A,n
  else if opcode = 0xCE then
    let p := fetch_u8 s
    let value := p.1
    let s := p.2
    Except.ok { s with m_registers := adc value s.m_registers }
  -- RST 1
  else if opcode = 0xCF then
    Except.ok (rst 0x08 s)
  -- RET NC
  else if opcode = 0xD0 then
    Except.ok (ret (s.m_registers.F.C == 0) s)
  -- POP DE
  else if opcode = 0xD1 then
    let p := pop s
    let s := p.2
    Except.ok { s with m_registers := s.m_registers.setDE (p.1) }
  -- JP NC,nn
  else if opcode = 0xD2 then
    Except.ok (jp (s.m_registers.F.C == 0) s)
  -- CALL NC,nn
  else if opcode = 0xD4 then
    Except.ok (call (s.m_registers.F.C == 0) s)
  -- PUSH DE
  else if opcode = 0xD5 then
    Except.ok (push s.m_registers.DE s)
  -- SUB n
  else if opcode = 0xD6 then
    let p := fetch_u8 s
    let value := p.1
    let s := p.2
    Except.ok { s with m_registers := sub value s.m_registers }
  -- RST 2
  else if opcode = 0xD7 then
    Except.ok (rst 0x10 s)
  -- RET C
  else if opcode = 0xD8 then
    Except.ok (ret (s.m_registers.F.C != 0) s)
  -- RETI
  else if opcode = 0xD9 then
    let p := pop s
    let s := p.2
    let s := { s with m_registers := { s.m_registers with PC := p.1 } }
    let s := { s with m_ime := true }
    Except.ok (doCycle 1 s)
  -- JP C,nn
  else if opcode = 0xDA then
    Except.ok (jp (s.m_registers.F.C != 0) s)
  -- CALL C,nn
  else if opcode = 0xDC then
    Except.ok (call (s.m_registers.F.C != 0) s)
  -- SBC A,n
  else if opcode = 0xDE then
    let p := fetch_u8 s
    let value := p.1
    let s := p.2
    Except.ok { s with m_registers := sbc value s.m_registers }
  -- RST 3
  else if opcode = 0xDF then
    Except.ok (rst 0x18 s)
  -- LD (n),A
  else if opcode = 0xE0 then
    let p := fetch_u8 s
    let value := p.1
    let s := p.2
    Except.ok (writeToMemory (0xFF00 ||| value) s.m_registers.A s)
  -- POP HL
  else if opcode = 0xE1 then
    let p := pop s
    let s := p.2
    Except.ok { s with m_registers := s.m_registers.setHL (p.1) }
  -- LD (C),A
  else if opcode = 0xE2 then
    Except.ok (writeToMemory (0xFF00 ||| s.m_registers.C) s.m_registers.A s)
  -- PUSH HL
  else if opcode = 0xE5 then
    Except.ok (push s.m_registers.HL s)
  -- AND n
  else if opcode = 0xE6 then
    let p := fetch_u8 s
    let value := p.1
    let s := p.2
    Except.ok { s with m_registers := and_ value s.m_registers }
  -- RST 4
  else if opcode = 0xE7 then
    Except.ok (rst 0x20 s)
  -- ADD SP,e
  else if opcode = 0xE8 then
    let p := add_SP_e s
    let s := p.2
    let s := { s with m_registers := { s.m_registers with SP := p.1 } }
    Except.ok (doCycle 1 s)
  -- JP (HL)
  else if opcode = 0xE9 then
    Except.ok { s with m_registers := { s.m_registers with PC := s.m_registers.HL } }
  -- LD (nn),A
  else if opcode = 0xEA then
    let p := fetch_u16 s
    let address := p.1
    let s := p.2
    Except.ok (writeToMemory address s.m_registers.A s)
  -- XOR n
  else if opcode = 0xEE then
    let p := fetch_u8 s
    let value := p.1
    let s := p.2
    Except.ok { s with m_registers := xor_ value s.m_registers }
  -- RST 5
  else if opcode = 0xEF then
    Except.ok (rst 0x28 s)
  -- LD A,(n)
  else if opcode = 0xF0 then
    let p := fetch_u8 s
    let value := p.1
    let s := p.2
    let p := readMemory_u8 (0xFF00 ||| value) s
    let s := p.2
    Except.ok { s with m_registers := { s.m_registers with A := p.1 } }
  -- POP AF
  else if opcode = 0xF1 then
    let p := pop s
    let s := p.2
    Except.ok { s with m_registers := s.m_registers.setAF (p.1 &&& 0xFFF0) }
  -- LD A,(C)
  else if opcode = 0xF2 then
    let p := readMemory_u8 (0xFF00 ||| s.m_registers.C) s
    let s := p.2
    Except.ok { s with m_registers := { s.m_registers with A := p.1 } }
  -- DI
  else if opcode = 0xF3 then
    Except.ok { s with m_ime := false }
  -- PUSH AF
  else if opcode = 0xF5 then
    Except.ok (push s.m_registers.AF s)
  -- OR n
  else if opcode = 0xF6 then
    let p := fetch_u8 s
    let value := p.1
    let s := p.2
    Except.ok { s with m_registers := or_ value s.m_registers }
  -- RST 6
  else if opcode = 0xF7 then
    Except.ok (rst 0x30 s)
  -- LDHL SP,e
  else if opcode = 0xF8 then
    let p := add_SP_e s
    let s := p.2
    Except.ok { s with m_registers := s.m_registers.setHL (p.1) }
  -- LD SP,HL
  else if opcode = 0xF9 then
    let s := { s with m_registers := { s.m_registers with SP := s.m_registers.HL } }
    Except.ok (doCycle 1 s)
  -- LD A,(nn)
  else if opcode = 0xFA then
    let p := fetch_u16 s
    let address := p.1
    let s := p.2
    let p := readMemory_u8 address s
    let s := p.2
    Except.ok { s with m_registers := { s.m_registers with A := p.1 } }
  -- EI
  else if opcode = 0xFB then
    Except.ok { s with m_ime := true }
  -- CP n
  else if opcode = 0xFE then
    let p := fetch_u8 s
    let value := p.1
    let s := p.2
    Except.ok { s with m_registers := cp value s.m_registers }
  -- RST 7
  else if opcode = 0xFF then
    Except.ok (rst 0x38 s)
  else Except.error (Error.unknownOpcode opcode)

/-- `Cpu::executeNextInstruction`. -/
def executeNextInstruction (s : Cpu) : Except Error Cpu :=
  let p := fetch_u8 s
  executeOpcode p.1 p.2


end Cpu

/-! ## Input and the main loop (`EventHandler.cpp`, `Cpu::run`) -/

/-- The entries of `SDL_GetKeyboardState` that `EventHandler::updateP1` reads, each 0 or 1. -/
structure KeyboardState where
  RIGHT : Nat
  LEFT : Nat
  UP : Nat
  DOWN : Nat
  Q : Nat
  W : Nat
  SPACE : Nat
  RETURN : Nat

namespace EventHandler

/-- `EventHandler::updateP1`, as a function from the old `P1` to the new one. -/
def updateP1 (keyboardState : KeyboardState) (P1 : Nat) : Nat :=
  let P1 := P1 ||| 0x0F
  if P1 &&& 0x10 = 0 then
    let right := keyboardState.RIGHT
    let left := keyboardState.LEFT
    let up := keyboardState.UP
    let down := keyboardState.DOWN
    (P1 ^^^ ((down <<< 3) ||| (up <<< 2) ||| (left <<< 1) ||| right)) % 256
  else if P1 &&& 0x20 = 0 then
    let a := keyboardState.Q
    let b := keyboardState.W
    let select := keyboardState.SPACE
    let start := keyboardState.RETURN
    (P1 ^^^ ((start <<< 3) ||| (select <<< 2) ||| (b <<< 1) ||| a)) % 256
  else P1

end EventHandler

namespace Cpu

/-- The body of the loop of `Cpu::run`, for the keyboard state seen by this pass. -/
def runPass (keyboardState : KeyboardState) (s : Cpu) : Except Error Cpu :=
  let s := { s with m_memory := { s.m_memory with
    P1 := EventHandler.updateP1 keyboardState s.m_memory.P1 } }
  let s := handleInterrupts s
  if s.m_haltMode then Except.ok (doCycle 1 s)
  else executeNextInstruction s

/-- `Cpu::run` over the passes made before the quit request: one keyboard state per pass. -/
def run : List KeyboardState → Cpu → Except Error Cpu
  | [], s => Except.ok s
  | keyboardState :: rest, s =>
    match runPass keyboardState s with
    | Except.ok s => run rest s
    | Except.error e => Except.error e

end Cpu

/-! ## Views of the state used to state frame properties -/

namespace Memory

/-- The memory with every field that the clock can write blanked: the divider, the timer
counter, `IF`, the pipeline registers `STAT` and `LY`, the `HDMA` registers and display RAM.
Two memories with the same image agree on everything else. -/
def withoutClocked (m : Memory) : Memory :=
  { m with DIV := 0, TIMA := 0, IF := 0, STAT := 0, LY := 0, HDMA1 := 0, HDMA2 := 0, HDMA3 := 0,
           HDMA4 := 0, HDMA5 := 0, m_displayRam := fun _ => 0 }

/-- The address is served by work RAM (directly or through its echo) at an index inside the
array, or by high RAM. -/
def isPlainRam (m : Memory) (address : Nat) : Prop :=
  (WORKRAM_START_ADDRESS ≤ address ∧ address ≤ WORKRAM_END_ADDRESS ∧
      m.workRamIndex address < workRamLength) ∨
    (ECHORAM_START_ADDRESS ≤ address ∧ address ≤ ECHORAM_END_ADDRESS ∧
      m.workRamIndex (address - 0x2000) < workRamLength) ∨
    (STACKRAM_START_ADDRESS ≤ address ∧ address ≤ STACKRAM_END_ADDRESS)

instance (m : Memory) (address : Nat) : Decidable (m.isPlainRam address) := by
  unfold isPlainRam
  infer_instance

end Memory

namespace Cpu

/-- The state with everything the clock can write blanked: the clocked memory fields, the
pipeline's cycle counter and the `static` counters. -/
def clockFrame (s : Cpu) : Cpu :=
  { s with m_memory := s.m_memory.withoutClocked
           m_displayController := { s.m_displayController with m_cycleCounter := 0 }
           doCycle_displaySwitch := false
           incrementDIV_cycleCounter := 0
           incrementTIMA_cycleCounter := 0 }

/-- The part of the state owned by the CPU proper: registers, `IME` and the halt flag. -/
def core (s : Cpu) : Registers × Bool × Bool := (s.m_registers, s.m_ime, s.m_haltMode)

/-- The states reachable from a freshly constructed CPU by executed instructions, interrupt
dispatches and whole passes of the main loop. -/
inductive Reachable : Cpu → Prop where
  | init (memory : Memory) : Reachable (Cpu.init memory)
  | instruction {s s' : Cpu} (h : Reachable s) (hs : executeNextInstruction s = Except.ok s') :
      Reachable s'
  | interrupts {s : Cpu} (h : Reachable s) : Reachable (handleInterrupts s)
  | pass {s s' : Cpu} (keyboardState : KeyboardState) (h : Reachable s)
      (hs : runPass keyboardState s = Except.ok s') : Reachable s'

/-- The result, when there is one, has the low nibble of `F` clear. -/
def okLow (r : Except Error Cpu) : Prop :=
  match r with
  | Except.ok s => s.m_registers.F.byte &&& 0x0F = 0
  | Except.error _ => True

end Cpu

/-! ## Packed BCD, used to state the decimal-adjust claims -/

/-- Both nibbles of the byte are decimal digits. -/
def isPackedBcd (a : Nat) : Prop := a / 16 ≤ 9 ∧ a % 16 ≤ 9

instance (a : Nat) : Decidable (isPackedBcd a) := by
  unfold isPackedBcd
  infer_instance

/-- The number 0..99 that a packed-BCD byte stands for. -/
def bcdValue (a : Nat) : Nat := (a / 16) * 10 + a % 16

/-- The packed-BCD byte of a number 0..99. -/
def bcdByte (n : Nat) : Nat := (n / 10) * 16 + n % 10

/-! ## Interrupt requests, example programs and example states -/

/-- The value `b` of `IF` is the value `a` with some of the requests VBLANK, LCDSTAT and TIMER
(bits 0 to 2) added. -/
def requestsAdded (a b : Nat) : Prop := ∃ x, x < 8 ∧ b = a ||| x

/-- A 32 KiB ROM image holding the given bytes from the entry point `0x0100` on. -/
def programRom (bytes : List Nat) : ByteVector :=
  { size := 0x8000, data := fun i => if 0x100 ≤ i then bytes.getD (i - 0x100) 0 else 0 }

/-- No key is held. -/
def noKeys : KeyboardState :=
  { RIGHT := 0, LEFT := 0, UP := 0, DOWN := 0, Q := 0, W := 0, SPACE := 0, RETURN := 0 }

/-- The `INC r` opcode, the `DEC r` opcode and the register they act on, for the seven 8-bit
registers. -/
def incDecRegisters : List (Nat × Nat × (Registers → Nat)) :=
  [(0x04, 0x05, Registers.B), (0x0C, 0x0D, Registers.C), (0x14, 0x15, Registers.D),
   (0x1C, 0x1D, Registers.E), (0x24, 0x25, Registers.H), (0x2C, 0x2D, Registers.L),
   (0x3C, 0x3D, Registers.A)]

/-- Registers that are zero apart from `A` and the flag byte. -/
def accumulatorAndFlags (a f : Nat) : Registers :=
  { F := ⟨f⟩, A := a, C := 0, B := 0, E := 0, D := 0, L := 0, H := 0, SP := 0, PC := 0 }

/-- A program that starts the timer at its fastest rate with `TMA` and `TIMA` at `0xFF`,
enables the VBLANK interrupt, sets `IME` and then requests VBLANK by writing `IF`:
`LD A,05; LDH (07),A; LD A,FF; LDH (06),A; LDH (05),A; LD A,01; LDH (FF),A; EI; LDH (0F),A`. -/
def timerDispatchRom : ByteVector :=
  programRom [0x3E, 0x05, 0xE0, 0x07, 0x3E, 0xFF, 0xE0, 0x06, 0xE0, 0x05, 0x3E, 0x01,
    0xE0, 0xFF, 0xFB, 0xE0, 0x0F]

/-- The state after nine passes of the main loop over `timerDispatchRom`, one per
instruction of the program. -/
def timerDispatchState : Cpu :=
  match Cpu.run (List.replicate 9 noKeys) (Cpu.init (Memory.defaults timerDispatchRom)) with
  | Except.ok s => s
  | Except.error _ => Cpu.init (Memory.defaults timerDispatchRom)

/-- A freshly constructed machine over `programRom bytes` whose registers `A`, `B`, `C`, `H`,
`L` have been loaded with the given bytes. -/
def loadedState (bytes : List Nat) (a b c h l : Nat) : Cpu :=
  { Cpu.init (Memory.defaults (programRom bytes)) with
    m_registers := { (Cpu.init (Memory.defaults (programRom bytes))).m_registers with
      A := a, B := b, C := c, H := h, L := l } }

/-- A machine with `IME` set, the LCD off and the timer stopped, in which TIMER and JOYPAD are
requested and every source is enabled. -/
def pendingTimerState : Cpu :=
  { Cpu.init { Memory.defaults (programRom []) with IF := 0x14, IE := 0x1F, LCDC := 0x11 } with
    m_ime := true }

/-- The default memory over the one-byte program `POP AF`, with `0xFF` in every cell of high
RAM. -/
def onesStackMemory : Memory :=
  { Memory.defaults (programRom [0xF1]) with m_stackRam := fun _ => 0xFF }

/-- The state after `POP AF` on a fresh machine over `onesStackMemory`. -/
def afterPopAF : Cpu :=
  match Cpu.executeNextInstruction (Cpu.init onesStackMemory) with
  | Except.ok s => s
  | Except.error _ => Cpu.init onesStackMemory

end CppGB

/-! ## Loading a cartridge (`Memory::Memory`) -/

namespace CppGB

/-- What `throwError` reports while the cartridge is loaded. -/
inductive LoadError where
  | cannotOpenFile
  | unknownCartridgeType (cartridgeType : Nat)
  | unknownExternalRamSize (size : Nat)
  deriving DecidableEq, Repr

/-- The call `v.resize(n)` on a `std::vector<u8>`: the elements below the old size are kept
and the new ones are zero. -/
def ByteVector.resize (v : ByteVector) (n : Nat) : ByteVector :=
  { size := n, data := fun i => if i < v.size then v.data i else 0 }

namespace Memory

/-- `Memory::initRom`: `file` is the content of the ROM file, `none` when it cannot be opened;
the bytes are appended to the empty `m_rom`. -/
def initRom (file : Option ByteVector) : Except LoadError Memory :=
  match file with
  | none => Except.error LoadError.cannotOpenFile
  | some rom => Except.ok (defaults rom)

/-- `Memory::getCartridgeType`; the console output is left out. -/
def getCartridgeType (m : Memory) : Except LoadError Memory :=
  let cartridgeType := m.m_rom.data 0x147
  if cartridgeType = 0x00 then Except.ok m
  else if cartridgeType = 0x01 then Except.ok { m with m_mbc := Mbc.MBC1 }
  else if cartridgeType = 0x02 then Except.ok { m with m_mbc := Mbc.MBC1 }
  else if cartridgeType = 0x03 then
    Except.ok { m with m_mbc := Mbc.MBC1, m_saveEnabled := true }
  else if cartridgeType = 0x05 then Except.ok { m with m_mbc := Mbc.MBC2 }
  else if cartridgeType = 0x06 then
    Except.ok { m with m_mbc := Mbc.MBC2, m_saveEnabled := true }
  else if cartridgeType = 0x08 then Except.ok m
  else if cartridgeType = 0x09 then Except.ok { m with m_saveEnabled := true }
  else if cartridgeType = 0x0F then Except.ok { m with m_mbc := Mbc.MBC3 }
  else if cartridgeType = 0x10 then
    Except.ok { m with m_mbc := Mbc.MBC3, m_saveEnabled := true }
  else if cartridgeType = 0x11 then Except.ok { m with m_mbc := Mbc.MBC3 }
  else if cartridgeType = 0x12 then Except.ok { m with m_mbc := Mbc.MBC3 }
  else if cartridgeType = 0x13 then
    Except.ok { m with m_mbc := Mbc.MBC3, m_saveEnabled := true }
  else if cartridgeType = 0x19 then Except.ok { m with m_mbc := Mbc.MBC5 }
  else if cartridgeType = 0x1A then Except.ok { m with m_mbc := Mbc.MBC5 }
  else if cartridgeType = 0x1B then
    Except.ok { m with m_mbc := Mbc.MBC5, m_saveEnabled := true }
  else if cartridgeType = 0x1C then Except.ok { m with m_mbc := Mbc.MBC5 }
  else if cartridgeType = 0x1D then Except.ok { m with m_mbc := Mbc.MBC5 }
  else if cartridgeType = 0x1E then
    Except.ok { m with m_mbc := Mbc.MBC5, m_saveEnabled := true }
  else Except.error (LoadError.unknownCartridgeType cartridgeType)

/-- The `switch (size)` of `Memory::initExternalRam`. -/
def resizeExternalRam (m : Memory) : Except LoadError Memory :=
  let size := m.m_rom.data 0x149
  if size = 0 then
    if m.m_mbc = Mbc.MBC2 then
      Except.ok { m with m_externalRam := m.m_externalRam.resize 0x200 }
    else Except.ok m
  else if size = 2 then Except.ok { m with m_externalRam := m.m_externalRam.resize 0x2000 }
  else if size = 3 then Except.ok { m with m_externalRam := m.m_externalRam.resize 0x8000 }
  else if size = 4 then Except.ok { m with m_externalRam := m.m_externalRam.resize 0x20000 }
  else Except.error (LoadError.unknownExternalRamSize size)

/-- The end of `Memory::initExternalRam`: `save` is the content of the save file, `none`
when it cannot be opened; `std::copy` stores its bytes from the first element on and leaves
the size of the vector alone. -/
def loadSave (m : Memory) (save : Option (List Nat)) : Memory :=
  match save with
  | none => m
  | some bytes =>
    { m with m_externalRam := { m.m_externalRam with
        data := fun i => if i < bytes.length then bytes.getD i 0 % 256
          else m.m_externalRam.data i } }

/-- `Memory::initExternalRam`. -/
def initExternalRam (m : Memory) (save : Option (List Nat)) : Except LoadError Memory :=
  match m.resizeExternalRam with
  | Except.ok m => Except.ok (m.loadSave save)
  | Except.error e => Except.error e

/-- The constructor `Memory::Memory`: `romFile` and `saveFile` are what the two files hold. -/
def construct (romFile : Option ByteVector) (saveFile : Option (List Nat)) :
    Except LoadError Memory :=
  match initRom romFile with
  | Except.error e => Except.error e
  | Except.ok m =>
    match m.getCartridgeType with
    | Except.error e => Except.error e
    | Except.ok m => m.initExternalRam saveFile

/-- The cartridge-type codes for which `Memory::getCartridgeType` sets `m_saveEnabled`. -/
def saveEnabledCodes : List Nat := [0x03, 0x06, 0x09, 0x10, 0x13, 0x1B, 0x1E]

/-- The cartridge-type codes that `Memory::getCartridgeType` accepts. -/
def acceptedCodes : List Nat :=
  [0x00, 0x01, 0x02, 0x03, 0x05, 0x06, 0x08, 0x09, 0x0F, 0x10, 0x11, 0x12, 0x13, 0x19, 0x1A,
   0x1B, 0x1C, 0x1D, 0x1E]

/-- The external-RAM size codes that `Memory::initExternalRam` accepts. -/
def acceptedRamSizes : List Nat := [0, 2, 3, 4]

/-- A loading step either yields a memory that satisfies `good` or reports an error that
satisfies `bad`. -/
def outcome (r : Except LoadError Memory) (good : Memory → Prop) (bad : LoadError → Prop) :
    Prop :=
  match r with
  | Except.ok m => good m
  | Except.error e => bad e

/-- The addresses named in the register `enum` of `Memory.h`. -/
def registerAddresses : List Nat :=
  [P1_ADDRESS, SB_ADDRESS, SC_ADDRESS, DIV_ADDRESS, TIMA_ADDRESS, TMA_ADDRESS, TAC_ADDRESS,
   IF_ADDRESS, NR10_ADDRESS, NR11_ADDRESS, NR12_ADDRESS, NR13_ADDRESS, NR14_ADDRESS,
   NR21_ADDRESS, NR22_ADDRESS, NR23_ADDRESS, NR24_ADDRESS, NR30_ADDRESS, NR31_ADDRESS,
   NR32_ADDRESS, NR33_ADDRESS, NR34_ADDRESS, NR41_ADDRESS, NR42_ADDRESS, NR43_ADDRESS,
   NR44_ADDRESS, NR50_ADDRESS, NR51_ADDRESS, NR52_ADDRESS, LCDC_ADDRESS, STAT_ADDRESS,
   SCY_ADDRESS, SCX_ADDRESS, LY_ADDRESS, LYC_ADDRESS, DMA_ADDRESS, BGP_ADDRESS, OBP0_ADDRESS,
   OBP1_ADDRESS, WY_ADDRESS, WX_ADDRESS, KEY1_ADDRESS, VBK_ADDRESS, HDMA1_ADDRESS,
   HDMA2_ADDRESS, HDMA3_ADDRESS, HDMA4_ADDRESS, HDMA5_ADDRESS, BCPS_ADDRESS, BCPD_ADDRESS,
   OCPS_ADDRESS, OCPD_ADDRESS, SVBK_ADDRESS, IE_ADDRESS]

/-- A sequence of `Memory::write` calls, each an address and a value. -/
def writes (m : Memory) : List (Nat × Nat) → Memory
  | [] => m
  | w :: rest => writes (m.write w.1 w.2) rest

end Memory

/-! ## Views and example machines for the timer, cartridge and memory-map claims -/

/-- A program that moves the stack pointer to `0xFF11`, enables VBLANK, sets `IME` and requests
VBLANK: `LD SP,FF11; LD A,01; LDH (FF),A; EI; LDH (0F),A`.  The dispatch that follows pushes
`PC = 0x010A`, whose low byte lands on `IF` at `0xFF0F`. -/
def stackOnIFRom : ByteVector :=
  programRom [0x31, 0x11, 0xFF, 0x3E, 0x01, 0xE0, 0xFF, 0xFB, 0xE0, 0x0F]

/-- The state after the five passes of the main loop that execute `stackOnIFRom`. -/
def stackOnIFState : Cpu :=
  match Cpu.run (List.replicate 5 noKeys) (Cpu.init (Memory.defaults stackOnIFRom)) with
  | Except.ok s => s
  | Except.error _ => Cpu.init (Memory.defaults stackOnIFRom)

namespace Cpu

/-- What the timer reads and writes: `TAC`, `TMA`, `TIMA`, the `static` cycle counter of
`incrementTIMA` and the TIMER bit of `IF`. -/
def timerView (s : Cpu) : Nat × Nat × Nat × Nat × Nat :=
  (s.m_memory.TAC, s.m_memory.TMA, s.m_memory.TIMA, s.incrementTIMA_cycleCounter,
    s.m_memory.IF &&& TIMER_INTERRUPT_FLAG)

/-- What the divider owns: `DIV` and the `static` cycle counter of `incrementDIV`. -/
def dividerView (s : Cpu) : Nat × Nat := (s.m_memory.DIV, s.incrementDIV_cycleCounter)

end Cpu

/-- A fresh machine whose timer runs at clock code 1 (one tick every four machine cycles)
with `TIMA = TMA = 0xFE`. -/
def runningTimerState : Cpu :=
  Cpu.init { Memory.defaults (programRom []) with TAC := 0x05, TIMA := 0xFE, TMA := 0xFE }

/-- The program `LD A, 0x5A; LDH (0x04), A`: a write of `0x5A` to `DIV`. -/
def divWriteRom : ByteVector := programRom [0x3E, 0x5A, 0xE0, 0x04]

/-- A ROM image of `banks` banks of 16 KiB with the given cartridge type (header byte
`0x147`) and external-RAM size code (header byte `0x149`); the first byte of every bank is
the number of the bank and every other byte is zero. -/
def bankNumberRom (cartridgeType ramSize banks : Nat) : ByteVector :=
  { size := banks * 0x4000,
    data := fun i =>
      if i = 0x147 then cartridgeType
      else if i = 0x149 then ramSize
      else if i < banks * 0x4000 ∧ i % 0x4000 = 0 then i / 0x4000
      else 0 }

/-- The memory that `Memory::Memory` builds from a ROM image when there is no save file; the
image itself with the default fields stands in where the constructor reports an error. -/
def Memory.loaded (rom : ByteVector) : Memory :=
  match Memory.construct (some rom) none with
  | Except.ok m => m
  | Except.error _ => Memory.defaults rom

/-- A fresh machine whose work RAM holds `0, 1, ..., 159` at `0xC000..0xC09F`. -/
def dmaSourceState : Cpu :=
  Cpu.init { Memory.defaults (programRom []) with
    m_workRam := fun i => if i < 160 then i else 0 }

/-- The program `LD A,05; LDH (07),A; NOP; NOP; LD A,C0; LDH (46),A`: it starts the timer at
one tick every four machine cycles and then writes `0xC0` to `DMA`. -/
def dmaTimerRom : ByteVector :=
  programRom [0x3E, 0x05, 0xE0, 0x07, 0x00, 0x00, 0x3E, 0xC0, 0xE0, 0x46]

/-- The state in which the last instruction of `dmaTimerRom` calls `writeToMemory`: five
passes of the main loop and the two fetches of `LDH (46),A`. -/
def dmaTimerState : Cpu :=
  match Cpu.run (List.replicate 5 noKeys) (Cpu.init (Memory.defaults dmaTimerRom)) with
  | Except.ok s => (Cpu.fetch_u8 (Cpu.fetch_u8 s).2).2
  | Except.error _ => Cpu.init (Memory.defaults dmaTimerRom)

end CppGB

/-! ## Views and example machines for the display-pipeline, HDMA, palette, joypad and decode
claims -/

namespace CppGB

namespace Memory

/-- The `u16 sourceAddress` with which `Memory::performHdmaTransfer` starts. -/
def hdmaSource (m : Memory) : Nat := ((m.HDMA1 <<< 8) ||| (m.HDMA2 &&& 0xF0)) % 65536

/-- The `u16 destinationAddress` with which `Memory::performHdmaTransfer` starts. -/
def hdmaDestination (m : Memory) : Nat :=
  (((m.HDMA3 &&& 0x1F) <<< 8) ||| (m.HDMA4 &&& 0xF0)) % 65536

/-- The five HDMA registers. -/
def hdmaRegisters (m : Memory) : Nat × Nat × Nat × Nat × Nat :=
  (m.HDMA1, m.HDMA2, m.HDMA3, m.HDMA4, m.HDMA5)

/-- The five HDMA registers and `LCDC`. -/
def hdmaControl (m : Memory) : (Nat × Nat × Nat × Nat × Nat) × Nat := (m.hdmaRegisters, m.LCDC)

/-- The memory without the three registers that the display pipeline writes outside an HDMA
transfer. -/
def withoutPipeline (m : Memory) : Memory := { m with STAT := 0, LY := 0, IF := 0 }

end Memory

namespace DisplayController

/-- A number of successive calls of `DisplayController::doCycle`. -/
def ticks : Nat → Cpu → Cpu
  | 0, s => s
  | n + 1, s => ticks n (DisplayController.doCycle s)

/-- Where the pipeline is: the mode in `STAT` bits 0..1, `LY` and the cycle counter. -/
def pipelineView (s : Cpu) : Nat × Nat × Nat :=
  (s.m_memory.STAT &&& 0x03, s.m_memory.LY, s.m_displayController.m_cycleCounter)

/-- The interrupt flags that the next call of `DisplayController::doCycle` requests: the value
of `IF` after the call when `IF` is zero before it. -/
def raisedByTick (s : Cpu) : Nat :=
  (DisplayController.doCycle { s with m_memory := { s.m_memory with IF := 0 } }).m_memory.IF

/-- The mode in `STAT` bits 0..1 and the cycle counter. -/
def modeView (s : Cpu) : Nat × Nat :=
  (s.m_memory.STAT &&& 0x03, s.m_displayController.m_cycleCounter)

/-- The cycle counter is below the length of the mode held in `STAT` bits 0..1: 51 ticks for
HBLANK (0), 114 for VBLANK (1), 20 for OAMSCAN (2) and 43 for XFER (3). -/
def belowModeLength (s : Cpu) : Prop :=
  ((modeView s).1 = 0 → (modeView s).2 < 51) ∧ ((modeView s).1 = 1 → (modeView s).2 < 114) ∧
    ((modeView s).1 = 2 → (modeView s).2 < 20) ∧ ((modeView s).1 = 3 → (modeView s).2 < 43)

/-- The byte with index `i` of a palette memory of eight palettes of four colours of two
bytes: colour `(i / 2) % 4` of palette `i / 8`, its high byte for odd `i` and its low byte
for even `i`. -/
def paletteByte (palettes : Nat → ColorPalette) (i : Nat) : Nat :=
  if i % 2 = 1 then ((palettes (i / 8)).color ((i / 2) % 4)).H
  else ((palettes (i / 8)).color ((i / 2) % 4)).L

/-- The pipeline position that the timing table of the specification gives `k` ticks after
(OAMSCAN, `LY = 0`, counter 0), as mode, `LY` and counter: 144 visible lines of 20 ticks of
OAMSCAN (mode 2), 43 of XFER (mode 3) and 51 of HBLANK (mode 0), then ten lines of 114 ticks
of VBLANK (mode 1) in which `LY` runs from 144 to 153 and is back at 0 from the second tick
of line 153 on, and OAMSCAN of line 0 again at tick 17556. -/
def specFramePosition (k : Nat) : Nat × Nat × Nat :=
  if k < 16416 then
    (if k % 114 < 20 then (2, k / 114, k % 114)
    else if k % 114 < 63 then (3, k / 114, k % 114 - 20)
    else (0, k / 114, k % 114 - 63))
  else if k < 17556 then
    (if k - 16416 < 1027 then (1, 144 + (k - 16416) / 114, (k - 16416) % 114)
    else (1, 0, (k - 16416) % 114))
  else (2, 0, 0)

end DisplayController

/-- A fresh machine whose `STAT` shows OAMSCAN (mode 2): the pipeline stands at the start of
line 0 with the LCD on. -/
def oamScanState : Cpu :=
  Cpu.init { Memory.defaults (programRom []) with STAT := 0x02 }

/-- A fresh machine at the last tick of the HBLANK of line 4, with `LYC = 5` and the
coincidence interrupt enabled (`STAT` bit 6). -/
def lineEndState : Cpu :=
  { Cpu.init { Memory.defaults (programRom []) with STAT := 0x40, LY := 4, LYC := 5 } with
    m_displayController :=
      { (Cpu.init (Memory.defaults (programRom []))).m_displayController with
        m_cycleCounter := 50 } }

/-- The program `LD A,40; LDH (41),A; LD A,05; LDH (45),A; LDH (44),A`: it enables the
coincidence interrupt, sets `LYC = 5` and then writes 5 to `LY`. -/
def lyWriteRom : ByteVector :=
  programRom [0x3E, 0x40, 0xE0, 0x41, 0x3E, 0x05, 0xE0, 0x45, 0xE0, 0x44]

/-- The program `LD A,40; LDH (41),A`, fifty times `NOP`, `LD A,11; LDH (40),A`: it enables the
coincidence interrupt with `LYC = 0`, waits until `LY` is 1 and switches the LCD off. -/
def lcdOffRom : ByteVector :=
  programRom ([0x3E, 0x40, 0xE0, 0x41] ++ List.replicate 50 0x00 ++ [0x3E, 0x11, 0xE0, 0x40])

namespace DisplayController

/-- The condition under which `DisplayController::doCycle` runs the PIXELTRANSFER arm with the
incremented counter at 43: the tick of `s` is the transition from pixel transfer to HBLANK. -/
def atHBlankEntry (s : Cpu) : Prop :=
  s.m_memory.LCDC &&& 0x80 ≠ 0 ∧ s.m_memory.STAT &&& 0x03 = PIXELTRANSFER_MODE_FLAG ∧
    (s.m_displayController.m_cycleCounter + 1) % 256 = 43

instance (s : Cpu) : Decidable (atHBlankEntry s) := by
  unfold atHBlankEntry
  infer_instance

end DisplayController

/-- What the CPU does on the bus in one machine cycle: it lets the cycle pass (`doCycle(1)`,
which is also all that a read does to the state), or it writes a byte (`writeToMemory`). -/
inductive BusAction where
  | cycle
  | write (address value : Nat)
  deriving DecidableEq, Repr

namespace BusAction

/-- The action writes none of the five HDMA registers and does not clear bit 7 of `LCDC`. -/
def quiet : BusAction → Prop
  | cycle => True
  | write address value =>
    address ≠ Memory.HDMA1_ADDRESS ∧ address ≠ Memory.HDMA2_ADDRESS ∧
      address ≠ Memory.HDMA3_ADDRESS ∧ address ≠ Memory.HDMA4_ADDRESS ∧
      address ≠ Memory.HDMA5_ADDRESS ∧ (address = Memory.LCDC_ADDRESS → value &&& 0x80 ≠ 0)

instance (action : BusAction) : Decidable action.quiet := by
  cases action <;> (unfold quiet; infer_instance)

end BusAction

namespace Cpu

/-- What decides the HDMA transfers of a step: the five HDMA registers, whether the LCD is on,
and the pipeline mode. -/
def hdmaView (s : Cpu) : (Nat × Nat × Nat × Nat × Nat) × Bool × Nat :=
  (s.m_memory.hdmaRegisters, decide (s.m_memory.LCDC &&& 0x80 ≠ 0), s.m_memory.STAT &&& 0x03)

/-- What a step from `s` to `t` does to the HDMA registers when it writes none of them: the LCD
is still on, and either the step entered HBLANK with bit 7 of `HDMA5` clear and one block went,
or the five registers are as before. -/
def hdmaStep (s t : Cpu) : Prop :=
  t.m_memory.LCDC &&& 0x80 ≠ 0 ∧
    ((s.m_memory.STAT &&& 0x03 = DisplayController.PIXELTRANSFER_MODE_FLAG ∧
        t.m_memory.STAT &&& 0x03 = DisplayController.HBLANK_MODE_FLAG ∧
        s.m_memory.HDMA5 &&& 0x80 = 0 ∧
        t.m_memory.hdmaSource = (s.m_memory.hdmaSource + 16) % 65536 ∧
        t.m_memory.hdmaDestination = (s.m_memory.hdmaDestination + 16) % 0x2000 ∧
        t.m_memory.HDMA5 = (s.m_memory.HDMA5 + 255) % 256) ∨
      (¬ (s.m_memory.STAT &&& 0x03 = DisplayController.PIXELTRANSFER_MODE_FLAG ∧
          t.m_memory.STAT &&& 0x03 = DisplayController.HBLANK_MODE_FLAG ∧
          s.m_memory.HDMA5 &&& 0x80 = 0) ∧
        t.m_memory.hdmaRegisters = s.m_memory.hdmaRegisters))

/-- The machine runs at normal speed with the LCD on, and its pipeline stands at position `j`
of the timing table. -/
def onFrameOrbit (s : Cpu) (j : Nat) : Prop :=
  s.m_memory.LCDC &&& 0x80 ≠ 0 ∧ s.m_memory.KEY1 &&& 0x80 = 0 ∧
    DisplayController.pipelineView s = DisplayController.specFramePosition j

/-- The state after the assignment `m_memory.HDMA5 = value & 0x7F` with which the `HDMA5` arm of
`Cpu::writeToMemory` starts. -/
def hdmaScheduled (value : Nat) (s : Cpu) : Cpu :=
  { s with m_memory := { s.m_memory with HDMA5 := value &&& 0x7F } }

/-- One bus action. -/
def busStep : BusAction → Cpu → Cpu
  | BusAction.cycle, s => doCycle 1 s
  | BusAction.write address value, s => writeToMemory address value s

/-- A run of bus actions, first to last. -/
def busSteps : List BusAction → Cpu → Cpu
  | [], s => s
  | action :: rest, s => busSteps rest (busStep action s)

/-- The step from `s` to `t` took the pipeline from pixel transfer into HBLANK. -/
def enteredHBlank (s t : Cpu) : Prop :=
  s.m_memory.STAT &&& 0x03 = DisplayController.PIXELTRANSFER_MODE_FLAG ∧
    t.m_memory.STAT &&& 0x03 = DisplayController.HBLANK_MODE_FLAG

instance (s t : Cpu) : Decidable (enteredHBlank s t) := by
  unfold enteredHBlank
  infer_instance

/-- The number of steps of the run from `s` that entered HBLANK. -/
def hblankEntries : List BusAction → Cpu → Nat
  | [], _ => 0
  | action :: rest, s =>
    (if enteredHBlank s (busStep action s) then 1 else 0) + hblankEntries rest (busStep action s)

/-- The number of steps of the run from `s` that entered HBLANK with bit 7 of `HDMA5` clear:
the steps at which `DisplayController::doCycle` calls `performHdmaTransfer(0)`, as long as the
run writes no HDMA register. -/
def hdmaBlocks : List BusAction → Cpu → Nat
  | [], _ => 0
  | action :: rest, s =>
    (if enteredHBlank s (busStep action s) ∧ s.m_memory.HDMA5 &&& 0x80 = 0 then 1 else 0)
      + hdmaBlocks rest (busStep action s)

end Cpu

/-- A machine at the last tick of pixel transfer on line 0, with one more than one block left
to transfer: the source is the program at `0x0100`, the destination is display RAM offset
`0x0020`, and `HDMA5` holds 1. -/
def hdmaEntryState : Cpu :=
  { Cpu.init { Memory.defaults (programRom (List.range 64)) with
      STAT := 0x03, HDMA1 := 0x01, HDMA2 := 0x00, HDMA3 := 0x00, HDMA4 := 0x20, HDMA5 := 0x01 } with
    m_displayController :=
      { (Cpu.init (Memory.defaults (programRom []))).m_displayController with
        m_cycleCounter := 42 } }

/-- A fresh machine whose `BCPS` selects the last background-palette byte with auto-increment,
and whose `OCPS` selects sprite-palette byte 5 without it. -/
def paletteWriteState : Cpu :=
  Cpu.init { Memory.defaults (programRom []) with BCPS := 0xBF, OCPS := 0x05 }

/-- The byte values with no `case` label in the `switch` of `Cpu::executeNextInstruction`. -/
def undefinedOpcodes : List Nat :=
  [0xD3, 0xDB, 0xDD, 0xE3, 0xE4, 0xEB, 0xEC, 0xED, 0xF4, 0xFC, 0xFD]

namespace Cpu

/-- The states reached from a freshly constructed CPU by pipeline ticks
(`DisplayController::doCycle`), machine cycles (one iteration of `Cpu::doCycle`) and CPU
memory writes (`Cpu::writeToMemory`, to any address with any value). -/
inductive PipelineReachable : Cpu → Prop where
  | init (memory : Memory) : PipelineReachable (Cpu.init memory)
  | tick {s : Cpu} (h : PipelineReachable s) : PipelineReachable (DisplayController.doCycle s)
  | cycle {s : Cpu} (h : PipelineReachable s) : PipelineReachable (doCycleStep s)
  | write {s : Cpu} (address value : Nat) (h : PipelineReachable s) :
      PipelineReachable (writeToMemory address value s)

end Cpu

end CppGB

/-! ## Definitions for the branch-timing, sound, composition and bank-index claims -/

namespace CppGB

/-- The program `LD A,08; LDH (70),A; LD A,(D000)`. -/
def svbkRom : ByteVector := programRom [0x3E, 0x08, 0xE0, 0x70, 0xFA, 0x00, 0xD0]

/-- The machine built from a two-bank MBC1 + RAM image whose header asks for `0x20000` bytes of
external RAM (size code 4). -/
def ramBankState : Cpu := Cpu.init (Memory.loaded (bankNumberRom 0x02 4 2))

/-- The bus actions of a program that selects RAM bank 8, stores `0x5A` at `0xA000` and
selects RAM bank 0 again. -/
def ramBankWrites : List BusAction :=
  [BusAction.write 0x4000 8, BusAction.write 0xA000 0x5A, BusAction.write 0x4000 0]

/-- The bus actions of a program that points the HDMA source at `0x0100` and the destination at
the last block of the display-RAM bank, selects bank 1 and asks for a general-purpose transfer
of two blocks. -/
def hdmaOverrunWrites : List BusAction :=
  [BusAction.write 0xFF51 0x01, BusAction.write 0xFF52 0x00, BusAction.write 0xFF53 0x1F,
   BusAction.write 0xFF54 0xF0, BusAction.write 0xFF4F 0x01, BusAction.write 0xFF55 0x01]

/-- The program `LD A,05; LDH (07),A; NOP; JR Z,+5`: it starts the timer at one tick every
four machine cycles and then runs a conditional jump whose condition is false (`Z` is clear
on a freshly constructed CPU and no instruction before the jump writes the flags). -/
def branchTimerRom : ByteVector := programRom [0x3E, 0x05, 0xE0, 0x07, 0x00, 0x28, 0x05]

/-- The state in which the `JR Z` of `branchTimerRom` is about to be fetched: three passes of
the main loop. -/
def branchTimerState : Cpu :=
  match Cpu.run (List.replicate 3 noKeys) (Cpu.init (Memory.defaults branchTimerRom)) with
  | Except.ok s => s
  | Except.error _ => Cpu.init (Memory.defaults branchTimerRom)

/-- The bus actions of a program that starts the timer with the period of 256 cycles, lets
four machine cycles pass and selects the period of 4 cycles. -/
def tacSwitchActions : List BusAction :=
  [BusAction.write 0xFF07 0x04, BusAction.cycle, BusAction.cycle, BusAction.cycle,
   BusAction.cycle, BusAction.write 0xFF07 0x05]

/-! ### The frame buffer (`DisplayController::transferPixelLine_*`)

The frame buffer is written by the pipeline and read back only by the object pass and by
`drawFrame`, so it is kept beside the machine state: each routine takes the state and the
buffer and returns the buffer. -/

/-- `DisplayController::Pixel`. -/
structure Pixel where
  backgroundValue : Nat
  backgroundPriority : Bool
  dmgColor : Nat
  cgbColor : Color

/-- The array `m_frameBuffer`, as a function of the pixel offset.  The source declares
`SCREEN_HEIGHT * SCREEN_WIDTH` entries and indexes them with `LY * SCREEN_WIDTH + x_screen`
unchecked; the model keeps an entry for every offset. -/
structure FrameBuffer where
  pixel : Nat → Pixel

/-- The assignment to the entry `pixelOffset` of the frame buffer. -/
def FrameBuffer.store (frameBuffer : FrameBuffer) (pixelOffset : Nat) (p : Pixel) :
    FrameBuffer :=
  { pixel := fun j => if j = pixelOffset then p else frameBuffer.pixel j }

namespace Cpu

/-- `Cpu::isCgbMode`. -/
def isCgbMode (s : Cpu) : Bool :=
  let cgbSupportCode := s.m_memory.read 0x143
  cgbSupportCode == 0x80 || cgbSupportCode == 0xC0

end Cpu

namespace DisplayController

/-- The constant `SCREEN_WIDTH`. -/
@[reducible, simp] def SCREEN_WIDTH : Nat := 160

/-- The constant `CHARACTER_DATA_SIZE`. -/
@[reducible, simp] def CHARACTER_DATA_SIZE : Nat := 16

/-- The constant `CHARACTER_WIDTH`. -/
@[reducible, simp] def CHARACTER_WIDTH : Nat := 8

/-- The constant `CHARACTERS_PER_LINE`. -/
@[reducible, simp] def CHARACTERS_PER_LINE : Nat := 32

/-- The address `characterAddress` that the loop body of `transferPixelLine_background`
computes for the screen column `x_screen`. -/
def backgroundCharacterAddress (s : Cpu) (x_screen : Nat) : Nat :=
  let characterCodeAreaAddress := if s.m_memory.LCDC &&& 0x08 ≠ 0 then 0x9C00 else 0x9800
  let y_background := (s.m_memory.LY + s.m_memory.SCY) % 256
  let characterLine := y_background / CHARACTER_WIDTH
  let x_background := (x_screen + s.m_memory.SCX) % 256
  let characterColumn := x_background / CHARACTER_WIDTH
  let characterNumber := (characterLine * CHARACTERS_PER_LINE + characterColumn) % 65536
  (characterCodeAreaAddress + characterNumber) % 65536

/-- The loop body of `transferPixelLine_background` after its two reads of the character map:
the four fields it stores for the screen column `x_screen`, from the character code and the
character attributes. -/
def backgroundPixel (s : Cpu) (x_screen characterCode characterAttributes : Nat) : Pixel :=
  let y_background := (s.m_memory.LY + s.m_memory.SCY) % 256
  let x_background := (x_screen + s.m_memory.SCX) % 256
  let x_character := x_background % CHARACTER_WIDTH
  let colorPaletteNumber := characterAttributes &&& 0x07
  let characterDataBankNumber := (characterAttributes &&& 0x08) >>> 3
  let horizontalFlip := characterAttributes &&& 0x20 ≠ 0
  let verticalFlip := characterAttributes &&& 0x40 ≠ 0
  let backgroundPriority := characterAttributes &&& 0x80 ≠ 0
  let y_character :=
    if verticalFlip then 7 - y_background % CHARACTER_WIDTH else y_background % CHARACTER_WIDTH
  let characterDataAddress :=
    if s.m_memory.LCDC &&& 0x10 ≠ 0 then (0x8000 + characterCode * CHARACTER_DATA_SIZE) % 65536
    else u16 (0x9000 + s8 characterCode * CHARACTER_DATA_SIZE)
  let byte0 := s.m_memory.readDisplayRam ((characterDataAddress + y_character * 2) % 65536)
    characterDataBankNumber
  let byte1 := s.m_memory.readDisplayRam ((characterDataAddress + y_character * 2 + 1) % 65536)
    characterDataBankNumber
  let bitNumber := if horizontalFlip then x_character else 7 - x_character
  let bit0 := (byte0 >>> bitNumber) &&& 1
  let bit1 := (byte1 >>> bitNumber) &&& 1
  let pixel := (bit1 <<< 1) ||| bit0
  { backgroundValue := pixel
    backgroundPriority := decide backgroundPriority
    dmgColor := (s.m_memory.BGP >>> (pixel * 2)) &&& 0x03
    cgbColor := (s.m_displayController.m_bgColorPalettes colorPaletteNumber).color pixel }

/-- The loop of `transferPixelLine_background` from the column `x_screen` on, with `count`
columns left. -/
def transferPixelLine_backgroundLoop (s : Cpu) : Nat → Nat → FrameBuffer → FrameBuffer
  | 0, _, frameBuffer => frameBuffer
  | count + 1, x_screen, frameBuffer =>
    let characterAddress := backgroundCharacterAddress s x_screen
    let characterCode := s.m_memory.readDisplayRam characterAddress 0
    let characterAttributes := s.m_memory.readDisplayRam characterAddress 1
    let pixelOffset := s.m_memory.LY * SCREEN_WIDTH + x_screen
    transferPixelLine_backgroundLoop s count (x_screen + 1)
      (frameBuffer.store pixelOffset
        (backgroundPixel s x_screen characterCode characterAttributes))

/-- `DisplayController::transferPixelLine_background`. -/
def transferPixelLine_background (s : Cpu) (frameBuffer : FrameBuffer) : FrameBuffer :=
  transferPixelLine_backgroundLoop s SCREEN_WIDTH 0 frameBuffer

/-- The local `objectHeight` of `transferPixelLine_objects`. -/
def objectHeight (s : Cpu) : Nat := if s.m_memory.LCDC &&& 0x04 ≠ 0 then 16 else 8

/-- The first loop of `transferPixelLine_objects` from `objectNumber` on, with `count`
iterations allowed; `visibleObjectAddresses` is the list built so far, newest entry first
(`push_front`). -/
def collectVisibleObjects (s : Cpu) : Nat → Nat → List Nat → List Nat
  | 0, _, visibleObjectAddresses => visibleObjectAddresses
  | count + 1, objectNumber, visibleObjectAddresses =>
    if objectNumber < 40 ∧ visibleObjectAddresses.length < 10 then
      let objectAddress := (Memory.OAM_ADDRESS + objectNumber * 4) % 65536
      let objectY : Int := (s.m_memory.read objectAddress : Int) - 16
      let visibleObjectAddresses :=
        if objectY ≤ (s.m_memory.LY : Int) ∧
            (s.m_memory.LY : Int) < objectY + (objectHeight s : Int) then
          objectAddress :: visibleObjectAddresses
        else visibleObjectAddresses
      collectVisibleObjects s count (objectNumber + 1) visibleObjectAddresses
    else visibleObjectAddresses

/-- The list `visibleObjectAddresses` after the first loop of `transferPixelLine_objects`; the
loop leaves after at most 40 iterations. -/
def visibleObjectAddresses (s : Cpu) : List Nat := collectVisibleObjects s 40 0 []

/-- The locals that the second loop of `transferPixelLine_objects` computes for one object
before it walks the object's pixels. -/
structure ObjectRow where
  objectX : Nat
  colorPaletteNumber : Nat
  OBP : Nat
  horizontalFlip : Bool
  backgroundPriority : Bool
  byte0 : Nat
  byte1 : Nat

/-- The body of the second loop of `transferPixelLine_objects` down to the reads of the two
bytes of character data. -/
def objectRow (s : Cpu) (objectAddress : Nat) : ObjectRow :=
  let objectY := u8 ((s.m_memory.read objectAddress : Int) - 16)
  let objectX := u8 ((s.m_memory.read ((objectAddress + 1) % 65536) : Int) - 8)
  let characterCode := s.m_memory.read ((objectAddress + 2) % 65536)
  let objectAttributes := s.m_memory.read ((objectAddress + 3) % 65536)
  let characterCode := if objectHeight s = 16 then characterCode &&& 0xFE else characterCode
  let colorPaletteNumber := objectAttributes &&& 0x07
  let characterDataBankNumber := (objectAttributes &&& 0x08) >>> 3
  let OBP := if objectAttributes &&& 0x10 ≠ 0 then s.m_memory.OBP1 else s.m_memory.OBP0
  let horizontalFlip := objectAttributes &&& 0x20 ≠ 0
  let verticalFlip := objectAttributes &&& 0x40 ≠ 0
  let backgroundPriority := objectAttributes &&& 0x80 ≠ 0
  let y_object :=
    if verticalFlip then
      u8 ((objectHeight s : Int) - 1 - (s.m_memory.LY : Int) + (objectY : Int))
    else u8 ((s.m_memory.LY : Int) - (objectY : Int))
  let characterDataAddress := (0x8000 + characterCode * CHARACTER_DATA_SIZE) % 65536
  let byte0 := s.m_memory.readDisplayRam ((characterDataAddress + y_object * 2) % 65536)
    characterDataBankNumber
  let byte1 := s.m_memory.readDisplayRam ((characterDataAddress + y_object * 2 + 1) % 65536)
    characterDataBankNumber
  { objectX := objectX
    colorPaletteNumber := colorPaletteNumber
    OBP := OBP
    horizontalFlip := decide horizontalFlip
    backgroundPriority := decide backgroundPriority
    byte0 := byte0
    byte1 := byte1 }

/-- The body of the innermost loop of `transferPixelLine_objects`, as a function from the
pixel found in the frame buffer to the pixel left there. -/
def objectPixel (s : Cpu) (row : ObjectRow) (x_object : Nat) (old : Pixel) : Pixel :=
  if (!row.backgroundPriority && !old.backgroundPriority) || old.backgroundValue == 0 then
    let bitNumber := if row.horizontalFlip then x_object else 7 - x_object
    let bit0 := (row.byte0 >>> bitNumber) &&& 1
    let bit1 := (row.byte1 >>> bitNumber) &&& 1
    let pixel := (bit1 <<< 1) ||| bit0
    if pixel ≠ 0 then
      { old with
        dmgColor := (row.OBP >>> (pixel * 2)) &&& 0x03
        cgbColor := (s.m_displayController.m_objColorPalettes row.colorPaletteNumber).color
          pixel }
    else old
  else old

/-- The innermost loop of `transferPixelLine_objects` from the pair `x_screen`, `x_object` on,
with `count` iterations allowed. -/
def drawObjectLoop (s : Cpu) (row : ObjectRow) : Nat → Nat → Nat → FrameBuffer → FrameBuffer
  | 0, _, _, frameBuffer => frameBuffer
  | count + 1, x_screen, x_object, frameBuffer =>
    if x_screen < SCREEN_WIDTH ∧ x_object < 8 then
      let pixelOffset := s.m_memory.LY * SCREEN_WIDTH + x_screen
      drawObjectLoop s row count ((x_screen + 1) % 256) ((x_object + 1) % 256)
        (frameBuffer.store pixelOffset
          (objectPixel s row x_object (frameBuffer.pixel pixelOffset)))
    else frameBuffer

/-- The initial value of `x_screen` in the innermost loop. -/
def ObjectRow.firstScreenX (row : ObjectRow) : Nat :=
  if row.objectX < SCREEN_WIDTH then row.objectX else 0

/-- The initial value of `x_object` in the innermost loop. -/
def ObjectRow.firstObjectX (row : ObjectRow) : Nat :=
  if row.objectX < SCREEN_WIDTH then 0 else u8 (-(row.objectX : Int))

/-- The body of the second loop of `transferPixelLine_objects`: one object drawn; the
innermost loop leaves after at most 8 iterations. -/
def drawObject (s : Cpu) (frameBuffer : FrameBuffer) (objectAddress : Nat) : FrameBuffer :=
  let row := objectRow s objectAddress
  drawObjectLoop s row 8 row.firstScreenX row.firstObjectX frameBuffer

/-- `DisplayController::transferPixelLine_objects`. -/
def transferPixelLine_objects (s : Cpu) (frameBuffer : FrameBuffer) : FrameBuffer :=
  (visibleObjectAddresses s).foldl (drawObject s) frameBuffer

/-- The Y range of the object numbered `objectNumber` contains the current line, in the words
of the specification: `Y - 16 ≤ LY < Y - 16 + height`, with `Y` the first byte of the OAM
entry. -/
def specOnLine (s : Cpu) (objectNumber : Nat) : Prop :=
  (s.m_memory.read (0xFE00 + 4 * objectNumber) : Int) - 16 ≤ (s.m_memory.LY : Int) ∧
    (s.m_memory.LY : Int) <
      (s.m_memory.read (0xFE00 + 4 * objectNumber) : Int) - 16 + (objectHeight s : Int)

instance (s : Cpu) (objectNumber : Nat) : Decidable (specOnLine s objectNumber) := by
  unfold specOnLine
  exact inferInstance

/-- The objects drawn on the current line, in the words of the specification: the (at most
ten) lowest-numbered OAM entries whose Y range contains the line, in increasing order. -/
def specDrawnObjects (s : Cpu) : List Nat :=
  ((List.range 40).filter (fun objectNumber => decide (specOnLine s objectNumber))).take 10

/-- What the object numbered `objectNumber` shows at the screen column `x` over the pixel
`old`: nothing when the object does not cover the column, is transparent there, or is held
back by the background, and otherwise the pixel with the object's two colours. -/
def specObjectShows (s : Cpu) (objectNumber x : Nat) (old : Pixel) : Option Pixel :=
  let row := objectRow s (0xFE00 + 4 * objectNumber)
  if row.firstScreenX ≤ x ∧ x < SCREEN_WIDTH ∧ row.firstObjectX + (x - row.firstScreenX) < 8 then
    let x_object := row.firstObjectX + (x - row.firstScreenX)
    let bitNumber := if row.horizontalFlip then x_object else 7 - x_object
    let pixel := (((row.byte1 >>> bitNumber) &&& 1) <<< 1) ||| ((row.byte0 >>> bitNumber) &&& 1)
    if ((!row.backgroundPriority && !old.backgroundPriority) || old.backgroundValue == 0)
        ∧ pixel ≠ 0 then
      some { old with
        dmgColor := (row.OBP >>> (pixel * 2)) &&& 0x03
        cgbColor := (s.m_displayController.m_objColorPalettes row.colorPaletteNumber).color
          pixel }
    else none
  else none

end DisplayController

/-- A frame buffer as the constructor leaves it. -/
def blankFrameBuffer : FrameBuffer :=
  { pixel := fun _ => { backgroundValue := 0, backgroundPriority := false, dmgColor := 0,
                        cgbColor := { L := 0, H := 0 } } }

/-- The bus actions of a program that sets the background palette, selects bank 1 of display
RAM and stores there an attribute byte (`0x88`: background priority, character data from
bank 1) for the first character of the map and a first row of character data. -/
def bankOneWrites : List BusAction :=
  [BusAction.write 0xFF47 0xE4, BusAction.write 0xFF4F 0x01, BusAction.write 0x9800 0x88,
   BusAction.write 0x8000 0xFF]

/-- The machine of a cartridge without colour support (header byte `0x0143` is zero) after
`bankOneWrites`. -/
def bankOneState : Cpu :=
  Cpu.busSteps bankOneWrites (Cpu.init (Memory.defaults (programRom [])))

/-- A machine with eleven objects on line 0: objects 0 to 9 at columns 0 to 7, object 0 with
character 1 (colour 1 throughout its first row) and the others with character 2 (colour 3),
and object 10 at columns 16 to 23 with character 2. -/
def objectLineState : Cpu :=
  Cpu.init { Memory.defaults (programRom []) with
    OBP0 := 0xE4
    m_oam := fun i =>
      if i < 44 then
        if i % 4 = 0 then 16
        else if i % 4 = 1 then (if i / 4 = 10 then 24 else 8)
        else if i % 4 = 2 then (if i / 4 = 0 then 1 else 2)
        else 0
      else 0
    m_displayRam := fun i => if i = 16 ∨ i = 32 ∨ i = 33 then 0xFF else 0 }

namespace SoundController

/-- The body of the loop `while (stepCounter >= 1)` of `generateSamples_channel4`, as a function
from `NR43` and the old `m_channel4.lfsr` to the new one. -/
def lfsrStep (NR43 lfsr : Nat) : Nat :=
  let bit0 := lfsr &&& 1
  let lfsr := lfsr >>> 1
  let bit1 := lfsr &&& 1
  let result := bit1 ^^^ bit0
  let lfsr := (lfsr ||| (result <<< 14)) % 65536
  if NR43 &&& 0x08 ≠ 0 then ((result <<< 6) ||| (lfsr &&& 0xFFBF)) % 65536
  else lfsr

/-- The steps of the LFSR for a list of `NR43` values, one step for each, first to last. -/
def lfsrRun : List Nat → Nat → Nat
  | [], lfsr => lfsr
  | NR43 :: rest, lfsr => lfsrRun rest (lfsrStep NR43 lfsr)

/-- Two steps in the 15-bit width, six in the 7-bit width, eight in the 15-bit width and one in
the 7-bit width, as values of `NR43`. -/
def lfsrLockUpWidths : List Nat :=
  [0x00, 0x00, 0x08, 0x08, 0x08, 0x08, 0x08, 0x08, 0x00, 0x00, 0x00, 0x00, 0x00, 0x00, 0x00,
   0x00, 0x08]

/-- The values that one iteration of a sample loop obtains through floating-point arithmetic
(`time`, the phase accumulators and the `static` step counter of channel 4).  The model takes
them as given, one record per sample of the stream. -/
structure SampleFloats where
  /-- The outcome of `time >= soundLength`. -/
  lengthExpired : Bool
  /-- The value of `(u32)(time / sweepTime)`. -/
  sweepSteps : Nat
  /-- The value of `(u32)(sampleCounter * waveStepsPerSample + waveStepCountOffset)`. -/
  waveStepCount : Nat
  /-- The value of `(u32)(envelopeStepFrequency * time)`. -/
  envelopeStepCount : Nat
  /-- The number of iterations of `while (stepCounter >= 1)`. -/
  lfsrSteps : Nat

/-- `getRectangleWaveform`. -/
def getRectangleWaveform (dutyCycle : Nat) : List Nat :=
  if dutyCycle = 0 then [1, 0, 0, 0, 0, 0, 0, 0]
  else if dutyCycle = 1 then [1, 1, 0, 0, 0, 0, 0, 0]
  else if dutyCycle = 2 then [1, 1, 1, 1, 0, 0, 0, 0]
  else if dutyCycle = 3 then [1, 1, 1, 1, 1, 1, 0, 0]
  else [0, 0, 0, 0, 0, 0, 0, 0]

/-- `getEnvelope`. -/
def getEnvelope (envelopeRegister : Nat) : List Nat :=
  let defaultEnvelopeValue := envelopeRegister >>> 4
  if envelopeRegister &&& 0x07 ≠ 0 then
    if envelopeRegister &&& 0x08 ≠ 0 then List.range (defaultEnvelopeValue + 1)
    else (List.range (defaultEnvelopeValue + 1)).map (fun i => defaultEnvelopeValue - i)
  else List.replicate (defaultEnvelopeValue + 1) defaultEnvelopeValue

/-- The local `step` of the rectangle and noise channels:
`(envelopeStepCount < envelope.size()) ? envelope[envelopeStepCount] : envelope.back()`. -/
def envelopeStep (envelope : List Nat) (envelopeStepCount : Nat) : Nat :=
  envelope.getD envelopeStepCount (envelope.getLastD 0)

/-- The two statements `stream[streamSampleCounter] += step / m_levelDivisor_so…`, guarded by
the bits `so1Bit` and `so2Bit` of `NR51`. -/
def addToStream (s : Cpu) (levelDivisor_so1 levelDivisor_so2 so1Bit so2Bit step
    streamSampleCounter : Nat) (stream : Nat → Nat) : Nat → Nat :=
  let stream :=
    if s.m_memory.NR51 &&& so1Bit ≠ 0 then
      store stream streamSampleCounter
        ((stream streamSampleCounter + step / levelDivisor_so1) % 256)
    else stream
  if s.m_memory.NR51 &&& so2Bit ≠ 0 then
    store stream streamSampleCounter
      ((stream streamSampleCounter + step / levelDivisor_so2) % 256)
  else stream

/-- One sweep calculation of channel 1: `x -= (x >> sweepShiftCount)` or
`x += (x >> sweepShiftCount)` on the `u16` local `x`. -/
def sweepCalculation (NR10 x : Nat) : Nat :=
  if NR10 &&& 0x08 ≠ 0 then x - (x >>> (NR10 &&& 0x07))
  else (x + (x >>> (NR10 &&& 0x07))) % 65536

/-- The loop of `generateSamples_channel1` from the sample `streamSampleCounter` on, with
`count` samples left. -/
def generateSamples_channel1Loop (floats : Nat → SampleFloats)
    (levelDivisor_so1 levelDivisor_so2 : Nat) (envelope waveform : List Nat) :
    Nat → Nat → Cpu → (Nat → Nat) → Cpu × (Nat → Nat)
  | 0, _, s, stream => (s, stream)
  | count + 1, streamSampleCounter, s, stream =>
    let f := floats streamSampleCounter
    if s.m_memory.NR14 &&& 0x40 ≠ 0 ∧ f.lengthExpired = true then
      ({ s with m_memory := { s.m_memory with NR52 := s.m_memory.NR52 &&& 0xFE } }, stream)
    else
      let sweepShiftCount := s.m_memory.NR10 &&& 0x07
      let t := if f.sweepSteps > sweepShiftCount then sweepShiftCount else f.sweepSteps
      let rest := fun (s : Cpu) =>
        let stream :=
          if waveform.getD (f.waveStepCount % 8) 0 ≠ 0 then
            addToStream s levelDivisor_so1 levelDivisor_so2 0x01 0x10
              (envelopeStep envelope f.envelopeStepCount) streamSampleCounter stream
          else stream
        generateSamples_channel1Loop floats levelDivisor_so1 levelDivisor_so2 envelope waveform
          count (streamSampleCounter + 1)
          { s with m_soundController := { s.m_soundController with
              m_channel1_sampleCounter :=
                (s.m_soundController.m_channel1_sampleCounter + 1) % 4294967296 } }
          stream
      if (s.m_memory.NR10 &&& 0x70) >>> 4 ≠ 0 ∧
          t ≠ s.m_soundController.m_channel1_sweepShiftCounter then
        let s := { s with m_soundController := { s.m_soundController with
          m_channel1_sweepShiftCounter := t % 256 } }
        let x := sweepCalculation s.m_memory.NR10 s.m_soundController.m_channel1_xShadowRegister
        if x > 2047 then
          ({ s with m_memory := { s.m_memory with NR52 := s.m_memory.NR52 &&& 0xFE } }, stream)
        else
          let s := { s with m_soundController := { s.m_soundController with
            m_channel1_xShadowRegister := x } }
          let s := { s with m_memory := { s.m_memory with NR13 := x &&& 0xFF } }
          let s := { s with m_memory := { s.m_memory with
            NR14 := ((s.m_memory.NR14 &&& 0xF8) ||| (x >>> 8)) % 256 } }
          let x := sweepCalculation s.m_memory.NR10 x
          if x > 2047 then
            ({ s with m_memory := { s.m_memory with NR52 := s.m_memory.NR52 &&& 0xFE } }, stream)
          else
            rest { s with m_soundController := { s.m_soundController with
              m_channel1_sampleCounter := 0 } }
      else rest s

/-- `SoundController::generateSamples_channel1`, for a stream of `streamLength` samples. -/
def generateSamples_channel1 (floats : Nat → SampleFloats)
    (levelDivisor_so1 levelDivisor_so2 streamLength : Nat) (s : Cpu) (stream : Nat → Nat) :
    Cpu × (Nat → Nat) :=
  generateSamples_channel1Loop floats levelDivisor_so1 levelDivisor_so2
    (getEnvelope s.m_memory.NR12) (getRectangleWaveform (s.m_memory.NR11 >>> 6))
    streamLength 0 s stream

/-- The loop of `generateSamples_channel2`. -/
def generateSamples_channel2Loop (floats : Nat → SampleFloats)
    (levelDivisor_so1 levelDivisor_so2 : Nat) (envelope waveform : List Nat) :
    Nat → Nat → Cpu → (Nat → Nat) → Cpu × (Nat → Nat)
  | 0, _, s, stream => (s, stream)
  | count + 1, streamSampleCounter, s, stream =>
    let f := floats streamSampleCounter
    if s.m_memory.NR24 &&& 0x40 ≠ 0 ∧ f.lengthExpired = true then
      ({ s with m_memory := { s.m_memory with NR52 := s.m_memory.NR52 &&& 0xFD } }, stream)
    else
      let stream :=
        if waveform.getD (f.waveStepCount % 8) 0 ≠ 0 then
          addToStream s levelDivisor_so1 levelDivisor_so2 0x02 0x20
            (envelopeStep envelope f.envelopeStepCount) streamSampleCounter stream
        else stream
      generateSamples_channel2Loop floats levelDivisor_so1 levelDivisor_so2 envelope waveform
        count (streamSampleCounter + 1)
        { s with m_soundController := { s.m_soundController with
            m_channel2_sampleCounter :=
              (s.m_soundController.m_channel2_sampleCounter + 1) % 4294967296 } }
        stream

/-- `SoundController::generateSamples_channel2`. -/
def generateSamples_channel2 (floats : Nat → SampleFloats)
    (levelDivisor_so1 levelDivisor_so2 streamLength : Nat) (s : Cpu) (stream : Nat → Nat) :
    Cpu × (Nat → Nat) :=
  generateSamples_channel2Loop floats levelDivisor_so1 levelDivisor_so2
    (getEnvelope s.m_memory.NR22) (getRectangleWaveform (s.m_memory.NR21 >>> 6))
    streamLength 0 s stream

/-- The local `levelShift` of `generateSamples_channel3`. -/
def levelShift (NR32 : Nat) : Nat :=
  if NR32 &&& 0x60 = 0x00 then 4
  else if NR32 &&& 0x60 = 0x20 then 0
  else if NR32 &&& 0x60 = 0x40 then 1
  else if NR32 &&& 0x60 = 0x60 then 2
  else 0

/-- The loop of `generateSamples_channel3`. -/
def generateSamples_channel3Loop (floats : Nat → SampleFloats)
    (levelDivisor_so1 levelDivisor_so2 : Nat) :
    Nat → Nat → Cpu → (Nat → Nat) → Cpu × (Nat → Nat)
  | 0, _, s, stream => (s, stream)
  | count + 1, streamSampleCounter, s, stream =>
    let f := floats streamSampleCounter
    if s.m_memory.NR34 &&& 0x40 ≠ 0 ∧ f.lengthExpired = true then
      ({ s with m_memory := { s.m_memory with NR52 := s.m_memory.NR52 &&& 0xFB } }, stream)
    else
      let stepNumber := f.waveStepCount % 32
      let step :=
        if stepNumber % 2 ≠ 0 then s.m_memory.read (0xFF30 + stepNumber / 2) &&& 0x0F
        else s.m_memory.read (0xFF30 + stepNumber / 2) >>> 4
      let step := step >>> levelShift s.m_memory.NR32
      let stream := addToStream s levelDivisor_so1 levelDivisor_so2 0x04 0x40 step
        streamSampleCounter stream
      generateSamples_channel3Loop floats levelDivisor_so1 levelDivisor_so2
        count (streamSampleCounter + 1)
        { s with m_soundController := { s.m_soundController with
            m_channel3_sampleCounter :=
              (s.m_soundController.m_channel3_sampleCounter + 1) % 4294967296 } }
        stream

/-- `SoundController::generateSamples_channel3`. -/
def generateSamples_channel3 (floats : Nat → SampleFloats)
    (levelDivisor_so1 levelDivisor_so2 streamLength : Nat) (s : Cpu) (stream : Nat → Nat) :
    Cpu × (Nat → Nat) :=
  generateSamples_channel3Loop floats levelDivisor_so1 levelDivisor_so2 streamLength 0 s stream

/-- The loop `while (stepCounter >= 1)` run `steps` times on `m_channel4.lfsr`. -/
def lfsrSteps (NR43 : Nat) : Nat → Nat → Nat
  | 0, lfsr => lfsr
  | steps + 1, lfsr => lfsrSteps NR43 steps (lfsrStep NR43 lfsr)

/-- The loop of `generateSamples_channel4`. -/
def generateSamples_channel4Loop (floats : Nat → SampleFloats)
    (levelDivisor_so1 levelDivisor_so2 : Nat) (envelope : List Nat) :
    Nat → Nat → Cpu → (Nat → Nat) → Cpu × (Nat → Nat)
  | 0, _, s, stream => (s, stream)
  | count + 1, streamSampleCounter, s, stream =>
    let f := floats streamSampleCounter
    if s.m_memory.NR44 &&& 0x40 ≠ 0 ∧ f.lengthExpired = true then
      ({ s with m_memory := { s.m_memory with NR52 := s.m_memory.NR52 &&& 0xF7 } }, stream)
    else
      let s := { s with m_soundController := { s.m_soundController with
        m_channel4_lfsr :=
          lfsrSteps s.m_memory.NR43 f.lfsrSteps s.m_soundController.m_channel4_lfsr } }
      let stream :=
        if s.m_soundController.m_channel4_lfsr &&& 1 ≠ 0 then
          addToStream s levelDivisor_so1 levelDivisor_so2 0x08 0x80
            (envelopeStep envelope f.envelopeStepCount) streamSampleCounter stream
        else stream
      generateSamples_channel4Loop floats levelDivisor_so1 levelDivisor_so2 envelope
        count (streamSampleCounter + 1)
        { s with m_soundController := { s.m_soundController with
            m_channel4_sampleCounter :=
              (s.m_soundController.m_channel4_sampleCounter + 1) % 4294967296 } }
        stream

/-- `SoundController::generateSamples_channel4`. -/
def generateSamples_channel4 (floats : Nat → SampleFloats)
    (levelDivisor_so1 levelDivisor_so2 streamLength : Nat) (s : Cpu) (stream : Nat → Nat) :
    Cpu × (Nat → Nat) :=
  generateSamples_channel4Loop floats levelDivisor_so1 levelDivisor_so2
    (getEnvelope s.m_memory.NR42) streamLength 0 s stream

/-- The part of `generateSamples` after the call of channel 1: the calls of channels 2, 3
and 4 under their conditions. -/
def generateSamples_afterChannel1 (floats2 floats3 floats4 : Nat → SampleFloats)
    (levelDivisor_so1 levelDivisor_so2 streamLength : Nat) (p : Cpu × (Nat → Nat)) :
    Cpu × (Nat → Nat) :=
  let p :=
    if (p.1.m_memory.NR22 >>> 4 ≠ 0 ∨ p.1.m_memory.NR22 &&& 0x08 ≠ 0) ∧
        p.1.m_memory.NR52 &&& 0x02 ≠ 0 then
      generateSamples_channel2 floats2 levelDivisor_so1 levelDivisor_so2 streamLength p.1 p.2
    else p
  let p :=
    if p.1.m_memory.NR30 &&& 0x80 ≠ 0 ∧ p.1.m_memory.NR52 &&& 0x04 ≠ 0 then
      generateSamples_channel3 floats3 levelDivisor_so1 levelDivisor_so2 streamLength p.1 p.2
    else p
  if (p.1.m_memory.NR42 >>> 4 ≠ 0 ∨ p.1.m_memory.NR42 &&& 0x08 ≠ 0) ∧
      p.1.m_memory.NR52 &&& 0x08 ≠ 0 then
    generateSamples_channel4 floats4 levelDivisor_so1 levelDivisor_so2 streamLength p.1 p.2
  else p

/-- `SoundController::generateSamples`, the audio callback, for a stream of `streamLength`
samples (512 in the audio specification asked for by the constructor), with the floating-point
values of the four sample loops as given. -/
def generateSamples (floats1 floats2 floats3 floats4 : Nat → SampleFloats) (streamLength : Nat)
    (s : Cpu) (stream : Nat → Nat) : Cpu × (Nat → Nat) :=
  let stream := fun i => if i < streamLength then 0 else stream i
  if s.m_memory.NR52 &&& 0x80 = 0 then (s, stream)
  else
    let levelDivisor_so1 := 8 - (s.m_memory.NR50 &&& 0x07)
    let levelDivisor_so2 := 8 - ((s.m_memory.NR50 >>> 4) &&& 0x07)
    let p :=
      if (s.m_memory.NR12 >>> 4 ≠ 0 ∨ s.m_memory.NR12 &&& 0x08 ≠ 0) ∧
          s.m_memory.NR52 &&& 0x01 ≠ 0 then
        generateSamples_channel1 floats1 levelDivisor_so1 levelDivisor_so2 streamLength s stream
      else (s, stream)
    generateSamples_afterChannel1 floats2 floats3 floats4 levelDivisor_so1 levelDivisor_so2
      streamLength p

end SoundController

/-- What moves the machine between two states as far as the sound registers go: an action of
the CPU on the bus, or a call of the audio callback for a stream of `streamLength` samples
with the given floating-point values. -/
inductive SoundAction where
  | bus (action : BusAction)
  | audio (floats1 floats2 floats3 floats4 : Nat → SoundController.SampleFloats)
      (streamLength : Nat)

/-- The action is a CPU write to `NR14` with bit 7 set, the restart of channel 1. -/
def SoundAction.restartsChannel1 : SoundAction → Prop
  | SoundAction.bus (BusAction.write address value) =>
      address = Memory.NR14_ADDRESS ∧ value &&& 0x80 ≠ 0
  | _ => False

namespace Cpu

/-- The state after one sound action; the stream handed to the callback has no part in it. -/
def soundStep : SoundAction → Cpu → Cpu
  | SoundAction.bus action, s => busStep action s
  | SoundAction.audio floats1 floats2 floats3 floats4 streamLength, s =>
      (SoundController.generateSamples floats1 floats2 floats3 floats4 streamLength s
        (fun _ => 0)).1

/-- A run of sound actions, first to last. -/
def soundSteps : List SoundAction → Cpu → Cpu
  | [], s => s
  | action :: rest, s => soundSteps rest (soundStep action s)

end Cpu

/-- A machine with the sound circuit on, channel 1 running with an increasing sweep of shift 1
and its shadow frequency at `0x7FF`, so that the next sweep calculation gives `0xBFE`. -/
def sweepOverflowState : Cpu :=
  { Cpu.init { Memory.defaults (programRom []) with
      NR10 := 0x11, NR11 := 0x80, NR12 := 0xF0, NR13 := 0xFF, NR14 := 0x07, NR50 := 0x77,
      NR51 := 0x11, NR52 := 0x81 } with
    m_soundController := { (Cpu.init (Memory.defaults (programRom []))).m_soundController with
      m_channel1_xShadowRegister := 0x7FF } }

/-- Floating-point values under which the sweep of channel 1 is due at every sample and the
waveform is high. -/
def sweepDueFloats : Nat → SoundController.SampleFloats :=
  fun _ => { lengthExpired := false, sweepSteps := 1, waveStepCount := 0,
             envelopeStepCount := 0, lfsrSteps := 0 }


namespace Cpu

/-- The number of calls of the cycle routine `Cpu::doCycle` made on the way from state `s` to
state `t`, read off the `static` counter of `incrementDIV`: every call adds one to it and it
restarts from 0 on reaching 128, so the difference modulo 128 is the number of calls whenever
fewer than 128 were made. -/
def cyclesBetween (s t : Cpu) : Nat :=
  (t.incrementDIV_cycleCounter + 128 - s.incrementDIV_cycleCounter) % 128

/-- The operand table of the prefixed opcodes in the words of the specification: entry `i` of
(`B`, `C`, `D`, `E`, `H`, `L`, `(HL)`, `A`) is read; for `(HL)` the byte is read from memory
at `HL`. -/
def specOperandRead (i : Nat) (s : Cpu) : Nat × Cpu :=
  if i = 0 then (s.m_registers.B, s)
  else if i = 1 then (s.m_registers.C, s)
  else if i = 2 then (s.m_registers.D, s)
  else if i = 3 then (s.m_registers.E, s)
  else if i = 4 then (s.m_registers.H, s)
  else if i = 5 then (s.m_registers.L, s)
  else if i = 6 then readMemory_u8 s.m_registers.HL s
  else (s.m_registers.A, s)

/-- The operand table of the prefixed opcodes in the words of the specification: the result
goes to entry `i` of (`B`, `C`, `D`, `E`, `H`, `L`, `(HL)`, `A`); for `(HL)` it is written to
memory at `HL`. -/
def specOperandWrite (i : Nat) (value : Nat) (s : Cpu) : Cpu :=
  if i = 0 then { s with m_registers := { s.m_registers with B := value } }
  else if i = 1 then { s with m_registers := { s.m_registers with C := value } }
  else if i = 2 then { s with m_registers := { s.m_registers with D := value } }
  else if i = 3 then { s with m_registers := { s.m_registers with E := value } }
  else if i = 4 then { s with m_registers := { s.m_registers with H := value } }
  else if i = 5 then { s with m_registers := { s.m_registers with L := value } }
  else if i = 6 then writeToMemory s.m_registers.HL value s
  else { s with m_registers := { s.m_registers with A := value } }

/-- The operation table of the prefixed opcodes below `0x40` in the words of the
specification: entry `j` of (RLC, RRC, RL, RR, SLA, SRA, SWAP, SRL). -/
def specShiftOperation (j : Nat) : Nat → Registers → Nat × Registers :=
  if j = 0 then rlc
  else if j = 1 then rrc
  else if j = 2 then rl
  else if j = 3 then rr
  else if j = 4 then sla
  else if j = 5 then sra
  else if j = 6 then swap
  else srl

/-- The decode of a prefixed opcode `b` by bit fields, in the words of the specification: the
operand is entry `b & 7`; below `0x40` the operation is entry `(b >> 3) & 7` of the shift
table; otherwise `b >> 6` selects BIT (1), RES (2) or SET (3) on bit `(b >> 3) & 7`; every
operation except BIT writes its result back to the operand. -/
def specExecuteCB (b : Nat) (s : Cpu) : Cpu :=
  let p := specOperandRead (b &&& 7) s
  let value := p.1
  let s := p.2
  if b < 0x40 then
    let q := specShiftOperation ((b >>> 3) &&& 7) value s.m_registers
    specOperandWrite (b &&& 7) q.1 { s with m_registers := q.2 }
  else if b >>> 6 = 1 then { s with m_registers := bit value ((b >>> 3) &&& 7) s.m_registers }
  else if b >>> 6 = 2 then specOperandWrite (b &&& 7) (res value ((b >>> 3) &&& 7)) s
  else specOperandWrite (b &&& 7) (set value ((b >>> 3) &&& 7)) s

end Cpu

end CppGB

/-! ## Accesses inside the arrays

`m_rom`, `m_displayRam` and `m_workRam` are indexed with a bank offset that the program
controls and that the code does not check (`m_externalRam` is checked, and the other arrays
are indexed by an offset inside a fixed address range).  The frame buffer is indexed with
`LY`, also unchecked.  `Memory.read` and `Memory.write` above address the map at whatever
index is computed; the definitions below say when an access stays inside its array, so that
a property of the runs of the program can be stated for the runs in which every access
does. -/

namespace CppGB

namespace Memory

/-- The element `a[i]` of an array of the given length: `none` when `i` is outside it. -/
def checkedAt (a : Nat → Nat) (length i : Nat) : Option Nat :=
  if i < length then some (a i) else none

/-- `Memory::read` with each array access checked against the length of its array: the read
has no value when the index it computes lies outside the array it indexes. -/
def checkedRead (m : Memory) (address : Nat) : Option Nat :=
  if ROM_START_ADDRESS ≤ address ∧ address ≤ ROM_END_ADDRESS then
    if address < ROM_BANK_SIZE then checkedAt m.m_rom.data m.m_rom.size address
    else checkedAt m.m_rom.data m.m_rom.size (m.romIndex address)
  else if DISPLAYRAM_START_ADDRESS ≤ address ∧ address ≤ DISPLAYRAM_END_ADDRESS then
    checkedAt m.m_displayRam displayRamLength
      (address - DISPLAYRAM_START_ADDRESS + m.VBK * DISPLAYRAM_BANK_SIZE)
  else if EXTERNALRAM_START_ADDRESS ≤ address ∧ address ≤ EXTERNALRAM_END_ADDRESS then
    let position := m.externalRamPosition address
    if position < m.m_externalRam.size then some (m.m_externalRam.data position)
    else some 0xFF
  else if WORKRAM_START_ADDRESS ≤ address ∧ address ≤ WORKRAM_END_ADDRESS then
    checkedAt m.m_workRam workRamLength (m.workRamIndex address)
  else if ECHORAM_START_ADDRESS ≤ address ∧ address ≤ ECHORAM_END_ADDRESS then
    checkedAt m.m_workRam workRamLength (m.workRamIndex (address - 0x2000))
  else if OAM_START_ADDRESS ≤ address ∧ address ≤ OAM_END_ADDRESS then
    checkedAt m.m_oam oamLength (address - OAM_START_ADDRESS)
  else if WAVEFORMRAM_START_ADDRESS ≤ address ∧ address ≤ WAVEFORMRAM_END_ADDRESS then
    checkedAt m.m_waveformRam waveformRamLength (address - WAVEFORMRAM_START_ADDRESS)
  else if STACKRAM_START_ADDRESS ≤ address ∧ address ≤ STACKRAM_END_ADDRESS then
    checkedAt m.m_stackRam stackRamLength (address - STACKRAM_START_ADDRESS)
  else some (m.readRegister address)

/-- The bank registers keep every index of `Memory::read` inside its array: the work-RAM
bank is at most 7, the display-RAM bank at most 1, and the ROM image holds the selected ROM
bank (and with it the fixed bank). -/
def banksInBounds (m : Memory) : Prop :=
  m.SVBK ≤ 7 ∧ m.VBK ≤ 1 ∧ (m.m_romBankNumber + 1) * ROM_BANK_SIZE ≤ m.m_rom.size

instance (m : Memory) : Decidable m.banksInBounds := by
  unfold banksInBounds
  infer_instance

/-- The memory with other contents in `m_rom`, `m_displayRam` and `m_workRam`. -/
def setArrays (rom : ByteVector) (displayRam workRam : Nat → Nat) (m : Memory) : Memory :=
  { m with m_rom := rom, m_displayRam := displayRam, m_workRam := workRam }

/-- The array `a` of the given length with `g i` in every cell `i` past its end. -/
def pastEnd (a : Nat → Nat) (length : Nat) (g : Nat → Nat) : Nat → Nat :=
  fun i => if i < length then a i else g i

/-- The memory with the cells past the end of `m_rom`, `m_displayRam` and `m_workRam`
replaced: cell `i` past the ROM image holds `r i`, past display RAM `d i` and past work RAM
`w i`.  The elements of the three arrays are as they were. -/
def withOutOfBounds (r d w : Nat → Nat) (m : Memory) : Memory :=
  m.setArrays { size := m.m_rom.size, data := pastEnd m.m_rom.data m.m_rom.size r }
    (pastEnd m.m_displayRam displayRamLength d) (pastEnd m.m_workRam workRamLength w)

end Memory

namespace DisplayController

/-- The line that `transferPixelLine` stores lies inside the frame buffer of 144 lines: `LY`
is below 144 while the pipeline is in OAMSEARCH, the mode at whose end line `LY` is stored,
or in PIXELTRANSFER, the mode that follows.  The mode bits change only in the pipeline and
when the LCD is switched off (a write to `STAT` keeps them), the pipeline enters OAMSEARCH
with `LY` below 144, and in these two modes `LY` changes only by a store to `0xFF44`; a
step stores to at most two neighbouring addresses, so none stores to both `0xFF44` and
`LCDC`, and a line stored between two states that both have this property is below 144. -/
def lineInBounds (s : Cpu) : Prop :=
  s.m_memory.STAT &&& 0x03 = OAMSEARCH_MODE_FLAG ∨
    s.m_memory.STAT &&& 0x03 = PIXELTRANSFER_MODE_FLAG → s.m_memory.LY < 144

instance (s : Cpu) : Decidable (lineInBounds s) := by
  unfold lineInBounds
  infer_instance

end DisplayController

/-- The program `LD A,08; LDH (70),A; LD (D000),A`: it selects work-RAM bank 8 and stores `A`
at `0xD000`. -/
def svbkStoreRom : ByteVector := programRom [0x3E, 0x08, 0xE0, 0x70, 0xEA, 0x00, 0xD0]

namespace Cpu

/-- The machine over `Memory.setArrays`. -/
def setArrays (rom : ByteVector) (displayRam workRam : Nat → Nat) (s : Cpu) : Cpu :=
  { s with m_memory := s.m_memory.setArrays rom displayRam workRam }

/-- The machine over `Memory.withOutOfBounds`. -/
def withOutOfBounds (r d w : Nat → Nat) (s : Cpu) : Cpu :=
  { s with m_memory := s.m_memory.withOutOfBounds r d w }

/-- The step stays inside `m_rom`, `m_displayRam` and `m_workRam` at `s`: whatever the cells
past the end of the three arrays hold, the step gives the same state and leaves those cells
as they were.  A step that stores a value of its own past the end of an array, or whose
result depends on what lies there, is not of this kind. -/
def staysInBounds (step : Cpu → Cpu) (s : Cpu) : Prop :=
  ∀ r d w : Nat → Nat, step (s.withOutOfBounds r d w) = (step s).withOutOfBounds r d w

/-- The instruction at `s`, which gives `t`, stays inside the arrays: as `staysInBounds`, for
`executeNextInstruction`. -/
def executesInBounds (s t : Cpu) : Prop :=
  ∀ r d w : Nat → Nat,
    executeNextInstruction (s.withOutOfBounds r d w) = Except.ok (t.withOutOfBounds r d w)

/-- The states reachable from a freshly constructed CPU by the steps of the main loop, which
are the keyboard update of `P1`, the interrupt dispatch, an executed instruction and a cycle
spent halted, in the runs that stay inside the arrays: every step that accesses memory stays
inside `m_rom`, `m_displayRam` and `m_workRam`, and every state keeps the stored line inside
the frame buffer. -/
inductive ReachableInBounds : Cpu → Prop where
  | init (memory : Memory) (hl : DisplayController.lineInBounds (Cpu.init memory)) :
      ReachableInBounds (Cpu.init memory)
  | keys {s : Cpu} (keyboardState : KeyboardState) (h : ReachableInBounds s) :
      ReachableInBounds { s with m_memory := { s.m_memory with
        P1 := EventHandler.updateP1 keyboardState s.m_memory.P1 } }
  | interrupts {s : Cpu} (h : ReachableInBounds s) (hb : staysInBounds handleInterrupts s)
      (hl : DisplayController.lineInBounds (handleInterrupts s)) :
      ReachableInBounds (handleInterrupts s)
  | instruction {s t : Cpu} (h : ReachableInBounds s)
      (hs : executeNextInstruction s = Except.ok t) (hb : executesInBounds s t)
      (hl : DisplayController.lineInBounds t) : ReachableInBounds t
  | halted {s : Cpu} (h : ReachableInBounds s) (hb : staysInBounds (doCycle 1) s)
      (hl : DisplayController.lineInBounds (doCycle 1 s)) : ReachableInBounds (doCycle 1 s)

/-- The states of `PipelineReachable` in the runs that stay inside the arrays: every tick,
clock cycle and write stays inside `m_rom`, `m_displayRam` and `m_workRam`, and every state
keeps the stored line inside the frame buffer. -/
inductive PipelineReachableInBounds : Cpu → Prop where
  | init (memory : Memory) (hl : DisplayController.lineInBounds (Cpu.init memory)) :
      PipelineReachableInBounds (Cpu.init memory)
  | tick {s : Cpu} (h : PipelineReachableInBounds s)
      (hb : staysInBounds DisplayController.doCycle s)
      (hl : DisplayController.lineInBounds (DisplayController.doCycle s)) :
      PipelineReachableInBounds (DisplayController.doCycle s)
  | cycle {s : Cpu} (h : PipelineReachableInBounds s) (hb : staysInBounds doCycleStep s)
      (hl : DisplayController.lineInBounds (doCycleStep s)) :
      PipelineReachableInBounds (doCycleStep s)
  | write {s : Cpu} (address value : Nat) (h : PipelineReachableInBounds s)
      (hb : staysInBounds (writeToMemory address value) s)
      (hl : DisplayController.lineInBounds (writeToMemory address value s)) :
      PipelineReachableInBounds (writeToMemory address value s)

/-- The machine after the write of 8 to `SVBK` on a fresh machine. -/
def svbkEightState : Cpu := writeToMemory 0xFF70 8 (Cpu.init (Memory.defaults (programRom [])))

/-- The machine after `LD A,08; LDH (70),A` of `svbkRom`, about to execute `LD A,(D000)`. -/
def svbkLoadedState : Cpu :=
  match run (List.replicate 2 noKeys) (Cpu.init (Memory.defaults svbkRom)) with
  | Except.ok s => s
  | Except.error _ => Cpu.init (Memory.defaults svbkRom)

/-- The machine after `LD A,08; LDH (70),A` of `svbkStoreRom`, about to execute
`LD (D000),A`. -/
def svbkStoreState : Cpu :=
  match run (List.replicate 2 noKeys) (Cpu.init (Memory.defaults svbkStoreRom)) with
  | Except.ok s => s
  | Except.error _ => Cpu.init (Memory.defaults svbkStoreRom)

end Cpu

end CppGB

/-! # Lemmas -/

namespace CppGB

/-! ## Bit-level facts about the flag byte -/

theorem mod_two_cases (x : Nat) : x % 2 = 0 ∨ x % 2 = 1 := by omega

theorem shiftRight_or (a b k : Nat) : (a ||| b) >>> k = (a >>> k) ||| (b >>> k) := by
  apply Nat.eq_of_testBit_eq
  intro i
  simp [Nat.testBit_shiftRight, Nat.testBit_or]

theorem shiftRight_and (a b k : Nat) : (a &&& b) >>> k = (a >>> k) &&& (b >>> k) := by
  apply Nat.eq_of_testBit_eq
  intro i
  simp [Nat.testBit_shiftRight, Nat.testBit_and]

namespace Flags

@[simp] theorem C_setC (f : Flags) (x : Nat) : (f.setC x).C = x % 2 := by
  simp only [Flags.setC, Flags.C]
  rw [shiftRight_or, shiftRight_and, Nat.and_distrib_right, Nat.and_assoc]
  rcases mod_two_cases x with h | h <;> simp [h]

@[simp] theorem H_setC (f : Flags) (x : Nat) : (f.setC x).H = f.H := by
  simp only [Flags.setC, Flags.H]
  rw [shiftRight_or, shiftRight_and, Nat.and_distrib_right, Nat.and_assoc]
  rcases mod_two_cases x with h | h <;> simp [h]

@[simp] theorem N_setC (f : Flags) (x : Nat) : (f.setC x).N = f.N := by
  simp only [Flags.setC, Flags.N]
  rw [shiftRight_or, shiftRight_and, Nat.and_distrib_right, Nat.and_assoc]
  rcases mod_two_cases x with h | h <;> simp [h]

@[simp] theorem Z_setC (f : Flags) (x : Nat) : (f.setC x).Z = f.Z := by
  simp only [Flags.setC, Flags.Z]
  rw [shiftRight_or, shiftRight_and, Nat.and_distrib_right, Nat.and_assoc]
  rcases mod_two_cases x with h | h <;> simp [h]

@[simp] theorem low_setC (f : Flags) (x : Nat) :
    (f.setC x).byte &&& 0x0F = f.byte &&& 0x0F := by
  simp only [Flags.setC]
  rw [Nat.and_distrib_right, Nat.and_assoc]
  have h1 : (239 &&& 15 : Nat) = 15 := by decide
  have h2 : (16 &&& 15 : Nat) = 0 := by decide
  rcases mod_two_cases x with h | h <;> simp [h, h1, h2]

@[simp] theorem C_setH (f : Flags) (x : Nat) : (f.setH x).C = f.C := by
  simp only [Flags.setH, Flags.C]
  rw [shiftRight_or, shiftRight_and, Nat.and_distrib_right, Nat.and_assoc]
  rcases mod_two_cases x with h | h <;> simp [h]

@[simp] theorem H_setH (f : Flags) (x : Nat) : (f.setH x).H = x % 2 := by
  simp only [Flags.setH, Flags.H]
  rw [shiftRight_or, shiftRight_and, Nat.and_distrib_right, Nat.and_assoc]
  rcases mod_two_cases x with h | h <;> simp [h]

@[simp] theorem N_setH (f : Flags) (x : Nat) : (f.setH x).N = f.N := by
  simp only [Flags.setH, Flags.N]
  rw [shiftRight_or, shiftRight_and, Nat.and_distrib_right, Nat.and_assoc]
  rcases mod_two_cases x with h | h <;> simp [h]

@[simp] theorem Z_setH (f : Flags) (x : Nat) : (f.setH x).Z = f.Z := by
  simp only [Flags.setH, Flags.Z]
  rw [shiftRight_or, shiftRight_and, Nat.and_distrib_right, Nat.and_assoc]
  rcases mod_two_cases x with h | h <;> simp [h]

@[simp] theorem low_setH (f : Flags) (x : Nat) :
    (f.setH x).byte &&& 0x0F = f.byte &&& 0x0F := by
  simp only [Flags.setH]
  rw [Nat.and_distrib_right, Nat.and_assoc]
  have h1 : (223 &&& 15 : Nat) = 15 := by decide
  have h2 : (32 &&& 15 : Nat) = 0 := by decide
  rcases mod_two_cases x with h | h <;> simp [h, h1, h2]

@[simp] theorem C_setN (f : Flags) (x : Nat) : (f.setN x).C = f.C := by
  simp only [Flags.setN, Flags.C]
  rw [shiftRight_or, shiftRight_and, Nat.and_distrib_right, Nat.and_assoc]
  rcases mod_two_cases x with h | h <;> simp [h]

@[simp] theorem H_setN (f : Flags) (x : Nat) : (f.setN x).H = f.H := by
  simp only [Flags.setN, Flags.H]
  rw [shiftRight_or, shiftRight_and, Nat.and_distrib_right, Nat.and_assoc]
  rcases mod_two_cases x with h | h <;> simp [h]

@[simp] theorem N_setN (f : Flags) (x : Nat) : (f.setN x).N = x % 2 := by
  simp only [Flags.setN, Flags.N]
  rw [shiftRight_or, shiftRight_and, Nat.and_distrib_right, Nat.and_assoc]
  rcases mod_two_cases x with h | h <;> simp [h]

@[simp] theorem Z_setN (f : Flags) (x : Nat) : (f.setN x).Z = f.Z := by
  simp only [Flags.setN, Flags.Z]
  rw [shiftRight_or, shiftRight_and, Nat.and_distrib_right, Nat.and_assoc]
  rcases mod_two_cases x with h | h <;> simp [h]

@[simp] theorem low_setN (f : Flags) (x : Nat) :
    (f.setN x).byte &&& 0x0F = f.byte &&& 0x0F := by
  simp only [Flags.setN]
  rw [Nat.and_distrib_right, Nat.and_assoc]
  have h1 : (191 &&& 15 : Nat) = 15 := by decide
  have h2 : (64 &&& 15 : Nat) = 0 := by decide
  rcases mod_two_cases x with h | h <;> simp [h, h1, h2]

@[simp] theorem C_setZ (f : Flags) (x : Nat) : (f.setZ x).C = f.C := by
  simp only [Flags.setZ, Flags.C]
  rw [shiftRight_or, shiftRight_and, Nat.and_distrib_right, Nat.and_assoc]
  rcases mod_two_cases x with h | h <;> simp [h]

@[simp] theorem H_setZ (f : Flags) (x : Nat) : (f.setZ x).H = f.H := by
  simp only [Flags.setZ, Flags.H]
  rw [shiftRight_or, shiftRight_and, Nat.and_distrib_right, Nat.and_assoc]
  rcases mod_two_cases x with h | h <;> simp [h]

@[simp] theorem N_setZ (f : Flags) (x : Nat) : (f.setZ x).N = f.N := by
  simp only [Flags.setZ, Flags.N]
  rw [shiftRight_or, shiftRight_and, Nat.and_distrib_right, Nat.and_assoc]
  rcases mod_two_cases x with h | h <;> simp [h]

@[simp] theorem Z_setZ (f : Flags) (x : Nat) : (f.setZ x).Z = x % 2 := by
  simp only [Flags.setZ, Flags.Z]
  rw [shiftRight_or, shiftRight_and, Nat.and_distrib_right, Nat.and_assoc]
  rcases mod_two_cases x with h | h <;> simp [h]

@[simp] theorem low_setZ (f : Flags) (x : Nat) :
    (f.setZ x).byte &&& 0x0F = f.byte &&& 0x0F := by
  simp only [Flags.setZ]
  rw [Nat.and_distrib_right, Nat.and_assoc]
  have h1 : (127 &&& 15 : Nat) = 15 := by decide
  have h2 : (128 &&& 15 : Nat) = 0 := by decide
  rcases mod_two_cases x with h | h <;> simp [h, h1, h2]

theorem C_lt_two (f : Flags) : f.C < 2 := by
  simp only [Flags.C, Nat.and_one_is_mod]
  omega

theorem H_lt_two (f : Flags) : f.H < 2 := by
  simp only [Flags.H, Nat.and_one_is_mod]
  omega

theorem N_lt_two (f : Flags) : f.N < 2 := by
  simp only [Flags.N, Nat.and_one_is_mod]
  omega

theorem Z_lt_two (f : Flags) : f.Z < 2 := by
  simp only [Flags.Z, Nat.and_one_is_mod]
  omega

end Flags
end CppGB

namespace CppGB

/-! ## Bytes and 16-bit words -/

theorem and_255 (x : Nat) : x &&& 255 = x % 256 := Nat.and_pow_two_sub_one_eq_mod x 8

theorem shl8_or (h l : Nat) (hl : l < 256) : (h <<< 8) ||| l = 256 * h + l := by
  rw [Nat.shiftLeft_eq, Nat.mul_comm]
  exact (Nat.mul_add_lt_is_or (i := 8) hl h).symm

theorem shr8 (x : Nat) : x >>> 8 = x / 256 := Nat.shiftRight_eq_div_pow x 8

/-- Reassembling a 16-bit word from the two bytes that `push` stores. -/
theorem word_of_bytes (v : Nat) (hv : v < 65536) :
    ((((v >>> 8) % 256) <<< 8) ||| (v &&& 0x00FF)) % 65536 = v := by
  rw [and_255, shl8_or _ _ (Nat.mod_lt _ (by decide)), shr8]
  omega

theorem low_byte_masked (v : Nat) : (v &&& 0xFFF0) % 256 = v &&& 0xF0 := by
  rw [← and_255, Nat.and_assoc]
  rfl

theorem high_byte_masked (v : Nat) (hv : v < 65536) : ((v &&& 0xFFF0) >>> 8) % 256 = v >>> 8 := by
  rw [shiftRight_and, ← and_255, Nat.and_assoc]
  have h : (65520 >>> 8 &&& 255 : Nat) = 255 := by decide
  rw [h, and_255, shr8]
  omega

end CppGB

namespace CppGB

/-! ## What the clock leaves alone -/

namespace Memory

theorem performHdmaTransferLoop_withoutClocked (n : Nat) :
    ∀ (src dst : Nat) (m : Memory),
      (performHdmaTransferLoop n src dst m).1.withoutClocked = m.withoutClocked := by
  induction n with
  | zero => intro src dst m; rfl
  | succ k ih =>
    intro src dst m
    simp only [performHdmaTransferLoop]
    rw [ih]
    rfl

theorem performHdmaTransfer_withoutClocked (m : Memory) (n : Nat) :
    (m.performHdmaTransfer n).withoutClocked = m.withoutClocked := by
  have h := performHdmaTransferLoop_withoutClocked ((16 * (n + 1)) % 65536)
    (((m.HDMA1 <<< 8) ||| (m.HDMA2 &&& 0xF0)) % 65536)
    ((((m.HDMA3 &&& 0x1F) <<< 8) ||| (m.HDMA4 &&& 0xF0)) % 65536) m
  simp only [performHdmaTransfer]
  exact h

end Memory

namespace Cpu

theorem requestInterrupt_clockFrame (flag : Nat) (s : Cpu) :
    (requestInterrupt flag s).clockFrame = s.clockFrame := by
  unfold requestInterrupt
  rfl

end Cpu

namespace DisplayController

theorem updateLY_clockFrame (value : Nat) (s : Cpu) :
    (updateLY value s).clockFrame = s.clockFrame := by
  simp only [updateLY, apply_ite Cpu.clockFrame, Cpu.requestInterrupt_clockFrame]
  exact ite_self _

theorem changeMode_clockFrame (flag : Nat) (s : Cpu) :
    (changeMode flag s).clockFrame = s.clockFrame := by
  unfold changeMode
  rfl

theorem doCycleSwitch_clockFrame (s : Cpu) :
    (doCycleSwitch s).clockFrame = s.clockFrame := by
  simp only [doCycleSwitch, apply_ite Cpu.clockFrame, updateLY_clockFrame,
    changeMode_clockFrame, Cpu.requestInterrupt_clockFrame]
  split_ifs <;> first
    | (simp only [Cpu.clockFrame, changeMode, Memory.performHdmaTransfer_withoutClocked]; rfl)
    | rfl

theorem pipelineCycle_clockFrame (s : Cpu) :
    (DisplayController.doCycle s).clockFrame = s.clockFrame := by
  simp only [DisplayController.doCycle, apply_ite Cpu.clockFrame, doCycleSwitch_clockFrame]
  split_ifs <;> rfl

end DisplayController

namespace Cpu

theorem incrementDIV_clockFrame (s : Cpu) : (incrementDIV s).clockFrame = s.clockFrame := by
  simp only [incrementDIV, apply_ite Cpu.clockFrame]
  exact ite_self _

theorem incrementTIMA_clockFrame (s : Cpu) : (incrementTIMA s).clockFrame = s.clockFrame := by
  simp only [incrementTIMA, apply_ite Cpu.clockFrame, requestInterrupt_clockFrame]
  split_ifs <;> rfl

theorem doCycleStep_clockFrame (s : Cpu) : (doCycleStep s).clockFrame = s.clockFrame := by
  have h : (incrementTIMA (incrementDIV s)).clockFrame = s.clockFrame := by
    rw [incrementTIMA_clockFrame, incrementDIV_clockFrame]
  simp only [doCycleStep]
  generalize incrementTIMA (incrementDIV s) = t at h ⊢
  simp only [apply_ite Cpu.clockFrame, DisplayController.pipelineCycle_clockFrame]
  split_ifs <;> exact h

theorem doCycle_clockFrame (cycleCount : Nat) (s : Cpu) :
    (doCycle cycleCount s).clockFrame = s.clockFrame := by
  induction cycleCount generalizing s with
  | zero => rfl
  | succ n ih => simp only [doCycle, ih, doCycleStep_clockFrame]

@[simp] theorem doCycle_m_registers (cycleCount : Nat) (s : Cpu) :
    (doCycle cycleCount s).m_registers = s.m_registers := by
  have h := congrArg Cpu.m_registers (doCycle_clockFrame cycleCount s)
  exact h

@[simp] theorem doCycle_m_ime (cycleCount : Nat) (s : Cpu) :
    (doCycle cycleCount s).m_ime = s.m_ime := by
  have h := congrArg Cpu.m_ime (doCycle_clockFrame cycleCount s)
  exact h

@[simp] theorem doCycle_m_haltMode (cycleCount : Nat) (s : Cpu) :
    (doCycle cycleCount s).m_haltMode = s.m_haltMode := by
  have h := congrArg Cpu.m_haltMode (doCycle_clockFrame cycleCount s)
  exact h

@[simp] theorem doCycle_m_workRam (cycleCount : Nat) (s : Cpu) :
    (doCycle cycleCount s).m_memory.m_workRam = s.m_memory.m_workRam := by
  have h := congrArg (fun t : Cpu => t.m_memory.m_workRam) (doCycle_clockFrame cycleCount s)
  exact h

@[simp] theorem doCycle_m_stackRam (cycleCount : Nat) (s : Cpu) :
    (doCycle cycleCount s).m_memory.m_stackRam = s.m_memory.m_stackRam := by
  have h := congrArg (fun t : Cpu => t.m_memory.m_stackRam) (doCycle_clockFrame cycleCount s)
  exact h

@[simp] theorem doCycle_SVBK (cycleCount : Nat) (s : Cpu) :
    (doCycle cycleCount s).m_memory.SVBK = s.m_memory.SVBK := by
  have h := congrArg (fun t : Cpu => t.m_memory.SVBK) (doCycle_clockFrame cycleCount s)
  exact h

@[simp] theorem doCycle_TAC (cycleCount : Nat) (s : Cpu) :
    (doCycle cycleCount s).m_memory.TAC = s.m_memory.TAC := by
  have h := congrArg (fun t : Cpu => t.m_memory.TAC) (doCycle_clockFrame cycleCount s)
  exact h

@[simp] theorem doCycle_LCDC (cycleCount : Nat) (s : Cpu) :
    (doCycle cycleCount s).m_memory.LCDC = s.m_memory.LCDC := by
  have h := congrArg (fun t : Cpu => t.m_memory.LCDC) (doCycle_clockFrame cycleCount s)
  exact h

@[simp] theorem doCycle_IE (cycleCount : Nat) (s : Cpu) :
    (doCycle cycleCount s).m_memory.IE = s.m_memory.IE := by
  have h := congrArg (fun t : Cpu => t.m_memory.IE) (doCycle_clockFrame cycleCount s)
  exact h

/-! ## A memory write leaves the CPU core alone -/

theorem core_m_memory (s : Cpu) (m : Memory) : core { s with m_memory := m } = core s := by
  unfold core
  rfl

theorem requestInterrupt_core (flag : Nat) (s : Cpu) :
    (requestInterrupt flag s).core = s.core := by
  unfold requestInterrupt
  rfl

theorem doCycle_core (cycleCount : Nat) (s : Cpu) : (doCycle cycleCount s).core = s.core := by
  simp only [core, doCycle_m_registers, doCycle_m_ime, doCycle_m_haltMode]

end Cpu

namespace DisplayController

theorem changeMode_core (flag : Nat) (s : Cpu) : (changeMode flag s).core = s.core := by
  unfold changeMode
  rfl

theorem writeToLCDC_core (value : Nat) (s : Cpu) : (writeToLCDC value s).core = s.core := by
  simp only [writeToLCDC, apply_ite Cpu.core, changeMode_core, Cpu.core_m_memory, ite_self]

theorem updateBgPaletteColor_core (s : Cpu) : (updateBgPaletteColor s).core = s.core := by
  simp only [updateBgPaletteColor, apply_ite Cpu.core]
  exact ite_self _

theorem updateObjPaletteColor_core (s : Cpu) : (updateObjPaletteColor s).core = s.core := by
  simp only [updateObjPaletteColor, apply_ite Cpu.core]
  exact ite_self _

end DisplayController

namespace SoundController

theorem writeToNR13_core (value : Nat) (s : Cpu) : (writeToNR13 value s).core = s.core := by
  unfold writeToNR13
  rfl

theorem writeToNR14_core (value : Nat) (s : Cpu) : (writeToNR14 value s).core = s.core := by
  simp only [writeToNR14, Cpu.core, apply_ite Cpu.m_registers, apply_ite Cpu.m_ime,
    apply_ite Cpu.m_haltMode, ite_self]

theorem writeToNR23_core (value : Nat) (s : Cpu) : (writeToNR23 value s).core = s.core := by
  unfold writeToNR23
  rfl

theorem writeToNR24_core (value : Nat) (s : Cpu) : (writeToNR24 value s).core = s.core := by
  simp only [writeToNR24, Cpu.core, apply_ite Cpu.m_registers, apply_ite Cpu.m_ime,
    apply_ite Cpu.m_haltMode, ite_self]

theorem writeToNR33_core (value : Nat) (s : Cpu) : (writeToNR33 value s).core = s.core := by
  unfold writeToNR33
  rfl

theorem writeToNR34_core (value : Nat) (s : Cpu) : (writeToNR34 value s).core = s.core := by
  simp only [writeToNR34, Cpu.core, apply_ite Cpu.m_registers, apply_ite Cpu.m_ime,
    apply_ite Cpu.m_haltMode, ite_self]

theorem writeToNR44_core (value : Nat) (s : Cpu) : (writeToNR44 value s).core = s.core := by
  simp only [writeToNR44, apply_ite Cpu.core]
  exact ite_self _

end SoundController

namespace Cpu

theorem writeToMemory_core (address value : Nat) (s : Cpu) :
    (writeToMemory address value s).core = s.core := by
  simp only [writeToMemory, doCycle_core, apply_ite Cpu.core,
    SoundController.writeToNR13_core, SoundController.writeToNR14_core,
    SoundController.writeToNR23_core, SoundController.writeToNR24_core,
    SoundController.writeToNR33_core, SoundController.writeToNR34_core,
    SoundController.writeToNR44_core, DisplayController.writeToLCDC_core,
    DisplayController.updateBgPaletteColor_core, DisplayController.updateObjPaletteColor_core,
    requestInterrupt_core, core_m_memory, ite_self]

@[simp] theorem writeToMemory_m_registers (address value : Nat) (s : Cpu) :
    (writeToMemory address value s).m_registers = s.m_registers := by
  have h := congrArg (fun p : Registers × Bool × Bool => p.1) (writeToMemory_core address value s)
  exact h

@[simp] theorem writeToMemory_m_ime (address value : Nat) (s : Cpu) :
    (writeToMemory address value s).m_ime = s.m_ime := by
  have h := congrArg (fun p : Registers × Bool × Bool => p.2.1) (writeToMemory_core address value s)
  exact h

@[simp] theorem writeToMemory_m_haltMode (address value : Nat) (s : Cpu) :
    (writeToMemory address value s).m_haltMode = s.m_haltMode := by
  have h := congrArg (fun p : Registers × Bool × Bool => p.2.2) (writeToMemory_core address value s)
  exact h

@[simp] theorem readMemory_u8_snd (address : Nat) (s : Cpu) :
    (readMemory_u8 address s).2 = doCycle 1 s := by
  unfold readMemory_u8
  rfl

@[simp] theorem readMemory_u8_m_registers (address : Nat) (s : Cpu) :
    (readMemory_u8 address s).2.m_registers = s.m_registers := by
  simp only [readMemory_u8_snd, doCycle_m_registers]

@[simp] theorem readMemory_u16_m_registers (address : Nat) (s : Cpu) :
    (readMemory_u16 address s).2.m_registers = s.m_registers := by
  simp only [readMemory_u16, readMemory_u8_snd, doCycle_m_registers]

@[simp] theorem fetch_u8_m_registers (s : Cpu) :
    (fetch_u8 s).2.m_registers =
      { s.m_registers with PC := (s.m_registers.PC + 1) % 65536 } := by
  simp only [fetch_u8, readMemory_u8_snd, doCycle_m_registers]

@[simp] theorem fetch_u16_m_registers (s : Cpu) :
    (fetch_u16 s).2.m_registers =
      { s.m_registers with PC := (s.m_registers.PC + 2) % 65536 } := by
  simp only [fetch_u16, readMemory_u16_m_registers]

@[simp] theorem push_m_registers (value : Nat) (s : Cpu) :
    (push value s).m_registers =
      { s.m_registers with SP := u16 ((u16 ((s.m_registers.SP : Int) - 1) : Int) - 1) } := by
  simp only [push, writeToMemory_m_registers, doCycle_m_registers]

@[simp] theorem pop_m_registers (s : Cpu) :
    (pop s).2.m_registers =
      { s.m_registers with SP := ((s.m_registers.SP + 1) % 65536 + 1) % 65536 } := by
  simp only [pop, readMemory_u8_snd, doCycle_m_registers]

end Cpu
end CppGB

namespace CppGB
namespace Cpu

/-! ## The low nibble of `F` through the arithmetic helpers -/

@[simp] theorem add_A_low (value : Nat) (r : Registers) :
    (add_A value r).F.byte &&& 0x0F = r.F.byte &&& 0x0F := by
  simp only [add_A, Flags.low_setC, Flags.low_setH, Flags.low_setN, Flags.low_setZ]

@[simp] theorem adc_low (value : Nat) (r : Registers) :
    (adc value r).F.byte &&& 0x0F = r.F.byte &&& 0x0F := by
  simp only [adc, Flags.low_setC, Flags.low_setH, Flags.low_setN, Flags.low_setZ]

@[simp] theorem cp_low (value : Nat) (r : Registers) :
    (cp value r).F.byte &&& 0x0F = r.F.byte &&& 0x0F := by
  simp only [cp, Flags.low_setC, Flags.low_setH, Flags.low_setN, Flags.low_setZ]

@[simp] theorem sub_low (value : Nat) (r : Registers) :
    (sub value r).F.byte &&& 0x0F = r.F.byte &&& 0x0F := by
  simp only [sub, cp, Flags.low_setC, Flags.low_setH, Flags.low_setN, Flags.low_setZ]

@[simp] theorem sbc_low (value : Nat) (r : Registers) :
    (sbc value r).F.byte &&& 0x0F = r.F.byte &&& 0x0F := by
  simp only [sbc, Flags.low_setC, Flags.low_setH, Flags.low_setN, Flags.low_setZ]

@[simp] theorem and__low (value : Nat) (r : Registers) :
    (and_ value r).F.byte &&& 0x0F = r.F.byte &&& 0x0F := by
  simp only [and_, Flags.low_setC, Flags.low_setH, Flags.low_setN, Flags.low_setZ]

@[simp] theorem or__low (value : Nat) (r : Registers) :
    (or_ value r).F.byte &&& 0x0F = r.F.byte &&& 0x0F := by
  simp only [or_, Flags.low_setC, Flags.low_setH, Flags.low_setN, Flags.low_setZ]

@[simp] theorem xor__low (value : Nat) (r : Registers) :
    (xor_ value r).F.byte &&& 0x0F = r.F.byte &&& 0x0F := by
  simp only [xor_, Flags.low_setC, Flags.low_setH, Flags.low_setN, Flags.low_setZ]

@[simp] theorem inc_low (value : Nat) (r : Registers) :
    (inc value r).2.F.byte &&& 0x0F = r.F.byte &&& 0x0F := by
  simp only [inc, Flags.low_setC, Flags.low_setH, Flags.low_setN, Flags.low_setZ]

@[simp] theorem dec_low (value : Nat) (r : Registers) :
    (dec value r).2.F.byte &&& 0x0F = r.F.byte &&& 0x0F := by
  simp only [dec, Flags.low_setC, Flags.low_setH, Flags.low_setN, Flags.low_setZ]

@[simp] theorem swap_low (value : Nat) (r : Registers) :
    (swap value r).2.F.byte &&& 0x0F = r.F.byte &&& 0x0F := by
  simp only [swap, Flags.low_setC, Flags.low_setH, Flags.low_setN, Flags.low_setZ]

@[simp] theorem rlc_low (value : Nat) (r : Registers) :
    (rlc value r).2.F.byte &&& 0x0F = r.F.byte &&& 0x0F := by
  simp only [rlc, Flags.low_setC, Flags.low_setH, Flags.low_setN, Flags.low_setZ]

@[simp] theorem rl_low (value : Nat) (r : Registers) :
    (rl value r).2.F.byte &&& 0x0F = r.F.byte &&& 0x0F := by
  simp only [rl, Flags.low_setC, Flags.low_setH, Flags.low_setN, Flags.low_setZ]

@[simp] theorem rrc_low (value : Nat) (r : Registers) :
    (rrc value r).2.F.byte &&& 0x0F = r.F.byte &&& 0x0F := by
  simp only [rrc, Flags.low_setC, Flags.low_setH, Flags.low_setN, Flags.low_setZ]

@[simp] theorem rr_low (value : Nat) (r : Registers) :
    (rr value r).2.F.byte &&& 0x0F = r.F.byte &&& 0x0F := by
  simp only [rr, Flags.low_setC, Flags.low_setH, Flags.low_setN, Flags.low_setZ]

@[simp] theorem sla_low (value : Nat) (r : Registers) :
    (sla value r).2.F.byte &&& 0x0F = r.F.byte &&& 0x0F := by
  simp only [sla, Flags.low_setC, Flags.low_setH, Flags.low_setN, Flags.low_setZ]

@[simp] theorem sra_low (value : Nat) (r : Registers) :
    (sra value r).2.F.byte &&& 0x0F = r.F.byte &&& 0x0F := by
  simp only [sra, Flags.low_setC, Flags.low_setH, Flags.low_setN, Flags.low_setZ]

@[simp] theorem srl_low (value : Nat) (r : Registers) :
    (srl value r).2.F.byte &&& 0x0F = r.F.byte &&& 0x0F := by
  simp only [srl, Flags.low_setC, Flags.low_setH, Flags.low_setN, Flags.low_setZ]

@[simp] theorem bit_low (value n : Nat) (r : Registers) :
    (bit value n r).F.byte &&& 0x0F = r.F.byte &&& 0x0F := by
  simp only [bit, Flags.low_setC, Flags.low_setH, Flags.low_setN, Flags.low_setZ]

@[simp] theorem daa_low (r : Registers) : (daa r).F.byte &&& 0x0F = r.F.byte &&& 0x0F := by
  unfold daa
  simp only [Flags.low_setC, Flags.low_setH, Flags.low_setN, Flags.low_setZ]
  split_ifs <;> simp only [Flags.low_setC]

theorem low_ite {c : Prop} [Decidable c] {a b : Cpu} {n : Nat}
    (ha : a.m_registers.F.byte &&& 0x0F = n) (hb : b.m_registers.F.byte &&& 0x0F = n) :
    (if c then a else b).m_registers.F.byte &&& 0x0F = n := by
  split <;> assumption

set_option maxRecDepth 100000 in
theorem executeOpcodeCB_low (opcode : Nat) (s : Cpu) :
    (executeOpcodeCB opcode s).m_registers.F.byte &&& 0x0F = s.m_registers.F.byte &&& 0x0F := by
  unfold executeOpcodeCB
  repeat' (with_reducible apply low_ite)
  all_goals first | rfl | simp only [rlc_low, rrc_low, rl_low, rr_low, sla_low, sra_low, srl_low,
    swap_low, bit_low, readMemory_u8_m_registers, writeToMemory_m_registers]

end Cpu

namespace Registers

@[simp] theorem setBC_F (r : Registers) (v : Nat) : (r.setBC v).F = r.F := rfl
@[simp] theorem setDE_F (r : Registers) (v : Nat) : (r.setDE v).F = r.F := rfl
@[simp] theorem setHL_F (r : Registers) (v : Nat) : (r.setHL v).F = r.F := rfl

theorem setAF_low (r : Registers) (v : Nat) :
    (r.setAF (v &&& 0xFFF0)).F.byte &&& 0x0F = 0 := by
  show (v &&& 0xFFF0) % 256 &&& 0x0F = 0
  have h := Nat.and_pow_two_sub_one_eq_mod (v &&& 0xFFF0) 8
  norm_num at h
  rw [← h, Nat.and_assoc, Nat.and_assoc]
  have h2 : (65520 &&& (255 &&& 15) : Nat) = 0 := by decide
  rw [h2]
  simp

end Registers

namespace Cpu

@[simp] theorem add_HL_low (value : Nat) (s : Cpu) :
    (add_HL value s).m_registers.F.byte &&& 0x0F = s.m_registers.F.byte &&& 0x0F := by
  simp only [add_HL, doCycle_m_registers, Registers.setHL_F, Flags.low_setC, Flags.low_setH,
    Flags.low_setN]

@[simp] theorem add_SP_e_low (s : Cpu) :
    (add_SP_e s).2.m_registers.F.byte &&& 0x0F = s.m_registers.F.byte &&& 0x0F := by
  simp only [add_SP_e, doCycle_m_registers, fetch_u8_m_registers, Flags.low_setC,
    Flags.low_setH, Flags.low_setN, Flags.low_setZ]

@[simp] theorem rst_F (address : Nat) (s : Cpu) :
    (rst address s).m_registers.F = s.m_registers.F := by
  simp only [rst, push_m_registers]

@[simp] theorem call_F (cc : Bool) (s : Cpu) :
    (call cc s).m_registers.F = s.m_registers.F := by
  unfold call
  split <;> simp only [readMemory_u16_m_registers, push_m_registers, doCycle_m_registers]

@[simp] theorem jr_F (cc : Bool) (s : Cpu) :
    (jr cc s).m_registers.F = s.m_registers.F := by
  unfold jr
  split <;> simp only [fetch_u8_m_registers, doCycle_m_registers]

@[simp] theorem ret_F (cc : Bool) (s : Cpu) :
    (ret cc s).m_registers.F = s.m_registers.F := by
  unfold ret
  split <;> simp only [pop_m_registers, doCycle_m_registers]

@[simp] theorem jp_F (cc : Bool) (s : Cpu) :
    (jp cc s).m_registers.F = s.m_registers.F := by
  unfold jp
  split <;> simp only [readMemory_u16_m_registers, doCycle_m_registers]

theorem okLow_ite {c : Prop} [Decidable c] {a b : Except Error Cpu}
    (ha : okLow a) (hb : okLow b) : okLow (if c then a else b) := by
  split <;> assumption

theorem okLow_ok {s : Cpu} (h : s.m_registers.F.byte &&& 0x0F = 0) : okLow (Except.ok s) := h

set_option maxRecDepth 100000 in
set_option maxHeartbeats 4000000 in
theorem executeOpcode_low (opcode : Nat) (s : Cpu) (h : s.m_registers.F.byte &&& 0x0F = 0) :
    okLow (executeOpcode opcode s) := by
  unfold executeOpcode
  repeat' (with_reducible apply okLow_ite)
  all_goals first
    | exact True.intro
    | (apply okLow_ok
       first
        | with_reducible exact h
        | with_reducible exact Registers.setAF_low _ _
        | simp only [add_A_low, adc_low, sub_low, sbc_low, and__low, or__low, xor__low, cp_low,
            inc_low, dec_low, daa_low, add_HL_low, add_SP_e_low, rst_F, call_F, jr_F, ret_F, jp_F,
            executeOpcodeCB_low, Registers.setBC_F, Registers.setDE_F, Registers.setHL_F,
            fetch_u8_m_registers, fetch_u16_m_registers, push_m_registers, pop_m_registers,
            readMemory_u8_m_registers, readMemory_u16_m_registers, writeToMemory_m_registers,
            doCycle_m_registers, Flags.low_setC, Flags.low_setH, Flags.low_setN, Flags.low_setZ,
            apply_ite Cpu.m_registers, ite_self, h])

theorem performInterrupt_F (flag address : Nat) (s : Cpu) :
    (performInterrupt flag address s).m_registers.F = s.m_registers.F := by
  simp only [performInterrupt, apply_ite Cpu.m_registers, apply_ite Registers.F, rst_F, ite_self]

theorem handleInterrupts_F (s : Cpu) :
    (handleInterrupts s).m_registers.F = s.m_registers.F := by
  simp only [handleInterrupts, apply_ite Cpu.m_registers, apply_ite Registers.F,
    performInterrupt_F, ite_self]

theorem executeNextInstruction_low (s s' : Cpu) (h : s.m_registers.F.byte &&& 0x0F = 0)
    (hs : executeNextInstruction s = Except.ok s') : s'.m_registers.F.byte &&& 0x0F = 0 := by
  have h1 : (fetch_u8 s).2.m_registers.F.byte &&& 0x0F = 0 := by
    simp only [fetch_u8_m_registers]
    exact h
  have h2 := executeOpcode_low (fetch_u8 s).1 (fetch_u8 s).2 h1
  unfold executeNextInstruction at hs
  simp only [] at hs
  rw [hs] at h2
  exact h2

theorem runPass_low (keyboardState : KeyboardState) (s s' : Cpu)
    (h : s.m_registers.F.byte &&& 0x0F = 0)
    (hs : runPass keyboardState s = Except.ok s') : s'.m_registers.F.byte &&& 0x0F = 0 := by
  unfold runPass at hs
  simp only [] at hs
  split at hs
  · cases hs
    rw [doCycle_m_registers, handleInterrupts_F]
    exact h
  · refine executeNextInstruction_low _ _ ?_ hs
    rw [handleInterrupts_F]
    exact h

end Cpu
end CppGB

namespace CppGB

/-! ## Plain RAM: work RAM, its echo and high RAM -/

namespace Memory

theorem read_workRam (m : Memory) (a : Nat) (h1 : 0xC000 ≤ a) (h2 : a ≤ 0xDFFF) :
    m.read a = m.m_workRam (m.workRamIndex a) := by
  simp only [read, ROM_START_ADDRESS, ROM_END_ADDRESS, DISPLAYRAM_START_ADDRESS,
    DISPLAYRAM_END_ADDRESS, EXTERNALRAM_START_ADDRESS, EXTERNALRAM_END_ADDRESS,
    WORKRAM_START_ADDRESS, WORKRAM_END_ADDRESS]
  iterate 3 rw [if_neg (by omega)]
  rw [if_pos ⟨h1, h2⟩]

theorem read_echoRam (m : Memory) (a : Nat) (h1 : 0xE000 ≤ a) (h2 : a ≤ 0xFDFF) :
    m.read a = m.m_workRam (m.workRamIndex (a - 0x2000)) := by
  simp only [read, ROM_START_ADDRESS, ROM_END_ADDRESS, DISPLAYRAM_START_ADDRESS,
    DISPLAYRAM_END_ADDRESS, EXTERNALRAM_START_ADDRESS, EXTERNALRAM_END_ADDRESS,
    WORKRAM_START_ADDRESS, WORKRAM_END_ADDRESS, ECHORAM_START_ADDRESS, ECHORAM_END_ADDRESS]
  iterate 4 rw [if_neg (by omega)]
  rw [if_pos ⟨h1, h2⟩]

theorem read_stackRam (m : Memory) (a : Nat) (h1 : 0xFF80 ≤ a) (h2 : a ≤ 0xFFFE) :
    m.read a = m.m_stackRam (a - 0xFF80) := by
  simp only [read, ROM_START_ADDRESS, ROM_END_ADDRESS, DISPLAYRAM_START_ADDRESS,
    DISPLAYRAM_END_ADDRESS, EXTERNALRAM_START_ADDRESS, EXTERNALRAM_END_ADDRESS,
    WORKRAM_START_ADDRESS, WORKRAM_END_ADDRESS, ECHORAM_START_ADDRESS, ECHORAM_END_ADDRESS,
    OAM_START_ADDRESS, OAM_END_ADDRESS, WAVEFORMRAM_START_ADDRESS, WAVEFORMRAM_END_ADDRESS,
    STACKRAM_START_ADDRESS, STACKRAM_END_ADDRESS]
  iterate 7 rw [if_neg (by omega)]
  rw [if_pos ⟨h1, h2⟩]

theorem write_workRam (m : Memory) (a v : Nat) (h1 : 0xC000 ≤ a) (h2 : a ≤ 0xDFFF) :
    m.write a v = { m with m_workRam := store m.m_workRam (m.workRamIndex a) v } := by
  simp only [write, ROM_START_ADDRESS, ROM_END_ADDRESS, DISPLAYRAM_START_ADDRESS,
    DISPLAYRAM_END_ADDRESS, EXTERNALRAM_START_ADDRESS, EXTERNALRAM_END_ADDRESS,
    WORKRAM_START_ADDRESS, WORKRAM_END_ADDRESS]
  iterate 3 rw [if_neg (by omega)]
  rw [if_pos ⟨h1, h2⟩]

theorem write_echoRam (m : Memory) (a v : Nat) (h1 : 0xE000 ≤ a) (h2 : a ≤ 0xFDFF) :
    m.write a v = { m with m_workRam := store m.m_workRam (m.workRamIndex (a - 0x2000)) v } := by
  simp only [write, ROM_START_ADDRESS, ROM_END_ADDRESS, DISPLAYRAM_START_ADDRESS,
    DISPLAYRAM_END_ADDRESS, EXTERNALRAM_START_ADDRESS, EXTERNALRAM_END_ADDRESS,
    WORKRAM_START_ADDRESS, WORKRAM_END_ADDRESS, ECHORAM_START_ADDRESS, ECHORAM_END_ADDRESS]
  iterate 4 rw [if_neg (by omega)]
  rw [if_pos ⟨h1, h2⟩]

theorem write_stackRam (m : Memory) (a v : Nat) (h1 : 0xFF80 ≤ a) (h2 : a ≤ 0xFFFE) :
    m.write a v = { m with m_stackRam := store m.m_stackRam (a - 0xFF80) v } := by
  simp only [write, ROM_START_ADDRESS, ROM_END_ADDRESS, DISPLAYRAM_START_ADDRESS,
    DISPLAYRAM_END_ADDRESS, EXTERNALRAM_START_ADDRESS, EXTERNALRAM_END_ADDRESS,
    WORKRAM_START_ADDRESS, WORKRAM_END_ADDRESS, ECHORAM_START_ADDRESS, ECHORAM_END_ADDRESS,
    OAM_START_ADDRESS, OAM_END_ADDRESS, WAVEFORMRAM_START_ADDRESS, WAVEFORMRAM_END_ADDRESS,
    STACKRAM_START_ADDRESS, STACKRAM_END_ADDRESS]
  iterate 7 rw [if_neg (by omega)]
  rw [if_pos ⟨h1, h2⟩]

/-- The three shapes of a plain-RAM address. -/
theorem isPlainRam_cases {m : Memory} {a : Nat} (h : m.isPlainRam a) :
    (0xC000 ≤ a ∧ a ≤ 0xDFFF) ∨ (0xE000 ≤ a ∧ a ≤ 0xFDFF) ∨ (0xFF80 ≤ a ∧ a ≤ 0xFFFE) := by
  simp only [isPlainRam, WORKRAM_START_ADDRESS, WORKRAM_END_ADDRESS, ECHORAM_START_ADDRESS,
    ECHORAM_END_ADDRESS, STACKRAM_START_ADDRESS, STACKRAM_END_ADDRESS] at h
  omega

theorem workRamIndex_congr {m m' : Memory} (hv : m'.SVBK = m.SVBK) (a : Nat) :
    m'.workRamIndex a = m.workRamIndex a := by
  simp only [workRamIndex, hv]

theorem isPlainRam_congr {m m' : Memory} (hv : m'.SVBK = m.SVBK) (a : Nat) :
    m'.isPlainRam a ↔ m.isPlainRam a := by
  simp only [isPlainRam, workRamIndex_congr hv]

theorem read_congr {m m' : Memory} (hw : m'.m_workRam = m.m_workRam)
    (hs : m'.m_stackRam = m.m_stackRam) (hv : m'.SVBK = m.SVBK) (a : Nat)
    (hp : m.isPlainRam a) : m'.read a = m.read a := by
  rcases isPlainRam_cases hp with ⟨h1, h2⟩ | ⟨h1, h2⟩ | ⟨h1, h2⟩
  · rw [read_workRam _ _ h1 h2, read_workRam _ _ h1 h2, hw, workRamIndex_congr hv]
  · rw [read_echoRam _ _ h1 h2, read_echoRam _ _ h1 h2, hw, workRamIndex_congr hv]
  · rw [read_stackRam _ _ h1 h2, read_stackRam _ _ h1 h2, hs]

theorem write_SVBK (m : Memory) (a v : Nat) (hp : m.isPlainRam a) :
    (m.write a v).SVBK = m.SVBK := by
  rcases isPlainRam_cases hp with ⟨h1, h2⟩ | ⟨h1, h2⟩ | ⟨h1, h2⟩
  · rw [write_workRam _ _ _ h1 h2]
  · rw [write_echoRam _ _ _ h1 h2]
  · rw [write_stackRam _ _ _ h1 h2]

theorem read_plain (m : Memory) (a : Nat) (hp : m.isPlainRam a) :
    m.read a = if 0xFF80 ≤ a then m.m_stackRam (a - 0xFF80)
      else if a ≤ 0xDFFF then m.m_workRam (m.workRamIndex a)
      else m.m_workRam (m.workRamIndex (a - 0x2000)) := by
  rcases isPlainRam_cases hp with ⟨h1, h2⟩ | ⟨h1, h2⟩ | ⟨h1, h2⟩
  · rw [read_workRam _ _ h1 h2, if_neg (by omega), if_pos h2]
  · rw [read_echoRam _ _ h1 h2, if_neg (by omega), if_neg (by omega)]
  · rw [read_stackRam _ _ h1 h2, if_pos h1]

theorem write_plain_workRam (m : Memory) (a v : Nat) (hp : m.isPlainRam a) :
    (m.write a v).m_workRam = if 0xFF80 ≤ a then m.m_workRam
      else if a ≤ 0xDFFF then store m.m_workRam (m.workRamIndex a) v
      else store m.m_workRam (m.workRamIndex (a - 0x2000)) v := by
  rcases isPlainRam_cases hp with ⟨h1, h2⟩ | ⟨h1, h2⟩ | ⟨h1, h2⟩
  · rw [write_workRam _ _ _ h1 h2, if_neg (by omega), if_pos h2]
  · rw [write_echoRam _ _ _ h1 h2, if_neg (by omega), if_neg (by omega)]
  · rw [write_stackRam _ _ _ h1 h2, if_pos h1]

theorem write_plain_stackRam (m : Memory) (a v : Nat) (hp : m.isPlainRam a) :
    (m.write a v).m_stackRam = if 0xFF80 ≤ a then store m.m_stackRam (a - 0xFF80) v
      else m.m_stackRam := by
  rcases isPlainRam_cases hp with ⟨h1, h2⟩ | ⟨h1, h2⟩ | ⟨h1, h2⟩
  · rw [write_workRam _ _ _ h1 h2, if_neg (by omega)]
  · rw [write_echoRam _ _ _ h1 h2, if_neg (by omega)]
  · rw [write_stackRam _ _ _ h1 h2, if_pos h1]

theorem isPlainRam_write (m : Memory) (a v b : Nat) (hp : m.isPlainRam a) :
    (m.write a v).isPlainRam b ↔ m.isPlainRam b :=
  isPlainRam_congr (write_SVBK m a v hp) b

theorem read_write_same (m : Memory) (a v : Nat) (hp : m.isPlainRam a) :
    (m.write a v).read a = v := by
  rw [read_plain _ _ ((isPlainRam_write m a v a hp).2 hp), write_plain_workRam _ _ _ hp,
    write_plain_stackRam _ _ _ hp, workRamIndex_congr (write_SVBK m a v hp),
    workRamIndex_congr (write_SVBK m a v hp)]
  simp only [ite_apply, store, if_true]
  split_ifs <;> rfl

theorem store_ne (f : Nat → Nat) (i v j : Nat) (h : j ≠ i) : store f i v j = f j := by
  simp only [store, if_neg h]

theorem workRamIndex_ne (m : Memory) (x y : Nat) (hx1 : 0xC000 ≤ x) (hx2 : x ≤ 0xDFFF)
    (hy1 : 0xC000 ≤ y) (hy2 : y ≤ 0xDFFF) (hxy : x ≠ y) :
    m.workRamIndex x ≠ m.workRamIndex y := by
  simp only [workRamIndex, WORKRAM_START_ADDRESS, WORKRAM_BANK_SIZE]
  split_ifs <;> omega

theorem write_workRam_m_workRam (m : Memory) (a v : Nat) (h1 : 0xC000 ≤ a) (h2 : a ≤ 0xDFFF) :
    (m.write a v).m_workRam = store m.m_workRam (m.workRamIndex a) v := by
  rw [write_workRam _ _ _ h1 h2]

theorem write_workRam_m_stackRam (m : Memory) (a v : Nat) (h1 : 0xC000 ≤ a) (h2 : a ≤ 0xDFFF) :
    (m.write a v).m_stackRam = m.m_stackRam := by
  rw [write_workRam _ _ _ h1 h2]

theorem write_echoRam_m_workRam (m : Memory) (a v : Nat) (h1 : 0xE000 ≤ a) (h2 : a ≤ 0xFDFF) :
    (m.write a v).m_workRam = store m.m_workRam (m.workRamIndex (a - 0x2000)) v := by
  rw [write_echoRam _ _ _ h1 h2]

theorem write_echoRam_m_stackRam (m : Memory) (a v : Nat) (h1 : 0xE000 ≤ a) (h2 : a ≤ 0xFDFF) :
    (m.write a v).m_stackRam = m.m_stackRam := by
  rw [write_echoRam _ _ _ h1 h2]

theorem write_stackRam_m_workRam (m : Memory) (a v : Nat) (h1 : 0xFF80 ≤ a) (h2 : a ≤ 0xFFFE) :
    (m.write a v).m_workRam = m.m_workRam := by
  rw [write_stackRam _ _ _ h1 h2]

theorem write_stackRam_m_stackRam (m : Memory) (a v : Nat) (h1 : 0xFF80 ≤ a) (h2 : a ≤ 0xFFFE) :
    (m.write a v).m_stackRam = store m.m_stackRam (a - 0xFF80) v := by
  rw [write_stackRam _ _ _ h1 h2]

/-- Two adjacent plain-RAM addresses never share a cell: a write to one is not seen at the
other. -/
theorem read_write_adjacent (m : Memory) (a b v : Nat) (ha : m.isPlainRam a)
    (hb : m.isPlainRam b) (hab : a = b + 1 ∨ b = a + 1) :
    (m.write a v).read b = m.read b := by
  have hv := write_SVBK m a v ha
  rcases isPlainRam_cases ha with ⟨h1, h2⟩ | ⟨h1, h2⟩ | ⟨h1, h2⟩ <;>
  rcases isPlainRam_cases hb with ⟨h3, h4⟩ | ⟨h3, h4⟩ | ⟨h3, h4⟩
  · rw [read_workRam _ _ h3 h4, read_workRam _ _ h3 h4, workRamIndex_congr hv,
      write_workRam_m_workRam _ _ _ h1 h2,
      store_ne _ _ _ _ (workRamIndex_ne m b a h3 h4 h1 h2 (by omega))]
  · rw [read_echoRam _ _ h3 h4, read_echoRam _ _ h3 h4, workRamIndex_congr hv,
      write_workRam_m_workRam _ _ _ h1 h2,
      store_ne _ _ _ _ (workRamIndex_ne m (b - 0x2000) a (by omega) (by omega) h1 h2
        (by omega))]
  · rw [read_stackRam _ _ h3 h4, read_stackRam _ _ h3 h4, write_workRam_m_stackRam _ _ _ h1 h2]
  · rw [read_workRam _ _ h3 h4, read_workRam _ _ h3 h4, workRamIndex_congr hv,
      write_echoRam_m_workRam _ _ _ h1 h2,
      store_ne _ _ _ _ (workRamIndex_ne m b (a - 0x2000) h3 h4 (by omega) (by omega)
        (by omega))]
  · rw [read_echoRam _ _ h3 h4, read_echoRam _ _ h3 h4, workRamIndex_congr hv,
      write_echoRam_m_workRam _ _ _ h1 h2,
      store_ne _ _ _ _ (workRamIndex_ne m (b - 0x2000) (a - 0x2000) (by omega) (by omega)
        (by omega) (by omega) (by omega))]
  · rw [read_stackRam _ _ h3 h4, read_stackRam _ _ h3 h4, write_echoRam_m_stackRam _ _ _ h1 h2]
  · rw [read_workRam _ _ h3 h4, read_workRam _ _ h3 h4, workRamIndex_congr hv,
      write_stackRam_m_workRam _ _ _ h1 h2]
  · rw [read_echoRam _ _ h3 h4, read_echoRam _ _ h3 h4, workRamIndex_congr hv,
      write_stackRam_m_workRam _ _ _ h1 h2]
  · rw [read_stackRam _ _ h3 h4, read_stackRam _ _ h3 h4, write_stackRam_m_stackRam _ _ _ h1 h2,
      store_ne _ _ _ _ (by omega)]

end Memory
end CppGB

namespace CppGB

theorem u16_sub_one (x : Nat) (h1 : 0 < x) (h2 : x ≤ 65536) : u16 ((x : Int) - 1) = x - 1 := by
  unfold u16
  omega

theorem u16_zero_sub_one : u16 (((0 : Nat) : Int) - 1) = 65535 := by decide

namespace Cpu

theorem writeToMemory_plain (a v : Nat) (s : Cpu) (hp : s.m_memory.isPlainRam a) :
    writeToMemory a v s = doCycle 1 { s with m_memory := s.m_memory.write a v } := by
  have c := Memory.isPlainRam_cases hp
  simp only [writeToMemory, Memory.SC_ADDRESS, Memory.NR13_ADDRESS, Memory.NR14_ADDRESS,
    Memory.NR23_ADDRESS, Memory.NR24_ADDRESS, Memory.NR30_ADDRESS, Memory.NR33_ADDRESS,
    Memory.NR34_ADDRESS, Memory.NR44_ADDRESS, Memory.NR52_ADDRESS, Memory.LCDC_ADDRESS,
    Memory.STAT_ADDRESS, Memory.DMA_ADDRESS, Memory.KEY1_ADDRESS, Memory.VBK_ADDRESS,
    Memory.HDMA5_ADDRESS, Memory.BCPD_ADDRESS, Memory.OCPD_ADDRESS]
  iterate 18 rw [if_neg (by omega)]

theorem readMemory_u8_plain (a : Nat) (s : Cpu) (hp : s.m_memory.isPlainRam a) :
    (readMemory_u8 a s).1 = s.m_memory.read a := by
  have c := Memory.isPlainRam_cases hp
  simp only [readMemory_u8, Memory.BCPD_ADDRESS, Memory.OCPD_ADDRESS]
  rw [if_neg (by omega), if_neg (by omega)]

theorem read_doCycle (n a : Nat) (s : Cpu) (hp : s.m_memory.isPlainRam a) :
    (doCycle n s).m_memory.read a = s.m_memory.read a :=
  Memory.read_congr (doCycle_m_workRam n s) (doCycle_m_stackRam n s) (doCycle_SVBK n s) a hp

theorem isPlainRam_doCycle (n a : Nat) (s : Cpu) :
    (doCycle n s).m_memory.isPlainRam a ↔ s.m_memory.isPlainRam a :=
  Memory.isPlainRam_congr (doCycle_SVBK n s) a

theorem isPlainRam_writeToMemory (a v b : Nat) (s : Cpu) (hp : s.m_memory.isPlainRam a) :
    (writeToMemory a v s).m_memory.isPlainRam b ↔ s.m_memory.isPlainRam b := by
  rw [writeToMemory_plain a v s hp, isPlainRam_doCycle]
  exact Memory.isPlainRam_write s.m_memory a v b hp

theorem read_writeToMemory_same (a v : Nat) (s : Cpu) (hp : s.m_memory.isPlainRam a) :
    (writeToMemory a v s).m_memory.read a = v := by
  rw [writeToMemory_plain a v s hp, read_doCycle]
  · exact Memory.read_write_same s.m_memory a v hp
  · exact (Memory.isPlainRam_write s.m_memory a v a hp).2 hp

theorem read_writeToMemory_adjacent (a v b : Nat) (s : Cpu) (ha : s.m_memory.isPlainRam a)
    (hb : s.m_memory.isPlainRam b) (hab : a = b + 1 ∨ b = a + 1) :
    (writeToMemory a v s).m_memory.read b = s.m_memory.read b := by
  rw [writeToMemory_plain a v s ha, read_doCycle]
  · exact Memory.read_write_adjacent s.m_memory a b v ha hb hab
  · exact (Memory.isPlainRam_write s.m_memory a v b ha).2 hb

/-- What `push` leaves in memory when both stack bytes are plain RAM. -/
theorem push_plain (value : Nat) (s : Cpu)
    (h1 : s.m_memory.isPlainRam (u16 ((s.m_registers.SP : Int) - 1)))
    (h2 : s.m_memory.isPlainRam (u16 ((u16 ((s.m_registers.SP : Int) - 1) : Int) - 1))) :
    (push value s).m_memory.read (u16 ((u16 ((s.m_registers.SP : Int) - 1) : Int) - 1))
        = value &&& 0x00FF ∧
      (push value s).m_memory.read (u16 ((s.m_registers.SP : Int) - 1))
        = (value >>> 8) % 256 ∧
      ∀ b, (push value s).m_memory.isPlainRam b ↔ s.m_memory.isPlainRam b := by
  generalize ha1 : u16 ((s.m_registers.SP : Int) - 1) = a1 at h1 h2
  generalize ha2 : u16 ((a1 : Int) - 1) = a2 at h2
  have c1 := Memory.isPlainRam_cases h1
  have c2 := Memory.isPlainRam_cases h2
  have hadj : a1 = a2 + 1 := by
    rw [← ha2]
    unfold u16
    omega
  have e : push value s = writeToMemory a2 (value &&& 0x00FF)
      { (writeToMemory a1 ((value >>> 8) % 256)
          { (doCycle 1 s) with m_registers := { s.m_registers with SP := a1 } }) with
        m_registers := { s.m_registers with SP := a2 } } := by
    simp only [push, doCycle_m_registers, writeToMemory_m_registers, ha1, ha2]
  rw [e]
  have p0 : ∀ b, ({ (doCycle 1 s) with m_registers := { s.m_registers with SP := a1 } } :
      Cpu).m_memory.isPlainRam b ↔ s.m_memory.isPlainRam b := fun b => isPlainRam_doCycle 1 b s
  have p1 : ∀ b, ({ (writeToMemory a1 ((value >>> 8) % 256)
      { (doCycle 1 s) with m_registers := { s.m_registers with SP := a1 } }) with
        m_registers := { s.m_registers with SP := a2 } } : Cpu).m_memory.isPlainRam b ↔
      s.m_memory.isPlainRam b := fun b =>
    (isPlainRam_writeToMemory a1 _ b _ ((p0 a1).2 h1)).trans (p0 b)
  refine ⟨?_, ?_, ?_⟩
  · exact read_writeToMemory_same a2 _ _ ((p1 a2).2 h2)
  · rw [read_writeToMemory_adjacent a2 _ a1 _ ((p1 a2).2 h2) ((p1 a1).2 h1) (Or.inr hadj)]
    exact read_writeToMemory_same a1 _ _ ((p0 a1).2 h1)
  · intro b
    exact (isPlainRam_writeToMemory a2 _ b _ ((p1 a2).2 h2)).trans (p1 b)

end Cpu
end CppGB

namespace CppGB

/-! ## The clock only adds requests to `IF` -/

theorem requestsAdded_refl (a : Nat) : requestsAdded a a := ⟨0, by decide, by simp⟩

theorem or_lt_8 : ∀ x < 8, ∀ y < 8, x ||| y < 8 := by decide

theorem requestsAdded_trans {a b c : Nat} (h1 : requestsAdded a b) (h2 : requestsAdded b c) :
    requestsAdded a c := by
  obtain ⟨x, hx, rfl⟩ := h1
  obtain ⟨y, hy, rfl⟩ := h2
  exact ⟨x ||| y, or_lt_8 x hx y hy, by rw [Nat.or_assoc]⟩

theorem requestsAdded_ite {c : Prop} [Decidable c] {a : Nat} {s t : Cpu}
    (h1 : requestsAdded a s.m_memory.IF) (h2 : requestsAdded a t.m_memory.IF) :
    requestsAdded a (if c then s else t).m_memory.IF := by
  split <;> assumption

namespace Memory

theorem performHdmaTransferLoop_IF (n : Nat) :
    ∀ (src dst : Nat) (m : Memory), (performHdmaTransferLoop n src dst m).1.IF = m.IF := by
  induction n with
  | zero => intro src dst m; rfl
  | succ k ih =>
    intro src dst m
    simp only [performHdmaTransferLoop]
    rw [ih]

theorem performHdmaTransfer_IF (m : Memory) (n : Nat) : (m.performHdmaTransfer n).IF = m.IF := by
  have h := performHdmaTransferLoop_IF ((16 * (n + 1)) % 65536)
    (((m.HDMA1 <<< 8) ||| (m.HDMA2 &&& 0xF0)) % 65536)
    ((((m.HDMA3 &&& 0x1F) <<< 8) ||| (m.HDMA4 &&& 0xF0)) % 65536) m
  simp only [performHdmaTransfer]
  exact h

end Memory

namespace Cpu

theorem requestInterrupt_added (flag : Nat) (hf : flag < 8) (s : Cpu) :
    requestsAdded s.m_memory.IF (requestInterrupt flag s).m_memory.IF := ⟨flag, hf, rfl⟩

end Cpu

namespace DisplayController

theorem updateLY_IF (value : Nat) (s : Cpu) :
    (updateLY value s).m_memory.IF =
      if value = s.m_memory.LYC ∧ s.m_memory.STAT &&& 0x40 ≠ 0 then s.m_memory.IF ||| 2
      else s.m_memory.IF := by
  simp only [updateLY, apply_ite Cpu.m_memory, apply_ite Memory.IF, Cpu.requestInterrupt,
    Cpu.LCDSTAT_INTERRUPT_FLAG]

theorem changeMode_IF (flag : Nat) (s : Cpu) :
    (changeMode flag s).m_memory.IF = s.m_memory.IF := by
  unfold changeMode
  rfl

theorem requestInterrupt_IF (flag : Nat) (s : Cpu) :
    (Cpu.requestInterrupt flag s).m_memory.IF = s.m_memory.IF ||| flag := by
  unfold Cpu.requestInterrupt
  rfl

theorem hdma_IF (s : Cpu) (n : Nat) :
    (s.m_memory.performHdmaTransfer n).IF = s.m_memory.IF :=
  Memory.performHdmaTransfer_IF _ _

theorem requestsAdded_or {a b : Nat} (h : requestsAdded a b) (f : Nat) (hf : f < 8) :
    requestsAdded a (b ||| f) :=
  requestsAdded_trans h ⟨f, hf, rfl⟩

theorem doCycleSwitch_added (s : Cpu) :
    requestsAdded s.m_memory.IF (doCycleSwitch s).m_memory.IF := by
  simp only [doCycleSwitch, apply_ite Cpu.m_memory, apply_ite Memory.IF, updateLY_IF,
    changeMode_IF, requestInterrupt_IF, hdma_IF, Cpu.VBLANK_INTERRUPT_FLAG,
    Cpu.LCDSTAT_INTERRUPT_FLAG]
  split_ifs <;> with_reducible first
    | exact requestsAdded_refl _
    | exact requestsAdded_or (requestsAdded_refl _) _ (by decide)
    | exact requestsAdded_or (requestsAdded_or (requestsAdded_refl _) _ (by decide)) _
        (by decide)

theorem pipelineCycle_added (s : Cpu) :
    requestsAdded s.m_memory.IF (DisplayController.doCycle s).m_memory.IF := by
  unfold DisplayController.doCycle
  split
  · exact requestsAdded_refl _
  · exact doCycleSwitch_added _

theorem doCycle_quiet (s : Cpu) (h : s.m_memory.LCDC &&& 0x80 = 0) :
    DisplayController.doCycle s = s := by
  unfold DisplayController.doCycle
  rw [if_pos h]

end DisplayController

namespace Cpu

theorem incrementDIV_IF (s : Cpu) : (incrementDIV s).m_memory.IF = s.m_memory.IF := by
  simp only [incrementDIV, apply_ite Cpu.m_memory, apply_ite Memory.IF, ite_self]

theorem incrementTIMA_added (s : Cpu) :
    requestsAdded s.m_memory.IF (incrementTIMA s).m_memory.IF := by
  simp only [incrementTIMA, apply_ite Cpu.m_memory, apply_ite Memory.IF,
    DisplayController.requestInterrupt_IF, TIMER_INTERRUPT_FLAG]
  split_ifs <;> with_reducible first
    | exact requestsAdded_refl _
    | exact DisplayController.requestsAdded_or (requestsAdded_refl _) _ (by decide)

theorem incrementTIMA_quiet (s : Cpu) (h : s.m_memory.TAC &&& 0x04 = 0) :
    incrementTIMA s = s := by
  unfold incrementTIMA
  rw [if_neg (by simp [h])]

theorem doCycleStep_added (s : Cpu) :
    requestsAdded s.m_memory.IF (doCycleStep s).m_memory.IF := by
  have h1 : requestsAdded s.m_memory.IF (incrementTIMA (incrementDIV s)).m_memory.IF := by
    have h := incrementTIMA_added (incrementDIV s)
    rw [incrementDIV_IF] at h
    exact h
  simp only [doCycleStep]
  generalize incrementTIMA (incrementDIV s) = t at h1 ⊢
  split_ifs
  · exact h1
  · exact requestsAdded_trans h1 (DisplayController.pipelineCycle_added _)
  · exact requestsAdded_trans h1 (DisplayController.pipelineCycle_added _)

theorem doCycle_added (cycleCount : Nat) (s : Cpu) :
    requestsAdded s.m_memory.IF (doCycle cycleCount s).m_memory.IF := by
  induction cycleCount generalizing s with
  | zero => exact requestsAdded_refl _
  | succ n ih =>
    simp only [doCycle]
    exact requestsAdded_trans (doCycleStep_added s) (ih _)

end Cpu
end CppGB

namespace CppGB

namespace Memory

theorem write_plain_IF (m : Memory) (a v : Nat) (hp : m.isPlainRam a) :
    (m.write a v).IF = m.IF := by
  rcases isPlainRam_cases hp with ⟨h1, h2⟩ | ⟨h1, h2⟩ | ⟨h1, h2⟩
  · rw [write_workRam _ _ _ h1 h2]
  · rw [write_echoRam _ _ _ h1 h2]
  · rw [write_stackRam _ _ _ h1 h2]

theorem write_plain_TAC (m : Memory) (a v : Nat) (hp : m.isPlainRam a) :
    (m.write a v).TAC = m.TAC := by
  rcases isPlainRam_cases hp with ⟨h1, h2⟩ | ⟨h1, h2⟩ | ⟨h1, h2⟩
  · rw [write_workRam _ _ _ h1 h2]
  · rw [write_echoRam _ _ _ h1 h2]
  · rw [write_stackRam _ _ _ h1 h2]

theorem write_plain_LCDC (m : Memory) (a v : Nat) (hp : m.isPlainRam a) :
    (m.write a v).LCDC = m.LCDC := by
  rcases isPlainRam_cases hp with ⟨h1, h2⟩ | ⟨h1, h2⟩ | ⟨h1, h2⟩
  · rw [write_workRam _ _ _ h1 h2]
  · rw [write_echoRam _ _ _ h1 h2]
  · rw [write_stackRam _ _ _ h1 h2]

end Memory

namespace Cpu

theorem doCycle_one (s : Cpu) : doCycle 1 s = doCycleStep s := by
  unfold doCycle
  rfl

theorem incrementDIV_TAC (s : Cpu) : (incrementDIV s).m_memory.TAC = s.m_memory.TAC := by
  have h := congrArg (fun t : Cpu => t.m_memory.TAC) (incrementDIV_clockFrame s)
  exact h

theorem incrementDIV_LCDC (s : Cpu) : (incrementDIV s).m_memory.LCDC = s.m_memory.LCDC := by
  have h := congrArg (fun t : Cpu => t.m_memory.LCDC) (incrementDIV_clockFrame s)
  exact h

/-- With the timer stopped and the LCD off a machine cycle raises no request. -/
theorem doCycle_one_IF_quiet (s : Cpu) (hT : s.m_memory.TAC &&& 0x04 = 0)
    (hL : s.m_memory.LCDC &&& 0x80 = 0) : (doCycle 1 s).m_memory.IF = s.m_memory.IF := by
  rw [doCycle_one]
  have e1 : incrementTIMA (incrementDIV s) = incrementDIV s :=
    incrementTIMA_quiet _ (by rw [incrementDIV_TAC]; exact hT)
  have hL' : (incrementDIV s).m_memory.LCDC &&& 0x80 = 0 := by
    rw [incrementDIV_LCDC]
    exact hL
  simp only [doCycleStep, e1]
  split_ifs
  · exact incrementDIV_IF s
  · rw [DisplayController.doCycle_quiet _ (by exact hL')]
    exact incrementDIV_IF s
  · rw [DisplayController.doCycle_quiet _ hL']
    exact incrementDIV_IF s

theorem writeToMemory_plain_added (a v : Nat) (s : Cpu) (hp : s.m_memory.isPlainRam a) :
    requestsAdded s.m_memory.IF (writeToMemory a v s).m_memory.IF := by
  rw [writeToMemory_plain a v s hp]
  have h := doCycle_added 1 ({ s with m_memory := s.m_memory.write a v } : Cpu)
  rw [show ({ s with m_memory := s.m_memory.write a v } : Cpu).m_memory.IF = s.m_memory.IF from
    Memory.write_plain_IF _ _ _ hp] at h
  exact h

theorem writeToMemory_plain_TAC (a v : Nat) (s : Cpu) (hp : s.m_memory.isPlainRam a) :
    (writeToMemory a v s).m_memory.TAC = s.m_memory.TAC := by
  rw [writeToMemory_plain a v s hp, doCycle_TAC]
  exact Memory.write_plain_TAC _ _ _ hp

theorem writeToMemory_plain_LCDC (a v : Nat) (s : Cpu) (hp : s.m_memory.isPlainRam a) :
    (writeToMemory a v s).m_memory.LCDC = s.m_memory.LCDC := by
  rw [writeToMemory_plain a v s hp, doCycle_LCDC]
  exact Memory.write_plain_LCDC _ _ _ hp

theorem writeToMemory_plain_IF_quiet (a v : Nat) (s : Cpu) (hp : s.m_memory.isPlainRam a)
    (hT : s.m_memory.TAC &&& 0x04 = 0) (hL : s.m_memory.LCDC &&& 0x80 = 0) :
    (writeToMemory a v s).m_memory.IF = s.m_memory.IF := by
  rw [writeToMemory_plain a v s hp, doCycle_one_IF_quiet]
  · exact Memory.write_plain_IF _ _ _ hp
  · show (s.m_memory.write a v).TAC &&& 0x04 = 0
    rw [Memory.write_plain_TAC _ _ _ hp]
    exact hT
  · show (s.m_memory.write a v).LCDC &&& 0x80 = 0
    rw [Memory.write_plain_LCDC _ _ _ hp]
    exact hL

/-- `push` onto plain RAM only adds requests to `IF`, and adds none when the timer is stopped
and the LCD is off. -/
theorem push_plain_IF (value : Nat) (s : Cpu)
    (h1 : s.m_memory.isPlainRam (u16 ((s.m_registers.SP : Int) - 1)))
    (h2 : s.m_memory.isPlainRam (u16 ((u16 ((s.m_registers.SP : Int) - 1) : Int) - 1))) :
    requestsAdded s.m_memory.IF (push value s).m_memory.IF ∧
      (s.m_memory.TAC &&& 0x04 = 0 → s.m_memory.LCDC &&& 0x80 = 0 →
        (push value s).m_memory.IF = s.m_memory.IF) := by
  generalize ha1 : u16 ((s.m_registers.SP : Int) - 1) = a1 at h1 h2
  generalize ha2 : u16 ((a1 : Int) - 1) = a2 at h2
  have e : push value s = writeToMemory a2 (value &&& 0x00FF)
      { (writeToMemory a1 ((value >>> 8) % 256)
          { (doCycle 1 s) with m_registers := { s.m_registers with SP := a1 } }) with
        m_registers := { s.m_registers with SP := a2 } } := by
    simp only [push, doCycle_m_registers, writeToMemory_m_registers, ha1, ha2]
  rw [e]
  generalize hs0 : ({ (doCycle 1 s) with m_registers := { s.m_registers with SP := a1 } } :
    Cpu) = s0
  have m0 : s0.m_memory = (doCycle 1 s).m_memory := by rw [← hs0]
  have p0 : ∀ b, s0.m_memory.isPlainRam b ↔ s.m_memory.isPlainRam b := by
    intro b
    rw [m0]
    exact isPlainRam_doCycle 1 b s
  generalize hs1 : ({ (writeToMemory a1 ((value >>> 8) % 256) s0) with
    m_registers := { s.m_registers with SP := a2 } } : Cpu) = s1
  have m1 : s1.m_memory = (writeToMemory a1 ((value >>> 8) % 256) s0).m_memory := by rw [← hs1]
  have p1 : ∀ b, s1.m_memory.isPlainRam b ↔ s.m_memory.isPlainRam b := by
    intro b
    rw [m1]
    exact (isPlainRam_writeToMemory a1 _ b _ ((p0 a1).2 h1)).trans (p0 b)
  constructor
  · have g0 : requestsAdded s.m_memory.IF s0.m_memory.IF := by
      rw [m0]
      exact doCycle_added 1 s
    have g1 : requestsAdded s0.m_memory.IF s1.m_memory.IF := by
      rw [m1]
      exact writeToMemory_plain_added a1 _ s0 ((p0 a1).2 h1)
    exact requestsAdded_trans (requestsAdded_trans g0 g1)
      (writeToMemory_plain_added a2 _ s1 ((p1 a2).2 h2))
  · intro hT hL
    have t0 : s0.m_memory.TAC = s.m_memory.TAC := by rw [m0, doCycle_TAC]
    have l0 : s0.m_memory.LCDC = s.m_memory.LCDC := by rw [m0, doCycle_LCDC]
    have i0 : s0.m_memory.IF = s.m_memory.IF := by
      rw [m0]
      exact doCycle_one_IF_quiet s hT hL
    have t1 : s1.m_memory.TAC = s.m_memory.TAC := by
      rw [m1, writeToMemory_plain_TAC a1 _ s0 ((p0 a1).2 h1), t0]
    have l1 : s1.m_memory.LCDC = s.m_memory.LCDC := by
      rw [m1, writeToMemory_plain_LCDC a1 _ s0 ((p0 a1).2 h1), l0]
    have i1 : s1.m_memory.IF = s.m_memory.IF := by
      rw [m1, writeToMemory_plain_IF_quiet a1 _ s0 ((p0 a1).2 h1) (by rw [t0]; exact hT)
        (by rw [l0]; exact hL), i0]
    rw [writeToMemory_plain_IF_quiet a2 _ s1 ((p1 a2).2 h2) (by rw [t1]; exact hT)
      (by rw [l1]; exact hL), i1]

end Cpu
end CppGB

namespace CppGB
namespace Cpu

set_option maxRecDepth 100000

theorem executeOpcode_PUSH_BC (t : Cpu) :
    executeOpcode 0xC5 t = Except.ok (push t.m_registers.BC t) := rfl
theorem executeOpcode_PUSH_DE (t : Cpu) :
    executeOpcode 0xD5 t = Except.ok (push t.m_registers.DE t) := rfl
theorem executeOpcode_PUSH_HL (t : Cpu) :
    executeOpcode 0xE5 t = Except.ok (push t.m_registers.HL t) := rfl
theorem executeOpcode_PUSH_AF (t : Cpu) :
    executeOpcode 0xF5 t = Except.ok (push t.m_registers.AF t) := rfl
theorem executeOpcode_POP_AF (t : Cpu) :
    executeOpcode 0xF1 t = Except.ok
      { (pop t).2 with m_registers := (pop t).2.m_registers.setAF ((pop t).1 &&& 0xFFF0) } := rfl

end Cpu
end CppGB

namespace CppGB
namespace Cpu

theorem fetch_u8_m_memory (s : Cpu) : (fetch_u8 s).2.m_memory = (doCycle 1 s).m_memory := by
  unfold fetch_u8
  rfl

theorem fetch_u8_fst (s : Cpu) : (fetch_u8 s).1 = (readMemory_u8 s.m_registers.PC s).1 := by
  unfold fetch_u8
  rfl

theorem stack_addresses (m : Memory) (sp : Nat) (hsp : sp < 65536)
    (h1 : m.isPlainRam (u16 ((sp : Int) - 1)))
    (h2 : m.isPlainRam (u16 ((u16 ((sp : Int) - 1) : Int) - 1))) :
    u16 ((sp : Int) - 1) = sp - 1 ∧ u16 ((u16 ((sp : Int) - 1) : Int) - 1) = sp - 2 ∧
      0xC002 ≤ sp := by
  have c1 := Memory.isPlainRam_cases h1
  have c2 := Memory.isPlainRam_cases h2
  unfold u16 at c1 c2 ⊢
  omega

theorem pop_plain (t : Cpu) (a1 a2 : Nat) (hsp : t.m_registers.SP = a2)
    (ha : (a2 + 1) % 65536 = a1) (h2 : t.m_memory.isPlainRam a2)
    (h1 : t.m_memory.isPlainRam a1) :
    (pop t).1 = ((t.m_memory.read a1 <<< 8) ||| t.m_memory.read a2) % 65536 := by
  have e : (pop t).1 = (((readMemory_u8 a1
        { (doCycle 1 t) with m_registers := { t.m_registers with SP := a1 } }).1 <<< 8) |||
      (readMemory_u8 a2 t).1) % 65536 := by
    simp only [pop, readMemory_u8_snd, doCycle_m_registers, hsp, ha]
  have q : (readMemory_u8 a1 ({ (doCycle 1 t) with
      m_registers := { t.m_registers with SP := a1 } } : Cpu)).1 = t.m_memory.read a1 := by
    rw [readMemory_u8_plain]
    · exact read_doCycle 1 a1 t h1
    · exact (isPlainRam_doCycle 1 a1 t).2 h1
  rw [e, readMemory_u8_plain a2 t h2, q]

/-- Executing `POP AF` right after a `push` of `v` onto plain RAM. -/
theorem pop_AF_after_push (v : Nat) (hv : v < 65536) (s : Cpu)
    (hSP : s.m_registers.SP < 65536)
    (h1 : s.m_memory.isPlainRam (u16 ((s.m_registers.SP : Int) - 1)))
    (h2 : s.m_memory.isPlainRam (u16 ((u16 ((s.m_registers.SP : Int) - 1) : Int) - 1)))
    (hop : (fetch_u8 (push v s)).1 = 0xF1) :
    ∃ t, executeNextInstruction (push v s) = Except.ok t ∧
      t.m_registers.A = v >>> 8 ∧ t.m_registers.F.byte = v &&& 0xF0 ∧
      t.m_registers.SP = s.m_registers.SP := by
  obtain ⟨r2, r1, rp⟩ := push_plain v s h1 h2
  obtain ⟨e1, e2, e3⟩ := stack_addresses s.m_memory s.m_registers.SP hSP h1 h2
  have hSPpush : (push v s).m_registers.SP = s.m_registers.SP - 2 := by
    rw [push_m_registers]
    exact e2
  rw [e2] at r2 h2
  rw [e1] at r1 h1
  -- the state after the opcode fetch
  have hb_mem : (fetch_u8 (push v s)).2.m_memory = (doCycle 1 (push v s)).m_memory :=
    fetch_u8_m_memory _
  have hb_sp : (fetch_u8 (push v s)).2.m_registers.SP = s.m_registers.SP - 2 := by
    rw [fetch_u8_m_registers]
    exact hSPpush
  have hb_p : ∀ b, (fetch_u8 (push v s)).2.m_memory.isPlainRam b ↔ s.m_memory.isPlainRam b := by
    intro b
    rw [hb_mem, isPlainRam_doCycle]
    exact rp b
  have hb_r : ∀ b, s.m_memory.isPlainRam b →
      (fetch_u8 (push v s)).2.m_memory.read b = (push v s).m_memory.read b := by
    intro b hb
    rw [hb_mem]
    exact read_doCycle 1 b _ ((rp b).2 hb)
  have hpop := pop_plain (fetch_u8 (push v s)).2 (s.m_registers.SP - 1) (s.m_registers.SP - 2)
    hb_sp (by omega) ((hb_p _).2 h2) ((hb_p _).2 h1)
  rw [hb_r _ h1, hb_r _ h2, r1, r2, word_of_bytes v hv] at hpop
  refine ⟨{ (pop (fetch_u8 (push v s)).2).2 with
    m_registers := (pop (fetch_u8 (push v s)).2).2.m_registers.setAF
      ((pop (fetch_u8 (push v s)).2).1 &&& 0xFFF0) }, ?_, ?_, ?_, ?_⟩
  · unfold executeNextInstruction
    simp only [hop]
    exact executeOpcode_POP_AF _
  · show ((pop (fetch_u8 (push v s)).2).1 &&& 0xFFF0) >>> 8 % 256 = v >>> 8
    rw [hpop]
    exact high_byte_masked v hv
  · show ((pop (fetch_u8 (push v s)).2).1 &&& 0xFFF0) % 256 = v &&& 0xF0
    rw [hpop]
    exact low_byte_masked v
  · show (pop (fetch_u8 (push v s)).2).2.m_registers.SP = s.m_registers.SP
    rw [pop_m_registers]
    show (((fetch_u8 (push v s)).2.m_registers.SP + 1) % 65536 + 1) % 65536 = s.m_registers.SP
    rw [hb_sp]
    omega

end Cpu
end CppGB

namespace CppGB
open Cpu

theorem u8_cast (x : Int) : ((u8 x : Nat) : Int) = x % 256 := by
  unfold u8
  rw [Int.toNat_of_nonneg (Int.emod_nonneg _ (by decide))]

theorem u8_eq_zero_iff (x : Int) : u8 x = 0 ↔ x % 256 = 0 := by
  have h := u8_cast x
  omega

end CppGB

namespace CppGB
open Cpu

set_option maxRecDepth 100000

theorem rlc_value : ∀ v < 256, ((v <<< 1) ||| ((v >>> 7) % 2)) % 256 = (2 * v) % 256 + v / 128 := by
  decide
theorem rrc_value : ∀ v < 256, ((v >>> 1) ||| (((v &&& 1) % 2) <<< 7)) % 256 = v / 2 + (v % 2) * 128 := by
  decide
theorem rl_value : ∀ c < 2, ∀ v < 256,
    ((v <<< 1) ||| c) % 256 = ((2 * (c * 256 + v)) % 512 + (c * 256 + v) / 256) % 256 := by
  decide
theorem rl_carry : ∀ c < 2, ∀ v < 256,
    (v >>> 7) % 2 = ((2 * (c * 256 + v)) % 512 + (c * 256 + v) / 256) / 256 := by
  decide
theorem rr_value : ∀ c < 2, ∀ v < 256,
    ((v >>> 1) ||| (c <<< 7)) % 256 = ((c * 256 + v) / 2 + ((c * 256 + v) % 2) * 256) % 256 := by
  decide
theorem rr_carry : ∀ c < 2, ∀ v < 256,
    (v &&& 1) % 2 = ((c * 256 + v) / 2 + ((c * 256 + v) % 2) * 256) / 256 := by
  decide
theorem shift_carry_hi : ∀ v < 256, (v >>> 7) % 2 = v / 128 := by decide
theorem shift_carry_lo : ∀ v < 256, (v &&& 1) % 2 = v % 2 := by decide
theorem sla_value : ∀ v < 256, (v <<< 1) % 256 = (2 * v) % 256 := by decide
theorem sra_value : ∀ v < 256, ((v >>> 1) ||| (v &&& 0x80)) % 256 = v / 2 + (v / 128) * 128 := by
  decide
theorem srl_value : ∀ v < 256, (v >>> 1) % 256 = v / 2 := by decide
theorem swap_value : ∀ v < 256, ((v >>> 4) ||| (v <<< 4)) % 256 = (v % 16) * 16 + v / 16 := by
  decide

end CppGB

namespace CppGB
namespace Cpu

set_option maxRecDepth 100000

theorem executeOpcode_ADD_SP_e (s : Cpu) :
    executeOpcode 0xE8 s = Except.ok (doCycle 1
      { (add_SP_e s).2 with
        m_registers := { (add_SP_e s).2.m_registers with SP := (add_SP_e s).1 } }) := rfl

theorem executeOpcode_LDHL_SP_e (s : Cpu) :
    executeOpcode 0xF8 s = Except.ok
      { (add_SP_e s).2 with m_registers := (add_SP_e s).2.m_registers.setHL (add_SP_e s).1 } := rfl

end Cpu
end CppGB

namespace CppGB

theorem s8_of_byte (e : Nat) (he : e < 256) :
    s8 e = if e < 128 then (e : Int) else (e : Int) - 256 := by
  unfold s8
  rw [Nat.mod_eq_of_lt he]

theorem u16_cast (x : Int) : ((u16 x : Nat) : Int) = x % 65536 := by
  unfold u16
  omega

theorem u16_lt (x : Int) : u16 x < 65536 := by
  unfold u16
  omega

theorem Registers.HL_setHL (r : Registers) (v : Nat) (hv : v < 65536) : (r.setHL v).HL = v := by
  show (((v >>> 8) % 256) <<< 8) ||| (v % 256) = v
  rw [shl8_or _ _ (Nat.mod_lt _ (by decide)), shr8]
  omega

namespace Cpu

theorem add_SP_e_fst (s : Cpu) :
    (add_SP_e s).1 = u16 ((s.m_registers.SP : Int) + s8 (fetch_u8 s).1) := by
  simp only [add_SP_e, doCycle_m_registers, fetch_u8_m_registers]

theorem add_SP_e_m_registers (s : Cpu) :
    (add_SP_e s).2.m_registers =
      { s.m_registers with
        PC := (s.m_registers.PC + 1) % 65536
        F := (((s.m_registers.F.setH
            (if (s.m_registers.SP &&& 0x000F) + ((fetch_u8 s).1 &&& 0x0F) > 0x0F then 1 else 0)).setC
            (if (s.m_registers.SP &&& 0x00FF) + (fetch_u8 s).1 > 0xFF then 1 else 0)).setZ 0).setN
            0 } := by
  simp only [add_SP_e, doCycle_m_registers, fetch_u8_m_registers]

end Cpu
end CppGB

namespace CppGB
namespace Cpu

set_option maxRecDepth 100000

theorem executeOpcode_RLCA (s : Cpu) :
    ∃ t, executeOpcode 0x07 s = Except.ok t ∧
      t.m_registers.A = (rlc s.m_registers.A s.m_registers).1 ∧
      t.m_registers.F.C = (rlc s.m_registers.A s.m_registers).2.F.C ∧
      t.m_registers.F.Z = 0 :=
  ⟨_, rfl, rfl, by simp only [rlc, Flags.C_setH, Flags.C_setN, Flags.C_setZ],
    by simp only [Flags.Z_setH, Flags.Z_setN, Flags.Z_setZ]⟩

theorem executeOpcode_RRCA (s : Cpu) :
    ∃ t, executeOpcode 0x0F s = Except.ok t ∧
      t.m_registers.A = (rrc s.m_registers.A s.m_registers).1 ∧
      t.m_registers.F.C = (rrc s.m_registers.A s.m_registers).2.F.C ∧
      t.m_registers.F.Z = 0 :=
  ⟨_, rfl, rfl, by simp only [rrc, Flags.C_setH, Flags.C_setN, Flags.C_setZ],
    by simp only [Flags.Z_setH, Flags.Z_setN, Flags.Z_setZ]⟩

theorem executeOpcode_RLA (s : Cpu) :
    ∃ t, executeOpcode 0x17 s = Except.ok t ∧
      t.m_registers.A = (rl s.m_registers.A s.m_registers).1 ∧
      t.m_registers.F.C = (rl s.m_registers.A s.m_registers).2.F.C ∧
      t.m_registers.F.Z = 0 :=
  ⟨_, rfl, rfl, by simp only [rl, Flags.C_setH, Flags.C_setN, Flags.C_setZ],
    by simp only [Flags.Z_setH, Flags.Z_setN, Flags.Z_setZ]⟩

theorem executeOpcode_RRA (s : Cpu) :
    ∃ t, executeOpcode 0x1F s = Except.ok t ∧
      t.m_registers.A = (rr s.m_registers.A s.m_registers).1 ∧
      t.m_registers.F.C = (rr s.m_registers.A s.m_registers).2.F.C ∧
      t.m_registers.F.Z = 0 :=
  ⟨_, rfl, rfl, by simp only [rr, Flags.C_setH, Flags.C_setN, Flags.C_setZ],
    by simp only [Flags.Z_setH, Flags.Z_setN, Flags.Z_setZ]⟩

theorem zero_flag_mod (x : Nat) : (if x = 0 then 1 else 0) % 2 = (if x = 0 then 1 else 0) := by
  split <;> rfl

end Cpu
end CppGB

namespace CppGB
namespace Cpu

theorem daa_A (r : Registers) : (daa r).A =
    (if r.F.N ≠ 0 then
      (if r.F.H ≠ 0 then u16 (((if r.F.C ≠ 0 then u16 ((r.A : Int) - 0x60) else r.A : Nat) : Int) - 0x06)
        else (if r.F.C ≠ 0 then u16 ((r.A : Int) - 0x60) else r.A))
    else
      (if r.F.C ≠ 0 ∨ (if r.F.H ≠ 0 ∨ (r.A &&& 0x0F) > 0x09 then (r.A + 0x06) % 65536 else r.A) > 0x9F
        then ((if r.F.H ≠ 0 ∨ (r.A &&& 0x0F) > 0x09 then (r.A + 0x06) % 65536 else r.A) + 0x60) % 65536
        else (if r.F.H ≠ 0 ∨ (r.A &&& 0x0F) > 0x09 then (r.A + 0x06) % 65536 else r.A))) % 256 := by
  unfold daa
  split <;> rfl

theorem daa_N (r : Registers) : (daa r).F.N = r.F.N := by
  unfold daa
  simp only [Flags.N_setH, Flags.N_setZ]
  split
  · rfl
  · simp only [apply_ite Registers.F, apply_ite Flags.N, Flags.N_setC, ite_self]

theorem daa_H (r : Registers) : (daa r).F.H = 0 := by
  unfold daa
  simp only [Flags.H_setH]

theorem daa_Z (r : Registers) : (daa r).F.Z = if (daa r).A = 0 then 1 else 0 := by
  unfold daa
  simp only [Flags.Z_setH, Flags.Z_setZ]
  exact zero_flag_mod _

theorem daa_C (r : Registers) : (daa r).F.C =
    if r.F.N ≠ 0 then r.F.C
    else if (if r.F.C ≠ 0 ∨ (if r.F.H ≠ 0 ∨ (r.A &&& 0x0F) > 0x09 then (r.A + 0x06) % 65536 else r.A) > 0x9F
        then ((if r.F.H ≠ 0 ∨ (r.A &&& 0x0F) > 0x09 then (r.A + 0x06) % 65536 else r.A) + 0x60) % 65536
        else (if r.F.H ≠ 0 ∨ (r.A &&& 0x0F) > 0x09 then (r.A + 0x06) % 65536 else r.A)) > 0xFF
      then 1 else r.F.C := by
  unfold daa
  simp only [Flags.C_setH, Flags.C_setZ]
  split
  · rfl
  · simp only [apply_ite Registers.F, apply_ite Flags.C, Flags.C_setC]

theorem bool_flag_mod (c : Prop) [Decidable c] : (if c then 1 else 0) % 2 = (if c then 1 else 0) := by
  split <;> rfl

theorem bool_flag_ne_zero (c : Prop) [Decidable c] : (if c then 1 else 0) ≠ 0 ↔ c := by
  split <;> simp [*]

theorem add_A_A (v : Nat) (r : Registers) : (add_A v r).A = (r.A + v) % 65536 % 256 := by
  simp only [add_A]

theorem add_A_N (v : Nat) (r : Registers) : (add_A v r).F.N = 0 := by
  simp only [add_A, Flags.N_setN]

theorem add_A_H (v : Nat) (r : Registers) :
    (add_A v r).F.H = (if (r.A &&& 0x0F) + (v &&& 0x0F) > 0x0F then 1 else 0) := by
  simp only [add_A, Flags.H_setN, Flags.H_setZ, Flags.H_setH, bool_flag_mod]

theorem add_A_C (v : Nat) (r : Registers) :
    (add_A v r).F.C = (if (r.A + v) % 65536 > 0xFF then 1 else 0) := by
  simp only [add_A, Flags.C_setN, Flags.C_setZ, Flags.C_setH, Flags.C_setC, bool_flag_mod]

theorem add_A_Z (v : Nat) (r : Registers) :
    (add_A v r).F.Z = (if (add_A v r).A = 0 then 1 else 0) := by
  simp only [add_A, Flags.Z_setN, Flags.Z_setZ, bool_flag_mod]

theorem and_15 (x : Nat) : x &&& 15 = x % 16 := Nat.and_pow_two_sub_one_eq_mod x 4

set_option maxRecDepth 100000 in
/-- The decimal adjustment after an addition, tabulated over the sum `H` of the two high
digits and the sum `L` of the two low digits. -/
theorem bcd_add_table : ∀ H < 19, ∀ L < 19,
    (if (16 * H + L) % 65536 > 255 ∨
        (if L > 15 ∨ (16 * H + L) % 65536 % 256 % 16 > 9 then ((16 * H + L) % 65536 % 256 + 6) % 65536
          else (16 * H + L) % 65536 % 256) > 159 then
      ((if L > 15 ∨ (16 * H + L) % 65536 % 256 % 16 > 9 then ((16 * H + L) % 65536 % 256 + 6) % 65536
          else (16 * H + L) % 65536 % 256) + 96) % 65536
    else
      (if L > 15 ∨ (16 * H + L) % 65536 % 256 % 16 > 9 then ((16 * H + L) % 65536 % 256 + 6) % 65536
          else (16 * H + L) % 65536 % 256)) % 256 = bcdByte ((10 * H + L) % 100) ∧
    (if (if (16 * H + L) % 65536 > 255 ∨
        (if L > 15 ∨ (16 * H + L) % 65536 % 256 % 16 > 9 then ((16 * H + L) % 65536 % 256 + 6) % 65536
          else (16 * H + L) % 65536 % 256) > 159 then
      ((if L > 15 ∨ (16 * H + L) % 65536 % 256 % 16 > 9 then ((16 * H + L) % 65536 % 256 + 6) % 65536
          else (16 * H + L) % 65536 % 256) + 96) % 65536
    else
      (if L > 15 ∨ (16 * H + L) % 65536 % 256 % 16 > 9 then ((16 * H + L) % 65536 % 256 + 6) % 65536
          else (16 * H + L) % 65536 % 256)) > 255 then 1
      else if (16 * H + L) % 65536 > 255 then 1 else 0) = (if 10 * H + L ≥ 100 then 1 else 0) := by
  decide

/-- The decimal adjustment of a sum of two packed-BCD bytes. -/
theorem daa_add_A_facts (r : Registers) (a b : Nat) (ha : r.A = a) (hpa : isPackedBcd a)
    (hpb : isPackedBcd b) :
    (daa (add_A b r)).A = bcdByte ((bcdValue a + bcdValue b) % 100) ∧
      (daa (add_A b r)).F.C = (if bcdValue a + bcdValue b ≥ 100 then 1 else 0) ∧
      (daa (add_A b r)).F.Z = (if (daa (add_A b r)).A = 0 then 1 else 0) ∧
      (daa (add_A b r)).F.H = 0 ∧
      (daa (add_A b r)).F.N = 0 := by
  subst ha
  unfold isPackedBcd at hpa hpb
  have e1 : r.A + b = 16 * (r.A / 16 + b / 16) + (r.A % 16 + b % 16) := by omega
  have e3 : bcdValue r.A + bcdValue b = 10 * (r.A / 16 + b / 16) + (r.A % 16 + b % 16) := by
    unfold bcdValue
    omega
  have hH : r.A / 16 + b / 16 < 19 := by omega
  have hL : r.A % 16 + b % 16 < 19 := by omega
  refine ⟨?_, ?_, daa_Z _, daa_H _, ?_⟩
  · rw [daa_A]
    simp only [add_A_A, add_A_N, add_A_H, add_A_C, bool_flag_ne_zero, and_15, ne_eq,
      not_true_eq_false, if_false]
    rw [e1, e3]
    exact (bcd_add_table _ hH _ hL).1
  · rw [daa_C]
    simp only [add_A_A, add_A_N, add_A_H, add_A_C, bool_flag_ne_zero, and_15, ne_eq,
      not_true_eq_false, if_false]
    rw [e1, e3]
    exact (bcd_add_table _ hH _ hL).2
  · rw [daa_N, add_A_N]

set_option maxRecDepth 100000 in
theorem executeOpcode_ADD_A_n_DAA (s : Cpu) :
    ∃ t1 t2, executeOpcode 0xC6 s = Except.ok t1 ∧ executeOpcode 0x27 t1 = Except.ok t2 ∧
      t2.m_registers = daa (add_A (fetch_u8 s).1 (fetch_u8 s).2.m_registers) :=
  ⟨_, _, rfl, rfl, rfl⟩

end Cpu
end CppGB

namespace CppGB
namespace Cpu

theorem sub_A (v : Nat) (r : Registers) : (sub v r).A = u8 ((r.A : Int) - (v : Int)) := by
  simp only [sub, cp]

theorem sub_N (v : Nat) (r : Registers) : (sub v r).F.N = 1 := by
  simp only [sub, cp, Flags.N_setN]

theorem sub_H (v : Nat) (r : Registers) :
    (sub v r).F.H = (if (r.A &&& 0x0F) < (v &&& 0x0F) then 1 else 0) := by
  simp only [sub, cp, Flags.H_setN, Flags.H_setH, bool_flag_mod]

theorem sub_C (v : Nat) (r : Registers) : (sub v r).F.C = (if r.A < v then 1 else 0) := by
  simp only [sub, cp, Flags.C_setN, Flags.C_setH, Flags.C_setC, bool_flag_mod]

set_option maxRecDepth 100000 in
/-- The decimal adjustment after a subtraction, tabulated over the offset differences
`H = 9 + a1 - b1` of the high digits and `L = 9 + a0 - b0` of the low digits. -/
theorem bcd_sub_table : ∀ H < 19, ∀ L < 19,
    (if L < 9 then
        u16 ((((if 16 * H + L < 153 then u16 (((u8 (((16 * H + L : Nat) : Int) - 153) : Nat) : Int) - 96) else u8 (((16 * H + L : Nat) : Int) - 153)) : Nat) : Int) - 6)
      else (if 16 * H + L < 153 then u16 (((u8 (((16 * H + L : Nat) : Int) - 153) : Nat) : Int) - 96) else u8 (((16 * H + L : Nat) : Int) - 153))) % 256
      = bcdByte ((((10 * H + L : Nat) : Int) - 99) % 100).toNat := by
  decide

/-- The decimal adjustment of a difference of two packed-BCD bytes. -/
theorem daa_sub_facts (r : Registers) (a b : Nat) (ha : r.A = a) (hpa : isPackedBcd a)
    (hpb : isPackedBcd b) :
    (daa (sub b r)).A = bcdByte (((bcdValue a : Int) - (bcdValue b : Int)) % 100).toNat ∧
      (daa (sub b r)).F.C = (if bcdValue a < bcdValue b then 1 else 0) ∧
      (daa (sub b r)).F.Z = (if (daa (sub b r)).A = 0 then 1 else 0) ∧
      (daa (sub b r)).F.H = 0 ∧
      (daa (sub b r)).F.N = 1 := by
  subst ha
  unfold isPackedBcd at hpa hpb
  have c1 : r.A % 16 < b % 16 ↔ r.A % 16 + 9 - b % 16 < 9 := by omega
  have c2 : r.A < b ↔ 16 * (r.A / 16 + 9 - b / 16) + (r.A % 16 + 9 - b % 16) < 153 := by omega
  have e1 : (r.A : Int) - (b : Int)
      = ((16 * (r.A / 16 + 9 - b / 16) + (r.A % 16 + 9 - b % 16) : Nat) : Int) - 153 := by omega
  have e3 : (bcdValue r.A : Int) - (bcdValue b : Int)
      = ((10 * (r.A / 16 + 9 - b / 16) + (r.A % 16 + 9 - b % 16) : Nat) : Int) - 99 := by
    unfold bcdValue
    omega
  have hH : r.A / 16 + 9 - b / 16 < 19 := by omega
  have hL : r.A % 16 + 9 - b % 16 < 19 := by omega
  refine ⟨?_, ?_, daa_Z _, daa_H _, ?_⟩
  · rw [daa_A]
    simp only [sub_A, sub_N, sub_H, sub_C, bool_flag_ne_zero, and_15, ne_eq,
      not_true_eq_false, if_false, one_ne_zero, not_false_eq_true, if_true]
    rw [e1, e3]
    simp only [c1, c2]
    exact bcd_sub_table _ hH _ hL
  · rw [daa_C]
    simp only [sub_A, sub_N, sub_H, sub_C, bool_flag_ne_zero, and_15, ne_eq,
      not_true_eq_false, if_false, one_ne_zero, not_false_eq_true, if_true]
    unfold bcdValue
    split_ifs <;> omega
  · rw [daa_N, sub_N]

set_option maxRecDepth 100000 in
theorem executeOpcode_SUB_n_DAA (s : Cpu) :
    ∃ t1 t2, executeOpcode 0xD6 s = Except.ok t1 ∧ executeOpcode 0x27 t1 = Except.ok t2 ∧
      t2.m_registers = daa (sub (fetch_u8 s).1 (fetch_u8 s).2.m_registers) :=
  ⟨_, _, rfl, rfl, rfl⟩

end Cpu
end CppGB

namespace CppGB
namespace Cpu

theorem push_m_ime (value : Nat) (s : Cpu) : (push value s).m_ime = s.m_ime := by
  simp only [push, writeToMemory_m_ime, doCycle_m_ime]

theorem push_m_haltMode (value : Nat) (s : Cpu) : (push value s).m_haltMode = s.m_haltMode := by
  simp only [push, writeToMemory_m_haltMode, doCycle_m_haltMode]

theorem pending_cases (x : Nat) (h0 : x &&& 1 = 0) (h1 : x &&& 2 = 0) (h2 : x &&& 4 = 0)
    (h3 : x &&& 8 = 0) (h4 : x &&& 16 = 0) : x &&& 0x1F = 0 := by
  have e : (0x1F : Nat) = 1 ||| 2 ||| 4 ||| 8 ||| 16 := by decide
  rw [e, Nat.and_or_distrib_left, Nat.and_or_distrib_left, Nat.and_or_distrib_left,
    Nat.and_or_distrib_left, h0, h1, h2, h3, h4]
  rfl

/-- What `performInterrupt` does when `IME` is set and the stack bytes are plain RAM. -/
theorem performInterrupt_ime (flag address : Nat) (s : Cpu) (hime : s.m_ime = true)
    (hSP : s.m_registers.SP < 65536)
    (h1 : s.m_memory.isPlainRam (u16 ((s.m_registers.SP : Int) - 1)))
    (h2 : s.m_memory.isPlainRam (u16 ((u16 ((s.m_registers.SP : Int) - 1) : Int) - 1))) :
    (performInterrupt flag address s).m_ime = false ∧
      (performInterrupt flag address s).m_haltMode = false ∧
      (performInterrupt flag address s).m_registers.SP + 2 = s.m_registers.SP ∧
      (performInterrupt flag address s).m_memory.read (s.m_registers.SP - 2)
        = s.m_registers.PC &&& 0x00FF ∧
      (performInterrupt flag address s).m_memory.read (s.m_registers.SP - 1)
        = (s.m_registers.PC >>> 8) % 256 ∧
      (performInterrupt flag address s).m_registers.PC = address ∧
      (∃ x, x < 8 ∧
        (performInterrupt flag address s).m_memory.IF = (s.m_memory.IF ||| x) ^^^ flag) ∧
      (s.m_memory.TAC &&& 0x04 = 0 → s.m_memory.LCDC &&& 0x80 = 0 →
        (performInterrupt flag address s).m_memory.IF = s.m_memory.IF ^^^ flag) := by
  obtain ⟨a1, a2, hlo⟩ := stack_addresses s.m_memory s.m_registers.SP hSP h1 h2
  generalize hs0 : ({ s with m_haltMode := false, m_ime := false } : Cpu) = s0
  have r0 : s0.m_registers = s.m_registers := by rw [← hs0]
  have m0 : s0.m_memory = s.m_memory := by rw [← hs0]
  have i0 : s0.m_ime = false := by rw [← hs0]
  have t0 : s0.m_haltMode = false := by rw [← hs0]
  have e : performInterrupt flag address s =
      { (push s.m_registers.PC s0) with
        m_registers := { s.m_registers with
          SP := u16 ((u16 ((s.m_registers.SP : Int) - 1) : Int) - 1), PC := address }
        m_memory := { (push s.m_registers.PC s0).m_memory with
          IF := (push s.m_registers.PC s0).m_memory.IF ^^^ flag } } := by
    simp only [performInterrupt, rst, hime, if_true, push_m_registers, hs0, r0]
  have h1' : s0.m_memory.isPlainRam (u16 ((s0.m_registers.SP : Int) - 1)) := by
    rw [r0, m0]
    exact h1
  have h2' : s0.m_memory.isPlainRam (u16 ((u16 ((s0.m_registers.SP : Int) - 1) : Int) - 1)) := by
    rw [r0, m0]
    exact h2
  have hi := push_m_ime s.m_registers.PC s0
  have hh := push_m_haltMode s.m_registers.PC s0
  obtain ⟨p1, p2, p3⟩ := push_plain s.m_registers.PC s0 h1' h2'
  obtain ⟨q1, q2⟩ := push_plain_IF s.m_registers.PC s0 h1' h2'
  rw [r0, a2] at p1
  rw [r0, a1] at p2
  rw [m0] at q1 q2
  generalize push s.m_registers.PC s0 = t at e p1 p2 p3 q1 q2 hi hh
  rw [e]
  refine ⟨?_, ?_, ?_, ?_, ?_, rfl, ?_, ?_⟩
  · show t.m_ime = false
    rw [hi, i0]
  · show t.m_haltMode = false
    rw [hh, t0]
  · show u16 ((u16 ((s.m_registers.SP : Int) - 1) : Int) - 1) + 2 = s.m_registers.SP
    rw [a2]
    omega
  · have hp : t.m_memory.isPlainRam (s.m_registers.SP - 2) :=
      (p3 _).2 (by rw [m0, ← a2]; exact h2)
    exact (@Memory.read_congr t.m_memory { t.m_memory with IF := t.m_memory.IF ^^^ flag }
      rfl rfl rfl _ hp).trans p1
  · have hp : t.m_memory.isPlainRam (s.m_registers.SP - 1) :=
      (p3 _).2 (by rw [m0, ← a1]; exact h1)
    exact (@Memory.read_congr t.m_memory { t.m_memory with IF := t.m_memory.IF ^^^ flag }
      rfl rfl rfl _ hp).trans p2
  · obtain ⟨x, hx, hx2⟩ := q1
    exact ⟨x, hx, by show t.m_memory.IF ^^^ flag = _; rw [hx2]⟩
  · intro hT hL
    show t.m_memory.IF ^^^ flag = _
    rw [q2 hT hL]

theorem performInterrupt_not_ime (flag address : Nat) (s : Cpu) (hime : s.m_ime = false) :
    performInterrupt flag address s = { s with m_haltMode := false } := by
  simp only [performInterrupt, hime]
  rfl

theorem testBit_of_pending (a b k : Nat) (h : a &&& b &&& (1 <<< k) ≠ 0) :
    a.testBit k = true := by
  by_contra hc
  apply h
  apply Nat.eq_of_testBit_eq
  intro i
  rw [Nat.one_shiftLeft, Nat.testBit_and, Nat.testBit_and, Nat.testBit_two_pow, Nat.zero_testBit]
  by_cases hik : k = i
  · subst hik
    simp [hc]
  · simp [hik]

theorem serviced_bit_cleared (a x k : Nat) (h : a.testBit k = true) :
    ((a ||| x) ^^^ (1 <<< k)).testBit k = false := by
  rw [Nat.testBit_xor, Nat.testBit_or, Nat.one_shiftLeft, Nat.testBit_two_pow, h]
  simp

/-- The source that `handleInterrupts` dispatches: the lowest-numbered bit of `IF & IE`. -/
theorem handleInterrupts_lowest (s : Cpu)
    (hpend : s.m_memory.IF &&& s.m_memory.IE &&& 0x1F ≠ 0) :
    ∃ k, k < 5 ∧ s.m_memory.IF &&& s.m_memory.IE &&& (1 <<< k) ≠ 0 ∧
      (∀ j, j < k → s.m_memory.IF &&& s.m_memory.IE &&& (1 <<< j) = 0) ∧
      handleInterrupts s = performInterrupt (1 <<< k) (0x40 + 8 * k) s := by
  by_cases c0 : s.m_memory.IF &&& s.m_memory.IE &&& 0x01 = 0
  swap
  · refine ⟨0, by decide, c0, fun j hj => absurd hj (Nat.not_lt_zero j), ?_⟩
    unfold handleInterrupts
    rw [if_pos c0]
    rfl
  by_cases c1 : s.m_memory.IF &&& s.m_memory.IE &&& 0x02 = 0
  swap
  · refine ⟨1, by decide, c1, ?_, ?_⟩
    · intro j hj
      interval_cases j
      exact c0
    · unfold handleInterrupts
      rw [if_neg (not_not.2 c0), if_pos c1]
      rfl
  by_cases c2 : s.m_memory.IF &&& s.m_memory.IE &&& 0x04 = 0
  swap
  · refine ⟨2, by decide, c2, ?_, ?_⟩
    · intro j hj
      interval_cases j
      · exact c0
      · exact c1
    · unfold handleInterrupts
      rw [if_neg (not_not.2 c0), if_neg (not_not.2 c1), if_pos c2]
      rfl
  by_cases c3 : s.m_memory.IF &&& s.m_memory.IE &&& 0x08 = 0
  swap
  · refine ⟨3, by decide, c3, ?_, ?_⟩
    · intro j hj
      interval_cases j
      · exact c0
      · exact c1
      · exact c2
    · unfold handleInterrupts
      rw [if_neg (not_not.2 c0), if_neg (not_not.2 c1), if_neg (not_not.2 c2), if_pos c3]
      rfl
  by_cases c4 : s.m_memory.IF &&& s.m_memory.IE &&& 0x10 = 0
  swap
  · refine ⟨4, by decide, c4, ?_, ?_⟩
    · intro j hj
      interval_cases j
      · exact c0
      · exact c1
      · exact c2
      · exact c3
    · unfold handleInterrupts
      rw [if_neg (not_not.2 c0), if_neg (not_not.2 c1), if_neg (not_not.2 c2),
        if_neg (not_not.2 c3), if_pos c4]
      rfl
  exact absurd (pending_cases _ c0 c1 c2 c3 c4) hpend

end Cpu
end CppGB

namespace CppGB

namespace Cpu

theorem run_reachable (keys : List KeyboardState) :
    ∀ s t, Reachable s → run keys s = Except.ok t → Reachable t := by
  induction keys with
  | nil =>
    intro s t hs h
    simp only [run, Except.ok.injEq] at h
    rw [← h]
    exact hs
  | cons k rest ih =>
    intro s t hs h
    simp only [run] at h
    cases hp : runPass k s with
    | error e =>
      rw [hp] at h
      cases h
    | ok u =>
      rw [hp] at h
      exact ih u t (Reachable.pass k hs hp) h

end Cpu
end CppGB

namespace CppGB

namespace Cpu

theorem inc_facts (r : Registers) (v : Nat) :
    (inc v r).1 = (v + 1) % 256 ∧
      (inc v r).2.F.H = (if v &&& 0xF = 0xF then 1 else 0) ∧
      (inc v r).2.F.Z = (if (inc v r).1 = 0 then 1 else 0) ∧
      (inc v r).2.F.N = 0 ∧
      (inc v r).2.F.C = r.F.C := by
  refine ⟨?_, ?_, ?_, ?_, ?_⟩ <;>
    simp only [inc, Flags.Z_setZ, Flags.Z_setN, Flags.N_setN, Flags.H_setN, Flags.H_setZ,
      Flags.H_setH, Flags.C_setN, Flags.C_setZ, Flags.C_setH, bool_flag_mod]

theorem dec_facts (r : Registers) (v : Nat) :
    (((dec v r).1 : Nat) : Int) = ((v : Int) - 1) % 256 ∧
      (dec v r).2.F.H = (if v &&& 0xF = 0 then 1 else 0) ∧
      (dec v r).2.F.Z = (if (dec v r).1 = 0 then 1 else 0) ∧
      (dec v r).2.F.N = 1 ∧
      (dec v r).2.F.C = r.F.C := by
  refine ⟨?_, ?_, ?_, ?_, ?_⟩ <;>
    simp only [dec, Flags.Z_setZ, Flags.Z_setN, Flags.N_setN, Flags.H_setN, Flags.H_setZ,
      Flags.H_setH, Flags.C_setN, Flags.C_setZ, Flags.C_setH, bool_flag_mod, u8_cast]

set_option maxRecDepth 100000 in
theorem executeOpcode_INC_DEC_r (s : Cpu) : ∀ x ∈ incDecRegisters,
    (∃ t, executeOpcode x.1 s = Except.ok t ∧
      x.2.2 t.m_registers = (inc (x.2.2 s.m_registers) s.m_registers).1 ∧
      t.m_registers.F = (inc (x.2.2 s.m_registers) s.m_registers).2.F) ∧
    (∃ t, executeOpcode x.2.1 s = Except.ok t ∧
      x.2.2 t.m_registers = (dec (x.2.2 s.m_registers) s.m_registers).1 ∧
      t.m_registers.F = (dec (x.2.2 s.m_registers) s.m_registers).2.F) := by
  intro x hx
  simp only [incDecRegisters, List.mem_cons, List.mem_singleton, List.not_mem_nil,
    or_false] at hx
  rcases hx with h | h | h | h | h | h | h <;> subst h <;>
    exact ⟨⟨_, rfl, rfl, rfl⟩, ⟨_, rfl, rfl, rfl⟩⟩

set_option maxRecDepth 100000 in
theorem executeOpcode_INC_HL (s : Cpu) :
    executeOpcode 0x34 s = Except.ok (writeToMemory s.m_registers.HL
      (inc (readMemory_u8 s.m_registers.HL s).1 s.m_registers).1
      { (doCycle 1 s) with
        m_registers := (inc (readMemory_u8 s.m_registers.HL s).1 s.m_registers).2 }) := by
  have e : executeOpcode 0x34 s = Except.ok (writeToMemory
      (inc (readMemory_u8 s.m_registers.HL s).1
        (readMemory_u8 s.m_registers.HL s).2.m_registers).2.HL
      (inc (readMemory_u8 s.m_registers.HL s).1
        (readMemory_u8 s.m_registers.HL s).2.m_registers).1
      { (readMemory_u8 s.m_registers.HL s).2 with
        m_registers := (inc (readMemory_u8 s.m_registers.HL s).1
          (readMemory_u8 s.m_registers.HL s).2.m_registers).2 }) := rfl
  rw [e, readMemory_u8_snd, doCycle_m_registers]
  rfl

set_option maxRecDepth 100000 in
theorem executeOpcode_DEC_HL (s : Cpu) :
    executeOpcode 0x35 s = Except.ok (writeToMemory s.m_registers.HL
      (dec (readMemory_u8 s.m_registers.HL s).1 s.m_registers).1
      { (doCycle 1 s) with
        m_registers := (dec (readMemory_u8 s.m_registers.HL s).1 s.m_registers).2 }) := by
  have e : executeOpcode 0x35 s = Except.ok (writeToMemory
      (dec (readMemory_u8 s.m_registers.HL s).1
        (readMemory_u8 s.m_registers.HL s).2.m_registers).2.HL
      (dec (readMemory_u8 s.m_registers.HL s).1
        (readMemory_u8 s.m_registers.HL s).2.m_registers).1
      { (readMemory_u8 s.m_registers.HL s).2 with
        m_registers := (dec (readMemory_u8 s.m_registers.HL s).1
          (readMemory_u8 s.m_registers.HL s).2.m_registers).2 }) := rfl
  rw [e, readMemory_u8_snd, doCycle_m_registers]
  rfl

/-- Writing back through `(HL)` in plain RAM: the cell holds the new value and the registers
are the ones handed in. -/
theorem write_back_plain (s : Cpu) (a v : Nat) (r : Registers)
    (hp : s.m_memory.isPlainRam a) :
    (writeToMemory a v { (doCycle 1 s) with m_registers := r }).m_memory.read a = v ∧
      (writeToMemory a v { (doCycle 1 s) with m_registers := r }).m_registers = r := by
  constructor
  · exact read_writeToMemory_same a v _ ((isPlainRam_doCycle 1 a s).2 hp)
  · rw [writeToMemory_m_registers]

end Cpu
end CppGB

/-! ## Steps that stay inside the arrays -/

namespace CppGB

namespace DisplayController

/-! ### The clock leaves the bank-indexed arrays aside -/

theorem updateLY_setArrays (value : Nat) (s : Cpu) (X : ByteVector) (Y Z : Nat → Nat) :
    updateLY value (s.setArrays X Y Z) = (updateLY value s).setArrays X Y Z := by
  unfold updateLY Cpu.setArrays Memory.setArrays
  dsimp only
  split <;> rfl

theorem changeMode_setArrays (flag : Nat) (s : Cpu) (X : ByteVector) (Y Z : Nat → Nat) :
    changeMode flag (s.setArrays X Y Z) = (changeMode flag s).setArrays X Y Z := rfl

theorem requestInterrupt_setArrays (flag : Nat) (s : Cpu) (X : ByteVector) (Y Z : Nat → Nat) :
    Cpu.requestInterrupt flag (s.setArrays X Y Z)
      = (Cpu.requestInterrupt flag s).setArrays X Y Z := rfl

theorem setArrays_counter (s : Cpu) (c : Nat) (X : ByteVector) (Y Z : Nat → Nat) :
    ({ s.setArrays X Y Z with m_displayController :=
        { s.m_displayController with m_cycleCounter := c } } : Cpu)
      = Cpu.setArrays X Y Z { s with m_displayController :=
          { s.m_displayController with m_cycleCounter := c } } := rfl

theorem setArrays_STAT (s : Cpu) (X : ByteVector) (Y Z : Nat → Nat) :
    (s.setArrays X Y Z).m_memory.STAT = s.m_memory.STAT := rfl

theorem setArrays_LY (s : Cpu) (X : ByteVector) (Y Z : Nat → Nat) :
    (s.setArrays X Y Z).m_memory.LY = s.m_memory.LY := rfl

theorem setArrays_HDMA5 (s : Cpu) (X : ByteVector) (Y Z : Nat → Nat) :
    (s.setArrays X Y Z).m_memory.HDMA5 = s.m_memory.HDMA5 := rfl

theorem setArrays_m_displayController (s : Cpu) (X : ByteVector) (Y Z : Nat → Nat) :
    (s.setArrays X Y Z).m_displayController = s.m_displayController := rfl

theorem doCycleSwitch_setArrays (s : Cpu) (X : ByteVector) (Y Z : Nat → Nat)
    (h : s.m_memory.HDMA5 &&& 0x80 ≠ 0) :
    doCycleSwitch (s.setArrays X Y Z) = (doCycleSwitch s).setArrays X Y Z := by
  have h1 : (changeMode HBLANK_MODE_FLAG s).m_memory.HDMA5 &&& 0x80 ≠ 0 := h
  unfold doCycleSwitch
  simp only [setArrays_counter, updateLY_setArrays, changeMode_setArrays,
    requestInterrupt_setArrays, apply_ite (Cpu.setArrays X Y Z), setArrays_STAT, setArrays_LY,
    setArrays_HDMA5, setArrays_m_displayController, if_neg h1]

theorem pipelineCycle_setArrays (s : Cpu) (X : ByteVector) (Y Z : Nat → Nat)
    (h : s.m_memory.HDMA5 &&& 0x80 ≠ 0) :
    DisplayController.doCycle (s.setArrays X Y Z)
      = (DisplayController.doCycle s).setArrays X Y Z := by
  unfold DisplayController.doCycle
  by_cases hl : s.m_memory.LCDC &&& 0x80 = 0
  · rw [if_pos hl, if_pos (show (s.setArrays X Y Z).m_memory.LCDC &&& 0x80 = 0 from hl)]
  · rw [if_neg hl, if_neg (show ¬ (s.setArrays X Y Z).m_memory.LCDC &&& 0x80 = 0 from hl)]
    exact doCycleSwitch_setArrays { s with m_displayController := { s.m_displayController with
      m_cycleCounter := (s.m_displayController.m_cycleCounter + 1) % 256 } } X Y Z h

end DisplayController
end CppGB

namespace CppGB

namespace DisplayController

theorem updateLY_HDMA5 (value : Nat) (s : Cpu) :
    (updateLY value s).m_memory.HDMA5 = s.m_memory.HDMA5 := by
  unfold updateLY
  dsimp only
  split <;> rfl

theorem changeMode_HDMA5 (flag : Nat) (s : Cpu) :
    (changeMode flag s).m_memory.HDMA5 = s.m_memory.HDMA5 := rfl

theorem requestInterrupt_HDMA5 (flag : Nat) (s : Cpu) :
    (Cpu.requestInterrupt flag s).m_memory.HDMA5 = s.m_memory.HDMA5 := rfl

theorem doCycleSwitch_HDMA5 (s : Cpu) (h : s.m_memory.HDMA5 &&& 0x80 ≠ 0) :
    (doCycleSwitch s).m_memory.HDMA5 = s.m_memory.HDMA5 := by
  have h1 : (changeMode HBLANK_MODE_FLAG s).m_memory.HDMA5 &&& 0x80 ≠ 0 := h
  unfold doCycleSwitch
  simp only [if_neg h1, if_neg h, apply_ite Cpu.m_memory, apply_ite Memory.HDMA5, changeMode_HDMA5,
    requestInterrupt_HDMA5, updateLY_HDMA5, ite_self]

theorem pipelineCycle_HDMA5 (s : Cpu) (h : s.m_memory.HDMA5 &&& 0x80 ≠ 0) :
    (DisplayController.doCycle s).m_memory.HDMA5 = s.m_memory.HDMA5 := by
  unfold DisplayController.doCycle
  split
  · rfl
  · have e := doCycleSwitch_HDMA5 { s with m_displayController := { s.m_displayController with
      m_cycleCounter := (s.m_displayController.m_cycleCounter + 1) % 256 } } h
    exact e

end DisplayController

namespace Cpu

theorem incrementDIV_setArrays (s : Cpu) (X : ByteVector) (Y Z : Nat → Nat) :
    incrementDIV (s.setArrays X Y Z) = (incrementDIV s).setArrays X Y Z := by
  unfold incrementDIV Cpu.setArrays Memory.setArrays
  dsimp only
  split <;> rfl

theorem incrementTIMA_setArrays (s : Cpu) (X : ByteVector) (Y Z : Nat → Nat) :
    incrementTIMA (s.setArrays X Y Z) = (incrementTIMA s).setArrays X Y Z := by
  unfold incrementTIMA Cpu.setArrays Memory.setArrays
  dsimp only
  split_ifs <;> rfl

theorem incrementDIV_HDMA5 (s : Cpu) : (incrementDIV s).m_memory.HDMA5 = s.m_memory.HDMA5 := by
  unfold incrementDIV
  dsimp only
  split <;> rfl

theorem incrementTIMA_HDMA5 (s : Cpu) :
    (incrementTIMA s).m_memory.HDMA5 = s.m_memory.HDMA5 := by
  unfold incrementTIMA
  dsimp only
  split_ifs <;> rfl

theorem setArrays_displaySwitch (t : Cpu) (b : Bool) (X : ByteVector) (Y Z : Nat → Nat) :
    ({ t.setArrays X Y Z with doCycle_displaySwitch := b } : Cpu)
      = Cpu.setArrays X Y Z { t with doCycle_displaySwitch := b } := rfl

theorem doCycleStep_setArrays (s : Cpu) (X : ByteVector) (Y Z : Nat → Nat)
    (h : s.m_memory.HDMA5 &&& 0x80 ≠ 0) :
    doCycleStep (s.setArrays X Y Z) = (doCycleStep s).setArrays X Y Z := by
  have ht : (incrementTIMA (incrementDIV s)).m_memory.HDMA5 &&& 0x80 ≠ 0 := by
    rw [incrementTIMA_HDMA5, incrementDIV_HDMA5]
    exact h
  unfold doCycleStep
  dsimp only
  rw [incrementDIV_setArrays, incrementTIMA_setArrays]
  generalize incrementTIMA (incrementDIV s) = t at ht
  by_cases hk : t.m_memory.KEY1 &&& 0x80 ≠ 0
  · rw [if_pos hk, if_pos (show (t.setArrays X Y Z).m_memory.KEY1 &&& 0x80 ≠ 0 from hk)]
    by_cases hd : (!t.doCycle_displaySwitch) = true
    · rw [if_pos hd, if_pos (show (!(t.setArrays X Y Z).doCycle_displaySwitch) = true from hd)]
      rfl
    · rw [if_neg hd, if_neg (show ¬ (!(t.setArrays X Y Z).doCycle_displaySwitch) = true from hd)]
      have e := DisplayController.pipelineCycle_setArrays
        { t with doCycle_displaySwitch := !t.doCycle_displaySwitch } X Y Z ht
      rw [← setArrays_displaySwitch] at e
      exact e
  · rw [if_neg hk, if_neg (show ¬ (t.setArrays X Y Z).m_memory.KEY1 &&& 0x80 ≠ 0 from hk)]
    exact DisplayController.pipelineCycle_setArrays t X Y Z ht

theorem doCycleStep_HDMA5 (s : Cpu) (h : s.m_memory.HDMA5 &&& 0x80 ≠ 0) :
    (doCycleStep s).m_memory.HDMA5 = s.m_memory.HDMA5 := by
  have ht : (incrementTIMA (incrementDIV s)).m_memory.HDMA5 = s.m_memory.HDMA5 := by
    rw [incrementTIMA_HDMA5, incrementDIV_HDMA5]
  unfold doCycleStep
  dsimp only
  generalize incrementTIMA (incrementDIV s) = t at ht
  have hi : t.m_memory.HDMA5 &&& 0x80 ≠ 0 := by
    rw [ht]
    exact h
  split_ifs
  · exact ht
  · have e := DisplayController.pipelineCycle_HDMA5
      { t with doCycle_displaySwitch := !t.doCycle_displaySwitch } hi
    exact e.trans ht
  · exact (DisplayController.pipelineCycle_HDMA5 t hi).trans ht

/-- While no HBlank transfer is scheduled, the cycle routine neither reads nor writes
`m_rom`, `m_displayRam` and `m_workRam`: it commutes with any assignment to them. -/
theorem doCycle_setArrays (n : Nat) : ∀ (s : Cpu) (X : ByteVector) (Y Z : Nat → Nat),
    s.m_memory.HDMA5 &&& 0x80 ≠ 0 →
      doCycle n (s.setArrays X Y Z) = (doCycle n s).setArrays X Y Z := by
  induction n with
  | zero => intro s X Y Z _; rfl
  | succ k ih =>
    intro s X Y Z h
    show doCycle k (doCycleStep (s.setArrays X Y Z)) = _
    rw [doCycleStep_setArrays s X Y Z h, ih _ X Y Z (by rw [doCycleStep_HDMA5 s h]; exact h)]
    rfl

theorem doCycle_HDMA5 (n : Nat) : ∀ (s : Cpu), s.m_memory.HDMA5 &&& 0x80 ≠ 0 →
    (doCycle n s).m_memory.HDMA5 = s.m_memory.HDMA5 := by
  induction n with
  | zero => intro s _; rfl
  | succ k ih =>
    intro s h
    show (doCycle k (doCycleStep s)).m_memory.HDMA5 = _
    rw [ih _ (by rw [doCycleStep_HDMA5 s h]; exact h), doCycleStep_HDMA5 s h]

end Cpu
end CppGB

/-! ## Reads inside the arrays -/

namespace CppGB

namespace Memory

theorem checkedAt_isSome {a : Nat → Nat} {length i : Nat} (h : (checkedAt a length i).isSome) :
    i < length := by
  unfold checkedAt at h
  by_cases hi : i < length
  · exact hi
  · rw [if_neg hi] at h
    exact absurd h (by decide)

theorem pastEnd_inside (a g : Nat → Nat) (length i : Nat) (h : i < length) :
    pastEnd a length g i = a i := by
  unfold pastEnd
  exact if_pos h

theorem readRegister_withOutOfBounds (m : Memory) (r d w : Nat → Nat) (a : Nat) :
    (m.withOutOfBounds r d w).readRegister a = m.readRegister a := rfl

theorem externalRamPosition_withOutOfBounds (m : Memory) (r d w : Nat → Nat) (a : Nat) :
    (m.withOutOfBounds r d w).externalRamPosition a = m.externalRamPosition a := rfl

theorem withOutOfBounds_m_externalRam (m : Memory) (r d w : Nat → Nat) :
    (m.withOutOfBounds r d w).m_externalRam = m.m_externalRam := rfl

theorem withOutOfBounds_m_oam (m : Memory) (r d w : Nat → Nat) :
    (m.withOutOfBounds r d w).m_oam = m.m_oam := rfl

theorem withOutOfBounds_m_waveformRam (m : Memory) (r d w : Nat → Nat) :
    (m.withOutOfBounds r d w).m_waveformRam = m.m_waveformRam := rfl

theorem withOutOfBounds_m_stackRam (m : Memory) (r d w : Nat → Nat) :
    (m.withOutOfBounds r d w).m_stackRam = m.m_stackRam := rfl

theorem workRamIndex_withOutOfBounds (m : Memory) (r d w : Nat → Nat) (a : Nat) :
    (m.withOutOfBounds r d w).workRamIndex a = m.workRamIndex a := rfl

theorem withOutOfBounds_m_workRam (m : Memory) (r d w : Nat → Nat) :
    (m.withOutOfBounds r d w).m_workRam = pastEnd m.m_workRam workRamLength w := rfl

/-- A read whose index is inside its array does not see what lies past the arrays. -/
theorem read_withOutOfBounds (m : Memory) (r d w : Nat → Nat) (a : Nat)
    (h : (m.checkedRead a).isSome) : (m.withOutOfBounds r d w).read a = m.read a := by
  unfold checkedRead at h
  unfold read
  by_cases h1 : ROM_START_ADDRESS ≤ a ∧ a ≤ ROM_END_ADDRESS
  · rw [if_pos h1] at h
    rw [if_pos h1, if_pos h1]
    by_cases h2 : a < ROM_BANK_SIZE
    · rw [if_pos h2] at h
      rw [if_pos h2, if_pos h2]
      exact pastEnd_inside _ _ _ _ (checkedAt_isSome h)
    · rw [if_neg h2] at h
      rw [if_neg h2, if_neg h2]
      exact pastEnd_inside _ _ _ _ (checkedAt_isSome h)
  · rw [if_neg h1] at h
    rw [if_neg h1, if_neg h1]
    by_cases h3 : DISPLAYRAM_START_ADDRESS ≤ a ∧ a ≤ DISPLAYRAM_END_ADDRESS
    · rw [if_pos h3] at h
      rw [if_pos h3, if_pos h3]
      exact pastEnd_inside _ _ _ _ (checkedAt_isSome h)
    · rw [if_neg h3] at h
      rw [if_neg h3, if_neg h3]
      by_cases h4 : EXTERNALRAM_START_ADDRESS ≤ a ∧ a ≤ EXTERNALRAM_END_ADDRESS
      · rw [if_pos h4, if_pos h4, externalRamPosition_withOutOfBounds,
          withOutOfBounds_m_externalRam]
      · rw [if_neg h4] at h
        rw [if_neg h4, if_neg h4]
        by_cases h5 : WORKRAM_START_ADDRESS ≤ a ∧ a ≤ WORKRAM_END_ADDRESS
        · rw [if_pos h5] at h
          rw [if_pos h5, if_pos h5, workRamIndex_withOutOfBounds, withOutOfBounds_m_workRam]
          exact pastEnd_inside _ _ _ _ (checkedAt_isSome h)
        · rw [if_neg h5] at h
          rw [if_neg h5, if_neg h5]
          by_cases h6 : ECHORAM_START_ADDRESS ≤ a ∧ a ≤ ECHORAM_END_ADDRESS
          · rw [if_pos h6] at h
            rw [if_pos h6, if_pos h6, workRamIndex_withOutOfBounds, withOutOfBounds_m_workRam]
            exact pastEnd_inside _ _ _ _ (checkedAt_isSome h)
          · rw [if_neg h6, if_neg h6, withOutOfBounds_m_oam, withOutOfBounds_m_waveformRam,
              withOutOfBounds_m_stackRam, readRegister_withOutOfBounds]

theorem checkedAt_inside (a : Nat → Nat) (length i : Nat) (h : i < length) :
    checkedAt a length i = some (a i) := by
  unfold checkedAt
  exact if_pos h

/-- From OAM upwards every read is inside its array. -/
theorem checkedRead_high (m : Memory) (a : Nat) (h : OAM_START_ADDRESS ≤ a) :
    m.checkedRead a = some (m.read a) := by
  simp only [OAM_START_ADDRESS] at h
  have n1 : ¬ (ROM_START_ADDRESS ≤ a ∧ a ≤ ROM_END_ADDRESS) := by
    simp only [ROM_START_ADDRESS, ROM_END_ADDRESS]
    omega
  have n2 : ¬ (DISPLAYRAM_START_ADDRESS ≤ a ∧ a ≤ DISPLAYRAM_END_ADDRESS) := by
    simp only [DISPLAYRAM_START_ADDRESS, DISPLAYRAM_END_ADDRESS]
    omega
  have n3 : ¬ (EXTERNALRAM_START_ADDRESS ≤ a ∧ a ≤ EXTERNALRAM_END_ADDRESS) := by
    simp only [EXTERNALRAM_START_ADDRESS, EXTERNALRAM_END_ADDRESS]
    omega
  have n4 : ¬ (WORKRAM_START_ADDRESS ≤ a ∧ a ≤ WORKRAM_END_ADDRESS) := by
    simp only [WORKRAM_START_ADDRESS, WORKRAM_END_ADDRESS]
    omega
  have n5 : ¬ (ECHORAM_START_ADDRESS ≤ a ∧ a ≤ ECHORAM_END_ADDRESS) := by
    simp only [ECHORAM_START_ADDRESS, ECHORAM_END_ADDRESS]
    omega
  unfold checkedRead read
  rw [if_neg n1, if_neg n1, if_neg n2, if_neg n2, if_neg n3, if_neg n3, if_neg n4, if_neg n4,
    if_neg n5, if_neg n5]
  by_cases h6 : OAM_START_ADDRESS ≤ a ∧ a ≤ OAM_END_ADDRESS
  · rw [if_pos h6, if_pos h6]
    simp only [OAM_START_ADDRESS, OAM_END_ADDRESS] at h6
    exact checkedAt_inside _ _ _ (by simp only [OAM_START_ADDRESS, oamLength]; omega)
  · rw [if_neg h6, if_neg h6]
    by_cases h7 : WAVEFORMRAM_START_ADDRESS ≤ a ∧ a ≤ WAVEFORMRAM_END_ADDRESS
    · rw [if_pos h7, if_pos h7]
      simp only [WAVEFORMRAM_START_ADDRESS, WAVEFORMRAM_END_ADDRESS] at h7
      exact checkedAt_inside _ _ _
        (by simp only [WAVEFORMRAM_START_ADDRESS, waveformRamLength]; omega)
    · rw [if_neg h7, if_neg h7]
      by_cases h8 : STACKRAM_START_ADDRESS ≤ a ∧ a ≤ STACKRAM_END_ADDRESS
      · rw [if_pos h8, if_pos h8]
        simp only [STACKRAM_START_ADDRESS, STACKRAM_END_ADDRESS] at h8
        exact checkedAt_inside _ _ _
          (by simp only [STACKRAM_START_ADDRESS, stackRamLength]; omega)
      · rw [if_neg h8, if_neg h8]

end Memory

namespace Cpu

theorem setArrays_self (s : Cpu) :
    s.setArrays s.m_memory.m_rom s.m_memory.m_displayRam s.m_memory.m_workRam = s := rfl

theorem withOutOfBounds_eq (r d w : Nat → Nat) (s : Cpu) :
    s.withOutOfBounds r d w
      = s.setArrays ⟨s.m_memory.m_rom.size,
          Memory.pastEnd s.m_memory.m_rom.data s.m_memory.m_rom.size r⟩
        (Memory.pastEnd s.m_memory.m_displayRam Memory.displayRamLength d)
        (Memory.pastEnd s.m_memory.m_workRam Memory.workRamLength w) := rfl

/-- A step that commutes with every assignment to `m_rom`, `m_displayRam` and `m_workRam`
neither reads nor writes them, so it stays inside them. -/
theorem staysInBounds_of_setArrays (step : Cpu → Cpu) (s : Cpu)
    (h : ∀ (X : ByteVector) (Y Z : Nat → Nat),
      step (s.setArrays X Y Z) = (step s).setArrays X Y Z) : staysInBounds step s := by
  intro r d w
  have own := h s.m_memory.m_rom s.m_memory.m_displayRam s.m_memory.m_workRam
  rw [setArrays_self] at own
  have e1 : (step s).m_memory.m_rom = s.m_memory.m_rom := by
    have e := congrArg (fun t => t.m_memory.m_rom) own
    exact e
  have e2 : (step s).m_memory.m_displayRam = s.m_memory.m_displayRam := by
    have e := congrArg (fun t => t.m_memory.m_displayRam) own
    exact e
  have e3 : (step s).m_memory.m_workRam = s.m_memory.m_workRam := by
    have e := congrArg (fun t => t.m_memory.m_workRam) own
    exact e
  rw [withOutOfBounds_eq r d w s, h, withOutOfBounds_eq r d w (step s), e1, e2, e3]

/-- While no HBlank transfer is scheduled, the cycle routine stays inside the arrays. -/
theorem doCycle_staysInBounds (n : Nat) (s : Cpu) (h : s.m_memory.HDMA5 &&& 0x80 ≠ 0) :
    staysInBounds (doCycle n) s :=
  staysInBounds_of_setArrays _ s (fun X Y Z => doCycle_setArrays n s X Y Z h)

theorem doCycleStep_staysInBounds (s : Cpu) (h : s.m_memory.HDMA5 &&& 0x80 ≠ 0) :
    staysInBounds doCycleStep s :=
  staysInBounds_of_setArrays _ s (fun X Y Z => doCycleStep_setArrays s X Y Z h)

theorem pipelineCycle_staysInBounds (s : Cpu) (h : s.m_memory.HDMA5 &&& 0x80 ≠ 0) :
    staysInBounds DisplayController.doCycle s :=
  staysInBounds_of_setArrays _ s
    (fun X Y Z => DisplayController.pipelineCycle_setArrays s X Y Z h)

/-- A read whose index is inside its array, made while no HBlank transfer is scheduled, gives
the same byte whatever lies past the arrays, and its cycle leaves that as it was. -/
theorem readMemory_u8_withOutOfBounds (a : Nat) (s : Cpu) (r d w : Nat → Nat)
    (ha : (s.m_memory.checkedRead a).isSome) (hi : s.m_memory.HDMA5 &&& 0x80 ≠ 0) :
    readMemory_u8 a (s.withOutOfBounds r d w)
      = ((readMemory_u8 a s).1, (readMemory_u8 a s).2.withOutOfBounds r d w) := by
  unfold readMemory_u8
  dsimp only
  rw [doCycle_staysInBounds 1 s hi r d w]
  have e : (s.withOutOfBounds r d w).m_memory.read a = s.m_memory.read a :=
    Memory.read_withOutOfBounds s.m_memory r d w a ha
  rw [e]
  rfl

end Cpu
end CppGB

/-! ## Instructions inside the arrays -/

namespace CppGB
namespace Cpu

theorem readMemory_u8_HDMA5 (a : Nat) (s : Cpu) (h : s.m_memory.HDMA5 &&& 0x80 ≠ 0) :
    (readMemory_u8 a s).2.m_memory.HDMA5 = s.m_memory.HDMA5 :=
  doCycle_HDMA5 1 s h

theorem fetch_u8_withOutOfBounds (s : Cpu) (r d w : Nat → Nat)
    (ha : (s.m_memory.checkedRead s.m_registers.PC).isSome)
    (hi : s.m_memory.HDMA5 &&& 0x80 ≠ 0) :
    fetch_u8 (s.withOutOfBounds r d w)
      = ((fetch_u8 s).1, (fetch_u8 s).2.withOutOfBounds r d w) := by
  unfold fetch_u8
  dsimp only
  have e : (s.withOutOfBounds r d w).m_registers = s.m_registers := rfl
  rw [e, readMemory_u8_withOutOfBounds _ s r d w ha hi]
  rfl

theorem withOutOfBounds_m_registers (s : Cpu) (r d w : Nat → Nat) :
    (s.withOutOfBounds r d w).m_registers = s.m_registers := rfl

theorem withOutOfBounds_setRegisters (s : Cpu) (x : Registers) (r d w : Nat → Nat) :
    ({ s.withOutOfBounds r d w with m_registers := x } : Cpu)
      = Cpu.withOutOfBounds r d w { s with m_registers := x } := rfl

/-- `Cpu::pop` with the stack from OAM upwards, while no HBlank transfer is scheduled: both
reads are inside their arrays. -/
theorem pop_withOutOfBounds (s : Cpu) (r d w : Nat → Nat)
    (h1 : Memory.OAM_START_ADDRESS ≤ s.m_registers.SP) (h2 : s.m_registers.SP < 0xFFFF)
    (hi : s.m_memory.HDMA5 &&& 0x80 ≠ 0) :
    pop (s.withOutOfBounds r d w) = ((pop s).1, (pop s).2.withOutOfBounds r d w) := by
  have a1 : (s.m_memory.checkedRead s.m_registers.SP).isSome := by
    rw [Memory.checkedRead_high _ _ h1]
    rfl
  unfold pop
  dsimp only
  rw [withOutOfBounds_m_registers, readMemory_u8_withOutOfBounds _ s r d w a1 hi]
  dsimp only
  rw [withOutOfBounds_m_registers, withOutOfBounds_setRegisters,
    readMemory_u8_withOutOfBounds]
  · dsimp only
    rw [withOutOfBounds_m_registers, withOutOfBounds_setRegisters]
  · have e : Memory.OAM_START_ADDRESS
        ≤ ((readMemory_u8 s.m_registers.SP s).2.m_registers.SP + 1) % 65536 := by
      rw [readMemory_u8_m_registers]
      simp only [Memory.OAM_START_ADDRESS] at h1 ⊢
      omega
    rw [Memory.checkedRead_high _ _ e]
    rfl
  · show (readMemory_u8 s.m_registers.SP s).2.m_memory.HDMA5 &&& 0x80 ≠ 0
    rw [readMemory_u8_HDMA5 _ _ hi]
    exact hi

end Cpu
end CppGB

namespace CppGB
namespace Cpu

/-- `POP AF` with the stack from OAM upwards, fetched from inside the ROM image while no
HBlank transfer is scheduled, stays inside the arrays. -/
theorem popAF_executesInBounds (s t : Cpu) (hop : (fetch_u8 s).1 = 0xF1)
    (hpc : (s.m_memory.checkedRead s.m_registers.PC).isSome)
    (h1 : Memory.OAM_START_ADDRESS ≤ s.m_registers.SP) (h2 : s.m_registers.SP < 0xFFFF)
    (hi : s.m_memory.HDMA5 &&& 0x80 ≠ 0)
    (ht : executeNextInstruction s = Except.ok t) : executesInBounds s t := by
  intro r d w
  have g1 : Memory.OAM_START_ADDRESS ≤ (fetch_u8 s).2.m_registers.SP := by
    rw [fetch_u8_m_registers]
    exact h1
  have g2 : (fetch_u8 s).2.m_registers.SP < 0xFFFF := by
    rw [fetch_u8_m_registers]
    exact h2
  have g3 : (fetch_u8 s).2.m_memory.HDMA5 &&& 0x80 ≠ 0 := by
    rw [fetch_u8_m_memory, doCycle_HDMA5 1 s hi]
    exact hi
  unfold executeNextInstruction at ht ⊢
  dsimp only at ht ⊢
  rw [fetch_u8_withOutOfBounds s r d w hpc hi]
  dsimp only
  rw [hop, executeOpcode_POP_AF] at ht
  rw [hop, executeOpcode_POP_AF, pop_withOutOfBounds _ r d w g1 g2 g3]
  cases ht
  rfl

end Cpu
end CppGB

/-! ## Stores inside the arrays -/

namespace CppGB

namespace Memory

theorem store_pastEnd (a g : Nat → Nat) (length i v : Nat) (h : i < length) :
    store (pastEnd a length g) i v = pastEnd (store a i v) length g := by
  funext j
  unfold store pastEnd
  by_cases hj : j = i
  · rw [if_pos hj]
    show v = if j < length then (if j = i then v else a j) else g j
    rw [if_pos (by omega), if_pos hj]
  · rw [if_neg hj]
    show _ = if j < length then (if j = i then v else a j) else g j
    rw [if_neg hj]

theorem withOutOfBounds_setWorkRam (m : Memory) (r d w : Nat → Nat) (f : Nat → Nat) :
    ({ m.withOutOfBounds r d w with m_workRam := pastEnd f workRamLength w } : Memory)
      = Memory.withOutOfBounds r d w { m with m_workRam := f } := rfl

theorem withOutOfBounds_setStackRam (m : Memory) (r d w : Nat → Nat) (f : Nat → Nat) :
    ({ m.withOutOfBounds r d w with m_stackRam := f } : Memory)
      = Memory.withOutOfBounds r d w { m with m_stackRam := f } := rfl

theorem write_plain_HDMA5 (m : Memory) (a v : Nat) (hp : m.isPlainRam a) :
    (m.write a v).HDMA5 = m.HDMA5 := by
  rcases isPlainRam_cases hp with ⟨h1, h2⟩ | ⟨h1, h2⟩ | ⟨h1, h2⟩
  · rw [write_workRam _ _ _ h1 h2]
  · rw [write_echoRam _ _ _ h1 h2]
  · rw [write_stackRam _ _ _ h1 h2]

/-- A store to plain RAM, inside the array by `isPlainRam`, leaves what lies past the arrays
as it was. -/
theorem write_withOutOfBounds (m : Memory) (r d w : Nat → Nat) (a v : Nat)
    (h : m.isPlainRam a) :
    (m.withOutOfBounds r d w).write a v = (m.write a v).withOutOfBounds r d w := by
  rcases h with ⟨h1, h2, h3⟩ | ⟨h1, h2, h3⟩ | ⟨h1, h2⟩
  · rw [write_workRam _ _ _ h1 h2, write_workRam _ _ _ h1 h2, workRamIndex_withOutOfBounds,
      withOutOfBounds_m_workRam, store_pastEnd _ _ _ _ _ h3, withOutOfBounds_setWorkRam]
  · rw [write_echoRam _ _ _ h1 h2, write_echoRam _ _ _ h1 h2, workRamIndex_withOutOfBounds,
      withOutOfBounds_m_workRam, store_pastEnd _ _ _ _ _ h3, withOutOfBounds_setWorkRam]
  · rw [write_stackRam _ _ _ h1 h2, write_stackRam _ _ _ h1 h2, withOutOfBounds_m_stackRam,
      withOutOfBounds_setStackRam]

end Memory

namespace Cpu

theorem withOutOfBounds_setMemory (s : Cpu) (m : Memory) (r d w : Nat → Nat) :
    ({ s.withOutOfBounds r d w with m_memory := m.withOutOfBounds r d w } : Cpu)
      = Cpu.withOutOfBounds r d w { s with m_memory := m } := rfl

/-- A store to plain RAM, inside the array by `isPlainRam`, made while no HBlank transfer is
scheduled, stays inside the arrays. -/
theorem writeToMemory_plain_staysInBounds (a v : Nat) (s : Cpu) (hp : s.m_memory.isPlainRam a)
    (hi : s.m_memory.HDMA5 &&& 0x80 ≠ 0) : staysInBounds (writeToMemory a v) s := by
  intro r d w
  have hp' : (s.withOutOfBounds r d w).m_memory.isPlainRam a := hp
  have hm : (s.withOutOfBounds r d w).m_memory.write a v
      = (s.m_memory.write a v).withOutOfBounds r d w :=
    Memory.write_withOutOfBounds s.m_memory r d w a v hp
  have hi' : ({ s with m_memory := s.m_memory.write a v } : Cpu).m_memory.HDMA5 &&& 0x80 ≠ 0 := by
    show (s.m_memory.write a v).HDMA5 &&& 0x80 ≠ 0
    rw [Memory.write_plain_HDMA5 _ _ _ hp]
    exact hi
  rw [writeToMemory_plain a v _ hp', writeToMemory_plain a v s hp, hm,
    withOutOfBounds_setMemory]
  exact doCycle_staysInBounds 1 _ hi' r d w

end Cpu
end CppGB

/-! ## Every read is inside its array while the bank registers are in bounds -/

namespace CppGB

namespace Memory

theorem workRamIndex_inBounds (m : Memory) (a : Nat) (h : m.SVBK ≤ 7) (ha : a ≤ 0xDFFF) :
    m.workRamIndex a < workRamLength := by
  unfold workRamIndex
  simp only [WORKRAM_START_ADDRESS, WORKRAM_BANK_SIZE, workRamLength]
  by_cases hp : a - 0xC000 < 0x1000
  · rw [if_pos hp]
    omega
  · rw [if_neg hp]
    by_cases h0 : m.SVBK = 0
    · rw [if_pos h0]
      omega
    · rw [if_neg h0]
      omega

theorem romIndex_inBounds (m : Memory) (a : Nat)
    (h : (m.m_romBankNumber + 1) * ROM_BANK_SIZE ≤ m.m_rom.size) (h1 : 0x4000 ≤ a)
    (h2 : a ≤ 0x7FFF) : m.romIndex a < m.m_rom.size := by
  unfold romIndex
  simp only [ROM_BANK_SIZE] at h ⊢
  omega

/-- While the bank registers keep the indices inside the arrays, the read of every address is
inside its array and has the value `read` returns. -/
theorem checkedRead_inBounds (m : Memory) (a : Nat) (h : m.banksInBounds) :
    m.checkedRead a = some (m.read a) := by
  obtain ⟨hw, hv, hr⟩ := h
  by_cases h6 : OAM_START_ADDRESS ≤ a
  · exact checkedRead_high m a h6
  · simp only [OAM_START_ADDRESS] at h6
    unfold checkedRead read
    by_cases h1 : ROM_START_ADDRESS ≤ a ∧ a ≤ ROM_END_ADDRESS
    · rw [if_pos h1, if_pos h1]
      simp only [ROM_START_ADDRESS, ROM_END_ADDRESS] at h1
      by_cases h2 : a < ROM_BANK_SIZE
      · rw [if_pos h2, if_pos h2]
        simp only [ROM_BANK_SIZE] at h2 hr
        exact checkedAt_inside _ _ _ (by omega)
      · rw [if_neg h2, if_neg h2]
        simp only [ROM_BANK_SIZE] at h2
        exact checkedAt_inside _ _ _ (romIndex_inBounds m a hr (by omega) h1.2)
    · rw [if_neg h1, if_neg h1]
      by_cases h3 : DISPLAYRAM_START_ADDRESS ≤ a ∧ a ≤ DISPLAYRAM_END_ADDRESS
      · rw [if_pos h3, if_pos h3]
        simp only [DISPLAYRAM_START_ADDRESS, DISPLAYRAM_END_ADDRESS] at h3
        exact checkedAt_inside _ _ _
          (by simp only [DISPLAYRAM_START_ADDRESS, DISPLAYRAM_BANK_SIZE, displayRamLength]; omega)
      · rw [if_neg h3, if_neg h3]
        by_cases h4 : EXTERNALRAM_START_ADDRESS ≤ a ∧ a ≤ EXTERNALRAM_END_ADDRESS
        · rw [if_pos h4, if_pos h4]
          dsimp only
          split <;> rfl
        · rw [if_neg h4, if_neg h4]
          by_cases h5 : WORKRAM_START_ADDRESS ≤ a ∧ a ≤ WORKRAM_END_ADDRESS
          · rw [if_pos h5, if_pos h5]
            simp only [WORKRAM_START_ADDRESS, WORKRAM_END_ADDRESS] at h5
            exact checkedAt_inside _ _ _ (workRamIndex_inBounds m a hw h5.2)
          · rw [if_neg h5, if_neg h5]
            have h7 : ECHORAM_START_ADDRESS ≤ a ∧ a ≤ ECHORAM_END_ADDRESS := by
              simp only [ROM_START_ADDRESS, ROM_END_ADDRESS, DISPLAYRAM_START_ADDRESS,
                DISPLAYRAM_END_ADDRESS, EXTERNALRAM_START_ADDRESS, EXTERNALRAM_END_ADDRESS,
                WORKRAM_START_ADDRESS, WORKRAM_END_ADDRESS, ECHORAM_START_ADDRESS,
                ECHORAM_END_ADDRESS] at h1 h3 h4 h5 ⊢
              omega
            rw [if_pos h7, if_pos h7]
            exact checkedAt_inside _ _ _ (workRamIndex_inBounds m (a - 0x2000) hw (by omega))

end Memory

end CppGB

/-! ## The claims -/

namespace CppGB
namespace Cpu

set_option maxRecDepth 100000

/-- A pass of the main loop is the keyboard update, the interrupt dispatch and then either a
cycle spent halted or an instruction: when these stay inside the arrays, the state after the
pass is reachable in bounds. -/
theorem runPass_reachableInBounds (keyboardState : KeyboardState) (s t : Cpu)
    (h : ReachableInBounds s) (hs : runPass keyboardState s = Except.ok t)
    (hb : staysInBounds handleInterrupts { s with m_memory := { s.m_memory with
      P1 := EventHandler.updateP1 keyboardState s.m_memory.P1 } })
    (hl : DisplayController.lineInBounds (handleInterrupts { s with m_memory :=
      { s.m_memory with P1 := EventHandler.updateP1 keyboardState s.m_memory.P1 } }))
    (hh : (handleInterrupts { s with m_memory := { s.m_memory with
        P1 := EventHandler.updateP1 keyboardState s.m_memory.P1 } }).m_haltMode = true →
      staysInBounds (doCycle 1) (handleInterrupts { s with m_memory := { s.m_memory with
        P1 := EventHandler.updateP1 keyboardState s.m_memory.P1 } }))
    (hi : (handleInterrupts { s with m_memory := { s.m_memory with
        P1 := EventHandler.updateP1 keyboardState s.m_memory.P1 } }).m_haltMode = false →
      executesInBounds (handleInterrupts { s with m_memory := { s.m_memory with
        P1 := EventHandler.updateP1 keyboardState s.m_memory.P1 } }) t)
    (ht : DisplayController.lineInBounds t) : ReachableInBounds t := by
  have h1 := ReachableInBounds.interrupts (ReachableInBounds.keys keyboardState h) hb hl
  unfold runPass at hs
  dsimp only at hs
  by_cases hm : (handleInterrupts { s with m_memory := { s.m_memory with
      P1 := EventHandler.updateP1 keyboardState s.m_memory.P1 } }).m_haltMode = true
  · rw [if_pos hm] at hs
    cases hs
    exact ReachableInBounds.halted h1 (hh hm) ht
  · rw [if_neg hm] at hs
    exact ReachableInBounds.instruction h1 hs (hi (by simpa using hm)) ht

/-- The instruction `LD (D000),A` with `SVBK = 8` does not stay inside the arrays: it stores
`A` in the cell `0x8000`, the first one past `m_workRam`.  No run through this instruction is
a run in bounds. -/
theorem svbk_store_instruction_leaves_work_ram (t : Cpu) :
    svbkStoreState.m_memory.SVBK = 8 ∧ (fetch_u8 svbkStoreState).1 = 0xEA ∧
      ¬ executesInBounds svbkStoreState t := by
  refine ⟨by decide, by decide, fun h => ?_⟩
  have e3 : (executeNextInstruction (svbkStoreState.withOutOfBounds (fun _ => 0) (fun _ => 0)
      (fun _ => 0))).toOption.map (fun u => u.m_memory.m_workRam 0x8000) = some 8 := by decide
  have e1 : some 8 = some (0 : Nat) :=
    e3.symm.trans (congrArg (fun x => x.toOption.map (fun u => u.m_memory.m_workRam 0x8000))
      (h (fun _ => 0) (fun _ => 0) (fun _ => 0)))
  exact absurd (Option.some.inj e1) (by decide)

/-- The instruction `LD A,(D000)` with `SVBK = 8` does not stay inside the arrays either: `A`
receives what lies in the cell `0x8000`. -/
theorem svbk_read_leaves_work_ram (t : Cpu)
    (ht : executeNextInstruction svbkLoadedState = Except.ok t) :
    ¬ executesInBounds svbkLoadedState t := by
  intro h
  have e3 : (executeNextInstruction (svbkLoadedState.withOutOfBounds (fun _ => 0) (fun _ => 0)
      (fun _ => 1))).toOption.map (fun u => u.m_registers.A) = some 1 := by decide
  have e4 : (executeNextInstruction svbkLoadedState).toOption.map (fun u => u.m_registers.A)
      = some 0 := by decide
  have e1 : some 1 = some t.m_registers.A :=
    e3.symm.trans (congrArg (fun x => x.toOption.map (fun u => u.m_registers.A))
      (h (fun _ => 0) (fun _ => 0) (fun _ => 1)))
  have e2 : some 0 = some t.m_registers.A :=
    e4.symm.trans (congrArg (fun x => x.toOption.map (fun u => u.m_registers.A)) ht)
  exact absurd (Option.some.inj (e1.trans e2.symm)) (by decide)

theorem afterPopAF_run :
    executeNextInstruction (Cpu.init onesStackMemory) = Except.ok afterPopAF := rfl

/-- `POP AF` on a fresh machine over `onesStackMemory`: the opcode is fetched from inside
the ROM image, the stack lies in high RAM and no HBlank transfer is scheduled. -/
theorem afterPopAF_inBounds : ReachableInBounds afterPopAF :=
  ReachableInBounds.instruction (ReachableInBounds.init onesStackMemory (by decide))
    afterPopAF_run
    (popAF_executesInBounds _ _ (by decide) (by decide) (by decide) (by decide) (by decide)
      afterPopAF_run)
    (by decide)

/-- Claim C1: in the runs that stay inside the arrays, every state reachable from the freshly
constructed CPU by executed instructions (base or `0xCB`-prefixed), interrupt dispatches and
the other steps of the main loop has the low nibble of the flag register clear,
`F & 0x0F == 0`. -/
theorem F_low_nibble_zero (s : Cpu) (h : ReachableInBounds s) :
    s.m_registers.F.byte &&& 0x0F = 0 := by
  induction h with
  | init memory hl =>
    show (0 : Nat) &&& 0x0F = 0
    decide
  | keys keyboardState h ih => exact ih
  | interrupts h hb hl ih =>
    rw [handleInterrupts_F]
    exact ih
  | instruction h hs hb hl ih => exact executeNextInstruction_low _ _ ih hs
  | halted h hb hl ih =>
    rw [doCycle_m_registers]
    exact ih

/-- `POP AF` over a stack of `0xFF` bytes: the instruction stays inside the arrays, the state
is reachable and `F` reads `0xF0`. -/
theorem F_low_nibble_zero_witness :
    ReachableInBounds afterPopAF ∧ afterPopAF.m_registers.F.byte = 0xF0 ∧
      afterPopAF.m_registers.F.byte &&& 0x0F = 0 :=
  ⟨afterPopAF_inBounds, rfl, F_low_nibble_zero afterPopAF afterPopAF_inBounds⟩

/-- Claim C2: for a 16-bit value `v` held in `BC`, `DE`, `HL` or `AF` and a stack pointer whose
two stack bytes lie in plain RAM, `PUSH rr` executes and, when the next opcode is `POP AF`
(`0xF1`), so does `POP AF`, leaving `A = v >> 8` and `F = v & 0xF0` (low nibble of `F` zero
whatever `v` is) with `SP` back at its value before the push. -/
theorem push_then_pop_AF (s : Cpu) (opcode v : Nat) (hv : v < 65536)
    (hSP : s.m_registers.SP < 65536)
    (hrr : (opcode = 0xC5 ∧ s.m_registers.BC = v) ∨ (opcode = 0xD5 ∧ s.m_registers.DE = v) ∨
      (opcode = 0xE5 ∧ s.m_registers.HL = v) ∨ (opcode = 0xF5 ∧ s.m_registers.AF = v))
    (hop : (fetch_u8 s).1 = opcode)
    (h1 : s.m_memory.isPlainRam (u16 ((s.m_registers.SP : Int) - 1)))
    (h2 : s.m_memory.isPlainRam (u16 ((u16 ((s.m_registers.SP : Int) - 1) : Int) - 1))) :
    ∃ s1, executeNextInstruction s = Except.ok s1 ∧
      ((fetch_u8 s1).1 = 0xF1 →
        ∃ s2, executeNextInstruction s1 = Except.ok s2 ∧
          s2.m_registers.A = v >>> 8 ∧ s2.m_registers.F.byte = v &&& 0xF0 ∧
          s2.m_registers.SP = s.m_registers.SP) := by
  have hpush : executeNextInstruction s = Except.ok (push v (fetch_u8 s).2) := by
    unfold executeNextInstruction
    simp only [hop]
    rcases hrr with ⟨ho, hr⟩ | ⟨ho, hr⟩ | ⟨ho, hr⟩ | ⟨ho, hr⟩
    · rw [ho, executeOpcode_PUSH_BC, fetch_u8_m_registers]
      exact congrArg (fun x => Except.ok (push x (fetch_u8 s).2)) hr
    · rw [ho, executeOpcode_PUSH_DE, fetch_u8_m_registers]
      exact congrArg (fun x => Except.ok (push x (fetch_u8 s).2)) hr
    · rw [ho, executeOpcode_PUSH_HL, fetch_u8_m_registers]
      exact congrArg (fun x => Except.ok (push x (fetch_u8 s).2)) hr
    · rw [ho, executeOpcode_PUSH_AF, fetch_u8_m_registers]
      exact congrArg (fun x => Except.ok (push x (fetch_u8 s).2)) hr
  refine ⟨_, hpush, ?_⟩
  intro hop2
  have hsp : (fetch_u8 s).2.m_registers.SP = s.m_registers.SP := by
    rw [fetch_u8_m_registers]
  have hp : ∀ b, (fetch_u8 s).2.m_memory.isPlainRam b ↔ s.m_memory.isPlainRam b := by
    intro b
    rw [fetch_u8_m_memory, isPlainRam_doCycle]
  have h := pop_AF_after_push v hv (fetch_u8 s).2 (by rw [hsp]; exact hSP)
    (by rw [hsp]; exact (hp _).2 h1) (by rw [hsp]; exact (hp _).2 h2) hop2
  rw [hsp] at h
  exact h

/-- `PUSH BC` with `BC = 0x12FF` followed by `POP AF`, on the initial stack at `0xFFFE`. -/
theorem push_then_pop_AF_witness :
    (0x12FF < 65536 ∧ (loadedState [0xC5, 0xF1] 0 0x12 0xFF 0 0).m_registers.SP < 65536 ∧
      (loadedState [0xC5, 0xF1] 0 0x12 0xFF 0 0).m_registers.BC = 0x12FF ∧
      (fetch_u8 (loadedState [0xC5, 0xF1] 0 0x12 0xFF 0 0)).1 = 0xC5 ∧
      (loadedState [0xC5, 0xF1] 0 0x12 0xFF 0 0).m_memory.isPlainRam
        (u16 (((loadedState [0xC5, 0xF1] 0 0x12 0xFF 0 0).m_registers.SP : Int) - 1)) ∧
      (loadedState [0xC5, 0xF1] 0 0x12 0xFF 0 0).m_memory.isPlainRam
        (u16 ((u16 (((loadedState [0xC5, 0xF1] 0 0x12 0xFF 0 0).m_registers.SP : Int) - 1) : Int)
          - 1))) ∧
    (∃ s1, executeNextInstruction (loadedState [0xC5, 0xF1] 0 0x12 0xFF 0 0) = Except.ok s1 ∧
      ((fetch_u8 s1).1 = 0xF1 →
        ∃ s2, executeNextInstruction s1 = Except.ok s2 ∧
          s2.m_registers.A = 0x12FF >>> 8 ∧ s2.m_registers.F.byte = 0x12FF &&& 0xF0 ∧
          s2.m_registers.SP = (loadedState [0xC5, 0xF1] 0 0x12 0xFF 0 0).m_registers.SP)) ∧
    (run [noKeys, noKeys] (loadedState [0xC5, 0xF1] 0 0x12 0xFF 0 0)).map
        (fun t => (t.m_registers.A, t.m_registers.F.byte, t.m_registers.SP))
      = Except.ok (0x12, 0xF0, 0xFFFE) :=
  ⟨⟨by decide, by decide, rfl, rfl, by decide, by decide⟩,
    push_then_pop_AF (loadedState [0xC5, 0xF1] 0 0x12 0xFF 0 0) 0xC5 0x12FF (by decide)
      (by decide) (Or.inl ⟨rfl, rfl⟩) rfl (by decide) (by decide), rfl⟩

/-- Claim C3: for bytes `a`, `v` and carry-in `c`, `adc` with `A = a` and `F.C = c` leaves
`A = (a + v + c) mod 256`, `Z = (A == 0)`, `N = 0`, `H = ((a & 0xF) + (v & 0xF) + c > 0xF)` and
`C = (a + v + c > 0xFF)`; `add_A` obeys the same formulas with `c` taken as 0. -/
theorem adc_add_A_flags (r : Registers) (a v c : Nat) (ha : r.A = a) (hc : r.F.C = c)
    (ha8 : a < 256) (hv8 : v < 256) :
    ((adc v r).A = (a + v + c) % 256 ∧
      (adc v r).F.Z = (if (adc v r).A = 0 then 1 else 0) ∧
      (adc v r).F.N = 0 ∧
      (adc v r).F.H = (if (a &&& 0xF) + (v &&& 0xF) + c > 0xF then 1 else 0) ∧
      (adc v r).F.C = (if a + v + c > 0xFF then 1 else 0)) ∧
    ((add_A v r).A = (a + v + 0) % 256 ∧
      (add_A v r).F.Z = (if (add_A v r).A = 0 then 1 else 0) ∧
      (add_A v r).F.N = 0 ∧
      (add_A v r).F.H = (if (a &&& 0xF) + (v &&& 0xF) + 0 > 0xF then 1 else 0) ∧
      (add_A v r).F.C = (if a + v + 0 > 0xFF then 1 else 0)) := by
  have hc2 : c < 2 := hc ▸ Flags.C_lt_two r.F
  subst ha hc
  have e1 : (r.A + v + r.F.C) % 65536 = r.A + v + r.F.C := by omega
  have e2 : (r.A + v) % 65536 = r.A + v := by omega
  refine ⟨⟨?_, ?_, ?_, ?_, ?_⟩, ⟨?_, ?_, ?_, ?_, ?_⟩⟩ <;>
    simp only [adc, add_A, Flags.Z_setZ, Flags.Z_setN, Flags.N_setN, Flags.H_setN, Flags.H_setZ,
      Flags.H_setC, Flags.H_setH, Flags.C_setN, Flags.C_setZ, Flags.C_setC, Flags.C_setH, e1, e2,
      Nat.add_zero] <;> split <;> simp

/-- The sum `0x3A + 0xC6 + 1` with the carry set on entry. -/
theorem adc_add_A_flags_witness :
    ((accumulatorAndFlags 0x3A 0x10).A = 0x3A ∧ (accumulatorAndFlags 0x3A 0x10).F.C = 1 ∧
      0x3A < 256 ∧ 0xC6 < 256) ∧
    ((adc 0xC6 (accumulatorAndFlags 0x3A 0x10)).A = (0x3A + 0xC6 + 1) % 256 ∧
      (adc 0xC6 (accumulatorAndFlags 0x3A 0x10)).F.Z
        = (if (adc 0xC6 (accumulatorAndFlags 0x3A 0x10)).A = 0 then 1 else 0) ∧
      (adc 0xC6 (accumulatorAndFlags 0x3A 0x10)).F.N = 0 ∧
      (adc 0xC6 (accumulatorAndFlags 0x3A 0x10)).F.H
        = (if (0x3A &&& 0xF) + (0xC6 &&& 0xF) + 1 > 0xF then 1 else 0) ∧
      (adc 0xC6 (accumulatorAndFlags 0x3A 0x10)).F.C
        = (if 0x3A + 0xC6 + 1 > 0xFF then 1 else 0)) :=
  ⟨⟨rfl, rfl, by decide, by decide⟩,
    (adc_add_A_flags (accumulatorAndFlags 0x3A 0x10) 0x3A 0xC6 1 rfl rfl (by decide)
      (by decide)).1⟩

/-- Claim C4: for a byte `a`, an operand `v` and carry-in `c`, `sbc` with `A = a` and
`F.C = c` leaves `A = (a - v - c) mod 256`, `Z = (A == 0)`, `N = 1`,
`H = ((a & 0xF) < (v & 0xF) + c)` and `C = (a - v - c < 0)`. -/
theorem sbc_flags (r : Registers) (a v c : Nat) (ha : r.A = a) (hc : r.F.C = c)
    (ha8 : a < 256) :
    (((sbc v r).A : Nat) : Int) = ((a : Int) - (v : Int) - (c : Int)) % 256 ∧
      (sbc v r).F.Z = (if (sbc v r).A = 0 then 1 else 0) ∧
      (sbc v r).F.N = 1 ∧
      (sbc v r).F.H = (if (a &&& 0xF) < (v &&& 0xF) + c then 1 else 0) ∧
      (sbc v r).F.C = (if (a : Int) - (v : Int) - (c : Int) < 0 then 1 else 0) := by
  subst ha hc
  refine ⟨?_, ?_, ?_, ?_, ?_⟩ <;>
    simp only [sbc, Flags.Z_setZ, Flags.Z_setN, Flags.N_setN, Flags.H_setN, Flags.H_setZ,
      Flags.H_setC, Flags.H_setH, Flags.C_setN, Flags.C_setZ, Flags.C_setC, Flags.C_setH,
      u8_cast] <;> split <;> simp

/-- The difference `0x10 - 0x20 - 1` with the carry set on entry. -/
theorem sbc_flags_witness :
    ((accumulatorAndFlags 0x10 0x10).A = 0x10 ∧ (accumulatorAndFlags 0x10 0x10).F.C = 1 ∧
      0x10 < 256) ∧
    ((((sbc 0x20 (accumulatorAndFlags 0x10 0x10)).A : Nat) : Int)
        = (((0x10 : Nat) : Int) - ((0x20 : Nat) : Int) - ((1 : Nat) : Int)) % 256 ∧
      (sbc 0x20 (accumulatorAndFlags 0x10 0x10)).F.Z
        = (if (sbc 0x20 (accumulatorAndFlags 0x10 0x10)).A = 0 then 1 else 0) ∧
      (sbc 0x20 (accumulatorAndFlags 0x10 0x10)).F.N = 1 ∧
      (sbc 0x20 (accumulatorAndFlags 0x10 0x10)).F.H
        = (if (0x10 &&& 0xF) < (0x20 &&& 0xF) + 1 then 1 else 0) ∧
      (sbc 0x20 (accumulatorAndFlags 0x10 0x10)).F.C
        = (if ((0x10 : Nat) : Int) - ((0x20 : Nat) : Int) - ((1 : Nat) : Int) < 0
            then 1 else 0)) :=
  ⟨⟨rfl, rfl, by decide⟩,
    sbc_flags (accumulatorAndFlags 0x10 0x10) 0x10 0x20 1 rfl rfl (by decide)⟩

/-- Claim C5: `inc` yields `(v + 1) mod 256` with `H = ((v & 0xF) == 0xF)`,
`Z = (result == 0)`, `N = 0`; `dec` yields `(v - 1) mod 256` with `H = ((v & 0xF) == 0)`,
`Z = (result == 0)`, `N = 1`; both leave `C` unchanged.  `INC r` and `DEC r` apply them to each
of the seven registers, `INC (HL)` and `DEC (HL)` to the byte at `HL` (in plain RAM), writing
the result back.  The program `LD B,0xFF; INC B; HALT` ends halted with `B = 0x00`, `Z = 1`,
`N = 0`, `H = 1`, `C = 0`. -/
theorem inc_dec_results (r : Registers) (v : Nat) (s : Cpu)
    (hHL : s.m_memory.isPlainRam s.m_registers.HL) :
    ((inc v r).1 = (v + 1) % 256 ∧
      (inc v r).2.F.H = (if v &&& 0xF = 0xF then 1 else 0) ∧
      (inc v r).2.F.Z = (if (inc v r).1 = 0 then 1 else 0) ∧
      (inc v r).2.F.N = 0 ∧
      (inc v r).2.F.C = r.F.C) ∧
    ((((dec v r).1 : Nat) : Int) = ((v : Int) - 1) % 256 ∧
      (dec v r).2.F.H = (if v &&& 0xF = 0 then 1 else 0) ∧
      (dec v r).2.F.Z = (if (dec v r).1 = 0 then 1 else 0) ∧
      (dec v r).2.F.N = 1 ∧
      (dec v r).2.F.C = r.F.C) ∧
    (∀ x ∈ incDecRegisters,
      (∃ t, executeOpcode x.1 s = Except.ok t ∧
        x.2.2 t.m_registers = (inc (x.2.2 s.m_registers) s.m_registers).1 ∧
        t.m_registers.F = (inc (x.2.2 s.m_registers) s.m_registers).2.F) ∧
      (∃ t, executeOpcode x.2.1 s = Except.ok t ∧
        x.2.2 t.m_registers = (dec (x.2.2 s.m_registers) s.m_registers).1 ∧
        t.m_registers.F = (dec (x.2.2 s.m_registers) s.m_registers).2.F)) ∧
    (∃ t, executeOpcode 0x34 s = Except.ok t ∧
      t.m_memory.read s.m_registers.HL
        = (inc (s.m_memory.read s.m_registers.HL) s.m_registers).1 ∧
      t.m_registers.F = (inc (s.m_memory.read s.m_registers.HL) s.m_registers).2.F) ∧
    (∃ t, executeOpcode 0x35 s = Except.ok t ∧
      t.m_memory.read s.m_registers.HL
        = (dec (s.m_memory.read s.m_registers.HL) s.m_registers).1 ∧
      t.m_registers.F = (dec (s.m_memory.read s.m_registers.HL) s.m_registers).2.F) ∧
    (run [noKeys, noKeys, noKeys]
        (Cpu.init (Memory.defaults (programRom [0x06, 0xFF, 0x04, 0x76])))).map
      (fun t => (t.m_haltMode, t.m_registers.B, t.m_registers.F.Z, t.m_registers.F.N,
        t.m_registers.F.H, t.m_registers.F.C))
      = Except.ok (true, 0x00, 1, 0, 1, 0) := by
  have hv := readMemory_u8_plain s.m_registers.HL s hHL
  refine ⟨inc_facts r v, dec_facts r v, executeOpcode_INC_DEC_r s, ?_, ?_, rfl⟩
  · refine ⟨_, executeOpcode_INC_HL s, ?_, ?_⟩
    · rw [hv]
      exact (write_back_plain s _ _ _ hHL).1
    · rw [hv, (write_back_plain s _ _ _ hHL).2]
  · refine ⟨_, executeOpcode_DEC_HL s, ?_, ?_⟩
    · rw [hv]
      exact (write_back_plain s _ _ _ hHL).1
    · rw [hv, (write_back_plain s _ _ _ hHL).2]

/-- Incrementing `0xFF`, in a machine whose `HL` points at work RAM. -/
theorem inc_dec_results_witness :
    (loadedState [] 0 0 0 0xC0 0x00).m_memory.isPlainRam
        (loadedState [] 0 0 0 0xC0 0x00).m_registers.HL ∧
      ((inc 0xFF (accumulatorAndFlags 0 0x10)).1 = (0xFF + 1) % 256 ∧
        (inc 0xFF (accumulatorAndFlags 0 0x10)).2.F.H = (if 0xFF &&& 0xF = 0xF then 1 else 0) ∧
        (inc 0xFF (accumulatorAndFlags 0 0x10)).2.F.Z
          = (if (inc 0xFF (accumulatorAndFlags 0 0x10)).1 = 0 then 1 else 0) ∧
        (inc 0xFF (accumulatorAndFlags 0 0x10)).2.F.N = 0 ∧
        (inc 0xFF (accumulatorAndFlags 0 0x10)).2.F.C = (accumulatorAndFlags 0 0x10).F.C) ∧
      (∃ t, executeOpcode 0x34 (loadedState [] 0 0 0 0xC0 0x00) = Except.ok t ∧
        t.m_memory.read (loadedState [] 0 0 0 0xC0 0x00).m_registers.HL
          = (inc ((loadedState [] 0 0 0 0xC0 0x00).m_memory.read
              (loadedState [] 0 0 0 0xC0 0x00).m_registers.HL)
              (loadedState [] 0 0 0 0xC0 0x00).m_registers).1 ∧
        t.m_registers.F
          = (inc ((loadedState [] 0 0 0 0xC0 0x00).m_memory.read
              (loadedState [] 0 0 0 0xC0 0x00).m_registers.HL)
              (loadedState [] 0 0 0 0xC0 0x00).m_registers).2.F) :=
  ⟨by decide,
    (inc_dec_results (accumulatorAndFlags 0 0x10) 0xFF (loadedState [] 0 0 0 0xC0 0x00)
      (by decide)).1,
    (inc_dec_results (accumulatorAndFlags 0 0x10) 0xFF (loadedState [] 0 0 0 0xC0 0x00)
      (by decide)).2.2.2.1⟩

/-- Claim C6: with `e` the operand byte fetched at `PC` and
`x = (SP + sign_extend e) mod 65536`, `ADD SP,e` (`0xE8`) stores `x` in `SP` and `LDHL SP,e`
(`0xF8`) stores `x` in `HL` leaving `SP` unchanged; both set `Z = 0`, `N = 0`,
`H = ((SP & 0xF) + (e & 0xF) > 0xF)` and `C = ((SP & 0xFF) + e > 0xFF)` with `e` unsigned. -/
theorem add_SP_e_and_LDHL (s : Cpu) (e : Nat) (he : (fetch_u8 s).1 = e) (he8 : e < 256) :
    (∃ t, executeOpcode 0xE8 s = Except.ok t ∧
      (t.m_registers.SP : Int)
        = ((s.m_registers.SP : Int) + (if e < 128 then (e : Int) else (e : Int) - 256)) % 65536 ∧
      t.m_registers.F.Z = 0 ∧ t.m_registers.F.N = 0 ∧
      t.m_registers.F.H = (if (s.m_registers.SP &&& 0xF) + (e &&& 0xF) > 0xF then 1 else 0) ∧
      t.m_registers.F.C = (if (s.m_registers.SP &&& 0xFF) + e > 0xFF then 1 else 0)) ∧
    (∃ t, executeOpcode 0xF8 s = Except.ok t ∧
      (t.m_registers.HL : Int)
        = ((s.m_registers.SP : Int) + (if e < 128 then (e : Int) else (e : Int) - 256)) % 65536 ∧
      t.m_registers.SP = s.m_registers.SP ∧
      t.m_registers.F.Z = 0 ∧ t.m_registers.F.N = 0 ∧
      t.m_registers.F.H = (if (s.m_registers.SP &&& 0xF) + (e &&& 0xF) > 0xF then 1 else 0) ∧
      t.m_registers.F.C = (if (s.m_registers.SP &&& 0xFF) + e > 0xFF then 1 else 0)) := by
  have hv : (add_SP_e s).1 = u16 ((s.m_registers.SP : Int) + s8 e) := by
    rw [add_SP_e_fst, he]
  have hr := add_SP_e_m_registers s
  rw [he] at hr
  have hx : ((u16 ((s.m_registers.SP : Int) + s8 e) : Nat) : Int)
      = ((s.m_registers.SP : Int) + (if e < 128 then (e : Int) else (e : Int) - 256)) % 65536 := by
    rw [u16_cast, s8_of_byte e he8]
  have hF : (add_SP_e s).2.m_registers.F = (((s.m_registers.F.setH
      (if (s.m_registers.SP &&& 0x000F) + (e &&& 0x0F) > 0x0F then 1 else 0)).setC
      (if (s.m_registers.SP &&& 0x00FF) + e > 0xFF then 1 else 0)).setZ 0).setN 0 := by
    rw [hr]
  have hZ : (add_SP_e s).2.m_registers.F.Z = 0 := by
    rw [hF, Flags.Z_setN, Flags.Z_setZ]
  have hN : (add_SP_e s).2.m_registers.F.N = 0 := by
    rw [hF, Flags.N_setN]
  have hH : (add_SP_e s).2.m_registers.F.H
      = (if (s.m_registers.SP &&& 0xF) + (e &&& 0xF) > 0xF then 1 else 0) := by
    rw [hF, Flags.H_setN, Flags.H_setZ, Flags.H_setC, Flags.H_setH]
    split <;> rfl
  have hC : (add_SP_e s).2.m_registers.F.C
      = (if (s.m_registers.SP &&& 0xFF) + e > 0xFF then 1 else 0) := by
    rw [hF, Flags.C_setN, Flags.C_setZ, Flags.C_setC]
    split <;> rfl
  constructor
  · refine ⟨_, executeOpcode_ADD_SP_e s, ?_, ?_, ?_, ?_, ?_⟩
    · rw [doCycle_m_registers]
      show (((add_SP_e s).1 : Nat) : Int) = _
      rw [hv, hx]
    · rw [doCycle_m_registers]
      exact hZ
    · rw [doCycle_m_registers]
      exact hN
    · rw [doCycle_m_registers]
      exact hH
    · rw [doCycle_m_registers]
      exact hC
  · refine ⟨_, executeOpcode_LDHL_SP_e s, ?_, ?_, hZ, hN, hH, hC⟩
    · show ((((add_SP_e s).2.m_registers.setHL (add_SP_e s).1).HL : Nat) : Int) = _
      rw [Registers.HL_setHL _ _ (by rw [hv]; exact u16_lt _), hv, hx]
    · show (add_SP_e s).2.m_registers.SP = _
      rw [hr]

/-- The operand `0xFE` (minus two) against the initial `SP = 0xFFFE`. -/
theorem add_SP_e_and_LDHL_witness :
    ((fetch_u8 (loadedState [0xFE] 0 0 0 0 0)).1 = 0xFE ∧ 0xFE < 256) ∧
    (∃ t, executeOpcode 0xE8 (loadedState [0xFE] 0 0 0 0 0) = Except.ok t ∧
      (t.m_registers.SP : Int)
        = (((loadedState [0xFE] 0 0 0 0 0).m_registers.SP : Int)
            + (if 0xFE < 128 then ((0xFE : Nat) : Int) else ((0xFE : Nat) : Int) - 256)) % 65536 ∧
      t.m_registers.F.Z = 0 ∧ t.m_registers.F.N = 0 ∧
      t.m_registers.F.H
        = (if ((loadedState [0xFE] 0 0 0 0 0).m_registers.SP &&& 0xF) + (0xFE &&& 0xF) > 0xF
            then 1 else 0) ∧
      t.m_registers.F.C
        = (if ((loadedState [0xFE] 0 0 0 0 0).m_registers.SP &&& 0xFF) + 0xFE > 0xFF
            then 1 else 0)) :=
  ⟨⟨rfl, by decide⟩,
    (add_SP_e_and_LDHL (loadedState [0xFE] 0 0 0 0 0) 0xFE rfl (by decide)).1⟩

/-- Claim C7: for a byte `v` and carry-in `c`, `rlc` and `rrc` rotate `v` by one bit within
eight bits, `rl` and `rr` rotate the nine-bit value `c * 256 + v` (low eight bits to the result,
ninth bit to `C`), `sla` doubles modulo 256 (bit 0 = 0), `sra` halves keeping bit 7, `srl`
halves (bit 7 = 0) and `swap` exchanges the nibbles; for the seven rotates and shifts `C` is the
bit shifted out; all eight set `Z = (result == 0)`, `N = 0`, `H = 0`; and `RLCA`, `RRCA`, `RLA`,
`RRA` give the `A` and `C` of `rlc`, `rrc`, `rl`, `rr` applied to `A`, with `Z = 0`. -/
theorem rotate_shift_results (r : Registers) (v c : Nat) (s : Cpu) (hv : v < 256)
    (hc : r.F.C = c) :
    ((rlc v r).1 = (2 * v) % 256 + v / 128 ∧ (rlc v r).2.F.C = v / 128) ∧
    ((rrc v r).1 = v / 2 + (v % 2) * 128 ∧ (rrc v r).2.F.C = v % 2) ∧
    ((rl v r).1 = ((2 * (c * 256 + v)) % 512 + (c * 256 + v) / 256) % 256 ∧
      (rl v r).2.F.C = ((2 * (c * 256 + v)) % 512 + (c * 256 + v) / 256) / 256) ∧
    ((rr v r).1 = ((c * 256 + v) / 2 + ((c * 256 + v) % 2) * 256) % 256 ∧
      (rr v r).2.F.C = ((c * 256 + v) / 2 + ((c * 256 + v) % 2) * 256) / 256) ∧
    ((sla v r).1 = (2 * v) % 256 ∧ (sla v r).2.F.C = v / 128) ∧
    ((sra v r).1 = v / 2 + (v / 128) * 128 ∧ (sra v r).2.F.C = v % 2) ∧
    ((srl v r).1 = v / 2 ∧ (srl v r).2.F.C = v % 2) ∧
    (swap v r).1 = (v % 16) * 16 + v / 16 ∧
    (∀ op ∈ [rlc, rrc, rl, rr, sla, sra, srl, swap],
      (op v r).2.F.Z = (if (op v r).1 = 0 then 1 else 0) ∧ (op v r).2.F.N = 0 ∧
        (op v r).2.F.H = 0) ∧
    (∃ t, executeOpcode 0x07 s = Except.ok t ∧
      t.m_registers.A = (rlc s.m_registers.A s.m_registers).1 ∧
      t.m_registers.F.C = (rlc s.m_registers.A s.m_registers).2.F.C ∧ t.m_registers.F.Z = 0) ∧
    (∃ t, executeOpcode 0x0F s = Except.ok t ∧
      t.m_registers.A = (rrc s.m_registers.A s.m_registers).1 ∧
      t.m_registers.F.C = (rrc s.m_registers.A s.m_registers).2.F.C ∧ t.m_registers.F.Z = 0) ∧
    (∃ t, executeOpcode 0x17 s = Except.ok t ∧
      t.m_registers.A = (rl s.m_registers.A s.m_registers).1 ∧
      t.m_registers.F.C = (rl s.m_registers.A s.m_registers).2.F.C ∧ t.m_registers.F.Z = 0) ∧
    (∃ t, executeOpcode 0x1F s = Except.ok t ∧
      t.m_registers.A = (rr s.m_registers.A s.m_registers).1 ∧
      t.m_registers.F.C = (rr s.m_registers.A s.m_registers).2.F.C ∧ t.m_registers.F.Z = 0) := by
  have hc2 : c < 2 := by
    rw [← hc]
    exact Flags.C_lt_two _
  refine ⟨⟨?_, ?_⟩, ⟨?_, ?_⟩, ⟨?_, ?_⟩, ⟨?_, ?_⟩, ⟨?_, ?_⟩, ⟨?_, ?_⟩, ⟨?_, ?_⟩, ?_, ?_,
    executeOpcode_RLCA s, executeOpcode_RRCA s, executeOpcode_RLA s, executeOpcode_RRA s⟩
  · simp only [rlc, Flags.C_setC]
    exact rlc_value v hv
  · simp only [rlc, Flags.C_setH, Flags.C_setN, Flags.C_setZ, Flags.C_setC]
    exact shift_carry_hi v hv
  · simp only [rrc, Flags.C_setC]
    exact rrc_value v hv
  · simp only [rrc, Flags.C_setH, Flags.C_setN, Flags.C_setZ, Flags.C_setC]
    exact shift_carry_lo v hv
  · simp only [rl, hc]
    exact rl_value c hc2 v hv
  · simp only [rl, Flags.C_setH, Flags.C_setN, Flags.C_setZ, Flags.C_setC]
    exact rl_carry c hc2 v hv
  · simp only [rr, hc]
    exact rr_value c hc2 v hv
  · simp only [rr, Flags.C_setH, Flags.C_setN, Flags.C_setZ, Flags.C_setC]
    exact rr_carry c hc2 v hv
  · simp only [sla]
    exact sla_value v hv
  · simp only [sla, Flags.C_setH, Flags.C_setN, Flags.C_setZ, Flags.C_setC]
    exact shift_carry_hi v hv
  · simp only [sra]
    exact sra_value v hv
  · simp only [sra, Flags.C_setH, Flags.C_setN, Flags.C_setZ, Flags.C_setC]
    exact shift_carry_lo v hv
  · simp only [srl]
    exact srl_value v hv
  · simp only [srl, Flags.C_setH, Flags.C_setN, Flags.C_setZ, Flags.C_setC]
    exact shift_carry_lo v hv
  · simp only [swap]
    exact swap_value v hv
  · intro op hop
    simp only [List.mem_cons, List.mem_singleton, List.not_mem_nil, or_false] at hop
    rcases hop with h | h | h | h | h | h | h | h <;> subst h <;>
      refine ⟨?_, ?_, ?_⟩ <;>
      simp only [rlc, rrc, rl, rr, sla, sra, srl, swap, Flags.Z_setC, Flags.Z_setH, Flags.Z_setN,
        Flags.Z_setZ, Flags.N_setC, Flags.N_setH, Flags.N_setN, Flags.H_setC, Flags.H_setH,
        zero_flag_mod]

/-- The byte `0x85` with the carry set on entry. -/
theorem rotate_shift_results_witness :
    (0x85 < 256 ∧ (accumulatorAndFlags 0 0x10).F.C = 1) ∧
    ((rlc 0x85 (accumulatorAndFlags 0 0x10)).1 = (2 * 0x85) % 256 + 0x85 / 128 ∧
      (rlc 0x85 (accumulatorAndFlags 0 0x10)).2.F.C = 0x85 / 128) ∧
    ((rrc 0x85 (accumulatorAndFlags 0 0x10)).1 = 0x85 / 2 + (0x85 % 2) * 128 ∧
      (rrc 0x85 (accumulatorAndFlags 0 0x10)).2.F.C = 0x85 % 2) ∧
    ((rl 0x85 (accumulatorAndFlags 0 0x10)).1
        = ((2 * (1 * 256 + 0x85)) % 512 + (1 * 256 + 0x85) / 256) % 256 ∧
      (rl 0x85 (accumulatorAndFlags 0 0x10)).2.F.C
        = ((2 * (1 * 256 + 0x85)) % 512 + (1 * 256 + 0x85) / 256) / 256) :=
  ⟨⟨by decide, rfl⟩,
    (rotate_shift_results (accumulatorAndFlags 0 0x10) 0x85 1 (loadedState [] 0 0 0 0 0)
      (by decide) rfl).1,
    (rotate_shift_results (accumulatorAndFlags 0 0x10) 0x85 1 (loadedState [] 0 0 0 0 0)
      (by decide) rfl).2.1,
    (rotate_shift_results (accumulatorAndFlags 0 0x10) 0x85 1 (loadedState [] 0 0 0 0 0)
      (by decide) rfl).2.2.1⟩

/-- Claim C8: for packed-BCD bytes `a`, `b`, `add_A b` with `A = a` followed by `daa` leaves
`A` the packed-BCD byte of `(dec a + dec b) mod 100`, `C = 1` iff `dec a + dec b >= 100`,
`Z = 1` iff `A == 0`, `H = 0` and `N = 0`; the opcodes `ADD A,n` (`0xC6`) and `DAA` (`0x27`)
executed in turn produce exactly this. -/
theorem add_then_daa (r : Registers) (s : Cpu) (a b : Nat) (ha : r.A = a)
    (hpa : isPackedBcd a) (hpb : isPackedBcd b) :
    ((daa (add_A b r)).A = bcdByte ((bcdValue a + bcdValue b) % 100) ∧
      (daa (add_A b r)).F.C = (if bcdValue a + bcdValue b ≥ 100 then 1 else 0) ∧
      (daa (add_A b r)).F.Z = (if (daa (add_A b r)).A = 0 then 1 else 0) ∧
      (daa (add_A b r)).F.H = 0 ∧
      (daa (add_A b r)).F.N = 0) ∧
    (s.m_registers.A = a → (fetch_u8 s).1 = b →
      ∃ t1 t2, executeOpcode 0xC6 s = Except.ok t1 ∧ executeOpcode 0x27 t1 = Except.ok t2 ∧
        t2.m_registers.A = bcdByte ((bcdValue a + bcdValue b) % 100) ∧
        t2.m_registers.F.C = (if bcdValue a + bcdValue b ≥ 100 then 1 else 0) ∧
        t2.m_registers.F.Z = (if t2.m_registers.A = 0 then 1 else 0) ∧
        t2.m_registers.F.H = 0 ∧
        t2.m_registers.F.N = 0) := by
  refine ⟨daa_add_A_facts r a b ha hpa hpb, ?_⟩
  intro hA hb
  obtain ⟨t1, t2, e1, e2, e3⟩ := executeOpcode_ADD_A_n_DAA s
  refine ⟨t1, t2, e1, e2, ?_⟩
  rw [e3, hb]
  exact daa_add_A_facts _ a b (by rw [fetch_u8_m_registers]; exact hA) hpa hpb

/-- The sum `45 + 38 = 83`: `A = 0x45`, `ADD A,0x38`, `DAA` gives `A = 0x83` with every flag
clear. -/
theorem add_then_daa_witness :
    ((accumulatorAndFlags 0x45 0).A = 0x45 ∧ isPackedBcd 0x45 ∧ isPackedBcd 0x38) ∧
    ((daa (add_A 0x38 (accumulatorAndFlags 0x45 0))).A
        = bcdByte ((bcdValue 0x45 + bcdValue 0x38) % 100) ∧
      (daa (add_A 0x38 (accumulatorAndFlags 0x45 0))).F.C
        = (if bcdValue 0x45 + bcdValue 0x38 ≥ 100 then 1 else 0) ∧
      (daa (add_A 0x38 (accumulatorAndFlags 0x45 0))).F.Z
        = (if (daa (add_A 0x38 (accumulatorAndFlags 0x45 0))).A = 0 then 1 else 0) ∧
      (daa (add_A 0x38 (accumulatorAndFlags 0x45 0))).F.H = 0 ∧
      (daa (add_A 0x38 (accumulatorAndFlags 0x45 0))).F.N = 0) ∧
    ((daa (add_A 0x38 (accumulatorAndFlags 0x45 0))).A = 0x83 ∧
      (daa (add_A 0x38 (accumulatorAndFlags 0x45 0))).F.byte = 0x00) ∧
    (∃ t1 t2, executeOpcode 0xC6 (loadedState [0x38] 0x45 0 0 0 0) = Except.ok t1 ∧
      executeOpcode 0x27 t1 = Except.ok t2 ∧
      t2.m_registers.A = bcdByte ((bcdValue 0x45 + bcdValue 0x38) % 100) ∧
      t2.m_registers.F.C = (if bcdValue 0x45 + bcdValue 0x38 ≥ 100 then 1 else 0) ∧
      t2.m_registers.F.Z = (if t2.m_registers.A = 0 then 1 else 0) ∧
      t2.m_registers.F.H = 0 ∧
      t2.m_registers.F.N = 0) :=
  ⟨⟨rfl, by decide, by decide⟩,
    (add_then_daa (accumulatorAndFlags 0x45 0) (loadedState [0x38] 0x45 0 0 0 0) 0x45 0x38 rfl
      (by decide) (by decide)).1,
    ⟨rfl, rfl⟩,
    (add_then_daa (accumulatorAndFlags 0x45 0) (loadedState [0x38] 0x45 0 0 0 0) 0x45 0x38 rfl
      (by decide) (by decide)).2 rfl rfl⟩

/-- Claim C9: for packed-BCD bytes `a`, `b`, `sub b` with `A = a` followed by `daa` leaves
`A` the packed-BCD byte of `(dec a - dec b) mod 100`, `C = 1` iff `dec a < dec b`, `Z = 1` iff
`A == 0`, `H = 0` and `N = 1`; the opcodes `SUB n` (`0xD6`) and `DAA` (`0x27`) executed in
turn produce exactly this. -/
theorem sub_then_daa (r : Registers) (s : Cpu) (a b : Nat) (ha : r.A = a)
    (hpa : isPackedBcd a) (hpb : isPackedBcd b) :
    ((daa (sub b r)).A = bcdByte (((bcdValue a : Int) - (bcdValue b : Int)) % 100).toNat ∧
      (daa (sub b r)).F.C = (if bcdValue a < bcdValue b then 1 else 0) ∧
      (daa (sub b r)).F.Z = (if (daa (sub b r)).A = 0 then 1 else 0) ∧
      (daa (sub b r)).F.H = 0 ∧
      (daa (sub b r)).F.N = 1) ∧
    (s.m_registers.A = a → (fetch_u8 s).1 = b →
      ∃ t1 t2, executeOpcode 0xD6 s = Except.ok t1 ∧ executeOpcode 0x27 t1 = Except.ok t2 ∧
        t2.m_registers.A = bcdByte (((bcdValue a : Int) - (bcdValue b : Int)) % 100).toNat ∧
        t2.m_registers.F.C = (if bcdValue a < bcdValue b then 1 else 0) ∧
        t2.m_registers.F.Z = (if t2.m_registers.A = 0 then 1 else 0) ∧
        t2.m_registers.F.H = 0 ∧
        t2.m_registers.F.N = 1) := by
  refine ⟨daa_sub_facts r a b ha hpa hpb, ?_⟩
  intro hA hb
  obtain ⟨t1, t2, e1, e2, e3⟩ := executeOpcode_SUB_n_DAA s
  refine ⟨t1, t2, e1, e2, ?_⟩
  rw [e3, hb]
  exact daa_sub_facts _ a b (by rw [fetch_u8_m_registers]; exact hA) hpa hpb

/-- The difference `45 - 38 = 07`: `A = 0x45`, `SUB 0x38`, `DAA` gives `A = 0x07` with only
`N` set. -/
theorem sub_then_daa_witness :
    ((accumulatorAndFlags 0x45 0).A = 0x45 ∧ isPackedBcd 0x45 ∧ isPackedBcd 0x38) ∧
    ((daa (sub 0x38 (accumulatorAndFlags 0x45 0))).A
        = bcdByte ((((bcdValue 0x45 : Nat) : Int) - ((bcdValue 0x38 : Nat) : Int)) % 100).toNat ∧
      (daa (sub 0x38 (accumulatorAndFlags 0x45 0))).F.C
        = (if bcdValue 0x45 < bcdValue 0x38 then 1 else 0) ∧
      (daa (sub 0x38 (accumulatorAndFlags 0x45 0))).F.Z
        = (if (daa (sub 0x38 (accumulatorAndFlags 0x45 0))).A = 0 then 1 else 0) ∧
      (daa (sub 0x38 (accumulatorAndFlags 0x45 0))).F.H = 0 ∧
      (daa (sub 0x38 (accumulatorAndFlags 0x45 0))).F.N = 1) ∧
    ((daa (sub 0x38 (accumulatorAndFlags 0x45 0))).A = 0x07 ∧
      (daa (sub 0x38 (accumulatorAndFlags 0x45 0))).F.byte = 0x40) ∧
    (∃ t1 t2, executeOpcode 0xD6 (loadedState [0x38] 0x45 0 0 0 0) = Except.ok t1 ∧
      executeOpcode 0x27 t1 = Except.ok t2 ∧
      t2.m_registers.A
        = bcdByte ((((bcdValue 0x45 : Nat) : Int) - ((bcdValue 0x38 : Nat) : Int)) % 100).toNat ∧
      t2.m_registers.F.C = (if bcdValue 0x45 < bcdValue 0x38 then 1 else 0) ∧
      t2.m_registers.F.Z = (if t2.m_registers.A = 0 then 1 else 0) ∧
      t2.m_registers.F.H = 0 ∧
      t2.m_registers.F.N = 1) :=
  ⟨⟨rfl, by decide, by decide⟩,
    (sub_then_daa (accumulatorAndFlags 0x45 0) (loadedState [0x38] 0x45 0 0 0 0) 0x45 0x38 rfl
      (by decide) (by decide)).1,
    ⟨rfl, rfl⟩,
    (sub_then_daa (accumulatorAndFlags 0x45 0) (loadedState [0x38] 0x45 0 0 0 0) 0x45 0x38 rfl
      (by decide) (by decide)).2 rfl rfl⟩

/-- Claim C10, amended: with `IF & IE & 0x1F` non-zero and the two stack bytes in plain
RAM, `handleInterrupts` picks the lowest-numbered set bit `k` of `IF & IE`.  With `IME` set it
clears `IME` and `HALT`, pushes the old `PC` (`SP` drops by two), sets `PC = 0x40 + 8 * k`, and
leaves `IF` equal to the old `IF`, or-ed with the requests `x < 8` (VBLANK, LCDSTAT, TIMER)
raised during the three machine cycles of the push, with bit `k` toggled off; when the timer is
stopped and the LCD is off no request is raised and `IF` is the old `IF` with only bit `k`
toggled.  With `IME` clear the result is the old state with `HALT` cleared. -/
theorem handleInterrupts_services_lowest_pending (s : Cpu)
    (hpend : s.m_memory.IF &&& s.m_memory.IE &&& 0x1F ≠ 0)
    (hSP : s.m_registers.SP < 65536)
    (h1 : s.m_memory.isPlainRam (u16 ((s.m_registers.SP : Int) - 1)))
    (h2 : s.m_memory.isPlainRam (u16 ((u16 ((s.m_registers.SP : Int) - 1) : Int) - 1))) :
    ∃ k, k < 5 ∧ s.m_memory.IF &&& s.m_memory.IE &&& (1 <<< k) ≠ 0 ∧
      (∀ j, j < k → s.m_memory.IF &&& s.m_memory.IE &&& (1 <<< j) = 0) ∧
      (s.m_ime = true →
        (handleInterrupts s).m_ime = false ∧
        (handleInterrupts s).m_haltMode = false ∧
        (handleInterrupts s).m_registers.SP + 2 = s.m_registers.SP ∧
        (handleInterrupts s).m_memory.read (s.m_registers.SP - 2)
          = s.m_registers.PC &&& 0x00FF ∧
        (handleInterrupts s).m_memory.read (s.m_registers.SP - 1)
          = (s.m_registers.PC >>> 8) % 256 ∧
        (handleInterrupts s).m_registers.PC = 0x40 + 8 * k ∧
        (∃ x, x < 8 ∧
          (handleInterrupts s).m_memory.IF = (s.m_memory.IF ||| x) ^^^ (1 <<< k)) ∧
        (handleInterrupts s).m_memory.IF.testBit k = false ∧
        (s.m_memory.TAC &&& 0x04 = 0 → s.m_memory.LCDC &&& 0x80 = 0 →
          (handleInterrupts s).m_memory.IF = s.m_memory.IF ^^^ (1 <<< k))) ∧
      (s.m_ime = false → handleInterrupts s = { s with m_haltMode := false }) := by
  obtain ⟨k, hk, hset, hlow, hres⟩ := handleInterrupts_lowest s hpend
  refine ⟨k, hk, hset, hlow, ?_, ?_⟩
  · intro hime
    obtain ⟨g1, g2, g3, g4, g5, g6, ⟨x, hx, g7⟩, g8⟩ :=
      performInterrupt_ime (1 <<< k) (0x40 + 8 * k) s hime hSP h1 h2
    rw [hres]
    refine ⟨g1, g2, g3, g4, g5, g6, ⟨x, hx, g7⟩, ?_, g8⟩
    rw [g7]
    exact serviced_bit_cleared _ x k (testBit_of_pending _ _ k hset)
  · intro hime
    rw [hres]
    exact performInterrupt_not_ime _ _ s hime

/-- TIMER and JOYPAD pending with the timer stopped and the LCD off: TIMER is dispatched to
`0x50` and JOYPAD stays requested. -/
theorem handleInterrupts_services_lowest_pending_witness :
    (pendingTimerState.m_memory.IF &&& pendingTimerState.m_memory.IE &&& 0x1F ≠ 0 ∧
      pendingTimerState.m_registers.SP < 65536 ∧
      pendingTimerState.m_memory.isPlainRam
        (u16 ((pendingTimerState.m_registers.SP : Int) - 1)) ∧
      pendingTimerState.m_memory.isPlainRam
        (u16 ((u16 ((pendingTimerState.m_registers.SP : Int) - 1) : Int) - 1))) ∧
    (∃ k, k < 5 ∧
      pendingTimerState.m_memory.IF &&& pendingTimerState.m_memory.IE &&& (1 <<< k) ≠ 0 ∧
      (∀ j, j < k →
        pendingTimerState.m_memory.IF &&& pendingTimerState.m_memory.IE &&& (1 <<< j) = 0) ∧
      (pendingTimerState.m_ime = true →
        (handleInterrupts pendingTimerState).m_registers.PC = 0x40 + 8 * k)) ∧
    (pendingTimerState.m_ime = true ∧
      (handleInterrupts pendingTimerState).m_registers.PC = 0x50 ∧
      (handleInterrupts pendingTimerState).m_registers.SP = 0xFFFC ∧
      (handleInterrupts pendingTimerState).m_memory.IF = 0x10 ∧
      (handleInterrupts pendingTimerState).m_ime = false) :=
  ⟨⟨by decide, by decide, by decide, by decide⟩,
    (handleInterrupts_services_lowest_pending pendingTimerState (by decide) (by decide)
      (by decide) (by decide)).imp
      (fun _ h => ⟨h.1, h.2.1, h.2.2.1, fun hime => (h.2.2.2.1 hime).2.2.2.2.2.1⟩),
    ⟨rfl, rfl, rfl, rfl, rfl⟩⟩

/-- The state reached by the nine passes over `timerDispatchRom`. -/
theorem timerDispatchState_run :
    run (List.replicate 9 noKeys) (Cpu.init (Memory.defaults timerDispatchRom))
      = Except.ok timerDispatchState := rfl

/-- A reachable state with `IME` set, only VBLANK requested and enabled, and the stack in high
RAM, in which the timer overflows during the push of the dispatch: VBLANK is serviced
(`PC = 0x40`) and the TIMER bit of `IF`, clear before, is set afterwards. -/
theorem handleInterrupts_raises_timer_request :
    Reachable timerDispatchState ∧ timerDispatchState.m_ime = true ∧
      timerDispatchState.m_memory.IF &&& timerDispatchState.m_memory.IE &&& 0x1F ≠ 0 ∧
      timerDispatchState.m_memory.isPlainRam
        (u16 ((timerDispatchState.m_registers.SP : Int) - 1)) ∧
      timerDispatchState.m_memory.isPlainRam
        (u16 ((u16 ((timerDispatchState.m_registers.SP : Int) - 1) : Int) - 1)) ∧
      timerDispatchState.m_memory.IF = 0x01 ∧ timerDispatchState.m_memory.IE = 0x01 ∧
      (handleInterrupts timerDispatchState).m_registers.PC = 0x40 ∧
      (handleInterrupts timerDispatchState).m_memory.IF = 0x04 ∧
      timerDispatchState.m_memory.IF.testBit 2 = false ∧
      (handleInterrupts timerDispatchState).m_memory.IF.testBit 2 = true :=
  ⟨run_reachable _ _ _ (Reachable.init _) timerDispatchState_run, rfl, by decide, by decide,
    by decide, rfl, rfl, rfl, rfl, rfl, rfl⟩

end Cpu
end CppGB

/-! # The interrupt flag, the timer and the divider -/

namespace CppGB
namespace Cpu

/-- The state reached by the five passes over `stackOnIFRom`. -/
theorem stackOnIFState_run :
    run (List.replicate 5 noKeys) (Cpu.init (Memory.defaults stackOnIFRom))
      = Except.ok stackOnIFState := rfl

/-- Claim C11, evaluated where it fails: in a state reached by running `stackOnIFRom`, with
`IME` set, VBLANK requested and enabled, `SP = 0xFF11` and `PC = 0x010A`, the dispatch jumps to
`0x40` and clears `IME`, but the push has stored the low byte `0x0A` of `PC` in `IF` and
`IF ^= flag` then sets the VBLANK bit: `IF` ends as `0x0B`, the serviced bit is 1. -/
theorem handleInterrupts_serviced_bit_set_again :
    Reachable stackOnIFState ∧ stackOnIFState.m_ime = true ∧
      stackOnIFState.m_memory.IF = 0x01 ∧ stackOnIFState.m_memory.IE = 0x01 ∧
      stackOnIFState.m_registers.SP = 0xFF11 ∧ stackOnIFState.m_registers.PC = 0x010A ∧
      (handleInterrupts stackOnIFState).m_registers.PC = 0x40 ∧
      (handleInterrupts stackOnIFState).m_ime = false ∧
      (handleInterrupts stackOnIFState).m_memory.IF = 0x0B ∧
      (handleInterrupts stackOnIFState).m_memory.IF &&& VBLANK_INTERRUPT_FLAG ≠ 0 :=
  ⟨run_reachable _ _ _ (Reachable.init _) stackOnIFState_run, rfl, rfl, rfl, rfl, rfl, rfl, rfl,
    rfl, by decide⟩

end Cpu
end CppGB

namespace CppGB

namespace Memory

theorem performHdmaTransferLoop_timer (n : Nat) :
    ∀ (a b : Nat) (m : Memory),
      (performHdmaTransferLoop n a b m).1.TAC = m.TAC ∧
      (performHdmaTransferLoop n a b m).1.TMA = m.TMA ∧
      (performHdmaTransferLoop n a b m).1.TIMA = m.TIMA := by
  induction n with
  | zero =>
    intro a b m
    exact ⟨rfl, rfl, rfl⟩
  | succ n ih =>
    intro a b m
    unfold performHdmaTransferLoop
    exact ih _ _ _

theorem performHdmaTransfer_timer (m : Memory) (n : Nat) :
    (m.performHdmaTransfer n).TAC = m.TAC ∧ (m.performHdmaTransfer n).TMA = m.TMA ∧
      (m.performHdmaTransfer n).TIMA = m.TIMA := by
  simp only [performHdmaTransfer]
  exact performHdmaTransferLoop_timer _ _ _ m

end Memory

namespace Cpu

theorem timerView_eq {s t : Cpu} (h1 : t.m_memory.TAC = s.m_memory.TAC)
    (h2 : t.m_memory.TMA = s.m_memory.TMA) (h3 : t.m_memory.TIMA = s.m_memory.TIMA)
    (h4 : t.incrementTIMA_cycleCounter = s.incrementTIMA_cycleCounter)
    (h5 : t.m_memory.IF &&& 4 = s.m_memory.IF &&& 4) : timerView t = timerView s := by
  unfold timerView
  rw [h1, h2, h3, h4]
  exact congrArg (fun x => (s.m_memory.TAC, s.m_memory.TMA, s.m_memory.TIMA,
    s.incrementTIMA_cycleCounter, x)) h5

theorem or_low_and_4 (x f : Nat) (hf : f &&& 4 = 0) : (x ||| f) &&& 4 = x &&& 4 := by
  rw [Nat.and_distrib_right, hf, Nat.or_zero]

/-- A request for VBLANK or LCDSTAT is not seen by the timer. -/
theorem requestInterrupt_timerView (flag : Nat) (hf : flag &&& 4 = 0) (s : Cpu) :
    timerView (requestInterrupt flag s) = timerView s :=
  timerView_eq rfl rfl rfl rfl (or_low_and_4 _ _ hf)

end Cpu

namespace DisplayController

theorem requestLCDSTAT_timerView (s : Cpu) :
    Cpu.timerView (Cpu.requestInterrupt Cpu.LCDSTAT_INTERRUPT_FLAG s) = Cpu.timerView s :=
  Cpu.requestInterrupt_timerView _ (by decide) s

theorem requestVBLANK_timerView (s : Cpu) :
    Cpu.timerView (Cpu.requestInterrupt Cpu.VBLANK_INTERRUPT_FLAG s) = Cpu.timerView s :=
  Cpu.requestInterrupt_timerView _ (by decide) s

theorem updateLY_timerView (value : Nat) (s : Cpu) :
    Cpu.timerView (updateLY value s) = Cpu.timerView s := by
  simp only [updateLY, apply_ite Cpu.timerView, requestLCDSTAT_timerView, ite_self]
  rfl

theorem changeMode_timerView (flag : Nat) (s : Cpu) :
    Cpu.timerView (changeMode flag s) = Cpu.timerView s := by
  unfold changeMode
  rfl

theorem hdma_timerView (s : Cpu) (n : Nat) :
    Cpu.timerView { s with m_memory := s.m_memory.performHdmaTransfer n } = Cpu.timerView s := by
  obtain ⟨h1, h2, h3⟩ := Memory.performHdmaTransfer_timer s.m_memory n
  exact Cpu.timerView_eq h1 h2 h3 rfl
    (congrArg (fun x => x &&& 4) (Memory.performHdmaTransfer_IF s.m_memory n))

theorem counter_timerView (s : Cpu) (n : Nat) :
    Cpu.timerView { s with m_displayController := { s.m_displayController with
      m_cycleCounter := n } } = Cpu.timerView s := by
  unfold Cpu.timerView
  rfl

theorem doCycleSwitch_timerView (s : Cpu) :
    Cpu.timerView (doCycleSwitch s) = Cpu.timerView s := by
  simp only [doCycleSwitch, apply_ite Cpu.timerView, updateLY_timerView, changeMode_timerView,
    requestLCDSTAT_timerView, requestVBLANK_timerView, hdma_timerView, counter_timerView,
    ite_self]

theorem pipelineCycle_timerView (s : Cpu) :
    Cpu.timerView (DisplayController.doCycle s) = Cpu.timerView s := by
  unfold DisplayController.doCycle
  split
  · rfl
  · rw [doCycleSwitch_timerView]
    exact counter_timerView s _

end DisplayController

namespace Cpu

theorem incrementDIV_timerView (s : Cpu) : timerView (incrementDIV s) = timerView s := by
  simp only [incrementDIV, apply_ite timerView]
  split <;> rfl

theorem displaySwitch_timerView (s : Cpu) (b : Bool) :
    timerView { s with doCycle_displaySwitch := b } = timerView s := by
  unfold timerView
  rfl

/-- Within a machine cycle only `incrementTIMA` acts on what the timer sees. -/
theorem doCycleStep_timerView (s : Cpu) :
    timerView (doCycleStep s) = timerView (incrementTIMA (incrementDIV s)) := by
  simp only [doCycleStep]
  generalize incrementTIMA (incrementDIV s) = t
  split_ifs
  · exact displaySwitch_timerView t _
  · rw [DisplayController.pipelineCycle_timerView]
    exact displaySwitch_timerView t _
  · exact DisplayController.pipelineCycle_timerView t

theorem doCycle_succ_right (k : Nat) : ∀ s : Cpu, doCycle (k + 1) s = doCycleStep (doCycle k s) := by
  induction k with
  | zero =>
    intro s
    rfl
  | succ k ih =>
    intro s
    show doCycle (k + 1) (doCycleStep s) = doCycleStep (doCycle k (doCycleStep s))
    exact ih _

/-- The action of `incrementTIMA` on a running timer whose interrupt bit is clear. -/
theorem incrementTIMA_view (u : Cpu) (tac tma tima ctr : Nat)
    (hv : timerView u = (tac, tma, tima, ctr, 0)) (hT : tac &&& 0x04 ≠ 0)
    (hctr : ctr + 1 < 65536) :
    timerView (incrementTIMA u) =
      if ctr + 1 = timaPeriod tac then
        (if tima = 0xFF then (tac, tma, tma, 0, 4) else (tac, tma, (tima + 1) % 256, 0, 0))
      else (tac, tma, tima, ctr + 1, 0) := by
  unfold timerView at hv
  simp only [Prod.mk.injEq, TIMER_INTERRUPT_FLAG] at hv
  obtain ⟨h1, h2, h3, h4, h5⟩ := hv
  have e : (ctr + 1) % 65536 = ctr + 1 := Nat.mod_eq_of_lt hctr
  unfold incrementTIMA
  simp only [h1, h3, h4, e, hT, ne_eq, not_false_eq_true, if_true, apply_ite timerView]
  split
  · split
    · show ((tac, u.m_memory.TMA, u.m_memory.TMA, 0, (u.m_memory.IF ||| 4) &&& 4) :
        Nat × Nat × Nat × Nat × Nat) = _
      rw [h2, Nat.and_distrib_right, h5]
      rfl
    · show ((tac, u.m_memory.TMA, (tima + 1) % 256, 0, u.m_memory.IF &&& 4) :
        Nat × Nat × Nat × Nat × Nat) = _
      rw [h2, h5]
  · show ((u.m_memory.TAC, u.m_memory.TMA, u.m_memory.TIMA, ctr + 1, u.m_memory.IF &&& 4) :
      Nat × Nat × Nat × Nat × Nat) = _
    rw [h1, h2, h3, h5]

/-- One machine cycle seen by a running timer whose interrupt bit is clear. -/
theorem doCycleStep_view (t : Cpu) (tac tma tima ctr : Nat)
    (hv : timerView t = (tac, tma, tima, ctr, 0)) (hT : tac &&& 0x04 ≠ 0)
    (hctr : ctr + 1 < 65536) :
    timerView (doCycleStep t) =
      if ctr + 1 = timaPeriod tac then
        (if tima = 0xFF then (tac, tma, tma, 0, 4) else (tac, tma, (tima + 1) % 256, 0, 0))
      else (tac, tma, tima, ctr + 1, 0) := by
  rw [doCycleStep_timerView]
  exact incrementTIMA_view _ tac tma tima ctr ((incrementDIV_timerView t).trans hv) hT hctr

theorem timer_tick_arith (p m k : Nat) (hp : p = 256 ∨ p = 4 ∨ p = 16 ∨ p = 64) (hm : m < 256)
    (h : k + 1 < p * (256 - m)) (hmod : k % p + 1 = p) :
    m + k / p ≠ 0xFF ∧ (m + k / p + 1) % 256 = m + (k + 1) / p ∧ (k + 1) % p = 0 := by
  rcases hp with rfl | rfl | rfl | rfl <;> omega

theorem timer_wait_arith (p k : Nat) (hp : p = 256 ∨ p = 4 ∨ p = 16 ∨ p = 64)
    (hmod : ¬ k % p + 1 = p) : k / p = (k + 1) / p ∧ k % p + 1 = (k + 1) % p := by
  rcases hp with rfl | rfl | rfl | rfl <;> omega

theorem timer_overflow_arith (p m k : Nat) (hp : p = 256 ∨ p = 4 ∨ p = 16 ∨ p = 64)
    (hm : m < 256) (h : k + 1 = p * (256 - m)) :
    k < p * (256 - m) ∧ k % p + 1 = p ∧ m + k / p = 0xFF := by
  rcases hp with rfl | rfl | rfl | rfl <;> omega

theorem timer_counter_arith (p k : Nat) (hp : p = 256 ∨ p = 4 ∨ p = 16 ∨ p = 64) :
    k % p + 1 < 65536 ∧ 0 < p * (256 - 255) := by
  rcases hp with rfl | rfl | rfl | rfl <;> omega

/-- The timer over `k` machine cycles from a fresh period with `TIMA = TMA = m`: before cycle
`p * (256 - m)` it counts up without a request, at that cycle it reloads and requests. -/
theorem timer_run (s : Cpu) (tac m p : Nat) (hT : tac &&& 0x04 ≠ 0)
    (hper : timaPeriod tac = p) (hp : p = 256 ∨ p = 4 ∨ p = 16 ∨ p = 64) (hm : m < 256)
    (h0 : timerView s = (tac, m, m, 0, 0)) :
    ∀ k, (k < p * (256 - m) → timerView (doCycle k s) = (tac, m, m + k / p, k % p, 0)) ∧
      (k = p * (256 - m) → timerView (doCycle k s) = (tac, m, m, 0, 4)) := by
  intro k
  induction k with
  | zero =>
    constructor
    · intro _
      rw [Nat.zero_div, Nat.zero_mod, Nat.add_zero]
      exact h0
    · intro h
      rcases hp with rfl | rfl | rfl | rfl <;> omega
  | succ k ih =>
    have hk : k < p * (256 - m) → timerView (doCycle (k + 1) s) =
        if k % p + 1 = p then
          (if m + k / p = 0xFF then (tac, m, m, 0, 4)
            else (tac, m, (m + k / p + 1) % 256, 0, 0))
        else (tac, m, m + k / p, k % p + 1, 0) := by
      intro h
      rw [doCycle_succ_right, doCycleStep_view _ tac m (m + k / p) (k % p) (ih.1 h) hT
        (timer_counter_arith p k hp).1, hper]
    constructor
    · intro h
      rw [hk (Nat.lt_of_succ_lt h)]
      split
      · rename_i hmod
        obtain ⟨a1, a2, a3⟩ := timer_tick_arith p m k hp hm h hmod
        rw [if_neg a1, a2, a3]
      · rename_i hmod
        obtain ⟨a1, a2⟩ := timer_wait_arith p k hp hmod
        rw [← a1, ← a2]
    · intro h
      obtain ⟨a1, a2, a3⟩ := timer_overflow_arith p m k hp hm h
      rw [hk a1, if_pos a2, if_pos a3]

/-- Claim C12: with the timer running (`TAC` bit 2 set) at clock code `c`, whose period `p` is
256, 4, 16, 64 machine cycles for `c = 0, 1, 2, 3`, the sub-cycle counter at 0,
`TIMA = TMA = m` and the TIMER bit of `IF` clear, machine cycles alone give: after `k`
cycles, `k < p * (256 - m)`, `TIMA = m + k / p` (no overflow yet) and the TIMER bit is still
clear; after exactly `p * (256 - m)` cycles `TIMA` has been reloaded to `m` and the TIMER bit
of `IF` is set. -/
theorem timer_first_overflow (s : Cpu) (c p m : Nat)
    (hcode : (c = 0 ∧ p = 256) ∨ (c = 1 ∧ p = 4) ∨ (c = 2 ∧ p = 16) ∨ (c = 3 ∧ p = 64))
    (hrun : s.m_memory.TAC &&& 0x04 ≠ 0) (hc : s.m_memory.TAC &&& 0x03 = c)
    (hctr : s.incrementTIMA_cycleCounter = 0) (hTIMA : s.m_memory.TIMA = m)
    (hTMA : s.m_memory.TMA = m) (hm : m < 256) (hIF : s.m_memory.IF &&& 0x04 = 0) :
    (∀ k, k < p * (256 - m) →
      (doCycle k s).m_memory.TIMA = m + k / p ∧ (doCycle k s).m_memory.IF &&& 0x04 = 0) ∧
    (doCycle (p * (256 - m)) s).m_memory.TIMA = m ∧
    (doCycle (p * (256 - m)) s).m_memory.IF &&& 0x04 = 0x04 := by
  have hper : timaPeriod s.m_memory.TAC = p := by
    unfold timaPeriod
    rw [hc]
    rcases hcode with ⟨rfl, rfl⟩ | ⟨rfl, rfl⟩ | ⟨rfl, rfl⟩ | ⟨rfl, rfl⟩ <;> rfl
  have hp : p = 256 ∨ p = 4 ∨ p = 16 ∨ p = 64 := by
    rcases hcode with ⟨_, h⟩ | ⟨_, h⟩ | ⟨_, h⟩ | ⟨_, h⟩
    · exact Or.inl h
    · exact Or.inr (Or.inl h)
    · exact Or.inr (Or.inr (Or.inl h))
    · exact Or.inr (Or.inr (Or.inr h))
  have h0 : timerView s = (s.m_memory.TAC, m, m, 0, 0) := by
    unfold timerView
    rw [hTMA, hTIMA, hctr]
    exact congrArg (fun x => (s.m_memory.TAC, m, m, 0, x)) hIF
  have hrunK := timer_run s s.m_memory.TAC m p hrun hper hp hm h0
  refine ⟨?_, ?_, ?_⟩
  · intro k hk
    have h := (hrunK k).1 hk
    unfold timerView at h
    simp only [Prod.mk.injEq, TIMER_INTERRUPT_FLAG] at h
    exact ⟨h.2.2.1, h.2.2.2.2⟩
  · have h := (hrunK _).2 rfl
    unfold timerView at h
    simp only [Prod.mk.injEq, TIMER_INTERRUPT_FLAG] at h
    exact h.2.2.1
  · have h := (hrunK _).2 rfl
    unfold timerView at h
    simp only [Prod.mk.injEq, TIMER_INTERRUPT_FLAG] at h
    exact h.2.2.2.2

/-- Clock code 1 with `TIMA = TMA = 0xFE`: the overflow comes after `4 * 2 = 8` cycles. -/
theorem timer_first_overflow_witness :
    (runningTimerState.m_memory.TAC &&& 0x04 ≠ 0 ∧ runningTimerState.m_memory.TAC &&& 0x03 = 1 ∧
      runningTimerState.incrementTIMA_cycleCounter = 0 ∧
      runningTimerState.m_memory.TIMA = 0xFE ∧ runningTimerState.m_memory.TMA = 0xFE ∧
      0xFE < 256 ∧ runningTimerState.m_memory.IF &&& 0x04 = 0) ∧
    ((∀ k, k < 4 * (256 - 0xFE) →
      (doCycle k runningTimerState).m_memory.TIMA = 0xFE + k / 4 ∧
        (doCycle k runningTimerState).m_memory.IF &&& 0x04 = 0) ∧
    (doCycle (4 * (256 - 0xFE)) runningTimerState).m_memory.TIMA = 0xFE ∧
    (doCycle (4 * (256 - 0xFE)) runningTimerState).m_memory.IF &&& 0x04 = 0x04) ∧
    ((doCycle 7 runningTimerState).m_memory.TIMA = 0xFF ∧
      (doCycle 7 runningTimerState).m_memory.IF = 0x00 ∧
      (doCycle 8 runningTimerState).m_memory.TIMA = 0xFE ∧
      (doCycle 8 runningTimerState).m_memory.IF = 0x04) :=
  ⟨⟨by decide, rfl, rfl, rfl, rfl, by decide, rfl⟩,
    timer_first_overflow runningTimerState 1 4 0xFE (Or.inr (Or.inl ⟨rfl, rfl⟩)) (by decide)
      rfl rfl rfl rfl (by decide) rfl,
    ⟨rfl, rfl, rfl, rfl⟩⟩

end Cpu
end CppGB

namespace CppGB

namespace Memory

theorem performHdmaTransferLoop_DIV (n : Nat) :
    ∀ (a b : Nat) (m : Memory), (performHdmaTransferLoop n a b m).1.DIV = m.DIV := by
  induction n with
  | zero =>
    intro a b m
    rfl
  | succ n ih =>
    intro a b m
    unfold performHdmaTransferLoop
    exact ih _ _ _

theorem performHdmaTransfer_DIV (m : Memory) (n : Nat) : (m.performHdmaTransfer n).DIV = m.DIV := by
  simp only [performHdmaTransfer]
  exact performHdmaTransferLoop_DIV _ _ _ m

/-- `Memory::write` at `DIV_ADDRESS` is the assignment `DIV = value`. -/
theorem write_DIV (m : Memory) (v : Nat) : m.write DIV_ADDRESS v = { m with DIV := v } := rfl

end Memory

namespace DisplayController

theorem requestInterrupt_dividerView (flag : Nat) (s : Cpu) :
    Cpu.dividerView (Cpu.requestInterrupt flag s) = Cpu.dividerView s := rfl

theorem updateLY_dividerView (value : Nat) (s : Cpu) :
    Cpu.dividerView (updateLY value s) = Cpu.dividerView s := by
  simp only [updateLY, apply_ite Cpu.dividerView, requestInterrupt_dividerView, ite_self]
  rfl

theorem changeMode_dividerView (flag : Nat) (s : Cpu) :
    Cpu.dividerView (changeMode flag s) = Cpu.dividerView s := rfl

theorem hdma_dividerView (s : Cpu) (n : Nat) :
    Cpu.dividerView { s with m_memory := s.m_memory.performHdmaTransfer n }
      = Cpu.dividerView s := by
  unfold Cpu.dividerView
  exact congrArg (fun x => (x, s.incrementDIV_cycleCounter))
    (Memory.performHdmaTransfer_DIV s.m_memory n)

theorem counter_dividerView (s : Cpu) (n : Nat) :
    Cpu.dividerView { s with m_displayController := { s.m_displayController with
      m_cycleCounter := n } } = Cpu.dividerView s := rfl

theorem doCycleSwitch_dividerView (s : Cpu) :
    Cpu.dividerView (doCycleSwitch s) = Cpu.dividerView s := by
  simp only [doCycleSwitch, apply_ite Cpu.dividerView, updateLY_dividerView,
    changeMode_dividerView, requestInterrupt_dividerView, hdma_dividerView,
    counter_dividerView, ite_self]

theorem pipelineCycle_dividerView (s : Cpu) :
    Cpu.dividerView (DisplayController.doCycle s) = Cpu.dividerView s := by
  unfold DisplayController.doCycle
  split
  · rfl
  · rw [doCycleSwitch_dividerView]
    exact counter_dividerView s _

end DisplayController

namespace Cpu

theorem incrementTIMA_dividerView (s : Cpu) : dividerView (incrementTIMA s) = dividerView s := by
  simp only [incrementTIMA, apply_ite dividerView,
    DisplayController.requestInterrupt_dividerView]
  split_ifs <;> rfl

theorem displaySwitch_dividerView (s : Cpu) (b : Bool) :
    dividerView { s with doCycle_displaySwitch := b } = dividerView s := rfl

/-- Within a machine cycle only `incrementDIV` acts on the divider. -/
theorem doCycleStep_dividerView (s : Cpu) :
    dividerView (doCycleStep s) = dividerView (incrementDIV s) := by
  have h : dividerView (incrementTIMA (incrementDIV s)) = dividerView (incrementDIV s) :=
    incrementTIMA_dividerView _
  simp only [doCycleStep]
  generalize incrementTIMA (incrementDIV s) = t at h ⊢
  rw [← h]
  split_ifs
  · exact displaySwitch_dividerView t _
  · rw [DisplayController.pipelineCycle_dividerView]
    exact displaySwitch_dividerView t _
  · exact DisplayController.pipelineCycle_dividerView t

theorem incrementDIV_DIV (s : Cpu) :
    (incrementDIV s).m_memory.DIV =
      if (s.incrementDIV_cycleCounter + 1) % 256 = 128 then (s.m_memory.DIV + 1) % 256
      else s.m_memory.DIV := by
  simp only [incrementDIV]
  split <;> rfl

theorem doCycle_one_DIV (s : Cpu) :
    (doCycle 1 s).m_memory.DIV =
      if (s.incrementDIV_cycleCounter + 1) % 256 = 128 then (s.m_memory.DIV + 1) % 256
      else s.m_memory.DIV := by
  have h := congrArg Prod.fst (doCycleStep_dividerView s)
  rw [← incrementDIV_DIV]
  exact h

/-- `Cpu::writeToMemory` at `DIV_ADDRESS` takes the default arm. -/
theorem writeToMemory_DIV (v : Nat) (s : Cpu) :
    writeToMemory Memory.DIV_ADDRESS v s
      = doCycle 1 { s with m_memory := s.m_memory.write Memory.DIV_ADDRESS v } := by
  unfold writeToMemory
  iterate 18 rw [if_neg (by decide)]

/-- Claim C13, as the code has it: a write to `DIV` (0xFF04) stores the written byte.
`Memory::write` leaves `DIV = v`; after the machine cycle that ends `Cpu::writeToMemory`,
`DIV` is `v`, or `(v + 1) mod 256` when the divider ticks in that cycle (its cycle counter
reaches 128). -/
theorem write_DIV_stores_value (s : Cpu) (v : Nat) :
    (s.m_memory.write Memory.DIV_ADDRESS v).DIV = v ∧
    (writeToMemory Memory.DIV_ADDRESS v s).m_memory.DIV =
      if (s.incrementDIV_cycleCounter + 1) % 256 = 128 then (v + 1) % 256 else v := by
  refine ⟨rfl, ?_⟩
  rw [writeToMemory_DIV, doCycle_one_DIV]
  rfl

/-- Claim C13 fails for `v = 0x5A`: on a fresh machine the write leaves `DIV = 0x5A`, and
running the program `LD A, 0x5A; LDH (0x04), A` ends with `DIV = 0x5A`, not 0. -/
theorem write_DIV_does_not_reset :
    (writeToMemory 0xFF04 0x5A (Cpu.init (Memory.defaults divWriteRom))).m_memory.DIV = 0x5A ∧
    (∃ s, run [noKeys, noKeys] (Cpu.init (Memory.defaults divWriteRom)) = Except.ok s ∧
      s.m_registers.PC = 0x0104 ∧ s.m_memory.DIV = 0x5A) ∧
    ¬ (∀ v, v < 256 →
      (writeToMemory 0xFF04 v (Cpu.init (Memory.defaults divWriteRom))).m_memory.DIV = 0) :=
  ⟨rfl, ⟨_, rfl, rfl, rfl⟩, fun h => absurd (h 0x5A (by decide)) (by decide)⟩

end Cpu
end CppGB

/-! # The cartridge -/

namespace CppGB

namespace Memory

/-! ## Loading a cartridge -/

theorem outcome_ite {c : Prop} [Decidable c] {a b : Except LoadError Memory}
    {good : Memory → Prop} {bad : LoadError → Prop}
    (ha : c → outcome a good bad) (hb : ¬ c → outcome b good bad) :
    outcome (if c then a else b) good bad := by
  split
  · exact ha (by assumption)
  · exact hb (by assumption)

theorem outcome_ok {r : Except LoadError Memory} {good : Memory → Prop}
    {bad : LoadError → Prop} {m : Memory} (h : outcome r good bad) (hr : r = Except.ok m) :
    good m := by
  subst hr
  exact h

theorem outcome_error {r : Except LoadError Memory} {good : Memory → Prop}
    {bad : LoadError → Prop} {e : LoadError} (h : outcome r good bad)
    (hr : r = Except.error e) : bad e := by
  subst hr
  exact h

theorem getCartridgeType_outcome (m : Memory) (hs : m.m_saveEnabled = false) :
    outcome m.getCartridgeType
      (fun m' => m' = { m with m_mbc := m'.m_mbc, m_saveEnabled := m'.m_saveEnabled } ∧
        m.m_rom.data 0x147 ∈ acceptedCodes ∧
        (m'.m_saveEnabled = true ↔ m.m_rom.data 0x147 ∈ saveEnabledCodes) ∧
        (m.m_rom.data 0x147 = 0x05 ∨ m.m_rom.data 0x147 = 0x06 → m'.m_mbc = Mbc.MBC2) ∧
        (m.m_rom.data 0x147 = 0x0F → m'.m_mbc = Mbc.MBC3))
      (fun e => m.m_rom.data 0x147 ∉ acceptedCodes ∧
        e = LoadError.unknownCartridgeType (m.m_rom.data 0x147)) := by
  unfold getCartridgeType
  generalize m.m_rom.data 0x147 = ct
  repeat' (apply outcome_ite <;> intro _)
  all_goals first
    | (subst ct
       refine ⟨rfl, by decide, ⟨?_, ?_⟩, ?_, ?_⟩
       · first
           | exact fun _ => by decide
           | (intro h
              rw [hs] at h
              cases h)
       · first
           | exact fun _ => rfl
           | exact fun h => absurd h (by decide)
       · first
           | exact fun _ => rfl
           | exact fun h => absurd h (by decide)
       · first
           | exact fun _ => rfl
           | exact fun h => absurd h (by decide))
    | (refine ⟨?_, rfl⟩
       simp only [acceptedCodes, List.mem_cons, List.mem_singleton, List.not_mem_nil, or_false]
       intro hmem
       omega)

theorem resizeExternalRam_outcome (m : Memory) :
    outcome m.resizeExternalRam
      (fun m' => m' = { m with m_externalRam := m'.m_externalRam } ∧
        m.m_rom.data 0x149 ∈ acceptedRamSizes ∧
        m'.m_externalRam.size =
          if m.m_rom.data 0x149 = 0 then
            (if m.m_mbc = Mbc.MBC2 then 0x200 else m.m_externalRam.size)
          else if m.m_rom.data 0x149 = 2 then 0x2000
          else if m.m_rom.data 0x149 = 3 then 0x8000
          else 0x20000)
      (fun e => m.m_rom.data 0x149 ∉ acceptedRamSizes ∧
        e = LoadError.unknownExternalRamSize (m.m_rom.data 0x149)) := by
  unfold resizeExternalRam
  generalize m.m_rom.data 0x149 = code
  repeat' (apply outcome_ite <;> intro _)
  all_goals first
    | (subst code
       refine ⟨rfl, by decide, ?_⟩
       first
         | rfl
         | (rw [if_pos rfl, if_pos (by assumption)]
            rfl)
         | rw [if_pos rfl, if_neg (by assumption)])
    | (refine ⟨?_, rfl⟩
       simp only [acceptedRamSizes, List.mem_cons, List.mem_singleton, List.not_mem_nil,
         or_false]
       intro hmem
       omega)

theorem loadSave_frame (m : Memory) (save : Option (List Nat)) :
    m.loadSave save = { m with m_externalRam := (m.loadSave save).m_externalRam } ∧
      (m.loadSave save).m_externalRam.size = m.m_externalRam.size := by
  cases save <;> exact ⟨rfl, rfl⟩

theorem construct_eq (rom : ByteVector) (save : Option (List Nat)) :
    construct (some rom) save =
      match (defaults rom).getCartridgeType with
      | Except.error e => Except.error e
      | Except.ok m =>
        match m.resizeExternalRam with
        | Except.ok m => Except.ok (m.loadSave save)
        | Except.error e => Except.error e := rfl

/-- What `Memory::Memory` yields for a ROM file: the decoded cartridge, or the error that
names the header byte it rejects. -/
theorem construct_outcome (rom : ByteVector) (save : Option (List Nat)) :
    outcome (construct (some rom) save)
      (fun m => m.m_rom = rom ∧ m.m_romBankNumber = 1 ∧
        rom.data 0x147 ∈ acceptedCodes ∧ rom.data 0x149 ∈ acceptedRamSizes ∧
        (m.m_saveEnabled = true ↔ rom.data 0x147 ∈ saveEnabledCodes) ∧
        (rom.data 0x147 = 0x05 ∨ rom.data 0x147 = 0x06 → m.m_mbc = Mbc.MBC2) ∧
        (rom.data 0x147 = 0x0F → m.m_mbc = Mbc.MBC3) ∧
        m.m_externalRam.size =
          if rom.data 0x149 = 0 then (if m.m_mbc = Mbc.MBC2 then 0x200 else 0)
          else if rom.data 0x149 = 2 then 0x2000
          else if rom.data 0x149 = 3 then 0x8000
          else 0x20000)
      (fun e => (rom.data 0x147 ∉ acceptedCodes ∧
          e = LoadError.unknownCartridgeType (rom.data 0x147)) ∨
        (rom.data 0x147 ∈ acceptedCodes ∧ rom.data 0x149 ∉ acceptedRamSizes ∧
          e = LoadError.unknownExternalRamSize (rom.data 0x149))) := by
  rw [construct_eq]
  have hg := getCartridgeType_outcome (defaults rom) rfl
  cases hr : (defaults rom).getCartridgeType with
  | error e => exact Or.inl (outcome_error hg hr)
  | ok m1 =>
    obtain ⟨g1, g2, g3, g4, g5⟩ := outcome_ok hg hr
    have hrom : m1.m_rom = rom := by
      rw [g1]
      rfl
    have hbank : m1.m_romBankNumber = 1 := by
      rw [g1]
      rfl
    have hram : m1.m_externalRam.size = 0 := by
      rw [g1]
      rfl
    have hx := resizeExternalRam_outcome m1
    show outcome (match m1.resizeExternalRam with
      | Except.ok m => Except.ok (m.loadSave save)
      | Except.error e => Except.error e) _ _
    cases hx2 : m1.resizeExternalRam with
    | error e =>
      have hx3 := outcome_error hx hx2
      rw [hrom] at hx3
      exact Or.inr ⟨g2, hx3.1, hx3.2⟩
    | ok m2 =>
      obtain ⟨x1, x2, x3⟩ := outcome_ok hx hx2
      rw [hrom, hram] at x3
      rw [hrom] at x2
      obtain ⟨l1, l2⟩ := loadSave_frame m2 save
      have hmbc : (m2.loadSave save).m_mbc = m1.m_mbc := by
        rw [l1, x1]
      have hsave : (m2.loadSave save).m_saveEnabled = m1.m_saveEnabled := by
        rw [l1, x1]
      show _ ∧ _
      refine ⟨?_, ?_, g2, x2, ?_, ?_, ?_, ?_⟩
      · rw [l1, x1]
        exact hrom
      · rw [l1, x1]
        exact hbank
      · rw [hsave]
        exact g3
      · rw [hmbc]
        exact g4
      · rw [hmbc]
        exact g5
      · rw [l2, hmbc]
        exact x3

/-- A loaded cartridge holds the ROM file and starts with ROM bank 1 selected. -/
theorem construct_rom {rom : ByteVector} {save : Option (List Nat)} {m : Memory}
    (h : construct (some rom) save = Except.ok m) : m.m_rom = rom ∧ m.m_romBankNumber = 1 := by
  have hc := outcome_ok (construct_outcome rom save) h
  exact ⟨hc.1, hc.2.1⟩

/-- The constructor succeeds when it accepts both header bytes. -/
theorem construct_total (rom : ByteVector) (save : Option (List Nat))
    (h1 : rom.data 0x147 ∈ acceptedCodes) (h2 : rom.data 0x149 ∈ acceptedRamSizes) :
    ∃ m, construct (some rom) save = Except.ok m := by
  cases hr : construct (some rom) save with
  | ok m => exact ⟨m, rfl⟩
  | error e =>
    rcases outcome_error (construct_outcome rom save) hr with h | h
    · exact absurd h1 h.1
    · exact absurd h2 h.2.1

end Memory
end CppGB

namespace CppGB

namespace Memory

/-! ## Bank switching -/

theorem write_rom_range (m : Memory) (a v : Nat) (h : a ≤ 0x7FFF) :
    m.write a v = m.writeToRom a v := by
  unfold write
  rw [if_pos ⟨Nat.zero_le _, h⟩]

theorem writeRegister_cartridge (m : Memory) (a v : Nat) :
    (m.writeRegister a v).m_mbc = m.m_mbc ∧ (m.writeRegister a v).m_rom = m.m_rom ∧
      (m.writeRegister a v).m_romBankNumber = m.m_romBankNumber := by
  refine ⟨?_, ?_, ?_⟩
  · simp only [writeRegister, apply_ite Memory.m_mbc, ite_self]
  · simp only [writeRegister, apply_ite Memory.m_rom, ite_self]
  · simp only [writeRegister, apply_ite Memory.m_romBankNumber, ite_self]

/-- A write above the ROM range leaves the cartridge's controller, image and bank alone. -/
theorem write_other_cartridge (m : Memory) (a v : Nat) (h : 0x7FFF < a) :
    (m.write a v).m_mbc = m.m_mbc ∧ (m.write a v).m_rom = m.m_rom ∧
      (m.write a v).m_romBankNumber = m.m_romBankNumber := by
  have hn : ¬ (ROM_START_ADDRESS ≤ a ∧ a ≤ ROM_END_ADDRESS) := fun hc =>
    absurd hc.2 (Nat.not_le.mpr h)
  obtain ⟨r1, r2, r3⟩ := writeRegister_cartridge m a v
  refine ⟨?_, ?_, ?_⟩
  · unfold write
    rw [if_neg hn]
    simp only [apply_ite Memory.m_mbc, r1, ite_self]
  · unfold write
    rw [if_neg hn]
    simp only [apply_ite Memory.m_rom, r2, ite_self]
  · unfold write
    rw [if_neg hn]
    simp only [apply_ite Memory.m_romBankNumber, r3, ite_self]

theorem writeToRom_mbc1_frame (m : Memory) (a v : Nat) :
    (m.writeToRom_mbc1 a v).m_mbc = m.m_mbc ∧ (m.writeToRom_mbc1 a v).m_rom = m.m_rom ∧
      (m.m_romBankNumber ≠ 0 → (m.writeToRom_mbc1 a v).m_romBankNumber ≠ 0) := by
  unfold writeToRom_mbc1
  split_ifs with h1 h2 h3 h4
  · exact ⟨rfl, rfl, id⟩
  · exact ⟨rfl, rfl, fun _ => Nat.one_ne_zero⟩
  · exact ⟨rfl, rfl, fun _ => h3⟩
  · exact ⟨rfl, rfl, id⟩
  · exact ⟨rfl, rfl, id⟩

/-- One write to an MBC1 cartridge keeps the controller, the image and a non-zero bank. -/
theorem write_mbc1_frame (m : Memory) (a v : Nat) (hmbc : m.m_mbc = Mbc.MBC1) :
    (m.write a v).m_mbc = Mbc.MBC1 ∧ (m.write a v).m_rom = m.m_rom ∧
      (m.m_romBankNumber ≠ 0 → (m.write a v).m_romBankNumber ≠ 0) := by
  by_cases h : a ≤ 0x7FFF
  · rw [write_rom_range m a v h]
    unfold writeToRom
    rw [hmbc]
    obtain ⟨h1, h2, h3⟩ := writeToRom_mbc1_frame m a v
    exact ⟨h1.trans hmbc, h2, h3⟩
  · obtain ⟨h1, h2, h3⟩ := write_other_cartridge m a v (Nat.not_le.mp h)
    exact ⟨h1.trans hmbc, h2, fun hb => by rw [h3]; exact hb⟩

theorem writes_mbc1_frame (ws : List (Nat × Nat)) :
    ∀ m : Memory, m.m_mbc = Mbc.MBC1 → m.m_romBankNumber ≠ 0 →
      (m.writes ws).m_mbc = Mbc.MBC1 ∧ (m.writes ws).m_rom = m.m_rom ∧
        (m.writes ws).m_romBankNumber ≠ 0 := by
  induction ws with
  | nil =>
    intro m h1 h2
    exact ⟨h1, rfl, h2⟩
  | cons w rest ih =>
    intro m h1 h2
    obtain ⟨a1, a2, a3⟩ := write_mbc1_frame m w.1 w.2 h1
    obtain ⟨b1, b2, b3⟩ := ih (m.write w.1 w.2) a1 (a3 h2)
    exact ⟨b1, b2.trans a2, b3⟩

/-- The index of `Memory::read` in the switchable window, for a bank number of at least 1. -/
theorem romIndex_bank (m : Memory) (o : Nat) (hb : 1 ≤ m.m_romBankNumber) :
    m.romIndex (0x4000 + o) = m.m_romBankNumber * 0x4000 + o := by
  unfold romIndex
  simp only [ROM_BANK_SIZE]
  omega

/-- The index of `Memory::read` in the switchable window when bank 0 is selected. -/
theorem romIndex_zero (m : Memory) (o : Nat) (hb : m.m_romBankNumber = 0) :
    m.romIndex (0x4000 + o) = o := by
  unfold romIndex
  simp only [ROM_BANK_SIZE]
  omega

theorem read_window (m : Memory) (o : Nat) (ho : o < 0x4000) :
    m.read (0x4000 + o) = m.m_rom.data (m.romIndex (0x4000 + o)) := by
  unfold read
  rw [if_pos (by simp only [ROM_START_ADDRESS, ROM_END_ADDRESS]; omega),
    if_neg (by simp only [ROM_BANK_SIZE]; omega)]

theorem read_fixed (m : Memory) (o : Nat) (ho : o < 0x4000) : m.read o = m.m_rom.data o := by
  unfold read
  rw [if_pos (by simp only [ROM_START_ADDRESS, ROM_END_ADDRESS]; omega),
    if_pos (by simp only [ROM_BANK_SIZE]; omega)]

/-- A write to `0x2000..0x3FFF` of an MBC1 cartridge sets the bank to the written value, 1
when the value is 0. -/
theorem write_mbc1_bank (m : Memory) (a v : Nat) (hmbc : m.m_mbc = Mbc.MBC1)
    (h1 : 0x2000 ≤ a) (h2 : a ≤ 0x3FFF) :
    m.write a v = { m with m_romBankNumber := if v = 0 then 1 else v } := by
  have hw : m.writeToRom a v = m.writeToRom_mbc1 a v := by
    unfold writeToRom
    rw [hmbc]
  rw [write_rom_range m a v (by omega), hw]
  unfold writeToRom_mbc1
  rw [if_neg (by omega), if_pos (by omega)]
  split <;> rfl

/-- A write to `0x2000..0x2FFF` of an MBC5 cartridge sets the bank to the written value. -/
theorem write_mbc5_bank (m : Memory) (a v : Nat) (hmbc : m.m_mbc = Mbc.MBC5)
    (h1 : 0x2000 ≤ a) (h2 : a ≤ 0x2FFF) :
    m.write a v = { m with m_romBankNumber := v } := by
  have hw : m.writeToRom a v = m.writeToRom_mbc5 a v := by
    unfold writeToRom
    rw [hmbc]
  rw [write_rom_range m a v (by omega), hw]
  unfold writeToRom_mbc5
  rw [if_neg (by omega), if_pos (by omega)]

end Memory

namespace Cpu

/-- Claim C14: for an MBC1 cartridge with at least two ROM banks, in every state reached from
the loaded cartridge by a sequence of memory writes, the selected bank is never 0 (reads of
`0x4000 + o` use an index of at least `0x4000`), and a further write of 0 to an address in
`0x2000..0x3FFF` makes every read of `0x4000 + o`, `o < 0x4000`, return ROM byte
`0x4000 + o`, inside the image: bank 1. -/
theorem mbc1_zero_selects_bank_one (rom : ByteVector) (save : Option (List Nat)) (m : Memory)
    (hload : Memory.construct (some rom) save = Except.ok m) (hmbc : m.m_mbc = Mbc.MBC1)
    (hbanks : 2 * Memory.ROM_BANK_SIZE ≤ rom.size) (ws : List (Nat × Nat)) :
    (m.writes ws).m_romBankNumber ≠ 0 ∧
    (∀ o, o < 0x4000 → 0x4000 ≤ (m.writes ws).romIndex (0x4000 + o)) ∧
    (∀ a o, 0x2000 ≤ a → a ≤ 0x3FFF → o < 0x4000 →
      ((m.writes ws).write a 0).m_romBankNumber = 1 ∧
      ((m.writes ws).write a 0).read (0x4000 + o) = rom.data (0x4000 + o) ∧
      ((m.writes ws).write a 0).romIndex (0x4000 + o) = 0x4000 + o ∧
      0x4000 + o < ((m.writes ws).write a 0).m_rom.size) := by
  obtain ⟨hrom, hbank⟩ := Memory.construct_rom hload
  obtain ⟨w1, w2, w3⟩ := Memory.writes_mbc1_frame ws m hmbc (by rw [hbank]; exact Nat.one_ne_zero)
  refine ⟨w3, ?_, ?_⟩
  · intro o _
    rw [Memory.romIndex_bank _ o (Nat.one_le_iff_ne_zero.mpr w3)]
    have h1 : 1 ≤ (m.writes ws).m_romBankNumber := Nat.one_le_iff_ne_zero.mpr w3
    have h2 : 1 * 0x4000 ≤ (m.writes ws).m_romBankNumber * 0x4000 :=
      Nat.mul_le_mul_right _ h1
    omega
  · intro a o ha1 ha2 ho
    rw [Memory.write_mbc1_bank _ a 0 w1 ha1 ha2]
    have hidx : Memory.romIndex { m.writes ws with m_romBankNumber := if 0 = 0 then 1 else 0 }
        (0x4000 + o) = 0x4000 + o := by
      rw [Memory.romIndex_bank _ o (Nat.le_refl 1)]
      show 1 * 0x4000 + o = 0x4000 + o
      omega
    refine ⟨rfl, ?_, hidx, ?_⟩
    · rw [Memory.read_window _ o ho, hidx]
      show (m.writes ws).m_rom.data (0x4000 + o) = _
      rw [w2, hrom]
    · show 0x4000 + o < (m.writes ws).m_rom.size
      rw [w2, hrom]
      simp only [Memory.ROM_BANK_SIZE] at hbanks
      omega

/-- An MBC1 image of 64 banks, after the writes `(0x2100, 5)` and `(0xC000, 7)`. -/
theorem mbc1_zero_selects_bank_one_witness :
    (Memory.construct (some (bankNumberRom 0x01 0 64)) none
        = Except.ok (Memory.loaded (bankNumberRom 0x01 0 64)) ∧
      (Memory.loaded (bankNumberRom 0x01 0 64)).m_mbc = Mbc.MBC1 ∧
      2 * Memory.ROM_BANK_SIZE ≤ (bankNumberRom 0x01 0 64).size) ∧
    (((Memory.loaded (bankNumberRom 0x01 0 64)).writes
        [(0x2100, 5), (0xC000, 7)]).m_romBankNumber ≠ 0 ∧
    (∀ o, o < 0x4000 → 0x4000 ≤ ((Memory.loaded (bankNumberRom 0x01 0 64)).writes
        [(0x2100, 5), (0xC000, 7)]).romIndex (0x4000 + o)) ∧
    (∀ a o, 0x2000 ≤ a → a ≤ 0x3FFF → o < 0x4000 →
      (((Memory.loaded (bankNumberRom 0x01 0 64)).writes
        [(0x2100, 5), (0xC000, 7)]).write a 0).m_romBankNumber = 1 ∧
      (((Memory.loaded (bankNumberRom 0x01 0 64)).writes
        [(0x2100, 5), (0xC000, 7)]).write a 0).read (0x4000 + o)
          = (bankNumberRom 0x01 0 64).data (0x4000 + o) ∧
      (((Memory.loaded (bankNumberRom 0x01 0 64)).writes
        [(0x2100, 5), (0xC000, 7)]).write a 0).romIndex (0x4000 + o) = 0x4000 + o ∧
      0x4000 + o < (((Memory.loaded (bankNumberRom 0x01 0 64)).writes
        [(0x2100, 5), (0xC000, 7)]).write a 0).m_rom.size)) ∧
    ((Memory.loaded (bankNumberRom 0x01 0 64)).writes [(0x2100, 5), (0xC000, 7)]).read 0x4000
      = 5 ∧
    (((Memory.loaded (bankNumberRom 0x01 0 64)).writes
        [(0x2100, 5), (0xC000, 7)]).write 0x2100 0).read 0x4000 = 1 :=
  ⟨⟨rfl, rfl, by decide⟩,
    mbc1_zero_selects_bank_one (bankNumberRom 0x01 0 64) none
      (Memory.loaded (bankNumberRom 0x01 0 64)) rfl rfl (by decide) [(0x2100, 5), (0xC000, 7)],
    by decide, by decide⟩

/-- Claim C15, as the code has it: for an MBC1 cartridge, after a write of `v` to an address
in `0x2000..0x3FFF`, a read of `0x4000 + o` returns ROM byte `b * 0x4000 + o` where `b` is the
whole written value `v`, with 0 replaced by 1; no bits are masked off.  For `v < 0x20` this
is the bank `v & 0x1F` of the claim. -/
theorem mbc1_bank_is_written_value (m : Memory) (a v o : Nat) (hmbc : m.m_mbc = Mbc.MBC1)
    (ha1 : 0x2000 ≤ a) (ha2 : a ≤ 0x3FFF) (ho : o < 0x4000) :
    (m.write a v).m_romBankNumber = (if v = 0 then 1 else v) ∧
    (m.write a v).read (0x4000 + o) = m.m_rom.data ((if v = 0 then 1 else v) * 0x4000 + o) ∧
    (v < 0x20 → (if v = 0 then 1 else v) = (if v &&& 0x1F = 0 then 1 else v &&& 0x1F)) := by
  rw [Memory.write_mbc1_bank m a v hmbc ha1 ha2]
  refine ⟨rfl, ?_, ?_⟩
  · have hb : 1 ≤ (if v = 0 then 1 else v) := by
      split <;> omega
    rw [Memory.read_window _ o ho, Memory.romIndex_bank _ o hb]
  · intro hv
    have h : v &&& 0x1F = v := by
      have h2 : v &&& (2 ^ 5 - 1) = v % 2 ^ 5 := Nat.and_pow_two_sub_one_eq_mod v 5
      have h3 : v % 2 ^ 5 = v := Nat.mod_eq_of_lt hv
      exact h2.trans h3
    rw [h]

/-- The bank round trip: on an MBC1 image whose banks start with their number, writing 2 to
`0x2100` makes a read of `0x4000` return 2, and writing 0 makes it return 1. -/
theorem mbc1_bank_is_written_value_witness :
    ((Memory.loaded (bankNumberRom 0x01 0 64)).m_mbc = Mbc.MBC1 ∧ 0x2000 ≤ 0x2100 ∧
      0x2100 ≤ 0x3FFF ∧ 0 < 0x4000) ∧
    (((Memory.loaded (bankNumberRom 0x01 0 64)).write 0x2100 2).m_romBankNumber
        = (if 2 = 0 then 1 else 2) ∧
      ((Memory.loaded (bankNumberRom 0x01 0 64)).write 0x2100 2).read (0x4000 + 0)
        = (Memory.loaded (bankNumberRom 0x01 0 64)).m_rom.data
            ((if 2 = 0 then 1 else 2) * 0x4000 + 0) ∧
      (2 < 0x20 → (if 2 = 0 then 1 else 2) = (if 2 &&& 0x1F = 0 then 1 else 2 &&& 0x1F))) ∧
    ((Memory.loaded (bankNumberRom 0x01 0 64)).write 0x2100 2).read 0x4000 = 2 ∧
    (((Memory.loaded (bankNumberRom 0x01 0 64)).write 0x2100 2).write 0x2100 0).read 0x4000
      = 1 :=
  ⟨⟨rfl, by decide, by decide, by decide⟩,
    mbc1_bank_is_written_value (Memory.loaded (bankNumberRom 0x01 0 64)) 0x2100 2 0 rfl
      (by decide) (by decide) (by decide),
    by decide, by decide⟩

/-- Claim C15 fails for `v = 0x21` on an MBC1 image of 64 banks: the claim has the read of
`0x4000` return the first byte of bank `0x21 & 0x1F = 1`, which is 1; the code selects bank
`0x21` and the read returns `0x21`. -/
theorem mbc1_bank_not_masked :
    (Memory.loaded (bankNumberRom 0x01 0 64)).m_mbc = Mbc.MBC1 ∧
    ((Memory.loaded (bankNumberRom 0x01 0 64)).write 0x2100 0x21).m_romBankNumber = 0x21 ∧
    ((Memory.loaded (bankNumberRom 0x01 0 64)).write 0x2100 0x21).read 0x4000 = 0x21 ∧
    (bankNumberRom 0x01 0 64).data ((0x21 &&& 0x1F) * 0x4000 + 0) = 1 ∧
    ((Memory.loaded (bankNumberRom 0x01 0 64)).write 0x2100 0x21).read (0x4000 + 0)
      ≠ (bankNumberRom 0x01 0 64).data
          ((if 0x21 &&& 0x1F = 0 then 1 else 0x21 &&& 0x1F) * 0x4000 + 0) :=
  ⟨rfl, rfl, by decide, by decide, by decide⟩

/-- Claim C16: for an MBC5 cartridge whose image holds the fixed bank, after a write of 0 to
an address in `0x2000..0x2FFF` every read of `0x4000 + o`, `o < 0x4000`, returns ROM byte `o`,
the byte a read of address `o` returns, and the index computed by the read is `o`, inside the
image. -/
theorem mbc5_zero_selects_bank_zero (m : Memory) (a o : Nat) (hmbc : m.m_mbc = Mbc.MBC5)
    (hsize : Memory.ROM_BANK_SIZE ≤ m.m_rom.size)
    (ha1 : 0x2000 ≤ a) (ha2 : a ≤ 0x2FFF) (ho : o < 0x4000) :
    (m.write a 0).read (0x4000 + o) = m.m_rom.data o ∧
    (m.write a 0).read (0x4000 + o) = (m.write a 0).read o ∧
    (m.write a 0).romIndex (0x4000 + o) = o ∧
    (m.write a 0).romIndex (0x4000 + o) < (m.write a 0).m_rom.size := by
  rw [Memory.write_mbc5_bank m a 0 hmbc ha1 ha2]
  have hidx : Memory.romIndex { m with m_romBankNumber := 0 } (0x4000 + o) = o :=
    Memory.romIndex_zero _ o rfl
  have hread : Memory.read { m with m_romBankNumber := 0 } (0x4000 + o) = m.m_rom.data o := by
    rw [Memory.read_window _ o ho, hidx]
  refine ⟨hread, ?_, hidx, ?_⟩
  · rw [hread, Memory.read_fixed _ o ho]
  · rw [hidx]
    show o < m.m_rom.size
    simp only [Memory.ROM_BANK_SIZE] at hsize
    omega

/-- An MBC5 image of 4 banks with bank 3 selected: after the write of 0 to `0x2000`, the
read of `0x4000` returns the first byte of bank 0. -/
theorem mbc5_zero_selects_bank_zero_witness :
    ((Memory.loaded (bankNumberRom 0x19 0 4)).m_mbc = Mbc.MBC5 ∧
      Memory.ROM_BANK_SIZE ≤ (Memory.loaded (bankNumberRom 0x19 0 4)).m_rom.size ∧
      0x2000 ≤ 0x2000 ∧ 0x2000 ≤ 0x2FFF ∧ 0 < 0x4000) ∧
    ((((Memory.loaded (bankNumberRom 0x19 0 4)).write 0x2000 3).write 0x2000 0).read
        (0x4000 + 0)
        = ((Memory.loaded (bankNumberRom 0x19 0 4)).write 0x2000 3).m_rom.data 0 ∧
      (((Memory.loaded (bankNumberRom 0x19 0 4)).write 0x2000 3).write 0x2000 0).read
        (0x4000 + 0)
        = (((Memory.loaded (bankNumberRom 0x19 0 4)).write 0x2000 3).write 0x2000 0).read 0 ∧
      (((Memory.loaded (bankNumberRom 0x19 0 4)).write 0x2000 3).write 0x2000 0).romIndex
        (0x4000 + 0) = 0 ∧
      (((Memory.loaded (bankNumberRom 0x19 0 4)).write 0x2000 3).write 0x2000 0).romIndex
        (0x4000 + 0)
        < (((Memory.loaded (bankNumberRom 0x19 0 4)).write 0x2000 3).write 0x2000 0).m_rom.size) ∧
    ((Memory.loaded (bankNumberRom 0x19 0 4)).write 0x2000 3).read 0x4000 = 3 ∧
    (((Memory.loaded (bankNumberRom 0x19 0 4)).write 0x2000 3).write 0x2000 0).read 0x4000
      = 0 :=
  ⟨⟨rfl, by decide, by decide, by decide, by decide⟩,
    mbc5_zero_selects_bank_zero ((Memory.loaded (bankNumberRom 0x19 0 4)).write 0x2000 3)
      0x2000 0 rfl (by decide) (by decide) (by decide) (by decide),
    by decide, by decide⟩

end Cpu
end CppGB

namespace CppGB

namespace Cpu

end Cpu
end CppGB

/-! # The memory map -/

namespace CppGB

namespace Memory

/-! ## Unmapped addresses -/

/-- The unused block between OAM and the registers: `read` falls through to the register
`switch`, whose `default` returns `0xFF`, and `write` changes nothing. -/
theorem unused_block_inert (m : Memory) (a v : Nat) (h1 : 0xFEA0 ≤ a) (h2 : a ≤ 0xFEFF) :
    m.read a = 0xFF ∧ m.write a v = m := by
  interval_cases a <;> exact ⟨rfl, rfl⟩

/-- A register-page address that is neither in the register `enum` nor in waveform RAM. -/
theorem unnamed_register_inert (m : Memory) (a v : Nat) (h1 : 0xFF00 ≤ a) (h2 : a ≤ 0xFF7F)
    (hr : a ∉ registerAddresses) (hw : ¬ (0xFF30 ≤ a ∧ a ≤ 0xFF3F)) :
    m.read a = 0xFF ∧ m.write a v = m := by
  interval_cases a <;> first
    | exact ⟨rfl, rfl⟩
    | exact absurd hw (by decide)
    | exact absurd hr (by decide)

end Memory

namespace Cpu

end Cpu
end CppGB

namespace CppGB

namespace Memory

/-! ## OAM DMA -/

/-- Below `0xFE00` a read does not look at OAM. -/
theorem read_low_oam (m : Memory) (f : Nat → Nat) (a : Nat) (h : a < 0xFE00) :
    ({ m with m_oam := f } : Memory).read a = m.read a := by
  unfold read
  by_cases h1 : ROM_START_ADDRESS ≤ a ∧ a ≤ ROM_END_ADDRESS
  · rw [if_pos h1, if_pos h1]
    rfl
  rw [if_neg h1, if_neg h1]
  by_cases h2 : DISPLAYRAM_START_ADDRESS ≤ a ∧ a ≤ DISPLAYRAM_END_ADDRESS
  · rw [if_pos h2, if_pos h2]
    rfl
  rw [if_neg h2, if_neg h2]
  by_cases h3 : EXTERNALRAM_START_ADDRESS ≤ a ∧ a ≤ EXTERNALRAM_END_ADDRESS
  · rw [if_pos h3, if_pos h3]
    rfl
  rw [if_neg h3, if_neg h3]
  by_cases h4 : WORKRAM_START_ADDRESS ≤ a ∧ a ≤ WORKRAM_END_ADDRESS
  · rw [if_pos h4, if_pos h4]
    rfl
  rw [if_neg h4, if_neg h4]
  by_cases h5 : ECHORAM_START_ADDRESS ≤ a ∧ a ≤ ECHORAM_END_ADDRESS
  · rw [if_pos h5, if_pos h5]
    rfl
  exfalso
  simp only [ROM_START_ADDRESS, ROM_END_ADDRESS, DISPLAYRAM_START_ADDRESS,
    DISPLAYRAM_END_ADDRESS, EXTERNALRAM_START_ADDRESS, EXTERNALRAM_END_ADDRESS,
    WORKRAM_START_ADDRESS, WORKRAM_END_ADDRESS, ECHORAM_START_ADDRESS, ECHORAM_END_ADDRESS]
    at h1 h2 h3 h4 h5
  omega

/-- Below `0xFE00` a read does not look at the `DMA` register. -/
theorem read_low_DMA (m : Memory) (v a : Nat) (h : a < 0xFE00) :
    ({ m with DMA := v } : Memory).read a = m.read a := by
  unfold read
  by_cases h1 : ROM_START_ADDRESS ≤ a ∧ a ≤ ROM_END_ADDRESS
  · rw [if_pos h1, if_pos h1]
    rfl
  rw [if_neg h1, if_neg h1]
  by_cases h2 : DISPLAYRAM_START_ADDRESS ≤ a ∧ a ≤ DISPLAYRAM_END_ADDRESS
  · rw [if_pos h2, if_pos h2]
    rfl
  rw [if_neg h2, if_neg h2]
  by_cases h3 : EXTERNALRAM_START_ADDRESS ≤ a ∧ a ≤ EXTERNALRAM_END_ADDRESS
  · rw [if_pos h3, if_pos h3]
    rfl
  rw [if_neg h3, if_neg h3]
  by_cases h4 : WORKRAM_START_ADDRESS ≤ a ∧ a ≤ WORKRAM_END_ADDRESS
  · rw [if_pos h4, if_pos h4]
    rfl
  rw [if_neg h4, if_neg h4]
  by_cases h5 : ECHORAM_START_ADDRESS ≤ a ∧ a ≤ ECHORAM_END_ADDRESS
  · rw [if_pos h5, if_pos h5]
    rfl
  exfalso
  simp only [ROM_START_ADDRESS, ROM_END_ADDRESS, DISPLAYRAM_START_ADDRESS,
    DISPLAYRAM_END_ADDRESS, EXTERNALRAM_START_ADDRESS, EXTERNALRAM_END_ADDRESS,
    WORKRAM_START_ADDRESS, WORKRAM_END_ADDRESS, ECHORAM_START_ADDRESS, ECHORAM_END_ADDRESS]
    at h1 h2 h3 h4 h5
  omega

/-- A read of an OAM address returns the OAM entry. -/
theorem read_oam (m : Memory) (i : Nat) (h : i < 160) : m.read (0xFE00 + i) = m.m_oam i := by
  unfold read
  iterate 5 rw [if_neg (by
    simp only [ROM_START_ADDRESS, ROM_END_ADDRESS, DISPLAYRAM_START_ADDRESS,
      DISPLAYRAM_END_ADDRESS, EXTERNALRAM_START_ADDRESS, EXTERNALRAM_END_ADDRESS,
      WORKRAM_START_ADDRESS, WORKRAM_END_ADDRESS, ECHORAM_START_ADDRESS, ECHORAM_END_ADDRESS]
    omega)]
  rw [if_pos (by
    simp only [OAM_START_ADDRESS, OAM_END_ADDRESS]
    omega)]
  show m.m_oam (0xFE00 + i - 0xFE00) = m.m_oam i
  rw [Nat.add_sub_cancel_left]

/-- The copy loop, when the source stays below `0xFE00`: entries `i` to `i + n - 1` of OAM
receive the bytes read from `d` on, and nothing else changes. -/
theorem performDmaTransferLoop_low (n : Nat) :
    ∀ (i d : Nat) (m : Memory), d + n ≤ 0xFE00 →
      performDmaTransferLoop n i d m =
        { m with m_oam := fun j =>
            if i ≤ j ∧ j < i + n then m.read (d + (j - i)) else m.m_oam j } := by
  induction n with
  | zero =>
    intro i d m _
    have hf : (fun j => if i ≤ j ∧ j < i + 0 then m.read (d + (j - i)) else m.m_oam j)
        = m.m_oam := by
      funext j
      rw [if_neg (by omega)]
    rw [hf]
    rfl
  | succ n ih =>
    intro i d m hd
    have hd1 : (d + 1) % 65536 = d + 1 := Nat.mod_eq_of_lt (by omega)
    show performDmaTransferLoop n (i + 1) ((d + 1) % 65536)
      { m with m_oam := store m.m_oam i (m.read d) } = _
    rw [hd1, ih (i + 1) (d + 1) _ (by omega)]
    refine congrArg (fun f => ({ m with m_oam := f } : Memory)) ?_
    funext j
    by_cases hj : i + 1 ≤ j ∧ j < i + 1 + n
    · rw [if_pos hj, if_pos (by omega), read_low_oam _ _ _ (by omega)]
      exact congrArg m.read (by omega)
    · rw [if_neg hj]
      by_cases hji : j = i
      · subst hji
        rw [if_pos (by omega), Nat.sub_self, Nat.add_zero]
        show store m.m_oam j (m.read d) j = m.read d
        unfold store
        rw [if_pos rfl]
      · rw [if_neg (by omega)]
        show store m.m_oam i (m.read d) j = m.m_oam j
        unfold store
        rw [if_neg hji]

/-- `Memory::performDmaTransfer` after `DMA = v`, for a source page below `0xFE00`. -/
theorem performDmaTransfer_low (m : Memory) (v : Nat) (hv : v * 0x100 < 0xFE00) :
    ({ m with DMA := v } : Memory).performDmaTransfer =
      { m with DMA := v
               m_oam := fun i => if i < 160 then m.read (v * 0x100 + i) else m.m_oam i } := by
  have hmod : (v * 0x100) % 65536 = v * 0x100 := Nat.mod_eq_of_lt (by omega)
  show performDmaTransferLoop 160 0 ((v * 0x100) % 65536) { m with DMA := v } = _
  rw [hmod, performDmaTransferLoop_low 160 0 (v * 0x100) _ (by omega)]
  refine congrArg (fun f => ({ m with DMA := v, m_oam := f } : Memory)) ?_
  funext j
  by_cases hj : j < 160
  · rw [if_pos hj, if_pos (by omega), read_low_DMA _ _ _ (by omega)]
    rfl
  · rw [if_neg hj, if_neg (by omega)]

end Memory

namespace Cpu

set_option maxRecDepth 100000

/-- The clock does not write OAM. -/
theorem doCycle_m_oam (n : Nat) (s : Cpu) :
    (doCycle n s).m_memory.m_oam = s.m_memory.m_oam := by
  have h := congrArg (fun t : Cpu => t.m_memory.m_oam) (doCycle_clockFrame n s)
  exact h

/-- `Cpu::writeToMemory` at `DMA_ADDRESS`: the `DMA` arm, then the machine cycle. -/
theorem writeToMemory_DMA (v : Nat) (s : Cpu) :
    writeToMemory Memory.DMA_ADDRESS v s
      = doCycle 1 { s with
          m_memory := ({ s.m_memory with DMA := v } : Memory).performDmaTransfer } := by
  unfold writeToMemory
  iterate 12 rw [if_neg (by decide)]
  rw [if_pos rfl]

/-- Claim C20, as the code has it: for every byte `v` with `v * 0x100 < 0xFE00`, a CPU write
of `v` to `0xFF46` stores `v` in `DMA`, copies the 160 bytes read from `v * 0x100` on into OAM
and changes nothing else in the memory; then the machine cycle of the write runs, which does
not touch OAM.  So after the write, for every `i < 160`, `read(0xFE00 + i)` is the value
`read(v * 0x100 + i)` had before it. -/
theorem dma_write_copies_page_to_oam (s : Cpu) (v : Nat) (hpage : v * 0x100 < 0xFE00) :
    writeToMemory 0xFF46 v s
      = doCycle 1 { s with m_memory := { s.m_memory with
          DMA := v
          m_oam := fun i =>
            if i < 160 then s.m_memory.read (v * 0x100 + i) else s.m_memory.m_oam i } } ∧
    (∀ i, i < 160 →
      (writeToMemory 0xFF46 v s).m_memory.read (0xFE00 + i) = s.m_memory.read (v * 0x100 + i)) ∧
    (writeToMemory 0xFF46 v s).clockFrame
      = ({ s with m_memory := { s.m_memory with
          DMA := v
          m_oam := fun i =>
            if i < 160 then s.m_memory.read (v * 0x100 + i) else s.m_memory.m_oam i } }
          ).clockFrame := by
  have heq : writeToMemory 0xFF46 v s
      = doCycle 1 { s with m_memory := { s.m_memory with
          DMA := v
          m_oam := fun i =>
            if i < 160 then s.m_memory.read (v * 0x100 + i) else s.m_memory.m_oam i } } := by
    rw [← Memory.performDmaTransfer_low s.m_memory v hpage]
    exact writeToMemory_DMA v s
  refine ⟨heq, ?_, ?_⟩
  · intro i hi
    rw [Memory.read_oam _ i hi, heq, doCycle_m_oam]
    show (if i < 160 then s.m_memory.read (v * 0x100 + i) else s.m_memory.m_oam i) = _
    rw [if_pos hi]
  · rw [heq, doCycle_clockFrame]

/-- The source page of `dmaSourceState` holds the counting sequence. -/
theorem dmaSourceState_read (i : Nat) (hi : i < 160) :
    dmaSourceState.m_memory.read (0xC000 + i) = i := by
  have hidx : Memory.workRamIndex dmaSourceState.m_memory (0xC000 + i) = i := by
    simp only [Memory.workRamIndex, Memory.WORKRAM_START_ADDRESS, Memory.WORKRAM_BANK_SIZE,
      Nat.add_sub_cancel_left]
    rw [if_pos (by omega)]
  rw [Memory.read_workRam _ _ (by omega) (by omega), hidx]
  show (if i < 160 then i else 0) = i
  rw [if_pos hi]

/-- The round trip of the claim: with `0xC000..0xC09F` holding `0..159`, writing `0xC0` to
`0xFF46` makes OAM hold `0..159`. -/
theorem dma_write_copies_page_to_oam_witness :
    0xC0 * 0x100 < 0xFE00 ∧
    (∀ i, i < 160 → dmaSourceState.m_memory.read (0xC000 + i) = i) ∧
    (∀ i, i < 160 →
      (writeToMemory 0xFF46 0xC0 dmaSourceState).m_memory.read (0xFE00 + i) = i) :=
  ⟨by decide, dmaSourceState_read,
    fun i hi =>
      ((dma_write_copies_page_to_oam dmaSourceState 0xC0 (by decide)).2.1 i hi).trans
        (dmaSourceState_read i hi)⟩

/-- Claim C20 fails in its last part: in the program `LD A,05; LDH (07),A; NOP; NOP; LD A,C0;
LDH (46),A` the CPU write of `0xC0` to `0xFF46` falls on a timer tick, and `TIMA` at `0xFF05`,
outside OAM and not the DMA register, reads 1 before the write and 2 after it. -/
theorem dma_write_cycle_moves_timer :
    (∃ s, run (List.replicate 5 noKeys) (Cpu.init (Memory.defaults dmaTimerRom)) = Except.ok s ∧
      dmaTimerState = (fetch_u8 (fetch_u8 s).2).2 ∧
      executeNextInstruction s = Except.ok (writeToMemory 0xFF46 0xC0 dmaTimerState)) ∧
    0xC0 * 0x100 < 0xFE00 ∧
    dmaTimerState.m_memory.read 0xFF05 = 1 ∧
    (writeToMemory 0xFF46 0xC0 dmaTimerState).m_memory.read 0xFF05 = 2 :=
  ⟨⟨_, rfl, rfl, rfl⟩, by decide, rfl, rfl⟩

end Cpu
end CppGB

/-! # The display pipeline -/

namespace CppGB

namespace Memory

/-! ## The display pipeline -/

/-- The copy loop of `performHdmaTransfer` writes display RAM only. -/
theorem performHdmaTransferLoop_frame (n : Nat) :
    ∀ (a b : Nat) (m : Memory),
      (performHdmaTransferLoop n a b m).1
        = { m with m_displayRam := (performHdmaTransferLoop n a b m).1.m_displayRam } := by
  induction n with
  | zero =>
    intro a b m
    rfl
  | succ n ih =>
    intro a b m
    exact (ih ((a + 1) % 65536) ((b + 1) % 65536)
      { m with m_displayRam :=
          store m.m_displayRam (b + m.VBK * DISPLAYRAM_BANK_SIZE) (m.read a) }).trans rfl

/-- `Memory::performHdmaTransfer` writes display RAM and the five `HDMA` registers only. -/
theorem performHdmaTransfer_frame (m : Memory) (n : Nat) :
    m.performHdmaTransfer n
      = { m with m_displayRam := (m.performHdmaTransfer n).m_displayRam
                 HDMA1 := (m.performHdmaTransfer n).HDMA1
                 HDMA2 := (m.performHdmaTransfer n).HDMA2
                 HDMA3 := (m.performHdmaTransfer n).HDMA3
                 HDMA4 := (m.performHdmaTransfer n).HDMA4
                 HDMA5 := (m.performHdmaTransfer n).HDMA5 } := by
  have h := performHdmaTransferLoop_frame ((16 * (n + 1)) % 65536)
    (((m.HDMA1 <<< 8) ||| (m.HDMA2 &&& 0xF0)) % 65536)
    ((((m.HDMA3 &&& 0x1F) <<< 8) ||| (m.HDMA4 &&& 0xF0)) % 65536) m
  generalize hp : performHdmaTransferLoop ((16 * (n + 1)) % 65536)
    (((m.HDMA1 <<< 8) ||| (m.HDMA2 &&& 0xF0)) % 65536)
    ((((m.HDMA3 &&& 0x1F) <<< 8) ||| (m.HDMA4 &&& 0xF0)) % 65536) m = p at h
  have hd : m.performHdmaTransfer n =
      { p.1 with HDMA1 := (p.2.1 >>> 8) % 256
                 HDMA2 := p.2.1 &&& 0x00FF
                 HDMA3 := (p.2.2 >>> 8) % 256
                 HDMA4 := p.2.2 &&& 0x00FF
                 HDMA5 := u8 ((p.1.HDMA5 : Int) - ((n : Int) + 1)) } := by
    rw [← hp]
    rfl
  rw [hd, h]

end Memory

namespace DisplayController

theorem mode_bits (S f : Nat) (hf : f < 4) : ((S &&& 0xFC) ||| f) &&& 0x03 = f := by
  have h1 : (S &&& 0xFC) &&& 0x03 = 0 := by
    rw [Nat.and_assoc]
    exact Nat.and_zero S
  have h2 : f &&& 0x03 = f := by
    interval_cases f <;> rfl
  rw [Nat.and_distrib_right, h1, h2, Nat.zero_or]

theorem requestInterrupt_pipelineView (flag : Nat) (s : Cpu) :
    pipelineView (Cpu.requestInterrupt flag s) = pipelineView s := rfl

theorem updateLY_pipelineView (value : Nat) (s : Cpu) :
    pipelineView (updateLY value s)
      = (s.m_memory.STAT &&& 0x03, value, s.m_displayController.m_cycleCounter) := by
  simp only [updateLY, apply_ite pipelineView, requestInterrupt_pipelineView, ite_self]
  rfl

theorem changeMode_pipelineView (flag : Nat) (s : Cpu) (hf : flag < 4) :
    pipelineView (changeMode flag s) = (flag, s.m_memory.LY, 0) := by
  unfold changeMode pipelineView
  exact congrArg (fun x => (x, s.m_memory.LY, 0)) (mode_bits s.m_memory.STAT flag hf)

theorem hdma_pipelineView (s : Cpu) (n : Nat) :
    pipelineView { s with m_memory := s.m_memory.performHdmaTransfer n } = pipelineView s := by
  unfold pipelineView
  rw [Memory.performHdmaTransfer_frame]

/-- The LCD is on: the counter is incremented and the mode `switch` runs. -/
theorem doCycle_on (s : Cpu) (h : s.m_memory.LCDC &&& 0x80 ≠ 0) :
    DisplayController.doCycle s
      = doCycleSwitch { s with m_displayController := { s.m_displayController with
          m_cycleCounter := (s.m_displayController.m_cycleCounter + 1) % 256 } } := by
  unfold DisplayController.doCycle
  rw [if_neg h]

theorem doCycleSwitch_hblank (t : Cpu) (hm : t.m_memory.STAT &&& 0x03 = 0) :
    doCycleSwitch t =
      if t.m_displayController.m_cycleCounter = 51 then
        (if (updateLY ((t.m_memory.LY + 1) % 256) t).m_memory.LY < 144 then
          changeMode OAMSEARCH_MODE_FLAG (updateLY ((t.m_memory.LY + 1) % 256) t)
        else
          Cpu.requestInterrupt Cpu.VBLANK_INTERRUPT_FLAG
            (changeMode VBLANK_MODE_FLAG (updateLY ((t.m_memory.LY + 1) % 256) t)))
      else t := by
  unfold doCycleSwitch
  simp only [HBLANK_MODE_FLAG]
  rw [if_pos hm]

theorem doCycleSwitch_vblank (t : Cpu) (hm : t.m_memory.STAT &&& 0x03 = 1) :
    doCycleSwitch t =
      if t.m_displayController.m_cycleCounter = 1 ∧ t.m_memory.LY = 153 then updateLY 0 t
      else if t.m_displayController.m_cycleCounter = 114 then
        (if t.m_memory.LY = 0 then changeMode OAMSEARCH_MODE_FLAG t
        else
          updateLY ((t.m_memory.LY + 1) % 256)
            { t with m_displayController := { t.m_displayController with
                m_cycleCounter := 0 } })
      else t := by
  unfold doCycleSwitch
  simp only [HBLANK_MODE_FLAG, VBLANK_MODE_FLAG]
  rw [if_neg (by rw [hm]; decide), if_pos hm]

theorem doCycleSwitch_oamsearch (t : Cpu) (hm : t.m_memory.STAT &&& 0x03 = 2) :
    doCycleSwitch t =
      if t.m_displayController.m_cycleCounter = 20 then changeMode PIXELTRANSFER_MODE_FLAG t
      else t := by
  unfold doCycleSwitch
  simp only [HBLANK_MODE_FLAG, VBLANK_MODE_FLAG, OAMSEARCH_MODE_FLAG]
  rw [if_neg (by rw [hm]; decide), if_neg (by rw [hm]; decide), if_pos hm]

theorem doCycleSwitch_pixeltransfer (t : Cpu) (hm : t.m_memory.STAT &&& 0x03 = 3) :
    doCycleSwitch t =
      if t.m_displayController.m_cycleCounter = 43 then
        (if (if (changeMode HBLANK_MODE_FLAG t).m_memory.HDMA5 &&& 0x80 = 0 then
              { changeMode HBLANK_MODE_FLAG t with
                m_memory := (changeMode HBLANK_MODE_FLAG t).m_memory.performHdmaTransfer 0 }
            else changeMode HBLANK_MODE_FLAG t).m_memory.STAT &&& 0x08 ≠ 0 then
          Cpu.requestInterrupt Cpu.LCDSTAT_INTERRUPT_FLAG
            (if (changeMode HBLANK_MODE_FLAG t).m_memory.HDMA5 &&& 0x80 = 0 then
              { changeMode HBLANK_MODE_FLAG t with
                m_memory := (changeMode HBLANK_MODE_FLAG t).m_memory.performHdmaTransfer 0 }
            else changeMode HBLANK_MODE_FLAG t)
        else
          (if (changeMode HBLANK_MODE_FLAG t).m_memory.HDMA5 &&& 0x80 = 0 then
              { changeMode HBLANK_MODE_FLAG t with
                m_memory := (changeMode HBLANK_MODE_FLAG t).m_memory.performHdmaTransfer 0 }
            else changeMode HBLANK_MODE_FLAG t))
      else t := by
  unfold doCycleSwitch
  simp only [HBLANK_MODE_FLAG, VBLANK_MODE_FLAG, OAMSEARCH_MODE_FLAG, PIXELTRANSFER_MODE_FLAG]
  rw [if_neg (by rw [hm]; decide), if_neg (by rw [hm]; decide),
    if_neg (by rw [hm]; decide), if_pos hm]

theorem updateLY_LY (value : Nat) (s : Cpu) : (updateLY value s).m_memory.LY = value := by
  have h := congrArg (fun p : Nat × Nat × Nat => p.2.1) (updateLY_pipelineView value s)
  exact h

/-- The action of one call of `DisplayController::doCycle` on the pipeline view, with the LCD
on. -/
theorem tick_pipelineView (s : Cpu) (mode ly c : Nat) (hlcd : s.m_memory.LCDC &&& 0x80 ≠ 0)
    (hv : pipelineView s = (mode, ly, c)) (hc : c < 255) :
    pipelineView (DisplayController.doCycle s) =
      if mode = 0 then
        (if c + 1 = 51 then
          (if (ly + 1) % 256 < 144 then (2, (ly + 1) % 256, 0) else (1, (ly + 1) % 256, 0))
        else (0, ly, c + 1))
      else if mode = 1 then
        (if c + 1 = 1 ∧ ly = 153 then (1, 0, c + 1)
        else if c + 1 = 114 then (if ly = 0 then (2, 0, 0) else (1, (ly + 1) % 256, 0))
        else (1, ly, c + 1))
      else if mode = 2 then (if c + 1 = 20 then (3, ly, 0) else (2, ly, c + 1))
      else (if c + 1 = 43 then (0, ly, 0) else (3, ly, c + 1)) := by
  unfold pipelineView at hv
  simp only [Prod.mk.injEq] at hv
  obtain ⟨hm, hly, hcnt⟩ := hv
  have hmode : mode < 4 := by
    rw [← hm]
    exact Nat.lt_of_le_of_lt Nat.and_le_right (by decide)
  rw [doCycle_on s hlcd]
  have hc1 : (s.m_displayController.m_cycleCounter + 1) % 256 = c + 1 := by
    rw [hcnt]
    exact Nat.mod_eq_of_lt (by omega)
  rw [hc1]
  generalize ht : ({ s with m_displayController := { s.m_displayController with
    m_cycleCounter := c + 1 } } : Cpu) = t
  have tm : t.m_memory.STAT &&& 0x03 = mode := by
    rw [← ht]
    exact hm
  have tly : t.m_memory.LY = ly := by
    rw [← ht]
    exact hly
  have tc : t.m_displayController.m_cycleCounter = c + 1 := by
    rw [← ht]
  have tv : pipelineView t = (mode, ly, c + 1) := by
    unfold pipelineView
    rw [tm, tly, tc]
  interval_cases mode
  · conv_rhs => rw [if_pos rfl]
    rw [doCycleSwitch_hblank t tm, tc, tly, updateLY_LY]
    simp only [apply_ite pipelineView, requestInterrupt_pipelineView]
    rw [changeMode_pipelineView _ _ (by decide), changeMode_pipelineView _ _ (by decide),
      updateLY_LY, tv]
  · conv_rhs => rw [if_neg (by decide), if_pos rfl]
    rw [doCycleSwitch_vblank t tm, tc, tly]
    simp only [apply_ite pipelineView]
    rw [changeMode_pipelineView _ _ (by decide), updateLY_pipelineView,
      updateLY_pipelineView, tv, tm, tly, tc]
    dsimp only
    by_cases h3 : ly = 0
    · subst h3
      rfl
    · simp only [if_neg h3]
  · conv_rhs => rw [if_neg (by decide), if_neg (by decide), if_pos rfl]
    rw [doCycleSwitch_oamsearch t tm, tc]
    simp only [apply_ite pipelineView]
    rw [changeMode_pipelineView _ _ (by decide), tv, tly]
  · conv_rhs => rw [if_neg (by decide), if_neg (by decide), if_neg (by decide)]
    rw [doCycleSwitch_pixeltransfer t tm, tc]
    simp only [apply_ite pipelineView, requestInterrupt_pipelineView, hdma_pipelineView,
      ite_self]
    rw [changeMode_pipelineView _ _ (by decide), tv, tly]

theorem tick_LCDC (s : Cpu) : (DisplayController.doCycle s).m_memory.LCDC = s.m_memory.LCDC := by
  have h := congrArg (fun t : Cpu => t.m_memory.LCDC) (pipelineCycle_clockFrame s)
  exact h

theorem ticks_succ_right (k : Nat) :
    ∀ s : Cpu, ticks (k + 1) s = DisplayController.doCycle (ticks k s) := by
  induction k with
  | zero =>
    intro s
    rfl
  | succ k ih =>
    intro s
    show ticks (k + 1) (DisplayController.doCycle s) = _
    exact ih _

theorem ticks_LCDC (k : Nat) (s : Cpu) : (ticks k s).m_memory.LCDC = s.m_memory.LCDC := by
  induction k with
  | zero => rfl
  | succ k ih => rw [ticks_succ_right, tick_LCDC, ih]

/-- One tick moves the position of the timing table one step on. -/
theorem specFramePosition_step (k mode ly c : Nat) (hk : k < 17556)
    (h : specFramePosition k = (mode, ly, c)) :
    (if mode = 0 then
        (if c + 1 = 51 then
          (if (ly + 1) % 256 < 144 then (2, (ly + 1) % 256, 0) else (1, (ly + 1) % 256, 0))
        else (0, ly, c + 1))
      else if mode = 1 then
        (if c + 1 = 1 ∧ ly = 153 then (1, 0, c + 1)
        else if c + 1 = 114 then (if ly = 0 then (2, 0, 0) else (1, (ly + 1) % 256, 0))
        else (1, ly, c + 1))
      else if mode = 2 then (if c + 1 = 20 then (3, ly, 0) else (2, ly, c + 1))
      else (if c + 1 = 43 then (0, ly, 0) else (3, ly, c + 1)))
      = specFramePosition (k + 1) := by
  unfold specFramePosition at h ⊢
  split_ifs at h <;> simp only [Prod.mk.injEq] at h <;> obtain ⟨rfl, rfl, rfl⟩ := h <;>
    simp only [Nat.reduceEqDiff, if_true, if_false, OfNat.ofNat_ne_zero, OfNat.zero_ne_ofNat,
      Nat.succ_ne_self, Nat.reduceEqDiff] <;>
    split_ifs <;> simp only [Prod.mk.injEq] <;> refine ⟨?_, ?_, ?_⟩ <;> first | exact True.intro | omega

theorem or_two_and_one (x : Nat) : (x ||| 2) &&& 1 = x &&& 1 := by
  rw [Nat.and_distrib_right]
  exact Nat.or_zero _

theorem or_one_and_one (x : Nat) : (x ||| 1) &&& 1 = 1 := by
  rw [Nat.and_distrib_right, Nat.and_one_is_mod]
  rcases Nat.mod_two_eq_zero_or_one x with h | h <;> rw [h] <;> rfl

theorem updateLY_vblankBit (value : Nat) (s : Cpu) :
    (updateLY value s).m_memory.IF &&& 1 = s.m_memory.IF &&& 1 := by
  rw [updateLY_IF]
  split
  · exact or_two_and_one _
  · rfl

/-- The VBLANK bit of `IF` after one call of `DisplayController::doCycle` with the LCD on: the
call sets it exactly when it ends an HBLANK whose line increment does not stay below 144. -/
theorem tick_vblankBit (s : Cpu) (mode ly c : Nat) (hlcd : s.m_memory.LCDC &&& 0x80 ≠ 0)
    (hv : pipelineView s = (mode, ly, c)) (hc : c < 255) :
    (DisplayController.doCycle s).m_memory.IF &&& 1 =
      if mode = 0 ∧ c + 1 = 51 ∧ ¬ (ly + 1) % 256 < 144 then 1 else s.m_memory.IF &&& 1 := by
  unfold pipelineView at hv
  simp only [Prod.mk.injEq] at hv
  obtain ⟨hm, hly, hcnt⟩ := hv
  have hmode : mode < 4 := by
    rw [← hm]
    exact Nat.lt_of_le_of_lt Nat.and_le_right (by decide)
  rw [doCycle_on s hlcd]
  have hc1 : (s.m_displayController.m_cycleCounter + 1) % 256 = c + 1 := by
    rw [hcnt]
    exact Nat.mod_eq_of_lt (by omega)
  rw [hc1]
  have hIF : s.m_memory.IF = ({ s with m_displayController := { s.m_displayController with
    m_cycleCounter := c + 1 } } : Cpu).m_memory.IF := rfl
  rw [hIF]
  generalize ht : ({ s with m_displayController := { s.m_displayController with
    m_cycleCounter := c + 1 } } : Cpu) = t
  have tm : t.m_memory.STAT &&& 0x03 = mode := by
    rw [← ht]
    exact hm
  have tly : t.m_memory.LY = ly := by
    rw [← ht]
    exact hly
  have tc : t.m_displayController.m_cycleCounter = c + 1 := by
    rw [← ht]
  interval_cases mode
  · rw [doCycleSwitch_hblank t tm, tc, tly, updateLY_LY]
    by_cases h1 : c + 1 = 51
    · rw [if_pos h1]
      by_cases h2 : (ly + 1) % 256 < 144
      · rw [if_pos h2, if_neg (fun h => h.2.2 h2), changeMode_IF, updateLY_vblankBit]
      · rw [if_neg h2, if_pos ⟨rfl, h1, h2⟩, requestInterrupt_IF]
        exact or_one_and_one _
    · rw [if_neg h1, if_neg (fun h => h1 h.2.1)]
  · have hne : ¬ ((1 : Nat) = 0 ∧ c + 1 = 51 ∧ ¬ (ly + 1) % 256 < 144) :=
      fun h => absurd h.1 (by decide)
    rw [doCycleSwitch_vblank t tm, if_neg hne]
    split_ifs <;> first
      | exact updateLY_vblankBit _ _
      | (rw [changeMode_IF])
      | rfl
  · have hne : ¬ ((2 : Nat) = 0 ∧ c + 1 = 51 ∧ ¬ (ly + 1) % 256 < 144) :=
      fun h => absurd h.1 (by decide)
    rw [doCycleSwitch_oamsearch t tm, if_neg hne]
    split_ifs <;> first
      | (rw [changeMode_IF])
      | rfl
  · have hne : ¬ ((3 : Nat) = 0 ∧ c + 1 = 51 ∧ ¬ (ly + 1) % 256 < 144) :=
      fun h => absurd h.1 (by decide)
    rw [doCycleSwitch_pixeltransfer t tm, if_neg hne]
    by_cases h43 : t.m_displayController.m_cycleCounter = 43
    · rw [if_pos h43]
      have hu : (if (changeMode HBLANK_MODE_FLAG t).m_memory.HDMA5 &&& 0x80 = 0 then
            ({ changeMode HBLANK_MODE_FLAG t with
              m_memory := (changeMode HBLANK_MODE_FLAG t).m_memory.performHdmaTransfer 0 } : Cpu)
          else changeMode HBLANK_MODE_FLAG t).m_memory.IF = t.m_memory.IF := by
        split
        · exact (hdma_IF _ _).trans (changeMode_IF _ _)
        · exact changeMode_IF _ _
      generalize (if (changeMode HBLANK_MODE_FLAG t).m_memory.HDMA5 &&& 0x80 = 0 then
            ({ changeMode HBLANK_MODE_FLAG t with
              m_memory := (changeMode HBLANK_MODE_FLAG t).m_memory.performHdmaTransfer 0 } : Cpu)
          else changeMode HBLANK_MODE_FLAG t) = u at hu ⊢
      split
      · rw [requestInterrupt_IF, or_two_and_one, hu]
      · rw [hu]
    · rw [if_neg h43]

end DisplayController
end CppGB

namespace CppGB

namespace DisplayController

/-! ## The coincidence interrupt -/

theorem stat_bit6 (S f : Nat) (hf : f < 4) : ((S &&& 0xFC) ||| f) &&& 0x40 = S &&& 0x40 := by
  have h1 : (S &&& 0xFC) &&& 0x40 = S &&& 0x40 := by
    rw [Nat.and_assoc]
    rfl
  have h2 : f &&& 0x40 = 0 := by
    interval_cases f <;> rfl
  rw [Nat.and_distrib_right, h1, h2, Nat.or_zero]

theorem or_one_and_two (x : Nat) : (x ||| 1) &&& 2 = x &&& 2 := by
  rw [Nat.and_distrib_right]
  exact Nat.or_zero _

theorem or_two_and_two (x : Nat) : (x ||| 2) &&& 2 ≠ 0 := by
  rw [Nat.and_distrib_right]
  have hy : x &&& 2 ≤ 2 := Nat.and_le_right
  generalize x &&& 2 = y at hy
  interval_cases y <;> decide

/-- What the coincidence check looks at: `LY`, `LYC`, bit 6 of `STAT` and the LCDSTAT bit of
`IF`. -/
theorem updateLY_coincidence (value : Nat) (t : Cpu) :
    (updateLY value t).m_memory.LY = value ∧
      (updateLY value t).m_memory.LYC = t.m_memory.LYC ∧
      (updateLY value t).m_memory.STAT = t.m_memory.STAT ∧
      (value = t.m_memory.LYC → t.m_memory.STAT &&& 0x40 ≠ 0 →
        (updateLY value t).m_memory.IF &&& 0x02 ≠ 0) := by
  refine ⟨updateLY_LY value t, ?_, ?_, ?_⟩
  · simp only [updateLY, apply_ite Cpu.m_memory, apply_ite Memory.LYC, Cpu.requestInterrupt,
      ite_self]
  · simp only [updateLY, apply_ite Cpu.m_memory, apply_ite Memory.STAT, Cpu.requestInterrupt,
      ite_self]
  · intro h1 h2
    rw [updateLY_IF, if_pos ⟨h1, h2⟩]
    exact or_two_and_two _

theorem changeMode_coincidence (flag : Nat) (t : Cpu) (hf : flag < 4) :
    (changeMode flag t).m_memory.LY = t.m_memory.LY ∧
      (changeMode flag t).m_memory.LYC = t.m_memory.LYC ∧
      (changeMode flag t).m_memory.STAT &&& 0x40 = t.m_memory.STAT &&& 0x40 ∧
      (changeMode flag t).m_memory.IF = t.m_memory.IF :=
  ⟨rfl, rfl, stat_bit6 _ _ hf, rfl⟩

theorem hdma_LY (s : Cpu) (n : Nat) : (s.m_memory.performHdmaTransfer n).LY = s.m_memory.LY := by
  rw [Memory.performHdmaTransfer_frame]

/-- A call of `DisplayController::doCycle` that changes `LY` ends with the LCDSTAT request
made when `LY` equals `LYC` and bit 6 of `STAT` is set. -/
theorem tick_coincidence (s : Cpu)
    (hchange : (DisplayController.doCycle s).m_memory.LY ≠ s.m_memory.LY)
    (heq : (DisplayController.doCycle s).m_memory.LY = (DisplayController.doCycle s).m_memory.LYC)
    (hbit : (DisplayController.doCycle s).m_memory.STAT &&& 0x40 ≠ 0) :
    (DisplayController.doCycle s).m_memory.IF &&& 0x02 ≠ 0 := by
  by_cases hlcd : s.m_memory.LCDC &&& 0x80 = 0
  · rw [doCycle_quiet s hlcd] at hchange
    exact absurd rfl hchange
  rw [doCycle_on s hlcd] at hchange heq hbit ⊢
  have hLY : s.m_memory.LY = ({ s with m_displayController := { s.m_displayController with
    m_cycleCounter := (s.m_displayController.m_cycleCounter + 1) % 256 } } : Cpu).m_memory.LY :=
    rfl
  rw [hLY] at hchange
  generalize ({ s with m_displayController := { s.m_displayController with
    m_cycleCounter := (s.m_displayController.m_cycleCounter + 1) % 256 } } : Cpu) = t
    at hchange heq hbit ⊢
  have hmode : t.m_memory.STAT &&& 0x03 < 4 :=
    Nat.lt_of_le_of_lt Nat.and_le_right (by decide)
  generalize hm : t.m_memory.STAT &&& 0x03 = mode at hmode
  interval_cases mode
  · rw [doCycleSwitch_hblank t hm] at hchange heq hbit ⊢
    by_cases h1 : t.m_displayController.m_cycleCounter = 51
    · rw [if_pos h1] at hchange heq hbit ⊢
      obtain ⟨u1, u2, u3, u4⟩ := updateLY_coincidence ((t.m_memory.LY + 1) % 256) t
      generalize updateLY ((t.m_memory.LY + 1) % 256) t = u at u1 u2 u3 u4 hchange heq hbit ⊢
      by_cases h2 : u.m_memory.LY < 144
      · rw [if_pos h2] at heq hbit ⊢
        obtain ⟨c1, c2, c3, c4⟩ := changeMode_coincidence OAMSEARCH_MODE_FLAG u (by decide)
        rw [c1, c2, u1, u2] at heq
        rw [c3, u3] at hbit
        rw [c4]
        exact u4 heq hbit
      · rw [if_neg h2] at heq hbit ⊢
        obtain ⟨c1, c2, c3, c4⟩ := changeMode_coincidence VBLANK_MODE_FLAG u (by decide)
        rw [requestInterrupt_IF, or_one_and_two, c4]
        have heq2 : (changeMode VBLANK_MODE_FLAG u).m_memory.LY
            = (changeMode VBLANK_MODE_FLAG u).m_memory.LYC := heq
        have hbit2 : (changeMode VBLANK_MODE_FLAG u).m_memory.STAT &&& 0x40 ≠ 0 := hbit
        rw [c1, c2, u1, u2] at heq2
        rw [c3, u3] at hbit2
        exact u4 heq2 hbit2
    · rw [if_neg h1] at hchange
      exact absurd rfl hchange
  · rw [doCycleSwitch_vblank t hm] at hchange heq hbit ⊢
    by_cases h1 : t.m_displayController.m_cycleCounter = 1 ∧ t.m_memory.LY = 153
    · rw [if_pos h1] at hchange heq hbit ⊢
      obtain ⟨u1, u2, u3, u4⟩ := updateLY_coincidence 0 t
      rw [u1, u2] at heq
      rw [u3] at hbit
      exact u4 heq hbit
    · rw [if_neg h1] at hchange heq hbit ⊢
      by_cases h2 : t.m_displayController.m_cycleCounter = 114
      · rw [if_pos h2] at hchange heq hbit ⊢
        by_cases h3 : t.m_memory.LY = 0
        · rw [if_pos h3] at hchange
          exact absurd rfl hchange
        · rw [if_neg h3] at hchange heq hbit ⊢
          obtain ⟨u1, u2, u3, u4⟩ := updateLY_coincidence ((t.m_memory.LY + 1) % 256)
            { t with m_displayController := { t.m_displayController with m_cycleCounter := 0 } }
          rw [u1, u2] at heq
          rw [u3] at hbit
          exact u4 heq hbit
      · rw [if_neg h2] at hchange
        exact absurd rfl hchange
  · rw [doCycleSwitch_oamsearch t hm] at hchange
    exfalso
    apply hchange
    split <;> rfl
  · rw [doCycleSwitch_pixeltransfer t hm] at hchange
    exfalso
    apply hchange
    by_cases h43 : t.m_displayController.m_cycleCounter = 43
    · rw [if_pos h43]
      have hu : (if (changeMode HBLANK_MODE_FLAG t).m_memory.HDMA5 &&& 0x80 = 0 then
            ({ changeMode HBLANK_MODE_FLAG t with
              m_memory := (changeMode HBLANK_MODE_FLAG t).m_memory.performHdmaTransfer 0 } : Cpu)
          else changeMode HBLANK_MODE_FLAG t).m_memory.LY = t.m_memory.LY := by
        split
        · exact hdma_LY _ _
        · rfl
      generalize (if (changeMode HBLANK_MODE_FLAG t).m_memory.HDMA5 &&& 0x80 = 0 then
            ({ changeMode HBLANK_MODE_FLAG t with
              m_memory := (changeMode HBLANK_MODE_FLAG t).m_memory.performHdmaTransfer 0 } : Cpu)
          else changeMode HBLANK_MODE_FLAG t) = u at hu ⊢
      split
      · exact hu
      · exact hu
    · rw [if_neg h43]

theorem writeToLCDC_IF (value : Nat) (s : Cpu) :
    (writeToLCDC value s).m_memory.IF = s.m_memory.IF := by
  simp only [writeToLCDC, apply_ite Cpu.m_memory, apply_ite Memory.IF, changeMode_IF, ite_self]

end DisplayController

namespace Cpu

/-- `Cpu::writeToMemory` at `LY_ADDRESS` takes the default arm: a plain store. -/
theorem writeToMemory_LY (v : Nat) (s : Cpu) :
    writeToMemory Memory.LY_ADDRESS v s
      = doCycle 1 { s with m_memory := { s.m_memory with LY := v } } := by
  unfold writeToMemory
  iterate 18 rw [if_neg (by decide)]
  rfl

/-- The state after the five passes over `lyWriteRom`. -/
theorem lyWriteRom_run :
    ∃ s, run (List.replicate 5 noKeys) (Cpu.init (Memory.defaults lyWriteRom)) = Except.ok s ∧
      s.m_memory.LY = 5 ∧ s.m_memory.LYC = 5 ∧ s.m_memory.STAT = 0x40 ∧ s.m_memory.IF = 0 :=
  ⟨_, rfl, rfl, rfl, rfl, rfl⟩

/-- The state after the 54 passes over `lcdOffRom`, and the one before the last of them. -/
theorem lcdOffRom_run :
    (∃ s, run (List.replicate 53 noKeys) (Cpu.init (Memory.defaults lcdOffRom)) = Except.ok s ∧
      s.m_memory.LY = 1 ∧ s.m_memory.LCDC = 0x91) ∧
    (∃ s, run (List.replicate 54 noKeys) (Cpu.init (Memory.defaults lcdOffRom)) = Except.ok s ∧
      s.m_memory.LCDC = 0x11 ∧ s.m_memory.LY = 0 ∧ s.m_memory.LYC = 0 ∧
      s.m_memory.STAT = 0x40 ∧ s.m_memory.IF = 0) :=
  ⟨⟨_, rfl, rfl, rfl⟩, ⟨_, rfl, rfl, rfl, rfl, rfl, rfl⟩⟩

/-- Claim C24, as the code has it: every pipeline operation that changes `LY` (the per-line
increment and the wrap to 0 during line 153, both inside `DisplayController::doCycle`) ends
with `IF` bit 1 set if afterwards `LY == LYC` and `STAT` bit 6 is set.  The reset to 0 when
an `LCDC` write switches the LCD off and a CPU write to `0xFF44` store `LY` without the
comparison: `writeToLCDC` leaves `IF` as it is, and the CPU write is the plain store followed
by the machine cycle. -/
theorem ly_coincidence_on_pipeline_updates (s : Cpu)
    (hchange : (DisplayController.doCycle s).m_memory.LY ≠ s.m_memory.LY)
    (heq : (DisplayController.doCycle s).m_memory.LY = (DisplayController.doCycle s).m_memory.LYC)
    (hbit : (DisplayController.doCycle s).m_memory.STAT &&& 0x40 ≠ 0) :
    (DisplayController.doCycle s).m_memory.IF &&& 0x02 ≠ 0 ∧
    (∀ (v : Nat) (t : Cpu), (DisplayController.writeToLCDC v t).m_memory.IF = t.m_memory.IF) ∧
    (∀ (v : Nat) (t : Cpu), writeToMemory 0xFF44 v t
      = doCycle 1 { t with m_memory := { t.m_memory with LY := v } }) :=
  ⟨DisplayController.tick_coincidence s hchange heq hbit,
    DisplayController.writeToLCDC_IF, writeToMemory_LY⟩

/-- The last tick of the HBLANK of line 4 with `LYC = 5`: `LY` becomes 5 and LCDSTAT is
requested. -/
theorem ly_coincidence_on_pipeline_updates_witness :
    ((DisplayController.doCycle lineEndState).m_memory.LY ≠ lineEndState.m_memory.LY ∧
      (DisplayController.doCycle lineEndState).m_memory.LY
        = (DisplayController.doCycle lineEndState).m_memory.LYC ∧
      (DisplayController.doCycle lineEndState).m_memory.STAT &&& 0x40 ≠ 0) ∧
    (DisplayController.doCycle lineEndState).m_memory.IF &&& 0x02 ≠ 0 ∧
    lineEndState.m_memory.LY = 4 ∧ (DisplayController.doCycle lineEndState).m_memory.LY = 5 ∧
    lineEndState.m_memory.IF = 0 ∧ (DisplayController.doCycle lineEndState).m_memory.IF = 2 :=
  ⟨⟨by decide, rfl, by decide⟩,
    (ly_coincidence_on_pipeline_updates lineEndState (by decide) rfl (by decide)).1,
    rfl, rfl, rfl, rfl⟩

/-- Claim C24 fails for the two operations outside the pipeline.  After the program
`LD A,40; LDH (41),A; LD A,05; LDH (45),A; LDH (44),A` the CPU write has set `LY = 5 = LYC`
with `STAT` bit 6 set, and `IF` is 0.  After the program that enables the coincidence
interrupt with `LYC = 0`, waits until `LY = 1` and switches the LCD off, `LY` has been reset
to `0 = LYC` with `STAT` bit 6 set, and `IF` is 0. -/
theorem ly_write_and_lcd_off_request_nothing :
    (∃ s, run (List.replicate 5 noKeys) (Cpu.init (Memory.defaults lyWriteRom)) = Except.ok s ∧
      s.m_memory.LY = s.m_memory.LYC ∧ s.m_memory.STAT &&& 0x40 ≠ 0 ∧
      s.m_memory.IF &&& 0x02 = 0) ∧
    (∃ s1 s2,
      run (List.replicate 53 noKeys) (Cpu.init (Memory.defaults lcdOffRom)) = Except.ok s1 ∧
      run (List.replicate 54 noKeys) (Cpu.init (Memory.defaults lcdOffRom)) = Except.ok s2 ∧
      s1.m_memory.LY = 1 ∧ s2.m_memory.LY = 0 ∧
      s2.m_memory.LY = s2.m_memory.LYC ∧ s2.m_memory.STAT &&& 0x40 ≠ 0 ∧
      s2.m_memory.IF &&& 0x02 = 0) :=
  ⟨⟨_, rfl, rfl, by decide, rfl⟩, ⟨_, _, rfl, rfl, rfl, rfl, rfl, by decide, rfl⟩⟩

end Cpu
end CppGB

namespace CppGB

namespace DisplayController

theorem specFramePosition_counter (k : Nat) : (specFramePosition k).2.2 < 114 := by
  unfold specFramePosition
  split_ifs <;> simp only <;> omega

/-- From a state that stands at position `j` of the timing table, `k` ticks lead to position
`j + k`, up to the end of the frame. -/
theorem frame_run (s : Cpu) (j : Nat) (hlcd : s.m_memory.LCDC &&& 0x80 ≠ 0)
    (h0 : pipelineView s = specFramePosition j) :
    ∀ k, j + k ≤ 17556 → pipelineView (ticks k s) = specFramePosition (j + k) := by
  intro k
  induction k with
  | zero =>
    intro _
    exact h0
  | succ k ih =>
    intro hk
    have hv := ih (by omega)
    have hl : (ticks k s).m_memory.LCDC &&& 0x80 ≠ 0 := by
      rw [ticks_LCDC]
      exact hlcd
    have hc := specFramePosition_counter (j + k)
    rw [ticks_succ_right,
      tick_pipelineView (ticks k s) (specFramePosition (j + k)).1 (specFramePosition (j + k)).2.1
        (specFramePosition (j + k)).2.2 hl hv (by omega)]
    exact specFramePosition_step (j + k) _ _ _ (by omega) rfl

/-- The tick after position `k` of the timing table requests VBLANK exactly at `k = 16415`. -/
theorem specFramePosition_vblank (k mode ly c : Nat) (hk : k < 17556)
    (h : specFramePosition k = (mode, ly, c)) :
    (mode = 0 ∧ c + 1 = 51 ∧ ¬ (ly + 1) % 256 < 144) ↔ k = 16415 := by
  unfold specFramePosition at h
  split_ifs at h <;> simp only [Prod.mk.injEq] at h <;> obtain ⟨rfl, rfl, rfl⟩ := h <;>
    constructor <;> intro hx <;> omega

theorem raisedByTick_vblank (u : Cpu) (mode ly c : Nat) (hlcd : u.m_memory.LCDC &&& 0x80 ≠ 0)
    (hv : pipelineView u = (mode, ly, c)) (hc : c < 255) :
    raisedByTick u &&& 0x01 ≠ 0 ↔ (mode = 0 ∧ c + 1 = 51 ∧ ¬ (ly + 1) % 256 < 144) := by
  unfold raisedByTick
  rw [tick_vblankBit { u with m_memory := { u.m_memory with IF := 0 } } mode ly c hlcd hv hc]
  constructor
  · intro h
    by_contra hn
    rw [if_neg hn] at h
    exact h (Nat.zero_and 1)
  · intro h
    rw [if_pos h]
    decide

/-- From (HBLANK, `LY = 0`, counter 0), which is position 63 of the timing table. -/
theorem walk_from_hblank (s : Cpu) (hlcd : s.m_memory.LCDC &&& 0x80 ≠ 0)
    (h0 : pipelineView s = (0, 0, 0)) :
    pipelineView (ticks 20 s) = (0, 0, 20) ∧ pipelineView (ticks 51 s) = (2, 1, 0) ∧
      pipelineView (ticks 63 s) = (2, 1, 12) ∧ pipelineView (ticks 71 s) = (3, 1, 0) ∧
      pipelineView (ticks 114 s) = (0, 1, 0) := by
  have e0 : specFramePosition 63 = (0, 0, 0) := by
    norm_num [specFramePosition]
  have hrun := frame_run s 63 hlcd (h0.trans e0.symm)
  have e1 : specFramePosition (63 + 20) = (0, 0, 20) := by
    norm_num [specFramePosition]
  have e2 : specFramePosition (63 + 51) = (2, 1, 0) := by
    norm_num [specFramePosition]
  have e3 : specFramePosition (63 + 63) = (2, 1, 12) := by
    norm_num [specFramePosition]
  have e4 : specFramePosition (63 + 71) = (3, 1, 0) := by
    norm_num [specFramePosition]
  have e5 : specFramePosition (63 + 114) = (0, 1, 0) := by
    norm_num [specFramePosition]
  exact ⟨(hrun 20 (by omega)).trans e1, (hrun 51 (by omega)).trans e2,
    (hrun 63 (by omega)).trans e3, (hrun 71 (by omega)).trans e4,
    (hrun 114 (by omega)).trans e5⟩

/-- From (OAMSCAN, `LY = 0`, counter 0), which is position 0 of the timing table. -/
theorem walk_from_oamscan (s : Cpu) (hlcd : s.m_memory.LCDC &&& 0x80 ≠ 0)
    (h0 : pipelineView s = (2, 0, 0)) :
    pipelineView (ticks 20 s) = (3, 0, 0) ∧ pipelineView (ticks 63 s) = (0, 0, 0) ∧
      pipelineView (ticks 114 s) = (2, 1, 0) := by
  have e0 : specFramePosition 0 = (2, 0, 0) := by
    norm_num [specFramePosition]
  have hrun := frame_run s 0 hlcd (h0.trans e0.symm)
  have e1 : specFramePosition (0 + 20) = (3, 0, 0) := by
    norm_num [specFramePosition]
  have e2 : specFramePosition (0 + 63) = (0, 0, 0) := by
    norm_num [specFramePosition]
  have e3 : specFramePosition (0 + 114) = (2, 1, 0) := by
    norm_num [specFramePosition]
  exact ⟨(hrun 20 (by omega)).trans e1, (hrun 63 (by omega)).trans e2,
    (hrun 114 (by omega)).trans e3⟩

end DisplayController

namespace Memory

/-- The constructor leaves the registers and arrays at their default values: it sets the
controller, the save flag and the external RAM only. -/
theorem construct_frame {rom : ByteVector} {save : Option (List Nat)} {m : Memory}
    (h : construct (some rom) save = Except.ok m) :
    m = { defaults rom with m_mbc := m.m_mbc
                            m_saveEnabled := m.m_saveEnabled
                            m_externalRam := m.m_externalRam } := by
  rw [construct_eq] at h
  have hg := getCartridgeType_outcome (defaults rom) rfl
  cases hr : (defaults rom).getCartridgeType with
  | error e =>
    rw [hr] at h
    cases h
  | ok m1 =>
    rw [hr] at h
    have g1 := (outcome_ok hg hr).1
    have hx := resizeExternalRam_outcome m1
    change (match m1.resizeExternalRam with
      | Except.ok m => Except.ok (m.loadSave save)
      | Except.error e => Except.error e) = Except.ok m at h
    cases hx2 : m1.resizeExternalRam with
    | error e =>
      rw [hx2] at h
      cases h
    | ok m2 =>
      rw [hx2] at h
      have x1 := (outcome_ok hx hx2).1
      have l1 := (loadSave_frame m2 save).1
      have e1 : m2.loadSave save = m := Except.ok.inj h
      rw [← e1, l1, x1, g1]

end Memory

namespace Cpu

/-- Claim C25: starting from pipeline state (OAMSCAN, `LY = 0`, counter 0) with the LCD on,
under pipeline ticks alone the pipeline follows the timing table: each of the 144 visible
lines takes 20 ticks of OAMSCAN, 43 of XFER and 51 of HBLANK; VBLANK then lasts `10 * 114`
ticks with `LY` running 144..153 and back at 0 from the second tick of line 153; the
pipeline is in (OAMSCAN, `LY = 0`, counter 0) again after 17556 ticks and at no tick before;
and a tick requests VBLANK exactly once, the tick 16416 that moves `LY` from 143 to 144. -/
theorem frame_takes_17556_ticks (s : Cpu) (hlcd : s.m_memory.LCDC &&& 0x80 ≠ 0)
    (h0 : DisplayController.pipelineView s = (2, 0, 0)) :
    (∀ k, k ≤ 17556 → DisplayController.pipelineView (DisplayController.ticks k s)
      = DisplayController.specFramePosition k) ∧
    (∀ line r, line < 144 → r < 114 →
      DisplayController.pipelineView (DisplayController.ticks (114 * line + r) s)
        = if r < 20 then (2, line, r) else if r < 63 then (3, line, r - 20)
          else (0, line, r - 63)) ∧
    (∀ j r, j < 10 → r < 114 →
      DisplayController.pipelineView (DisplayController.ticks (16416 + 114 * j + r) s)
        = (1, if j = 9 ∧ 1 ≤ r then 0 else 144 + j, r)) ∧
    DisplayController.pipelineView (DisplayController.ticks 17556 s) = (2, 0, 0) ∧
    (∀ k, 0 < k → k < 17556 →
      DisplayController.pipelineView (DisplayController.ticks k s) ≠ (2, 0, 0)) ∧
    (∀ k, k < 17556 →
      (DisplayController.raisedByTick (DisplayController.ticks k s) &&& 0x01 ≠ 0
        ↔ k = 16415)) ∧
    (DisplayController.ticks 16415 s).m_memory.LY = 143 ∧
    (DisplayController.ticks 16416 s).m_memory.LY = 144 := by
  have hrun : ∀ k, k ≤ 17556 → DisplayController.pipelineView (DisplayController.ticks k s)
      = DisplayController.specFramePosition k := by
    intro k hk
    have h := DisplayController.frame_run s 0 hlcd h0 k (by omega)
    rw [Nat.zero_add] at h
    exact h
  refine ⟨hrun, ?_, ?_, ?_, ?_, ?_, ?_, ?_⟩
  · intro line r hl hr
    rw [hrun _ (by omega)]
    unfold DisplayController.specFramePosition
    rw [if_pos (by omega)]
    have h1 : (114 * line + r) % 114 = r := by omega
    have h2 : (114 * line + r) / 114 = line := by omega
    rw [h1, h2]
  · intro j r hj hr
    rw [hrun _ (by omega)]
    unfold DisplayController.specFramePosition
    rw [if_neg (by omega), if_pos (by omega)]
    have h1 : (16416 + 114 * j + r - 16416) % 114 = r := by omega
    have h2 : (16416 + 114 * j + r - 16416) / 114 = j := by omega
    rw [h1, h2]
    by_cases hw : j = 9 ∧ 1 ≤ r
    · rw [if_neg (by omega), if_pos hw]
    · rw [if_pos (by omega), if_neg hw]
  · exact hrun 17556 (Nat.le_refl _)
  · intro k hk0 hk
    rw [hrun k (by omega)]
    unfold DisplayController.specFramePosition
    split_ifs <;> simp only [ne_eq, Prod.mk.injEq, not_and] <;> omega
  · intro k hk
    have hv := hrun k (by omega)
    have hl : (DisplayController.ticks k s).m_memory.LCDC &&& 0x80 ≠ 0 := by
      rw [DisplayController.ticks_LCDC]
      exact hlcd
    have hc := DisplayController.specFramePosition_counter k
    rw [DisplayController.raisedByTick_vblank (DisplayController.ticks k s)
      (DisplayController.specFramePosition k).1 (DisplayController.specFramePosition k).2.1
      (DisplayController.specFramePosition k).2.2 hl hv (Nat.lt_trans hc (by decide))]
    exact DisplayController.specFramePosition_vblank k _ _ _ hk rfl
  · have h := hrun 16415 (by omega)
    have e : DisplayController.specFramePosition 16415 = (0, 143, 50) := by
      norm_num [DisplayController.specFramePosition]
    rw [e] at h
    unfold DisplayController.pipelineView at h
    simp only [Prod.mk.injEq] at h
    exact h.2.1
  · have h := hrun 16416 (by omega)
    have e : DisplayController.specFramePosition 16416 = (1, 144, 0) := by
      norm_num [DisplayController.specFramePosition]
    rw [e] at h
    unfold DisplayController.pipelineView at h
    simp only [Prod.mk.injEq] at h
    exact h.2.1

/-- A fresh machine put in OAMSCAN: line 5 is in HBLANK 70 ticks after its start. -/
theorem frame_takes_17556_ticks_witness :
    (oamScanState.m_memory.LCDC &&& 0x80 ≠ 0 ∧
      DisplayController.pipelineView oamScanState = (2, 0, 0)) ∧
    DisplayController.pipelineView (DisplayController.ticks 17556 oamScanState) = (2, 0, 0) ∧
    DisplayController.pipelineView (DisplayController.ticks (114 * 5 + 70) oamScanState)
      = (0, 5, 7) ∧
    (DisplayController.raisedByTick (DisplayController.ticks 16415 oamScanState) &&& 0x01 ≠ 0
      ↔ 16415 = 16415) :=
  ⟨⟨by decide, rfl⟩,
    (frame_takes_17556_ticks oamScanState (by decide) rfl).2.2.2.1,
    (frame_takes_17556_ticks oamScanState (by decide) rfl).2.1 5 70 (by decide) (by decide),
    (frame_takes_17556_ticks oamScanState (by decide) rfl).2.2.2.2.2.1 16415 (by omega)⟩

/-- Claim C26, as the code has it: the post-construction state has `LCDC = 0x91`,
`STAT = 0`, `LY = 0` and cycle counter 0, so the pipeline starts in HBLANK (mode 0), not in
OAMSCAN: 51 ticks advance `LY` to 1 and bring it to OAMSCAN, 20 more take it to XFER and 43
more bring it to HBLANK.  From (OAMSCAN, `LY = 0`, counter 0) with the LCD on, 20 ticks take
the pipeline to XFER, 43 more bring it to HBLANK, and 51 more advance `LY` to 1 and return it
to OAMSCAN. -/
theorem mode_walk (rom : ByteVector) (save : Option (List Nat)) (m : Memory)
    (hload : Memory.construct (some rom) save = Except.ok m) :
    ((Cpu.init m).m_memory.LCDC = 0x91 ∧
      DisplayController.pipelineView (Cpu.init m) = (0, 0, 0) ∧
      DisplayController.pipelineView (DisplayController.ticks 51 (Cpu.init m)) = (2, 1, 0) ∧
      DisplayController.pipelineView (DisplayController.ticks (51 + 20) (Cpu.init m))
        = (3, 1, 0) ∧
      DisplayController.pipelineView (DisplayController.ticks (51 + 20 + 43) (Cpu.init m))
        = (0, 1, 0)) ∧
    (∀ s : Cpu, s.m_memory.LCDC &&& 0x80 ≠ 0 → DisplayController.pipelineView s = (2, 0, 0) →
      DisplayController.pipelineView (DisplayController.ticks 20 s) = (3, 0, 0) ∧
      DisplayController.pipelineView (DisplayController.ticks (20 + 43) s) = (0, 0, 0) ∧
      DisplayController.pipelineView (DisplayController.ticks (20 + 43 + 51) s) = (2, 1, 0)) := by
  have hm := Memory.construct_frame hload
  have hl : (Cpu.init m).m_memory.LCDC = 0x91 := by
    show m.LCDC = 0x91
    rw [hm]
    rfl
  have hv : DisplayController.pipelineView (Cpu.init m) = (0, 0, 0) := by
    have hs : m.STAT = 0 := by
      rw [hm]
      rfl
    have hly : m.LY = 0 := by
      rw [hm]
      rfl
    show (m.STAT &&& 0x03, m.LY, 0) = (0, 0, 0)
    rw [hs, hly]
    rfl
  have hon : (Cpu.init m).m_memory.LCDC &&& 0x80 ≠ 0 := by
    rw [hl]
    decide
  obtain ⟨_, w1, _, w2, w3⟩ := DisplayController.walk_from_hblank (Cpu.init m) hon hv
  exact ⟨⟨hl, hv, w1, w2, w3⟩, fun s h1 h2 => DisplayController.walk_from_oamscan s h1 h2⟩

/-- The machine built from a two-bank ROM-only image. -/
theorem mode_walk_witness :
    Memory.construct (some (bankNumberRom 0x00 0 2)) none
      = Except.ok (Memory.loaded (bankNumberRom 0x00 0 2)) ∧
    ((Cpu.init (Memory.loaded (bankNumberRom 0x00 0 2))).m_memory.LCDC = 0x91 ∧
      DisplayController.pipelineView (Cpu.init (Memory.loaded (bankNumberRom 0x00 0 2)))
        = (0, 0, 0) ∧
      DisplayController.pipelineView
        (DisplayController.ticks 51 (Cpu.init (Memory.loaded (bankNumberRom 0x00 0 2))))
        = (2, 1, 0) ∧
      DisplayController.pipelineView
        (DisplayController.ticks (51 + 20) (Cpu.init (Memory.loaded (bankNumberRom 0x00 0 2))))
        = (3, 1, 0) ∧
      DisplayController.pipelineView
        (DisplayController.ticks (51 + 20 + 43)
          (Cpu.init (Memory.loaded (bankNumberRom 0x00 0 2))))
        = (0, 1, 0)) :=
  ⟨rfl, (mode_walk (bankNumberRom 0x00 0 2) none (Memory.loaded (bankNumberRom 0x00 0 2)) rfl).1⟩

/-- Claim C26 fails on the machine built from a two-bank ROM-only image: the post-construction
mode is HBLANK (0), after 20 ticks the pipeline is still in HBLANK with counter 20, not in
XFER (3), and after `20 + 43 + 51` ticks `LY` is 1 but the mode is HBLANK, not OAMSCAN (2). -/
theorem construction_starts_in_hblank :
    Memory.construct (some (bankNumberRom 0x00 0 2)) none
      = Except.ok (Memory.loaded (bankNumberRom 0x00 0 2)) ∧
    DisplayController.pipelineView (Cpu.init (Memory.loaded (bankNumberRom 0x00 0 2)))
      = (0, 0, 0) ∧
    DisplayController.pipelineView
      (DisplayController.ticks 20 (Cpu.init (Memory.loaded (bankNumberRom 0x00 0 2))))
      = (0, 0, 20) ∧
    DisplayController.pipelineView
      (DisplayController.ticks (20 + 43 + 51) (Cpu.init (Memory.loaded (bankNumberRom 0x00 0 2))))
      = (0, 1, 0) ∧
    (DisplayController.pipelineView
      (DisplayController.ticks 20 (Cpu.init (Memory.loaded (bankNumberRom 0x00 0 2))))).1 ≠ 3 ∧
    (DisplayController.pipelineView
      (DisplayController.ticks (20 + 43 + 51)
        (Cpu.init (Memory.loaded (bankNumberRom 0x00 0 2))))).1 ≠ 2 :=
  ⟨rfl, rfl,
    (DisplayController.walk_from_hblank (Cpu.init (Memory.loaded (bankNumberRom 0x00 0 2)))
      (by decide) rfl).1,
    (DisplayController.walk_from_hblank (Cpu.init (Memory.loaded (bankNumberRom 0x00 0 2)))
      (by decide) rfl).2.2.2.2,
    by
      rw [(DisplayController.walk_from_hblank
        (Cpu.init (Memory.loaded (bankNumberRom 0x00 0 2))) (by decide) rfl).1]
      decide,
    by
      rw [(DisplayController.walk_from_hblank
        (Cpu.init (Memory.loaded (bankNumberRom 0x00 0 2))) (by decide) rfl).2.2.2.2]
      decide⟩

end Cpu
end CppGB

namespace CppGB

namespace Memory

/-! ## The bound on the cycle counter -/

/-- The copy loop of `performDmaTransfer` writes OAM only. -/
theorem performDmaTransferLoop_frame (n : Nat) :
    ∀ (i d : Nat) (m : Memory),
      performDmaTransferLoop n i d m
        = { m with m_oam := (performDmaTransferLoop n i d m).m_oam } := by
  induction n with
  | zero =>
    intro i d m
    rfl
  | succ n ih =>
    intro i d m
    exact (ih (i + 1) ((d + 1) % 65536)
      { m with m_oam := store m.m_oam i (m.read d) }).trans rfl

theorem performDmaTransfer_frame (m : Memory) :
    m.performDmaTransfer = { m with m_oam := m.performDmaTransfer.m_oam } :=
  performDmaTransferLoop_frame _ _ _ m

theorem writeRegister_STAT (m : Memory) (a v : Nat) (h : a ≠ STAT_ADDRESS) :
    (m.writeRegister a v).STAT = m.STAT := by
  simp only [writeRegister, apply_ite Memory.STAT, if_neg h, ite_self]

theorem writeToRom_STAT (m : Memory) (a v : Nat) : (m.writeToRom a v).STAT = m.STAT := by
  unfold writeToRom
  cases m.m_mbc
  · rfl
  · simp only [writeToRom_mbc1, apply_ite Memory.STAT, ite_self]
  · simp only [writeToRom_mbc2, apply_ite Memory.STAT, ite_self]
  · simp only [writeToRom_mbc3, apply_ite Memory.STAT, ite_self]
  · simp only [writeToRom_mbc5, apply_ite Memory.STAT, ite_self]

/-- `Memory::write` changes `STAT` only at `STAT_ADDRESS`. -/
theorem write_STAT (m : Memory) (a v : Nat) (h : a ≠ STAT_ADDRESS) :
    (m.write a v).STAT = m.STAT := by
  simp only [write, apply_ite Memory.STAT, writeToRom_STAT, writeRegister_STAT m a v h,
    ite_self]

end Memory

namespace DisplayController

theorem belowModeLength_congr {s t : Cpu} (h : modeView t = modeView s)
    (hs : belowModeLength s) : belowModeLength t := by
  unfold belowModeLength
  rw [h]
  exact hs

theorem belowModeLength_ite {c : Prop} [Decidable c] {a b : Cpu}
    (ha : c → belowModeLength a) (hb : ¬ c → belowModeLength b) :
    belowModeLength (if c then a else b) := by
  split
  · exact ha (by assumption)
  · exact hb (by assumption)

theorem requestInterrupt_modeView (flag : Nat) (s : Cpu) :
    modeView (Cpu.requestInterrupt flag s) = modeView s := rfl

theorem changeMode_modeView (flag : Nat) (s : Cpu) (hf : flag < 4) :
    modeView (changeMode flag s) = (flag, 0) := by
  unfold changeMode modeView
  exact congrArg (fun x => (x, 0)) (mode_bits s.m_memory.STAT flag hf)

theorem writeToLCDC_belowModeLength (value : Nat) (s : Cpu) (hs : belowModeLength s) :
    belowModeLength (writeToLCDC value s) := by
  unfold writeToLCDC
  apply belowModeLength_ite
  · intro _
    unfold belowModeLength
    rw [changeMode_modeView _ _ (by decide)]
    exact ⟨fun _ => by decide, fun h => absurd h (by decide), fun h => absurd h (by decide),
      fun h => absurd h (by decide)⟩
  · intro _
    exact belowModeLength_congr rfl hs

theorem updateBgPaletteColor_modeView (s : Cpu) :
    modeView (updateBgPaletteColor s) = modeView s := by
  simp only [updateBgPaletteColor, apply_ite modeView]
  exact ite_self _

theorem updateObjPaletteColor_modeView (s : Cpu) :
    modeView (updateObjPaletteColor s) = modeView s := by
  simp only [updateObjPaletteColor, apply_ite modeView]
  exact ite_self _

theorem stat_write_mode (v S : Nat) : ((v &&& 0xF8) ||| (S &&& 0x07)) &&& 0x03 = S &&& 0x03 := by
  have h1 : (v &&& 0xF8) &&& 0x03 = 0 := by
    rw [Nat.and_assoc]
    exact Nat.and_zero v
  have h2 : (S &&& 0x07) &&& 0x03 = S &&& 0x03 := by
    rw [Nat.and_assoc]
    rfl
  rw [Nat.and_distrib_right, h1, h2, Nat.zero_or]

/-- The step of the pipeline view keeps the counter below the length of the mode. -/
theorem pipelineStep_bound (mode ly c : Nat) (h0 : mode = 0 → c < 51) (h1 : mode = 1 → c < 114)
    (h2 : mode = 2 → c < 20) (h3 : mode = 3 → c < 43) (hmode : mode < 4) (r : Nat × Nat × Nat)
    (hr : r =
      if mode = 0 then
        (if c + 1 = 51 then
          (if (ly + 1) % 256 < 144 then (2, (ly + 1) % 256, 0) else (1, (ly + 1) % 256, 0))
        else (0, ly, c + 1))
      else if mode = 1 then
        (if c + 1 = 1 ∧ ly = 153 then (1, 0, c + 1)
        else if c + 1 = 114 then (if ly = 0 then (2, 0, 0) else (1, (ly + 1) % 256, 0))
        else (1, ly, c + 1))
      else if mode = 2 then (if c + 1 = 20 then (3, ly, 0) else (2, ly, c + 1))
      else (if c + 1 = 43 then (0, ly, 0) else (3, ly, c + 1))) :
    (r.1 = 0 → r.2.2 < 51) ∧ (r.1 = 1 → r.2.2 < 114) ∧ (r.1 = 2 → r.2.2 < 20) ∧
      (r.1 = 3 → r.2.2 < 43) := by
  interval_cases mode
  · have := h0 rfl
    rw [if_pos rfl] at hr
    split_ifs at hr <;> subst hr <;> refine ⟨?_, ?_, ?_, ?_⟩ <;> intro hx <;>
      simp only at hx ⊢ <;> omega
  · have := h1 rfl
    rw [if_neg (by decide), if_pos rfl] at hr
    split_ifs at hr <;> subst hr <;> refine ⟨?_, ?_, ?_, ?_⟩ <;> intro hx <;>
      simp only at hx ⊢ <;> omega
  · have := h2 rfl
    rw [if_neg (by decide), if_neg (by decide), if_pos rfl] at hr
    split_ifs at hr <;> subst hr <;> refine ⟨?_, ?_, ?_, ?_⟩ <;> intro hx <;>
      simp only at hx ⊢ <;> omega
  · have := h3 rfl
    rw [if_neg (by decide), if_neg (by decide), if_neg (by decide)] at hr
    split_ifs at hr <;> subst hr <;> refine ⟨?_, ?_, ?_, ?_⟩ <;> intro hx <;>
      simp only at hx ⊢ <;> omega

/-- One call of `DisplayController::doCycle` keeps the counter below the length of the
mode. -/
theorem tick_belowModeLength (s : Cpu) (hs : belowModeLength s) :
    belowModeLength (DisplayController.doCycle s) := by
  by_cases hlcd : s.m_memory.LCDC &&& 0x80 = 0
  · rw [doCycle_quiet s hlcd]
    exact hs
  have hmode : s.m_memory.STAT &&& 0x03 < 4 :=
    Nat.lt_of_le_of_lt Nat.and_le_right (by decide)
  obtain ⟨h0, h1, h2, h3⟩ := hs
  have hc : s.m_displayController.m_cycleCounter < 255 := by
    have g0 : (modeView s).1 = s.m_memory.STAT &&& 0x03 := rfl
    have g1 : (modeView s).2 = s.m_displayController.m_cycleCounter := rfl
    rw [g0, g1] at h0 h1 h2 h3
    generalize s.m_memory.STAT &&& 0x03 = mode at hmode h0 h1 h2 h3
    interval_cases mode
    · exact Nat.lt_trans (h0 rfl) (by decide)
    · exact Nat.lt_trans (h1 rfl) (by decide)
    · exact Nat.lt_trans (h2 rfl) (by decide)
    · exact Nat.lt_trans (h3 rfl) (by decide)
  have hv := tick_pipelineView s (s.m_memory.STAT &&& 0x03) s.m_memory.LY
    s.m_displayController.m_cycleCounter hlcd rfl hc
  exact pipelineStep_bound _ _ _ h0 h1 h2 h3 hmode (pipelineView (DisplayController.doCycle s)) hv

end DisplayController

namespace SoundController

theorem writeToNR13_modeView (value : Nat) (s : Cpu) :
    DisplayController.modeView (writeToNR13 value s) = DisplayController.modeView s := rfl

theorem writeToNR14_modeView (value : Nat) (s : Cpu) :
    DisplayController.modeView (writeToNR14 value s) = DisplayController.modeView s := by
  simp only [writeToNR14, DisplayController.modeView, apply_ite Cpu.m_memory,
    apply_ite Cpu.m_displayController, apply_ite Memory.STAT, ite_self]

theorem writeToNR23_modeView (value : Nat) (s : Cpu) :
    DisplayController.modeView (writeToNR23 value s) = DisplayController.modeView s := rfl

theorem writeToNR24_modeView (value : Nat) (s : Cpu) :
    DisplayController.modeView (writeToNR24 value s) = DisplayController.modeView s := by
  simp only [writeToNR24, DisplayController.modeView, apply_ite Cpu.m_memory,
    apply_ite Cpu.m_displayController, apply_ite Memory.STAT, ite_self]

theorem writeToNR33_modeView (value : Nat) (s : Cpu) :
    DisplayController.modeView (writeToNR33 value s) = DisplayController.modeView s := rfl

theorem writeToNR34_modeView (value : Nat) (s : Cpu) :
    DisplayController.modeView (writeToNR34 value s) = DisplayController.modeView s := by
  simp only [writeToNR34, DisplayController.modeView, apply_ite Cpu.m_memory,
    apply_ite Cpu.m_displayController, apply_ite Memory.STAT, ite_self]

theorem writeToNR44_modeView (value : Nat) (s : Cpu) :
    DisplayController.modeView (writeToNR44 value s) = DisplayController.modeView s := by
  simp only [writeToNR44, apply_ite DisplayController.modeView]
  exact ite_self _

end SoundController

namespace Cpu

theorem incrementDIV_modeView (s : Cpu) :
    DisplayController.modeView (incrementDIV s) = DisplayController.modeView s := by
  simp only [incrementDIV, apply_ite DisplayController.modeView]
  exact ite_self _

theorem incrementTIMA_modeView (s : Cpu) :
    DisplayController.modeView (incrementTIMA s) = DisplayController.modeView s := by
  simp only [incrementTIMA, apply_ite DisplayController.modeView,
    DisplayController.requestInterrupt_modeView]
  split_ifs <;> rfl

/-- One machine cycle keeps the counter below the length of the mode. -/
theorem doCycleStep_belowModeLength (s : Cpu) (hs : DisplayController.belowModeLength s) :
    DisplayController.belowModeLength (doCycleStep s) := by
  have ht : DisplayController.belowModeLength (incrementTIMA (incrementDIV s)) :=
    DisplayController.belowModeLength_congr
      ((incrementTIMA_modeView _).trans (incrementDIV_modeView s)) hs
  simp only [doCycleStep]
  generalize incrementTIMA (incrementDIV s) = t at ht
  apply DisplayController.belowModeLength_ite
  · intro _
    apply DisplayController.belowModeLength_ite
    · intro _
      exact DisplayController.belowModeLength_congr rfl ht
    · intro _
      exact DisplayController.tick_belowModeLength _
        (DisplayController.belowModeLength_congr rfl ht)
  · intro _
    exact DisplayController.tick_belowModeLength t ht

theorem hdma_modeView (s : Cpu) (n : Nat) :
    DisplayController.modeView { s with m_memory := s.m_memory.performHdmaTransfer n }
      = DisplayController.modeView s := by
  unfold DisplayController.modeView
  rw [Memory.performHdmaTransfer_frame]

theorem dma_modeView (s : Cpu) :
    DisplayController.modeView { s with m_memory := s.m_memory.performDmaTransfer }
      = DisplayController.modeView s := by
  unfold DisplayController.modeView
  rw [Memory.performDmaTransfer_frame]

theorem write_modeView (s : Cpu) (a v : Nat) (h : a ≠ Memory.STAT_ADDRESS) :
    DisplayController.modeView { s with m_memory := s.m_memory.write a v }
      = DisplayController.modeView s := by
  unfold DisplayController.modeView
  exact congrArg (fun x => (x &&& 0x03, s.m_displayController.m_cycleCounter))
    (Memory.write_STAT s.m_memory a v h)

theorem doCycle_one_belowModeLength (t : Cpu) (ht : DisplayController.belowModeLength t) :
    DisplayController.belowModeLength (doCycle 1 t) := by
  rw [doCycle_one]
  exact doCycleStep_belowModeLength t ht

theorem stat_arm_modeView (s : Cpu) (v : Nat) :
    DisplayController.modeView { s with m_memory := { s.m_memory with
        STAT := (v &&& 0xF8) ||| (s.m_memory.STAT &&& 0x07) } }
      = DisplayController.modeView s :=
  congrArg (fun x => (x, s.m_displayController.m_cycleCounter))
    (DisplayController.stat_write_mode v s.m_memory.STAT)

open DisplayController in
/-- A CPU memory write, to any address, keeps the counter below the length of the mode. -/
theorem writeToMemory_belowModeLength (a v : Nat) (s : Cpu) (hs : belowModeLength s) :
    belowModeLength (writeToMemory a v s) := by
  simp only [writeToMemory]
  apply doCycle_one_belowModeLength
  refine belowModeLength_ite (fun _ => ?sc) (fun _ => ?_)
  case sc =>
    exact belowModeLength_ite (fun _ => belowModeLength_congr rfl hs) (fun _ => hs)
  refine belowModeLength_ite (fun _ => ?nr13) (fun _ => ?_)
  case nr13 =>
    exact belowModeLength_congr (SoundController.writeToNR13_modeView _ _) hs
  refine belowModeLength_ite (fun _ => ?nr14) (fun _ => ?_)
  case nr14 =>
    exact belowModeLength_congr (SoundController.writeToNR14_modeView _ _) hs
  refine belowModeLength_ite (fun _ => ?nr23) (fun _ => ?_)
  case nr23 =>
    exact belowModeLength_congr (SoundController.writeToNR23_modeView _ _) hs
  refine belowModeLength_ite (fun _ => ?nr24) (fun _ => ?_)
  case nr24 =>
    exact belowModeLength_congr (SoundController.writeToNR24_modeView _ _) hs
  refine belowModeLength_ite (fun _ => ?nr30) (fun _ => ?_)
  case nr30 =>
    refine belowModeLength_congr ?_ hs
    simp only [modeView, apply_ite Cpu.m_memory, apply_ite Cpu.m_displayController,
      apply_ite Memory.STAT, ite_self]
  refine belowModeLength_ite (fun _ => ?nr33) (fun _ => ?_)
  case nr33 =>
    exact belowModeLength_congr (SoundController.writeToNR33_modeView _ _) hs
  refine belowModeLength_ite (fun _ => ?nr34) (fun _ => ?_)
  case nr34 =>
    exact belowModeLength_congr (SoundController.writeToNR34_modeView _ _) hs
  refine belowModeLength_ite (fun _ => ?nr44) (fun _ => ?_)
  case nr44 =>
    exact belowModeLength_congr (SoundController.writeToNR44_modeView _ _) hs
  refine belowModeLength_ite (fun _ => ?nr52) (fun _ => ?_)
  case nr52 =>
    exact belowModeLength_congr rfl hs
  refine belowModeLength_ite (fun _ => ?lcdc) (fun _ => ?_)
  case lcdc =>
    exact writeToLCDC_belowModeLength _ _ hs
  refine belowModeLength_ite (fun _ => ?stat) (fun _ => ?_)
  case stat =>
    exact belowModeLength_congr (stat_arm_modeView _ _) hs
  refine belowModeLength_ite (fun _ => ?dma) (fun _ => ?_)
  case dma =>
    exact belowModeLength_congr (dma_modeView { s with m_memory := { s.m_memory with DMA := v } })
      (belowModeLength_congr rfl hs)
  refine belowModeLength_ite (fun _ => ?key1) (fun _ => ?_)
  case key1 =>
    exact belowModeLength_congr rfl hs
  refine belowModeLength_ite (fun _ => ?vbk) (fun _ => ?_)
  case vbk =>
    exact belowModeLength_congr rfl hs
  refine belowModeLength_ite (fun _ => ?hdma5) (fun _ => ?_)
  case hdma5 =>
    refine belowModeLength_ite (fun _ => ?_) (fun _ => belowModeLength_congr rfl hs)
    refine belowModeLength_ite (fun _ => ?_) (fun _ => belowModeLength_congr rfl hs)
    exact belowModeLength_congr
      (hdma_modeView { s with m_memory := { s.m_memory with HDMA5 := v &&& 0x7F } }
        (v &&& 0x7F))
      (belowModeLength_congr rfl hs)
  refine belowModeLength_ite (fun _ => ?bcpd) (fun _ => ?_)
  case bcpd =>
    exact belowModeLength_congr
      (updateBgPaletteColor_modeView { s with m_memory := { s.m_memory with BCPD := v } })
      (belowModeLength_congr rfl hs)
  refine belowModeLength_ite (fun _ => ?ocpd) (fun _ => ?_)
  case ocpd =>
    exact belowModeLength_congr
      (updateObjPaletteColor_modeView { s with m_memory := { s.m_memory with OCPD := v } })
      (belowModeLength_congr rfl hs)
  exact belowModeLength_congr (write_modeView s a v (by assumption)) hs

theorem pipelineReachable_belowModeLength (s : Cpu) (h : PipelineReachable s) :
    DisplayController.belowModeLength s := by
  induction h with
  | init memory =>
    exact ⟨fun _ => (by decide : 0 < 51), fun _ => (by decide : 0 < 114),
      fun _ => (by decide : 0 < 20), fun _ => (by decide : 0 < 43)⟩
  | tick _ ih => exact DisplayController.tick_belowModeLength _ ih
  | cycle _ ih => exact doCycleStep_belowModeLength _ ih
  | write address value _ ih => exact writeToMemory_belowModeLength address value _ ih

/-- `Cpu::writeToMemory` at `STAT_ADDRESS`: the mode and coincidence bits are kept. -/
theorem writeToMemory_STAT_arm (v : Nat) (s : Cpu) :
    writeToMemory Memory.STAT_ADDRESS v s
      = doCycle 1 { s with m_memory := { s.m_memory with
          STAT := (v &&& 0xF8) ||| (s.m_memory.STAT &&& 0x07) } } := by
  unfold writeToMemory
  iterate 11 rw [if_neg (by decide)]
  rw [if_pos rfl]

/-- A write to `STAT`, made while no HBlank transfer is scheduled, stays inside the arrays. -/
theorem writeToMemory_STAT_staysInBounds (v : Nat) (s : Cpu)
    (hi : s.m_memory.HDMA5 &&& 0x80 ≠ 0) :
    staysInBounds (writeToMemory Memory.STAT_ADDRESS v) s := by
  apply staysInBounds_of_setArrays
  intro X Y Z
  rw [writeToMemory_STAT_arm, writeToMemory_STAT_arm]
  have e : ({ s.setArrays X Y Z with m_memory := { (s.setArrays X Y Z).m_memory with
      STAT := (v &&& 0xF8) ||| ((s.setArrays X Y Z).m_memory.STAT &&& 0x07) } } : Cpu)
        = Cpu.setArrays X Y Z { s with m_memory := { s.m_memory with
            STAT := (v &&& 0xF8) ||| (s.m_memory.STAT &&& 0x07) } } := rfl
  rw [e]
  exact doCycle_setArrays 1 _ X Y Z hi

/-- A write to `LY`, made while no HBlank transfer is scheduled, stays inside the arrays. -/
theorem writeToMemory_LY_staysInBounds (v : Nat) (s : Cpu)
    (hi : s.m_memory.HDMA5 &&& 0x80 ≠ 0) :
    staysInBounds (writeToMemory Memory.LY_ADDRESS v) s := by
  apply staysInBounds_of_setArrays
  intro X Y Z
  rw [writeToMemory_LY, writeToMemory_LY]
  have e : ({ s.setArrays X Y Z with m_memory := { (s.setArrays X Y Z).m_memory with
      LY := v } } : Cpu)
        = Cpu.setArrays X Y Z { s with m_memory := { s.m_memory with LY := v } } := rfl
  rw [e]
  exact doCycle_setArrays 1 _ X Y Z hi

/-- The store to `0xD000` with `SVBK = 8` does not stay inside the arrays: it changes the
cell `0x8000`, the first one past `m_workRam`.  No run through this write is a run in
bounds. -/
theorem svbk_store_leaves_work_ram :
    ¬ staysInBounds (writeToMemory 0xD000 0x5A) svbkEightState := by
  intro h
  have e := congrArg (fun t => t.m_memory.m_workRam 0x8000)
    (h (fun _ => 0) (fun _ => 0) (fun _ => 0))
  exact absurd e (by decide)

theorem PipelineReachableInBounds.toPipelineReachable {s : Cpu}
    (h : PipelineReachableInBounds s) : PipelineReachable s := by
  induction h with
  | init memory _ => exact PipelineReachable.init memory
  | tick _ _ _ ih => exact PipelineReachable.tick ih
  | cycle _ _ _ ih => exact PipelineReachable.cycle ih
  | write address value _ _ _ ih => exact PipelineReachable.write address value ih

/-- A tick, a write of `0xFF` to `STAT` and a write of 153 to `LY` on a fresh machine stay
inside the arrays: no HBlank transfer is scheduled and the pipeline is in HBLANK. -/
theorem statLyWrites_inBounds :
    PipelineReachableInBounds (writeToMemory 0xFF44 153 (writeToMemory 0xFF41 0xFF
      (DisplayController.doCycle (Cpu.init (Memory.defaults (programRom [])))))) :=
  PipelineReachableInBounds.write _ _
    (PipelineReachableInBounds.write _ _
      (PipelineReachableInBounds.tick (PipelineReachableInBounds.init _ (by decide))
        (pipelineCycle_staysInBounds _ (by decide)) (by decide))
      (writeToMemory_STAT_staysInBounds _ _ (by decide)) (by decide))
    (writeToMemory_LY_staysInBounds _ _ (by decide)) (by decide)

/-- Claim C27: in the runs that stay inside the arrays, every state reachable from the
post-construction state by pipeline ticks, machine cycles and CPU memory writes (to any
address, `STAT`, `LCDC` and `LY` included) has the pipeline cycle counter within the bound of
the mode held in `STAT` bits 0..1: at most 51 in HBLANK (0), 114 in VBLANK (1), 20 in OAMSCAN
(2) and 43 in XFER (3); it is in fact below each bound. -/
theorem cycle_counter_within_mode_bound (s : Cpu) (h : PipelineReachableInBounds s) :
    (s.m_memory.STAT &&& 0x03 = 0 → s.m_displayController.m_cycleCounter ≤ 51) ∧
    (s.m_memory.STAT &&& 0x03 = 1 → s.m_displayController.m_cycleCounter ≤ 114) ∧
    (s.m_memory.STAT &&& 0x03 = 2 → s.m_displayController.m_cycleCounter ≤ 20) ∧
    (s.m_memory.STAT &&& 0x03 = 3 → s.m_displayController.m_cycleCounter ≤ 43) ∧
    s.m_memory.STAT &&& 0x03 < 4 ∧ DisplayController.belowModeLength s := by
  have hb := pipelineReachable_belowModeLength s h.toPipelineReachable
  obtain ⟨h0, h1, h2, h3⟩ := hb
  exact ⟨fun hm => Nat.le_of_lt (h0 hm), fun hm => Nat.le_of_lt (h1 hm),
    fun hm => Nat.le_of_lt (h2 hm), fun hm => Nat.le_of_lt (h3 hm),
    Nat.lt_of_le_of_lt Nat.and_le_right (by decide), ⟨h0, h1, h2, h3⟩⟩

/-- A tick, a write of `0xFF` to `STAT` and a write of 153 to `LY` on a fresh machine. -/
theorem cycle_counter_within_mode_bound_witness :
    PipelineReachableInBounds (writeToMemory 0xFF44 153 (writeToMemory 0xFF41 0xFF
      (DisplayController.doCycle (Cpu.init (Memory.defaults (programRom [])))))) ∧
    (writeToMemory 0xFF44 153 (writeToMemory 0xFF41 0xFF
      (DisplayController.doCycle (Cpu.init (Memory.defaults (programRom [])))))).m_memory.STAT
        &&& 0x03 = 0 ∧
    (writeToMemory 0xFF44 153 (writeToMemory 0xFF41 0xFF
      (DisplayController.doCycle (Cpu.init (Memory.defaults (programRom []))))
      )).m_displayController.m_cycleCounter ≤ 51 :=
  ⟨statLyWrites_inBounds, rfl, (cycle_counter_within_mode_bound _ statLyWrites_inBounds).1 rfl⟩

end Cpu
end CppGB

/-! # Palettes -/

namespace CppGB

namespace DisplayController

/-! ## The colour palettes -/

set_option maxRecDepth 100000

/-- The palette number, colour number and byte selector of a palette-specification byte, in
terms of its index `s & 0x3F`. -/
theorem palette_index_bits :
    ∀ s, s < 256 →
      (s &&& 0x3F) < 64 ∧ (s >>> 3) &&& 0x07 = (s &&& 0x3F) / 8 ∧
        (s >>> 1) &&& 0x03 = ((s &&& 0x3F) / 2) % 4 ∧
        (s &&& 1 ≠ 0 ↔ (s &&& 0x3F) % 2 = 1) := by
  decide

/-- The auto-increment of a palette-specification byte with bit 7 set. -/
theorem palette_increment_bits :
    ∀ s, s < 256 → s &&& 0x80 ≠ 0 →
      (((s &&& 0xBF) + 1) % 256) &&& 0x80 ≠ 0 ∧
        (((s &&& 0xBF) + 1) % 256) &&& 0x3F = ((s &&& 0x3F) + 1) % 64 := by
  decide

theorem paletteByte_store (palettes : Nat → ColorPalette) (p c : Nat) (high : Bool)
    (value i : Nat) :
    paletteByte (storeColorByte palettes p c high value) i =
      if i / 8 = p ∧ (i / 2) % 4 = c ∧ (i % 2 = 1 ↔ high = true) then value
      else paletteByte palettes i := by
  unfold paletteByte storeColorByte
  by_cases hp : i / 8 = p
  · by_cases hc : (i / 2) % 4 = c
    · cases high
      · by_cases hb : i % 2 = 1
        · simp [hp, hc, hb]
        · simp [hp, hc, hb]
      · by_cases hb : i % 2 = 1
        · simp [hp, hc, hb]
        · simp [hp, hc, hb]
    · by_cases hb : i % 2 = 1
      · simp [hp, hc, hb]
      · simp [hp, hc, hb]
  · by_cases hb : i % 2 = 1
    · simp [hp, hb]
    · simp [hp, hb]

theorem palette_index_eq (i idx : Nat) :
    (i / 8 = idx / 8 ∧ (i / 2) % 4 = (idx / 2) % 4 ∧ i % 2 = idx % 2) ↔ i = idx := by
  constructor
  · intro h
    omega
  · intro h
    subst h
    exact ⟨rfl, rfl, rfl⟩

/-- The byte of index `idx` is the one that `storeColorByte` writes for the palette number,
colour number and selector of index `idx`. -/
theorem paletteByte_store_index (palettes : Nat → ColorPalette) (s value i : Nat)
    (hs : s < 256) :
    paletteByte (storeColorByte palettes ((s >>> 3) &&& 0x07) ((s >>> 1) &&& 0x03)
        (decide (s &&& 1 ≠ 0)) value) i =
      if i = s &&& 0x3F then value else paletteByte palettes i := by
  obtain ⟨_, h2, h3, h4⟩ := palette_index_bits s hs
  rw [paletteByte_store, h2, h3]
  have hiff : (i / 8 = (s &&& 0x3F) / 8 ∧ (i / 2) % 4 = ((s &&& 0x3F) / 2) % 4 ∧
      (i % 2 = 1 ↔ decide (s &&& 1 ≠ 0) = true)) ↔ i = s &&& 0x3F := by
    rw [← palette_index_eq i (s &&& 0x3F), decide_eq_true_iff, h4]
    constructor
    · rintro ⟨a, b, c⟩
      refine ⟨a, b, ?_⟩
      rcases Nat.mod_two_eq_zero_or_one i with hi | hi <;>
        rcases Nat.mod_two_eq_zero_or_one (s &&& 0x3F) with hx | hx
      · rw [hi, hx]
      · exact absurd (c.mpr hx) (by rw [hi]; decide)
      · exact absurd (c.mp hi) (by rw [hx]; decide)
      · rw [hi, hx]
    · rintro ⟨a, b, c⟩
      exact ⟨a, b, by rw [c]⟩
  by_cases h : i = s &&& 0x3F
  · rw [if_pos (hiff.mpr h), if_pos h]
  · rw [if_neg (fun hx => h (hiff.mp hx)), if_neg h]

theorem readBgPaletteColor_index (t : Cpu) (hs : t.m_memory.BCPS < 256) :
    readBgPaletteColor t
      = paletteByte t.m_displayController.m_bgColorPalettes (t.m_memory.BCPS &&& 0x3F) := by
  obtain ⟨_, h2, h3, h4⟩ := palette_index_bits _ hs
  unfold readBgPaletteColor paletteByte
  simp only [h2, h3]
  by_cases hb : t.m_memory.BCPS &&& 1 ≠ 0
  · rw [if_pos hb, if_pos (h4.mp hb)]
  · rw [if_neg hb, if_neg (fun hx => hb (h4.mpr hx))]

theorem readObjPaletteColor_index (t : Cpu) (hs : t.m_memory.OCPS < 256) :
    readObjPaletteColor t
      = paletteByte t.m_displayController.m_objColorPalettes (t.m_memory.OCPS &&& 0x3F) := by
  obtain ⟨_, h2, h3, h4⟩ := palette_index_bits _ hs
  unfold readObjPaletteColor paletteByte
  simp only [h2, h3]
  by_cases hb : t.m_memory.OCPS &&& 1 ≠ 0
  · rw [if_pos hb, if_pos (h4.mp hb)]
  · rw [if_neg hb, if_neg (fun hx => hb (h4.mpr hx))]

/-- What `updateBgPaletteColor` writes. -/
theorem updateBgPaletteColor_effect (t : Cpu) :
    (updateBgPaletteColor t).m_displayController.m_bgColorPalettes
        = storeColorByte t.m_displayController.m_bgColorPalettes
            ((t.m_memory.BCPS >>> 3) &&& 0x07) ((t.m_memory.BCPS >>> 1) &&& 0x03)
            (decide (t.m_memory.BCPS &&& 1 ≠ 0)) t.m_memory.BCPD ∧
      (updateBgPaletteColor t).m_displayController.m_objColorPalettes
        = t.m_displayController.m_objColorPalettes ∧
      (updateBgPaletteColor t).m_memory.BCPS
        = (if t.m_memory.BCPS &&& 0x80 ≠ 0 then ((t.m_memory.BCPS &&& 0xBF) + 1) % 256
          else t.m_memory.BCPS) ∧
      (updateBgPaletteColor t).m_memory.OCPS = t.m_memory.OCPS := by
  unfold updateBgPaletteColor
  refine ⟨?_, ?_, ?_, ?_⟩ <;> (dsimp only; split <;> rfl)

/-- What `updateObjPaletteColor` writes. -/
theorem updateObjPaletteColor_effect (t : Cpu) :
    (updateObjPaletteColor t).m_displayController.m_objColorPalettes
        = storeColorByte t.m_displayController.m_objColorPalettes
            ((t.m_memory.OCPS >>> 3) &&& 0x07) ((t.m_memory.OCPS >>> 1) &&& 0x03)
            (decide (t.m_memory.OCPS &&& 1 ≠ 0)) t.m_memory.OCPD ∧
      (updateObjPaletteColor t).m_displayController.m_bgColorPalettes
        = t.m_displayController.m_bgColorPalettes ∧
      (updateObjPaletteColor t).m_memory.OCPS
        = (if t.m_memory.OCPS &&& 0x80 ≠ 0 then ((t.m_memory.OCPS &&& 0xBF) + 1) % 256
          else t.m_memory.OCPS) ∧
      (updateObjPaletteColor t).m_memory.BCPS = t.m_memory.BCPS := by
  unfold updateObjPaletteColor
  refine ⟨?_, ?_, ?_, ?_⟩ <;> (dsimp only; split <;> rfl)

end DisplayController

namespace Cpu

/-- The clock leaves the palettes and the palette-specification registers alone. -/
theorem doCycle_palettes (n : Nat) (t : Cpu) :
    (doCycle n t).m_displayController.m_bgColorPalettes
        = t.m_displayController.m_bgColorPalettes ∧
      (doCycle n t).m_displayController.m_objColorPalettes
        = t.m_displayController.m_objColorPalettes ∧
      (doCycle n t).m_memory.BCPS = t.m_memory.BCPS ∧
      (doCycle n t).m_memory.OCPS = t.m_memory.OCPS ∧
      (doCycle n t).m_memory.BCPD = t.m_memory.BCPD ∧
      (doCycle n t).m_memory.OCPD = t.m_memory.OCPD := by
  have h := doCycle_clockFrame n t
  have h1 := congrArg (fun u : Cpu => u.m_displayController.m_bgColorPalettes) h
  have h2 := congrArg (fun u : Cpu => u.m_displayController.m_objColorPalettes) h
  have h3 := congrArg (fun u : Cpu => u.m_memory.BCPS) h
  have h4 := congrArg (fun u : Cpu => u.m_memory.OCPS) h
  have h5 := congrArg (fun u : Cpu => u.m_memory.BCPD) h
  have h6 := congrArg (fun u : Cpu => u.m_memory.OCPD) h
  exact ⟨h1, h2, h3, h4, h5, h6⟩

/-- `Cpu::writeToMemory` at `BCPD_ADDRESS`. -/
theorem writeToMemory_BCPD (v : Nat) (s : Cpu) :
    writeToMemory Memory.BCPD_ADDRESS v s
      = doCycle 1 (DisplayController.updateBgPaletteColor
          { s with m_memory := { s.m_memory with BCPD := v } }) := by
  unfold writeToMemory
  iterate 16 rw [if_neg (by decide)]
  rw [if_pos rfl]

/-- `Cpu::writeToMemory` at `OCPD_ADDRESS`. -/
theorem writeToMemory_OCPD (v : Nat) (s : Cpu) :
    writeToMemory Memory.OCPD_ADDRESS v s
      = doCycle 1 (DisplayController.updateObjPaletteColor
          { s with m_memory := { s.m_memory with OCPD := v } }) := by
  unfold writeToMemory
  iterate 17 rw [if_neg (by decide)]
  rw [if_pos rfl]

theorem readMemory_u8_BCPD (t : Cpu) :
    (readMemory_u8 Memory.BCPD_ADDRESS t).1 = DisplayController.readBgPaletteColor t := by
  unfold readMemory_u8
  rw [if_pos rfl]

theorem readMemory_u8_OCPD (t : Cpu) :
    (readMemory_u8 Memory.OCPD_ADDRESS t).1 = DisplayController.readObjPaletteColor t := by
  unfold readMemory_u8
  rw [if_neg (by decide), if_pos rfl]

/-- The background half of the palette-data write. -/
theorem writeToMemory_BCPD_effect (s : Cpu) (v : Nat) (hb : s.m_memory.BCPS < 256) :
    (∀ i, DisplayController.paletteByte
        (writeToMemory 0xFF69 v s).m_displayController.m_bgColorPalettes i
          = if i = s.m_memory.BCPS &&& 0x3F then v
            else DisplayController.paletteByte s.m_displayController.m_bgColorPalettes i) ∧
      (writeToMemory 0xFF69 v s).m_displayController.m_objColorPalettes
        = s.m_displayController.m_objColorPalettes ∧
      (s.m_memory.BCPS &&& 0x80 = 0 →
        (writeToMemory 0xFF69 v s).m_memory.BCPS = s.m_memory.BCPS ∧
          (readMemory_u8 0xFF69 (writeToMemory 0xFF69 v s)).1 = v) ∧
      (s.m_memory.BCPS &&& 0x80 ≠ 0 →
        (writeToMemory 0xFF69 v s).m_memory.BCPS &&& 0x80 ≠ 0 ∧
          (writeToMemory 0xFF69 v s).m_memory.BCPS &&& 0x3F
            = ((s.m_memory.BCPS &&& 0x3F) + 1) % 64) := by
  have hw : writeToMemory 0xFF69 v s = doCycle 1 (DisplayController.updateBgPaletteColor
      { s with m_memory := { s.m_memory with BCPD := v } }) := writeToMemory_BCPD v s
  obtain ⟨e1, e2, e3, _⟩ := DisplayController.updateBgPaletteColor_effect
    { s with m_memory := { s.m_memory with BCPD := v } }
  obtain ⟨d1, d2, d3, _⟩ := doCycle_palettes 1 (DisplayController.updateBgPaletteColor
    { s with m_memory := { s.m_memory with BCPD := v } })
  have hbytes : ∀ i, DisplayController.paletteByte
      (writeToMemory 0xFF69 v s).m_displayController.m_bgColorPalettes i
        = if i = s.m_memory.BCPS &&& 0x3F then v
          else DisplayController.paletteByte s.m_displayController.m_bgColorPalettes i := by
    intro i
    rw [hw, d1, e1]
    exact DisplayController.paletteByte_store_index _ _ _ i hb
  have hreg : (writeToMemory 0xFF69 v s).m_memory.BCPS
      = (if s.m_memory.BCPS &&& 0x80 ≠ 0 then ((s.m_memory.BCPS &&& 0xBF) + 1) % 256
          else s.m_memory.BCPS) := by
    rw [hw, d3, e3]
  refine ⟨hbytes, ?_, ?_, ?_⟩
  · rw [hw, d2, e2]
  · intro h7
    have hsame : (writeToMemory 0xFF69 v s).m_memory.BCPS = s.m_memory.BCPS := by
      rw [hreg, if_neg (fun hx => hx h7)]
    refine ⟨hsame, ?_⟩
    have hr : (readMemory_u8 0xFF69 (writeToMemory 0xFF69 v s)).1
        = DisplayController.readBgPaletteColor (writeToMemory 0xFF69 v s) :=
      readMemory_u8_BCPD _
    rw [hr, DisplayController.readBgPaletteColor_index _ (by rw [hsame]; exact hb), hsame,
      hbytes, if_pos rfl]
  · intro h7
    rw [hreg, if_pos h7]
    exact DisplayController.palette_increment_bits _ hb h7

/-- The sprite half of the palette-data write. -/
theorem writeToMemory_OCPD_effect (s : Cpu) (v : Nat) (ho : s.m_memory.OCPS < 256) :
    (∀ i, DisplayController.paletteByte
        (writeToMemory 0xFF6B v s).m_displayController.m_objColorPalettes i
          = if i = s.m_memory.OCPS &&& 0x3F then v
            else DisplayController.paletteByte s.m_displayController.m_objColorPalettes i) ∧
      (writeToMemory 0xFF6B v s).m_displayController.m_bgColorPalettes
        = s.m_displayController.m_bgColorPalettes ∧
      (s.m_memory.OCPS &&& 0x80 = 0 →
        (writeToMemory 0xFF6B v s).m_memory.OCPS = s.m_memory.OCPS ∧
          (readMemory_u8 0xFF6B (writeToMemory 0xFF6B v s)).1 = v) ∧
      (s.m_memory.OCPS &&& 0x80 ≠ 0 →
        (writeToMemory 0xFF6B v s).m_memory.OCPS &&& 0x80 ≠ 0 ∧
          (writeToMemory 0xFF6B v s).m_memory.OCPS &&& 0x3F
            = ((s.m_memory.OCPS &&& 0x3F) + 1) % 64) := by
  have hw : writeToMemory 0xFF6B v s = doCycle 1 (DisplayController.updateObjPaletteColor
      { s with m_memory := { s.m_memory with OCPD := v } }) := writeToMemory_OCPD v s
  obtain ⟨e1, e2, e3, _⟩ := DisplayController.updateObjPaletteColor_effect
    { s with m_memory := { s.m_memory with OCPD := v } }
  obtain ⟨d1, d2, _, d4, _⟩ := doCycle_palettes 1 (DisplayController.updateObjPaletteColor
    { s with m_memory := { s.m_memory with OCPD := v } })
  have hbytes : ∀ i, DisplayController.paletteByte
      (writeToMemory 0xFF6B v s).m_displayController.m_objColorPalettes i
        = if i = s.m_memory.OCPS &&& 0x3F then v
          else DisplayController.paletteByte s.m_displayController.m_objColorPalettes i := by
    intro i
    rw [hw, d2, e1]
    exact DisplayController.paletteByte_store_index _ _ _ i ho
  have hreg : (writeToMemory 0xFF6B v s).m_memory.OCPS
      = (if s.m_memory.OCPS &&& 0x80 ≠ 0 then ((s.m_memory.OCPS &&& 0xBF) + 1) % 256
          else s.m_memory.OCPS) := by
    rw [hw, d4, e3]
  refine ⟨hbytes, ?_, ?_, ?_⟩
  · rw [hw, d1, e2]
  · intro h7
    have hsame : (writeToMemory 0xFF6B v s).m_memory.OCPS = s.m_memory.OCPS := by
      rw [hreg, if_neg (fun hx => hx h7)]
    refine ⟨hsame, ?_⟩
    have hr : (readMemory_u8 0xFF6B (writeToMemory 0xFF6B v s)).1
        = DisplayController.readObjPaletteColor (writeToMemory 0xFF6B v s) :=
      readMemory_u8_OCPD _
    rw [hr, DisplayController.readObjPaletteColor_index _ (by rw [hsame]; exact ho), hsame,
      hbytes, if_pos rfl]
  · intro h7
    rw [hreg, if_pos h7]
    exact DisplayController.palette_increment_bits _ ho h7

/-- C28. For every `BCPS` value `s` and value `v`, a CPU write of `v` to `BCPD` (`0xFF69`)
stores `v` in the background-palette byte of index `s & 0x3F` and changes no other palette byte,
background or sprite; with bit 7 of `s` clear `BCPS` is unchanged and a CPU read of `BCPD` made
next returns `v`; with bit 7 set `BCPS` keeps bit 7 and its bits 0..5 become
`((s & 0x3F) + 1) mod 64`. The same holds of `OCPS`/`OCPD` (`0xFF6A`/`0xFF6B`) and the sprite
palettes. -/
theorem palette_data_write (s : Cpu) (v : Nat) (hb : s.m_memory.BCPS < 256)
    (ho : s.m_memory.OCPS < 256) :
    ((∀ i, DisplayController.paletteByte
        (writeToMemory 0xFF69 v s).m_displayController.m_bgColorPalettes i
          = if i = s.m_memory.BCPS &&& 0x3F then v
            else DisplayController.paletteByte s.m_displayController.m_bgColorPalettes i) ∧
      (writeToMemory 0xFF69 v s).m_displayController.m_objColorPalettes
        = s.m_displayController.m_objColorPalettes ∧
      (s.m_memory.BCPS &&& 0x80 = 0 →
        (writeToMemory 0xFF69 v s).m_memory.BCPS = s.m_memory.BCPS ∧
          (readMemory_u8 0xFF69 (writeToMemory 0xFF69 v s)).1 = v) ∧
      (s.m_memory.BCPS &&& 0x80 ≠ 0 →
        (writeToMemory 0xFF69 v s).m_memory.BCPS &&& 0x80 ≠ 0 ∧
          (writeToMemory 0xFF69 v s).m_memory.BCPS &&& 0x3F
            = ((s.m_memory.BCPS &&& 0x3F) + 1) % 64)) ∧
    ((∀ i, DisplayController.paletteByte
        (writeToMemory 0xFF6B v s).m_displayController.m_objColorPalettes i
          = if i = s.m_memory.OCPS &&& 0x3F then v
            else DisplayController.paletteByte s.m_displayController.m_objColorPalettes i) ∧
      (writeToMemory 0xFF6B v s).m_displayController.m_bgColorPalettes
        = s.m_displayController.m_bgColorPalettes ∧
      (s.m_memory.OCPS &&& 0x80 = 0 →
        (writeToMemory 0xFF6B v s).m_memory.OCPS = s.m_memory.OCPS ∧
          (readMemory_u8 0xFF6B (writeToMemory 0xFF6B v s)).1 = v) ∧
      (s.m_memory.OCPS &&& 0x80 ≠ 0 →
        (writeToMemory 0xFF6B v s).m_memory.OCPS &&& 0x80 ≠ 0 ∧
          (writeToMemory 0xFF6B v s).m_memory.OCPS &&& 0x3F
            = ((s.m_memory.OCPS &&& 0x3F) + 1) % 64)) :=
  ⟨writeToMemory_BCPD_effect s v hb, writeToMemory_OCPD_effect s v ho⟩

/-- A write of `0x5A` to each data register of `paletteWriteState`: the background index wraps
from 63 to 0 and keeps bit 7, the sprite byte reads back. -/
theorem palette_data_write_witness :
    paletteWriteState.m_memory.BCPS < 256 ∧ paletteWriteState.m_memory.OCPS < 256 ∧
      paletteWriteState.m_memory.BCPS &&& 0x80 ≠ 0 ∧
      (writeToMemory 0xFF69 0x5A paletteWriteState).m_memory.BCPS &&& 0x3F
        = ((paletteWriteState.m_memory.BCPS &&& 0x3F) + 1) % 64 ∧
      paletteWriteState.m_memory.OCPS &&& 0x80 = 0 ∧
      (readMemory_u8 0xFF6B (writeToMemory 0xFF6B 0x5A paletteWriteState)).1 = 0x5A :=
  ⟨by decide, by decide, by decide,
    ((palette_data_write paletteWriteState 0x5A (by decide) (by decide)).1.2.2.2
      (by decide)).2,
    by decide,
    ((palette_data_write paletteWriteState 0x5A (by decide) (by decide)).2.2.2.1
      (by decide)).2⟩

end Cpu
end CppGB

/-! # The joypad register -/

namespace CppGB

set_option maxRecDepth 100000
namespace EventHandler

/-- Setting the low nibble and toggling bits of it: the high nibble is kept and the low nibble
is the complement of the toggled bits. -/
theorem toggle_low_nibble :
    ∀ P1 < 256, ∀ d < 16,
      (((P1 ||| 0x0F) ^^^ d) % 256) &&& 0xF0 = P1 &&& 0xF0 ∧
        (((P1 ||| 0x0F) ^^^ d) % 256) &&& 0x0F = 0x0F ^^^ d ∧
        (P1 ||| 0x0F) &&& 0xF0 = P1 &&& 0xF0 ∧ (P1 ||| 0x0F) &&& 0x0F = 0x0F ∧
        (P1 ||| 0x0F) &&& 0x10 = P1 &&& 0x10 ∧ (P1 ||| 0x0F) &&& 0x20 = P1 &&& 0x20 := by
  decide

/-- Four key entries, each 0 or 1, pack into a nibble whose bits are the entries. -/
theorem key_nibble :
    ∀ k3 < 2, ∀ k2 < 2, ∀ k1 < 2, ∀ k0 < 2,
      ((k3 <<< 3) ||| (k2 <<< 2) ||| (k1 <<< 1) ||| k0) < 16 ∧
        ((0x0F ^^^ ((k3 <<< 3) ||| (k2 <<< 2) ||| (k1 <<< 1) ||| k0)) &&& 0x01 = 0 ↔ k0 = 1) ∧
        ((0x0F ^^^ ((k3 <<< 3) ||| (k2 <<< 2) ||| (k1 <<< 1) ||| k0)) &&& 0x02 = 0 ↔ k1 = 1) ∧
        ((0x0F ^^^ ((k3 <<< 3) ||| (k2 <<< 2) ||| (k1 <<< 1) ||| k0)) &&& 0x04 = 0 ↔ k2 = 1) ∧
        ((0x0F ^^^ ((k3 <<< 3) ||| (k2 <<< 2) ||| (k1 <<< 1) ||| k0)) &&& 0x08 = 0 ↔ k3 = 1) := by
  intro k3 h3 k2 h2 k1 h1 k0 h0
  interval_cases k3 <;> interval_cases k2 <;> interval_cases k1 <;> interval_cases k0 <;> decide

/-- A bit of the low nibble is a bit of the byte. -/
theorem low_nibble_bit (x b : Nat) (hb : b &&& 0x0F = b) : x &&& b = (x &&& 0x0F) &&& b := by
  rw [Nat.land_assoc, Nat.land_comm 0x0F b, hb]

/-- The low nibble and the high nibble that `updateP1` returns. -/
theorem updateP1_nibbles (k : KeyboardState) (P1 : Nat) (hP : P1 < 256)
    (hk : k.RIGHT < 2 ∧ k.LEFT < 2 ∧ k.UP < 2 ∧ k.DOWN < 2 ∧
      k.Q < 2 ∧ k.W < 2 ∧ k.SPACE < 2 ∧ k.RETURN < 2) :
    updateP1 k P1 &&& 0xF0 = P1 &&& 0xF0 ∧
      updateP1 k P1 &&& 0x0F =
        (if P1 &&& 0x10 = 0 then
          0x0F ^^^ ((k.DOWN <<< 3) ||| (k.UP <<< 2) ||| (k.LEFT <<< 1) ||| k.RIGHT)
        else if P1 &&& 0x20 = 0 then
          0x0F ^^^ ((k.RETURN <<< 3) ||| (k.SPACE <<< 2) ||| (k.W <<< 1) ||| k.Q)
        else 0x0F) := by
  obtain ⟨hr, hl, hu, hd, hq, hw, hsp, hret⟩ := hk
  have hdir := (key_nibble k.DOWN hd k.UP hu k.LEFT hl k.RIGHT hr).1
  have hbut := (key_nibble k.RETURN hret k.SPACE hsp k.W hw k.Q hq).1
  obtain ⟨a1, a2, a3, a4, a5, a6⟩ := toggle_low_nibble P1 hP _ hdir
  obtain ⟨b1, b2, _⟩ := toggle_low_nibble P1 hP _ hbut
  unfold updateP1
  simp only [a5, a6]
  by_cases h4 : P1 &&& 0x10 = 0
  · simp only [if_pos h4]
    exact ⟨a1, a2⟩
  · simp only [if_neg h4]
    by_cases h5 : P1 &&& 0x20 = 0
    · simp only [if_pos h5]
      exact ⟨b1, b2⟩
    · simp only [if_neg h5]
      exact ⟨a3, a4⟩

/-- C29 (amended). For every `P1` value and every key state, `updateP1` leaves bits 4..7
unchanged and sets the low 4 bits to 1; then it toggles the direction-key bits (right, left, up,
down at bits 0..3) if bit 4 is 0, and otherwise, if bit 5 is 0, the button bits (A, B, SELECT,
START at bits 0..3). So with bit 4 clear each low bit reads 0 exactly when its direction key is
pressed, whatever bit 5 and the buttons are; with bit 4 set and bit 5 clear each low bit reads 0
exactly when its button is pressed; with both set the low nibble reads `0x0F`. -/
theorem updateP1_reads_one_key_group (k : KeyboardState) (P1 : Nat) (hP : P1 < 256)
    (hk : k.RIGHT < 2 ∧ k.LEFT < 2 ∧ k.UP < 2 ∧ k.DOWN < 2 ∧
      k.Q < 2 ∧ k.W < 2 ∧ k.SPACE < 2 ∧ k.RETURN < 2) :
    updateP1 k P1 &&& 0xF0 = P1 &&& 0xF0 ∧
      updateP1 k P1 &&& 0x0F =
        (if P1 &&& 0x10 = 0 then
          0x0F ^^^ ((k.DOWN <<< 3) ||| (k.UP <<< 2) ||| (k.LEFT <<< 1) ||| k.RIGHT)
        else if P1 &&& 0x20 = 0 then
          0x0F ^^^ ((k.RETURN <<< 3) ||| (k.SPACE <<< 2) ||| (k.W <<< 1) ||| k.Q)
        else 0x0F) ∧
      (P1 &&& 0x10 = 0 →
        (updateP1 k P1 &&& 0x01 = 0 ↔ k.RIGHT = 1) ∧ (updateP1 k P1 &&& 0x02 = 0 ↔ k.LEFT = 1) ∧
          (updateP1 k P1 &&& 0x04 = 0 ↔ k.UP = 1) ∧ (updateP1 k P1 &&& 0x08 = 0 ↔ k.DOWN = 1)) ∧
      (P1 &&& 0x10 ≠ 0 → P1 &&& 0x20 = 0 →
        (updateP1 k P1 &&& 0x01 = 0 ↔ k.Q = 1) ∧ (updateP1 k P1 &&& 0x02 = 0 ↔ k.W = 1) ∧
          (updateP1 k P1 &&& 0x04 = 0 ↔ k.SPACE = 1) ∧
          (updateP1 k P1 &&& 0x08 = 0 ↔ k.RETURN = 1)) ∧
      (P1 &&& 0x10 ≠ 0 → P1 &&& 0x20 ≠ 0 → updateP1 k P1 &&& 0x0F = 0x0F) := by
  obtain ⟨hhigh, hlow⟩ := updateP1_nibbles k P1 hP hk
  obtain ⟨hr, hl, hu, hd, hq, hw, hsp, hret⟩ := hk
  obtain ⟨_, d0, d1, d2, d3⟩ := key_nibble k.DOWN hd k.UP hu k.LEFT hl k.RIGHT hr
  obtain ⟨_, b0, b1, b2, b3⟩ := key_nibble k.RETURN hret k.SPACE hsp k.W hw k.Q hq
  refine ⟨hhigh, hlow, ?_, ?_, ?_⟩
  · intro h4
    rw [if_pos h4] at hlow
    rw [low_nibble_bit _ 0x01 rfl, low_nibble_bit _ 0x02 rfl, low_nibble_bit _ 0x04 rfl,
      low_nibble_bit _ 0x08 rfl, hlow]
    exact ⟨d0, d1, d2, d3⟩
  · intro h4 h5
    rw [if_neg h4, if_pos h5] at hlow
    rw [low_nibble_bit _ 0x01 rfl, low_nibble_bit _ 0x02 rfl, low_nibble_bit _ 0x04 rfl,
      low_nibble_bit _ 0x08 rfl, hlow]
    exact ⟨b0, b1, b2, b3⟩
  · intro h4 h5
    rw [hlow, if_neg h4, if_neg h5]

/-- The `A` button alone with `P1 = 0x10`: bit 0 reads 0. -/
theorem updateP1_reads_one_key_group_witness :
    (0x10 : Nat) < 256 ∧
      ((⟨0, 0, 0, 0, 1, 0, 0, 0⟩ : KeyboardState).RIGHT < 2 ∧
        (⟨0, 0, 0, 0, 1, 0, 0, 0⟩ : KeyboardState).LEFT < 2 ∧
        (⟨0, 0, 0, 0, 1, 0, 0, 0⟩ : KeyboardState).UP < 2 ∧
        (⟨0, 0, 0, 0, 1, 0, 0, 0⟩ : KeyboardState).DOWN < 2 ∧
        (⟨0, 0, 0, 0, 1, 0, 0, 0⟩ : KeyboardState).Q < 2 ∧
        (⟨0, 0, 0, 0, 1, 0, 0, 0⟩ : KeyboardState).W < 2 ∧
        (⟨0, 0, 0, 0, 1, 0, 0, 0⟩ : KeyboardState).SPACE < 2 ∧
        (⟨0, 0, 0, 0, 1, 0, 0, 0⟩ : KeyboardState).RETURN < 2) ∧
      (updateP1 ⟨0, 0, 0, 0, 1, 0, 0, 0⟩ 0x10 &&& 0x01 = 0 ↔
        (⟨0, 0, 0, 0, 1, 0, 0, 0⟩ : KeyboardState).Q = 1) :=
  ⟨by decide, by decide,
    ((updateP1_reads_one_key_group ⟨0, 0, 0, 0, 1, 0, 0, 0⟩ 0x10 (by decide)
      (by decide)).2.2.2.1 (by decide) (by decide)).1⟩

/-- With bits 4 and 5 of `P1` both 0, the `A` button pressed and no direction key pressed,
`updateP1` returns `0x0F`: bit 0, the bit of `A`, reads 1, and the result is not the one that
toggling both key groups would give. -/
theorem updateP1_both_selected_ignores_buttons :
    (0x00 : Nat) &&& 0x10 = 0 ∧ (0x00 : Nat) &&& 0x20 = 0 ∧
      (⟨0, 0, 0, 0, 1, 0, 0, 0⟩ : KeyboardState).Q = 1 ∧
      updateP1 ⟨0, 0, 0, 0, 1, 0, 0, 0⟩ 0x00 = 0x0F ∧
      updateP1 ⟨0, 0, 0, 0, 1, 0, 0, 0⟩ 0x00 &&& 0x01 ≠ 0 ∧
      updateP1 ⟨0, 0, 0, 0, 1, 0, 0, 0⟩ 0x00 ≠
        (((0x00 ||| 0x0F) ^^^ ((0 <<< 3) ||| (0 <<< 2) ||| (0 <<< 1) ||| 0)) ^^^
          ((0 <<< 3) ||| (0 <<< 2) ||| (0 <<< 1) ||| 1)) % 256 := by
  decide

end EventHandler
end CppGB

/-! # Instruction decode -/

namespace CppGB
namespace Cpu

/-- The result, when it is an error, is the unknown-opcode error naming `opcode`. -/
def failsWith (opcode : Nat) (r : Except Error Cpu) : Prop :=
  ∀ e, r = Except.error e → e = Error.unknownOpcode opcode

theorem failsWith_ite {c : Prop} [Decidable c] {opcode : Nat} {a b : Except Error Cpu}
    (ha : failsWith opcode a) (hb : failsWith opcode b) :
    failsWith opcode (if c then a else b) := by
  split <;> assumption

theorem failsWith_ok (opcode : Nat) (s : Cpu) : failsWith opcode (Except.ok s) := by
  intro e h
  cases h

set_option maxRecDepth 100000 in
set_option maxHeartbeats 4000000 in
theorem executeOpcode_failsWith (opcode : Nat) (s : Cpu) :
    failsWith opcode (executeOpcode opcode s) := by
  unfold executeOpcode
  repeat' (with_reducible apply failsWith_ite)
  all_goals first
    | exact failsWith_ok _ _
    | (intro e h; cases h; rfl)

set_option maxRecDepth 100000 in
set_option maxHeartbeats 4000000 in
theorem executeOpcode_isOk (opcode : Nat) (hop : opcode < 256) (s : Cpu) :
    (executeOpcode opcode s).isOk = !decide (opcode ∈ undefinedOpcodes) := by
  interval_cases opcode <;> rfl

/-- A base opcode either executes or fails with the error naming it, and it fails exactly on
the undefined values. -/
theorem executeOpcode_decode (opcode : Nat) (hop : opcode < 256) (s : Cpu) :
    (executeOpcode opcode s = Except.error (Error.unknownOpcode opcode) ↔
        opcode ∈ undefinedOpcodes) ∧
      ((∃ e, executeOpcode opcode s = Except.error e) ↔ opcode ∈ undefinedOpcodes) ∧
      (opcode ∉ undefinedOpcodes → ∃ s', executeOpcode opcode s = Except.ok s') := by
  have hok := executeOpcode_isOk opcode hop s
  have hfail := executeOpcode_failsWith opcode s
  by_cases hmem : opcode ∈ undefinedOpcodes
  · rw [decide_eq_true hmem] at hok
    have herr : executeOpcode opcode s = Except.error (Error.unknownOpcode opcode) := by
      cases hr : executeOpcode opcode s with
      | ok t => rw [hr] at hok; cases hok
      | error e => rw [hfail e hr]
    exact ⟨⟨fun _ => hmem, fun _ => herr⟩, ⟨fun _ => hmem, fun _ => ⟨_, herr⟩⟩,
      fun h => absurd hmem h⟩
  · rw [decide_eq_false hmem] at hok
    have hgood : ∃ s', executeOpcode opcode s = Except.ok s' := by
      cases hr : executeOpcode opcode s with
      | ok t => exact ⟨t, rfl⟩
      | error e => rw [hr] at hok; cases hok
    obtain ⟨s', hs'⟩ := hgood
    refine ⟨⟨fun h => ?_, fun h => absurd h hmem⟩, ⟨fun h => ?_, fun h => absurd h hmem⟩,
      fun _ => ⟨s', hs'⟩⟩
    · rw [hs'] at h
      cases h
    · obtain ⟨e, he⟩ := h
      rw [hs'] at he
      cases he

/-- The arm of `0xCB`: the second byte is fetched and run by `executeOpcodeCB`, with no error
for any value of it. -/
theorem executeOpcode_CB_arm (s : Cpu) :
    executeOpcode 0xCB s = Except.ok (executeOpcodeCB (fetch_u8 s).1 (fetch_u8 s).2) := rfl

set_option maxRecDepth 100000 in
/-- The byte values other than the undefined ones are 245. -/
theorem defined_opcode_count :
    ((List.range 256).filter
        (fun opcode => decide (opcode ∉
          [0xD3, 0xDB, 0xDD, 0xE3, 0xE4, 0xEB, 0xEC, 0xED, 0xF4, 0xFC, 0xFD]))).length = 245 := by
  decide

/-- C30. Instruction decode fails exactly on the undefined base opcodes: with the fetched base
opcode a byte, `executeNextInstruction` aborts, and then with the unknown-opcode error naming
that byte, iff the byte is one of `0xD3`, `0xDB`, `0xDD`, `0xE3`, `0xE4`, `0xEB`, `0xEC`, `0xED`,
`0xF4`, `0xFC`, `0xFD`; each of the other 245 base opcodes executes without error, and after the
`0xCB` prefix every second byte does. -/
theorem decode_fails_exactly_on_undefined_opcodes (s : Cpu) (hop : (fetch_u8 s).1 < 256) :
    (executeNextInstruction s = Except.error (Error.unknownOpcode (fetch_u8 s).1) ↔
        (fetch_u8 s).1 ∈ [0xD3, 0xDB, 0xDD, 0xE3, 0xE4, 0xEB, 0xEC, 0xED, 0xF4, 0xFC, 0xFD]) ∧
      ((∃ e, executeNextInstruction s = Except.error e) ↔
        (fetch_u8 s).1 ∈ [0xD3, 0xDB, 0xDD, 0xE3, 0xE4, 0xEB, 0xEC, 0xED, 0xF4, 0xFC, 0xFD]) ∧
      ((fetch_u8 s).1 ∉ [0xD3, 0xDB, 0xDD, 0xE3, 0xE4, 0xEB, 0xEC, 0xED, 0xF4, 0xFC, 0xFD] →
        ∃ s', executeNextInstruction s = Except.ok s') ∧
      ((List.range 256).filter
          (fun opcode => decide (opcode ∉
            [0xD3, 0xDB, 0xDD, 0xE3, 0xE4, 0xEB, 0xEC, 0xED, 0xF4, 0xFC, 0xFD]))).length = 245 ∧
      ((fetch_u8 s).1 = 0xCB →
        executeNextInstruction s
          = Except.ok (executeOpcodeCB (fetch_u8 (fetch_u8 s).2).1 (fetch_u8 (fetch_u8 s).2).2)) :=
  ⟨(executeOpcode_decode _ hop _).1, (executeOpcode_decode _ hop _).2.1,
    (executeOpcode_decode _ hop _).2.2, defined_opcode_count,
    fun h => by
      unfold executeNextInstruction
      simp only [h]
      exact executeOpcode_CB_arm _⟩

/-- A fresh machine whose first program byte is `0xD3`. -/
theorem decode_fails_exactly_on_undefined_opcodes_witness :
    (fetch_u8 (Cpu.init (Memory.defaults (programRom [0xD3])))).1 < 256 ∧
      executeNextInstruction (Cpu.init (Memory.defaults (programRom [0xD3])))
        = Except.error (Error.unknownOpcode
            (fetch_u8 (Cpu.init (Memory.defaults (programRom [0xD3])))).1) ∧
      (fetch_u8 (Cpu.init (Memory.defaults (programRom [0xD3])))).1 = 0xD3 :=
  ⟨by decide,
    (decode_fails_exactly_on_undefined_opcodes (Cpu.init (Memory.defaults (programRom [0xD3])))
      (by decide)).1.mpr (by decide),
    rfl⟩

end Cpu
end CppGB

/-! # HDMA transfers -/

namespace CppGB
namespace Memory

/-- A byte masked with `0xF0` is a multiple of 16 no larger than `0xF0`. -/
theorem high_nibble (x : Nat) : (x &&& 0xF0) % 16 = 0 ∧ x &&& 0xF0 ≤ 0xF0 := by
  refine ⟨?_, Nat.and_le_right⟩
  have h := Nat.and_pow_two_sub_one_eq_mod (x &&& 0xF0) 4
  have h2 : (x &&& 0xF0) &&& (2 ^ 4 - 1) = 0 := by
    rw [Nat.land_assoc]
    exact Nat.and_zero x
  rw [h2] at h
  exact h.symm

/-- A shifted high byte joined to a low byte is their sum. -/
theorem shift_or (a b : Nat) (hb : b < 256) : (a <<< 8) ||| b = a * 256 + b := by
  rw [Nat.shiftLeft_eq]
  have h := Nat.mul_add_lt_is_or (show b < 2 ^ 8 from hb) a
  rw [Nat.mul_comm]
  exact h.symm

theorem hdmaSource_aligned (m : Memory) :
    m.hdmaSource % 16 = 0 ∧ m.hdmaSource < 65536 ∧
      m.hdmaSource = (m.HDMA1 * 256 + (m.HDMA2 &&& 0xF0)) % 65536 := by
  obtain ⟨h1, h2⟩ := high_nibble m.HDMA2
  have h3 : m.hdmaSource = (m.HDMA1 * 256 + (m.HDMA2 &&& 0xF0)) % 65536 := by
    unfold hdmaSource
    rw [shift_or _ _ (by omega)]
  refine ⟨?_, ?_, h3⟩
  · rw [h3]
    omega
  · rw [h3]
    omega

theorem hdmaDestination_aligned (m : Memory) :
    m.hdmaDestination % 16 = 0 ∧ m.hdmaDestination + 16 ≤ 0x2000 ∧
      m.hdmaDestination = (m.HDMA3 &&& 0x1F) * 256 + (m.HDMA4 &&& 0xF0) := by
  obtain ⟨h1, h2⟩ := high_nibble m.HDMA4
  have h0 : m.HDMA3 &&& 0x1F ≤ 0x1F := Nat.and_le_right
  have h3 : m.hdmaDestination = (m.HDMA3 &&& 0x1F) * 256 + (m.HDMA4 &&& 0xF0) := by
    unfold hdmaDestination
    rw [shift_or _ _ (by omega)]
    omega
  refine ⟨?_, ?_, h3⟩
  · rw [h3]
    omega
  · rw [h3]
    omega

/-- Reading a memory whose display RAM has been replaced. -/
theorem read_displayRam_update (m : Memory) (R : Nat → Nat) (a : Nat) :
    ({ m with m_displayRam := R } : Memory).read a
      = if 0x8000 ≤ a ∧ a ≤ 0x9FFF then R (a - 0x8000 + m.VBK * 0x2000) else m.read a := by
  by_cases h : 0x8000 ≤ a ∧ a ≤ 0x9FFF
  · rw [if_pos h]
    simp only [read, ROM_START_ADDRESS, ROM_END_ADDRESS, DISPLAYRAM_START_ADDRESS,
      DISPLAYRAM_END_ADDRESS]
    rw [if_neg (by omega), if_pos h]
    rfl
  · rw [if_neg h]
    simp only [read, ROM_START_ADDRESS, ROM_END_ADDRESS, DISPLAYRAM_START_ADDRESS,
      DISPLAYRAM_END_ADDRESS]
    rw [if_neg h, if_neg h]
    rfl

/-- Reading display RAM. -/
theorem read_displayRam (m : Memory) (a : Nat) (h : 0x8000 ≤ a ∧ a ≤ 0x9FFF) :
    m.read a = m.m_displayRam (a - 0x8000 + m.VBK * 0x2000) := by
  simp only [read, ROM_START_ADDRESS, ROM_END_ADDRESS, DISPLAYRAM_START_ADDRESS,
    DISPLAYRAM_END_ADDRESS]
  rw [if_neg (by omega), if_pos h]
  rfl

/-- The addresses that the loop of `Memory::performHdmaTransfer` returns. -/
theorem performHdmaTransferLoop_addresses (n : Nat) :
    ∀ (a b : Nat) (m : Memory), a < 65536 → b < 65536 →
      (performHdmaTransferLoop n a b m).2 = ((a + n) % 65536, (b + n) % 65536) := by
  induction n with
  | zero =>
    intro a b m ha hb
    unfold performHdmaTransferLoop
    rw [Nat.add_zero, Nat.add_zero, Nat.mod_eq_of_lt ha, Nat.mod_eq_of_lt hb]
  | succ n ih =>
    intro a b m ha hb
    unfold performHdmaTransferLoop
    rw [ih _ _ _ (Nat.mod_lt _ (by decide)) (Nat.mod_lt _ (by decide))]
    have e1 : ((a + 1) % 65536 + n) % 65536 = (a + (n + 1)) % 65536 := by omega
    have e2 : ((b + 1) % 65536 + n) % 65536 = (b + (n + 1)) % 65536 := by omega
    rw [e1, e2]

/-- The display RAM that the loop of `Memory::performHdmaTransfer` leaves, when no byte still
to be read lies in a display-RAM cell that an earlier iteration wrote: the `n` cells from the
destination on hold the `n` bytes read from the source on in the memory before the loop, and
every other cell is as before. -/
theorem performHdmaTransferLoop_copy (n : Nat) :
    ∀ (a b : Nat) (m : Memory), a + n ≤ 65536 → b + n ≤ 65536 →
      (∀ j k, k < j → j < n → ¬ (0x8000 ≤ a + j ∧ a + j ≤ 0x9FFF ∧ a + j - 0x8000 = b + k)) →
      (performHdmaTransferLoop n a b m).1.m_displayRam = fun x =>
        if b + m.VBK * 0x2000 ≤ x ∧ x < b + m.VBK * 0x2000 + n then
          m.read (a + (x - (b + m.VBK * 0x2000)))
        else m.m_displayRam x := by
  induction n with
  | zero =>
    intro a b m _ _ _
    funext x
    rw [if_neg (by omega)]
    rfl
  | succ n ih =>
    intro a b m ha hb hfree
    unfold performHdmaTransferLoop
    rcases Nat.eq_zero_or_pos n with hn | hn
    · subst hn
      funext x
      unfold performHdmaTransferLoop
      simp only [DISPLAYRAM_BANK_SIZE, store]
      by_cases hx : x = b + m.VBK * 0x2000
      · rw [if_pos hx, if_pos (by omega), hx, Nat.sub_self, Nat.add_zero]
      · rw [if_neg hx, if_neg (by omega)]
    · have ea : (a + 1) % 65536 = a + 1 := Nat.mod_eq_of_lt (by omega)
      have eb : (b + 1) % 65536 = b + 1 := Nat.mod_eq_of_lt (by omega)
      rw [ea, eb, ih (a + 1) (b + 1) _ (by omega) (by omega) (by
        intro j k hkj hjn hc
        exact hfree (j + 1) (k + 1) (by omega) (by omega) (by omega))]
      funext x
      simp only [DISPLAYRAM_BANK_SIZE]
      by_cases hx : x = b + m.VBK * 0x2000
      · rw [if_neg (by omega), if_pos (by omega), hx, Nat.sub_self, Nat.add_zero]
        simp only [store, if_pos]
      · by_cases hr : b + 1 + m.VBK * 0x2000 ≤ x ∧ x < b + 1 + m.VBK * 0x2000 + n
        · rw [if_pos hr, if_pos (by omega), read_displayRam_update]
          have hidx : a + 1 + (x - (b + 1 + m.VBK * 0x2000)) = a + (x - (b + m.VBK * 0x2000)) := by
            omega
          rw [hidx]
          by_cases hv : 0x8000 ≤ a + (x - (b + m.VBK * 0x2000)) ∧
              a + (x - (b + m.VBK * 0x2000)) ≤ 0x9FFF
          · rw [if_pos hv, read_displayRam m _ hv]
            have hne : a + (x - (b + m.VBK * 0x2000)) - 0x8000 + m.VBK * 0x2000
                ≠ b + m.VBK * 0x2000 := by
              intro hc
              exact hfree (x - (b + m.VBK * 0x2000)) 0 (by omega) (by omega)
                ⟨hv.1, hv.2, by omega⟩
            simp only [store, if_neg hne]
          · rw [if_neg hv]
        · rw [if_neg hr, if_neg (by omega)]
          simp only [store, if_neg hx]

/-- The memory after `performHdmaTransfer(0)`, in terms of the loop. -/
theorem performHdmaTransfer_zero (m : Memory) :
    m.performHdmaTransfer 0
      = { (performHdmaTransferLoop 16 m.hdmaSource m.hdmaDestination m).1 with
          HDMA1 := ((performHdmaTransferLoop 16 m.hdmaSource m.hdmaDestination m).2.1 >>> 8) % 256
          HDMA2 := (performHdmaTransferLoop 16 m.hdmaSource m.hdmaDestination m).2.1 &&& 0x00FF
          HDMA3 := ((performHdmaTransferLoop 16 m.hdmaSource m.hdmaDestination m).2.2 >>> 8) % 256
          HDMA4 := (performHdmaTransferLoop 16 m.hdmaSource m.hdmaDestination m).2.2 &&& 0x00FF
          HDMA5 := u8 (((performHdmaTransferLoop 16 m.hdmaSource m.hdmaDestination m).1.HDMA5
            : Int) - (((0 : Nat) : Int) + 1)) } := by
  unfold performHdmaTransfer hdmaSource hdmaDestination
  have h16 : (16 * (0 + 1)) % 65536 = 16 := by decide
  rw [h16]

/-- Splitting a `u16` into its two bytes. -/
theorem split_u16 (x : Nat) (hx : x < 65536) :
    (x >>> 8) % 256 * 256 + (x &&& 0x00FF) = x ∧ (x >>> 8) % 256 = x / 256 ∧
      x &&& 0x00FF = x % 256 := by
  have h1 : x >>> 8 = x / 256 := Nat.shiftRight_eq_div_pow x 8
  have h2 : x &&& 0x00FF = x % 256 := Nat.and_pow_two_sub_one_eq_mod x 8
  rw [h1, h2]
  omega

/-- A byte that is a multiple of 16 is its own high nibble. -/
theorem aligned_byte (y : Nat) (hy : y < 256) (h : y % 16 = 0) : y &&& 0xF0 = y := by
  obtain ⟨k, hk⟩ : ∃ k, y = 16 * k := ⟨y / 16, by omega⟩
  have hk16 : k < 16 := by omega
  subst hk
  interval_cases k <;> rfl

theorem u8_decrement (h : Nat) : u8 ((h : Int) - (((0 : Nat) : Int) + 1)) = (h + 255) % 256 := by
  unfold u8
  omega

/-- One block of `Memory::performHdmaTransfer`: the 16 cells from the destination on, in the
bank of `VBK`, hold the 16 bytes read from the source on; every other cell of display RAM is as
before; the two address pairs are 16 further; `HDMA5` is one less, as a byte. -/
theorem performHdmaTransfer_block (m : Memory) :
    (∀ i, i < 16 →
        (m.performHdmaTransfer 0).m_displayRam (m.hdmaDestination + m.VBK * 0x2000 + i)
          = m.read (m.hdmaSource + i)) ∧
      (∀ x, ¬ (m.hdmaDestination + m.VBK * 0x2000 ≤ x ∧
            x < m.hdmaDestination + m.VBK * 0x2000 + 16) →
        (m.performHdmaTransfer 0).m_displayRam x = m.m_displayRam x) ∧
      (m.performHdmaTransfer 0).hdmaSource = (m.hdmaSource + 16) % 65536 ∧
      (m.performHdmaTransfer 0).HDMA1 * 256 + (m.performHdmaTransfer 0).HDMA2
        = (m.hdmaSource + 16) % 65536 ∧
      (m.performHdmaTransfer 0).hdmaDestination = (m.hdmaDestination + 16) % 0x2000 ∧
      (m.performHdmaTransfer 0).HDMA3 * 256 + (m.performHdmaTransfer 0).HDMA4
        = m.hdmaDestination + 16 ∧
      (m.performHdmaTransfer 0).HDMA5 = (m.HDMA5 + 255) % 256 := by
  obtain ⟨sa, sl, _⟩ := hdmaSource_aligned m
  obtain ⟨da, dl, _⟩ := hdmaDestination_aligned m
  have hram := performHdmaTransferLoop_copy 16 m.hdmaSource m.hdmaDestination m (by omega)
    (by omega) (by
      intro j k hkj hj hc
      omega)
  have haddr := performHdmaTransferLoop_addresses 16 m.hdmaSource m.hdmaDestination m sl
    (by omega)
  have hframe := performHdmaTransferLoop_frame 16 m.hdmaSource m.hdmaDestination m
  have hz := performHdmaTransfer_zero m
  generalize performHdmaTransferLoop 16 m.hdmaSource m.hdmaDestination m = p at hram haddr hframe hz
  have h1 : p.2.1 = (m.hdmaSource + 16) % 65536 := congrArg Prod.fst haddr
  have h2 : p.2.2 = (m.hdmaDestination + 16) % 65536 := congrArg Prod.snd haddr
  have h5 : p.1.HDMA5 = m.HDMA5 := by rw [hframe]
  have e0 : (m.performHdmaTransfer 0).m_displayRam = p.1.m_displayRam := by rw [hz]
  have e1 : (m.performHdmaTransfer 0).HDMA1 = (p.2.1 >>> 8) % 256 := by rw [hz]
  have e2 : (m.performHdmaTransfer 0).HDMA2 = p.2.1 &&& 0x00FF := by rw [hz]
  have e3 : (m.performHdmaTransfer 0).HDMA3 = (p.2.2 >>> 8) % 256 := by rw [hz]
  have e4 : (m.performHdmaTransfer 0).HDMA4 = p.2.2 &&& 0x00FF := by rw [hz]
  have e5 : (m.performHdmaTransfer 0).HDMA5 = u8 ((p.1.HDMA5 : Int) - (((0 : Nat) : Int) + 1)) := by
    rw [hz]
  obtain ⟨s1, s2, s3⟩ := split_u16 p.2.1 (by rw [h1]; omega)
  obtain ⟨d1, d2, d3⟩ := split_u16 p.2.2 (by rw [h2]; omega)
  refine ⟨?_, ?_, ?_, ?_, ?_, ?_, ?_⟩
  · intro i hi
    rw [e0, hram]
    simp only []
    rw [if_pos (by omega)]
    congr 2
    omega
  · intro x hx
    rw [e0, hram]
    simp only []
    rw [if_neg hx]
  · unfold hdmaSource
    rw [e1, e2, aligned_byte (p.2.1 &&& 0x00FF) (by omega) (by omega), shift_or _ _ (by omega), s1,
      h1, Nat.mod_mod]
    rfl
  · rw [e1, e2, s1, h1]
  · have hD : (m.performHdmaTransfer 0).hdmaDestination
        = ((((m.performHdmaTransfer 0).HDMA3 &&& 0x1F) <<< 8) |||
            ((m.performHdmaTransfer 0).HDMA4 &&& 0xF0)) % 65536 := rfl
    rw [hD, e3, e4, d2, d3, aligned_byte (p.2.2 % 256) (by omega) (by omega)]
    have hm : p.2.2 / 256 &&& 0x1F = (p.2.2 / 256) % 32 := Nat.and_pow_two_sub_one_eq_mod _ 5
    rw [hm, shift_or _ _ (by omega)]
    omega
  · rw [e3, e4, d1, h2]
    omega
  · rw [e5, h5, u8_decrement]

end Memory
end CppGB

/-! ## HDMA at the pipeline tick -/

namespace CppGB
namespace Memory

/-- Reading a memory whose `STAT` has been replaced, away from the address of `STAT`. -/
theorem read_STAT_update (m : Memory) (v a : Nat) (h : a ≠ 0xFF41) :
    ({ m with STAT := v } : Memory).read a = m.read a := by
  have h2 : ¬ a = STAT_ADDRESS := h
  have hr : ({ m with STAT := v } : Memory).readRegister a = m.readRegister a := by
    unfold readRegister
    simp only [if_neg h2]
  unfold read
  rw [hr]
  rfl

end Memory

namespace DisplayController

theorem requestInterrupt_withoutPipeline (flag : Nat) (s : Cpu) :
    (Cpu.requestInterrupt flag s).m_memory.withoutPipeline = s.m_memory.withoutPipeline := rfl

theorem updateLY_withoutPipeline (value : Nat) (s : Cpu) :
    (updateLY value s).m_memory.withoutPipeline = s.m_memory.withoutPipeline := by
  simp only [updateLY, apply_ite Cpu.m_memory, apply_ite Memory.withoutPipeline,
    requestInterrupt_withoutPipeline, ite_self]
  rfl

theorem changeMode_withoutPipeline (flag : Nat) (s : Cpu) :
    (changeMode flag s).m_memory.withoutPipeline = s.m_memory.withoutPipeline := rfl

/-- The memory after the tick that enters HBLANK: the mode bits are changed, then one block is
transferred if bit 7 of `HDMA5` is clear, then the STAT interrupt may be requested. -/
theorem tick_entry_memory (s : Cpu) (h : atHBlankEntry s) :
    (DisplayController.doCycle s).m_memory
        = { (if s.m_memory.HDMA5 &&& 0x80 = 0 then
              (changeMode HBLANK_MODE_FLAG s).m_memory.performHdmaTransfer 0
            else (changeMode HBLANK_MODE_FLAG s).m_memory) with
            IF := (DisplayController.doCycle s).m_memory.IF } ∧
      (DisplayController.doCycle s).m_memory.STAT &&& 0x03 = HBLANK_MODE_FLAG := by
  obtain ⟨hlcd, hmode, hc⟩ := h
  rw [doCycle_on s hlcd, doCycleSwitch_pixeltransfer { s with m_displayController :=
      { s.m_displayController with
        m_cycleCounter := (s.m_displayController.m_cycleCounter + 1) % 256 } } hmode, if_pos hc]
  have hm : (changeMode HBLANK_MODE_FLAG { s with m_displayController :=
      { s.m_displayController with
        m_cycleCounter := (s.m_displayController.m_cycleCounter + 1) % 256 } }).m_memory
      = (changeMode HBLANK_MODE_FLAG s).m_memory := rfl
  have h5 : (changeMode HBLANK_MODE_FLAG s).m_memory.HDMA5 = s.m_memory.HDMA5 := rfl
  have hst : (changeMode HBLANK_MODE_FLAG s).m_memory.STAT &&& 0x03 = HBLANK_MODE_FLAG :=
    mode_bits s.m_memory.STAT 0 (by decide)
  generalize changeMode HBLANK_MODE_FLAG { s with m_displayController :=
      { s.m_displayController with
        m_cycleCounter := (s.m_displayController.m_cycleCounter + 1) % 256 } } = u at hm ⊢
  generalize (changeMode HBLANK_MODE_FLAG s).m_memory = m0 at hm h5 hst
  rw [← h5, ← hm]
  by_cases hb : u.m_memory.HDMA5 &&& 0x80 = 0
  · simp only [if_pos hb]
    have hs2 : (u.m_memory.performHdmaTransfer 0).STAT = u.m_memory.STAT := by
      rw [Memory.performHdmaTransfer_frame]
    by_cases h8 : (u.m_memory.performHdmaTransfer 0).STAT &&& 0x08 ≠ 0
    · simp only [if_pos h8]
      refine ⟨rfl, ?_⟩
      show (u.m_memory.performHdmaTransfer 0).STAT &&& 0x03 = HBLANK_MODE_FLAG
      rw [hs2, hm]
      exact hst
    · simp only [if_neg h8]
      refine ⟨True.intro, ?_⟩
      show (u.m_memory.performHdmaTransfer 0).STAT &&& 0x03 = HBLANK_MODE_FLAG
      rw [hs2, hm]
      exact hst
  · simp only [if_neg hb]
    by_cases h8 : u.m_memory.STAT &&& 0x08 ≠ 0
    · simp only [if_pos h8]
      refine ⟨rfl, ?_⟩
      show u.m_memory.STAT &&& 0x03 = HBLANK_MODE_FLAG
      rw [hm]
      exact hst
    · simp only [if_neg h8]
      refine ⟨True.intro, ?_⟩
      rw [hm]
      exact hst

/-- The mode `switch` away from the arm that enters HBLANK writes `STAT`, `LY` and `IF`
only, and it does not take the mode from 3 to 0. -/
theorem doCycleSwitch_off_entry (t : Cpu)
    (h : ¬ (t.m_memory.STAT &&& 0x03 = PIXELTRANSFER_MODE_FLAG ∧
      t.m_displayController.m_cycleCounter = 43)) :
    (doCycleSwitch t).m_memory.withoutPipeline = t.m_memory.withoutPipeline ∧
      ¬ Cpu.enteredHBlank t (doCycleSwitch t) := by
  have hlt : t.m_memory.STAT &&& 0x03 < 4 := Nat.lt_of_le_of_lt Nat.and_le_right (by decide)
  have hmode : ∀ k, t.m_memory.STAT &&& 0x03 = k → t.m_memory.STAT &&& 0x03 = k := fun _ hk => hk
  generalize hk : t.m_memory.STAT &&& 0x03 = k at hlt
  have hm := hmode k hk
  have hne : k ≠ 3 → ¬ Cpu.enteredHBlank t (doCycleSwitch t) := by
    rintro h3 ⟨a, _⟩
    rw [hk] at a
    exact h3 a
  interval_cases k
  · refine ⟨?_, hne (by decide)⟩
    rw [doCycleSwitch_hblank t hm]
    by_cases h51 : t.m_displayController.m_cycleCounter = 51
    · rw [if_pos h51]
      by_cases hly : (updateLY ((t.m_memory.LY + 1) % 256) t).m_memory.LY < 144
      · rw [if_pos hly]
        exact (changeMode_withoutPipeline _ _).trans (updateLY_withoutPipeline _ t)
      · rw [if_neg hly]
        exact (requestInterrupt_withoutPipeline _ _).trans
          ((changeMode_withoutPipeline _ _).trans (updateLY_withoutPipeline _ t))
    · rw [if_neg h51]
  · refine ⟨?_, hne (by decide)⟩
    rw [doCycleSwitch_vblank t hm]
    by_cases h1 : t.m_displayController.m_cycleCounter = 1 ∧ t.m_memory.LY = 153
    · rw [if_pos h1]
      exact updateLY_withoutPipeline _ t
    · rw [if_neg h1]
      by_cases h114 : t.m_displayController.m_cycleCounter = 114
      · rw [if_pos h114]
        by_cases hly : t.m_memory.LY = 0
        · rw [if_pos hly]
          exact changeMode_withoutPipeline _ t
        · rw [if_neg hly]
          exact updateLY_withoutPipeline _ _
      · rw [if_neg h114]
  · refine ⟨?_, hne (by decide)⟩
    rw [doCycleSwitch_oamsearch t hm]
    by_cases h20 : t.m_displayController.m_cycleCounter = 20
    · rw [if_pos h20]
      exact changeMode_withoutPipeline _ t
    · rw [if_neg h20]
  · have hc : ¬ t.m_displayController.m_cycleCounter = 43 := fun hc => h ⟨hk, hc⟩
    rw [doCycleSwitch_pixeltransfer t hm, if_neg hc]
    refine ⟨rfl, ?_⟩
    rintro ⟨_, b⟩
    have hb : t.m_memory.STAT &&& 0x03 = HBLANK_MODE_FLAG := b
    rw [hk] at hb
    exact absurd hb (by decide)

/-- A tick that does not enter HBLANK writes `STAT`, `LY` and `IF` only, and it does not take
the mode from 3 to 0. -/
theorem tick_off_entry (s : Cpu) (h : ¬ atHBlankEntry s) :
    (DisplayController.doCycle s).m_memory.withoutPipeline = s.m_memory.withoutPipeline ∧
      ¬ Cpu.enteredHBlank s (DisplayController.doCycle s) := by
  by_cases hlcd : s.m_memory.LCDC &&& 0x80 = 0
  · rw [doCycle_quiet s hlcd]
    refine ⟨rfl, ?_⟩
    rintro ⟨a, b⟩
    rw [a] at b
    exact absurd b (by decide)
  · rw [doCycle_on s hlcd]
    exact doCycleSwitch_off_entry { s with m_displayController := { s.m_displayController with
      m_cycleCounter := (s.m_displayController.m_cycleCounter + 1) % 256 } }
      (fun hx => h ⟨hlcd, hx.1, hx.2⟩)

end DisplayController
end CppGB

/-! ## The block transferred at an HBLANK entry -/

namespace CppGB
namespace DisplayController

/-- The fields of the memory after the tick that enters HBLANK with bit 7 of `HDMA5` clear. -/
theorem tick_entry_transfer (s : Cpu) (h : atHBlankEntry s) (hb : s.m_memory.HDMA5 &&& 0x80 = 0) :
    (DisplayController.doCycle s).m_memory.m_displayRam
        = ((changeMode HBLANK_MODE_FLAG s).m_memory.performHdmaTransfer 0).m_displayRam ∧
      (DisplayController.doCycle s).m_memory.hdmaRegisters
        = ((changeMode HBLANK_MODE_FLAG s).m_memory.performHdmaTransfer 0).hdmaRegisters ∧
      (DisplayController.doCycle s).m_memory.hdmaSource
        = ((changeMode HBLANK_MODE_FLAG s).m_memory.performHdmaTransfer 0).hdmaSource ∧
      (DisplayController.doCycle s).m_memory.hdmaDestination
        = ((changeMode HBLANK_MODE_FLAG s).m_memory.performHdmaTransfer 0).hdmaDestination ∧
      (DisplayController.doCycle s).m_memory.LCDC = s.m_memory.LCDC := by
  have hm := (tick_entry_memory s h).1
  rw [if_pos hb] at hm
  have hl : ((changeMode HBLANK_MODE_FLAG s).m_memory.performHdmaTransfer 0).LCDC
      = s.m_memory.LCDC := by
    rw [Memory.performHdmaTransfer_frame]
    rfl
  generalize (changeMode HBLANK_MODE_FLAG s).m_memory.performHdmaTransfer 0 = r at hm hl
  generalize (DisplayController.doCycle s).m_memory = m' at hm
  have e1 := congrArg Memory.m_displayRam hm
  have e2 := congrArg Memory.hdmaRegisters hm
  have e3 := congrArg Memory.hdmaSource hm
  have e4 := congrArg Memory.hdmaDestination hm
  have e5 := congrArg Memory.LCDC hm
  exact ⟨e1, e2, e3, e4, e5.trans hl⟩

/-- The fields of the memory after the tick that enters HBLANK with bit 7 of `HDMA5` set. -/
theorem tick_entry_idle (s : Cpu) (h : atHBlankEntry s) (hb : s.m_memory.HDMA5 &&& 0x80 ≠ 0) :
    (DisplayController.doCycle s).m_memory.m_displayRam = s.m_memory.m_displayRam ∧
      (DisplayController.doCycle s).m_memory.hdmaRegisters = s.m_memory.hdmaRegisters ∧
      (DisplayController.doCycle s).m_memory.hdmaSource = s.m_memory.hdmaSource ∧
      (DisplayController.doCycle s).m_memory.hdmaDestination = s.m_memory.hdmaDestination ∧
      (DisplayController.doCycle s).m_memory.LCDC = s.m_memory.LCDC := by
  have hm := (tick_entry_memory s h).1
  rw [if_neg hb] at hm
  generalize (DisplayController.doCycle s).m_memory = m' at hm
  have e1 := congrArg Memory.m_displayRam hm
  have e2 := congrArg Memory.hdmaRegisters hm
  have e3 := congrArg Memory.hdmaSource hm
  have e4 := congrArg Memory.hdmaDestination hm
  have e5 := congrArg Memory.LCDC hm
  exact ⟨e1, e2, e3, e4, e5⟩

/-- C21. Whenever the pipeline makes the transition from pixel transfer to HBLANK with bit 7
of `HDMA5` clear, 16 bytes are copied: the 16 cells of display RAM from the 16-byte-aligned
destination of (`HDMA3`, `HDMA4`) on, in the bank selected by `VBK`, hold the 16 bytes read from
the 16-byte-aligned source of (`HDMA1`, `HDMA2`) on, in the memory as it stands at the transfer
(the one before the tick but for the mode bits of `STAT`); every other display-RAM byte is
unchanged; the addresses held in `HDMA1`/`HDMA2` and `HDMA3`/`HDMA4` are 16 further; `HDMA5` is
one less as a byte. With bit 7 of `HDMA5` set at that transition, display RAM and the five HDMA
registers are unchanged. -/
theorem hblank_entry_transfers_one_block (s : Cpu) (h : atHBlankEntry s) :
    (DisplayController.doCycle s).m_memory.STAT &&& 0x03 = HBLANK_MODE_FLAG ∧
    (s.m_memory.HDMA5 &&& 0x80 = 0 →
      (∀ i, i < 16 →
        (DisplayController.doCycle s).m_memory.m_displayRam
            (s.m_memory.hdmaDestination + s.m_memory.VBK * 0x2000 + i)
          = (changeMode HBLANK_MODE_FLAG s).m_memory.read (s.m_memory.hdmaSource + i)) ∧
      (∀ a, a ≠ 0xFF41 →
        (changeMode HBLANK_MODE_FLAG s).m_memory.read a = s.m_memory.read a) ∧
      (∀ x, ¬ (s.m_memory.hdmaDestination + s.m_memory.VBK * 0x2000 ≤ x ∧
            x < s.m_memory.hdmaDestination + s.m_memory.VBK * 0x2000 + 16) →
        (DisplayController.doCycle s).m_memory.m_displayRam x = s.m_memory.m_displayRam x) ∧
      s.m_memory.hdmaSource % 16 = 0 ∧ s.m_memory.hdmaDestination % 16 = 0 ∧
      s.m_memory.hdmaDestination + 16 ≤ 0x2000 ∧
      (DisplayController.doCycle s).m_memory.hdmaSource
        = (s.m_memory.hdmaSource + 16) % 65536 ∧
      (DisplayController.doCycle s).m_memory.HDMA1 * 256
          + (DisplayController.doCycle s).m_memory.HDMA2
        = (s.m_memory.hdmaSource + 16) % 65536 ∧
      (DisplayController.doCycle s).m_memory.hdmaDestination
        = (s.m_memory.hdmaDestination + 16) % 0x2000 ∧
      (DisplayController.doCycle s).m_memory.HDMA3 * 256
          + (DisplayController.doCycle s).m_memory.HDMA4
        = s.m_memory.hdmaDestination + 16 ∧
      (DisplayController.doCycle s).m_memory.HDMA5 = (s.m_memory.HDMA5 + 255) % 256 ∧
      (0 < s.m_memory.HDMA5 → s.m_memory.HDMA5 < 256 →
        (DisplayController.doCycle s).m_memory.HDMA5 = s.m_memory.HDMA5 - 1)) ∧
    (s.m_memory.HDMA5 &&& 0x80 ≠ 0 →
      (DisplayController.doCycle s).m_memory.m_displayRam = s.m_memory.m_displayRam ∧
      (DisplayController.doCycle s).m_memory.hdmaRegisters = s.m_memory.hdmaRegisters) := by
  refine ⟨(tick_entry_memory s h).2, ?_, ?_⟩
  · intro hb
    obtain ⟨e1, e2, e3, e4, _⟩ := tick_entry_transfer s h hb
    obtain ⟨b1, b2, b3, b4, b5, b6, b7⟩ :=
      Memory.performHdmaTransfer_block (changeMode HBLANK_MODE_FLAG s).m_memory
    obtain ⟨sa, _, _⟩ := Memory.hdmaSource_aligned s.m_memory
    obtain ⟨da, dl, _⟩ := Memory.hdmaDestination_aligned s.m_memory
    have r1 : (DisplayController.doCycle s).m_memory.HDMA1
        = ((changeMode HBLANK_MODE_FLAG s).m_memory.performHdmaTransfer 0).HDMA1 :=
      congrArg (fun p : Nat × Nat × Nat × Nat × Nat => p.1) e2
    have r2 : (DisplayController.doCycle s).m_memory.HDMA2
        = ((changeMode HBLANK_MODE_FLAG s).m_memory.performHdmaTransfer 0).HDMA2 :=
      congrArg (fun p : Nat × Nat × Nat × Nat × Nat => p.2.1) e2
    have r3 : (DisplayController.doCycle s).m_memory.HDMA3
        = ((changeMode HBLANK_MODE_FLAG s).m_memory.performHdmaTransfer 0).HDMA3 :=
      congrArg (fun p : Nat × Nat × Nat × Nat × Nat => p.2.2.1) e2
    have r4 : (DisplayController.doCycle s).m_memory.HDMA4
        = ((changeMode HBLANK_MODE_FLAG s).m_memory.performHdmaTransfer 0).HDMA4 :=
      congrArg (fun p : Nat × Nat × Nat × Nat × Nat => p.2.2.2.1) e2
    have r5 : (DisplayController.doCycle s).m_memory.HDMA5
        = ((changeMode HBLANK_MODE_FLAG s).m_memory.performHdmaTransfer 0).HDMA5 :=
      congrArg (fun p : Nat × Nat × Nat × Nat × Nat => p.2.2.2.2) e2
    have h5 : (DisplayController.doCycle s).m_memory.HDMA5 = (s.m_memory.HDMA5 + 255) % 256 :=
      r5.trans b7
    refine ⟨?_, ?_, ?_, sa, da, dl, e3.trans b3, ?_, e4.trans b5, ?_, h5, ?_⟩
    · intro i hi
      rw [e1]
      exact b1 i hi
    · intro a ha
      exact Memory.read_STAT_update s.m_memory _ a ha
    · intro x hx
      rw [e1]
      exact b2 x hx
    · rw [r1, r2]
      exact b4
    · rw [r3, r4]
      exact b6
    · intro h0 h256
      rw [h5]
      omega
  · intro hb
    obtain ⟨e1, e2, _⟩ := tick_entry_idle s h hb
    exact ⟨e1, e2⟩

/-- The tick of `hdmaEntryState`: `HDMA5` goes from 1 to 0 and the first byte of the block is
the first program byte. -/
theorem hblank_entry_transfers_one_block_witness :
    atHBlankEntry hdmaEntryState ∧ hdmaEntryState.m_memory.HDMA5 &&& 0x80 = 0 ∧
      (DisplayController.doCycle hdmaEntryState).m_memory.HDMA5
        = (hdmaEntryState.m_memory.HDMA5 + 255) % 256 ∧
      (DisplayController.doCycle hdmaEntryState).m_memory.hdmaSource
        = (hdmaEntryState.m_memory.hdmaSource + 16) % 65536 :=
  ⟨by decide, by decide,
    ((hblank_entry_transfers_one_block hdmaEntryState (by decide)).2.1
      (by decide)).2.2.2.2.2.2.2.2.2.2.1,
    ((hblank_entry_transfers_one_block hdmaEntryState (by decide)).2.1
      (by decide)).2.2.2.2.2.2.1⟩

end DisplayController
end CppGB

/-! ## The end of an HDMA transfer -/

namespace CppGB

set_option maxRecDepth 100000
namespace DisplayController

/-- The decrement of a byte with bit 7 clear sets bit 7 exactly from 0. -/
theorem decrement_bit7 :
    ∀ h < 256, h &&& 0x80 = 0 →
      (((h + 255) % 256) &&& 0x80 ≠ 0 ↔ h = 0) ∧ (h = 0 → (h + 255) % 256 = 0xFF) ∧
        (0 < h → (h + 255) % 256 = h - 1 ∧ ((h + 255) % 256) &&& 0x80 = 0) ∧
        ((h + 255) % 256 = 0 ↔ h = 1) := by
  decide

/-- C23 (amended). Whenever a block transfer at an HBLANK entry decrements `HDMA5` (a byte with
bit 7 clear), bit 7 of the result is set exactly when `HDMA5` was 0 before: the byte wraps to
`0xFF`, which marks the transfer complete, and at a later HBLANK entry with that value no block
is copied. When `HDMA5` was positive it becomes one less with bit 7 still clear, also when it
reaches 0, and at a later HBLANK entry with that value one more block is copied. -/
theorem hdma5_wraps_to_mark_completion (s : Cpu) (h : atHBlankEntry s)
    (hb : s.m_memory.HDMA5 &&& 0x80 = 0) (h256 : s.m_memory.HDMA5 < 256) :
    ((DisplayController.doCycle s).m_memory.HDMA5 &&& 0x80 ≠ 0 ↔ s.m_memory.HDMA5 = 0) ∧
      (s.m_memory.HDMA5 = 0 → (DisplayController.doCycle s).m_memory.HDMA5 = 0xFF) ∧
      (0 < s.m_memory.HDMA5 →
        (DisplayController.doCycle s).m_memory.HDMA5 = s.m_memory.HDMA5 - 1 ∧
          (DisplayController.doCycle s).m_memory.HDMA5 &&& 0x80 = 0) ∧
      ((DisplayController.doCycle s).m_memory.HDMA5 = 0 ↔ s.m_memory.HDMA5 = 1) ∧
      (∀ t, atHBlankEntry t →
        t.m_memory.HDMA5 = (DisplayController.doCycle s).m_memory.HDMA5 →
        (s.m_memory.HDMA5 = 0 →
          (DisplayController.doCycle t).m_memory.m_displayRam = t.m_memory.m_displayRam ∧
            (DisplayController.doCycle t).m_memory.hdmaRegisters = t.m_memory.hdmaRegisters) ∧
        (0 < s.m_memory.HDMA5 →
          (DisplayController.doCycle t).m_memory.hdmaSource
              = (t.m_memory.hdmaSource + 16) % 65536 ∧
            (DisplayController.doCycle t).m_memory.hdmaDestination
              = (t.m_memory.hdmaDestination + 16) % 0x2000 ∧
            (∀ i, i < 16 →
              (DisplayController.doCycle t).m_memory.m_displayRam
                  (t.m_memory.hdmaDestination + t.m_memory.VBK * 0x2000 + i)
                = (changeMode HBLANK_MODE_FLAG t).m_memory.read (t.m_memory.hdmaSource + i)) ∧
            (DisplayController.doCycle t).m_memory.HDMA5 = (t.m_memory.HDMA5 + 255) % 256)) := by
  obtain ⟨e1, e2, _⟩ := tick_entry_transfer s h hb
  have r5 : (DisplayController.doCycle s).m_memory.HDMA5
      = ((changeMode HBLANK_MODE_FLAG s).m_memory.performHdmaTransfer 0).HDMA5 :=
    congrArg (fun p : Nat × Nat × Nat × Nat × Nat => p.2.2.2.2) e2
  have h5 : (DisplayController.doCycle s).m_memory.HDMA5 = (s.m_memory.HDMA5 + 255) % 256 :=
    r5.trans (Memory.performHdmaTransfer_block (changeMode HBLANK_MODE_FLAG s).m_memory).2.2.2.2.2.2
  obtain ⟨d1, d2, d3, d4⟩ := decrement_bit7 s.m_memory.HDMA5 h256 hb
  rw [h5]
  refine ⟨d1, d2, d3, d4, ?_⟩
  intro t ht h5t
  refine ⟨?_, ?_⟩
  · intro h0
    have hbt : t.m_memory.HDMA5 &&& 0x80 ≠ 0 := by
      rw [h5t]
      exact d1.mpr h0
    obtain ⟨i1, i2, _⟩ := tick_entry_idle t ht hbt
    exact ⟨i1, i2⟩
  · intro hpos
    have hbt : t.m_memory.HDMA5 &&& 0x80 = 0 := by
      rw [h5t]
      exact (d3 hpos).2
    obtain ⟨t1, t2, t3, t4, _⟩ := tick_entry_transfer t ht hbt
    obtain ⟨b1, _, b3, _, b5, _, b7⟩ :=
      Memory.performHdmaTransfer_block (changeMode HBLANK_MODE_FLAG t).m_memory
    have r5t : (DisplayController.doCycle t).m_memory.HDMA5
        = ((changeMode HBLANK_MODE_FLAG t).m_memory.performHdmaTransfer 0).HDMA5 :=
      congrArg (fun p : Nat × Nat × Nat × Nat × Nat => p.2.2.2.2) t2
    refine ⟨t3.trans b3, t4.trans b5, ?_, r5t.trans b7⟩
    intro i hi
    rw [t1]
    exact b1 i hi

/-- The tick of `hdmaEntryState` and a later entry holding the `HDMA5` it left. -/
theorem hdma5_wraps_to_mark_completion_witness :
    atHBlankEntry hdmaEntryState ∧ hdmaEntryState.m_memory.HDMA5 &&& 0x80 = 0 ∧
      hdmaEntryState.m_memory.HDMA5 < 256 ∧
      ((DisplayController.doCycle hdmaEntryState).m_memory.HDMA5 = 0 ↔
        hdmaEntryState.m_memory.HDMA5 = 1) :=
  ⟨by decide, by decide, by decide,
    (hdma5_wraps_to_mark_completion hdmaEntryState (by decide) (by decide) (by decide)).2.2.2.1⟩

/-- The transfer at the tick of `hdmaEntryState` decrements `HDMA5` from 1 so that it reaches
0, and bit 7 of `HDMA5` is not set; the pipeline enters HBLANK again 114 ticks later, and there
one more block is copied: the source address is 32 past the start, the 16 cells after the first
block hold the next 16 program bytes, and only then `HDMA5` is `0xFF`. -/
theorem hdma5_reaches_zero_without_completion :
    atHBlankEntry hdmaEntryState ∧ hdmaEntryState.m_memory.HDMA5 = 1 ∧
      (DisplayController.doCycle hdmaEntryState).m_memory.HDMA5 = 0 ∧
      ¬ (DisplayController.doCycle hdmaEntryState).m_memory.HDMA5 &&& 0x80 ≠ 0 ∧
      (DisplayController.doCycle hdmaEntryState).m_memory.hdmaSource = 0x0110 ∧
      atHBlankEntry (ticks 113 (DisplayController.doCycle hdmaEntryState)) ∧
      (ticks 113 (DisplayController.doCycle hdmaEntryState)).m_memory.HDMA5 = 0 ∧
      (ticks 113 (DisplayController.doCycle hdmaEntryState)).m_memory.m_displayRam 0x30 = 0 ∧
      (ticks 114 (DisplayController.doCycle hdmaEntryState)).m_memory.hdmaSource = 0x0120 ∧
      (ticks 114 (DisplayController.doCycle hdmaEntryState)).m_memory.m_displayRam 0x30 = 16 ∧
      (ticks 114 (DisplayController.doCycle hdmaEntryState)).m_memory.m_displayRam 0x3F = 31 ∧
      (ticks 114 (DisplayController.doCycle hdmaEntryState)).m_memory.HDMA5 = 0xFF := by
  decide

end DisplayController
end CppGB

/-! ## A scheduled HDMA transfer -/

namespace CppGB
namespace Memory

theorem writeRegister_hdmaControl (m : Memory) (a v : Nat)
    (h1 : a ≠ HDMA1_ADDRESS) (h2 : a ≠ HDMA2_ADDRESS) (h3 : a ≠ HDMA3_ADDRESS)
    (h4 : a ≠ HDMA4_ADDRESS) (h5 : a ≠ HDMA5_ADDRESS) (hl : a ≠ LCDC_ADDRESS) :
    (m.writeRegister a v).hdmaControl = m.hdmaControl := by
  simp only [writeRegister, apply_ite Memory.hdmaControl, if_neg h1, if_neg h2, if_neg h3,
    if_neg h4, if_neg h5, if_neg hl]
  simp only [hdmaControl, hdmaRegisters, ite_self]

theorem writeToRom_hdmaControl (m : Memory) (a v : Nat) :
    (m.writeToRom a v).hdmaControl = m.hdmaControl := by
  unfold writeToRom
  cases m.m_mbc
  · rfl
  · simp only [writeToRom_mbc1, apply_ite Memory.hdmaControl]
    simp only [hdmaControl, hdmaRegisters, ite_self]
  · simp only [writeToRom_mbc2, apply_ite Memory.hdmaControl]
    simp only [hdmaControl, hdmaRegisters, ite_self]
  · simp only [writeToRom_mbc3, apply_ite Memory.hdmaControl]
    simp only [hdmaControl, hdmaRegisters, ite_self]
  · simp only [writeToRom_mbc5, apply_ite Memory.hdmaControl]
    simp only [hdmaControl, hdmaRegisters, ite_self]

/-- `Memory::write` away from the HDMA registers and `LCDC` leaves them as they are. -/
theorem write_hdmaControl (m : Memory) (a v : Nat)
    (h1 : a ≠ HDMA1_ADDRESS) (h2 : a ≠ HDMA2_ADDRESS) (h3 : a ≠ HDMA3_ADDRESS)
    (h4 : a ≠ HDMA4_ADDRESS) (h5 : a ≠ HDMA5_ADDRESS) (hl : a ≠ LCDC_ADDRESS) :
    (m.write a v).hdmaControl = m.hdmaControl := by
  simp only [write, apply_ite Memory.hdmaControl, writeToRom_hdmaControl,
    writeRegister_hdmaControl m a v h1 h2 h3 h4 h5 hl]
  simp only [hdmaControl, hdmaRegisters, ite_self]

/-- What the five HDMA registers fix. -/
theorem hdmaRegisters_fields {m r : Memory} (h : m.hdmaRegisters = r.hdmaRegisters) :
    m.HDMA5 = r.HDMA5 ∧ m.hdmaSource = r.hdmaSource ∧
      m.hdmaDestination = r.hdmaDestination := by
  unfold hdmaRegisters at h
  simp only [Prod.mk.injEq] at h
  obtain ⟨r1, r2, r3, r4, r5⟩ := h
  refine ⟨r5, ?_, ?_⟩
  · unfold hdmaSource
    rw [r1, r2]
  · unfold hdmaDestination
    rw [r3, r4]

end Memory

namespace SoundController

theorem writeToNR13_hdmaView (value : Nat) (s : Cpu) :
    Cpu.hdmaView (writeToNR13 value s) = Cpu.hdmaView s := rfl

theorem writeToNR14_hdmaView (value : Nat) (s : Cpu) :
    Cpu.hdmaView (writeToNR14 value s) = Cpu.hdmaView s := by
  unfold writeToNR14
  dsimp only
  split <;> rfl

theorem writeToNR23_hdmaView (value : Nat) (s : Cpu) :
    Cpu.hdmaView (writeToNR23 value s) = Cpu.hdmaView s := rfl

theorem writeToNR24_hdmaView (value : Nat) (s : Cpu) :
    Cpu.hdmaView (writeToNR24 value s) = Cpu.hdmaView s := by
  unfold writeToNR24
  dsimp only
  split <;> rfl

theorem writeToNR33_hdmaView (value : Nat) (s : Cpu) :
    Cpu.hdmaView (writeToNR33 value s) = Cpu.hdmaView s := rfl

theorem writeToNR34_hdmaView (value : Nat) (s : Cpu) :
    Cpu.hdmaView (writeToNR34 value s) = Cpu.hdmaView s := by
  unfold writeToNR34
  dsimp only
  split <;> rfl

theorem writeToNR44_hdmaView (value : Nat) (s : Cpu) :
    Cpu.hdmaView (writeToNR44 value s) = Cpu.hdmaView s := by
  unfold writeToNR44
  dsimp only
  split <;> rfl

end SoundController

namespace Cpu

theorem hdmaView_ite {c : Prop} [Decidable c] {a b : Cpu}
    {x : (Nat × Nat × Nat × Nat × Nat) × Bool × Nat}
    (ha : c → hdmaView a = x) (hb : ¬ c → hdmaView b = x) :
    hdmaView (if c then a else b) = x := by
  split
  · exact ha (by assumption)
  · exact hb (by assumption)

theorem incrementDIV_hdmaView (s : Cpu) : hdmaView (incrementDIV s) = hdmaView s := by
  unfold incrementDIV
  dsimp only
  split <;> rfl

theorem incrementTIMA_hdmaView (s : Cpu) : hdmaView (incrementTIMA s) = hdmaView s := by
  unfold incrementTIMA
  dsimp only
  split_ifs <;> rfl

theorem incrementDIV_displayRam (s : Cpu) :
    (incrementDIV s).m_memory.m_displayRam = s.m_memory.m_displayRam := by
  unfold incrementDIV
  dsimp only
  split <;> rfl

theorem incrementTIMA_displayRam (s : Cpu) :
    (incrementTIMA s).m_memory.m_displayRam = s.m_memory.m_displayRam := by
  unfold incrementTIMA
  dsimp only
  split_ifs <;> rfl

theorem hdmaView_of_memory {t s : Cpu}
    (hc : t.m_memory.hdmaControl = s.m_memory.hdmaControl)
    (hst : t.m_memory.STAT &&& 0x03 = s.m_memory.STAT &&& 0x03) : hdmaView t = hdmaView s := by
  have h1 : t.m_memory.hdmaRegisters = s.m_memory.hdmaRegisters := congrArg Prod.fst hc
  have h2 : t.m_memory.LCDC = s.m_memory.LCDC := congrArg Prod.snd hc
  unfold hdmaView
  rw [h1, h2, hst]

/-- What `hdmaView` fixes. -/
theorem hdmaView_fields {t s : Cpu} (h : hdmaView t = hdmaView s) :
    t.m_memory.hdmaRegisters = s.m_memory.hdmaRegisters ∧
      t.m_memory.HDMA5 = s.m_memory.HDMA5 ∧
      t.m_memory.hdmaSource = s.m_memory.hdmaSource ∧
      t.m_memory.hdmaDestination = s.m_memory.hdmaDestination ∧
      (t.m_memory.LCDC &&& 0x80 ≠ 0 ↔ s.m_memory.LCDC &&& 0x80 ≠ 0) ∧
      t.m_memory.STAT &&& 0x03 = s.m_memory.STAT &&& 0x03 := by
  unfold hdmaView at h
  simp only [Prod.mk.injEq, decide_eq_decide] at h
  obtain ⟨hr, hl, hm⟩ := h
  have hr2 := hr
  unfold Memory.hdmaRegisters at hr2
  simp only [Prod.mk.injEq] at hr2
  obtain ⟨r1, r2, r3, r4, r5⟩ := hr2
  refine ⟨hr, r5, ?_, ?_, hl, hm⟩
  · unfold Memory.hdmaSource
    rw [r1, r2]
  · unfold Memory.hdmaDestination
    rw [r3, r4]

/-- A step that keeps the view is an HDMA step. -/
theorem hdmaStep_of_view {s t : Cpu} (hv : hdmaView t = hdmaView s)
    (hlcd : s.m_memory.LCDC &&& 0x80 ≠ 0) : hdmaStep s t := by
  obtain ⟨hr, _, _, _, hl, hm⟩ := hdmaView_fields hv
  refine ⟨hl.mpr hlcd, Or.inr ⟨?_, hr⟩⟩
  rintro ⟨a, b, _⟩
  rw [hm, a] at b
  exact absurd b (by decide)

/-- An HDMA step seen from a state with the same view. -/
theorem hdmaStep_congr {s x t : Cpu} (hv : hdmaView x = hdmaView s) (h : hdmaStep x t) :
    hdmaStep s t := by
  obtain ⟨hr, h5, hs, hd, _, hm⟩ := hdmaView_fields hv
  unfold hdmaStep at h ⊢
  rw [hr, h5, hs, hd, hm] at h
  exact h

/-- The pipeline tick with the LCD on is an HDMA step. -/
theorem tick_hdmaStep (x : Cpu) (hlcd : x.m_memory.LCDC &&& 0x80 ≠ 0) :
    hdmaStep x (DisplayController.doCycle x) := by
  by_cases he : DisplayController.atHBlankEntry x
  · have hmode := he.2.1
    have hafter := (DisplayController.tick_entry_memory x he).2
    by_cases hb : x.m_memory.HDMA5 &&& 0x80 = 0
    · obtain ⟨_, e2, e3, e4, e5⟩ := DisplayController.tick_entry_transfer x he hb
      obtain ⟨_, _, b3, _, b5, _, b7⟩ := Memory.performHdmaTransfer_block
        (DisplayController.changeMode DisplayController.HBLANK_MODE_FLAG x).m_memory
      have r5 : (DisplayController.doCycle x).m_memory.HDMA5
          = ((DisplayController.changeMode DisplayController.HBLANK_MODE_FLAG
              x).m_memory.performHdmaTransfer 0).HDMA5 :=
        congrArg (fun p : Nat × Nat × Nat × Nat × Nat => p.2.2.2.2) e2
      refine ⟨by rw [e5]; exact hlcd, Or.inl ⟨hmode, hafter, hb, e3.trans b3, e4.trans b5,
        r5.trans b7⟩⟩
    · obtain ⟨_, e2, _, _, e5⟩ := DisplayController.tick_entry_idle x he hb
      exact ⟨by rw [e5]; exact hlcd, Or.inr ⟨fun hx => hb hx.2.2, e2⟩⟩
  · obtain ⟨hw, hne⟩ := DisplayController.tick_off_entry x he
    have e2 := congrArg Memory.hdmaRegisters hw
    have e5 := congrArg Memory.LCDC hw
    change (DisplayController.doCycle x).m_memory.hdmaRegisters = x.m_memory.hdmaRegisters at e2
    change (DisplayController.doCycle x).m_memory.LCDC = x.m_memory.LCDC at e5
    exact ⟨by rw [e5]; exact hlcd, Or.inr ⟨fun hx => hne ⟨hx.1, hx.2.1⟩, e2⟩⟩

/-- One machine cycle with the LCD on is an HDMA step. -/
theorem doCycleStep_hdmaStep (s : Cpu) (hlcd : s.m_memory.LCDC &&& 0x80 ≠ 0) :
    hdmaStep s (doCycleStep s) := by
  have hv : hdmaView (incrementTIMA (incrementDIV s)) = hdmaView s :=
    (incrementTIMA_hdmaView _).trans (incrementDIV_hdmaView s)
  unfold doCycleStep
  dsimp only
  generalize incrementTIMA (incrementDIV s) = x at hv
  have hx : x.m_memory.LCDC &&& 0x80 ≠ 0 := (hdmaView_fields hv).2.2.2.2.1.mpr hlcd
  split
  · split
    · exact hdmaStep_of_view hv hlcd
    · exact hdmaStep_congr hv (tick_hdmaStep _ hx)
  · exact hdmaStep_congr hv (tick_hdmaStep x hx)

theorem doCycle_one_hdmaStep (p s : Cpu) (hv : hdmaView p = hdmaView s)
    (hlcd : s.m_memory.LCDC &&& 0x80 ≠ 0) : hdmaStep s (doCycle 1 p) := by
  rw [doCycle_one]
  exact hdmaStep_congr hv (doCycleStep_hdmaStep p ((hdmaView_fields hv).2.2.2.2.1.mpr hlcd))

theorem writeToLCDC_hdmaView (v : Nat) (s : Cpu) (hv : v &&& 0x80 ≠ 0)
    (hlcd : s.m_memory.LCDC &&& 0x80 ≠ 0) :
    hdmaView (DisplayController.writeToLCDC v s) = hdmaView s := by
  unfold DisplayController.writeToLCDC
  dsimp only
  rw [if_neg (fun hx => hv hx.1)]
  unfold hdmaView
  simp only [decide_eq_true hv, decide_eq_true hlcd]
  rfl

theorem stat_arm_hdmaView (s : Cpu) (v : Nat) :
    hdmaView { s with m_memory := { s.m_memory with
        STAT := (v &&& 0xF8) ||| (s.m_memory.STAT &&& 0x07) } }
      = hdmaView s :=
  congrArg (fun x => (s.m_memory.hdmaRegisters, decide (s.m_memory.LCDC &&& 0x80 ≠ 0), x))
    (DisplayController.stat_write_mode v s.m_memory.STAT)

theorem dma_hdmaView (s : Cpu) :
    hdmaView { s with m_memory := s.m_memory.performDmaTransfer } = hdmaView s := by
  unfold hdmaView
  rw [Memory.performDmaTransfer_frame]
  rfl

theorem write_hdmaView (s : Cpu) (a v : Nat)
    (h1 : a ≠ Memory.HDMA1_ADDRESS) (h2 : a ≠ Memory.HDMA2_ADDRESS)
    (h3 : a ≠ Memory.HDMA3_ADDRESS) (h4 : a ≠ Memory.HDMA4_ADDRESS)
    (h5 : a ≠ Memory.HDMA5_ADDRESS) (hl : a ≠ Memory.LCDC_ADDRESS)
    (hs : a ≠ Memory.STAT_ADDRESS) :
    hdmaView { s with m_memory := s.m_memory.write a v } = hdmaView s :=
  hdmaView_of_memory (Memory.write_hdmaControl s.m_memory a v h1 h2 h3 h4 h5 hl)
    (congrArg (fun x => x &&& 0x03) (Memory.write_STAT s.m_memory a v hs))

theorem updateBgPaletteColor_hdmaView (s : Cpu) :
    hdmaView (DisplayController.updateBgPaletteColor s) = hdmaView s := by
  unfold DisplayController.updateBgPaletteColor
  dsimp only
  split <;> rfl

theorem updateObjPaletteColor_hdmaView (s : Cpu) :
    hdmaView (DisplayController.updateObjPaletteColor s) = hdmaView s := by
  unfold DisplayController.updateObjPaletteColor
  dsimp only
  split <;> rfl

/-- A CPU write that is quiet, made with the LCD on, is an HDMA step. -/
theorem writeToMemory_hdmaStep (a v : Nat) (s : Cpu) (hq : (BusAction.write a v).quiet)
    (hlcd : s.m_memory.LCDC &&& 0x80 ≠ 0) : hdmaStep s (writeToMemory a v s) := by
  obtain ⟨q1, q2, q3, q4, q5, ql⟩ := hq
  simp only [writeToMemory]
  refine doCycle_one_hdmaStep _ s ?_ hlcd
  refine hdmaView_ite (fun _ => ?sc) (fun _ => ?_)
  case sc =>
    exact hdmaView_ite (fun _ => rfl) (fun _ => rfl)
  refine hdmaView_ite (fun _ => ?nr13) (fun _ => ?_)
  case nr13 =>
    exact SoundController.writeToNR13_hdmaView v s
  refine hdmaView_ite (fun _ => ?nr14) (fun _ => ?_)
  case nr14 =>
    exact SoundController.writeToNR14_hdmaView v s
  refine hdmaView_ite (fun _ => ?nr23) (fun _ => ?_)
  case nr23 =>
    exact SoundController.writeToNR23_hdmaView v s
  refine hdmaView_ite (fun _ => ?nr24) (fun _ => ?_)
  case nr24 =>
    exact SoundController.writeToNR24_hdmaView v s
  refine hdmaView_ite (fun _ => ?nr30) (fun _ => ?_)
  case nr30 =>
    split <;> rfl
  refine hdmaView_ite (fun _ => ?nr33) (fun _ => ?_)
  case nr33 =>
    exact SoundController.writeToNR33_hdmaView v s
  refine hdmaView_ite (fun _ => ?nr34) (fun _ => ?_)
  case nr34 =>
    exact SoundController.writeToNR34_hdmaView v s
  refine hdmaView_ite (fun _ => ?nr44) (fun _ => ?_)
  case nr44 =>
    exact SoundController.writeToNR44_hdmaView v s
  refine hdmaView_ite (fun _ => ?nr52) (fun _ => ?_)
  case nr52 =>
    rfl
  refine hdmaView_ite (fun hc => ?lcdc) (fun hnl => ?_)
  case lcdc =>
    exact writeToLCDC_hdmaView v s (ql hc) hlcd
  refine hdmaView_ite (fun _ => ?stat) (fun hns => ?_)
  case stat =>
    exact stat_arm_hdmaView s v
  refine hdmaView_ite (fun _ => ?dma) (fun _ => ?_)
  case dma =>
    exact (dma_hdmaView { s with m_memory := { s.m_memory with DMA := v } }).trans rfl
  refine hdmaView_ite (fun _ => ?key1) (fun _ => ?_)
  case key1 =>
    rfl
  refine hdmaView_ite (fun _ => ?vbk) (fun _ => ?_)
  case vbk =>
    rfl
  refine hdmaView_ite (fun hc => ?hdma5) (fun _ => ?_)
  case hdma5 =>
    exact absurd hc q5
  refine hdmaView_ite (fun _ => ?bcpd) (fun _ => ?_)
  case bcpd =>
    exact (updateBgPaletteColor_hdmaView { s with m_memory := { s.m_memory with BCPD := v } }).trans
      rfl
  refine hdmaView_ite (fun _ => ?ocpd) (fun _ => ?_)
  case ocpd =>
    exact (updateObjPaletteColor_hdmaView
      { s with m_memory := { s.m_memory with OCPD := v } }).trans rfl
  exact write_hdmaView s a v q1 q2 q3 q4 q5 hnl hns

/-- A quiet bus action made with the LCD on is an HDMA step. -/
theorem busStep_hdmaStep (action : BusAction) (s : Cpu) (hq : action.quiet)
    (hlcd : s.m_memory.LCDC &&& 0x80 ≠ 0) : hdmaStep s (busStep action s) := by
  cases action with
  | cycle => exact doCycle_one_hdmaStep s s rfl hlcd
  | write a v => exact writeToMemory_hdmaStep a v s hq hlcd

theorem below_128_bit7 (n : Nat) (h : n < 128) : n &&& 0x80 = 0 := by
  interval_cases n <;> rfl

/-- Once bit 7 of `HDMA5` is set, a quiet run with the LCD on copies no block and leaves the
five HDMA registers as they are. -/
theorem hdma_run_done (acts : List BusAction) :
    ∀ s : Cpu, (∀ a ∈ acts, a.quiet) → s.m_memory.LCDC &&& 0x80 ≠ 0 →
      s.m_memory.HDMA5 &&& 0x80 ≠ 0 →
      (busSteps acts s).m_memory.hdmaRegisters = s.m_memory.hdmaRegisters ∧
        hdmaBlocks acts s = 0 ∧ (busSteps acts s).m_memory.LCDC &&& 0x80 ≠ 0 := by
  induction acts with
  | nil =>
    intro s _ hlcd _
    exact ⟨rfl, rfl, hlcd⟩
  | cons a rest ih =>
    intro s hq hlcd hb
    obtain ⟨hl1, hstep⟩ := busStep_hdmaStep a s (hq a (List.mem_cons_self a rest)) hlcd
    rcases hstep with ⟨_, _, hc, _⟩ | ⟨_, hr⟩
    · exact absurd hc hb
    · have h5 : (busStep a s).m_memory.HDMA5 = s.m_memory.HDMA5 :=
        congrArg (fun p : Nat × Nat × Nat × Nat × Nat => p.2.2.2.2) hr
      obtain ⟨i1, i2, i3⟩ := ih (busStep a s)
        (fun b hb2 => hq b (List.mem_cons_of_mem a hb2)) hl1 (by rw [h5]; exact hb)
      refine ⟨i1.trans hr, ?_, i3⟩
      show (if enteredHBlank s (busStep a s) ∧ s.m_memory.HDMA5 &&& 0x80 = 0 then 1 else 0)
        + hdmaBlocks rest (busStep a s) = 0
      rw [if_neg (fun hx => hb hx.2), i2]

/-- With `HDMA5` holding `n` below 128, a quiet run with the LCD on that enters HBLANK `e` times
copies one block at each of the first `n + 1` entries and none afterwards: `HDMA5` is `n - e`
while `e` is at most `n` and `0xFF` afterwards, and the two addresses are `16 * min e (n + 1)`
further. -/
theorem hdma_run_count (acts : List BusAction) :
    ∀ (s : Cpu) (n : Nat), (∀ a ∈ acts, a.quiet) → s.m_memory.LCDC &&& 0x80 ≠ 0 →
      s.m_memory.HDMA5 = n → n < 128 →
      (busSteps acts s).m_memory.HDMA5
          = (if hblankEntries acts s ≤ n then n - hblankEntries acts s else 0xFF) ∧
        hdmaBlocks acts s = min (hblankEntries acts s) (n + 1) ∧
        (busSteps acts s).m_memory.hdmaSource
          = (s.m_memory.hdmaSource + 16 * min (hblankEntries acts s) (n + 1)) % 65536 ∧
        (busSteps acts s).m_memory.hdmaDestination
          = (s.m_memory.hdmaDestination + 16 * min (hblankEntries acts s) (n + 1)) % 0x2000 ∧
        (busSteps acts s).m_memory.LCDC &&& 0x80 ≠ 0 := by
  induction acts with
  | nil =>
    intro s n _ hlcd h5 _
    obtain ⟨_, sl, _⟩ := Memory.hdmaSource_aligned s.m_memory
    obtain ⟨_, dl, _⟩ := Memory.hdmaDestination_aligned s.m_memory
    refine ⟨?_, rfl, ?_, ?_, hlcd⟩
    · show s.m_memory.HDMA5 = if 0 ≤ n then n - 0 else 0xFF
      rw [if_pos (Nat.zero_le n)]
      exact h5
    · show s.m_memory.hdmaSource = (s.m_memory.hdmaSource + 16 * min 0 (n + 1)) % 65536
      omega
    · show s.m_memory.hdmaDestination
        = (s.m_memory.hdmaDestination + 16 * min 0 (n + 1)) % 0x2000
      omega
  | cons a rest ih =>
    intro s n hq hlcd h5 hn
    have hbit : s.m_memory.HDMA5 &&& 0x80 = 0 := by
      rw [h5]
      exact below_128_bit7 n hn
    have hqr : ∀ b ∈ rest, b.quiet := fun b hb2 => hq b (List.mem_cons_of_mem a hb2)
    obtain ⟨hl1, hstep⟩ := busStep_hdmaStep a s (hq a (List.mem_cons_self a rest)) hlcd
    have he : hblankEntries (a :: rest) s
        = (if enteredHBlank s (busStep a s) then 1 else 0) + hblankEntries rest (busStep a s) :=
      rfl
    have hbl : hdmaBlocks (a :: rest) s
        = (if enteredHBlank s (busStep a s) ∧ s.m_memory.HDMA5 &&& 0x80 = 0 then 1 else 0)
          + hdmaBlocks rest (busStep a s) := rfl
    have hfin : busSteps (a :: rest) s = busSteps rest (busStep a s) := rfl
    rw [he, hbl, hfin]
    obtain ⟨_, sl, _⟩ := Memory.hdmaSource_aligned s.m_memory
    obtain ⟨_, dl, _⟩ := Memory.hdmaDestination_aligned s.m_memory
    rcases hstep with ⟨hm3, hm0, _, hsrc, hdst, hdec⟩ | ⟨hno, hr⟩
    · have hent : enteredHBlank s (busStep a s) := ⟨hm3, hm0⟩
      rw [if_pos hent, if_pos (And.intro hent hbit)]
      rw [h5] at hdec
      rcases Nat.eq_zero_or_pos n with h0 | hpos
      · subst h0
        have h255 : (busStep a s).m_memory.HDMA5 = 0xFF := hdec
        obtain ⟨d1, d2, d3⟩ := hdma_run_done rest (busStep a s) hqr hl1
          (by rw [h255]; decide)
        obtain ⟨f1, f3, f4⟩ := Memory.hdmaRegisters_fields d1
        rw [if_neg (by omega), f1, h255, d2, f3, f4, hsrc, hdst]
        refine ⟨rfl, by omega, by omega, by omega, d3⟩
      · have hn1 : (busStep a s).m_memory.HDMA5 = n - 1 := by
          rw [hdec]
          omega
        obtain ⟨i1, i2, i3, i4, i5⟩ := ih (busStep a s) (n - 1) hqr hl1 hn1 (by omega)
        rw [i1, i2, i3, i4, hsrc, hdst]
        refine ⟨?_, by omega, by omega, by omega, i5⟩
        by_cases hle : hblankEntries rest (busStep a s) ≤ n - 1
        · rw [if_pos hle, if_pos (by omega)]
          omega
        · rw [if_neg hle, if_neg (by omega)]
    · have hent : ¬ enteredHBlank s (busStep a s) := fun hx => hno ⟨hx.1, hx.2, hbit⟩
      have hno2 : ¬ (enteredHBlank s (busStep a s) ∧ s.m_memory.HDMA5 &&& 0x80 = 0) :=
        fun hx => hent hx.1
      rw [if_neg hent, if_neg hno2, Nat.zero_add, Nat.zero_add]
      have hn1 : (busStep a s).m_memory.HDMA5 = n :=
        (congrArg (fun p : Nat × Nat × Nat × Nat × Nat => p.2.2.2.2) hr).trans h5
      obtain ⟨_, f3, f4⟩ := Memory.hdmaRegisters_fields hr
      obtain ⟨i1, i2, i3, i4, i5⟩ := ih (busStep a s) n hqr hl1 hn1 hn
      rw [i1, i2, i3, i4, f3, f4]
      exact ⟨rfl, rfl, rfl, rfl, i5⟩

end Cpu
end CppGB

/-! ## HBLANK entries keep coming -/

namespace CppGB
namespace Cpu

theorem incrementDIV_pipelineView (s : Cpu) :
    DisplayController.pipelineView (incrementDIV s) = DisplayController.pipelineView s := by
  unfold incrementDIV
  dsimp only
  split <;> rfl

theorem incrementTIMA_pipelineView (s : Cpu) :
    DisplayController.pipelineView (incrementTIMA s) = DisplayController.pipelineView s := by
  unfold incrementTIMA
  dsimp only
  split_ifs <;> rfl

theorem incrementDIV_speed (s : Cpu) :
    (incrementDIV s).m_memory.KEY1 = s.m_memory.KEY1 ∧
      (incrementDIV s).m_memory.LCDC = s.m_memory.LCDC := by
  unfold incrementDIV
  dsimp only
  split <;> exact ⟨rfl, rfl⟩

theorem incrementTIMA_speed (s : Cpu) :
    (incrementTIMA s).m_memory.KEY1 = s.m_memory.KEY1 ∧
      (incrementTIMA s).m_memory.LCDC = s.m_memory.LCDC := by
  unfold incrementTIMA
  dsimp only
  split_ifs <;> exact ⟨rfl, rfl⟩

/-- At normal speed one machine cycle is one pipeline tick after the two timers. -/
theorem doCycle_one_normal_speed (s : Cpu) (h : s.m_memory.KEY1 &&& 0x80 = 0) :
    doCycle 1 s = DisplayController.doCycle (incrementTIMA (incrementDIV s)) := by
  rw [doCycle_one]
  unfold doCycleStep
  dsimp only
  rw [if_neg]
  rw [(incrementTIMA_speed _).1, (incrementDIV_speed s).1]
  exact fun hx => hx h

/-- One machine cycle moves a machine on the frame orbit one position on. -/
theorem cycle_onFrameOrbit (s : Cpu) (j : Nat) (h : onFrameOrbit s j) (hj : j < 17556) :
    onFrameOrbit (doCycle 1 s) (j + 1) := by
  obtain ⟨hlcd, hkey, hv⟩ := h
  have hk1 := congrArg (fun u : Cpu => u.m_memory.KEY1) (doCycle_clockFrame 1 s)
  have hl1 := congrArg (fun u : Cpu => u.m_memory.LCDC) (doCycle_clockFrame 1 s)
  change (doCycle 1 s).m_memory.KEY1 = s.m_memory.KEY1 at hk1
  change (doCycle 1 s).m_memory.LCDC = s.m_memory.LCDC at hl1
  refine ⟨by rw [hl1]; exact hlcd, by rw [hk1]; exact hkey, ?_⟩
  rw [doCycle_one_normal_speed s hkey]
  have hx : DisplayController.pipelineView (incrementTIMA (incrementDIV s))
      = DisplayController.specFramePosition j :=
    ((incrementTIMA_pipelineView _).trans (incrementDIV_pipelineView s)).trans hv
  have hlx : (incrementTIMA (incrementDIV s)).m_memory.LCDC &&& 0x80 ≠ 0 := by
    rw [(incrementTIMA_speed _).2, (incrementDIV_speed s).2]
    exact hlcd
  exact DisplayController.frame_run _ j hlx hx 1 (by omega)

theorem busSteps_append (l1 l2 : List BusAction) :
    ∀ s : Cpu, busSteps (l1 ++ l2) s = busSteps l2 (busSteps l1 s) := by
  induction l1 with
  | nil =>
    intro s
    rfl
  | cons a rest ih =>
    intro s
    exact ih (busStep a s)

theorem hblankEntries_append (l1 l2 : List BusAction) :
    ∀ s : Cpu, hblankEntries (l1 ++ l2) s
      = hblankEntries l1 s + hblankEntries l2 (busSteps l1 s) := by
  induction l1 with
  | nil =>
    intro s
    exact (Nat.zero_add _).symm
  | cons a rest ih =>
    intro s
    show (if enteredHBlank s (busStep a s) then 1 else 0)
        + hblankEntries (rest ++ l2) (busStep a s)
      = (if enteredHBlank s (busStep a s) then 1 else 0) + hblankEntries rest (busStep a s)
        + hblankEntries l2 (busSteps rest (busStep a s))
    rw [ih (busStep a s), Nat.add_assoc]

/-- Machine cycles move a machine on the frame orbit along the timing table. -/
theorem cycles_onFrameOrbit (k : Nat) :
    ∀ (s : Cpu) (j : Nat), onFrameOrbit s j → j + k ≤ 17556 →
      onFrameOrbit (busSteps (List.replicate k BusAction.cycle) s) (j + k) := by
  induction k with
  | zero =>
    intro s j h _
    exact h
  | succ k ih =>
    intro s j h hk
    have h1 := cycle_onFrameOrbit s j h (by omega)
    have h2 := ih (doCycle 1 s) (j + 1) h1 (by omega)
    have e : j + 1 + k = j + (k + 1) := by omega
    rw [e] at h2
    exact h2

/-- The last position of the timing table is its first. -/
theorem onFrameOrbit_wrap (s : Cpu) (h : onFrameOrbit s 17556) : onFrameOrbit s 0 := by
  obtain ⟨h1, h2, h3⟩ := h
  refine ⟨h1, h2, h3.trans ?_⟩
  norm_num [DisplayController.specFramePosition]

/-- At position 62 of the timing table the next machine cycle enters HBLANK. -/
theorem cycle_enters_hblank (s : Cpu) (h : onFrameOrbit s 62) :
    enteredHBlank s (doCycle 1 s) := by
  have h1 := cycle_onFrameOrbit s 62 h (by omega)
  have e0 : DisplayController.specFramePosition 62 = (3, 0, 42) := by
    norm_num [DisplayController.specFramePosition]
  have e1 : DisplayController.specFramePosition (62 + 1) = (0, 0, 0) := by
    norm_num [DisplayController.specFramePosition]
  have v0 := h.2.2
  have v1 := h1.2.2
  rw [e0] at v0
  rw [e1] at v1
  exact ⟨congrArg Prod.fst v0, congrArg Prod.fst v1⟩

/-- From any position of the timing table some number of machine cycles leads to position 62. -/
theorem cycles_reach_entry (s : Cpu) (j : Nat) (h : onFrameOrbit s j) (hj : j ≤ 17556) :
    ∃ k, onFrameOrbit (busSteps (List.replicate k BusAction.cycle) s) 62 := by
  by_cases h62 : j ≤ 62
  · refine ⟨62 - j, ?_⟩
    have h1 := cycles_onFrameOrbit (62 - j) s j h (by omega)
    have e : j + (62 - j) = 62 := by omega
    rw [e] at h1
    exact h1
  · have h1 := cycles_onFrameOrbit (17556 - j) s j h (by omega)
    have e : j + (17556 - j) = 17556 := by omega
    rw [e] at h1
    have h2 := cycles_onFrameOrbit 62 _ 0 (onFrameOrbit_wrap _ h1) (by omega)
    refine ⟨(17556 - j) + 62, ?_⟩
    rw [List.replicate_add, busSteps_append]
    exact h2

/-- On the frame orbit machine cycles enter HBLANK as often as wanted. -/
theorem cycles_enter_hblank (N : Nat) :
    ∀ (s : Cpu) (j : Nat), onFrameOrbit s j → j ≤ 17556 →
      ∃ k, N ≤ hblankEntries (List.replicate k BusAction.cycle) s := by
  induction N with
  | zero =>
    intro s j _ _
    exact ⟨0, Nat.zero_le _⟩
  | succ N ih =>
    intro s j h hj
    obtain ⟨k1, h1⟩ := cycles_reach_entry s j h hj
    have hent := cycle_enters_hblank _ h1
    have h2 := cycle_onFrameOrbit _ 62 h1 (by omega)
    obtain ⟨k2, h3⟩ := ih _ 63 h2 (by omega)
    refine ⟨k1 + (1 + k2), ?_⟩
    rw [List.replicate_add, hblankEntries_append, List.replicate_add, hblankEntries_append]
    have hone : hblankEntries (List.replicate 1 BusAction.cycle)
        (busSteps (List.replicate k1 BusAction.cycle) s) = 1 := by
      show (if enteredHBlank _ (doCycle 1 _) then 1 else 0) + 0 = 1
      rw [if_pos hent]
    rw [hone]
    have hstep : busSteps (List.replicate 1 BusAction.cycle)
        (busSteps (List.replicate k1 BusAction.cycle) s)
        = doCycle 1 (busSteps (List.replicate k1 BusAction.cycle) s) := rfl
    rw [hstep]
    omega

end Cpu
end CppGB

/-! ## The write that schedules a transfer -/

namespace CppGB
namespace Cpu

/-- `Cpu::writeToMemory` at `HDMA5_ADDRESS` with bit 7 of the value set: the low seven bits are
stored and one machine cycle passes. -/
theorem writeToMemory_HDMA5_scheduled (v : Nat) (s : Cpu) (hv : v &&& 0x80 ≠ 0) :
    writeToMemory 0xFF55 v s = doCycle 1 (hdmaScheduled v s) := by
  unfold writeToMemory
  iterate 15 rw [if_neg (by decide)]
  rw [if_pos rfl]
  dsimp only
  rw [if_neg hv]
  rfl

/-- The run after the write to `HDMA5`, counted from the state in which the value is stored. -/
theorem hdma_run_after_write (s : Cpu) (v : Nat) (acts : List BusAction)
    (hv : v &&& 0x80 ≠ 0) (hlcd : s.m_memory.LCDC &&& 0x80 ≠ 0) (hq : ∀ a ∈ acts, a.quiet) :
    (busSteps acts (writeToMemory 0xFF55 v s)).m_memory.HDMA5
        = (if hblankEntries (BusAction.cycle :: acts) (hdmaScheduled v s) ≤ v &&& 0x7F then
            (v &&& 0x7F) - hblankEntries (BusAction.cycle :: acts) (hdmaScheduled v s)
          else 0xFF) ∧
      hdmaBlocks (BusAction.cycle :: acts) (hdmaScheduled v s)
        = min (hblankEntries (BusAction.cycle :: acts) (hdmaScheduled v s)) ((v &&& 0x7F) + 1) ∧
      (busSteps acts (writeToMemory 0xFF55 v s)).m_memory.hdmaSource
        = (s.m_memory.hdmaSource
            + 16 * min (hblankEntries (BusAction.cycle :: acts) (hdmaScheduled v s))
                ((v &&& 0x7F) + 1)) % 65536 ∧
      (busSteps acts (writeToMemory 0xFF55 v s)).m_memory.hdmaDestination
        = (s.m_memory.hdmaDestination
            + 16 * min (hblankEntries (BusAction.cycle :: acts) (hdmaScheduled v s))
                ((v &&& 0x7F) + 1)) % 0x2000 := by
  have hn : v &&& 0x7F < 128 := Nat.lt_of_le_of_lt Nat.and_le_right (by decide)
  have hq2 : ∀ a ∈ BusAction.cycle :: acts, a.quiet := by
    intro a ha
    rcases List.mem_cons.mp ha with h | h
    · rw [h]
      exact True.intro
    · exact hq a h
  obtain ⟨c1, c2, c3, c4, _⟩ := hdma_run_count (BusAction.cycle :: acts) (hdmaScheduled v s)
    (v &&& 0x7F) hq2 hlcd rfl hn
  have hrun : busSteps acts (writeToMemory 0xFF55 v s)
      = busSteps (BusAction.cycle :: acts) (hdmaScheduled v s) := by
    rw [writeToMemory_HDMA5_scheduled v s hv]
    rfl
  rw [hrun]
  exact ⟨c1, c2, c3, c4⟩

/-- C22. For every value `v` with bit 7 set, a CPU write of `v` to `HDMA5` (`0xFF55`) stores
`v & 0x7F` and lets one machine cycle pass. With the LCD on, along every run of bus actions
that follows and writes no HDMA register (nor switches the LCD off), with `e` the number of
HBLANK entries since the value was stored: the number of blocks copied is `min e ((v & 0x7F) +
1)`, one at each entry until `(v & 0x7F) + 1` have gone and none at a later entry; the source
and destination addresses are 16 further for each block; `HDMA5` is `(v & 0x7F) - e`, with bit
7 clear, while `e` is at most `v & 0x7F`, and `0xFF`, with bit 7 set, afterwards. On a machine
at normal speed whose pipeline stands on the frame timing table the entries come, so that
after some number of machine cycles all `(v & 0x7F) + 1` blocks have been copied. -/
theorem hdma5_write_schedules_transfer (s : Cpu) (v : Nat) (acts : List BusAction)
    (hv : v &&& 0x80 ≠ 0) (hlcd : s.m_memory.LCDC &&& 0x80 ≠ 0) (hq : ∀ a ∈ acts, a.quiet) :
    writeToMemory 0xFF55 v s = busStep BusAction.cycle (hdmaScheduled v s) ∧
      (hdmaScheduled v s).m_memory.HDMA5 = v &&& 0x7F ∧
      (busSteps acts (writeToMemory 0xFF55 v s)).m_memory.HDMA5
        = (if hblankEntries (BusAction.cycle :: acts) (hdmaScheduled v s) ≤ v &&& 0x7F then
            (v &&& 0x7F) - hblankEntries (BusAction.cycle :: acts) (hdmaScheduled v s)
          else 0xFF) ∧
      ((busSteps acts (writeToMemory 0xFF55 v s)).m_memory.HDMA5 &&& 0x80 = 0 ↔
        hblankEntries (BusAction.cycle :: acts) (hdmaScheduled v s) ≤ v &&& 0x7F) ∧
      hdmaBlocks (BusAction.cycle :: acts) (hdmaScheduled v s)
        = min (hblankEntries (BusAction.cycle :: acts) (hdmaScheduled v s)) ((v &&& 0x7F) + 1) ∧
      (busSteps acts (writeToMemory 0xFF55 v s)).m_memory.hdmaSource
        = (s.m_memory.hdmaSource
            + 16 * hdmaBlocks (BusAction.cycle :: acts) (hdmaScheduled v s)) % 65536 ∧
      (busSteps acts (writeToMemory 0xFF55 v s)).m_memory.hdmaDestination
        = (s.m_memory.hdmaDestination
            + 16 * hdmaBlocks (BusAction.cycle :: acts) (hdmaScheduled v s)) % 0x2000 ∧
      (∀ j, j ≤ 17556 → onFrameOrbit s j →
        ∃ k, hdmaBlocks (BusAction.cycle :: List.replicate k BusAction.cycle)
              (hdmaScheduled v s) = (v &&& 0x7F) + 1 ∧
          (busSteps (List.replicate k BusAction.cycle)
            (writeToMemory 0xFF55 v s)).m_memory.HDMA5 = 0xFF) := by
  have hn : v &&& 0x7F < 128 := Nat.lt_of_le_of_lt Nat.and_le_right (by decide)
  obtain ⟨c1, c2, c3, c4⟩ := hdma_run_after_write s v acts hv hlcd hq
  refine ⟨writeToMemory_HDMA5_scheduled v s hv, rfl, c1, ?_, c2, ?_, ?_, ?_⟩
  · rw [c1]
    by_cases hle : hblankEntries (BusAction.cycle :: acts) (hdmaScheduled v s) ≤ v &&& 0x7F
    · rw [if_pos hle]
      exact ⟨fun _ => hle, fun _ => below_128_bit7 _ (by omega)⟩
    · rw [if_neg hle]
      exact ⟨fun hx => absurd hx (by decide), fun hx => absurd hx hle⟩
  · rw [c3, c2]
  · rw [c4, c2]
  · intro j hj horbit
    have ho : onFrameOrbit (hdmaScheduled v s) j := horbit
    obtain ⟨k, hk⟩ := cycles_enter_hblank ((v &&& 0x7F) + 1 + 1) (hdmaScheduled v s) j ho hj
    rcases k with _ | k
    · exact absurd hk (by
        show ¬ (v &&& 0x7F) + 1 + 1 ≤ 0
        omega)
    · have hrep : List.replicate (k + 1) BusAction.cycle
          = BusAction.cycle :: List.replicate k BusAction.cycle := rfl
      rw [hrep] at hk
      have hqk : ∀ a ∈ List.replicate k BusAction.cycle, a.quiet := by
        intro a ha
        rw [List.eq_of_mem_replicate ha]
        exact True.intro
      obtain ⟨d1, d2, _, _⟩ := hdma_run_after_write s v (List.replicate k BusAction.cycle) hv
        hlcd hqk
      refine ⟨k, ?_, ?_⟩
      · rw [d2]
        omega
      · rw [d1, if_neg (by omega)]

/-- The write of `0x81` on a fresh machine, followed by 300 machine cycles. -/
theorem hdma5_write_schedules_transfer_witness :
    (0x81 : Nat) &&& 0x80 ≠ 0 ∧
      (Cpu.init (Memory.defaults (programRom []))).m_memory.LCDC &&& 0x80 ≠ 0 ∧
      (∀ a ∈ List.replicate 300 BusAction.cycle, a.quiet) ∧
      hdmaBlocks (BusAction.cycle :: List.replicate 300 BusAction.cycle)
          (hdmaScheduled 0x81 (Cpu.init (Memory.defaults (programRom []))))
        = min (hblankEntries (BusAction.cycle :: List.replicate 300 BusAction.cycle)
            (hdmaScheduled 0x81 (Cpu.init (Memory.defaults (programRom [])))))
          ((0x81 &&& 0x7F) + 1) :=
  ⟨by decide, by decide,
    fun a ha => by
      rw [List.eq_of_mem_replicate ha]
      exact True.intro,
    (hdma5_write_schedules_transfer (Cpu.init (Memory.defaults (programRom []))) 0x81
      (List.replicate 300 BusAction.cycle) (by decide) (by decide)
      (fun a ha => by
        rw [List.eq_of_mem_replicate ha]
        exact True.intro)).2.2.2.2.1⟩

end Cpu
end CppGB

/-! # Conditional control flow -/

namespace CppGB

namespace DisplayController

/-! ## The cycle routine leaves the CPU registers aside -/

theorem updateLY_setRegisters (value : Nat) (s : Cpu) (r : Registers) :
    updateLY value { s with m_registers := r } = { updateLY value s with m_registers := r } := by
  unfold updateLY
  dsimp only
  split <;> rfl

theorem changeMode_setRegisters (flag : Nat) (s : Cpu) (r : Registers) :
    changeMode flag { s with m_registers := r } = { changeMode flag s with m_registers := r } :=
  rfl

theorem doCycleSwitch_setRegisters (s : Cpu) (r : Registers) :
    doCycleSwitch { s with m_registers := r } = { doCycleSwitch s with m_registers := r } := by
  unfold doCycleSwitch
  have h := fun value => updateLY_setRegisters value
    { s with m_displayController := { s.m_displayController with m_cycleCounter := 0 } } r
  dsimp only at h
  simp only [updateLY_setRegisters, changeMode_setRegisters, h]
  split_ifs <;> rfl

theorem pipelineCycle_setRegisters (s : Cpu) (r : Registers) :
    DisplayController.doCycle { s with m_registers := r }
      = { DisplayController.doCycle s with m_registers := r } := by
  unfold DisplayController.doCycle
  dsimp only
  split
  · rfl
  · exact doCycleSwitch_setRegisters { s with m_displayController := { s.m_displayController with
      m_cycleCounter := (s.m_displayController.m_cycleCounter + 1) % 256 } } r

end DisplayController

namespace Cpu

theorem incrementDIV_setRegisters (s : Cpu) (r : Registers) :
    incrementDIV { s with m_registers := r } = { incrementDIV s with m_registers := r } := by
  unfold incrementDIV
  dsimp only
  split <;> rfl

theorem incrementTIMA_setRegisters (s : Cpu) (r : Registers) :
    incrementTIMA { s with m_registers := r } = { incrementTIMA s with m_registers := r } := by
  unfold incrementTIMA
  dsimp only
  split_ifs <;> rfl

theorem doCycleStep_setRegisters (s : Cpu) (r : Registers) :
    doCycleStep { s with m_registers := r } = { doCycleStep s with m_registers := r } := by
  unfold doCycleStep
  dsimp only
  rw [incrementDIV_setRegisters, incrementTIMA_setRegisters]
  generalize incrementTIMA (incrementDIV s) = t
  dsimp only
  split_ifs
  · rfl
  · exact DisplayController.pipelineCycle_setRegisters
      { t with doCycle_displaySwitch := !t.doCycle_displaySwitch } r
  · exact DisplayController.pipelineCycle_setRegisters t r

/-- The cycle routine neither reads nor writes the CPU registers: it commutes with any
assignment to them. -/
theorem doCycle_setRegisters (n : Nat) : ∀ (s : Cpu) (r : Registers),
    doCycle n { s with m_registers := r } = { doCycle n s with m_registers := r } := by
  induction n with
  | zero => intro s r; rfl
  | succ k ih =>
    intro s r
    show doCycle k (doCycleStep { s with m_registers := r }) = _
    rw [doCycleStep_setRegisters, ih]
    rfl

/-! ## Counting the calls of the cycle routine -/

theorem incrementDIV_counter (s : Cpu) :
    (incrementDIV s).incrementDIV_cycleCounter =
      if (s.incrementDIV_cycleCounter + 1) % 256 = 128 then 0
      else (s.incrementDIV_cycleCounter + 1) % 256 := by
  simp only [incrementDIV]
  split <;> rfl

theorem doCycleStep_counter (s : Cpu) :
    (doCycleStep s).incrementDIV_cycleCounter =
      if (s.incrementDIV_cycleCounter + 1) % 256 = 128 then 0
      else (s.incrementDIV_cycleCounter + 1) % 256 := by
  have h := congrArg Prod.snd (doCycleStep_dividerView s)
  rw [← incrementDIV_counter]
  exact h

/-- A state whose counter stands `n` calls after the value `c` stands `n + k` calls after it
once `k` more cycles have run. -/
theorem doCycle_counter (c : Nat) (k : Nat) : ∀ (n : Nat) (t : Cpu),
    t.incrementDIV_cycleCounter = (c + n) % 128 →
      (doCycle k t).incrementDIV_cycleCounter = (c + (n + k)) % 128 := by
  induction k with
  | zero => intro n t h; exact h
  | succ j ih =>
    intro n t h
    show (doCycle j (doCycleStep t)).incrementDIV_cycleCounter = _
    have h1 : (doCycleStep t).incrementDIV_cycleCounter = (c + (n + 1)) % 128 := by
      rw [doCycleStep_counter, h]
      split <;> omega
    have h2 := ih (n + 1) (doCycleStep t) h1
    rw [h2]
    congr 2
    omega

end Cpu

namespace SoundController

theorem writeToNR13_counter (value : Nat) (s : Cpu) :
    (writeToNR13 value s).incrementDIV_cycleCounter = s.incrementDIV_cycleCounter := rfl

theorem writeToNR14_counter (value : Nat) (s : Cpu) :
    (writeToNR14 value s).incrementDIV_cycleCounter = s.incrementDIV_cycleCounter := by
  simp only [writeToNR14, apply_ite Cpu.incrementDIV_cycleCounter, ite_self]

theorem writeToNR23_counter (value : Nat) (s : Cpu) :
    (writeToNR23 value s).incrementDIV_cycleCounter = s.incrementDIV_cycleCounter := rfl

theorem writeToNR24_counter (value : Nat) (s : Cpu) :
    (writeToNR24 value s).incrementDIV_cycleCounter = s.incrementDIV_cycleCounter := by
  simp only [writeToNR24, apply_ite Cpu.incrementDIV_cycleCounter, ite_self]

theorem writeToNR33_counter (value : Nat) (s : Cpu) :
    (writeToNR33 value s).incrementDIV_cycleCounter = s.incrementDIV_cycleCounter := rfl

theorem writeToNR34_counter (value : Nat) (s : Cpu) :
    (writeToNR34 value s).incrementDIV_cycleCounter = s.incrementDIV_cycleCounter := by
  simp only [writeToNR34, apply_ite Cpu.incrementDIV_cycleCounter, ite_self]

theorem writeToNR44_counter (value : Nat) (s : Cpu) :
    (writeToNR44 value s).incrementDIV_cycleCounter = s.incrementDIV_cycleCounter := by
  simp only [writeToNR44, apply_ite Cpu.incrementDIV_cycleCounter, ite_self]

end SoundController

namespace DisplayController

theorem writeToLCDC_counter (value : Nat) (s : Cpu) :
    (writeToLCDC value s).incrementDIV_cycleCounter = s.incrementDIV_cycleCounter := by
  simp only [writeToLCDC, changeMode, apply_ite Cpu.incrementDIV_cycleCounter, ite_self]

theorem updateBgPaletteColor_counter (s : Cpu) :
    (updateBgPaletteColor s).incrementDIV_cycleCounter = s.incrementDIV_cycleCounter := by
  simp only [updateBgPaletteColor, apply_ite Cpu.incrementDIV_cycleCounter, ite_self]

theorem updateObjPaletteColor_counter (s : Cpu) :
    (updateObjPaletteColor s).incrementDIV_cycleCounter = s.incrementDIV_cycleCounter := by
  simp only [updateObjPaletteColor, apply_ite Cpu.incrementDIV_cycleCounter, ite_self]

end DisplayController

namespace Cpu

/-- The hooks of `writeToMemory` leave the counter alone, so a CPU write is one call of the
cycle routine. -/
theorem writeToMemory_counter (a v c n : Nat) (t : Cpu)
    (h : t.incrementDIV_cycleCounter = (c + n) % 128) :
    (writeToMemory a v t).incrementDIV_cycleCounter = (c + (n + 1)) % 128 := by
  unfold writeToMemory
  apply doCycle_counter c 1 n
  rw [← h]
  simp only [apply_ite Cpu.incrementDIV_cycleCounter, SoundController.writeToNR13_counter,
    SoundController.writeToNR14_counter, SoundController.writeToNR23_counter,
    SoundController.writeToNR24_counter, SoundController.writeToNR33_counter,
    SoundController.writeToNR34_counter, SoundController.writeToNR44_counter,
    DisplayController.writeToLCDC_counter, DisplayController.updateBgPaletteColor_counter,
    DisplayController.updateObjPaletteColor_counter, requestInterrupt, ite_self]

theorem readMemory_u8_counter (a c n : Nat) (t : Cpu)
    (h : t.incrementDIV_cycleCounter = (c + n) % 128) :
    (readMemory_u8 a t).2.incrementDIV_cycleCounter = (c + (n + 1)) % 128 := by
  rw [readMemory_u8_snd]
  exact doCycle_counter c 1 n t h

theorem fetch_u8_counter (c n : Nat) (t : Cpu)
    (h : t.incrementDIV_cycleCounter = (c + n) % 128) :
    (fetch_u8 t).2.incrementDIV_cycleCounter = (c + (n + 1)) % 128 :=
  readMemory_u8_counter t.m_registers.PC c n t h

theorem readMemory_u16_counter (a c n : Nat) (t : Cpu)
    (h : t.incrementDIV_cycleCounter = (c + n) % 128) :
    (readMemory_u16 a t).2.incrementDIV_cycleCounter = (c + (n + 2)) % 128 := by
  unfold readMemory_u16
  exact readMemory_u8_counter ((a + 1) % 65536) c (n + 1) (readMemory_u8 a t).2
    (readMemory_u8_counter a c n t h)

theorem push_counter (value c n : Nat) (t : Cpu)
    (h : t.incrementDIV_cycleCounter = (c + n) % 128) :
    (push value t).incrementDIV_cycleCounter = (c + (n + 3)) % 128 := by
  unfold push
  exact writeToMemory_counter _ _ c (n + 2) _
    (writeToMemory_counter _ _ c (n + 1) _ (doCycle_counter c 1 n t h))

theorem pop_counter (c n : Nat) (t : Cpu)
    (h : t.incrementDIV_cycleCounter = (c + n) % 128) :
    (pop t).2.incrementDIV_cycleCounter = (c + (n + 2)) % 128 := by
  unfold pop
  exact readMemory_u8_counter _ c (n + 1) _ (readMemory_u8_counter _ c n t h)

theorem jr_counter (cc : Bool) (c n : Nat) (t : Cpu)
    (h : t.incrementDIV_cycleCounter = (c + n) % 128) :
    (jr cc t).incrementDIV_cycleCounter = (c + (n + if cc then 2 else 1)) % 128 := by
  cases cc
  · exact doCycle_counter c 1 n _ h
  · exact doCycle_counter c 1 (n + 1) _ (fetch_u8_counter c n t h)

theorem jp_counter (cc : Bool) (c n : Nat) (t : Cpu)
    (h : t.incrementDIV_cycleCounter = (c + n) % 128) :
    (jp cc t).incrementDIV_cycleCounter = (c + (n + if cc then 3 else 2)) % 128 := by
  cases cc
  · exact doCycle_counter c 2 n _ h
  · exact doCycle_counter c 1 (n + 2) _ (readMemory_u16_counter _ c n t h)

theorem call_counter (cc : Bool) (c n : Nat) (t : Cpu)
    (h : t.incrementDIV_cycleCounter = (c + n) % 128) :
    (call cc t).incrementDIV_cycleCounter = (c + (n + if cc then 5 else 2)) % 128 := by
  cases cc
  · exact doCycle_counter c 2 n _ h
  · exact readMemory_u16_counter _ c (n + 3) _ (push_counter _ c n t h)

theorem ret_counter (cc : Bool) (c n : Nat) (t : Cpu)
    (h : t.incrementDIV_cycleCounter = (c + n) % 128) :
    (ret cc t).incrementDIV_cycleCounter = (c + (n + if cc then 4 else 1)) % 128 := by
  cases cc
  · exact doCycle_counter c 1 n _ h
  · exact doCycle_counter c 2 (n + 2) _ (pop_counter c n t h)

/-- The count of calls between `s` and a state whose counter stands `n` calls after that of
`s`. -/
theorem cyclesBetween_eq (s t : Cpu) (n : Nat) (hs : s.incrementDIV_cycleCounter < 128)
    (hn : n < 128)
    (h : t.incrementDIV_cycleCounter = (s.incrementDIV_cycleCounter + n) % 128) :
    cyclesBetween s t = n := by
  unfold cyclesBetween
  omega

/-! ## The branch not taken -/

theorem jr_not_taken (s : Cpu) :
    jr false (fetch_u8 s).2 = { doCycle 2 s with
      m_registers := { s.m_registers with PC := (s.m_registers.PC + 2) % 65536 } } := by
  have e : jr false (fetch_u8 s).2 = doCycle 1 { doCycle 1 s with
      m_registers := { (doCycle 1 s).m_registers with
        PC := (((doCycle 1 s).m_registers.PC + 1) % 65536 + 1) % 65536 } } := rfl
  have hpc : ((s.m_registers.PC + 1) % 65536 + 1) % 65536 = (s.m_registers.PC + 2) % 65536 := by
    omega
  rw [e, doCycle_setRegisters, doCycle_m_registers, hpc]
  rfl

theorem jp_not_taken (s : Cpu) :
    jp false (fetch_u8 s).2 = { doCycle 3 s with
      m_registers := { s.m_registers with PC := (s.m_registers.PC + 3) % 65536 } } := by
  have e : jp false (fetch_u8 s).2 = doCycle 2 { doCycle 1 s with
      m_registers := { (doCycle 1 s).m_registers with
        PC := (((doCycle 1 s).m_registers.PC + 1) % 65536 + 2) % 65536 } } := rfl
  have hpc : ((s.m_registers.PC + 1) % 65536 + 2) % 65536 = (s.m_registers.PC + 3) % 65536 := by
    omega
  rw [e, doCycle_setRegisters, doCycle_m_registers, hpc]
  rfl

theorem call_not_taken (s : Cpu) :
    call false (fetch_u8 s).2 = { doCycle 3 s with
      m_registers := { s.m_registers with PC := (s.m_registers.PC + 3) % 65536 } } := by
  have e : call false (fetch_u8 s).2 = doCycle 2 { doCycle 1 s with
      m_registers := { (doCycle 1 s).m_registers with
        PC := (((doCycle 1 s).m_registers.PC + 1) % 65536 + 2) % 65536 } } := rfl
  have hpc : ((s.m_registers.PC + 1) % 65536 + 2) % 65536 = (s.m_registers.PC + 3) % 65536 := by
    omega
  rw [e, doCycle_setRegisters, doCycle_m_registers, hpc]
  rfl

theorem ret_not_taken (s : Cpu) :
    ret false (fetch_u8 s).2 = { doCycle 2 s with
      m_registers := { s.m_registers with PC := (s.m_registers.PC + 1) % 65536 } } := by
  have e : ret false (fetch_u8 s).2 = doCycle 1 { doCycle 1 s with
      m_registers := { (doCycle 1 s).m_registers with
        PC := ((doCycle 1 s).m_registers.PC + 1) % 65536 } } := rfl
  rw [e, doCycle_setRegisters, doCycle_m_registers]
  rfl

/-! ## The claim -/

/-- C31 (amended). Counting every call of the cycle routine, the opcode fetch included, the
conditional control-flow instructions cost: `JR cc,e` 3 cycles when taken and 2 when not,
`JP cc,nn` 4 and 3, `CALL cc,nn` 6 and 3, `RET cc` 5 and 2.  The sixteen opcodes dispatch to
`jr`, `jp`, `call`, `ret` with the condition read from `Z` or `C`.  When the branch is not
taken the instruction is its cycles and nothing else: the final state is the state that 2 or
3 calls of the cycle routine alone produce, with `PC` set just past the operand bytes (opcode
address + 2 for `JR`, + 3 for `JP` and `CALL`, + 1 for `RET`, as 16-bit values) and every
other register, `SP` included, as before; so memory is exactly as those cycles leave it (the
divider, the timer and the display pipeline run in them). -/
theorem conditional_branch_cycles (s : Cpu) (hs : s.incrementDIV_cycleCounter < 128) :
    ((∀ u : Cpu, executeNextInstruction u = executeOpcode (fetch_u8 u).1 (fetch_u8 u).2) ∧
      (∀ u : Cpu, executeOpcode 0x20 u = Except.ok (jr (u.m_registers.F.Z == 0) u)) ∧
      (∀ u : Cpu, executeOpcode 0x28 u = Except.ok (jr (u.m_registers.F.Z != 0) u)) ∧
      (∀ u : Cpu, executeOpcode 0x30 u = Except.ok (jr (u.m_registers.F.C == 0) u)) ∧
      (∀ u : Cpu, executeOpcode 0x38 u = Except.ok (jr (u.m_registers.F.C != 0) u)) ∧
      (∀ u : Cpu, executeOpcode 0xC2 u = Except.ok (jp (u.m_registers.F.Z == 0) u)) ∧
      (∀ u : Cpu, executeOpcode 0xCA u = Except.ok (jp (u.m_registers.F.Z != 0) u)) ∧
      (∀ u : Cpu, executeOpcode 0xD2 u = Except.ok (jp (u.m_registers.F.C == 0) u)) ∧
      (∀ u : Cpu, executeOpcode 0xDA u = Except.ok (jp (u.m_registers.F.C != 0) u)) ∧
      (∀ u : Cpu, executeOpcode 0xC4 u = Except.ok (call (u.m_registers.F.Z == 0) u)) ∧
      (∀ u : Cpu, executeOpcode 0xCC u = Except.ok (call (u.m_registers.F.Z != 0) u)) ∧
      (∀ u : Cpu, executeOpcode 0xD4 u = Except.ok (call (u.m_registers.F.C == 0) u)) ∧
      (∀ u : Cpu, executeOpcode 0xDC u = Except.ok (call (u.m_registers.F.C != 0) u)) ∧
      (∀ u : Cpu, executeOpcode 0xC0 u = Except.ok (ret (u.m_registers.F.Z == 0) u)) ∧
      (∀ u : Cpu, executeOpcode 0xC8 u = Except.ok (ret (u.m_registers.F.Z != 0) u)) ∧
      (∀ u : Cpu, executeOpcode 0xD0 u = Except.ok (ret (u.m_registers.F.C == 0) u)) ∧
      (∀ u : Cpu, executeOpcode 0xD8 u = Except.ok (ret (u.m_registers.F.C != 0) u))) ∧
    (cyclesBetween s (jr true (fetch_u8 s).2) = 3 ∧
      cyclesBetween s (jr false (fetch_u8 s).2) = 2 ∧
      cyclesBetween s (jp true (fetch_u8 s).2) = 4 ∧
      cyclesBetween s (jp false (fetch_u8 s).2) = 3 ∧
      cyclesBetween s (call true (fetch_u8 s).2) = 6 ∧
      cyclesBetween s (call false (fetch_u8 s).2) = 3 ∧
      cyclesBetween s (ret true (fetch_u8 s).2) = 5 ∧
      cyclesBetween s (ret false (fetch_u8 s).2) = 2) ∧
    (jr false (fetch_u8 s).2 = { doCycle 2 s with
        m_registers := { s.m_registers with PC := (s.m_registers.PC + 2) % 65536 } } ∧
      jp false (fetch_u8 s).2 = { doCycle 3 s with
        m_registers := { s.m_registers with PC := (s.m_registers.PC + 3) % 65536 } } ∧
      call false (fetch_u8 s).2 = { doCycle 3 s with
        m_registers := { s.m_registers with PC := (s.m_registers.PC + 3) % 65536 } } ∧
      ret false (fetch_u8 s).2 = { doCycle 2 s with
        m_registers := { s.m_registers with PC := (s.m_registers.PC + 1) % 65536 } }) := by
  have h0 : s.incrementDIV_cycleCounter = (s.incrementDIV_cycleCounter + 0) % 128 := by omega
  have hf := fetch_u8_counter s.incrementDIV_cycleCounter 0 s h0
  refine ⟨⟨fun _ => rfl, fun _ => rfl, fun _ => rfl, fun _ => rfl, fun _ => rfl, fun _ => rfl,
    fun _ => rfl, fun _ => rfl, fun _ => rfl, fun _ => rfl, fun _ => rfl, fun _ => rfl,
    fun _ => rfl, fun _ => rfl, fun _ => rfl, fun _ => rfl, fun _ => rfl⟩,
    ⟨?_, ?_, ?_, ?_, ?_, ?_, ?_, ?_⟩,
    jr_not_taken s, jp_not_taken s, call_not_taken s, ret_not_taken s⟩
  · exact cyclesBetween_eq s _ 3 hs (by decide) (jr_counter true _ 1 _ hf)
  · exact cyclesBetween_eq s _ 2 hs (by decide) (jr_counter false _ 1 _ hf)
  · exact cyclesBetween_eq s _ 4 hs (by decide) (jp_counter true _ 1 _ hf)
  · exact cyclesBetween_eq s _ 3 hs (by decide) (jp_counter false _ 1 _ hf)
  · exact cyclesBetween_eq s _ 6 hs (by decide) (call_counter true _ 1 _ hf)
  · exact cyclesBetween_eq s _ 3 hs (by decide) (call_counter false _ 1 _ hf)
  · exact cyclesBetween_eq s _ 5 hs (by decide) (ret_counter true _ 1 _ hf)
  · exact cyclesBetween_eq s _ 2 hs (by decide) (ret_counter false _ 1 _ hf)

/-- On the machine about to fetch the `JR Z,+5` of `branchTimerRom` with `Z` clear: the
instruction costs 2 cycles and leaves the state of those 2 cycles with `PC` two further. -/
theorem conditional_branch_cycles_witness :
    branchTimerState.incrementDIV_cycleCounter < 128 ∧
      (fetch_u8 branchTimerState).1 = 0x28 ∧
      (branchTimerState.m_registers.F.Z != 0) = false ∧
      cyclesBetween branchTimerState (jr false (fetch_u8 branchTimerState).2) = 2 ∧
      jr false (fetch_u8 branchTimerState).2 = { doCycle 2 branchTimerState with
        m_registers := { branchTimerState.m_registers with
          PC := (branchTimerState.m_registers.PC + 2) % 65536 } } :=
  ⟨by decide, by decide, by decide,
    (conditional_branch_cycles branchTimerState (by decide)).2.1.2.1,
    (conditional_branch_cycles branchTimerState (by decide)).2.2.1⟩

/-- Claim C31 fails in its last part: in the program `LD A,05; LDH (07),A; NOP; JR Z,+5` the
jump is not taken (`Z` is clear), `PC` goes from `0x0105` to `0x0107` and `SP` stays, but the
second of its two cycles is a timer tick, and `TIMA` at `0xFF05` reads 0 before the
instruction and 1 after it. -/
theorem not_taken_branch_moves_timer :
    (∃ s, run (List.replicate 3 noKeys) (Cpu.init (Memory.defaults branchTimerRom))
        = Except.ok s ∧ branchTimerState = s) ∧
    (fetch_u8 branchTimerState).1 = 0x28 ∧
    branchTimerState.m_registers.F.Z = 0 ∧
    branchTimerState.m_registers.PC = 0x0105 ∧
    branchTimerState.m_memory.read 0xFF05 = 0 ∧
    (∃ t, executeNextInstruction branchTimerState = Except.ok t ∧
      t.m_registers.PC = 0x0107 ∧
      t.m_registers.SP = branchTimerState.m_registers.SP ∧
      t.m_memory.read 0xFF05 = 1) :=
  ⟨⟨_, rfl, rfl⟩, by decide, by decide, by decide, by decide, ⟨_, rfl, rfl, rfl, rfl⟩⟩

end Cpu
end CppGB

/-! # The sweep of channel 1 -/

namespace CppGB

namespace Memory

theorem writeRegister_NR52 (m : Memory) (a v : Nat) (h : a ≠ NR52_ADDRESS) :
    (m.writeRegister a v).NR52 = m.NR52 := by
  simp only [writeRegister, apply_ite Memory.NR52, if_neg h, ite_self]

theorem writeToRom_NR52 (m : Memory) (a v : Nat) : (m.writeToRom a v).NR52 = m.NR52 := by
  unfold writeToRom
  cases m.m_mbc
  · rfl
  · simp only [writeToRom_mbc1, apply_ite Memory.NR52, ite_self]
  · simp only [writeToRom_mbc2, apply_ite Memory.NR52, ite_self]
  · simp only [writeToRom_mbc3, apply_ite Memory.NR52, ite_self]
  · simp only [writeToRom_mbc5, apply_ite Memory.NR52, ite_self]

/-- `Memory::write` changes `NR52` only at `NR52_ADDRESS`. -/
theorem write_NR52 (m : Memory) (a v : Nat) (h : a ≠ NR52_ADDRESS) :
    (m.write a v).NR52 = m.NR52 := by
  simp only [write, apply_ite Memory.NR52, writeToRom_NR52, writeRegister_NR52 m a v h,
    ite_self]

theorem performDmaTransfer_NR52 (m : Memory) : m.performDmaTransfer.NR52 = m.NR52 := by
  have h := congrArg Memory.NR52 (performDmaTransfer_frame m)
  exact h

theorem performHdmaTransfer_NR52 (m : Memory) (n : Nat) :
    (m.performHdmaTransfer n).NR52 = m.NR52 := by
  have h := congrArg Memory.NR52 (performHdmaTransfer_frame m n)
  exact h

end Memory

namespace Cpu

theorem doCycle_NR52 (cycleCount : Nat) (s : Cpu) :
    (doCycle cycleCount s).m_memory.NR52 = s.m_memory.NR52 := by
  have h := congrArg (fun t : Cpu => t.m_memory.NR52) (doCycle_clockFrame cycleCount s)
  exact h

/-! ## Bit 0 of `NR52` under CPU writes -/

theorem or_keeps_bit0 (x k : Nat) (hk : k &&& 1 = 0) : (x ||| k) &&& 1 = x &&& 1 := by
  rw [Nat.and_distrib_right, hk, Nat.or_zero]

theorem and_keeps_bit0 (x k : Nat) (hk : k &&& 1 = 1) : (x &&& k) &&& 1 = x &&& 1 := by
  rw [Nat.land_assoc, hk]

theorem and_clears_bit0 (x : Nat) : (x &&& 0xFE) &&& 1 = 0 := by
  rw [Nat.land_assoc]
  show x &&& 0 = 0
  exact Nat.and_zero x

theorem or_sets_bit0 (x : Nat) : (x ||| 0x01) &&& 1 = 1 := by
  rw [Nat.and_distrib_right]
  have h : x &&& 1 = 0 ∨ x &&& 1 = 1 := by
    rw [Nat.and_one_is_mod]
    omega
  rcases h with h | h <;> rw [h] <;> rfl

theorem bit0_ite {c : Prop} [Decidable c] {a b : Cpu} {n : Nat}
    (ha : c → a.m_memory.NR52 &&& 1 = n) (hb : ¬ c → b.m_memory.NR52 &&& 1 = n) :
    (if c then a else b).m_memory.NR52 &&& 1 = n := by
  split
  · exact ha (by assumption)
  · exact hb (by assumption)

end Cpu

namespace SoundController

theorem writeToNR14_NR52 (value : Nat) (s : Cpu) :
    (writeToNR14 value s).m_memory.NR52 =
      if value &&& 0x80 ≠ 0 then s.m_memory.NR52 ||| 0x01 else s.m_memory.NR52 := by
  unfold writeToNR14
  dsimp only
  split <;> rfl

theorem writeToNR24_NR52 (value : Nat) (s : Cpu) :
    (writeToNR24 value s).m_memory.NR52 &&& 1 = s.m_memory.NR52 &&& 1 := by
  unfold writeToNR24
  dsimp only
  split
  · exact Cpu.or_keeps_bit0 _ _ rfl
  · rfl

theorem writeToNR34_NR52 (value : Nat) (s : Cpu) :
    (writeToNR34 value s).m_memory.NR52 &&& 1 = s.m_memory.NR52 &&& 1 := by
  unfold writeToNR34
  dsimp only
  split
  · exact Cpu.or_keeps_bit0 _ _ rfl
  · rfl

theorem writeToNR44_NR52 (value : Nat) (s : Cpu) :
    (writeToNR44 value s).m_memory.NR52 &&& 1 = s.m_memory.NR52 &&& 1 := by
  unfold writeToNR44
  dsimp only
  split
  · exact Cpu.or_keeps_bit0 _ _ rfl
  · rfl

end SoundController

namespace DisplayController

theorem writeToLCDC_NR52 (value : Nat) (s : Cpu) :
    (writeToLCDC value s).m_memory.NR52 = s.m_memory.NR52 := by
  unfold writeToLCDC
  dsimp only
  split <;> rfl

theorem updateBgPaletteColor_NR52 (s : Cpu) :
    (updateBgPaletteColor s).m_memory.NR52 = s.m_memory.NR52 := by
  unfold updateBgPaletteColor
  dsimp only
  split <;> rfl

theorem updateObjPaletteColor_NR52 (s : Cpu) :
    (updateObjPaletteColor s).m_memory.NR52 = s.m_memory.NR52 := by
  unfold updateObjPaletteColor
  dsimp only
  split <;> rfl

end DisplayController

namespace Cpu

/-- A CPU write other than the restart of channel 1 (a write to `NR14` with bit 7 set) keeps
bit 0 of `NR52`, whatever the address and the value. -/
theorem writeToMemory_NR52_bit0 (a v : Nat) (s : Cpu)
    (h : ¬ (a = Memory.NR14_ADDRESS ∧ v &&& 0x80 ≠ 0)) :
    (writeToMemory a v s).m_memory.NR52 &&& 1 = s.m_memory.NR52 &&& 1 := by
  simp only [writeToMemory]
  rw [doCycle_NR52]
  refine bit0_ite (fun _ => ?sc) (fun _ => ?_)
  case sc =>
    exact bit0_ite (fun _ => rfl) (fun _ => rfl)
  refine bit0_ite (fun _ => ?nr13) (fun _ => ?_)
  case nr13 => rfl
  refine bit0_ite (fun ha => ?nr14) (fun _ => ?_)
  case nr14 =>
    have hv : ¬ (v &&& 0x80 ≠ 0) := fun hv => h ⟨ha, hv⟩
    rw [SoundController.writeToNR14_NR52, if_neg hv]
  refine bit0_ite (fun _ => ?nr23) (fun _ => ?_)
  case nr23 => rfl
  refine bit0_ite (fun _ => ?nr24) (fun _ => ?_)
  case nr24 =>
    exact SoundController.writeToNR24_NR52 _ _
  refine bit0_ite (fun _ => ?nr30) (fun _ => ?_)
  case nr30 =>
    show (if v &&& 0x80 = 0 then
      ({ s with m_memory := { s.m_memory with NR52 := s.m_memory.NR52 &&& 0xFB } } : Cpu)
      else s).m_memory.NR52 &&& 1 = _
    exact bit0_ite (fun _ => and_keeps_bit0 _ _ rfl) (fun _ => rfl)
  refine bit0_ite (fun _ => ?nr33) (fun _ => ?_)
  case nr33 => rfl
  refine bit0_ite (fun _ => ?nr34) (fun _ => ?_)
  case nr34 =>
    exact SoundController.writeToNR34_NR52 _ _
  refine bit0_ite (fun _ => ?nr44) (fun _ => ?_)
  case nr44 =>
    exact SoundController.writeToNR44_NR52 _ _
  refine bit0_ite (fun _ => ?nr52) (fun hn52 => ?_)
  case nr52 =>
    show ((s.m_memory.NR52 &&& 0x0F) ||| (v &&& 0x80)) &&& 1 = _
    rw [Nat.and_distrib_right, Nat.land_assoc, Nat.land_assoc]
    show (s.m_memory.NR52 &&& 1) ||| (v &&& 0) = _
    rw [Nat.and_zero, Nat.or_zero]
  refine bit0_ite (fun _ => ?lcdc) (fun _ => ?_)
  case lcdc =>
    rw [DisplayController.writeToLCDC_NR52]
  refine bit0_ite (fun _ => ?stat) (fun _ => ?_)
  case stat => rfl
  refine bit0_ite (fun _ => ?dma) (fun _ => ?_)
  case dma =>
    exact congrArg (fun x => x &&& 1)
      (Memory.performDmaTransfer_NR52 { s.m_memory with DMA := v })
  refine bit0_ite (fun _ => ?key1) (fun _ => ?_)
  case key1 => rfl
  refine bit0_ite (fun _ => ?vbk) (fun _ => ?_)
  case vbk => rfl
  refine bit0_ite (fun _ => ?hdma5) (fun _ => ?_)
  case hdma5 =>
    refine bit0_ite (fun _ => ?_) (fun _ => rfl)
    refine bit0_ite (fun _ => ?_) (fun _ => rfl)
    exact congrArg (fun x => x &&& 1)
      (Memory.performHdmaTransfer_NR52 { s.m_memory with HDMA5 := v &&& 0x7F } (v &&& 0x7F))
  refine bit0_ite (fun _ => ?bcpd) (fun _ => ?_)
  case bcpd =>
    rw [DisplayController.updateBgPaletteColor_NR52]
  refine bit0_ite (fun _ => ?ocpd) (fun _ => ?_)
  case ocpd =>
    rw [DisplayController.updateObjPaletteColor_NR52]
  exact congrArg (fun x => x &&& 1) (Memory.write_NR52 s.m_memory a v hn52)

/-- The restart of channel 1 sets bit 0 of `NR52`. -/
theorem writeToMemory_NR14_restart (v : Nat) (s : Cpu) (hv : v &&& 0x80 ≠ 0) :
    (writeToMemory Memory.NR14_ADDRESS v s).m_memory.NR52 &&& 1 = 1 := by
  have e : writeToMemory Memory.NR14_ADDRESS v s = doCycle 1 (SoundController.writeToNR14 v s) := by
    unfold writeToMemory
    rfl
  rw [e, doCycle_NR52, SoundController.writeToNR14_NR52, if_pos hv]
  exact or_sets_bit0 _

/-- A machine cycle keeps `NR52`. -/
theorem busStep_cycle_NR52 (s : Cpu) :
    (busStep BusAction.cycle s).m_memory.NR52 = s.m_memory.NR52 :=
  doCycle_NR52 1 s

end Cpu

namespace SoundController

/-! ## The sample loops and `NR52` -/

theorem generateSamples_channel2Loop_bit0 (floats : Nat → SampleFloats) (d1 d2 : Nat)
    (envelope waveform : List Nat) :
    ∀ (count i : Nat) (s : Cpu) (stream : Nat → Nat),
      (generateSamples_channel2Loop floats d1 d2 envelope waveform count i s stream).1.m_memory.NR52
          &&& 1 = s.m_memory.NR52 &&& 1 := by
  intro count
  induction count with
  | zero => intro i s stream; rfl
  | succ n ih =>
    intro i s stream
    unfold generateSamples_channel2Loop
    dsimp only
    split
    · exact Cpu.and_keeps_bit0 _ _ rfl
    · rw [ih]

theorem generateSamples_channel3Loop_bit0 (floats : Nat → SampleFloats) (d1 d2 : Nat) :
    ∀ (count i : Nat) (s : Cpu) (stream : Nat → Nat),
      (generateSamples_channel3Loop floats d1 d2 count i s stream).1.m_memory.NR52
          &&& 1 = s.m_memory.NR52 &&& 1 := by
  intro count
  induction count with
  | zero => intro i s stream; rfl
  | succ n ih =>
    intro i s stream
    unfold generateSamples_channel3Loop
    dsimp only
    split
    · exact Cpu.and_keeps_bit0 _ _ rfl
    · rw [ih]

theorem generateSamples_channel4Loop_bit0 (floats : Nat → SampleFloats) (d1 d2 : Nat)
    (envelope : List Nat) :
    ∀ (count i : Nat) (s : Cpu) (stream : Nat → Nat),
      (generateSamples_channel4Loop floats d1 d2 envelope count i s stream).1.m_memory.NR52
          &&& 1 = s.m_memory.NR52 &&& 1 := by
  intro count
  induction count with
  | zero => intro i s stream; rfl
  | succ n ih =>
    intro i s stream
    unfold generateSamples_channel4Loop
    dsimp only
    split
    · exact Cpu.and_keeps_bit0 _ _ rfl
    · rw [ih]

/-- The calls of channels 2, 3 and 4 keep bit 0 of `NR52`. -/
theorem generateSamples_afterChannel1_bit0 (floats2 floats3 floats4 : Nat → SampleFloats)
    (d1 d2 streamLength : Nat) (p : Cpu × (Nat → Nat)) :
    (generateSamples_afterChannel1 floats2 floats3 floats4 d1 d2 streamLength p).1.m_memory.NR52
        &&& 1 = p.1.m_memory.NR52 &&& 1 := by
  unfold generateSamples_afterChannel1
  dsimp only
  have h2 : ∀ q : Cpu × (Nat → Nat),
      (if (q.1.m_memory.NR22 >>> 4 ≠ 0 ∨ q.1.m_memory.NR22 &&& 0x08 ≠ 0) ∧
          q.1.m_memory.NR52 &&& 0x02 ≠ 0 then
        generateSamples_channel2 floats2 d1 d2 streamLength q.1 q.2
      else q).1.m_memory.NR52 &&& 1 = q.1.m_memory.NR52 &&& 1 := by
    intro q
    split
    · exact generateSamples_channel2Loop_bit0 _ _ _ _ _ _ _ _ _
    · rfl
  have h3 : ∀ q : Cpu × (Nat → Nat),
      (if q.1.m_memory.NR30 &&& 0x80 ≠ 0 ∧ q.1.m_memory.NR52 &&& 0x04 ≠ 0 then
        generateSamples_channel3 floats3 d1 d2 streamLength q.1 q.2
      else q).1.m_memory.NR52 &&& 1 = q.1.m_memory.NR52 &&& 1 := by
    intro q
    split
    · exact generateSamples_channel3Loop_bit0 _ _ _ _ _ _ _
    · rfl
  have h4 : ∀ q : Cpu × (Nat → Nat),
      (if (q.1.m_memory.NR42 >>> 4 ≠ 0 ∨ q.1.m_memory.NR42 &&& 0x08 ≠ 0) ∧
          q.1.m_memory.NR52 &&& 0x08 ≠ 0 then
        generateSamples_channel4 floats4 d1 d2 streamLength q.1 q.2
      else q).1.m_memory.NR52 &&& 1 = q.1.m_memory.NR52 &&& 1 := by
    intro q
    split
    · exact generateSamples_channel4Loop_bit0 _ _ _ _ _ _ _ _
    · rfl
  rw [h4, h3, h2]

/-- With bit 0 of `NR52` clear the callback does not call channel 1: the stream is what
channels 2, 3 and 4 add to the zeroed stream. -/
theorem generateSamples_silent (floats1 floats2 floats3 floats4 : Nat → SampleFloats)
    (streamLength : Nat) (s : Cpu) (stream : Nat → Nat) (h0 : s.m_memory.NR52 &&& 0x01 = 0) :
    generateSamples floats1 floats2 floats3 floats4 streamLength s stream =
      if s.m_memory.NR52 &&& 0x80 = 0 then
        (s, fun i => if i < streamLength then 0 else stream i)
      else
        generateSamples_afterChannel1 floats2 floats3 floats4
          (8 - (s.m_memory.NR50 &&& 0x07)) (8 - ((s.m_memory.NR50 >>> 4) &&& 0x07)) streamLength
          (s, fun i => if i < streamLength then 0 else stream i) := by
  unfold generateSamples
  dsimp only
  have hne : ¬ ((s.m_memory.NR12 >>> 4 ≠ 0 ∨ s.m_memory.NR12 &&& 0x08 ≠ 0) ∧
      s.m_memory.NR52 &&& 0x01 ≠ 0) := fun h => h.2 h0
  rw [if_neg hne]

/-- The callback keeps bit 0 of `NR52` clear. -/
theorem generateSamples_bit0 (floats1 floats2 floats3 floats4 : Nat → SampleFloats)
    (streamLength : Nat) (s : Cpu) (stream : Nat → Nat) (h0 : s.m_memory.NR52 &&& 0x01 = 0) :
    (generateSamples floats1 floats2 floats3 floats4 streamLength s stream).1.m_memory.NR52
      &&& 1 = 0 := by
  rw [generateSamples_silent _ _ _ _ _ _ _ h0]
  split
  · exact h0
  · rw [generateSamples_afterChannel1_bit0]
    exact h0

/-! ## The sweep calculation -/

theorem sweepCalculation_increasing (NR10 x : Nat) (hd : NR10 &&& 0x08 = 0) (hx : x ≤ 2047) :
    sweepCalculation NR10 x = x + (x >>> (NR10 &&& 0x07)) := by
  unfold sweepCalculation
  have hn : ¬ (NR10 &&& 0x08 ≠ 0) := fun h => h hd
  rw [if_neg hn]
  have hle : x >>> (NR10 &&& 0x07) ≤ x := by
    rw [Nat.shiftRight_eq_div_pow]
    exact Nat.div_le_self _ _
  exact Nat.mod_eq_of_lt (by omega)

theorem sweepCalculation_decreasing (NR10 x : Nat) (hd : NR10 &&& 0x08 ≠ 0) :
    sweepCalculation NR10 x ≤ x := by
  unfold sweepCalculation
  rw [if_pos hd]
  exact Nat.sub_le _ _

/-- The sweep is due at a sample and its first calculation gives more than 2047: the loop
leaves at once. -/
theorem channel1_overflow_committed (floats : Nat → SampleFloats) (d1 d2 : Nat)
    (envelope waveform : List Nat) (count i : Nat) (s : Cpu) (stream : Nat → Nat)
    (hlen : ¬ (s.m_memory.NR14 &&& 0x40 ≠ 0 ∧ (floats i).lengthExpired = true))
    (hdue : (s.m_memory.NR10 &&& 0x70) >>> 4 ≠ 0 ∧
      (if (floats i).sweepSteps > s.m_memory.NR10 &&& 0x07 then s.m_memory.NR10 &&& 0x07
        else (floats i).sweepSteps) ≠ s.m_soundController.m_channel1_sweepShiftCounter)
    (hover : sweepCalculation s.m_memory.NR10 s.m_soundController.m_channel1_xShadowRegister
      > 2047) :
    generateSamples_channel1Loop floats d1 d2 envelope waveform (count + 1) i s stream =
      ({ s with
          m_soundController := { s.m_soundController with
            m_channel1_sweepShiftCounter :=
              (if (floats i).sweepSteps > s.m_memory.NR10 &&& 0x07 then s.m_memory.NR10 &&& 0x07
                else (floats i).sweepSteps) % 256 }
          m_memory := { s.m_memory with NR52 := s.m_memory.NR52 &&& 0xFE } }, stream) := by
  unfold generateSamples_channel1Loop
  dsimp only
  rw [if_neg hlen, if_pos hdue, if_pos hover]

/-- The sweep is due at a sample, its first calculation gives a value up to 2047 and the
calculation repeated on that value gives more than 2047: the loop leaves at once, with the
first value committed. -/
theorem channel1_overflow_speculative (floats : Nat → SampleFloats) (d1 d2 : Nat)
    (envelope waveform : List Nat) (count i : Nat) (s : Cpu) (stream : Nat → Nat)
    (hlen : ¬ (s.m_memory.NR14 &&& 0x40 ≠ 0 ∧ (floats i).lengthExpired = true))
    (hdue : (s.m_memory.NR10 &&& 0x70) >>> 4 ≠ 0 ∧
      (if (floats i).sweepSteps > s.m_memory.NR10 &&& 0x07 then s.m_memory.NR10 &&& 0x07
        else (floats i).sweepSteps) ≠ s.m_soundController.m_channel1_sweepShiftCounter)
    (hfirst : ¬ (sweepCalculation s.m_memory.NR10
      s.m_soundController.m_channel1_xShadowRegister > 2047))
    (hover : sweepCalculation s.m_memory.NR10 (sweepCalculation s.m_memory.NR10
      s.m_soundController.m_channel1_xShadowRegister) > 2047) :
    generateSamples_channel1Loop floats d1 d2 envelope waveform (count + 1) i s stream =
      ({ s with
          m_soundController := { s.m_soundController with
            m_channel1_sweepShiftCounter :=
              (if (floats i).sweepSteps > s.m_memory.NR10 &&& 0x07 then s.m_memory.NR10 &&& 0x07
                else (floats i).sweepSteps) % 256
            m_channel1_xShadowRegister := sweepCalculation s.m_memory.NR10
              s.m_soundController.m_channel1_xShadowRegister }
          m_memory := { s.m_memory with
            NR13 := sweepCalculation s.m_memory.NR10
              s.m_soundController.m_channel1_xShadowRegister &&& 0xFF
            NR14 := ((s.m_memory.NR14 &&& 0xF8) ||| (sweepCalculation s.m_memory.NR10
              s.m_soundController.m_channel1_xShadowRegister >>> 8)) % 256
            NR52 := s.m_memory.NR52 &&& 0xFE } }, stream) := by
  unfold generateSamples_channel1Loop
  dsimp only
  rw [if_neg hlen, if_pos hdue, if_neg hfirst, if_pos hover]

end SoundController

namespace Cpu

/-! ## Runs of sound actions -/

/-- Any sound action other than the restart of channel 1 keeps bit 0 of `NR52` clear. -/
theorem soundStep_bit0 (action : SoundAction) (s : Cpu) (hr : ¬ action.restartsChannel1)
    (h0 : s.m_memory.NR52 &&& 0x01 = 0) : (soundStep action s).m_memory.NR52 &&& 0x01 = 0 := by
  cases action with
  | bus b =>
    cases b with
    | cycle =>
      show (busStep BusAction.cycle s).m_memory.NR52 &&& 1 = 0
      rw [busStep_cycle_NR52]
      exact h0
    | write a v =>
      show (writeToMemory a v s).m_memory.NR52 &&& 1 = 0
      rw [writeToMemory_NR52_bit0 a v s hr]
      exact h0
  | audio f1 f2 f3 f4 n =>
    exact SoundController.generateSamples_bit0 f1 f2 f3 f4 n s _ h0

theorem soundSteps_bit0 : ∀ (actions : List SoundAction) (s : Cpu),
    (∀ action, action ∈ actions → ¬ action.restartsChannel1) →
    s.m_memory.NR52 &&& 0x01 = 0 → (soundSteps actions s).m_memory.NR52 &&& 0x01 = 0 := by
  intro actions
  induction actions with
  | nil => intro s _ h0; exact h0
  | cons a rest ih =>
    intro s hr h0
    exact ih (soundStep a s) (fun b hb => hr b (List.mem_cons_of_mem a hb))
      (soundStep_bit0 a s (hr a (List.mem_cons_self a rest)) h0)

/-! ## The claim -/

/-- C32. Suppose that at some sample of the loop of channel 1 the sweep is due in the
increasing direction and the step `x + (x >> shift)` gives more than 2047, either for the
value to commit (computed from the shadow register `x`) or, that one being at most 2047, for
the speculative next value (computed from the committed one).  Then the loop leaves at that
sample with bit 0 of `NR52` cleared and the other bits as they were, and generation stops at
once: the stream is returned as it stood and the sample counter is not advanced.  Afterwards,
in any state with bit 0 of `NR52` clear, the audio callback does not call channel 1, so the
stream it returns is what channels 2, 3 and 4 add to the zeroed stream; and bit 0 stays clear
through every run of machine cycles, CPU writes and audio callbacks that contains no write to
`NR14` with bit 7 set, while such a write sets it. -/
theorem sweep_overflow_silences_channel1 (floats : Nat → SoundController.SampleFloats)
    (d1 d2 : Nat) (envelope waveform : List Nat) (count i : Nat) (s : Cpu)
    (stream : Nat → Nat)
    (hlen : ¬ (s.m_memory.NR14 &&& 0x40 ≠ 0 ∧ (floats i).lengthExpired = true))
    (hdue : (s.m_memory.NR10 &&& 0x70) >>> 4 ≠ 0 ∧
      (if (floats i).sweepSteps > s.m_memory.NR10 &&& 0x07 then s.m_memory.NR10 &&& 0x07
        else (floats i).sweepSteps) ≠ s.m_soundController.m_channel1_sweepShiftCounter)
    (hinc : s.m_memory.NR10 &&& 0x08 = 0)
    (hx : s.m_soundController.m_channel1_xShadowRegister ≤ 2047)
    (hover :
      s.m_soundController.m_channel1_xShadowRegister
        + (s.m_soundController.m_channel1_xShadowRegister >>> (s.m_memory.NR10 &&& 0x07)) > 2047
      ∨ (s.m_soundController.m_channel1_xShadowRegister
            + (s.m_soundController.m_channel1_xShadowRegister >>> (s.m_memory.NR10 &&& 0x07))
          ≤ 2047 ∧
        (s.m_soundController.m_channel1_xShadowRegister
            + (s.m_soundController.m_channel1_xShadowRegister >>> (s.m_memory.NR10 &&& 0x07)))
          + ((s.m_soundController.m_channel1_xShadowRegister
              + (s.m_soundController.m_channel1_xShadowRegister
                >>> (s.m_memory.NR10 &&& 0x07))) >>> (s.m_memory.NR10 &&& 0x07)) > 2047)) :
    ((SoundController.generateSamples_channel1Loop floats d1 d2 envelope waveform (count + 1) i
        s stream).1.m_memory.NR52 = s.m_memory.NR52 &&& 0xFE ∧
      (SoundController.generateSamples_channel1Loop floats d1 d2 envelope waveform (count + 1) i
        s stream).1.m_memory.NR52 &&& 0x01 = 0 ∧
      (SoundController.generateSamples_channel1Loop floats d1 d2 envelope waveform (count + 1) i
        s stream).2 = stream ∧
      (SoundController.generateSamples_channel1Loop floats d1 d2 envelope waveform (count + 1) i
        s stream).1.m_soundController.m_channel1_sampleCounter
          = s.m_soundController.m_channel1_sampleCounter) ∧
    (∀ (t : Cpu) (floats1 floats2 floats3 floats4 : Nat → SoundController.SampleFloats)
        (streamLength : Nat) (buffer : Nat → Nat), t.m_memory.NR52 &&& 0x01 = 0 →
      SoundController.generateSamples floats1 floats2 floats3 floats4 streamLength t buffer =
        if t.m_memory.NR52 &&& 0x80 = 0 then
          (t, fun j => if j < streamLength then 0 else buffer j)
        else
          SoundController.generateSamples_afterChannel1 floats2 floats3 floats4
            (8 - (t.m_memory.NR50 &&& 0x07)) (8 - ((t.m_memory.NR50 >>> 4) &&& 0x07))
            streamLength (t, fun j => if j < streamLength then 0 else buffer j)) ∧
    (∀ actions : List SoundAction, (∀ action, action ∈ actions → ¬ action.restartsChannel1) →
      (soundSteps actions
        (SoundController.generateSamples_channel1Loop floats d1 d2 envelope waveform (count + 1)
          i s stream).1).m_memory.NR52 &&& 0x01 = 0) ∧
    (∀ (t : Cpu) (v : Nat), v &&& 0x80 ≠ 0 →
      (soundStep (SoundAction.bus (BusAction.write Memory.NR14_ADDRESS v)) t).m_memory.NR52
        &&& 0x01 = 1) := by
  have hleft : (SoundController.generateSamples_channel1Loop floats d1 d2 envelope waveform
        (count + 1) i s stream).1.m_memory.NR52 = s.m_memory.NR52 &&& 0xFE ∧
      (SoundController.generateSamples_channel1Loop floats d1 d2 envelope waveform (count + 1) i
        s stream).2 = stream ∧
      (SoundController.generateSamples_channel1Loop floats d1 d2 envelope waveform (count + 1) i
        s stream).1.m_soundController.m_channel1_sampleCounter
          = s.m_soundController.m_channel1_sampleCounter := by
    have e1 := SoundController.sweepCalculation_increasing s.m_memory.NR10
      s.m_soundController.m_channel1_xShadowRegister hinc hx
    rcases hover with hover | ⟨hfirst, hover⟩
    · rw [SoundController.channel1_overflow_committed floats d1 d2 envelope waveform count i s
        stream hlen hdue (by rw [e1]; exact hover)]
      exact ⟨rfl, rfl, rfl⟩
    · have e2 := SoundController.sweepCalculation_increasing s.m_memory.NR10
        (s.m_soundController.m_channel1_xShadowRegister
          + (s.m_soundController.m_channel1_xShadowRegister >>> (s.m_memory.NR10 &&& 0x07)))
        hinc hfirst
      rw [SoundController.channel1_overflow_speculative floats d1 d2 envelope waveform count i s
        stream hlen hdue (by rw [e1]; omega) (by rw [e1, e2]; exact hover)]
      exact ⟨rfl, rfl, rfl⟩
  have hbit : (SoundController.generateSamples_channel1Loop floats d1 d2 envelope waveform
      (count + 1) i s stream).1.m_memory.NR52 &&& 0x01 = 0 := by
    rw [hleft.1]
    exact and_clears_bit0 _
  refine ⟨⟨hleft.1, hbit, hleft.2.1, hleft.2.2⟩, ?_, ?_, ?_⟩
  · intro t f1 f2 f3 f4 n buffer h0
    exact SoundController.generateSamples_silent f1 f2 f3 f4 n t buffer h0
  · intro actions hr
    exact soundSteps_bit0 actions _ hr hbit
  · intro t v hv
    exact writeToMemory_NR14_restart v t hv

/-- On `sweepOverflowState` (shadow frequency `0x7FF`, increasing sweep of shift 1, due at the
first sample): the step gives `0xBFE`, the loop leaves at the first sample with `NR52` going
from `0x81` to `0x80` and the stream untouched; the whole callback then leaves a zeroed
stream, and a cycle, a write of `0x87` to `NR52`, a write of `0x07` to `NR14` and another
callback later bit 0 is still clear. -/
theorem sweep_overflow_silences_channel1_witness :
    sweepOverflowState.m_memory.NR52 = 0x81 ∧
      (SoundController.generateSamples_channel1Loop sweepDueFloats 1 1
        (SoundController.getEnvelope 0xF0) (SoundController.getRectangleWaveform 2) (511 + 1) 0
        sweepOverflowState (fun _ => 7)).1.m_memory.NR52 = 0x81 &&& 0xFE ∧
      (SoundController.generateSamples_channel1Loop sweepDueFloats 1 1
        (SoundController.getEnvelope 0xF0) (SoundController.getRectangleWaveform 2) (511 + 1) 0
        sweepOverflowState (fun _ => 7)).2 = (fun _ => 7) ∧
      (SoundController.generateSamples sweepDueFloats sweepDueFloats sweepDueFloats
        sweepDueFloats 512 sweepOverflowState (fun _ => 7)).1.m_memory.NR52 = 0x80 ∧
      (SoundController.generateSamples sweepDueFloats sweepDueFloats sweepDueFloats
        sweepDueFloats 512 sweepOverflowState (fun _ => 7)).2 0 = 0 ∧
      (soundSteps
        [SoundAction.bus BusAction.cycle, SoundAction.bus (BusAction.write 0xFF26 0x87),
         SoundAction.bus (BusAction.write 0xFF14 0x07),
         SoundAction.audio sweepDueFloats sweepDueFloats sweepDueFloats sweepDueFloats 512]
        (SoundController.generateSamples_channel1Loop sweepDueFloats 1 1
          (SoundController.getEnvelope 0xF0) (SoundController.getRectangleWaveform 2) (511 + 1) 0
          sweepOverflowState (fun _ => 7)).1).m_memory.NR52 &&& 0x01 = 0 :=
  ⟨by decide,
    (sweep_overflow_silences_channel1 sweepDueFloats 1 1 (SoundController.getEnvelope 0xF0)
      (SoundController.getRectangleWaveform 2) 511 0 sweepOverflowState (fun _ => 7)
      (by decide) (by decide) (by decide) (by decide) (Or.inl (by decide))).1.1,
    (sweep_overflow_silences_channel1 sweepDueFloats 1 1 (SoundController.getEnvelope 0xF0)
      (SoundController.getRectangleWaveform 2) 511 0 sweepOverflowState (fun _ => 7)
      (by decide) (by decide) (by decide) (by decide) (Or.inl (by decide))).1.2.2.1,
    by decide, by decide,
    (sweep_overflow_silences_channel1 sweepDueFloats 1 1 (SoundController.getEnvelope 0xF0)
      (SoundController.getRectangleWaveform 2) 511 0 sweepOverflowState (fun _ => 7)
      (by decide) (by decide) (by decide) (by decide) (Or.inl (by decide))).2.2.1 _
      (by
        intro action ha
        simp only [List.mem_cons, List.mem_singleton, List.not_mem_nil, or_false] at ha
        rcases ha with h | h | h | h <;> subst h
        · exact fun h => h
        · exact fun h => absurd h.1 (by decide)
        · exact fun h => h.2 (by decide)
        · exact fun h => h)⟩

end Cpu
end CppGB

/-! # Objects on a line -/

namespace CppGB
namespace DisplayController

/-! ## The innermost loop -/

/-- The innermost loop in closed form: the pixel at offset `off` is repainted by the loop body
exactly when `off` lies on the current line at a column the loop visits. -/
theorem drawObjectLoop_apply (s : Cpu) (row : ObjectRow) (off : Nat) :
    ∀ (count x_screen x_object : Nat) (fb : FrameBuffer), 8 ≤ x_object + count →
      (drawObjectLoop s row count x_screen x_object fb).pixel off =
        if s.m_memory.LY * 160 + x_screen ≤ off ∧ off < s.m_memory.LY * 160 + 160 ∧
            x_object + (off - (s.m_memory.LY * 160 + x_screen)) < 8 then
          objectPixel s row (x_object + (off - (s.m_memory.LY * 160 + x_screen))) (fb.pixel off)
        else fb.pixel off := by
  intro count
  induction count with
  | zero =>
    intro xs xo fb h
    have hne : ¬ (s.m_memory.LY * 160 + xs ≤ off ∧ off < s.m_memory.LY * 160 + 160 ∧
        xo + (off - (s.m_memory.LY * 160 + xs)) < 8) := by omega
    rw [if_neg hne]
    rfl
  | succ n ih =>
    intro xs xo fb h
    unfold drawObjectLoop
    simp only [SCREEN_WIDTH]
    by_cases hc : xs < 160 ∧ xo < 8
    · rw [if_pos hc]
      have e1 : (xs + 1) % 256 = xs + 1 := by omega
      have e2 : (xo + 1) % 256 = xo + 1 := by omega
      rw [e1, e2, ih _ _ _ (by omega)]
      by_cases ho : off = s.m_memory.LY * 160 + xs
      · have hn : ¬ (s.m_memory.LY * 160 + (xs + 1) ≤ off ∧ off < s.m_memory.LY * 160 + 160 ∧
            xo + 1 + (off - (s.m_memory.LY * 160 + (xs + 1))) < 8) := by omega
        have hp : s.m_memory.LY * 160 + xs ≤ off ∧ off < s.m_memory.LY * 160 + 160 ∧
            xo + (off - (s.m_memory.LY * 160 + xs)) < 8 := by omega
        have hx : xo + (off - (s.m_memory.LY * 160 + xs)) = xo := by omega
        rw [if_neg hn, if_pos hp, hx, ho]
        exact if_pos rfl
      · have hst : ((fb.store (s.m_memory.LY * 160 + xs)
            (objectPixel s row xo (fb.pixel (s.m_memory.LY * 160 + xs)))).pixel off)
            = fb.pixel off := if_neg ho
        rw [hst]
        by_cases h2 : s.m_memory.LY * 160 + (xs + 1) ≤ off ∧ off < s.m_memory.LY * 160 + 160 ∧
            xo + 1 + (off - (s.m_memory.LY * 160 + (xs + 1))) < 8
        · have hp : s.m_memory.LY * 160 + xs ≤ off ∧ off < s.m_memory.LY * 160 + 160 ∧
              xo + (off - (s.m_memory.LY * 160 + xs)) < 8 := by omega
          have hx : xo + 1 + (off - (s.m_memory.LY * 160 + (xs + 1)))
              = xo + (off - (s.m_memory.LY * 160 + xs)) := by omega
          rw [if_pos h2, if_pos hp, hx]
        · have hp : ¬ (s.m_memory.LY * 160 + xs ≤ off ∧ off < s.m_memory.LY * 160 + 160 ∧
              xo + (off - (s.m_memory.LY * 160 + xs)) < 8) := by omega
          rw [if_neg h2, if_neg hp]
    · have hp : ¬ (s.m_memory.LY * 160 + xs ≤ off ∧ off < s.m_memory.LY * 160 + 160 ∧
          xo + (off - (s.m_memory.LY * 160 + xs)) < 8) := by omega
      rw [if_neg hc, if_neg hp]

/-- The loop body keeps the two background fields of the pixel. -/
theorem objectPixel_background (s : Cpu) (row : ObjectRow) (x_object : Nat) (old : Pixel) :
    (objectPixel s row x_object old).backgroundValue = old.backgroundValue ∧
      (objectPixel s row x_object old).backgroundPriority = old.backgroundPriority := by
  unfold objectPixel
  dsimp only
  by_cases h1 : ((!row.backgroundPriority && !old.backgroundPriority)
      || old.backgroundValue == 0) = true
  · rw [if_pos h1]
    split_ifs <;> exact ⟨rfl, rfl⟩
  · rw [if_neg h1]
    exact ⟨rfl, rfl⟩

/-- One object drawn, in closed form. -/
theorem drawObject_apply (s : Cpu) (fb : FrameBuffer) (objectAddress off : Nat) :
    (drawObject s fb objectAddress).pixel off =
      if s.m_memory.LY * 160 + (objectRow s objectAddress).firstScreenX ≤ off ∧
          off < s.m_memory.LY * 160 + 160 ∧
          (objectRow s objectAddress).firstObjectX
            + (off - (s.m_memory.LY * 160 + (objectRow s objectAddress).firstScreenX)) < 8 then
        objectPixel s (objectRow s objectAddress)
          ((objectRow s objectAddress).firstObjectX
            + (off - (s.m_memory.LY * 160 + (objectRow s objectAddress).firstScreenX)))
          (fb.pixel off)
      else fb.pixel off := by
  unfold drawObject
  exact drawObjectLoop_apply s _ off 8 _ _ fb (by omega)

/-- Drawing an object keeps the two background fields of every pixel. -/
theorem drawObject_background (s : Cpu) (fb : FrameBuffer) (objectAddress off : Nat) :
    ((drawObject s fb objectAddress).pixel off).backgroundValue = (fb.pixel off).backgroundValue ∧
      ((drawObject s fb objectAddress).pixel off).backgroundPriority = (fb.pixel off).backgroundPriority := by
  rw [drawObject_apply]
  split
  · exact objectPixel_background s _ _ _
  · exact ⟨rfl, rfl⟩

/-- Drawing an object leaves the pixels off the current line as they are. -/
theorem drawObject_off_line (s : Cpu) (fb : FrameBuffer) (objectAddress off : Nat)
    (h : off < s.m_memory.LY * 160 ∨ s.m_memory.LY * 160 + 160 ≤ off) :
    (drawObject s fb objectAddress).pixel off = fb.pixel off := by
  rw [drawObject_apply, if_neg (by omega)]

/-- One object drawn over a buffer `current` whose background fields are those of `fb`: at
column `x` of the current line the object's pixel replaces the old one exactly when the object
shows there. -/
theorem drawObject_shows (s : Cpu) (fb current : FrameBuffer) (objectNumber x : Nat)
    (hx : x < 160)
    (hv : (current.pixel (s.m_memory.LY * 160 + x)).backgroundValue
      = (fb.pixel (s.m_memory.LY * 160 + x)).backgroundValue)
    (hp : (current.pixel (s.m_memory.LY * 160 + x)).backgroundPriority
      = (fb.pixel (s.m_memory.LY * 160 + x)).backgroundPriority) :
    (drawObject s current (0xFE00 + 4 * objectNumber)).pixel (s.m_memory.LY * 160 + x) =
      match specObjectShows s objectNumber x (fb.pixel (s.m_memory.LY * 160 + x)) with
      | some p => { p with
          backgroundValue := (current.pixel (s.m_memory.LY * 160 + x)).backgroundValue
          backgroundPriority := (current.pixel (s.m_memory.LY * 160 + x)).backgroundPriority }
      | none => current.pixel (s.m_memory.LY * 160 + x) := by
  rw [drawObject_apply]
  unfold specObjectShows
  simp only [SCREEN_WIDTH]
  generalize objectRow s (0xFE00 + 4 * objectNumber) = row
  by_cases h1 : row.firstScreenX ≤ x ∧ x < 160 ∧ row.firstObjectX + (x - row.firstScreenX) < 8
  · have h1' : s.m_memory.LY * 160 + row.firstScreenX ≤ s.m_memory.LY * 160 + x ∧
        s.m_memory.LY * 160 + x < s.m_memory.LY * 160 + 160 ∧
        row.firstObjectX + (s.m_memory.LY * 160 + x - (s.m_memory.LY * 160 + row.firstScreenX))
          < 8 := by omega
    have hxo : row.firstObjectX + (s.m_memory.LY * 160 + x
        - (s.m_memory.LY * 160 + row.firstScreenX))
          = row.firstObjectX + (x - row.firstScreenX) := by omega
    rw [if_pos h1', if_pos h1, hxo]
    unfold objectPixel
    rw [hv, hp]
    generalize row.firstObjectX + (x - row.firstScreenX) = x_object
    by_cases h2 : ((!row.backgroundPriority && !(fb.pixel (s.m_memory.LY * 160 + x)).backgroundPriority)
        || (fb.pixel (s.m_memory.LY * 160 + x)).backgroundValue == 0) = true
    · rw [if_pos h2]
      dsimp only
      by_cases h3 : (((row.byte1 >>> (if row.horizontalFlip = true then x_object
            else 7 - x_object)) &&& 1) <<< 1)
          ||| ((row.byte0 >>> (if row.horizontalFlip = true then x_object else 7 - x_object))
            &&& 1) ≠ 0
      · rw [if_pos h3, if_pos (And.intro h2 h3)]
      · rw [if_neg h3, if_neg (fun h => h3 h.2)]
    · rw [if_neg h2, if_neg (fun h => h2 h.1)]
  · have h1' : ¬ (s.m_memory.LY * 160 + row.firstScreenX ≤ s.m_memory.LY * 160 + x ∧
        s.m_memory.LY * 160 + x < s.m_memory.LY * 160 + 160 ∧
        row.firstObjectX + (s.m_memory.LY * 160 + x - (s.m_memory.LY * 160 + row.firstScreenX))
          < 8) := by omega
    rw [if_neg h1', if_neg h1]

/-- What an object shows keeps the two background fields of the pixel under it. -/
theorem specObjectShows_background (s : Cpu) (objectNumber x : Nat) (old p : Pixel)
    (h : specObjectShows s objectNumber x old = some p) :
    p.backgroundValue = old.backgroundValue ∧ p.backgroundPriority = old.backgroundPriority := by
  unfold specObjectShows at h
  dsimp only at h
  split_ifs at h
  all_goals
    injection h with h
    rw [← h]
    exact ⟨rfl, rfl⟩

/-! ## The objects of a line, last drawn first in the list -/

/-- Drawing a list of objects keeps the two background fields of every pixel. -/
theorem drawObjects_background (s : Cpu) (fb : FrameBuffer) (off : Nat) :
    ∀ l : List Nat,
      ((l.foldr (fun a acc => drawObject s acc a) fb).pixel off).backgroundValue
          = (fb.pixel off).backgroundValue ∧
        ((l.foldr (fun a acc => drawObject s acc a) fb).pixel off).backgroundPriority
          = (fb.pixel off).backgroundPriority := by
  intro l
  induction l with
  | nil => exact ⟨rfl, rfl⟩
  | cons a rest ih =>
    have h := drawObject_background s (rest.foldr (fun a acc => drawObject s acc a) fb) a off
    exact ⟨h.1.trans ih.1, h.2.trans ih.2⟩

/-- Drawing a list of objects leaves the pixels off the current line as they are. -/
theorem drawObjects_off_line (s : Cpu) (fb : FrameBuffer) (off : Nat)
    (h : off < s.m_memory.LY * 160 ∨ s.m_memory.LY * 160 + 160 ≤ off) :
    ∀ l : List Nat, (l.foldr (fun a acc => drawObject s acc a) fb).pixel off = fb.pixel off := by
  intro l
  induction l with
  | nil => rfl
  | cons a rest ih => exact (drawObject_off_line s _ a off h).trans ih

/-- Objects drawn from the end of a list to its head: at column `x` of the current line the
pixel left is that of the first object of the list that shows there, and the old pixel when
none does. -/
theorem drawObjects_apply (s : Cpu) (fb : FrameBuffer) (x : Nat) (hx : x < 160) :
    ∀ l : List Nat,
      ((l.map (fun objectNumber => 0xFE00 + 4 * objectNumber)).foldr
          (fun a acc => drawObject s acc a) fb).pixel (s.m_memory.LY * 160 + x) =
        (l.findSome? (fun objectNumber =>
            specObjectShows s objectNumber x (fb.pixel (s.m_memory.LY * 160 + x)))).getD
          (fb.pixel (s.m_memory.LY * 160 + x)) := by
  intro l
  induction l with
  | nil => rfl
  | cons n rest ih =>
    have hb := drawObjects_background s fb (s.m_memory.LY * 160 + x)
      (rest.map (fun objectNumber => 0xFE00 + 4 * objectNumber))
    have h := drawObject_shows s fb
      ((rest.map (fun objectNumber => 0xFE00 + 4 * objectNumber)).foldr
        (fun a acc => drawObject s acc a) fb) n x hx hb.1 hb.2
    show (drawObject s _ (0xFE00 + 4 * n)).pixel (s.m_memory.LY * 160 + x) = _
    rw [h, List.findSome?_cons]
    cases hs : specObjectShows s n x (fb.pixel (s.m_memory.LY * 160 + x)) with
    | none => exact ih
    | some p =>
      have hp := specObjectShows_background s n x _ p hs
      show ({ p with
        backgroundValue := _
        backgroundPriority := _ } : Pixel) = p
      rw [hb.1, hb.2, ← hp.1, ← hp.2]

/-! ## The selection loop -/

/-- The selection loop keeps the list of the first ten entries on the line among those seen so
far, newest first. -/
theorem collectVisibleObjects_spec (s : Cpu) :
    ∀ (count objectNumber : Nat), objectNumber + count = 40 →
      collectVisibleObjects s count objectNumber
          (((((List.range objectNumber).filter
            (fun n => decide (specOnLine s n))).take 10).map
              (fun n => 0xFE00 + 4 * n)).reverse)
        = ((specDrawnObjects s).map (fun n => 0xFE00 + 4 * n)).reverse := by
  intro count
  induction count with
  | zero =>
    intro k hk
    have hk40 : k = 40 := by omega
    subst hk40
    rfl
  | succ c ih =>
    intro k hk
    unfold collectVisibleObjects
    have haddr : (Memory.OAM_ADDRESS + k * 4) % 65536 = 0xFE00 + 4 * k := by
      simp only [Memory.OAM_ADDRESS]
      omega
    simp only [haddr, List.length_reverse, List.length_map, List.length_take]
    by_cases hlen : ((List.range k).filter (fun n => decide (specOnLine s n))).length < 10
    · have hcond : k < 40 ∧
          min 10 ((List.range k).filter (fun n => decide (specOnLine s n))).length < 10 := by
        constructor
        · omega
        · omega
      rw [if_pos hcond]
      have htake : ((List.range k).filter (fun n => decide (specOnLine s n))).take 10
          = (List.range k).filter (fun n => decide (specOnLine s n)) :=
        List.take_of_length_le (by omega)
      have hnext := ih (k + 1) (by omega)
      rw [List.range_succ, List.filter_append] at hnext
      by_cases hP : specOnLine s k
      · have hP' : (s.m_memory.read (0xFE00 + 4 * k) : Int) - 16 ≤ (s.m_memory.LY : Int) ∧
            (s.m_memory.LY : Int) <
              (s.m_memory.read (0xFE00 + 4 * k) : Int) - 16 + (objectHeight s : Int) := hP
        rw [if_pos hP']
        have hf : [k].filter (fun n => decide (specOnLine s n)) = [k] := by
          simp only [List.filter_cons, List.filter_nil, hP, decide_True, if_true]
        rw [hf, List.take_of_length_le (by
          rw [List.length_append, List.length_singleton]
          omega), List.map_append, List.reverse_append] at hnext
        rw [htake]
        exact hnext
      · have hP' : ¬ ((s.m_memory.read (0xFE00 + 4 * k) : Int) - 16 ≤ (s.m_memory.LY : Int) ∧
            (s.m_memory.LY : Int) <
              (s.m_memory.read (0xFE00 + 4 * k) : Int) - 16 + (objectHeight s : Int)) := hP
        rw [if_neg hP']
        have hf : [k].filter (fun n => decide (specOnLine s n)) = [] := by
          simp only [List.filter_cons, List.filter_nil, hP, decide_False]
          rfl
        rw [hf, List.append_nil] at hnext
        exact hnext
    · have hcond : ¬ (k < 40 ∧
          min 10 ((List.range k).filter (fun n => decide (specOnLine s n))).length < 10) := by
        omega
      rw [if_neg hcond]
      unfold specDrawnObjects
      have hsplit : List.range 40 = List.range k ++ (List.range (40 - k)).map (k + ·) := by
        rw [← List.range_add]
        congr 1
        omega
      rw [hsplit, List.filter_append, List.take_append_of_le_length (by omega)]

/-- The list built by the selection loop: the objects drawn, highest number first. -/
theorem visibleObjectAddresses_eq (s : Cpu) :
    visibleObjectAddresses s
      = ((specDrawnObjects s).map (fun n => 0xFE00 + 4 * n)).reverse :=
  collectVisibleObjects_spec s 40 0 rfl

/-- Membership in the first ten entries of a filtered initial segment: the entry passes the
filter and fewer than ten entries before it do. -/
theorem mem_take_filter_range (P : Nat → Bool) (n : Nat) :
    ∀ m : Nat, n ∈ ((List.range m).filter P).take 10 ↔
      n < m ∧ P n = true ∧ ((List.range n).filter P).length < 10 := by
  intro m
  induction m with
  | zero =>
    constructor
    · intro h
      cases h
    · intro h
      omega
  | succ m ih =>
    rw [List.range_succ, List.filter_append]
    by_cases hlen : 10 ≤ ((List.range m).filter P).length
    · rw [List.take_append_of_le_length hlen, ih]
      constructor
      · intro h
        exact ⟨by omega, h.2⟩
      · intro h
        refine ⟨?_, h.2⟩
        by_contra hn
        have hnm : n = m := by omega
        rw [hnm] at h
        omega
    · have hshort : ((List.range m).filter P ++ [m].filter P).length ≤ 10 := by
        rw [List.length_append]
        have h1 : ([m].filter P).length ≤ 1 := by
          have := List.length_filter_le P [m]
          simpa using this
        omega
      have hA : ((List.range m).filter P).take 10 = (List.range m).filter P :=
        List.take_of_length_le (by omega)
      rw [List.take_of_length_le hshort, List.mem_append]
      rw [hA] at ih
      rw [ih]
      constructor
      · intro h
        rcases h with h | h
        · exact ⟨by omega, h.2⟩
        · have h2 := List.mem_filter.mp h
          have hnm : n = m := List.mem_singleton.mp h2.1
          subst hnm
          exact ⟨by omega, h2.2, by omega⟩
      · intro h
        by_cases hnm : n = m
        · right
          subst hnm
          exact List.mem_filter.mpr ⟨List.mem_singleton.mpr rfl, h.2.1⟩
        · left
          exact ⟨by omega, h.2⟩

/-- In a list in increasing order the first entry with a result is the least one. -/
theorem findSome_least {α : Type} (f : Nat → Option α) (n : Nat) (p : α) :
    ∀ l : List Nat, l.Pairwise (· < ·) → n ∈ l → f n = some p →
      (∀ k, k ∈ l → k < n → f k = none) → l.findSome? f = some p := by
  intro l
  induction l with
  | nil =>
    intro _ hn
    cases hn
  | cons a rest ih =>
    intro hs hn hf hlow
    rw [List.findSome?_cons]
    rw [List.pairwise_cons] at hs
    rcases List.mem_cons.mp hn with h | h
    · rw [← h, hf]
    · have ha : a < n := hs.1 n h
      rw [hlow a (List.mem_cons_self a rest) ha]
      exact ih hs.2 h hf (fun k hk hkn => hlow k (List.mem_cons_of_mem a hk) hkn)

/-- The objects drawn are listed in increasing order. -/
theorem specDrawnObjects_sorted (s : Cpu) : (specDrawnObjects s).Pairwise (· < ·) := by
  unfold specDrawnObjects
  exact ((List.pairwise_lt_range 40).sublist (List.filter_sublist _)).sublist
    (List.take_sublist _ _)

/-! ## The claim -/

/-- C33. On every scanline the objects drawn are exactly the (at most ten) lowest-numbered OAM
entries whose Y range `[Y - 16, Y - 16 + height)` contains `LY`: the list built by the first
loop of `transferPixelLine_objects` is the list of those entries, an entry is in it exactly
when it is on the line and fewer than ten lower-numbered entries are, and so an eleventh entry
on the line is never drawn.  At every column of the line the pixel left by the object pass is
that of the lowest-numbered drawn object that shows there (covers the column with a
non-transparent pixel that the background does not hold back), and the old pixel when no
drawn object shows; pixels off the line are not touched. -/
theorem objects_on_line_lowest_index_wins (s : Cpu) (frameBuffer : FrameBuffer) :
    visibleObjectAddresses s
        = ((specDrawnObjects s).map (fun n => 0xFE00 + 4 * n)).reverse ∧
      (specDrawnObjects s).length ≤ 10 ∧
      (∀ n, n ∈ specDrawnObjects s ↔
        n < 40 ∧ specOnLine s n ∧
          ((List.range n).filter (fun k => decide (specOnLine s k))).length < 10) ∧
      (∀ x, x < 160 →
        (transferPixelLine_objects s frameBuffer).pixel (s.m_memory.LY * 160 + x) =
          ((specDrawnObjects s).findSome? (fun n =>
              specObjectShows s n x (frameBuffer.pixel (s.m_memory.LY * 160 + x)))).getD
            (frameBuffer.pixel (s.m_memory.LY * 160 + x))) ∧
      (∀ x n p, x < 160 → n ∈ specDrawnObjects s →
        specObjectShows s n x (frameBuffer.pixel (s.m_memory.LY * 160 + x)) = some p →
        (∀ k, k ∈ specDrawnObjects s → k < n →
          specObjectShows s k x (frameBuffer.pixel (s.m_memory.LY * 160 + x)) = none) →
        (transferPixelLine_objects s frameBuffer).pixel (s.m_memory.LY * 160 + x) = p) ∧
      (∀ off, off < s.m_memory.LY * 160 ∨ s.m_memory.LY * 160 + 160 ≤ off →
        (transferPixelLine_objects s frameBuffer).pixel off = frameBuffer.pixel off) := by
  have hfold : ∀ off, (transferPixelLine_objects s frameBuffer).pixel off =
      (((specDrawnObjects s).map (fun n => 0xFE00 + 4 * n)).foldr
        (fun a acc => drawObject s acc a) frameBuffer).pixel off := by
    intro off
    unfold transferPixelLine_objects
    rw [visibleObjectAddresses_eq, List.foldl_reverse]
  have hpix : ∀ x, x < 160 →
      (transferPixelLine_objects s frameBuffer).pixel (s.m_memory.LY * 160 + x) =
        ((specDrawnObjects s).findSome? (fun n =>
            specObjectShows s n x (frameBuffer.pixel (s.m_memory.LY * 160 + x)))).getD
          (frameBuffer.pixel (s.m_memory.LY * 160 + x)) := by
    intro x hx
    rw [hfold]
    exact drawObjects_apply s frameBuffer x hx (specDrawnObjects s)
  refine ⟨visibleObjectAddresses_eq s, ?_, ?_, hpix, ?_, ?_⟩
  · unfold specDrawnObjects
    rw [List.length_take]
    omega
  · intro n
    unfold specDrawnObjects
    rw [mem_take_filter_range]
    simp only [decide_eq_true_eq]
  · intro x n p hx hn hp hlow
    rw [hpix x hx, findSome_least _ n p _ (specDrawnObjects_sorted s) hn hp hlow]
    rfl
  · intro off hoff
    rw [hfold]
    exact drawObjects_off_line s frameBuffer off hoff _

/-- On `objectLineState`, where eleven objects are on line 0: the ten lowest-numbered ones are
drawn, highest number first; object 10 is on the line and is not drawn, so column 16, which
only it covers, keeps its pixel; and at column 0, covered by objects 0 to 9, the colour left
is that of object 0 (colour 1 of `OBP0`), not that of the others (colour 3). -/
theorem objects_on_line_lowest_index_wins_witness :
    visibleObjectAddresses objectLineState
        = [0xFE24, 0xFE20, 0xFE1C, 0xFE18, 0xFE14, 0xFE10, 0xFE0C, 0xFE08, 0xFE04, 0xFE00] ∧
      specOnLine objectLineState 10 ∧ 10 ∉ specDrawnObjects objectLineState ∧
      ((specObjectShows objectLineState 1 0 (blankFrameBuffer.pixel 0)).map Pixel.dmgColor
        = some 3) ∧
      ((transferPixelLine_objects objectLineState blankFrameBuffer).pixel
        (objectLineState.m_memory.LY * 160 + 0)).dmgColor = 1 ∧
      ((transferPixelLine_objects objectLineState blankFrameBuffer).pixel
        (objectLineState.m_memory.LY * 160 + 16)).dmgColor = 0 :=
  ⟨(objects_on_line_lowest_index_wins objectLineState blankFrameBuffer).1.trans (by decide),
    by decide, by decide, by decide,
    congrArg Pixel.dmgColor
      ((objects_on_line_lowest_index_wins objectLineState blankFrameBuffer).2.2.2.2.1 0 0
        { backgroundValue := 0, backgroundPriority := false, dmgColor := 1,
          cgbColor := (objectLineState.m_displayController.m_objColorPalettes 0).color 1 }
        (by decide) (by decide) rfl (fun k _ hk => absurd hk (Nat.not_lt_zero k))),
    (congrArg Pixel.dmgColor
      ((objects_on_line_lowest_index_wins objectLineState blankFrameBuffer).2.2.2.1 16
        (by decide))).trans (by decide)⟩

end DisplayController
end CppGB

/-! # The background of a line -/

namespace CppGB
namespace DisplayController

/-- The loop of `transferPixelLine_background` in closed form: the columns it visits get the
pixel composed from the two bytes read at the character's map address, the code from bank 0
and the attributes from bank 1. -/
theorem transferPixelLine_backgroundLoop_apply (s : Cpu) (off : Nat) :
    ∀ (count x_screen : Nat) (fb : FrameBuffer),
      (transferPixelLine_backgroundLoop s count x_screen fb).pixel off =
        if s.m_memory.LY * 160 + x_screen ≤ off ∧ off < s.m_memory.LY * 160 + x_screen + count
        then
          backgroundPixel s (off - s.m_memory.LY * 160)
            (s.m_memory.readDisplayRam
              (backgroundCharacterAddress s (off - s.m_memory.LY * 160)) 0)
            (s.m_memory.readDisplayRam
              (backgroundCharacterAddress s (off - s.m_memory.LY * 160)) 1)
        else fb.pixel off := by
  intro count
  induction count with
  | zero =>
    intro xs fb
    have hne : ¬ (s.m_memory.LY * 160 + xs ≤ off ∧ off < s.m_memory.LY * 160 + xs + 0) := by
      omega
    rw [if_neg hne]
    rfl
  | succ n ih =>
    intro xs fb
    unfold transferPixelLine_backgroundLoop
    simp only [SCREEN_WIDTH]
    rw [ih]
    by_cases ho : off = s.m_memory.LY * 160 + xs
    · have hn : ¬ (s.m_memory.LY * 160 + (xs + 1) ≤ off ∧
          off < s.m_memory.LY * 160 + (xs + 1) + n) := by omega
      have hp : s.m_memory.LY * 160 + xs ≤ off ∧ off < s.m_memory.LY * 160 + xs + (n + 1) := by
        omega
      have hx : off - s.m_memory.LY * 160 = xs := by omega
      rw [if_neg hn, if_pos hp, hx, ho]
      exact if_pos rfl
    · have hst : ∀ p : Pixel, (fb.store (s.m_memory.LY * 160 + xs) p).pixel off = fb.pixel off :=
        fun p => if_neg ho
      rw [hst]
      by_cases h2 : s.m_memory.LY * 160 + (xs + 1) ≤ off ∧
          off < s.m_memory.LY * 160 + (xs + 1) + n
      · have hp : s.m_memory.LY * 160 + xs ≤ off ∧
            off < s.m_memory.LY * 160 + xs + (n + 1) := by omega
        rw [if_pos h2, if_pos hp]
      · have hp : ¬ (s.m_memory.LY * 160 + xs ≤ off ∧
            off < s.m_memory.LY * 160 + xs + (n + 1)) := by omega
        rw [if_neg h2, if_neg hp]

/-- The pixel that `transferPixelLine_background` leaves at column `x` of the current line. -/
theorem transferPixelLine_background_apply (s : Cpu) (fb : FrameBuffer) (x : Nat)
    (hx : x < 160) :
    (transferPixelLine_background s fb).pixel (s.m_memory.LY * 160 + x) =
      backgroundPixel s x
        (s.m_memory.readDisplayRam (backgroundCharacterAddress s x) 0)
        (s.m_memory.readDisplayRam (backgroundCharacterAddress s x) 1) := by
  unfold transferPixelLine_background
  rw [transferPixelLine_backgroundLoop_apply]
  have hp : s.m_memory.LY * 160 + 0 ≤ s.m_memory.LY * 160 + x ∧
      s.m_memory.LY * 160 + x < s.m_memory.LY * 160 + 0 + SCREEN_WIDTH := by
    simp only [SCREEN_WIDTH]
    omega
  have he : s.m_memory.LY * 160 + x - s.m_memory.LY * 160 = x := by omega
  rw [if_pos hp, he]

/-- The pixel composed from character attributes equal to zero: palette 0, character data
from bank 0, no flip, no background priority. -/
theorem backgroundPixel_zero_attributes (s : Cpu) (x_screen characterCode : Nat) :
    backgroundPixel s x_screen characterCode 0 =
      { backgroundValue :=
          (((s.m_memory.readDisplayRam
              (((if s.m_memory.LCDC &&& 0x10 ≠ 0 then (0x8000 + characterCode * 16) % 65536
                else u16 (0x9000 + s8 characterCode * 16))
                + (s.m_memory.LY + s.m_memory.SCY) % 256 % 8 * 2 + 1) % 65536) 0
            >>> (7 - (x_screen + s.m_memory.SCX) % 256 % 8)) &&& 1) <<< 1)
          ||| ((s.m_memory.readDisplayRam
              (((if s.m_memory.LCDC &&& 0x10 ≠ 0 then (0x8000 + characterCode * 16) % 65536
                else u16 (0x9000 + s8 characterCode * 16))
                + (s.m_memory.LY + s.m_memory.SCY) % 256 % 8 * 2) % 65536) 0
            >>> (7 - (x_screen + s.m_memory.SCX) % 256 % 8)) &&& 1)
        backgroundPriority := false
        dmgColor := (s.m_memory.BGP >>> ((backgroundPixel s x_screen characterCode 0).backgroundValue
          * 2)) &&& 0x03
        cgbColor := (s.m_displayController.m_bgColorPalettes 0).color
          (backgroundPixel s x_screen characterCode 0).backgroundValue } := rfl

/-- Display RAM is zero in both banks after construction. -/
theorem defaults_readDisplayRam (rom : ByteVector) (address bankNumber : Nat) :
    (Memory.defaults rom).readDisplayRam address bankNumber = 0 := rfl

/-- C34 (amended). Background composition takes the character attributes from bank 1 of
display RAM, at the character's map address, in every mode: the cartridge header is not
consulted (`isCgbMode` is read by `drawFrame` only).  So the attributes are zero (palette 0,
character data from bank 0, no horizontal or vertical flip, no background priority) for every
character whose byte in bank 1 is zero, which is the case for all of them after construction
and as long as the program stores nothing in bank 1; a non-zero byte in bank 1 is used as
attributes also on a cartridge without colour support. -/
theorem background_attributes_come_from_bank_one (s : Cpu) (frameBuffer : FrameBuffer) :
    (∀ x, x < 160 →
      (transferPixelLine_background s frameBuffer).pixel (s.m_memory.LY * 160 + x) =
        backgroundPixel s x
          (s.m_memory.readDisplayRam (backgroundCharacterAddress s x) 0)
          (s.m_memory.readDisplayRam (backgroundCharacterAddress s x) 1)) ∧
    (∀ x, x < 160 → s.m_memory.readDisplayRam (backgroundCharacterAddress s x) 1 = 0 →
      (transferPixelLine_background s frameBuffer).pixel (s.m_memory.LY * 160 + x) =
        backgroundPixel s x (s.m_memory.readDisplayRam (backgroundCharacterAddress s x) 0) 0) ∧
    (∀ x characterCode,
      (backgroundPixel s x characterCode 0).backgroundPriority = false ∧
        (backgroundPixel s x characterCode 0).cgbColor =
          (s.m_displayController.m_bgColorPalettes 0).color
            (backgroundPixel s x characterCode 0).backgroundValue ∧
        (backgroundPixel s x characterCode 0).backgroundValue =
          (((s.m_memory.readDisplayRam
              (((if s.m_memory.LCDC &&& 0x10 ≠ 0 then (0x8000 + characterCode * 16) % 65536
                else u16 (0x9000 + s8 characterCode * 16))
                + (s.m_memory.LY + s.m_memory.SCY) % 256 % 8 * 2 + 1) % 65536) 0
            >>> (7 - (x + s.m_memory.SCX) % 256 % 8)) &&& 1) <<< 1)
          ||| ((s.m_memory.readDisplayRam
              (((if s.m_memory.LCDC &&& 0x10 ≠ 0 then (0x8000 + characterCode * 16) % 65536
                else u16 (0x9000 + s8 characterCode * 16))
                + (s.m_memory.LY + s.m_memory.SCY) % 256 % 8 * 2) % 65536) 0
            >>> (7 - (x + s.m_memory.SCX) % 256 % 8)) &&& 1)) ∧
    (∀ (rom : ByteVector) (address : Nat), (Memory.defaults rom).readDisplayRam address 1 = 0) := by
  refine ⟨fun x hx => transferPixelLine_background_apply s frameBuffer x hx, ?_, ?_,
    fun rom address => defaults_readDisplayRam rom address 1⟩
  · intro x hx h0
    rw [transferPixelLine_background_apply s frameBuffer x hx, h0]
  · intro x characterCode
    have h := backgroundPixel_zero_attributes s x characterCode
    exact ⟨congrArg Pixel.backgroundPriority h, congrArg Pixel.cgbColor h,
      congrArg Pixel.backgroundValue h⟩

/-- On the freshly constructed machine of a cartridge without colour support, every column of
the line is composed with attributes zero. -/
theorem background_attributes_come_from_bank_one_witness :
    (Cpu.init (Memory.defaults (programRom []))).isCgbMode = false ∧
      (∀ x, x < 160 →
        (transferPixelLine_background (Cpu.init (Memory.defaults (programRom [])))
            blankFrameBuffer).pixel
          ((Cpu.init (Memory.defaults (programRom []))).m_memory.LY * 160 + x) =
        backgroundPixel (Cpu.init (Memory.defaults (programRom []))) x
          ((Cpu.init (Memory.defaults (programRom []))).m_memory.readDisplayRam
            (backgroundCharacterAddress (Cpu.init (Memory.defaults (programRom []))) x) 0) 0) :=
  ⟨by decide, fun x hx =>
    (background_attributes_come_from_bank_one (Cpu.init (Memory.defaults (programRom [])))
      blankFrameBuffer).2.1 x hx rfl⟩

/-- Claim C34 fails: on the machine of a cartridge without colour support (header byte
`0x0143` is 0) that has stored `0x88` in bank 1 at the map address of the first character and
`0xFF` in the first row of character 0 of bank 1, the first column of line 0 is composed with
attributes `0x88`: the pixel has background priority and colour 1 of `BGP`, where attributes
zero give no priority and colour 0. -/
theorem bank_one_attributes_used_without_colour_support :
    bankOneState.m_memory.read 0x143 = 0 ∧
    bankOneState.isCgbMode = false ∧
    bankOneState.m_memory.LY = 0 ∧
    bankOneState.m_memory.readDisplayRam (backgroundCharacterAddress bankOneState 0) 1 = 0x88 ∧
    ((transferPixelLine_background bankOneState blankFrameBuffer).pixel
        (bankOneState.m_memory.LY * 160 + 0)).backgroundPriority = true ∧
    ((transferPixelLine_background bankOneState blankFrameBuffer).pixel
        (bankOneState.m_memory.LY * 160 + 0)).dmgColor = 1 ∧
    (backgroundPixel bankOneState 0
        (bankOneState.m_memory.readDisplayRam (backgroundCharacterAddress bankOneState 0) 0)
        0).backgroundPriority = false ∧
    (backgroundPixel bankOneState 0
        (bankOneState.m_memory.readDisplayRam (backgroundCharacterAddress bankOneState 0) 0)
        0).dmgColor = 0 :=
  ⟨by decide, by decide, by decide, by decide,
    (congrArg Pixel.backgroundPriority
      (transferPixelLine_background_apply bankOneState blankFrameBuffer 0 (by decide))).trans
      (by decide),
    (congrArg Pixel.dmgColor
      (transferPixelLine_background_apply bankOneState blankFrameBuffer 0 (by decide))).trans
      (by decide),
    by decide, by decide⟩

end DisplayController
end CppGB

/-! # The noise register -/

namespace CppGB
namespace SoundController

/-- The step depends on `NR43` through bit 3 only. -/
theorem lfsrStep_width (NR43 lfsr : Nat) :
    lfsrStep NR43 lfsr = if NR43 &&& 0x08 ≠ 0 then lfsrStep 0x08 lfsr else lfsrStep 0x00 lfsr := by
  unfold lfsrStep
  by_cases h : NR43 &&& 0x08 ≠ 0
  · rw [if_pos h, if_pos h, if_pos (by decide)]
  · rw [if_neg h, if_neg h, if_neg (by decide)]

/-- The XOR of two bits. -/
theorem xor_bits (a b : Nat) (ha : a < 2) (hb : b < 2) : a ^^^ b = (a + b) % 2 := by
  interval_cases a <;> interval_cases b <;> rfl

/-- The step in the 15-bit width, in arithmetic. -/
theorem lfsrStep_wide (x : Nat) (hx : x < 0x8000) :
    lfsrStep 0x00 x = 16384 * ((x / 2 % 2 + x % 2) % 2) + x / 2 := by
  unfold lfsrStep
  simp only []
  rw [if_neg (by decide)]
  have h1 : x &&& 1 = x % 2 := Nat.and_one_is_mod x
  have h2 : x >>> 1 = x / 2 := Nat.shiftRight_eq_div_pow x 1
  have h3 : (x / 2) &&& 1 = x / 2 % 2 := Nat.and_one_is_mod (x / 2)
  rw [h1, h2, h3, xor_bits _ _ (Nat.mod_lt _ (by decide)) (Nat.mod_lt _ (by decide)),
    Nat.shiftLeft_eq, Nat.lor_comm, Nat.mul_comm]
  have h4 := Nat.mul_add_lt_is_or (show x / 2 < 2 ^ 14 by omega) ((x / 2 % 2 + x % 2) % 2)
  rw [← h4]
  omega

/-- The step in the 7-bit width: the bound and the low seven bits, in arithmetic. -/
theorem lfsrStep_narrow (x : Nat) (hx : x < 0x8000) :
    lfsrStep 0x08 x < 0x8000 ∧
      lfsrStep 0x08 x &&& 0x7F = 64 * ((x / 2 % 2 + x % 2) % 2) + x / 2 % 64 := by
  have hw := lfsrStep_wide x hx
  have hstep : lfsrStep 0x08 x
      = ((((x / 2 % 2 + x % 2) % 2) <<< 6) ||| (lfsrStep 0x00 x &&& 0xFFBF)) % 65536 := by
    unfold lfsrStep
    simp only []
    rw [if_pos (by decide), if_neg (by decide)]
    have h1 : x &&& 1 = x % 2 := Nat.and_one_is_mod x
    have h2 : x >>> 1 = x / 2 := Nat.shiftRight_eq_div_pow x 1
    have h3 : (x / 2) &&& 1 = x / 2 % 2 := Nat.and_one_is_mod (x / 2)
    rw [h1, h2, h3, xor_bits _ _ (Nat.mod_lt _ (by decide)) (Nat.mod_lt _ (by decide))]
  generalize hr : (x / 2 % 2 + x % 2) % 2 = r at hw hstep
  have hr2 : r < 2 := by omega
  have hs : lfsrStep 0x00 x < 2 ^ 15 := by omega
  have hm : lfsrStep 0x00 x &&& 0xFFBF < 2 ^ 15 := Nat.lt_of_le_of_lt Nat.and_le_left hs
  have hl : r <<< 6 < 2 ^ 15 := by
    rw [Nat.shiftLeft_eq]
    omega
  have hor : (r <<< 6) ||| (lfsrStep 0x00 x &&& 0xFFBF) < 2 ^ 15 := Nat.or_lt_two_pow hl hm
  have hmod : lfsrStep 0x08 x = (r <<< 6) ||| (lfsrStep 0x00 x &&& 0xFFBF) := by
    rw [hstep]
    exact Nat.mod_eq_of_lt (by omega)
  refine ⟨by rw [hmod]; exact hor, ?_⟩
  rw [hmod, Nat.and_distrib_right, Nat.land_assoc]
  have hmask : (0xFFBF : Nat) &&& 0x7F = 2 ^ 6 - 1 := by decide
  have hlow : r <<< 6 &&& 0x7F = 2 ^ 6 * r := by
    interval_cases r <;> rfl
  rw [hmask, Nat.and_pow_two_sub_one_eq_mod, hlow, hw]
  have h4 := Nat.mul_add_lt_is_or (show (16384 * r + x / 2) % 2 ^ 6 < 2 ^ 6 from
    Nat.mod_lt _ (by decide)) r
  rw [← h4]
  omega

/-- Every step keeps the register below `0x8000`. -/
theorem lfsrStep_bound (NR43 x : Nat) (hx : x < 0x8000) : lfsrStep NR43 x < 0x8000 := by
  rw [lfsrStep_width]
  split
  · exact (lfsrStep_narrow x hx).1
  · rw [lfsrStep_wide x hx]
    omega

theorem lfsrRun_bound (widths : List Nat) :
    ∀ x, x < 0x8000 → lfsrRun widths x < 0x8000 := by
  induction widths with
  | nil =>
    intro x hx
    exact hx
  | cons w rest ih =>
    intro x hx
    exact ih _ (lfsrStep_bound w x hx)

/-- In the 15-bit width a non-zero register stays non-zero. -/
theorem lfsrRun_wide (NR43 : Nat) (hw : ¬ NR43 &&& 0x08 ≠ 0) (n : Nat) :
    ∀ x, x < 0x8000 → x ≠ 0 → lfsrRun (List.replicate n NR43) x ≠ 0 := by
  induction n with
  | zero =>
    intro x _ h0
    exact h0
  | succ n ih =>
    intro x hx h0
    refine ih _ (lfsrStep_bound NR43 x hx) ?_
    rw [lfsrStep_width, if_neg hw, lfsrStep_wide x hx]
    by_cases h2 : x / 2 = 0
    · have h1 : x = 1 := by omega
      subst h1
      decide
    · intro hz
      exact h2 (Nat.eq_zero_of_add_eq_zero_left hz)

/-- In the 7-bit width the low seven bits stay non-zero. -/
theorem lfsrRun_narrow (NR43 : Nat) (hw : NR43 &&& 0x08 ≠ 0) (n : Nat) :
    ∀ x, x < 0x8000 → x &&& 0x7F ≠ 0 → lfsrRun (List.replicate n NR43) x &&& 0x7F ≠ 0 := by
  induction n with
  | zero =>
    intro x _ h0
    exact h0
  | succ n ih =>
    intro x hx h0
    refine ih _ (lfsrStep_bound NR43 x hx) ?_
    have hm : x &&& 0x7F = x % 2 ^ 7 := Nat.and_pow_two_sub_one_eq_mod x 7
    rw [hm] at h0
    rw [lfsrStep_width, if_pos hw, (lfsrStep_narrow x hx).2]
    omega

/-- C35 (amended). Starting from the restart value `0x7FFF`, which `writeToNR44` loads when
bit 7 of the value is set, and applying the step rule any number of times: the register stays
below `0x8000` whatever `NR43` bit 3 is at each step, and with `NR43` bit 3 the same at every
step, in either width, it never becomes 0. -/
theorem lfsr_never_zero_in_one_width :
    (∀ (value : Nat) (s : Cpu), value &&& 0x80 ≠ 0 →
      (writeToNR44 value s).m_soundController.m_channel4_lfsr = 0x7FFF) ∧
    (∀ widths : List Nat, lfsrRun widths 0x7FFF < 0x8000) ∧
    (∀ NR43 n : Nat, lfsrRun (List.replicate n NR43) 0x7FFF ≠ 0) := by
  refine ⟨?_, fun widths => lfsrRun_bound widths _ (by decide), ?_⟩
  · intro value s hv
    unfold writeToNR44
    dsimp only
    rw [if_pos hv]
  · intro NR43 n
    by_cases hw : NR43 &&& 0x08 ≠ 0
    · intro h0
      have h := lfsrRun_narrow NR43 hw n 0x7FFF (by decide) (by decide)
      rw [h0] at h
      exact h rfl
    · exact lfsrRun_wide NR43 hw n 0x7FFF (by decide) (by decide)

/-- With `NR43` bit 3 changed between steps the register locks up: two steps in the 15-bit
width, six in the 7-bit width and eight in the 15-bit width take `0x7FFF` to `0x0080`, and one
step in the 7-bit width takes `0x0080` to 0, where every later step leaves it. -/
theorem lfsr_locks_up_on_width_change :
    lfsrRun (lfsrLockUpWidths.take 16) 0x7FFF = 0x0080 ∧
      lfsrRun lfsrLockUpWidths 0x7FFF = 0 ∧
      lfsrStep 0x00 0 = 0 ∧ lfsrStep 0x08 0 = 0 := by
  decide

end SoundController
end CppGB

/-! # The prefixed opcodes -/

namespace CppGB
namespace Cpu

/-- One arm of a flat chain of `if b = k` tests over increasing `k`. -/
theorem table_ite {b k : Nat} {a rest x : Cpu} (ha : b = k → a = x)
    (hrest : k + 1 ≤ b → rest = x) : k ≤ b → (if b = k then a else rest) = x := by
  intro hk
  by_cases h : b = k
  · rw [if_pos h]
    exact ha h
  · rw [if_neg h]
    exact hrest (by omega)

set_option maxRecDepth 100000 in
set_option maxHeartbeats 4000000 in
/-- C36. The 256-case switch of the prefixed opcodes equals the table decode by bit fields:
for every byte `b`, `executeOpcodeCB b` (the source's switch, arm by arm) is the function
`specExecuteCB b`, which takes the operand from entry `b & 7` of (`B`, `C`, `D`, `E`, `H`,
`L`, `(HL)`, `A`), below `0x40` applies entry `(b >> 3) & 7` of (RLC, RRC, RL, RR, SLA, SRA,
SWAP, SRL), and otherwise lets `b >> 6` select BIT, RES or SET on bit `(b >> 3) & 7`; for
`(HL)` the byte is read from memory at `HL` and every operation except BIT writes its result
back there. -/
theorem cb_switch_equals_table_decode (b : Nat) (hb : b < 256) (s : Cpu) :
    executeOpcodeCB b s = specExecuteCB b s := by
  have h0 : 0 ≤ b := Nat.zero_le b
  revert h0
  unfold executeOpcodeCB specExecuteCB specOperandRead specOperandWrite
  generalize writeToMemory = w
  generalize readMemory_u8 = r
  repeat' (with_reducible apply table_ite)
  all_goals first
    | (intro h
       subst h
       rfl)
    | (intro h
       omega)

/-- The table decode at `0x86` (RES 0,(HL)) and at `0x46` (BIT 0,(HL)): the first reads the
byte at `HL` and writes it back with bit 0 cleared, the second reads it and writes nothing. -/
theorem cb_switch_equals_table_decode_witness :
    (0x86 : Nat) < 256 ∧
      (∀ s : Cpu, executeOpcodeCB 0x86 s = specExecuteCB 0x86 s) ∧
      (∀ s : Cpu, specExecuteCB 0x86 s =
        writeToMemory (readMemory_u8 s.m_registers.HL s).2.m_registers.HL
          (res (readMemory_u8 s.m_registers.HL s).1 0) (readMemory_u8 s.m_registers.HL s).2) ∧
      (∀ s : Cpu, specExecuteCB 0x46 s =
        { (readMemory_u8 s.m_registers.HL s).2 with
          m_registers := bit (readMemory_u8 s.m_registers.HL s).1 0
            (readMemory_u8 s.m_registers.HL s).2.m_registers }) :=
  ⟨by decide, fun s => cb_switch_equals_table_decode 0x86 (by decide) s,
    fun s => by
      unfold specExecuteCB specOperandRead specOperandWrite
      generalize writeToMemory = w
      generalize readMemory_u8 = r
      rfl,
    fun s => by
      unfold specExecuteCB specOperandRead
      generalize readMemory_u8 = r
      rfl⟩

end Cpu
end CppGB

/-! # Bank indices and array bounds -/

namespace CppGB

set_option maxRecDepth 100000

namespace Memory

/-- The register arm of `Memory::write` for `SVBK` stores the value as it is. -/
theorem write_SVBK_register (m : Memory) (v : Nat) : (m.write 0xFF70 v).SVBK = v := by
  unfold write
  iterate 8 rw [if_neg (by decide)]
  unfold writeRegister
  iterate 52 rw [if_neg (by decide)]
  rw [if_pos rfl]

/-- In the banked half of work RAM the index stays inside the array exactly for `SVBK` up to 7. -/
theorem workRamIndex_banked (m : Memory) (a : Nat) (h1 : 0xD000 ≤ a) (h2 : a ≤ 0xDFFF) :
    m.workRamIndex a = a - 0xC000 + ((if m.SVBK = 0 then 1 else m.SVBK) - 1) * 0x1000 ∧
      (m.workRamIndex a < 0x8000 ↔ m.SVBK ≤ 7) := by
  have e : m.workRamIndex a
      = a - 0xC000 + ((if m.SVBK = 0 then 1 else m.SVBK) - 1) * 0x1000 := by
    unfold workRamIndex
    simp only [WORKRAM_START_ADDRESS, WORKRAM_BANK_SIZE]
    rw [if_neg (by omega)]
  refine ⟨e, ?_⟩
  rw [e]
  by_cases h0 : m.SVBK = 0
  · rw [if_pos h0]
    omega
  · rw [if_neg h0]
    omega

end Memory

namespace Cpu

/-- C38 fails for `SVBK` from 8 up. `Memory::write` stores the byte written to `0xFF70`
unmasked, and for an address in `0xD000..0xDFFF` the index is `address - 0xC000 +
(SVBK - 1) * 0x1000` (bank 1 for `SVBK = 0`), inside the array of `0x8000` bytes exactly for
`SVBK` up to 7. After `LD A,08; LDH (70),A` on a fresh machine `SVBK` is 8 and the index that
`LD A,(D000)` is about to read is `0x8000`, the first one past `m_workRam`. -/
theorem svbk_index_outside_work_ram :
    (∀ (m : Memory) (v : Nat), (m.write 0xFF70 v).SVBK = v) ∧
    (∀ (m : Memory) (a : Nat), 0xD000 ≤ a → a ≤ 0xDFFF →
      (m.workRamIndex a < Memory.workRamLength ↔ m.SVBK ≤ 7)) ∧
    (∃ s, run (List.replicate 2 noKeys) (Cpu.init (Memory.defaults svbkRom)) = Except.ok s ∧
      s.m_memory.SVBK = 8 ∧ s.m_memory.workRamIndex 0xD000 = 0x8000 ∧
      ¬ s.m_memory.workRamIndex 0xD000 < Memory.workRamLength ∧
      s.m_memory.read 0xD000 = s.m_memory.m_workRam 0x8000 ∧
      (s.m_memory.write 0xD000 0x5A).m_workRam 0x8000 = 0x5A) :=
  ⟨Memory.write_SVBK_register,
    fun m a h1 h2 => (Memory.workRamIndex_banked m a h1 h2).2,
    ⟨_, rfl, rfl, rfl, by decide, rfl, rfl⟩⟩

/-- C37 fails from bank 8 up. The position is a `u16`: for bank `b` below 16 and offset `o`
below `0x2000` it is `(b % 8) * 0x2000 + o`, so banks `b` and `b + 8` share their bytes and
the upper `0x10000` bytes of the `0x20000` are never reached. On the machine built from an
MBC1 + RAM image with size code 4, a program selects bank 8, stores `0x5A` at `0xA000` and
selects bank 0: `0xA000` read `0x00` before and reads `0x5A` now, and the byte `0x10000` of
external RAM is still `0x00`. -/
theorem external_ram_bank_8_is_bank_0 :
    (∀ (m : Memory) (b o : Nat), b < 16 → o < 0x2000 →
      ({ m with m_externalRamBankNumber := b } : Memory).externalRamPosition (0xA000 + o)
        = (b % 8) * 0x2000 + o) ∧
    ramBankState.m_memory.m_externalRam.size = 0x20000 ∧
    ramBankState.m_memory.m_externalRamBankNumber = 0 ∧
    ramBankState.m_memory.read 0xA000 = 0x00 ∧
    (busSteps (ramBankWrites.take 1) ramBankState).m_memory.m_externalRamBankNumber = 8 ∧
    (busSteps (ramBankWrites.take 1) ramBankState).m_memory.externalRamPosition 0xA000 = 0 ∧
    (busSteps ramBankWrites ramBankState).m_memory.m_externalRamBankNumber = 0 ∧
    (busSteps ramBankWrites ramBankState).m_memory.read 0xA000 = 0x5A ∧
    (busSteps ramBankWrites ramBankState).m_memory.m_externalRam.data 0x10000 = 0x00 := by
  refine ⟨?_, by decide, by decide, by decide, by decide, by decide, by decide, by decide,
    by decide⟩
  intro m b o hb ho
  unfold Memory.externalRamPosition
  simp only [Memory.EXTERNALRAM_START_ADDRESS, Memory.EXTERNALRAM_BANK_SIZE]
  omega

/-- C39 fails for transfers of more than one block. The destination starts at most at
`0x1FF0` and is incremented once per byte without a bound, so `performHdmaTransfer(n)` with
`n` from 1 up can run past the bank, and with `VBK = 1` past the array of `0x4000` bytes. On
a fresh machine a program sets the source to `0x0100`, the destination to `0x1FF0` and `VBK`
to 1 and writes `0x01` to `HDMA5`: the 32 bytes go to the indices `0x3FF0..0x400F`, so the
program bytes 16..31 land on `0x4000..0x400F`, past `m_displayRam`. -/
theorem hdma_transfer_runs_past_display_ram :
    (Cpu.init (Memory.defaults (programRom (List.range 64)))).m_memory.HDMA5 &&& 0x80 ≠ 0 ∧
    (Cpu.init (Memory.defaults (programRom (List.range 64)))).m_memory.m_displayRam 0x4000 = 0 ∧
    (busSteps (hdmaOverrunWrites.take 5)
      (Cpu.init (Memory.defaults (programRom (List.range 64))))).m_memory.hdmaDestination
        = 0x1FF0 ∧
    (busSteps (hdmaOverrunWrites.take 5)
      (Cpu.init (Memory.defaults (programRom (List.range 64))))).m_memory.VBK = 1 ∧
    (busSteps hdmaOverrunWrites
      (Cpu.init (Memory.defaults (programRom (List.range 64))))).m_memory.m_displayRam 0x3FFF
        = 15 ∧
    (busSteps hdmaOverrunWrites
      (Cpu.init (Memory.defaults (programRom (List.range 64))))).m_memory.m_displayRam 0x4000
        = 16 ∧
    (busSteps hdmaOverrunWrites
      (Cpu.init (Memory.defaults (programRom (List.range 64))))).m_memory.m_displayRam 0x400F
        = 31 ∧
    ¬ 0x4000 < Memory.displayRamLength := by
  decide

/-- C40 fails after a switch to a shorter period. `incrementTIMA` counts up and ticks `TIMA`
when the counter equals the period, and a write to `TAC` leaves the counter alone. On a fresh
machine a program starts the timer with the period of 256 cycles, lets four cycles pass and
selects the period of 4 cycles: the counter is 6, not below the period 4, and `TIMA` is not
incremented in the next 4 machine cycles, nor in the next 64. -/
theorem timer_stalls_after_period_switch :
    (busSteps tacSwitchActions (Cpu.init (Memory.defaults (programRom [])))).m_memory.TAC
      = 0x05 ∧
    timaPeriod
      (busSteps tacSwitchActions (Cpu.init (Memory.defaults (programRom [])))).m_memory.TAC
      = 4 ∧
    (busSteps tacSwitchActions
      (Cpu.init (Memory.defaults (programRom [])))).incrementTIMA_cycleCounter = 6 ∧
    (busSteps tacSwitchActions (Cpu.init (Memory.defaults (programRom [])))).m_memory.TIMA
      = 0 ∧
    (∀ k, k ≤ 64 →
      (doCycle k (busSteps tacSwitchActions
        (Cpu.init (Memory.defaults (programRom []))))).m_memory.TIMA = 0) := by
  decide

end Cpu
end CppGB
